import Mathlib

/-!
# INSERT statement compilation: a shallow embedding of `src/box/sql/insert.c`

The C functions of `insert.c` are translated into pure Lean functions over an explicit
compilation context (`Parse`).  The program under construction is the list `Parse.aOp`;
an address is a position in that list.

Conventions of the embedding

* C `int` operands (registers, cursors, jump targets) are `Int`; the allocation counters
  `Parse.nMem` and `Parse.nTab`, which only ever grow, are `Nat`; counts that are array
  lengths (`nCol`, `nColumn`, `nId`, `nExpr`, `nSrc`) are the lengths of the corresponding
  lists.
* A long C function is translated as a chain of definitions, one per consecutive block of
  the source; each names the lines of `insert.c` it covers.
* Linked lists (`pIndex`/`pNext`, `pTrigger`/`pNext`) are Lean lists, `NULL` is `[]`.
* A pointer that may be `NULL` is an `Option`; a pointer whose target is never inspected by
  this file is a `Bool` telling whether it is non-`NULL`.
* `assert(...)` is a no-op (release build).  Dereferencing a `NULL` primary-key index is
  a fault: the function returns `none`.
* Memory allocation always succeeds; `db->mallocFailed` is an input flag only.
* Code generators that live outside `insert.c` and whose output is never inspected by
  `insert.c` (expression code, trigger programs, row deletion, foreign-key checks) are
  recorded in the program as one `CALL_*` entry carrying the arguments of the call.
  The sub-select compiler, whose output `readsTable` does inspect, is a parameter
  (`Extern.sqlite3Select`) that supplies the instructions it appends.
-/

namespace SqlInsert

/-! ## Data model -/

/-- The enumeration `on_conflict_action` (`ON_CONFLICT_ACTION_*`). -/
inductive on_conflict_action
  | ON_CONFLICT_ACTION_NONE
  | ON_CONFLICT_ACTION_ROLLBACK
  | ON_CONFLICT_ACTION_ABORT
  | ON_CONFLICT_ACTION_FAIL
  | ON_CONFLICT_ACTION_IGNORE
  | ON_CONFLICT_ACTION_REPLACE
  | ON_CONFLICT_ACTION_DEFAULT
  deriving DecidableEq, Repr, Inhabited

open on_conflict_action

/-- Token codes (`TK_*`) that `insert.c` tests; any other token code is `TK_OTHER n`. -/
inductive TokenKind
  | TK_NULL
  | TK_REGISTER
  | TK_ASTERISK
  | TK_COLUMN
  | TK_SPAN
  | TK_INSERT
  | TK_DELETE
  | TK_OTHER (n : Nat)
  deriving DecidableEq, Repr, Inhabited

open TokenKind

/-- An expression tree (`Expr`): the fields `op`, `iTable`, `iColumn`, `u.zToken` and up to
two sub-expressions. -/
inductive Expr
  | term (op : TokenKind) (iTable : Int) (iColumn : Int) (zToken : String)
  | unary (op : TokenKind) (iTable : Int) (iColumn : Int) (zToken : String) (pLeft : Expr)
  | binary (op : TokenKind) (iTable : Int) (iColumn : Int) (zToken : String)
      (pLeft : Expr) (pRight : Expr)
  deriving DecidableEq, Repr, Inhabited

/-- The field `pExpr->op`. -/
def Expr.op : Expr → TokenKind
  | .term op _ _ _ => op
  | .unary op _ _ _ _ => op
  | .binary op _ _ _ _ _ => op

/-- The field `pExpr->iTable`. -/
def Expr.iTable : Expr → Int
  | .term _ t _ _ => t
  | .unary _ t _ _ _ => t
  | .binary _ t _ _ _ _ => t

/-- The field `pExpr->iColumn`. -/
def Expr.iColumn : Expr → Int
  | .term _ _ c _ => c
  | .unary _ _ c _ _ => c
  | .binary _ _ c _ _ _ => c

/-- The field `pExpr->u.zToken`. -/
def Expr.zToken : Expr → String
  | .term _ _ _ z => z
  | .unary _ _ _ z _ => z
  | .binary _ _ _ z _ _ => z

/-- One entry `pList->a[i]` of an `ExprList`. -/
structure ExprList_item where
  pExpr : Expr
  zName : Option String := none
  sortOrder : Nat := 0
  deriving DecidableEq, Repr, Inhabited

/-- An `ExprList`: `nExpr` is the length of the list. -/
abbrev ExprList := List ExprList_item

/-- One entry of an `IdList`: the column name and, once resolved, its table ordinal. -/
structure IdList_item where
  zName : String
  idx : Int := -1
  deriving DecidableEq, Repr, Inhabited

/-- An `IdList`: `nId` is the length of the list. -/
abbrev IdList := List IdList_item

/-- One term of a FROM clause (`struct SrcList_item`). -/
structure SrcList_item where
  zName : String
  /-- Whether `pSelect` (a sub-query in the FROM clause) is non-NULL. -/
  pSelect : Bool := false
  deriving DecidableEq, Repr, Inhabited

/-- A `SrcList`: `nSrc` is the length of the list. -/
abbrev SrcList := List SrcList_item

/-- A parsed SELECT (`Select`), with the fields `insert.c` reads. -/
structure Select where
  pEList : ExprList
  /-- The bit `selFlags & SF_Values`. -/
  SF_Values : Bool := false
  /-- The bit `selFlags & SF_Distinct`. -/
  SF_Distinct : Bool := false
  pSrc : SrcList := []
  pWhere : Option Expr := none
  pOrderBy : Option ExprList := none
  pGroupBy : Option ExprList := none
  pLimit : Option Expr := none
  pOffset : Option Expr := none
  /-- Whether `pPrior` (the left operand of a compound SELECT) is non-NULL. -/
  pPrior : Bool := false
  /-- Whether `pWith` is non-NULL. -/
  pWith : Bool := false
  deriving DecidableEq, Repr, Inhabited

/-- A table column (`Column`).  `is_nullable` and `nullable_action` are what
`table_column_is_nullable` and `table_column_nullable_action` report for the column. -/
structure Column where
  zName : String
  pDflt : Option Expr := none
  zColl : Option String := none
  affinity : Char := 'A'
  is_nullable : Bool := true
  nullable_action : on_conflict_action := ON_CONFLICT_ACTION_NONE
  deriving DecidableEq, Repr, Inhabited

/-- An index (`Index`).  `nColumn` is the length of `aiColumn`. -/
structure Index where
  zName : String
  tnum : Int
  aiColumn : List Int
  nKeyCol : Nat
  onError : on_conflict_action := ON_CONFLICT_ACTION_NONE
  idxType : Nat := 0
  uniqNotNull : Bool := false
  aSortOrder : List Nat := []
  azColl : List (Option String) := []
  aColExpr : Option ExprList := none
  pPartIdxWhere : Option Expr := none
  deriving DecidableEq, Repr, Inhabited

/-- The field `pIdx->nColumn`. -/
def Index.nColumn (pIdx : Index) : Nat := pIdx.aiColumn.length

/-- A trigger (`Trigger`): the statement kind it fires on and its time mask. -/
structure Trigger where
  zName : String
  op : TokenKind
  tr_tm : Nat
  deriving DecidableEq, Repr, Inhabited

/-- A foreign key declared on a table (`FKey`). -/
structure FKey where
  zTo : String
  deriving DecidableEq, Repr, Inhabited

/-- A table (`Table`).  `nCol` is the length of `aCol`; `pIndex` is the index list. -/
structure Table where
  zName : String
  aCol : List Column
  pIndex : List Index := []
  pSelect : Option Select := none
  pFKey : List FKey := []
  zColAff : Option (List Char) := none
  pCheck : Option ExprList := none
  tnum : Int := 0
  iPKey : Int := -1
  iAutoIncPKey : Int := -1
  keyConf : on_conflict_action := ON_CONFLICT_ACTION_DEFAULT
  /-- The bit `tabFlags & TF_Autoincrement`. -/
  TF_Autoincrement : Bool := false
  pTrigger : List Trigger := []
  deriving DecidableEq, Repr, Inhabited

/-- The field `pTab->nCol`. -/
def Table.nCol (pTab : Table) : Nat := pTab.aCol.length

/-- VDBE opcodes emitted by `insert.c`.  `OP_Other n` is any other opcode (it can occur in
code compiled elsewhere).  A `CALL_f` entry records a call of the external code generator
`f`. -/
inductive Opcode
  | OP_Init
  | OP_Int64
  | OP_OpenRead
  | OP_OpenWrite
  | OP_OpenTEphemeral
  | OP_Affinity
  | OP_InitCoroutine
  | OP_EndCoroutine
  | OP_Yield
  | OP_NextIdEphemeral
  | OP_Copy
  | OP_SCopy
  | OP_FCopy
  | OP_MakeRecord
  | OP_IdxInsert
  | OP_IdxReplace
  | OP_Goto
  | OP_Integer
  | OP_Rewind
  | OP_Column
  | OP_Null
  | OP_AddImm
  | OP_Next
  | OP_Close
  | OP_ResultRow
  | OP_HaltIfNull
  | OP_Halt
  | OP_IsNull
  | OP_NotNull
  | OP_MustBeInt
  | OP_NoConflict
  | OP_Ne
  | OP_Eq
  | OP_RowData
  | OP_Other (n : Nat)
  | CALL_sqlite3ExprCode
  | CALL_sqlite3ExprCodeFactorable
  | CALL_sqlite3ExprCodeAndCache
  | CALL_sqlite3ExprCodeCopy
  | CALL_sqlite3ExprIfTrue
  | CALL_sqlite3ExprIfFalseDup
  | CALL_sqlite3CodeRowTrigger
  | CALL_sqlite3FkCheck
  | CALL_sqlite3GenerateRowDelete
  deriving DecidableEq, Repr, Inhabited

open Opcode

/-- Symbolic names of the bits and codes stored in the P5 operand. -/
inductive OpFlag
  | OPFLAG_NCHANGE
  | OPFLAG_APPEND
  | OPFLAG_USESEEKRESULT
  | OPFLAG_BULKCSR
  | OPFLAG_OE_IGNORE
  | OPFLAG_OE_FAIL
  | SQLITE_NOTNULL
  | SQLITE_JUMPIFNULL
  | P5_ConstraintNotNull
  | P5_ConstraintUnique
  | P5_ConstraintCheck
  | ONEPASS_OFF
  | ONEPASS_SINGLE
  | RAW (n : Nat)
  deriving DecidableEq, Repr, Inhabited

open OpFlag

/-- A flag word: the list of the flags or-ed together, in the order of the source. -/
abbrev FlagWord := List OpFlag

/-- The P4 operand of an instruction. -/
inductive P4
  | P4_NOTUSED
  | P4_INT32 (n : Int)
  /-- The address of `space_by_id(space_id)`, stored as a 64-bit integer. -/
  | P4_SPACEPTR (space_id : Int)
  /-- A string operand (`P4_STATIC`, `P4_DYNAMIC`, `P4_TRANSIENT`). -/
  | P4_STRING (z : String)
  /-- A `KeyInfo`: the one of the named index, or a fresh one with `nField` fields. -/
  | P4_KEYINFO (nField : Int) (zIdx : Option String)
  | P4_COLLSEQ (zName : Option String)
  /-- The expression argument of a `CALL_*` entry. -/
  | P4_EXPR (pExpr : Option Expr)
  /-- Further arguments of a `CALL_*` entry. -/
  | P4_ARGS (onError : on_conflict_action) (n : Int) (hasTrigger : Bool)
  deriving DecidableEq, Repr, Inhabited

open P4

/-- One instruction of the program (`VdbeOp`). -/
structure VdbeOp where
  opcode : Opcode
  p1 : Int := 0
  p2 : Int := 0
  p3 : Int := 0
  p4 : P4 := P4_NOTUSED
  p5 : FlagWord := []
  deriving DecidableEq, Repr, Inhabited

/-- Session flags read through `current_session()->sql_flags`. -/
structure Session where
  SQLITE_CountRows : Bool := false
  SQLITE_ForeignKeys : Bool := false
  SQLITE_RecTriggers : Bool := false
  SQLITE_IgnoreChecks : Bool := false
  deriving DecidableEq, Repr, Inhabited

/-- The database handle (`sqlite3`): the out-of-memory flag and the schema. -/
structure sqlite3 where
  mallocFailed : Bool := false
  aTable : List Table := []
  deriving DecidableEq, Repr, Inhabited

/-- The compilation context (`Parse`) together with the `Vdbe` it owns and the session
returned by `current_session()`. -/
structure Parse where
  db : sqlite3 := {}
  user_session : Session := {}
  nErr : Nat := 0
  zErrMsg : Option String := none
  checkSchema : Bool := false
  nMem : Nat := 0
  nTab : Nat := 0
  nested : Nat := 0
  /-- Whether `pTriggerTab` is non-NULL. -/
  pTriggerTab : Bool := false
  /-- Whether `pWith` is non-NULL. -/
  pWith : Bool := false
  ckBase : Int := 0
  mayAbort : Bool := false
  isMultiWrite : Bool := false
  /-- Whether the `Vdbe` has been allocated. -/
  pVdbe : Bool := false
  aOp : List VdbeOp := []
  /-- Address of each label, `-1` while unresolved. -/
  aLabel : List Int := []
  changeCntOn : Bool := false
  /-- Names set by `sqlite3VdbeSetColName`. -/
  aColName : List String := []
  deriving DecidableEq, Repr, Inhabited

/-! ## Constants and macros of `sqliteInt.h` -/

/-- `XN_EXPR`: the column ordinal that marks an indexed expression. -/
def XN_EXPR : Int := -2

/-- `SQLITE_AFF_BLOB`. -/
def SQLITE_AFF_BLOB : Char := 'A'

/-- `SQLITE_OK`. -/
def SQLITE_OK : Int := 0

/-- `SQLITE_CONSTRAINT_NOTNULL` = `SQLITE_CONSTRAINT | (5<<8)`. -/
def SQLITE_CONSTRAINT_NOTNULL : Int := 1299

/-- `SQLITE_CONSTRAINT_CHECK` = `SQLITE_CONSTRAINT | (1<<8)`. -/
def SQLITE_CONSTRAINT_CHECK : Int := 275

/-- `SQLITE_CONSTRAINT_UNIQUE` = `SQLITE_CONSTRAINT | (8<<8)`. -/
def SQLITE_CONSTRAINT_UNIQUE : Int := 2067

/-- `SQLITE_CONSTRAINT_PRIMARYKEY` = `SQLITE_CONSTRAINT | (6<<8)`. -/
def SQLITE_CONSTRAINT_PRIMARYKEY : Int := 1555

/-- `OPFLAG_SAME_FRAME`, a bit of the P3 operand of `OP_FCopy`. -/
def OPFLAG_SAME_FRAME : Nat := 1

/-- `OPFLAG_NOOP_IF_NULL`, a bit of the P3 operand of `OP_FCopy`. -/
def OPFLAG_NOOP_IF_NULL : Nat := 2

/-- `TRIGGER_BEFORE`. -/
def TRIGGER_BEFORE : Nat := 1

/-- `TRIGGER_AFTER`. -/
def TRIGGER_AFTER : Nat := 2

/-- The macro `IsPrimaryKeyIndex(X)`: `(X)->idxType == SQLITE_IDXTYPE_PRIMARYKEY` (2). -/
def IsPrimaryKeyIndex (pIdx : Index) : Bool := pIdx.idxType == 2

/-- The macro `IsUniqueIndex(X)`: `(X)->onError != ON_CONFLICT_ACTION_NONE`. -/
def IsUniqueIndex (pIdx : Index) : Bool := pIdx.onError != ON_CONFLICT_ACTION_NONE

/-- The macro `SQLITE_PAGENO_TO_SPACEID(pgno)`: `pgno >> 10`. -/
def SQLITE_PAGENO_TO_SPACEID (pgno : Int) : Int := pgno / 1024

/-! ## The interface of the code generators outside `insert.c` -/

/-- The destination of a SELECT (`SelectDest`). -/
structure SelectDest where
  iSDParm : Int := 0
  iSdst : Int := 0
  nSdst : Int := 0
  deriving DecidableEq, Repr, Inhabited

/-- What one run of the sub-select compiler does to the compilation context: its result
code, the instructions it appends, the registers and cursors it allocates, the errors it
reports and the base register of its result row. -/
structure SelectResult where
  rc : Int := 0
  aOp : List VdbeOp := []
  nMem : Nat := 0
  nTab : Nat := 0
  nErr : Nat := 0
  mallocFailed : Bool := false
  iSdst : Int := 0
  /-- The result list `pSelect->pEList` once the sub-select has been prepared. -/
  pEList : ExprList := []
  deriving Repr, Inhabited

/-- The collaborators of `insert.c` that are parameters of the embedding. -/
structure Extern where
  /-- The sub-select compiler `sqlite3Select(pParse, pSelect, &dest)`. -/
  sqlite3Select : Parse → Select → SelectDest → SelectResult
  /-- The call `sqlite3TriggersExist(pTab, op, 0, &tmask)`: the trigger list and `tmask`. -/
  sqlite3TriggersExist : Table → TokenKind → List Trigger × Nat
  /-- Whether `sqlite3FkReferences(pTab)` is non-NULL. -/
  sqlite3FkReferences : Table → Bool
  /-- The diagnostic of `sqlite3ViewGetColumnNames(pParse, pTab)` when it fails. -/
  sqlite3ViewGetColumnNames : Parse → Table → Option String
  /-- The diagnostic of `sqlite3IsReadOnly(pParse, pTab, tmask)` when the table is
  read-only. -/
  sqlite3IsReadOnly : Parse → Table → Nat → Option String
  /-- The diagnostic of `sqlite3ResolveExprListNames(&sNC, pList)` when it fails. -/
  sqlite3ResolveExprListNames : Parse → ExprList → Option String

/-- Modelled from the spec: `sqlite3Select` is not part of `insert.c`.  The sub-select
compiler only appends instructions and only increases the register, cursor and error
counters of the compilation context (spec, Data model: the counters are monotonically
increasing); what it appends is given by `ext.sqlite3Select`. -/
def sqlite3Select (ext : Extern) (pParse : Parse) (p : Select) (pDest : SelectDest) :
    Int × Select × SelectDest × Parse :=
  let r := ext.sqlite3Select pParse p pDest
  (r.rc, { p with pEList := r.pEList }, { pDest with iSdst := r.iSdst },
    { pParse with
      aOp := pParse.aOp ++ r.aOp
      nMem := pParse.nMem + r.nMem
      nTab := pParse.nTab + r.nTab
      nErr := pParse.nErr + r.nErr
      db := { pParse.db with mallocFailed := pParse.db.mallocFailed || r.mallocFailed } })

/-- Modelled from the spec: `sqlite3ErrorMsg` is not part of `insert.c`.  It records the
diagnostic and counts the error (spec, Error handling: reported immediately, compilation
aborts). -/
def sqlite3ErrorMsg (pParse : Parse) (zMsg : String) : Parse :=
  { pParse with nErr := pParse.nErr + 1, zErrMsg := some zMsg }

/-- Modelled from the spec: `sqlite3LocateTableItem` is not part of `insert.c`.  Table
lookup by name in the schema (spec, Schema contract); an unknown table is reported at
once. -/
def sqlite3LocateTableItem (pParse : Parse) (pItem : SrcList_item) : Option Table × Parse :=
  match pParse.db.aTable.find? (fun t => t.zName == pItem.zName) with
  | some t => (some t, pParse)
  | none => (none, sqlite3ErrorMsg pParse ("no such table: " ++ pItem.zName))

/-- Modelled from the spec: `sqlite3SrcListLookup` is not part of `insert.c`.  It looks up
the single table named by the list (spec, Schema contract); a `NULL` result means an error
was reported. -/
def sqlite3SrcListLookup (pParse : Parse) (pTabList : SrcList) : Option Table × Parse :=
  match pTabList with
  | [] => (none, pParse)
  | pItem :: _ => sqlite3LocateTableItem pParse pItem

/-- Modelled from the spec: `sqlite3PrimaryKeyIndex` is not part of `insert.c`.  The first
index of the list that is the primary index (spec, Data model: every table has exactly one
designated primary index). -/
def sqlite3PrimaryKeyIndex (pTab : Table) : Option Index :=
  pTab.pIndex.find? IsPrimaryKeyIndex

/-- Modelled from the spec: `table_column_is_nullable` is not part of `insert.c`.  The
nullability flag of column `i` (spec, Data model). -/
def table_column_is_nullable (pTab : Table) (i : Nat) : Bool :=
  (pTab.aCol.getD i default).is_nullable

/-- Modelled from the spec: `table_column_nullable_action` is not part of `insert.c`.  The
declared NOT NULL conflict action of column `i`. -/
def table_column_nullable_action (pTab : Table) (i : Nat) : on_conflict_action :=
  (pTab.aCol.getD i default).nullable_action

/-- Modelled from the spec: `sqlite3_stricmp` is not part of `insert.c`.  Case-insensitive
comparison of two names, either of which may be `NULL`; `0` means equal. -/
def sqlite3_stricmp (zLeft zRight : Option String) : Int :=
  match zLeft, zRight with
  | none, none => 0
  | none, some _ => -1
  | some _, none => 1
  | some a, some b => if a.data.map Char.toLower = b.data.map Char.toLower then 0 else 1

/-- Modelled from the spec: `sqlite3ExprCompare` is not part of `insert.c`.  Structural
comparison of two expressions, either of which may be `NULL`; `0` means identical. -/
def sqlite3ExprCompare (pA pB : Option Expr) : Int :=
  if pA = pB then 0 else 2

/-- Modelled from the spec: `sqlite3ExprListCompare` is not part of `insert.c`.  Two lists
compare equal (`0`) when both are `NULL` or both have the same entries in the same order
(spec, Bulk transfer: identical CHECK constraints). -/
def sqlite3ExprListCompare (pA pB : Option ExprList) : Int :=
  match pA, pB with
  | none, none => 0
  | none, some _ => 1
  | some _, none => 1
  | some a, some b =>
    if a.length ≠ b.length then 1
    else if (List.zip a b).all
        (fun ab => ab.1.sortOrder == ab.2.sortOrder
          && sqlite3ExprCompare (some ab.1.pExpr) (some ab.2.pExpr) == 0) then 0
    else 1

/-! ## The VDBE program under construction -/

/-- Apply `f` to the instruction at address `addr`, if there is one. -/
def changeOpAt (f : VdbeOp → VdbeOp) : Nat → List VdbeOp → List VdbeOp
  | _, [] => []
  | 0, a :: l => f a :: l
  | n + 1, a :: l => a :: changeOpAt f n l

/-- Apply `f` to the last instruction, if there is one. -/
def changeLastOp (f : VdbeOp → VdbeOp) : List VdbeOp → List VdbeOp
  | [] => []
  | [a] => [f a]
  | a :: b :: l => a :: changeLastOp f (b :: l)

/-- Modelled from the spec: `sqlite3GetVdbe` is not part of `insert.c`.  It returns the
program of the compilation context, creating it (with its `OP_Init` at address 0) on
first use. -/
def sqlite3GetVdbe (pParse : Parse) : Parse :=
  if pParse.pVdbe then pParse
  else { pParse with pVdbe := true, aOp := pParse.aOp ++ [{ opcode := OP_Init, p2 := 1 }] }

/-- Modelled from the spec: `sqlite3VdbeCurrentAddr` is not part of `insert.c`.  The address
of the next instruction to be emitted. -/
def sqlite3VdbeCurrentAddr (pParse : Parse) : Nat := pParse.aOp.length

/-- Modelled from the spec: the `sqlite3VdbeAddOp*` family is not part of `insert.c`.  The
output is a flat program (spec, Output contract): one instruction is appended at the
current address. -/
def sqlite3VdbeAddOp (pParse : Parse) (op : VdbeOp) : Parse :=
  { pParse with aOp := pParse.aOp ++ [op] }

/-- The call `sqlite3VdbeAddOp0(v, op)`. -/
def sqlite3VdbeAddOp0 (pParse : Parse) (op : Opcode) : Parse :=
  sqlite3VdbeAddOp pParse { opcode := op }

/-- The call `sqlite3VdbeAddOp1(v, op, p1)`. -/
def sqlite3VdbeAddOp1 (pParse : Parse) (op : Opcode) (p1 : Int) : Parse :=
  sqlite3VdbeAddOp pParse { opcode := op, p1 := p1 }

/-- The call `sqlite3VdbeAddOp2(v, op, p1, p2)`. -/
def sqlite3VdbeAddOp2 (pParse : Parse) (op : Opcode) (p1 p2 : Int) : Parse :=
  sqlite3VdbeAddOp pParse { opcode := op, p1 := p1, p2 := p2 }

/-- The call `sqlite3VdbeAddOp3(v, op, p1, p2, p3)`. -/
def sqlite3VdbeAddOp3 (pParse : Parse) (op : Opcode) (p1 p2 p3 : Int) : Parse :=
  sqlite3VdbeAddOp pParse { opcode := op, p1 := p1, p2 := p2, p3 := p3 }

/-- The calls `sqlite3VdbeAddOp4`, `sqlite3VdbeAddOp4Int` and `sqlite3VdbeAddOp4Int64`. -/
def sqlite3VdbeAddOp4 (pParse : Parse) (op : Opcode) (p1 p2 p3 : Int) (p4 : P4) : Parse :=
  sqlite3VdbeAddOp pParse { opcode := op, p1 := p1, p2 := p2, p3 := p3, p4 := p4 }

/-- The call `sqlite3VdbeGoto(v, iDest)`. -/
def sqlite3VdbeGoto (pParse : Parse) (iDest : Int) : Parse :=
  sqlite3VdbeAddOp3 pParse OP_Goto 0 iDest 0

/-- The call `sqlite3VdbeJumpHere(v, addr)`: the jump at `addr` gets the current address
as its target P2. -/
def sqlite3VdbeJumpHere (pParse : Parse) (addr : Nat) : Parse :=
  { pParse with
    aOp := changeOpAt (fun o => { o with p2 := (pParse.aOp.length : Int) }) addr pParse.aOp }

/-- The call `sqlite3VdbeChangeP3(v, -1, val)`: the last instruction gets the P3 operand. -/
def sqlite3VdbeChangeP3 (pParse : Parse) (val : Int) : Parse :=
  { pParse with aOp := changeLastOp (fun o => { o with p3 := val }) pParse.aOp }

/-- The calls `sqlite3VdbeChangeP4(v, -1, ...)` and `sqlite3VdbeAppendP4`: the last
instruction gets the P4 operand. -/
def sqlite3VdbeChangeP4 (pParse : Parse) (p4 : P4) : Parse :=
  { pParse with aOp := changeLastOp (fun o => { o with p4 := p4 }) pParse.aOp }

/-- The call `sqlite3VdbeChangeP5(v, p5)`: the last instruction gets the P5 operand. -/
def sqlite3VdbeChangeP5 (pParse : Parse) (p5 : FlagWord) : Parse :=
  { pParse with aOp := changeLastOp (fun o => { o with p5 := p5 }) pParse.aOp }

/-- The call `sqlite3VdbeSetP4KeyInfo(pParse, pIdx)`: the last instruction gets the key
description of the index. -/
def sqlite3VdbeSetP4KeyInfo (pParse : Parse) (pIdx : Index) : Parse :=
  sqlite3VdbeChangeP4 pParse (P4_KEYINFO pIdx.nColumn (some pIdx.zName))

/-- The call `sqlite3VdbeMakeLabel(v)`: a new unresolved label, named by a negative
number. -/
def sqlite3VdbeMakeLabel (pParse : Parse) : Int × Parse :=
  (-1 - (pParse.aLabel.length : Int), { pParse with aLabel := pParse.aLabel ++ [-1] })

/-- The call `sqlite3VdbeResolveLabel(v, x)`: label `x` is the current address. -/
def sqlite3VdbeResolveLabel (pParse : Parse) (x : Int) : Parse :=
  { pParse with aLabel := pParse.aLabel.set (-1 - x).toNat (pParse.aOp.length : Int) }

/-- The largest value of the C type `int` (32 bits, two's complement). -/
def INT_MAX : Nat := 2147483647

/-- The value a C `int` holds when the result `x` of an addition is reduced to 32 bits in
two's complement: `x` itself from `-2147483648` to `INT_MAX`, and for instance `-2147483648`
for `INT_MAX + 1`. -/
def wrapInt32 (x : Int) : Int := (x + 2147483648) % 4294967296 - 2147483648

/-- The allocation `pParse->nMem += n` of `n` registers (`++pParse->nMem` for `n = 1`).  The
counter `pParse->nMem` of the source is a C `int`; the model counts in `Nat`, which is the
same number as long as the counter does not exceed `INT_MAX` (beyond that the addition of
the source overflows, see `wrapInt32`).  The statements about fresh and disjoint registers
are made for compilations whose counter ends at no more than `INT_MAX`. -/
def Parse.allocMem (pParse : Parse) (n : Nat) : Parse := { pParse with nMem := pParse.nMem + n }

/-- The assignment `pParse->nTab = n`. -/
def Parse.setNTab (pParse : Parse) (n : Nat) : Parse := { pParse with nTab := n }

/-- The assignment `pParse->ckBase = x`. -/
def Parse.setCkBase (pParse : Parse) (x : Int) : Parse := { pParse with ckBase := x }

/-- Modelled from the spec: `sqlite3GetTempReg` is not part of `insert.c`.  A register
owned by the caller alone (spec, Data model: register ranges are not aliased), taken from
the monotonically increasing register counter. -/
def sqlite3GetTempReg (pParse : Parse) : Int × Parse :=
  (pParse.nMem + 1, { pParse with nMem := pParse.nMem + 1 })

/-- Modelled from the spec: `sqlite3GetTempRange` is not part of `insert.c`.  A contiguous
block of `nReg` registers taken from the register counter. -/
def sqlite3GetTempRange (pParse : Parse) (nReg : Nat) : Int × Parse :=
  (pParse.nMem + 1, { pParse with nMem := pParse.nMem + nReg })

/-- Modelled from the spec: `sqlite3ReleaseTempReg` and `sqlite3ReleaseTempRange` are not
part of `insert.c`.  The register counter never decreases, so a release leaves the
context unchanged. -/
def sqlite3ReleaseTempReg (pParse : Parse) (_iReg : Int) : Parse := pParse

/-- See `sqlite3ReleaseTempReg`. -/
def sqlite3ReleaseTempRange (pParse : Parse) (_iReg : Int) (_nReg : Nat) : Parse := pParse

/-- Modelled from the spec: `sqlite3CodeVerifySchema` is not part of `insert.c`.  It marks
the schema for verification and emits nothing. -/
def sqlite3CodeVerifySchema (pParse : Parse) : Parse := pParse

/-- Modelled from the spec: `sqlite3MayAbort` is not part of `insert.c`.  It notes that
the statement may abort. -/
def sqlite3MayAbort (pParse : Parse) : Parse := { pParse with mayAbort := true }

/-- Modelled from the spec: `sqlite3MultiWrite` is not part of `insert.c`.  It notes that
the statement may write more than one row. -/
def sqlite3MultiWrite (pParse : Parse) : Parse := { pParse with isMultiWrite := true }

/-- Modelled from the spec: `sqlite3BeginWriteOperation` is not part of `insert.c`.  It
notes a write statement and emits nothing. -/
def sqlite3BeginWriteOperation (pParse : Parse) (setStatement : Bool) : Parse :=
  { pParse with isMultiWrite := pParse.isMultiWrite || setStatement }

/-! ## `insert.c` -/

/-- `sqlite3OpenTable` (insert.c:44): open `pTab` as cursor `iCur`.  The register
`space_ptr_reg = ++pParse->nMem` is the number `nMem + 1` as long as the counter is below
`INT_MAX`, see `Parse.allocMem`. -/
def sqlite3OpenTable (pParse : Parse) (iCur : Int) (pTab : Table) (opcode : Opcode) :
    Option Parse :=
  let pParse := sqlite3GetVdbe pParse
  match sqlite3PrimaryKeyIndex pTab with
  | none => none
  | some pPk =>
    let space_ptr_reg := pParse.nMem + 1
    let pParse := { pParse with nMem := pParse.nMem + 1 }
    let pParse := sqlite3VdbeAddOp4 pParse OP_Int64 0 space_ptr_reg 0
      (P4_SPACEPTR (SQLITE_PAGENO_TO_SPACEID pPk.tnum))
    let pParse := sqlite3VdbeAddOp3 pParse opcode iCur pPk.tnum space_ptr_reg
    some (sqlite3VdbeSetP4KeyInfo pParse pPk)

/-- The inner loop of `readsTable` (insert.c:199): `tnum` is the table's or one of its
indexes'. -/
def readsTable_match (pTab : Table) (tnum : Int) : Bool :=
  tnum == pTab.tnum || pTab.pIndex.any (fun pIndex => tnum == pIndex.tnum)

/-- `readsTable` (insert.c:183): scan the addresses `1 .. iEnd-1` of the program for an
`OP_OpenRead` of the table or of one of its indexes. -/
def readsTable (p : Parse) (pTab : Table) : Int :=
  let p := sqlite3GetVdbe p
  if (p.aOp.drop 1).any
      (fun pOp => pOp.opcode == OP_OpenRead && readsTable_match pTab pOp.p2) then 1 else 0

/-- The entry `pIdx->aColExpr->a[i].pExpr`, `NULL` when there is none. -/
def Index.colExpr (pIdx : Index) (i : Nat) : Option Expr :=
  (pIdx.aColExpr.bind (fun l => l.get? i)).map (fun it => it.pExpr)

/-- One iteration of the loop of `xferCompatibleIndex` (insert.c:1669-1687): key column
`i` passes every test. -/
def xferCompatibleIndex_col (pDest pSrc : Index) (i : Nat) : Bool :=
  if pSrc.aiColumn.getD i 0 ≠ pDest.aiColumn.getD i 0 then false
  else if pSrc.aiColumn.getD i 0 = XN_EXPR
      ∧ sqlite3ExprCompare (pSrc.colExpr i) (pDest.colExpr i) ≠ 0 then false
  else if pSrc.aSortOrder.getD i 0 ≠ pDest.aSortOrder.getD i 0 then false
  else if sqlite3_stricmp (pSrc.azColl.getD i none) (pDest.azColl.getD i none) ≠ 0 then false
  else true

/-- `xferCompatibleIndex` (insert.c:1657): is `pSrc` a compatible source of data for
`pDest`? -/
def xferCompatibleIndex (pDest pSrc : Index) : Int :=
  if pDest.nKeyCol ≠ pSrc.nKeyCol then 0
  else if pDest.onError ≠ pSrc.onError then 0
  else if ¬ (List.range pSrc.nKeyCol).all (xferCompatibleIndex_col pDest pSrc) then 0
  else if sqlite3ExprCompare pSrc.pPartIdxWhere pDest.pPartIdxWhere ≠ 0 then 0
  else 1

/-- The inner loop of `xferOptimization` (insert.c:1850, 1921): the first index of `pSrc`
that is compatible with `pDestIdx`, `NULL` when there is none. -/
def xferOptimization_srcIdx (pSrc : Table) (pDestIdx : Index) : Option Index :=
  pSrc.pIndex.find? (fun pSrcIdx => xferCompatibleIndex pDestIdx pSrcIdx != 0)

/-- One iteration of the column loop of `xferOptimization` (insert.c:1818-1845): column
`i` passes every test. -/
def xferOptimization_column (pDest pSrc : Table) (i : Nat) : Bool :=
  let pDestCol := pDest.aCol.getD i default
  let pSrcCol := pSrc.aCol.getD i default
  if pDestCol.affinity ≠ pSrcCol.affinity then false
  else if sqlite3_stricmp pDestCol.zColl pSrcCol.zColl ≠ 0 then false
  else if !table_column_is_nullable pDest i && table_column_is_nullable pSrc i then false
  else if i > 0 ∧ ((pDestCol.pDflt.isNone != pSrcCol.pDflt.isNone)
      || (match pDestCol.pDflt, pSrcCol.pDflt with
          | some d, some s => d.zToken != s.zToken
          | _, _ => false)) = true then false
  else true

/-- The index loop of `xferOptimization` (insert.c:1846-1857): `none` when some index of
the destination has no compatible index in `pSrc` (the function returns 0), else the
final value of `destHasUniqueIdx`. -/
def xferOptimization_indexes (pSrc : Table) : List Index → Bool → Option Bool
  | [], destHasUniqueIdx => some destHasUniqueIdx
  | pDestIdx :: pNext, destHasUniqueIdx =>
    let destHasUniqueIdx := if IsUniqueIndex pDestIdx then true else destHasUniqueIdx
    match xferOptimization_srcIdx pSrc pDestIdx with
    | none => none
    | some _ => xferOptimization_indexes pSrc pNext destHasUniqueIdx

/-- The copy loop of `xferOptimization` (insert.c:1919-1961): for each index of the
destination, open the first compatible source index and the destination index and copy
every record. -/
def xferOptimization_copy (pSrc : Table) (iSrc iDest regData : Int) :
    List Index → Parse → Option Parse
  | [], pParse => some pParse
  | pDestIdx :: pNext, pParse =>
    let idxInsFlags : FlagWord := []
    match xferOptimization_srcIdx pSrc pDestIdx with
    | none => none
    | some pSrcIdx =>
      let space_src_ptr_reg := pParse.nMem + 1
      let pParse := { pParse with nMem := pParse.nMem + 1 }
      let pParse := sqlite3VdbeAddOp4 pParse OP_Int64 0 space_src_ptr_reg 0
        (P4_SPACEPTR (SQLITE_PAGENO_TO_SPACEID pSrcIdx.tnum))
      let pParse := sqlite3VdbeAddOp3 pParse OP_OpenRead iSrc pSrcIdx.tnum space_src_ptr_reg
      let pParse := sqlite3VdbeSetP4KeyInfo pParse pSrcIdx
      let space_dest_ptr_reg := pParse.nMem + 1
      let pParse := { pParse with nMem := pParse.nMem + 1 }
      let pParse := sqlite3VdbeAddOp4 pParse OP_Int64 0 space_dest_ptr_reg 0
        (P4_SPACEPTR (SQLITE_PAGENO_TO_SPACEID pDestIdx.tnum))
      let pParse := sqlite3VdbeAddOp3 pParse OP_OpenWrite iDest pDestIdx.tnum space_dest_ptr_reg
      let pParse := sqlite3VdbeSetP4KeyInfo pParse pDestIdx
      let pParse := sqlite3VdbeChangeP5 pParse [OPFLAG_BULKCSR]
      let addr1 := sqlite3VdbeCurrentAddr pParse
      let pParse := sqlite3VdbeAddOp2 pParse OP_Rewind iSrc 0
      let pParse := sqlite3VdbeAddOp2 pParse OP_RowData iSrc regData
      let idxInsFlags := if pDestIdx.idxType = 2 then idxInsFlags ++ [OPFLAG_NCHANGE]
        else idxInsFlags
      let pParse := sqlite3VdbeAddOp2 pParse OP_IdxInsert iDest regData
      let pParse := sqlite3VdbeChangeP5 pParse (idxInsFlags ++ [OPFLAG_APPEND])
      let pParse := sqlite3VdbeAddOp2 pParse OP_Next iSrc ((addr1 : Int) + 1)
      let pParse := sqlite3VdbeJumpHere pParse addr1
      let pParse := sqlite3VdbeAddOp2 pParse OP_Close iSrc 0
      let pParse := sqlite3VdbeAddOp2 pParse OP_Close iDest 0
      xferOptimization_copy pSrc iSrc iDest regData pNext pParse

/-- The conflict policy `xferOptimization` works with (insert.c:1752-1757). -/
def xferOptimization_onError (pDest : Table) (onError : on_conflict_action) :
    on_conflict_action :=
  if onError = ON_CONFLICT_ACTION_DEFAULT then
    let onError := if pDest.iPKey ≥ 0 then pDest.keyConf else onError
    if onError = ON_CONFLICT_ACTION_DEFAULT then ON_CONFLICT_ACTION_ABORT else onError
  else onError

/-- The code-emitting part of `xferOptimization` (insert.c:1879-1974), reached when every
static test has passed. -/
def xferOptimization_emit (pParse : Parse) (pDest pSrc : Table) (onError : on_conflict_action)
    (destHasUniqueIdx : Bool) : Option (Int × Parse) :=
  let emptySrcTest : Nat := 0
  let pParse := sqlite3GetVdbe pParse
  let pParse := sqlite3CodeVerifySchema pParse
  let iSrc := pParse.nTab
  let pParse := { pParse with nTab := pParse.nTab + 1 }
  let iDest := pParse.nTab
  let pParse := { pParse with nTab := pParse.nTab + 1 }
  let (regData, pParse) := sqlite3GetTempReg pParse
  let (regTupleid, pParse) := sqlite3GetTempReg pParse
  match sqlite3OpenTable pParse iDest pDest OP_OpenWrite with
  | none => none
  | some pParse =>
    let (emptyDestTest, pParse) :=
      if (pDest.iPKey < 0 ∧ pDest.pIndex ≠ [])
          ∨ destHasUniqueIdx = true
          ∨ (onError ≠ ON_CONFLICT_ACTION_ABORT ∧ onError ≠ ON_CONFLICT_ACTION_ROLLBACK) then
        let addr1 := sqlite3VdbeCurrentAddr pParse
        let pParse := sqlite3VdbeAddOp2 pParse OP_Rewind iDest 0
        let emptyDestTest := sqlite3VdbeCurrentAddr pParse
        let pParse := sqlite3VdbeAddOp0 pParse OP_Goto
        (emptyDestTest, sqlite3VdbeJumpHere pParse addr1)
      else ((0 : Nat), pParse)
    match xferOptimization_copy pSrc iSrc iDest regData pDest.pIndex pParse with
    | none => none
    | some pParse =>
      let pParse := if emptySrcTest ≠ 0 then sqlite3VdbeJumpHere pParse emptySrcTest
        else pParse
      let pParse := sqlite3ReleaseTempReg pParse regTupleid
      let pParse := sqlite3ReleaseTempReg pParse regData
      if emptyDestTest ≠ 0 then
        let pParse := sqlite3VdbeAddOp2 pParse OP_Halt SQLITE_OK 0
        let pParse := sqlite3VdbeJumpHere pParse emptyDestTest
        let pParse := sqlite3VdbeAddOp2 pParse OP_Close iDest 0
        some (0, pParse)
      else some (1, pParse)

/-- `xferOptimization` (insert.c:1719): attempt the transfer optimization for
`INSERT INTO tab1 SELECT * FROM tab2`.  The result is the return value and the
compilation context on return. -/
def xferOptimization (pParse : Parse) (pDest : Table) (pSelect : Option Select)
    (onError : on_conflict_action) : Option (Int × Parse) :=
  match pSelect with
  | none => some (0, pParse)
  | some pSelect =>
    if pParse.pWith = true ∨ pSelect.pWith = true then some (0, pParse)
    else if pDest.pTrigger ≠ [] then some (0, pParse)
    else
      let onError := xferOptimization_onError pDest onError
      if pSelect.pSrc.length ≠ 1 then some (0, pParse)
      else if (pSelect.pSrc.getD 0 default).pSelect = true then some (0, pParse)
      else if pSelect.pWhere.isSome then some (0, pParse)
      else if pSelect.pOrderBy.isSome then some (0, pParse)
      else if pSelect.pGroupBy.isSome then some (0, pParse)
      else if pSelect.pLimit.isSome then some (0, pParse)
      else if pSelect.pPrior = true then some (0, pParse)
      else if pSelect.SF_Distinct = true then some (0, pParse)
      else
        let pEList := pSelect.pEList
        if pEList.length ≠ 1 then some (0, pParse)
        else if (pEList.getD 0 default).pExpr.op ≠ TK_ASTERISK then some (0, pParse)
        else
          let pItem := pSelect.pSrc.getD 0 default
          match sqlite3LocateTableItem pParse pItem with
          | (none, pParse) => some (0, pParse)
          | (some pSrc, pParse) =>
            if pSrc = pDest then some (0, pParse)
            else if pSrc.pSelect.isSome then some (0, pParse)
            else if pDest.nCol ≠ pSrc.nCol then some (0, pParse)
            else if pDest.iPKey ≠ pSrc.iPKey then some (0, pParse)
            else if ¬ (List.range pDest.nCol).all (xferOptimization_column pDest pSrc) then
              some (0, pParse)
            else
              match xferOptimization_indexes pSrc pDest.pIndex false with
              | none => some (0, pParse)
              | some destHasUniqueIdx =>
                if pDest.pCheck.isSome
                    ∧ sqlite3ExprListCompare pSrc.pCheck pDest.pCheck ≠ 0 then
                  some (0, pParse)
                else if pParse.user_session.SQLITE_ForeignKeys = true ∧ pDest.pFKey ≠ [] then
                  some (0, pParse)
                else if pParse.user_session.SQLITE_CountRows = true then some (0, pParse)
                else xferOptimization_emit pParse pDest pSrc onError destHasUniqueIdx

/-- The numeric value of a conflict action, as stored in an operand: its position in the
declaration of `enum on_conflict_action`. -/
def on_conflict_action.toInt : on_conflict_action → Int
  | ON_CONFLICT_ACTION_NONE => 0
  | ON_CONFLICT_ACTION_ROLLBACK => 1
  | ON_CONFLICT_ACTION_ABORT => 2
  | ON_CONFLICT_ACTION_FAIL => 3
  | ON_CONFLICT_ACTION_IGNORE => 4
  | ON_CONFLICT_ACTION_REPLACE => 5
  | ON_CONFLICT_ACTION_DEFAULT => 6

/-- The terminating byte of a C string. -/
def NUL : Char := Char.ofNat 0

/-- Modelled from the spec: `sqlite3Strlen30` is not part of `insert.c`.  The length of a C
string: the number of bytes before the first `NUL`. -/
def sqlite3Strlen30 (z : List Char) : Nat := (z.takeWhile (fun c => c != NUL)).length

/-- The loop `while (i >= 0 && zColAff[i] == SQLITE_AFF_BLOB) zColAff[i--] = 0` of
`sqlite3TableAffinity` (insert.c:161-163); the argument is `i + 1`. -/
def sqlite3TableAffinity_trim (zColAff : List Char) : Nat → List Char
  | 0 => zColAff
  | i + 1 =>
    if zColAff.getD i NUL = SQLITE_AFF_BLOB then sqlite3TableAffinity_trim (zColAff.set i NUL) i
    else zColAff

/-- The affinity buffer `sqlite3TableAffinity` computes for a table (insert.c:152-164):
`nCol + 1` bytes, the affinities of the columns followed by `NUL`, with the trailing run of
`SQLITE_AFF_BLOB` overwritten by `NUL`. -/
def sqlite3TableAffinity_zColAff (pTab : Table) : List Char :=
  sqlite3TableAffinity_trim (pTab.aCol.map (fun c => c.affinity) ++ [NUL]) pTab.nCol

/-- `sqlite3TableAffinity` (insert.c:145): compute and cache the affinity string of the
table and, when it is not empty, emit `OP_Affinity` for the registers from `iReg` on
(or, for `iReg == 0`, attach the string to the previous instruction). -/
def sqlite3TableAffinity (pParse : Parse) (pTab : Table) (iReg : Int) : Table × Parse :=
  let zColAff := match pTab.zColAff with
    | some z => z
    | none => sqlite3TableAffinity_zColAff pTab
  let pTab := { pTab with zColAff := some zColAff }
  let i := sqlite3Strlen30 zColAff
  if i ≠ 0 then
    if iReg ≠ 0 then
      (pTab, sqlite3VdbeAddOp4 pParse OP_Affinity iReg i 0 (P4_STRING (String.mk (zColAff.take i))))
    else
      (pTab, sqlite3VdbeChangeP4 pParse (P4_STRING (String.mk (zColAff.take i))))
  else (pTab, pParse)

/-- `checkConstraintExprNode` walked over the whole expression by `sqlite3WalkExpr`
(insert.c:933): does some `TK_COLUMN` node name a column `c >= 0` with `aiChng[c] >= 0`?
This is bit `CKCNSTRNT_COLUMN` of `eCode` at the end of the walk. -/
def checkConstraintExprNode (aiCol : List Int) : Expr → Bool
  | .term op _ iColumn _ =>
    op == TK_COLUMN && decide (iColumn ≥ 0) && decide (aiCol.getD iColumn.toNat 0 ≥ 0)
  | .unary op _ iColumn _ pLeft =>
    (op == TK_COLUMN && decide (iColumn ≥ 0) && decide (aiCol.getD iColumn.toNat 0 ≥ 0))
      || checkConstraintExprNode aiCol pLeft
  | .binary op _ iColumn _ pLeft pRight =>
    (op == TK_COLUMN && decide (iColumn ≥ 0) && decide (aiCol.getD iColumn.toNat 0 ≥ 0))
      || checkConstraintExprNode aiCol pLeft || checkConstraintExprNode aiCol pRight

/-- `checkConstraintUnchanged` (insert.c:956): the CHECK constraint `pExpr` uses none of
the changing columns. -/
def checkConstraintUnchanged (pExpr : Expr) (aiChng : List Int) : Bool :=
  !checkConstraintExprNode aiChng pExpr

/-- Modelled from the spec: `sqlite3HaltConstraint` is not part of `insert.c`.  It emits
the halt-with-error instruction (spec, Output contract) carrying the error code, the
conflict action and the message, and notes that an Abort may happen. -/
def sqlite3HaltConstraint (pParse : Parse) (errCode : Int) (onError : on_conflict_action)
    (p4 : String) (p5Errmsg : OpFlag) : Parse :=
  let pParse := if onError = ON_CONFLICT_ACTION_ABORT then sqlite3MayAbort pParse else pParse
  let pParse := sqlite3VdbeAddOp4 pParse OP_Halt errCode onError.toInt 0 (P4_STRING p4)
  sqlite3VdbeChangeP5 pParse [p5Errmsg]

/-- Modelled from the spec: `sqlite3UniqueConstraint` is not part of `insert.c`.  It halts
with a uniqueness violation tagged with the index name (spec, Constraint Check
Generator). -/
def sqlite3UniqueConstraint (pParse : Parse) (onError : on_conflict_action) (pIdx : Index) :
    Parse :=
  sqlite3HaltConstraint pParse
    (if IsPrimaryKeyIndex pIdx then SQLITE_CONSTRAINT_PRIMARYKEY else SQLITE_CONSTRAINT_UNIQUE)
    onError pIdx.zName P5_ConstraintUnique

/-- Modelled from the spec: `sqlite3ColumnOfIndex` is not part of `insert.c`.  The position
of table column `iCol` among the columns of the index, `-1` when it is not there. -/
def sqlite3ColumnOfIndex (pIdx : Index) (iCol : Int) : Int :=
  match pIdx.aiColumn.findIdx? (fun c => c == iCol) with
  | some i => (i : Int)
  | none => -1

/-- The state of the loop of `sqlite3OpenTableAndIndices`: the context, the next free
cursor `iBase`, `*piDataCur` and the current `p5`. -/
structure OpenCursors where
  pParse : Parse
  iBase : Int
  piDataCur : Int
  p5 : FlagWord

/-- The loop of `sqlite3OpenTableAndIndices` (insert.c:1583-1629) over the indexes from
position `i` on. -/
def sqlite3OpenTableAndIndices_loop (ext : Extern) (pTab : Table) (op : Opcode)
    (aToOpen : Option (List Bool)) (overrideError : on_conflict_action) (isUpdate : Bool)
    (space_ptr_reg : Int) : List Index → Nat → OpenCursors → OpenCursors
  | [], _, st => st
  | pIdx :: pNext, i, st =>
    let st :=
      if isUpdate = true
          ∨ IsPrimaryKeyIndex pIdx = true
          ∨ ext.sqlite3FkReferences pTab = true
          ∨ (IsUniqueIndex pIdx = true ∧ pIdx.onError ≠ ON_CONFLICT_ACTION_DEFAULT
              ∧ pIdx.onError ≠ ON_CONFLICT_ACTION_ABORT)
          ∨ overrideError = ON_CONFLICT_ACTION_ROLLBACK then
        let iIdxCur := st.iBase
        let st := { st with iBase := st.iBase + 1 }
        let st := if IsPrimaryKeyIndex pIdx = true then
            { st with piDataCur := iIdxCur, p5 := [] }
          else st
        if aToOpen.isNone = true ∨ (aToOpen.getD []).getD (i + 1) false = true then
          let pParse := sqlite3VdbeAddOp3 st.pParse op iIdxCur pIdx.tnum space_ptr_reg
          let pParse := sqlite3VdbeSetP4KeyInfo pParse pIdx
          let pParse := sqlite3VdbeChangeP5 pParse st.p5
          { st with pParse := pParse }
        else st
      else st
    sqlite3OpenTableAndIndices_loop ext pTab op aToOpen overrideError isUpdate space_ptr_reg
      pNext (i + 1) st

/-- What `sqlite3OpenTableAndIndices` hands back: the number of indexes it returns,
`*piDataCur`, `*piIdxCur` and the context. -/
structure OpenResult where
  nIdx : Nat
  iDataCur : Int
  iIdxCur : Int
  pParse : Parse

/-- `sqlite3OpenTableAndIndices` (insert.c:1542): allocate cursors for the table and its
indexes and emit the instructions that open them. -/
def sqlite3OpenTableAndIndices (ext : Extern) (pParse : Parse) (pTab : Table) (op : Opcode)
    (p5 : FlagWord) (iBase : Int) (aToOpen : Option (List Bool))
    (overrideError : on_conflict_action) (isUpdate : Bool) : OpenResult :=
  let pParse := sqlite3GetVdbe pParse
  let iBase := if iBase < 0 then (pParse.nTab : Int) else iBase
  let iDataCur := iBase
  let iBase := iBase + 1
  let piIdxCur := iBase
  let space_ptr_reg := pParse.nMem + 1
  let pParse := pParse.allocMem 1
  let pParse := sqlite3VdbeAddOp4 pParse OP_Int64 0 space_ptr_reg 0
    (P4_SPACEPTR (SQLITE_PAGENO_TO_SPACEID pTab.tnum))
  let st := sqlite3OpenTableAndIndices_loop ext pTab op aToOpen overrideError isUpdate
    space_ptr_reg pTab.pIndex 0
    { pParse := pParse, iBase := iBase, piDataCur := iDataCur, p5 := p5 }
  let pParse := if st.iBase > st.pParse.nTab then st.pParse.setNTab st.iBase.toNat
    else st.pParse
  { nIdx := pTab.pIndex.length, iDataCur := st.piDataCur, iIdxCur := piIdxCur,
    pParse := pParse }

/-- `sqlite3CompleteInsertion` (insert.c:1470): emit the instruction that writes the new
row through the primary index. -/
def sqlite3CompleteInsertion (pParse : Parse) (pTab : Table) (iIdxCur : Int)
    (aRegIdx : List Int) (useSeekResult : Bool) (onError : on_conflict_action) :
    Option Parse :=
  let pParse := sqlite3GetVdbe pParse
  match pTab.pIndex with
  | [] => none
  | pIdx :: _ =>
    let pik_flags : FlagWord := [OPFLAG_NCHANGE]
    let pik_flags := if useSeekResult = true then pik_flags ++ [OPFLAG_USESEEKRESULT]
      else pik_flags
    let opcode := if onError = ON_CONFLICT_ACTION_REPLACE then OP_IdxReplace else OP_IdxInsert
    let pik_flags :=
      if onError = ON_CONFLICT_ACTION_IGNORE then pik_flags ++ [OPFLAG_OE_IGNORE]
      else if onError = ON_CONFLICT_ACTION_FAIL then pik_flags ++ [OPFLAG_OE_FAIL]
      else pik_flags
    let pParse := sqlite3VdbeAddOp4 pParse opcode iIdxCur (aRegIdx.getD 0 0)
      (aRegIdx.getD 0 0 + 1)
      (P4_INT32 (if pIdx.uniqNotNull = true then (pIdx.nKeyCol : Int) else (pIdx.nColumn : Int)))
    some (sqlite3VdbeChangeP5 pParse pik_flags)

/-- One iteration of the NOT NULL loop of `sqlite3GenerateConstraintChecks`
(insert.c:1092-1156), for column `i`. -/
def sqlite3GenerateConstraintChecks_notNull (pParse : Parse) (pTab : Table) (regNewData : Int)
    (overrideError : on_conflict_action) (ignoreDest : Int) (aiChng : Option (List Int))
    (i : Nat) : Parse :=
  if (i : Int) = pTab.iPKey then pParse
  else if aiChng.isSome = true ∧ (aiChng.getD []).getD i 0 < 0 then pParse
  else if table_column_is_nullable pTab i = true
      ∨ (pTab.TF_Autoincrement = true ∧ pTab.iAutoIncPKey = (i : Int)) then pParse
  else
    let onError := table_column_nullable_action pTab i
    let onError :=
      if overrideError ≠ ON_CONFLICT_ACTION_DEFAULT then overrideError
      else if onError = ON_CONFLICT_ACTION_DEFAULT then ON_CONFLICT_ACTION_ABORT
      else onError
    let onError :=
      if onError = ON_CONFLICT_ACTION_REPLACE ∧ (pTab.aCol.getD i default).pDflt = none then
        ON_CONFLICT_ACTION_ABORT
      else onError
    match onError with
    | ON_CONFLICT_ACTION_ABORT | ON_CONFLICT_ACTION_ROLLBACK | ON_CONFLICT_ACTION_FAIL =>
      let pParse := if onError = ON_CONFLICT_ACTION_ABORT then sqlite3MayAbort pParse
        else pParse
      let zMsg := pTab.zName ++ "." ++ (pTab.aCol.getD i default).zName
      let pParse := sqlite3VdbeAddOp3 pParse OP_HaltIfNull SQLITE_CONSTRAINT_NOTNULL
        onError.toInt (regNewData + 1 + i)
      let pParse := sqlite3VdbeChangeP4 pParse (P4_STRING zMsg)
      sqlite3VdbeChangeP5 pParse [P5_ConstraintNotNull]
    | ON_CONFLICT_ACTION_IGNORE =>
      sqlite3VdbeAddOp2 pParse OP_IsNull (regNewData + 1 + i) ignoreDest
    | _ =>
      let addr1 := sqlite3VdbeCurrentAddr pParse
      let pParse := sqlite3VdbeAddOp1 pParse OP_NotNull (regNewData + 1 + i)
      let pParse := sqlite3VdbeAddOp4 pParse CALL_sqlite3ExprCode 0 (regNewData + 1 + i) 0
        (P4_EXPR (pTab.aCol.getD i default).pDflt)
      sqlite3VdbeJumpHere pParse addr1

/-- The loop over the CHECK constraints of `sqlite3GenerateConstraintChecks`
(insert.c:1168-1192); `onError` is carried from one iteration to the next and `i` is the
position of the first constraint of the list. -/
def sqlite3GenerateConstraintChecks_check (pTab : Table) (ignoreDest : Int)
    (aiChng : Option (List Int)) :
    List ExprList_item → on_conflict_action → Parse → Parse
  | [], _, pParse => pParse
  | item :: rest, onError, pParse =>
    let pExpr := item.pExpr
    if aiChng.isSome = true ∧ checkConstraintUnchanged pExpr (aiChng.getD []) = true then
      sqlite3GenerateConstraintChecks_check pTab ignoreDest aiChng rest onError pParse
    else
      let (allOk, pParse) := sqlite3VdbeMakeLabel pParse
      let pParse := sqlite3VdbeAddOp pParse
        { opcode := CALL_sqlite3ExprIfTrue, p2 := allOk, p4 := P4_EXPR (some pExpr),
          p5 := [SQLITE_JUMPIFNULL] }
      if onError = ON_CONFLICT_ACTION_IGNORE then
        let pParse := sqlite3VdbeGoto pParse ignoreDest
        let pParse := sqlite3VdbeResolveLabel pParse allOk
        sqlite3GenerateConstraintChecks_check pTab ignoreDest aiChng rest onError pParse
      else
        let zName := match item.zName with
          | some z => z
          | none => pTab.zName
        let onError := if onError = ON_CONFLICT_ACTION_REPLACE then ON_CONFLICT_ACTION_ABORT
          else onError
        let pParse := sqlite3HaltConstraint pParse SQLITE_CONSTRAINT_CHECK onError zName
          P5_ConstraintCheck
        let pParse := sqlite3VdbeResolveLabel pParse allOk
        sqlite3GenerateConstraintChecks_check pTab ignoreDest aiChng rest onError pParse

/-- The loop that fills the registers of one index entry (insert.c:1238-1259), from key
position `i` on. -/
def sqlite3GenerateConstraintChecks_entry (pTab : Table) (pIdx : Index) (regNewData regIdx : Int) :
    List Int → Nat → Parse → Parse
  | [], _, pParse => pParse
  | iField :: rest, i, pParse =>
    let pParse :=
      if iField = XN_EXPR then
        let pParse := pParse.setCkBase (regNewData + 1)
        let pParse := sqlite3VdbeAddOp4 pParse CALL_sqlite3ExprCodeCopy 0 (regIdx + i) 0
          (P4_EXPR (pIdx.colExpr i))
        pParse.setCkBase 0
      else
        let x := if iField = pTab.iPKey then regNewData else iField + regNewData + 1
        sqlite3VdbeAddOp2 pParse OP_SCopy x (regIdx + i)
    sqlite3GenerateConstraintChecks_entry pTab pIdx regNewData regIdx rest (i + 1) pParse

/-- The loop that reads the primary key of the conflicting row out of a secondary index
(insert.c:1367-1375), from key position `i` on. -/
def sqlite3GenerateConstraintChecks_pkCols (pIdx : Index) (iThisCur regR : Int) :
    List Int → Nat → Parse → Parse
  | [], _, pParse => pParse
  | iCol :: rest, i, pParse =>
    let x := sqlite3ColumnOfIndex pIdx iCol
    let pParse := sqlite3VdbeAddOp3 pParse OP_Column iThisCur x (regR + i)
    sqlite3GenerateConstraintChecks_pkCols pIdx iThisCur regR rest (i + 1) pParse

/-- The comparison chain of an UPDATE (insert.c:1391-1407), from key position `i` on:
`addrJump` is the address right after the chain and `nKeyCol` the length of the key. -/
def sqlite3GenerateConstraintChecks_cmp (pPk : Index) (regOldData regCmp : Int)
    (addrJump addrUniqueOk : Int) (nKeyCol : Nat) : List Int → Nat → Parse → Parse
  | [], _, pParse => pParse
  | x :: rest, i, pParse =>
    let p4 := P4_COLLSEQ (pPk.azColl.getD i none)
    let last := decide (i = nKeyCol - 1)
    let pParse := sqlite3VdbeAddOp4 pParse (if last then OP_Eq else OP_Ne)
      (regOldData + 1 + x) (if last then addrUniqueOk else addrJump) (regCmp + i) p4
    let pParse := sqlite3VdbeChangeP5 pParse [SQLITE_NOTNULL]
    sqlite3GenerateConstraintChecks_cmp pPk regOldData regCmp addrJump addrUniqueOk nKeyCol
      rest (i + 1) pParse

/-- The state carried through the UNIQUE loop of `sqlite3GenerateConstraintChecks`. -/
structure UniqueState where
  pParse : Parse
  pTab : Table
  bAffinityDone : Bool
  seenReplace : Int

/-- The variables one iteration of the UNIQUE loop computes in its first half and uses in
its second half. -/
structure UniqueLocals where
  addrUniqueOk : Int
  regIdx : Int
  reg_pk : Int
  table_ipk_autoinc : Bool
  uniqueByteCodeNeeded : Bool

/-- The first half of one iteration of the UNIQUE loop of `sqlite3GenerateConstraintChecks`
(insert.c:1209-1293), for an index that changes: the affinity of the new row, the label
`addrUniqueOk`, the test of a partial index, the registers of the index entry and its
record. -/
def sqlite3GenerateConstraintChecks_record (aRegIdx : List Int) (regNewData : Int)
    (overrideError : on_conflict_action) (pIdx : Index) (ix : Nat) (st : UniqueState) :
    UniqueLocals × UniqueState :=
  let uniqueByteCodeNeeded :=
    decide ((pIdx.onError ≠ ON_CONFLICT_ACTION_ABORT
        ∧ pIdx.onError ≠ ON_CONFLICT_ACTION_DEFAULT)
      ∨ (overrideError ≠ ON_CONFLICT_ACTION_ABORT
        ∧ overrideError ≠ ON_CONFLICT_ACTION_DEFAULT))
  let st :=
    if st.bAffinityDone = false then
      let (pTab, pParse) := sqlite3TableAffinity st.pParse st.pTab (regNewData + 1)
      { st with pParse := pParse, pTab := pTab, bAffinityDone := true }
    else st
  let pTab := st.pTab
  let pParse := st.pParse
  let (addrUniqueOk, pParse) := sqlite3VdbeMakeLabel pParse
  let pParse :=
    if pIdx.pPartIdxWhere.isSome then
      let pParse := sqlite3VdbeAddOp2 pParse OP_Null 0 (aRegIdx.getD ix 0)
      let pParse := pParse.setCkBase (regNewData + 1)
      let pParse := sqlite3VdbeAddOp pParse
        { opcode := CALL_sqlite3ExprIfFalseDup, p2 := addrUniqueOk,
          p4 := P4_EXPR pIdx.pPartIdxWhere, p5 := [SQLITE_JUMPIFNULL] }
      pParse.setCkBase 0
    else pParse
  let regIdx := aRegIdx.getD ix 0 + 1
  let pParse := sqlite3GenerateConstraintChecks_entry pTab pIdx regNewData regIdx
    pIdx.aiColumn 0 pParse
  let reg_pk : Int :=
    if IsPrimaryKeyIndex pIdx = true ∧ pIdx.nKeyCol = 1 then
      regNewData + 1 + pIdx.aiColumn.getD 0 0
    else -1
  let intPk := decide (IsPrimaryKeyIndex pIdx = true ∧ pIdx.nKeyCol = 1
    ∧ (pTab.zColAff.getD []).getD (pIdx.aiColumn.getD 0 0).toNat NUL = 'D')
  let table_ipk_autoinc := intPk && pTab.TF_Autoincrement
  let pParse :=
    if IsPrimaryKeyIndex pIdx = true then
      let pParse :=
        if intPk = true then
          let (skip_if_null, pParse) := sqlite3VdbeMakeLabel pParse
          let pParse :=
            if pTab.TF_Autoincrement = true then
              sqlite3VdbeAddOp2 pParse OP_IsNull reg_pk skip_if_null
            else pParse
          let pParse := sqlite3VdbeAddOp2 pParse OP_MustBeInt reg_pk 0
          sqlite3VdbeResolveLabel pParse skip_if_null
        else pParse
      sqlite3VdbeAddOp3 pParse OP_MakeRecord (regNewData + 1) pTab.nCol (aRegIdx.getD ix 0)
    else
      if uniqueByteCodeNeeded = true then
        sqlite3VdbeAddOp3 pParse OP_MakeRecord regIdx pIdx.nColumn (aRegIdx.getD ix 0)
      else pParse
  ({ addrUniqueOk := addrUniqueOk, regIdx := regIdx, reg_pk := reg_pk,
     table_ipk_autoinc := table_ipk_autoinc, uniqueByteCodeNeeded := uniqueByteCodeNeeded },
   { st with pParse := pParse })

/-- The uniqueness test of one iteration of the UNIQUE loop (insert.c:1345-1407): the
probe of the index and the primary key of the conflicting row in the registers from `regR`
on.  Result: `regR` and the context. -/
def sqlite3GenerateConstraintChecks_probe (iIdxCur regOldData : Int)
    (onError : on_conflict_action) (pPk : Index) (pkIx : Nat) (pIdx : Index) (ix : Nat)
    (U : UniqueLocals) (pParse : Parse) : Int × Parse :=
  let isUpdate := decide (regOldData ≠ 0)
  let nPkField := pPk.nKeyCol
  let iThisCur := iIdxCur + ix
  let pParse :=
    if U.table_ipk_autoinc = true then
      sqlite3VdbeAddOp2 pParse OP_IsNull U.reg_pk U.addrUniqueOk
    else pParse
  let pParse :=
    if U.uniqueByteCodeNeeded = true then
      sqlite3VdbeAddOp4 pParse OP_NoConflict iThisCur U.addrUniqueOk U.regIdx
        (P4_INT32 pIdx.nKeyCol)
    else pParse
  let (regR, pParse) :=
    if ix = pkIx then (U.regIdx, pParse) else sqlite3GetTempRange pParse nPkField
  let pParse :=
    if isUpdate = true ∨ onError = ON_CONFLICT_ACTION_REPLACE then
      let pParse :=
        if ix ≠ pkIx then
          sqlite3GenerateConstraintChecks_pkCols pIdx iThisCur regR
            (pPk.aiColumn.take pPk.nKeyCol) 0 pParse
        else pParse
      if isUpdate = true ∧ U.uniqueByteCodeNeeded = true then
        let addrJump : Int := (sqlite3VdbeCurrentAddr pParse : Int) + pPk.nKeyCol
        let regCmp := if IsPrimaryKeyIndex pIdx = true then U.regIdx else regR
        sqlite3GenerateConstraintChecks_cmp pPk regOldData regCmp addrJump
          U.addrUniqueOk pPk.nKeyCol (pPk.aiColumn.take pPk.nKeyCol) 0 pParse
      else pParse
    else pParse
  (regR, pParse)

/-- The code that runs when the new index entry is not unique (insert.c:1409-1452): the
`switch (onError)`, the label `addrUniqueOk` and the release of `regR`.  Result: the
context and `seenReplace`. -/
def sqlite3GenerateConstraintChecks_resolve (ext : Extern) (pTab : Table)
    (iDataCur iIdxCur : Int) (ignoreDest : Int) (onError : on_conflict_action) (pPk : Index)
    (pkIx : Nat) (pIdx : Index) (ix : Nat) (U : UniqueLocals) (regR : Int) (seenReplace : Int)
    (pParse : Parse) : Parse × Int :=
  let nPkField := pPk.nKeyCol
  let (pParse, seenReplace) :=
    match onError with
    | ON_CONFLICT_ACTION_FAIL | ON_CONFLICT_ACTION_ROLLBACK =>
      (sqlite3UniqueConstraint pParse onError pIdx, seenReplace)
    | ON_CONFLICT_ACTION_ABORT => (pParse, seenReplace)
    | ON_CONFLICT_ACTION_IGNORE => (sqlite3VdbeGoto pParse ignoreDest, seenReplace)
    | _ =>
      let pParse := sqlite3MultiWrite pParse
      let pTrigger : List Trigger :=
        if pParse.user_session.SQLITE_RecTriggers = true then
          (ext.sqlite3TriggersExist pTab TK_DELETE).1
        else []
      let pParse := sqlite3VdbeAddOp pParse
        { opcode := CALL_sqlite3GenerateRowDelete, p1 := iDataCur, p2 := iIdxCur,
          p3 := regR,
          p4 := P4_ARGS ON_CONFLICT_ACTION_REPLACE nPkField (decide (pTrigger ≠ [])),
          p5 := [if ix = pkIx then ONEPASS_SINGLE else ONEPASS_OFF] }
      (pParse, 1)
  let pParse := sqlite3VdbeResolveLabel pParse U.addrUniqueOk
  let pParse :=
    if regR ≠ U.regIdx then sqlite3ReleaseTempRange pParse regR nPkField else pParse
  (pParse, seenReplace)

/-- One iteration of the UNIQUE loop of `sqlite3GenerateConstraintChecks`
(insert.c:1202-1455), for the index `pIdx` at position `ix` of the index list; `pPk` is the
primary index, found at position `pkIx`, and `nIndex` the number of indexes. -/
def sqlite3GenerateConstraintChecks_unique (ext : Extern) (aRegIdx : List Int)
    (iDataCur iIdxCur regNewData regOldData : Int) (pkChng : Bool)
    (overrideError : on_conflict_action) (ignoreDest : Int) (pPk : Index) (pkIx nIndex : Nat)
    (pIdx : Index) (ix : Nat) (st : UniqueState) : UniqueState :=
  let isUpdate := decide (regOldData ≠ 0)
  if aRegIdx.getD ix 0 = 0 then st
  else
    let (U, st) := sqlite3GenerateConstraintChecks_record aRegIdx regNewData overrideError
      pIdx ix st
    let pTab := st.pTab
    let pParse := st.pParse
    if isUpdate = true ∧ ix = pkIx ∧ pkChng = false then
      { st with pParse := sqlite3VdbeResolveLabel pParse U.addrUniqueOk }
    else
      let onError := pIdx.onError
      if onError = ON_CONFLICT_ACTION_NONE then
        { st with pParse := sqlite3VdbeResolveLabel pParse U.addrUniqueOk }
      else if overrideError = ON_CONFLICT_ACTION_FAIL
          ∨ overrideError = ON_CONFLICT_ACTION_IGNORE
          ∨ overrideError = ON_CONFLICT_ACTION_ABORT then
        { st with pParse := sqlite3VdbeResolveLabel pParse U.addrUniqueOk }
      else
        let onError :=
          if overrideError ≠ ON_CONFLICT_ACTION_DEFAULT then overrideError
          else if onError = ON_CONFLICT_ACTION_DEFAULT then ON_CONFLICT_ACTION_ABORT
          else onError
        if (ix = 0 ∧ nIndex = ix + 1)
            ∧ onError = ON_CONFLICT_ACTION_REPLACE
            ∧ (pParse.user_session.SQLITE_RecTriggers = false
                ∨ (ext.sqlite3TriggersExist pTab TK_DELETE).1 = [])
            ∧ (pParse.user_session.SQLITE_ForeignKeys = false
                ∨ (pTab.pFKey = [] ∧ ext.sqlite3FkReferences pTab = false)) then
          { st with pParse := sqlite3VdbeResolveLabel pParse U.addrUniqueOk }
        else
          let (regR, pParse) := sqlite3GenerateConstraintChecks_probe iIdxCur regOldData
            onError pPk pkIx pIdx ix U pParse
          let (pParse, seenReplace) := sqlite3GenerateConstraintChecks_resolve ext pTab
            iDataCur iIdxCur ignoreDest onError pPk pkIx pIdx ix U regR st.seenReplace pParse
          { st with pParse := pParse, seenReplace := seenReplace }

/-- The UNIQUE loop of `sqlite3GenerateConstraintChecks` over the indexes from position
`ix` on. -/
def sqlite3GenerateConstraintChecks_uniqueLoop (ext : Extern) (aRegIdx : List Int)
    (iDataCur iIdxCur regNewData regOldData : Int) (pkChng : Bool)
    (overrideError : on_conflict_action) (ignoreDest : Int) (pPk : Index) (pkIx nIndex : Nat) :
    List Index → Nat → UniqueState → UniqueState
  | [], _, st => st
  | pIdx :: pNext, ix, st =>
    sqlite3GenerateConstraintChecks_uniqueLoop ext aRegIdx iDataCur iIdxCur regNewData
      regOldData pkChng overrideError ignoreDest pPk pkIx nIndex pNext (ix + 1)
      (sqlite3GenerateConstraintChecks_unique ext aRegIdx iDataCur iIdxCur regNewData
        regOldData pkChng overrideError ignoreDest pPk pkIx nIndex pIdx ix st)

/-- What `sqlite3GenerateConstraintChecks` hands back: `*pbMayReplace`, the table (its
affinity string may have been cached) and the context. -/
structure ConstraintResult where
  pbMayReplace : Int
  pTab : Table
  pParse : Parse

/-- `sqlite3GenerateConstraintChecks` (insert.c:1047): emit the NOT NULL, CHECK and UNIQUE
checks for an INSERT (`regOldData == 0`) or an UPDATE. -/
def sqlite3GenerateConstraintChecks (ext : Extern) (pParse : Parse) (pTab : Table)
    (aRegIdx : List Int) (iDataCur iIdxCur regNewData regOldData : Int) (pkChng : Bool)
    (overrideError : on_conflict_action) (ignoreDest : Int) (aiChng : Option (List Int)) :
    Option ConstraintResult :=
  let pParse := sqlite3GetVdbe pParse
  let nCol := pTab.nCol
  match sqlite3PrimaryKeyIndex pTab with
  | none => none
  | some pPk =>
    let pParse := (List.range nCol).foldl
      (fun pParse i => sqlite3GenerateConstraintChecks_notNull pParse pTab regNewData
        overrideError ignoreDest aiChng i) pParse
    let pParse :=
      if pTab.pCheck.isSome = true ∧ pParse.user_session.SQLITE_IgnoreChecks = false then
        let pParse := pParse.setCkBase (regNewData + 1)
        let onError := if overrideError ≠ ON_CONFLICT_ACTION_DEFAULT then overrideError
          else ON_CONFLICT_ACTION_ABORT
        sqlite3GenerateConstraintChecks_check pTab ignoreDest aiChng (pTab.pCheck.getD [])
          onError pParse
      else pParse
    let st := sqlite3GenerateConstraintChecks_uniqueLoop ext aRegIdx iDataCur iIdxCur
      regNewData regOldData pkChng overrideError ignoreDest pPk
      (pTab.pIndex.findIdx IsPrimaryKeyIndex) pTab.pIndex.length pTab.pIndex 0
      { pParse := pParse, pTab := pTab, bAffinityDone := false, seenReplace := 0 }
    some { pbMayReplace := st.seenReplace, pTab := st.pTab, pParse := st.pParse }

/-- Modelled from the spec: `sqlite3VdbeEndCoroutine` is not part of `insert.c`.  It emits
the end of the co-routine body (spec, Output contract: coroutine-init/yield/end). -/
def sqlite3VdbeEndCoroutine (pParse : Parse) (regYield : Int) : Parse :=
  sqlite3VdbeAddOp1 pParse OP_EndCoroutine regYield

/-- The state of the IDLIST loop of `sqlite3Insert`: the entries resolved so far,
`bIdListInOrder` and `ipkColumn`. -/
structure IdListState where
  a : IdList := []
  bIdListInOrder : Bool := true
  ipkColumn : Int := -1
  deriving DecidableEq, Repr, Inhabited

/-- The IDLIST loop of `sqlite3Insert` (insert.c:464-486) from entry `i` on: each name is
looked up among the columns of the table; the result is the name that is no column, or the
final state. -/
def sqlite3Insert_idlist (pTab : Table) : List IdList_item → Nat → IdListState →
    Except String IdListState
  | [], _, st => .ok st
  | item :: rest, i, st =>
    match pTab.aCol.findIdx? (fun c => c.zName == item.zName) with
    | none => .error item.zName
    | some j =>
      sqlite3Insert_idlist pTab rest (i + 1)
        { a := st.a ++ [{ item with idx := (j : Int) }]
          bIdListInOrder := if i ≠ j then false else st.bIdListInOrder
          ipkColumn := if (j : Int) = pTab.iPKey then (i : Int) else st.ipkColumn }

/-- The search `for (j = 0; j < pColumn->nId; j++) if (pColumn->a[j].idx == i) break;` of
`sqlite3Insert`, and `j = i` when there is no IDLIST. -/
def sqlite3Insert_findColumn (pColumn : Option IdList) (i : Nat) : Nat :=
  match pColumn with
  | none => i
  | some cols => cols.findIdx (fun item => item.idx == (i : Int))

/-- One iteration of the loop that builds the column values for the BEFORE triggers
(insert.c:671-698), for column `i`. -/
def sqlite3Insert_triggerColumn (pParse : Parse) (pTab : Table) (pColumn : Option IdList)
    (pList : Option ExprList) (useTempTable : Bool) (srcTab regCols : Int) (i : Nat) : Parse :=
  let j := sqlite3Insert_findColumn pColumn i
  if (useTempTable = false ∧ pList.isNone = true)
      ∨ (pColumn.isSome = true ∧ j ≥ (pColumn.getD []).length) then
    if (i : Int) = pTab.iAutoIncPKey then
      sqlite3VdbeAddOp2 pParse OP_Integer (-1) (regCols + i + 1)
    else
      sqlite3VdbeAddOp4 pParse CALL_sqlite3ExprCode 0 (regCols + i + 1) 0
        (P4_EXPR (pTab.aCol.getD i default).pDflt)
  else if useTempTable = true then
    sqlite3VdbeAddOp3 pParse OP_Column srcTab j (regCols + i + 1)
  else
    sqlite3VdbeAddOp4 pParse CALL_sqlite3ExprCodeAndCache 0 (regCols + i + 1) 0
      (P4_EXPR (((pList.getD []).get? j).map (fun it => it.pExpr)))

/-- One iteration of the loop that computes the content of the new row
(insert.c:738-828), for column `i`. -/
def sqlite3Insert_column (pParse : Parse) (pTab : Table) (pColumn : Option IdList)
    (pList : Option ExprList) (pSelect : Bool) (useTempTable : Bool)
    (srcTab regFromSelect regData regTupleid : Int) (nColumn : Nat) (i : Nat) : Parse :=
  let iRegStore := regTupleid + 1 + i
  let j := sqlite3Insert_findColumn pColumn i
  if nColumn = 0 ∨ (pColumn.isSome = true ∧ j ≥ (pColumn.getD []).length) then
    if (i : Int) = pTab.iAutoIncPKey then
      sqlite3VdbeAddOp2 pParse OP_Null 0 iRegStore
    else
      sqlite3VdbeAddOp4 pParse CALL_sqlite3ExprCodeFactorable 0 iRegStore 0
        (P4_EXPR (pTab.aCol.getD i default).pDflt)
  else if useTempTable = true then
    if pTab.TF_Autoincrement = true ∧ (i : Int) = pTab.iAutoIncPKey then
      let regTmp := pParse.nMem + 1
      let pParse := pParse.allocMem 1
      let pParse := sqlite3VdbeAddOp3 pParse OP_Column srcTab j regTmp
      let pParse := sqlite3VdbeAddOp2 pParse OP_FCopy regTmp iRegStore
      sqlite3VdbeChangeP3 pParse ((OPFLAG_SAME_FRAME ||| OPFLAG_NOOP_IF_NULL : Nat) : Int)
    else
      sqlite3VdbeAddOp3 pParse OP_Column srcTab j iRegStore
  else if pSelect = true then
    if regFromSelect ≠ regData then
      if pTab.TF_Autoincrement = true ∧ (i : Int) = pTab.iAutoIncPKey then
        let pParse := sqlite3VdbeAddOp2 pParse OP_FCopy (regFromSelect + j) iRegStore
        sqlite3VdbeChangeP3 pParse ((OPFLAG_SAME_FRAME ||| OPFLAG_NOOP_IF_NULL : Nat) : Int)
      else
        sqlite3VdbeAddOp2 pParse OP_SCopy (regFromSelect + j) iRegStore
    else pParse
  else
    let pExpr := ((pList.getD []).get? j).map (fun it => it.pExpr)
    if (i : Int) = pTab.iAutoIncPKey ∧ pExpr.map Expr.op = some TK_NULL then
      sqlite3VdbeAddOp2 pParse OP_Null 0 iRegStore
    else if (i : Int) = pTab.iAutoIncPKey ∧ pExpr.map Expr.op = some TK_REGISTER then
      let pParse := sqlite3VdbeAddOp2 pParse OP_FCopy ((pExpr.map Expr.iTable).getD 0) iRegStore
      sqlite3VdbeChangeP3 pParse ((OPFLAG_SAME_FRAME ||| OPFLAG_NOOP_IF_NULL : Nat) : Int)
    else
      sqlite3VdbeAddOp4 pParse CALL_sqlite3ExprCode 0 iRegStore 0 (P4_EXPR pExpr)

/-- The loop `aRegIdx[i] = ++pParse->nMem; pParse->nMem += pIdx->nColumn;` of
`sqlite3Insert` (insert.c:627-632). -/
def sqlite3Insert_aRegIdx : List Index → Parse → List Int → List Int × Parse
  | [], pParse, aRegIdx => (aRegIdx, pParse)
  | pIdx :: pNext, pParse, aRegIdx =>
    sqlite3Insert_aRegIdx pNext (pParse.allocMem (1 + pIdx.nColumn))
      (aRegIdx ++ [((pParse.nMem + 1 : Nat) : Int)])

/-- The local variables of `sqlite3Insert`, with their initial values. -/
structure InsertLocals where
  nColumn : Nat := 0
  iDataCur : Int := 0
  iIdxCur : Int := 0
  ipkColumn : Int := -1
  endOfLoop : Int := 0
  srcTab : Int := 0
  addrInsTop : Nat := 0
  addrCont : Nat := 0
  useTempTable : Bool := false
  bIdListInOrder : Bool := true
  pList : Option ExprList := none
  pSelect : Option Select := none
  pColumn : Option IdList := none
  regFromSelect : Int := 0
  regRowCount : Int := 0
  regIns : Int := 0
  regTupleid : Int := 0
  regData : Int := 0
  /-- The block-local `regYield`, which is also `dest.iSDParm`. -/
  regYield : Int := 0
  aRegIdx : List Int := []
  isView : Bool := false
  pTrigger : List Trigger := []
  tmask : Nat := 0
  deriving DecidableEq, Repr, Inhabited

/-- How `sqlite3Insert` left: through `insert_end` after the transfer optimization, through
`insert_end` after the general path, or directly at `insert_cleanup`. -/
inductive InsertExit
  | xfer_end
  | insert_end
  | insert_cleanup
  deriving DecidableEq, Repr, Inhabited

/-- The state in which `sqlite3Insert` returns: the compilation context, the destination
table (if it was found), the local variables and the way out. -/
structure InsertResult where
  pParse : Parse
  pTab : Option Table
  L : InsertLocals
  exit : InsertExit
  deriving DecidableEq, Repr, Inhabited

/-- The code at `insert_end` (insert.c:886-899): report the number of rows inserted. -/
def sqlite3Insert_end (pParse : Parse) (regRowCount : Int) : Parse :=
  if pParse.user_session.SQLITE_CountRows = true ∧ pParse.nested = 0
      ∧ pParse.pTriggerTab = false then
    let pParse := sqlite3VdbeAddOp2 pParse OP_ResultRow regRowCount 1
    { pParse with aColName := ["rows inserted"] }
  else pParse

/-- The staging code of the 4th template (insert.c:530-568): the rows of the co-routine
are stored in the transient table `srcTab`. -/
def sqlite3Insert_stage (pParse : Parse) (regYield regFromSelect : Int) (nColumn : Nat) :
    Int × Parse :=
  let srcTab := pParse.nTab
  let pParse := pParse.setNTab (pParse.nTab + 1)
  let (regRec, pParse) := sqlite3GetTempReg pParse
  let (regCopy, pParse) := sqlite3GetTempRange pParse nColumn
  let (regTempId, pParse) := sqlite3GetTempReg pParse
  let pParse := sqlite3VdbeAddOp4 pParse OP_OpenTEphemeral srcTab (nColumn + 1) 0
    (P4_KEYINFO (1 + nColumn) none)
  let addrL := sqlite3VdbeCurrentAddr pParse
  let pParse := sqlite3VdbeAddOp1 pParse OP_Yield regYield
  let pParse := sqlite3VdbeAddOp3 pParse OP_NextIdEphemeral srcTab 2 regTempId
  let pParse := sqlite3VdbeAddOp3 pParse OP_Copy regFromSelect regCopy (nColumn - 1)
  let pParse := sqlite3VdbeAddOp3 pParse OP_MakeRecord regCopy (nColumn + 1) regRec
  let pParse := sqlite3VdbeChangeP5 pParse [RAW 1]
  let pParse := sqlite3VdbeAddOp2 pParse OP_IdxInsert srcTab regRec
  let pParse := sqlite3VdbeGoto pParse addrL
  let pParse := sqlite3VdbeJumpHere pParse addrL
  let pParse := sqlite3ReleaseTempReg pParse regRec
  let pParse := sqlite3ReleaseTempReg pParse regTempId
  let pParse := sqlite3ReleaseTempRange pParse regCopy nColumn
  (srcTab, pParse)

/-- The part of `sqlite3Insert` that initializes the count of rows and opens the
destination (insert.c:608-633). -/
def sqlite3Insert_open (ext : Extern) (pParse : Parse) (pTab : Table)
    (onError : on_conflict_action) (L : InsertLocals) : InsertLocals × Parse :=
  let (regRowCount, pParse) :=
    if pParse.user_session.SQLITE_CountRows = true then
      (((pParse.nMem + 1 : Nat) : Int),
        sqlite3VdbeAddOp2 (pParse.allocMem 1) OP_Integer 0
          ((pParse.nMem + 1 : Nat) : Int))
    else (L.regRowCount, pParse)
  let L := { L with regRowCount := regRowCount }
  if L.isView = false then
    let r := sqlite3OpenTableAndIndices ext pParse pTab OP_OpenWrite [] (-1) none onError false
    let (aRegIdx, pParse) := sqlite3Insert_aRegIdx (pTab.pIndex.take r.nIdx) r.pParse []
    ({ L with iDataCur := r.iDataCur, iIdxCur := r.iIdxCur, aRegIdx := aRegIdx }, pParse)
  else (L, pParse)

/-- The top of the main insertion loop (insert.c:635-661) and the label `endOfLoop`
(insert.c:665). -/
def sqlite3Insert_top (pParse : Parse) (L : InsertLocals) : InsertLocals × Parse :=
  let (L, pParse) :=
    if L.useTempTable = true then
      let addrInsTop := sqlite3VdbeCurrentAddr pParse
      let pParse := sqlite3VdbeAddOp1 pParse OP_Rewind L.srcTab
      ({ L with addrInsTop := addrInsTop, addrCont := sqlite3VdbeCurrentAddr pParse }, pParse)
    else if L.pSelect.isSome = true then
      let addr := sqlite3VdbeCurrentAddr pParse
      let pParse := sqlite3VdbeAddOp1 pParse OP_Yield L.regYield
      ({ L with addrInsTop := addr, addrCont := addr }, pParse)
    else (L, pParse)
  let (endOfLoop, pParse) := sqlite3VdbeMakeLabel pParse
  ({ L with endOfLoop := endOfLoop }, pParse)

/-- The BEFORE and INSTEAD OF triggers of `sqlite3Insert` (insert.c:666-715). -/
def sqlite3Insert_before (pParse : Parse) (pTab : Table) (onError : on_conflict_action)
    (L : InsertLocals) : Table × Parse :=
  if L.tmask &&& TRIGGER_BEFORE ≠ 0 then
    let (regCols, pParse) := sqlite3GetTempRange pParse (pTab.nCol + 1)
    let pParse := (List.range pTab.nCol).foldl
      (fun pParse i => sqlite3Insert_triggerColumn pParse pTab L.pColumn L.pList
        L.useTempTable L.srcTab regCols i) pParse
    let (pTab, pParse) :=
      if L.isView = false then sqlite3TableAffinity pParse pTab (regCols + 1)
      else (pTab, pParse)
    let pParse := sqlite3VdbeAddOp pParse
      { opcode := CALL_sqlite3CodeRowTrigger, p1 := TRIGGER_BEFORE, p2 := L.endOfLoop,
        p3 := regCols - pTab.nCol - 1, p4 := P4_ARGS onError 0 true }
    (pTab, sqlite3ReleaseTempRange pParse regCols (pTab.nCol + 1))
  else (pTab, pParse)

/-- The content of the next row (insert.c:717-828): the row identifier in `regTupleid` and
the columns, beginning with the first one. -/
def sqlite3Insert_newRow (pParse : Parse) (pTab : Table) (L : InsertLocals) : Parse :=
  let pParse :=
    if L.ipkColumn ≥ 0 then
      if L.useTempTable = true then
        sqlite3VdbeAddOp3 pParse OP_Column L.srcTab L.ipkColumn L.regTupleid
      else if L.pSelect.isSome = true then
        sqlite3VdbeAddOp2 pParse OP_Copy (L.regFromSelect + L.ipkColumn) L.regTupleid
      else pParse
    else sqlite3VdbeAddOp2 pParse OP_Null 0 L.regTupleid
  (List.range pTab.nCol).foldl
    (fun pParse i => sqlite3Insert_column pParse pTab L.pColumn L.pList L.pSelect.isSome
      L.useTempTable L.srcTab L.regFromSelect L.regData L.regTupleid L.nColumn i) pParse

/-- The constraint checks and the insertion of the new row (insert.c:830-855). -/
def sqlite3Insert_write (ext : Extern) (pParse : Parse) (pTab : Table)
    (onError : on_conflict_action) (L : InsertLocals) : Option (Table × Parse) :=
  match sqlite3GenerateConstraintChecks ext pParse pTab L.aRegIdx L.iDataCur L.iIdxCur
      L.regIns 0 (decide (L.ipkColumn ≥ 0)) onError L.endOfLoop none with
  | none => none
  | some c =>
    let isReplace := c.pbMayReplace
    let pTab := c.pTab
    let pParse := sqlite3VdbeAddOp c.pParse
      { opcode := CALL_sqlite3FkCheck, p1 := 0, p2 := L.regIns }
    let bUseSeek := decide (isReplace = 0
      ∨ (L.pTrigger = []
        ∧ (pParse.user_session.SQLITE_ForeignKeys = false
          ∨ ext.sqlite3FkReferences pTab = false)))
    match sqlite3CompleteInsertion pParse pTab L.iIdxCur L.aRegIdx bUseSeek onError with
    | none => none
    | some pParse => some (pTab, pParse)

/-- The end of the loop body and the bottom of the main insertion loop
(insert.c:857-884). -/
def sqlite3Insert_bottom (pParse : Parse) (pTab : Table) (onError : on_conflict_action)
    (L : InsertLocals) : Parse :=
  let pParse :=
    if pParse.user_session.SQLITE_CountRows = true then
      sqlite3VdbeAddOp2 pParse OP_AddImm L.regRowCount 1
    else pParse
  let pParse :=
    if L.pTrigger ≠ [] then
      sqlite3VdbeAddOp pParse
        { opcode := CALL_sqlite3CodeRowTrigger, p1 := TRIGGER_AFTER, p2 := L.endOfLoop,
          p3 := L.regData - 2 - pTab.nCol, p4 := P4_ARGS onError 0 true }
    else pParse
  let pParse := sqlite3VdbeResolveLabel pParse L.endOfLoop
  if L.useTempTable = true then
    let pParse := sqlite3VdbeAddOp2 pParse OP_Next L.srcTab L.addrCont
    let pParse := sqlite3VdbeJumpHere pParse L.addrInsTop
    sqlite3VdbeAddOp1 pParse OP_Close L.srcTab
  else if L.pSelect.isSome = true then
    let pParse := sqlite3VdbeGoto pParse L.addrCont
    sqlite3VdbeJumpHere pParse L.addrInsTop
  else pParse

/-- The part of `sqlite3Insert` from the count of rows to the end (insert.c:608-899): open
the destination, the top of the loop, the triggers, the new row, the constraint checks,
the insertion and the bottom of the loop. -/
def sqlite3Insert_loop (ext : Extern) (pParse : Parse) (pTab : Table)
    (onError : on_conflict_action) (L : InsertLocals) : Option InsertResult :=
  let (L, pParse) := sqlite3Insert_open ext pParse pTab onError L
  let (L, pParse) := sqlite3Insert_top pParse L
  let (pTab, pParse) := sqlite3Insert_before pParse pTab onError L
  let r : Option (Table × Parse) :=
    if L.isView = false then
      sqlite3Insert_write ext (sqlite3Insert_newRow pParse pTab L) pTab onError L
    else some (pTab, pParse)
  match r with
  | none => none
  | some (pTab, pParse) =>
    let pParse := sqlite3Insert_bottom pParse pTab onError L
    some { pParse := sqlite3Insert_end pParse L.regRowCount, pTab := some pTab, L := L,
           exit := InsertExit.insert_end }

/-- The result of leaving `sqlite3Insert` at `insert_cleanup`. -/
def sqlite3Insert_cleanup (pParse : Parse) (pTab : Option Table) (L : InsertLocals) :
    InsertResult :=
  { pParse := pParse, pTab := pTab, L := L, exit := InsertExit.insert_cleanup }

/-- The part of `sqlite3Insert` that checks the shape of the statement (insert.c:588-606)
and then runs the rest. -/
def sqlite3Insert_shape (ext : Extern) (pParse : Parse) (pTab : Table)
    (onError : on_conflict_action) (L : InsertLocals) : Option InsertResult :=
  let L := if L.pColumn.isNone = true ∧ L.nColumn > 0 then { L with ipkColumn := pTab.iPKey }
    else L
  if L.pColumn.isNone = true ∧ L.nColumn ≠ 0 ∧ L.nColumn ≠ pTab.nCol then
    some (sqlite3Insert_cleanup
      (sqlite3ErrorMsg pParse
        ("table " ++ pTab.zName ++ " has " ++ toString pTab.nCol ++ " columns but "
          ++ toString L.nColumn ++ " values were supplied")) (some pTab) L)
  else if L.pColumn.isSome = true ∧ L.nColumn ≠ (L.pColumn.getD []).length then
    some (sqlite3Insert_cleanup
      (sqlite3ErrorMsg pParse
        (toString L.nColumn ++ " values for " ++ toString (L.pColumn.getD []).length
          ++ " columns")) (some pTab) L)
  else sqlite3Insert_loop ext pParse pTab onError L

/-- The co-routine of the sub-select (insert.c:489-515): `(true, L, pParse)` when it has
been compiled, with the context at the point where the template is chosen, and
`(false, L, pParse)` when `sqlite3Insert` leaves at `insert_cleanup`. -/
def sqlite3Insert_coroutine (ext : Extern) (pParse : Parse) (pTab : Table)
    (L : InsertLocals) (pSelect : Select) : Bool × InsertLocals × Parse :=
  let regYield : Int := ((pParse.nMem + 1 : Nat) : Int)
  let pParse := pParse.allocMem 1
  let addrTop := sqlite3VdbeCurrentAddr pParse + 1
  let pParse := sqlite3VdbeAddOp3 pParse OP_InitCoroutine regYield 0 addrTop
  let dest : SelectDest :=
    { iSDParm := regYield, iSdst := if L.bIdListInOrder = true then L.regData else 0,
      nSdst := pTab.nCol }
  let (rc, pSelect, dest, pParse) := sqlite3Select ext pParse pSelect dest
  let L := { L with regYield := regYield, regFromSelect := dest.iSdst,
                    pSelect := some pSelect }
  if rc ≠ 0 ∨ pParse.db.mallocFailed = true ∨ pParse.nErr ≠ 0 then (false, L, pParse)
  else
    let pParse := sqlite3VdbeEndCoroutine pParse regYield
    let pParse := sqlite3VdbeJumpHere pParse (addrTop - 1)
    (true, { L with nColumn := pSelect.pEList.length }, pParse)

/-- The part of `sqlite3Insert` that handles the source of the data (insert.c:489-586):
the co-routine of the SELECT and the choice between the 3rd and the 4th template, or the
single-row VALUES clause. -/
def sqlite3Insert_source (ext : Extern) (pParse : Parse) (pTab : Table)
    (onError : on_conflict_action) (L : InsertLocals) : Option InsertResult :=
  match L.pSelect with
  | some pSelect =>
    let (ok, L, pParse) := sqlite3Insert_coroutine ext pParse pTab L pSelect
    if ok = false then some (sqlite3Insert_cleanup pParse (some pTab) L)
    else
      let useTempTable := decide (L.pTrigger ≠ [] ∨ readsTable pParse pTab ≠ 0)
      let L := { L with useTempTable := useTempTable }
      if useTempTable = true then
        let (srcTab, pParse) :=
          sqlite3Insert_stage pParse L.regYield L.regFromSelect L.nColumn
        sqlite3Insert_shape ext pParse pTab onError { L with srcTab := srcTab }
      else sqlite3Insert_shape ext pParse pTab onError L
  | none =>
    let L := { L with srcTab := -1 }
    match L.pList with
    | some pList =>
      let L := { L with nColumn := pList.length }
      match ext.sqlite3ResolveExprListNames pParse pList with
      | some zErr => some (sqlite3Insert_cleanup (sqlite3ErrorMsg pParse zErr) (some pTab) L)
      | none => sqlite3Insert_shape ext pParse pTab onError L
    | none => sqlite3Insert_shape ext pParse pTab onError { L with nColumn := 0 }

/-- The part of `sqlite3Insert` after the transfer optimization has declined
(insert.c:441-487): the registers of the new row and the IDLIST. -/
def sqlite3Insert_general (ext : Extern) (pParse : Parse) (pTab : Table)
    (onError : on_conflict_action) (L : InsertLocals) : Option InsertResult :=
  let regIns : Int := ((pParse.nMem + 1 : Nat) : Int)
  let pParse := pParse.allocMem (pTab.nCol + 1)
  let L := { L with regIns := regIns, regTupleid := regIns, regData := regIns + 1,
                    bIdListInOrder := true }
  match L.pColumn with
  | some pColumn =>
    match sqlite3Insert_idlist pTab pColumn 0 {} with
    | .error zName =>
      let pParse := sqlite3ErrorMsg pParse
        ("table " ++ pTab.zName ++ " has no column named " ++ zName)
      some (sqlite3Insert_cleanup { pParse with checkSchema := true } (some pTab) L)
    | .ok st =>
      sqlite3Insert_source ext pParse pTab onError
        { L with pColumn := some st.a, bIdListInOrder := st.bIdListInOrder,
                 ipkColumn := st.ipkColumn }
  | none => sqlite3Insert_source ext pParse pTab onError L

/-- The beginning of the program of `sqlite3Insert` (insert.c:407-413): the context in
which the transfer optimization is tried. -/
def sqlite3Insert_begin (pParse : Parse) (L : InsertLocals) : Parse :=
  let pParse := sqlite3GetVdbe pParse
  let pParse := if pParse.nested = 0 then { pParse with changeCntOn := true } else pParse
  sqlite3BeginWriteOperation pParse (L.pSelect.isSome || decide (L.pTrigger ≠ []))

/-- `sqlite3Insert` (insert.c:315): compile an INSERT statement.  `pTabList` names the
destination, `pSelect` is the source of the data (`NULL` for DEFAULT VALUES), `pColumn` the
IDLIST (`NULL` when omitted) and `onError` the conflict policy of the statement. -/
def sqlite3Insert (ext : Extern) (pParse : Parse) (pTabList : SrcList)
    (pSelect : Option Select) (pColumn : Option IdList) (onError : on_conflict_action) :
    Option InsertResult :=
  let L : InsertLocals := { pSelect := pSelect, pColumn := pColumn }
  if pParse.nErr ≠ 0 ∨ pParse.db.mallocFailed = true then
    some (sqlite3Insert_cleanup pParse none L)
  else
    let L :=
      match pSelect with
      | some s =>
        if s.SF_Values = true ∧ s.pPrior = false then
          { L with pList := some s.pEList, pSelect := none }
        else L
      | none => L
    match sqlite3SrcListLookup pParse pTabList with
    | (none, pParse) => some (sqlite3Insert_cleanup pParse none L)
    | (some pTab, pParse) =>
      let (pTrigger, tmask) := ext.sqlite3TriggersExist pTab TK_INSERT
      let L := { L with pTrigger := pTrigger, tmask := tmask, isView := pTab.pSelect.isSome }
      match ext.sqlite3ViewGetColumnNames pParse pTab with
      | some zErr => some (sqlite3Insert_cleanup (sqlite3ErrorMsg pParse zErr) (some pTab) L)
      | none =>
        match ext.sqlite3IsReadOnly pParse pTab tmask with
        | some zErr => some (sqlite3Insert_cleanup (sqlite3ErrorMsg pParse zErr) (some pTab) L)
        | none =>
          let pParse := sqlite3Insert_begin pParse L
          if L.pColumn.isNone = true then
            match xferOptimization pParse pTab L.pSelect onError with
            | none => none
            | some (rc, pParse) =>
              if rc ≠ 0 then
                some { pParse := sqlite3Insert_end pParse L.regRowCount, pTab := some pTab,
                       L := L, exit := InsertExit.xfer_end }
              else sqlite3Insert_general ext pParse pTab onError L
          else sqlite3Insert_general ext pParse pTab onError L

/-! ## Closed forms of the emitted code (used to state and prove the properties) -/

/-- The instructions emitted since the program had `n` instructions. -/
def emittedSince (n : Nat) (pParse : Parse) : List VdbeOp := pParse.aOp.drop n

/-- The ten instructions one iteration of the copy loop of `xferOptimization` leaves in the
program, when the iteration starts at address `addr` with register counter `nMem`. -/
def xferBlock (iSrc iDest regData : Int) (addr : Nat) (nMem : Int) (pDestIdx pSrcIdx : Index) :
    List VdbeOp :=
  [ { opcode := OP_Int64, p2 := nMem + 1,
      p4 := P4_SPACEPTR (SQLITE_PAGENO_TO_SPACEID pSrcIdx.tnum) },
    { opcode := OP_OpenRead, p1 := iSrc, p2 := pSrcIdx.tnum, p3 := nMem + 1,
      p4 := P4_KEYINFO pSrcIdx.nColumn (some pSrcIdx.zName) },
    { opcode := OP_Int64, p2 := nMem + 1 + 1,
      p4 := P4_SPACEPTR (SQLITE_PAGENO_TO_SPACEID pDestIdx.tnum) },
    { opcode := OP_OpenWrite, p1 := iDest, p2 := pDestIdx.tnum, p3 := nMem + 1 + 1,
      p4 := P4_KEYINFO pDestIdx.nColumn (some pDestIdx.zName), p5 := [OPFLAG_BULKCSR] },
    { opcode := OP_Rewind, p1 := iSrc, p2 := ((addr + 8 : Nat) : Int) },
    { opcode := OP_RowData, p1 := iSrc, p2 := regData },
    { opcode := OP_IdxInsert, p1 := iDest, p2 := regData,
      p5 := (if pDestIdx.idxType = 2 then [OPFLAG_NCHANGE] else []) ++ [OPFLAG_APPEND] },
    { opcode := OP_Next, p1 := iSrc, p2 := ((addr + 4 : Nat) : Int) + 1 },
    { opcode := OP_Close, p1 := iSrc },
    { opcode := OP_Close, p1 := iDest } ]

/-- The instructions the whole copy loop leaves in the program: one `xferBlock` per index
of the destination, pairing it with the first compatible index of the source. -/
def xferCopyCode (pSrc : Table) (iSrc iDest regData : Int) : List Index → Nat → Int → List VdbeOp
  | [], _, _ => []
  | pDestIdx :: pNext, addr, nMem =>
    match xferOptimization_srcIdx pSrc pDestIdx with
    | none => []
    | some pSrcIdx =>
      xferBlock iSrc iDest regData addr nMem pDestIdx pSrcIdx
        ++ xferCopyCode pSrc iSrc iDest regData pNext (addr + 10) (nMem + 1 + 1)

/-- The condition under which `xferOptimization` emits the run-time test that the
destination is empty (insert.c:1894-1897). -/
def xferNeedsEmptyDest (pDest : Table) (onError : on_conflict_action)
    (destHasUniqueIdx : Bool) : Prop :=
  (pDest.iPKey < 0 ∧ pDest.pIndex ≠ [])
    ∨ destHasUniqueIdx = true
    ∨ (onError ≠ ON_CONFLICT_ACTION_ABORT ∧ onError ≠ ON_CONFLICT_ACTION_ROLLBACK)

instance (pDest : Table) (onError : on_conflict_action) (u : Bool) :
    Decidable (xferNeedsEmptyDest pDest onError u) := by
  unfold xferNeedsEmptyDest; infer_instance

/-- The instructions `xferOptimization` emits before the copy loop, starting from the
context `q`: the destination is opened on its primary index `pk` and, when `guard` holds,
the emptiness test `OP_Rewind`/`OP_Goto` follows (`n` is the number of indexes of the
destination). -/
def xferPreamble (q : Parse) (pk : Index) (n : Nat) (guard : Bool) : List VdbeOp :=
  [ { opcode := OP_Int64, p2 := q.nMem + 1 + 1 + 1,
      p4 := P4_SPACEPTR (SQLITE_PAGENO_TO_SPACEID pk.tnum) },
    { opcode := OP_OpenWrite, p1 := q.nTab + 1, p2 := pk.tnum, p3 := q.nMem + 1 + 1 + 1,
      p4 := P4_KEYINFO pk.nColumn (some pk.zName) } ]
  ++ (if guard then
        [ { opcode := OP_Rewind, p1 := q.nTab + 1, p2 := ((q.aOp.length + 4 : Nat) : Int) },
          { opcode := OP_Goto, p2 := ((q.aOp.length + 4 + 10 * n + 1 : Nat) : Int) } ]
      else [])

/-- The instructions `xferOptimization` emits after the copy loop: with the guard, the
normal end `OP_Halt` and the landing `OP_Close` of the guard's `OP_Goto`. -/
def xferPostamble (q : Parse) (guard : Bool) : List VdbeOp :=
  if guard then
    [ { opcode := OP_Halt, p1 := SQLITE_OK },
      { opcode := OP_Close, p1 := q.nTab + 1 } ]
  else []

/-- The instructions `xferOptimization` leaves in the program once its static tests have
passed, starting from the context `q`. -/
def xferEmitCode (q : Parse) (pDest pSrc : Table) (pk : Index) (guard : Bool) : List VdbeOp :=
  xferPreamble q pk pDest.pIndex.length guard
  ++ xferCopyCode pSrc q.nTab (q.nTab + 1) (q.nMem + 1) pDest.pIndex
      (q.aOp.length + (xferPreamble q pk pDest.pIndex.length guard).length)
      (q.nMem + 1 + 1 + 1)
  ++ xferPostamble q guard

/-- The statement has the syntactic form `xferOptimization` requires
(insert.c:1739-1795). -/
def xferSyntaxOk (pParse : Parse) (pDest : Table) (s : Select) : Prop :=
  pParse.pWith = false ∧ s.pWith = false ∧ pDest.pTrigger = []
    ∧ s.pSrc.length = 1 ∧ (s.pSrc.getD 0 default).pSelect = false
    ∧ s.pWhere = none ∧ s.pOrderBy = none ∧ s.pGroupBy = none ∧ s.pLimit = none
    ∧ s.pPrior = false ∧ s.SF_Distinct = false
    ∧ s.pEList.length = 1 ∧ (s.pEList.getD 0 default).pExpr.op = TK_ASTERISK

/-- Every static test of `xferOptimization` (insert.c:1739-1877) passes for the select `s`
whose FROM clause names the table `pSrc`. -/
def xferStaticOk (pParse : Parse) (pDest : Table) (s : Select) (pSrc : Table) : Prop :=
  xferSyntaxOk pParse pDest s
    ∧ (sqlite3LocateTableItem pParse (s.pSrc.getD 0 default)).1 = some pSrc
    ∧ pSrc ≠ pDest ∧ pSrc.pSelect = none ∧ pDest.nCol = pSrc.nCol ∧ pDest.iPKey = pSrc.iPKey
    ∧ (List.range pDest.nCol).all (xferOptimization_column pDest pSrc) = true
    ∧ (∀ d ∈ pDest.pIndex, (xferOptimization_srcIdx pSrc d).isSome = true)
    ∧ (pDest.pCheck = none ∨ sqlite3ExprListCompare pSrc.pCheck pDest.pCheck = 0)
    ∧ (pParse.user_session.SQLITE_ForeignKeys = true → pDest.pFKey = [])
    ∧ pParse.user_session.SQLITE_CountRows = false

/-- The code `code`, placed at address `base`, contains the destination-emptiness guard:
an `OP_Rewind` on cursor `iDest` that jumps over the `OP_Goto` right after it, the target
of that `OP_Goto` being the last instruction of the code. -/
def hasEmptyDestGuard (code : List VdbeOp) (base : Nat) (iDest : Int) : Prop :=
  ∃ pre post rw gt, code = pre ++ rw :: gt :: post
    ∧ rw.opcode = OP_Rewind ∧ rw.p1 = iDest ∧ rw.p2 = ((base + pre.length + 2 : Nat) : Int)
    ∧ gt.opcode = OP_Goto ∧ gt.p2 + 1 = ((base + code.length : Nat) : Int)

/-! ## How a code generator extends the program -/

/-- The opcodes of the program of a context, in address order. -/
def Parse.ops (p : Parse) : List Opcode := p.aOp.map (fun o => o.opcode)

/-- The context `q` is reached from `p` by allocating registers and appending instructions
whose opcodes all belong to `L`; the instructions already in the program keep their
opcodes (a jump may have been given its target). -/
def Grows (L : List Opcode) (p q : Parse) : Prop :=
  p.nMem ≤ q.nMem ∧ ∃ cs, q.ops = p.ops ++ cs ∧ ∀ c ∈ cs, c ∈ L

/-- The opcodes `sqlite3GenerateConstraintChecks` can emit. -/
def sqlite3GenerateConstraintChecks_ops : List Opcode :=
  [OP_Init, OP_HaltIfNull, OP_IsNull, OP_NotNull, CALL_sqlite3ExprCode, CALL_sqlite3ExprIfTrue,
    OP_Goto, OP_Halt, OP_Affinity, OP_Null, CALL_sqlite3ExprIfFalseDup,
    CALL_sqlite3ExprCodeCopy, OP_SCopy, OP_MustBeInt, OP_MakeRecord, OP_NoConflict, OP_Column,
    OP_Eq, OP_Ne, CALL_sqlite3GenerateRowDelete]

/-- The opcodes the main loop of `sqlite3Insert` (from the count of rows to `insert_end`)
can emit. -/
def sqlite3Insert_loop_ops : List Opcode :=
  [OP_Integer, OP_Int64, OP_OpenWrite, OP_Rewind, OP_Yield, CALL_sqlite3ExprCodeAndCache,
    CALL_sqlite3CodeRowTrigger, OP_Copy, CALL_sqlite3ExprCodeFactorable, OP_FCopy,
    CALL_sqlite3FkCheck, OP_IdxReplace, OP_IdxInsert, OP_AddImm, OP_Next, OP_Close,
    OP_ResultRow] ++ sqlite3GenerateConstraintChecks_ops

/-- The local variables of `sqlite3Insert` that are final once the template has been chosen
(insert.c:586): the others (`ipkColumn`, the cursors, the loop addresses, `regRowCount`,
`aRegIdx`) are reset to their initial values. -/
def InsertLocals.settled (L : InsertLocals) : InsertLocals :=
  { L with ipkColumn := -1, iDataCur := 0, iIdxCur := 0, endOfLoop := 0, addrInsTop := 0,
           addrCont := 0, regRowCount := 0, aRegIdx := [] }

/-- The opcodes of the staging code of the 4th template (insert.c:530-568), in order. -/
def sqlite3Insert_stage_ops : List Opcode :=
  [OP_OpenTEphemeral, OP_Yield, OP_NextIdEphemeral, OP_Copy, OP_MakeRecord, OP_IdxInsert, OP_Goto]

/-- The local variables of `sqlite3Insert` once the destination `pTab` has been found
(insert.c:353-400): a single-row VALUES clause has become `pList`, and the triggers of the
destination are known. -/
def sqlite3Insert_locals (ext : Extern) (pTab : Table) (pSelect : Option Select)
    (pColumn : Option IdList) : InsertLocals :=
  let L : InsertLocals := { pSelect := pSelect, pColumn := pColumn }
  let L :=
    match pSelect with
    | some s =>
      if s.SF_Values = true ∧ s.pPrior = false then
        { L with pList := some s.pEList, pSelect := none }
      else L
    | none => L
  { L with pTrigger := (ext.sqlite3TriggersExist pTab TK_INSERT).1,
           tmask := (ext.sqlite3TriggersExist pTab TK_INSERT).2,
           isView := pTab.pSelect.isSome }

/-- The context `xferOptimization` hands back when it has emitted its code from the context
`q` (whose program exists): two cursors, the registers `regData`, `regTupleid` and the
space pointers, and the instructions `xferEmitCode`. -/
def xferResult (q : Parse) (pDest pSrc : Table) (pk : Index) (guard : Bool) : Parse :=
  { q with
    nTab := q.nTab + 1 + 1
    nMem := q.nMem + 1 + 1 + 1 + 2 * pDest.pIndex.length
    aOp := q.aOp ++ xferEmitCode q pDest pSrc pk guard }

/-- The register in which an instruction of the new-row code stores its value: P3 for
`OP_Column`, P2 for the other instructions (`OP_Null`, `OP_Copy`, `OP_SCopy`, `OP_FCopy` and
the expression code generators). -/
def storeRegister (op : VdbeOp) : Int := if op.opcode = OP_Column then op.p3 else op.p2

/-! ## The phases and closed forms of the constraint checks -/

/-- The NOT NULL loop of `sqlite3GenerateConstraintChecks` (insert.c:1092-1156). -/
def sqlite3GenerateConstraintChecks_notNullLoop (pParse : Parse) (pTab : Table)
    (regNewData : Int) (overrideError : on_conflict_action) (ignoreDest : Int)
    (aiChng : Option (List Int)) : Parse :=
  (List.range pTab.nCol).foldl
    (fun pParse i => sqlite3GenerateConstraintChecks_notNull pParse pTab regNewData
      overrideError ignoreDest aiChng i) pParse

/-- The CHECK block of `sqlite3GenerateConstraintChecks` (insert.c:1161-1193). -/
def sqlite3GenerateConstraintChecks_checks (pParse : Parse) (pTab : Table)
    (regNewData : Int) (overrideError : on_conflict_action) (ignoreDest : Int)
    (aiChng : Option (List Int)) : Parse :=
  if pTab.pCheck.isSome = true ∧ pParse.user_session.SQLITE_IgnoreChecks = false then
    let pParse := pParse.setCkBase (regNewData + 1)
    let onError := if overrideError ≠ ON_CONFLICT_ACTION_DEFAULT then overrideError
      else ON_CONFLICT_ACTION_ABORT
    sqlite3GenerateConstraintChecks_check pTab ignoreDest aiChng (pTab.pCheck.getD [])
      onError pParse
  else pParse

/-- The state in which the UNIQUE loop of `sqlite3GenerateConstraintChecks` starts
(insert.c:1070-1073, 1202): the context after the NOT NULL loop and the CHECK block. -/
def sqlite3GenerateConstraintChecks_uniqueStart (pParse : Parse) (pTab : Table)
    (regNewData : Int) (overrideError : on_conflict_action) (ignoreDest : Int)
    (aiChng : Option (List Int)) : UniqueState :=
  { pParse := sqlite3GenerateConstraintChecks_checks
      (sqlite3GenerateConstraintChecks_notNullLoop (sqlite3GetVdbe pParse) pTab regNewData
        overrideError ignoreDest aiChng)
      pTab regNewData overrideError ignoreDest aiChng,
    pTab := pTab, bAffinityDone := false, seenReplace := 0 }

/-- The test at the top of the NOT NULL loop (insert.c:1093-1103): column `i` gets a NOT
NULL check when it is not the integer primary key `iPKey`, is not marked as unchanged, is
not nullable and is not the auto-increment key. -/
def notNullChecked (pTab : Table) (aiChng : Option (List Int)) (i : Nat) : Bool :=
  decide ((i : Int) ≠ pTab.iPKey)
    && !(aiChng.isSome && decide ((aiChng.getD []).getD i 0 < 0))
    && !(table_column_is_nullable pTab i
          || (pTab.TF_Autoincrement && decide (pTab.iAutoIncPKey = (i : Int))))

/-- The NOT NULL policy of column `i` in the words of the specification: the statement
override if it is not Default, else the declared action of the column, else Abort; and
Replace on a column without a default value is downgraded to Abort. -/
def specNotNullPolicy (pTab : Table) (overrideError : on_conflict_action) (i : Nat) :
    on_conflict_action :=
  let policy :=
    if overrideError ≠ ON_CONFLICT_ACTION_DEFAULT then overrideError
    else if table_column_nullable_action pTab i ≠ ON_CONFLICT_ACTION_DEFAULT then
      table_column_nullable_action pTab i
    else ON_CONFLICT_ACTION_ABORT
  if policy = ON_CONFLICT_ACTION_REPLACE ∧ (pTab.aCol.getD i default).pDflt = none then
    ON_CONFLICT_ACTION_ABORT
  else policy

/-- The register a NOT NULL check instruction tests: P3 of `OP_HaltIfNull`, P1 of
`OP_IsNull` and `OP_NotNull`. -/
def notNullRegister (op : VdbeOp) : Int := if op.opcode = OP_HaltIfNull then op.p3 else op.p1

/-- The opcodes of the NOT NULL check of column `i` under the resolved policy. -/
def notNullOps (pTab : Table) (overrideError : on_conflict_action) (i : Nat) : List Opcode :=
  match specNotNullPolicy pTab overrideError i with
  | ON_CONFLICT_ACTION_ABORT | ON_CONFLICT_ACTION_ROLLBACK | ON_CONFLICT_ACTION_FAIL =>
    [OP_HaltIfNull]
  | ON_CONFLICT_ACTION_IGNORE => [OP_IsNull]
  | _ => [OP_NotNull, CALL_sqlite3ExprCode]

/-- The instructions of the NOT NULL check of column `i` under the resolved policy, when
the check starts at address `addr`. -/
def notNullCode (pTab : Table) (regNewData : Int) (overrideError : on_conflict_action)
    (ignoreDest : Int) (addr : Nat) (i : Nat) : List VdbeOp :=
  match specNotNullPolicy pTab overrideError i with
  | ON_CONFLICT_ACTION_ABORT | ON_CONFLICT_ACTION_ROLLBACK | ON_CONFLICT_ACTION_FAIL =>
    [{ opcode := OP_HaltIfNull, p1 := SQLITE_CONSTRAINT_NOTNULL,
       p2 := (specNotNullPolicy pTab overrideError i).toInt, p3 := regNewData + 1 + i,
       p4 := P4_STRING (pTab.zName ++ "." ++ (pTab.aCol.getD i default).zName),
       p5 := [P5_ConstraintNotNull] }]
  | ON_CONFLICT_ACTION_IGNORE =>
    [{ opcode := OP_IsNull, p1 := regNewData + 1 + i, p2 := ignoreDest }]
  | _ =>
    [{ opcode := OP_NotNull, p1 := regNewData + 1 + i, p2 := (addr : Int) + 2 },
     { opcode := CALL_sqlite3ExprCode, p2 := regNewData + 1 + i,
       p4 := P4_EXPR (pTab.aCol.getD i default).pDflt }]

/-- The policy of a CHECK constraint in the words of the specification: the statement
override, with Default and Replace both treated as Abort. -/
def specCheckPolicy (overrideError : on_conflict_action) : on_conflict_action :=
  if overrideError = ON_CONFLICT_ACTION_DEFAULT ∨ overrideError = ON_CONFLICT_ACTION_REPLACE then
    ON_CONFLICT_ACTION_ABORT
  else overrideError

/-- The two instructions of one CHECK constraint whose pass label is `allOk`: the jump to
the pass label when the expression is true, then the jump to `ignoreDest` under the policy
Ignore and the constraint halt otherwise. -/
def checkConstraintCode (pTab : Table) (ignoreDest : Int) (overrideError : on_conflict_action)
    (item : ExprList_item) (allOk : Int) : List VdbeOp :=
  [ { opcode := CALL_sqlite3ExprIfTrue, p2 := allOk, p4 := P4_EXPR (some item.pExpr),
      p5 := [SQLITE_JUMPIFNULL] },
    if overrideError = ON_CONFLICT_ACTION_IGNORE then
      { opcode := OP_Goto, p2 := ignoreDest }
    else
      { opcode := OP_Halt, p1 := SQLITE_CONSTRAINT_CHECK,
        p2 := (specCheckPolicy overrideError).toInt,
        p4 := P4_STRING (item.zName.getD pTab.zName), p5 := [P5_ConstraintCheck] } ]

/-- The code of the CHECK constraints `l` that are not skipped, when `nLabel` labels exist
before the first of them: each constraint takes the next label as its pass label. -/
def checkConstraintsCode (pTab : Table) (ignoreDest : Int) (overrideError : on_conflict_action)
    (aiChng : Option (List Int)) : List ExprList_item → Nat → List VdbeOp
  | [], _ => []
  | item :: rest, nLabel =>
    if aiChng.isSome = true ∧ checkConstraintUnchanged item.pExpr (aiChng.getD []) = true then
      checkConstraintsCode pTab ignoreDest overrideError aiChng rest nLabel
    else
      checkConstraintCode pTab ignoreDest overrideError item (-1 - (nLabel : Int))
        ++ checkConstraintsCode pTab ignoreDest overrideError aiChng rest (nLabel + 1)

/-- The addresses of the pass labels of the CHECK constraints `l` that are not skipped, when
the code of the first of them starts at address `addr`: each label is the address right
after the two instructions of its constraint. -/
def checkConstraintsLabels (aiChng : Option (List Int)) : List ExprList_item → Nat → List Int
  | [], _ => []
  | item :: rest, addr =>
    if aiChng.isSome = true ∧ checkConstraintUnchanged item.pExpr (aiChng.getD []) = true then
      checkConstraintsLabels aiChng rest addr
    else ((addr : Int) + 2) :: checkConstraintsLabels aiChng rest (addr + 2)

/-- The opcodes the UNIQUE loop of `sqlite3GenerateConstraintChecks` can emit: the
construction of the index entry (insert.c:1218-1294), the uniqueness probe
(insert.c:1346-1408) and the conflict handler (insert.c:1417-1451). -/
def sqlite3GenerateConstraintChecks_uniqueOps : List Opcode :=
  [OP_Affinity, OP_Null, CALL_sqlite3ExprIfFalseDup, CALL_sqlite3ExprCodeCopy, OP_SCopy,
    OP_IsNull, OP_MustBeInt, OP_MakeRecord, OP_NoConflict, OP_Column, OP_Eq, OP_Ne, OP_Halt,
    OP_Goto, CALL_sqlite3GenerateRowDelete]

/-- The opcodes of the first half of one iteration of the UNIQUE loop (insert.c:1218-1294):
the affinity of the new row, the partial-index test, the registers of the index entry, the
type check of an integer primary key and the record. -/
def sqlite3GenerateConstraintChecks_recordOps : List Opcode :=
  [OP_Affinity, OP_Null, CALL_sqlite3ExprIfFalseDup, CALL_sqlite3ExprCodeCopy, OP_SCopy,
    OP_IsNull, OP_MustBeInt, OP_MakeRecord]

/-- The policy of a uniqueness conflict in the words of the specification: the statement
override if it is not Default, else the declared policy of the index, else Abort. -/
def specUniquePolicy (overrideError : on_conflict_action) (pIdx : Index) : on_conflict_action :=
  if overrideError ≠ ON_CONFLICT_ACTION_DEFAULT then overrideError
  else if pIdx.onError ≠ ON_CONFLICT_ACTION_DEFAULT then pIdx.onError
  else ON_CONFLICT_ACTION_ABORT

/-- The tests of insert.c:1301-1343 under which one iteration of the UNIQUE loop emits no
uniqueness test for the index `pIdx` at position `ix`: an UPDATE that leaves the primary key
alone, an index that is not unique, a statement override of Fail, Ignore or Abort, and the
only index of a table under the policy Replace when no delete trigger has to fire and no
foreign key is involved.  `session` holds the session flags and `pTab` is the table as the
iteration sees it. -/
def uniqueTestElided (ext : Extern) (session : Session) (pTab : Table) (regOldData : Int)
    (pkChng : Bool) (overrideError : on_conflict_action) (pkIx nIndex : Nat) (pIdx : Index)
    (ix : Nat) : Prop :=
  (regOldData ≠ 0 ∧ ix = pkIx ∧ pkChng = false)
    ∨ pIdx.onError = ON_CONFLICT_ACTION_NONE
    ∨ (overrideError = ON_CONFLICT_ACTION_FAIL ∨ overrideError = ON_CONFLICT_ACTION_IGNORE
        ∨ overrideError = ON_CONFLICT_ACTION_ABORT)
    ∨ ((ix = 0 ∧ nIndex = ix + 1)
        ∧ specUniquePolicy overrideError pIdx = ON_CONFLICT_ACTION_REPLACE
        ∧ (session.SQLITE_RecTriggers = false
            ∨ (ext.sqlite3TriggersExist pTab TK_DELETE).1 = [])
        ∧ (session.SQLITE_ForeignKeys = false
            ∨ (pTab.pFKey = [] ∧ ext.sqlite3FkReferences pTab = false)))

instance (ext : Extern) (session : Session) (pTab : Table) (regOldData : Int)
    (pkChng : Bool) (overrideError : on_conflict_action) (pkIx nIndex : Nat) (pIdx : Index)
    (ix : Nat) :
    Decidable (uniqueTestElided ext session pTab regOldData pkChng overrideError pkIx nIndex
      pIdx ix) := by
  unfold uniqueTestElided; infer_instance

/-- The conflict handler of an index under the resolved policy `policy`
(insert.c:1417-1451): a uniqueness-violation halt for Fail and Rollback, nothing for Abort,
a jump to `ignoreDest` for Ignore, and otherwise the deletion of the conflicting row, whose
primary key is in the `nKeyCol` registers from `regR` on. -/
def uniqueConflictCode (ext : Extern) (session : Session) (pTab : Table)
    (iDataCur iIdxCur ignoreDest : Int) (policy : on_conflict_action) (pPk : Index)
    (pkIx : Nat) (pIdx : Index) (ix : Nat) (regR : Int) : List VdbeOp :=
  match policy with
  | ON_CONFLICT_ACTION_FAIL | ON_CONFLICT_ACTION_ROLLBACK =>
    [{ opcode := OP_Halt,
       p1 := if IsPrimaryKeyIndex pIdx then SQLITE_CONSTRAINT_PRIMARYKEY
         else SQLITE_CONSTRAINT_UNIQUE,
       p2 := policy.toInt, p4 := P4_STRING pIdx.zName, p5 := [P5_ConstraintUnique] }]
  | ON_CONFLICT_ACTION_ABORT => []
  | ON_CONFLICT_ACTION_IGNORE => [{ opcode := OP_Goto, p2 := ignoreDest }]
  | _ =>
    [{ opcode := CALL_sqlite3GenerateRowDelete, p1 := iDataCur, p2 := iIdxCur, p3 := regR,
       p4 := P4_ARGS ON_CONFLICT_ACTION_REPLACE pPk.nKeyCol
         (decide (session.SQLITE_RecTriggers = true
           ∧ (ext.sqlite3TriggersExist pTab TK_DELETE).1 ≠ [])),
       p5 := [if ix = pkIx then ONEPASS_SINGLE else ONEPASS_OFF] }]

/-- The table once `sqlite3TableAffinity` has cached its affinity string. -/
def Table.withAffinity (pTab : Table) : Table :=
  { pTab with
    zColAff := some (match pTab.zColAff with
      | some z => z
      | none => sqlite3TableAffinity_zColAff pTab) }

/-- The iteration of the UNIQUE loop for the index `pIdx` at position `ix` reaches the
Replace conflict handler (insert.c:1430-1450): the index has a register, its uniqueness
test is not elided and its resolved policy is Replace. -/
def reachesReplaceHandler (ext : Extern) (session : Session) (pTab : Table)
    (aRegIdx : List Int) (regOldData : Int) (pkChng : Bool)
    (overrideError : on_conflict_action) (pkIx nIndex : Nat) (pIdx : Index) (ix : Nat) : Prop :=
  aRegIdx.getD ix 0 ≠ 0
    ∧ ¬ uniqueTestElided ext session pTab regOldData pkChng overrideError pkIx nIndex pIdx ix
    ∧ specUniquePolicy overrideError pIdx = ON_CONFLICT_ACTION_REPLACE

instance (ext : Extern) (session : Session) (pTab : Table) (aRegIdx : List Int)
    (regOldData : Int) (pkChng : Bool) (overrideError : on_conflict_action) (pkIx nIndex : Nat)
    (pIdx : Index) (ix : Nat) :
    Decidable (reachesReplaceHandler ext session pTab aRegIdx regOldData pkChng overrideError
      pkIx nIndex pIdx ix) := by
  unfold reachesReplaceHandler; infer_instance

/-- The ordinal of the first column of the table that is named `zName` (the length of the
column list when there is none): what the inner loop of the IDLIST check
(insert.c:468-481) looks for. -/
def Table.columnOrdinal (pTab : Table) (zName : String) : Nat :=
  pTab.aCol.findIdx (fun c => c.zName == zName)

/-- What the code generators of `insert.c` leave alone: `Keeps p q` says that the context
`q` has the database handle, the session flags, the error state and the trigger and WITH
context of `p`, that its register counter, cursor counter, program and label table are not
smaller, and that its program exists when the one of `p` does. -/
structure Keeps (p q : Parse) : Prop where
  db : q.db = p.db
  user_session : q.user_session = p.user_session
  nErr : q.nErr = p.nErr
  zErrMsg : q.zErrMsg = p.zErrMsg
  checkSchema : q.checkSchema = p.checkSchema
  nested : q.nested = p.nested
  pTriggerTab : q.pTriggerTab = p.pTriggerTab
  pWith : q.pWith = p.pWith
  nMem : p.nMem ≤ q.nMem
  nTab : p.nTab ≤ q.nTab
  pVdbe : p.pVdbe = true → q.pVdbe = true
  aOp : p.aOp.length ≤ q.aOp.length
  aLabel : p.aLabel.length ≤ q.aLabel.length

/-! ## `lua/session.c`: pushing a message to a console session -/

/-- The console socket as `console_do_push` sees it: the bytes written to the descriptor so
far, and the counts that the calls of `fio_write_silent` have reported, in the order of the
calls. -/
structure Console where
  out : List Char := []
  reported : List Int := []
  deriving DecidableEq, Repr, Inhabited

/-- What one call `fio_write_silent(fd, text, len)` reports, as a function of the state of
the socket and of the arguments. -/
abbrev WriteOracle := Console → List Char → Nat → Int

/-- Modelled from the spec: `fio_write_silent` is not part of `session.c`.  A call either
writes bytes from the front of `text` to the descriptor and reports their number, or reports
a negative count and writes nothing; the count is given by the parameter `write`. -/
def fio_write_silent (write : WriteOracle) (fd : Console) (text : List Char) (len : Nat) :
    Int × Console :=
  let written := write fd text len
  (written,
    { out := if written < 0 then fd.out else fd.out ++ text.take written.toNat
      reported := fd.reported ++ [written] })

/-- `console_do_push` (session.c:122): write `len` bytes of `text` to the console descriptor.
`len` is a `uint32_t`.  The loop runs at most `fuel` times; the result is `none` when it has
not finished by then. -/
def console_do_push (write : WriteOracle) :
    Nat → Console → List Char → Nat → Option (Int × Console)
  | 0, fd, _, len => if len > 0 then none else some (0, fd)
  | fuel + 1, fd, text, len =>
    if len > 0 then
      let (written, fd) := fio_write_silent write fd text len
      if written < 0 then some (-1, fd)
      else
        console_do_push write fuel fd (text.drop written.toNat)
          (((len : Int) - written) % 2 ^ 32).toNat
    else some (0, fd)

/-- A port (`struct port`), by what `port_dump_raw` makes of it. -/
structure Port where
  /-- The text of the raw dump, `NULL` when the dump fails; `text_len` is its length. -/
  dump : Option (List Char) := none
  deriving DecidableEq, Repr, Inhabited

/-- Modelled from the spec: `port_dump_raw` is not part of `session.c`.  The raw dump of
the port: the text, whose length is stored in `*text_len`, or `NULL`. -/
def port_dump_raw (port : Port) : Option (List Char) := port.dump

/-- `console_session_owner_push` (session.c:135): send the prefix `push:` and the dump of
the port to the console socket `fd` of the owner.  Each of the two calls of
`console_do_push` gets the fuel `fuel`. -/
def console_session_owner_push (write : WriteOracle) (fuel : Nat) (fd : Console)
    (port : Port) : Option (Int × Console) :=
  match port_dump_raw port with
  | none => some (-1, fd)
  | some text =>
    match console_do_push write fuel fd "push:".data "push:".length with
    | none => none
    | some (rc, fd) =>
      if rc ≠ 0 then some (-1, fd)
      else
        match console_do_push write fuel fd text text.length with
        | none => none
        | some (rc, fd) => if rc ≠ 0 then some (-1, fd) else some (0, fd)

/-- The instruction that counts the new row (insert.c:857-861), if rows are counted. -/
def sqlite3Insert_rowCountCode (session : Session) (L : InsertLocals) : List VdbeOp :=
  if session.SQLITE_CountRows = true then
    [{ opcode := OP_AddImm, p1 := L.regRowCount, p2 := 1 }]
  else []

/-- The call of the AFTER triggers (insert.c:863-868), if the destination has triggers. -/
def sqlite3Insert_afterCode (pTab : Table) (onError : on_conflict_action) (L : InsertLocals) :
    List VdbeOp :=
  if L.pTrigger ≠ [] then
    [{ opcode := CALL_sqlite3CodeRowTrigger, p1 := TRIGGER_AFTER, p2 := L.endOfLoop,
       p3 := L.regData - 2 - pTab.nCol, p4 := P4_ARGS onError 0 true }]
  else []

/-- The instructions at the bottom of the loop that go on to the next row
(insert.c:874-884): `OP_Next` and `OP_Close` in the staged template, the `OP_Goto` to the top
of the loop in the streamed template, nothing for a single row. -/
def sqlite3Insert_advanceCode (L : InsertLocals) : List VdbeOp :=
  if L.useTempTable = true then
    [{ opcode := OP_Next, p1 := L.srcTab, p2 := L.addrCont },
     { opcode := OP_Close, p1 := L.srcTab }]
  else if L.pSelect.isSome = true then [{ opcode := OP_Goto, p2 := L.addrCont }]
  else []

/-- The instruction at `insert_end` (insert.c:886-899) that returns the number of rows. -/
def sqlite3Insert_endCode (pParse : Parse) (regRowCount : Int) : List VdbeOp :=
  if pParse.user_session.SQLITE_CountRows = true ∧ pParse.nested = 0
      ∧ pParse.pTriggerTab = false then
    [{ opcode := OP_ResultRow, p1 := regRowCount, p2 := 1 }]
  else []

/-- A block of `size` consecutive registers, the first of which is `base`. -/
structure RegBlock where
  base : Int
  size : Nat
  deriving DecidableEq, Repr, Inhabited

/-- Two blocks of registers have no register in common. -/
def RegBlock.disjoint (a b : RegBlock) : Prop :=
  a.base + (a.size : Int) ≤ b.base ∨ b.base + (b.size : Int) ≤ a.base

instance (a b : RegBlock) : Decidable (a.disjoint b) := by
  unfold RegBlock.disjoint; infer_instance

/-- Every register of block `a` is below every register of block `b`. -/
def RegBlock.before (a b : RegBlock) : Prop :=
  a.base + (a.size : Int) ≤ b.base

instance (a b : RegBlock) : Decidable (a.before b) := by
  unfold RegBlock.before; infer_instance

/-- The registers of the block are among the registers `lo + 1 .. hi`. -/
def RegBlock.within (a : RegBlock) (lo hi : Nat) : Prop :=
  (lo : Int) < a.base ∧ a.base + (a.size : Int) ≤ (hi : Int) + 1

instance (a : RegBlock) (lo hi : Nat) : Decidable (a.within lo hi) := by
  unfold RegBlock.within; infer_instance

/-- The blocks of the indexes (insert.c:627-632): the register `aRegIdx[i]` of the record of
index `i`, followed by the `nColumn` registers of its entry. -/
def sqlite3Insert_indexBlocks (aRegIdx : List Int) (pIndex : List Index) : List RegBlock :=
  List.zipWith (fun reg pIdx => { base := reg, size := 1 + pIdx.nColumn }) aRegIdx pIndex

/-- The register blocks that `sqlite3Insert` has allocated when it reaches `insert_end`
along the general path: the new row (insert.c:441-446), the co-routine register of a
sub-select (insert.c:502), the count of rows if rows are counted (insert.c:611) and, unless
the destination is a view, the space pointer `spacePtr` of `sqlite3OpenTableAndIndices` and
the blocks of the indexes. -/
def sqlite3Insert_blocks (pTab : Table) (session : Session) (L : InsertLocals)
    (spacePtr : Int) : List RegBlock :=
  [{ base := L.regIns, size := pTab.nCol + 1 }]
    ++ (if L.pSelect.isSome = true then [{ base := L.regYield, size := 1 }] else [])
    ++ (if session.SQLITE_CountRows = true then [{ base := L.regRowCount, size := 1 }] else [])
    ++ (if L.isView = false then
          { base := spacePtr, size := 1 } :: sqlite3Insert_indexBlocks L.aRegIdx pTab.pIndex
        else [])

/-- The registers `aRegIdx[i]` that the loop of insert.c:627-632 hands out when it starts
with the register counter `nMem`. -/
def sqlite3Insert_indexRegisters : List Index → Nat → List Int
  | [], _ => []
  | pIdx :: pNext, nMem =>
    ((nMem + 1 : Nat) : Int) :: sqlite3Insert_indexRegisters pNext (nMem + (1 + pIdx.nColumn))

/-- The opcodes `sqlite3Insert` can emit on the general path, for a statement without a
sub-select, before the uniqueness probes and the write of the new row: the start of the
program, the count of rows, the cursors of the destination, the columns for the BEFORE
triggers and their call, the new row, the NOT NULL and CHECK constraints, the index records
and the conflict handlers.  Neither a write (`OP_IdxInsert`, `OP_IdxReplace`) nor a probe
(`OP_NoConflict`) is among them. -/
def sqlite3Insert_row_ops : List Opcode :=
  [OP_Init, OP_Integer, OP_Int64, OP_OpenWrite, OP_Rewind, OP_Yield,
    CALL_sqlite3ExprCodeAndCache, CALL_sqlite3ExprCode, CALL_sqlite3CodeRowTrigger, OP_Copy,
    OP_Column, CALL_sqlite3ExprCodeFactorable, OP_FCopy, OP_SCopy, OP_Null, OP_Affinity,
    OP_HaltIfNull, OP_IsNull, OP_NotNull, CALL_sqlite3ExprIfTrue, OP_Goto, OP_Halt,
    CALL_sqlite3ExprIfFalseDup, CALL_sqlite3ExprCodeCopy, OP_MustBeInt, OP_MakeRecord,
    CALL_sqlite3GenerateRowDelete]

/-- The opcodes `sqlite3Insert` can emit after the write of the new row (insert.c:857-899). -/
def sqlite3Insert_tail_ops : List Opcode :=
  [OP_AddImm, CALL_sqlite3CodeRowTrigger, OP_Next, OP_Close, OP_Goto, OP_ResultRow]

/-- The code of the new row of `INSERT ... DEFAULT VALUES` without a column-name list
(insert.c:731-757): `OP_Null` for the row identifier in `regTupleid`, and then for column `i`
the default expression of the column, coded by `sqlite3ExprCodeFactorable` into register
`regTupleid + 1 + i`, or `OP_Null` when column `i` is the auto-increment key. -/
def sqlite3Insert_defaultRowCode (pTab : Table) (regTupleid : Int) : List VdbeOp :=
  { opcode := OP_Null, p1 := 0, p2 := regTupleid }
    :: (List.range pTab.nCol).map (fun (i : Nat) =>
          if (i : Int) = pTab.iAutoIncPKey then
            { opcode := OP_Null, p1 := 0, p2 := regTupleid + 1 + i }
          else
            { opcode := CALL_sqlite3ExprCodeFactorable, p1 := 0, p2 := regTupleid + 1 + i,
              p3 := 0, p4 := P4_EXPR (pTab.aCol.getD i default).pDflt })

/-- The tests of insert.c:1209-1214 and 1301-1347 under which an INSERT under the statement
policy `overrideError` emits the uniqueness probe `OP_NoConflict` for the only index `pIdx`
of `pTab`: the uniqueness test of the index is not elided, and the index or the statement
has a policy other than Abort and Default. -/
def uniqueProbeEmitted (ext : Extern) (session : Session) (pTab : Table)
    (overrideError : on_conflict_action) (pIdx : Index) : Prop :=
  ¬ uniqueTestElided ext session pTab 0 false overrideError 0 1 pIdx 0
    ∧ ((pIdx.onError ≠ ON_CONFLICT_ACTION_ABORT ∧ pIdx.onError ≠ ON_CONFLICT_ACTION_DEFAULT)
      ∨ (overrideError ≠ ON_CONFLICT_ACTION_ABORT
        ∧ overrideError ≠ ON_CONFLICT_ACTION_DEFAULT))

instance (ext : Extern) (session : Session) (pTab : Table)
    (overrideError : on_conflict_action) (pIdx : Index) :
    Decidable (uniqueProbeEmitted ext session pTab overrideError pIdx) := by
  unfold uniqueProbeEmitted; infer_instance

/-- What an operand of an instruction stands for: a register, a register or 0 for "none",
a cursor, or something else (a jump target, a count, a code, a root page). -/
inductive OperandRole
  | register
  | optionalRegister
  | cursor
  | other
  deriving DecidableEq, Repr, Inhabited

section Roles

open OperandRole

/-- The roles of the operands P1, P2 and P3 of the instructions `insert.c` emits. -/
def operandRoles : Opcode → OperandRole × OperandRole × OperandRole
  | OP_Int64 => (other, register, other)
  | OP_OpenRead => (cursor, other, optionalRegister)
  | OP_OpenWrite => (cursor, other, optionalRegister)
  | OP_OpenTEphemeral => (cursor, other, other)
  | OP_Affinity => (register, other, other)
  | OP_InitCoroutine => (register, other, other)
  | OP_EndCoroutine => (register, other, other)
  | OP_Yield => (register, other, other)
  | OP_NextIdEphemeral => (cursor, other, register)
  | OP_Copy => (register, register, other)
  | OP_SCopy => (register, register, other)
  | OP_FCopy => (register, register, other)
  | OP_MakeRecord => (register, other, register)
  | OP_IdxInsert => (cursor, register, optionalRegister)
  | OP_IdxReplace => (cursor, register, optionalRegister)
  | OP_Integer => (other, register, other)
  | OP_Rewind => (cursor, other, other)
  | OP_Column => (cursor, other, register)
  | OP_Null => (other, register, other)
  | OP_AddImm => (register, other, other)
  | OP_Next => (cursor, other, other)
  | OP_Close => (cursor, other, other)
  | OP_ResultRow => (register, other, other)
  | OP_HaltIfNull => (other, other, register)
  | OP_IsNull => (register, other, other)
  | OP_NotNull => (register, other, other)
  | OP_MustBeInt => (register, other, other)
  | OP_NoConflict => (cursor, other, register)
  | OP_Ne => (register, other, register)
  | OP_Eq => (register, other, register)
  | OP_RowData => (cursor, register, other)
  | CALL_sqlite3ExprCode => (other, register, other)
  | CALL_sqlite3ExprCodeFactorable => (other, register, other)
  | CALL_sqlite3ExprCodeAndCache => (other, register, other)
  | CALL_sqlite3ExprCodeCopy => (other, register, other)
  | CALL_sqlite3CodeRowTrigger => (other, other, register)
  | CALL_sqlite3FkCheck => (optionalRegister, register, other)
  | CALL_sqlite3GenerateRowDelete => (cursor, cursor, register)
  | _ => (other, other, other)

/-- An operand of the given role when the register counter is `r` higher and the cursor
counter `c` higher. -/
def shiftOperand (r c : Int) : OperandRole → Int → Int
  | register, x => x + r
  | optionalRegister, x => if x = 0 then 0 else x + r
  | cursor, x => x + c
  | other, x => x

end Roles

/-- An instruction when the register counter is `r` higher and the cursor counter `c`
higher: the opcode, P4 and the flags P5 are the same, the register operands are `r` higher,
the cursor operands `c` higher, and the other operands (the jump targets among them) are the
same. -/
def shiftOp (r c : Int) (o : VdbeOp) : VdbeOp :=
  { o with
    p1 := shiftOperand r c (operandRoles o.opcode).1 o.p1
    p2 := shiftOperand r c (operandRoles o.opcode).2.1 o.p2
    p3 := shiftOperand r c (operandRoles o.opcode).2.2 o.p3 }

/-- The compilation contexts `p` and `q` are the same up to a shift: the register counter of
`q` is `r` higher and its cursor counter `c` higher than those of `p`, the program of `q` is
the program of `p` with every instruction shifted by `shiftOp`, and everything else (the
schema, the session flags, the errors, the labels) is the same.  The field `ckBase`, which
`insert.c` only writes, is left out. -/
structure Sim (r c : Int) (p q : Parse) : Prop where
  db : q.db = p.db
  user_session : q.user_session = p.user_session
  nErr : q.nErr = p.nErr
  zErrMsg : q.zErrMsg = p.zErrMsg
  checkSchema : q.checkSchema = p.checkSchema
  nMem : (q.nMem : Int) = (p.nMem : Int) + r
  nTab : (q.nTab : Int) = (p.nTab : Int) + c
  nested : q.nested = p.nested
  pTriggerTab : q.pTriggerTab = p.pTriggerTab
  pWith : q.pWith = p.pWith
  mayAbort : q.mayAbort = p.mayAbort
  isMultiWrite : q.isMultiWrite = p.isMultiWrite
  pVdbe : q.pVdbe = p.pVdbe
  aOp : q.aOp = p.aOp.map (shiftOp r c)
  aLabel : q.aLabel = p.aLabel
  changeCntOn : q.changeCntOn = p.changeCntOn
  aColName : q.aColName = p.aColName

/-- The register lists `a` and `b` of the indexes are the same up to a shift of `r`: every
entry is a register (positive; 0 would stand for "index unchanged") and the entries of `b`
are `r` higher. -/
def ShiftRegs (r : Int) (a b : List Int) : Prop :=
  b = a.map (fun x => x + r) ∧ ∀ x ∈ a, 0 < x ∧ 0 < x + r

/-- The states `s` and `t` of the UNIQUE loop are the same up to a shift. -/
structure SimU (r c : Int) (s t : UniqueState) : Prop where
  pParse : Sim r c s.pParse t.pParse
  pTab : t.pTab = s.pTab
  bAffinityDone : t.bAffinityDone = s.bAffinityDone
  seenReplace : t.seenReplace = s.seenReplace

/-- The variables `U` and `V` of one iteration of the UNIQUE loop are the same up to a shift
of the registers by `r`; `reg_pk` is a register only when the key is a single integer
column. -/
structure SimUL (r : Int) (U V : UniqueLocals) : Prop where
  addrUniqueOk : V.addrUniqueOk = U.addrUniqueOk
  regIdx : V.regIdx = U.regIdx + r
  reg_pk : U.table_ipk_autoinc = true → V.reg_pk = U.reg_pk + r
  table_ipk_autoinc : V.table_ipk_autoinc = U.table_ipk_autoinc
  uniqueByteCodeNeeded : V.uniqueByteCodeNeeded = U.uniqueByteCodeNeeded

/-- The states `s` and `t` of the loop of `sqlite3OpenTableAndIndices` are the same up to a
shift. -/
structure SimOC (r c : Int) (s t : OpenCursors) : Prop where
  pParse : Sim r c s.pParse t.pParse
  iBase : t.iBase = s.iBase + c
  piDataCur : t.piDataCur = s.piDataCur + c
  p5 : t.p5 = s.p5

/-- The local variables `L` and `M` of two runs of `sqlite3Insert` are the same up to a
shift: the registers of `M` are `r` higher and its cursors `c` higher, and everything else is
the same.  A variable is compared only once it has been given its value: `srcTab` when the
rows are staged, `regFromSelect` and `regYield` when there is a sub-select, `regRowCount`
when the rows are counted (`cnt`), and the cursors and the registers of the `nIdx` indexes
once the destination has been opened (`opened`) and is no view.  No value of a VALUES clause
is a `TK_REGISTER` expression. -/
structure SimL (r c : Int) (cnt : Bool) (nIdx : Nat) (opened : Bool) (L M : InsertLocals) :
    Prop where
  nColumn : M.nColumn = L.nColumn
  ipkColumn : M.ipkColumn = L.ipkColumn
  endOfLoop : M.endOfLoop = L.endOfLoop
  addrInsTop : M.addrInsTop = L.addrInsTop
  addrCont : M.addrCont = L.addrCont
  useTempTable : M.useTempTable = L.useTempTable
  bIdListInOrder : M.bIdListInOrder = L.bIdListInOrder
  pList : M.pList = L.pList
  pSelect : M.pSelect = L.pSelect
  pColumn : M.pColumn = L.pColumn
  isView : M.isView = L.isView
  pTrigger : M.pTrigger = L.pTrigger
  tmask : M.tmask = L.tmask
  srcTab : L.useTempTable = true → M.srcTab = L.srcTab + c
  regFromSelect : L.pSelect.isSome = true → M.regFromSelect = L.regFromSelect + r
  regYield : L.pSelect.isSome = true → M.regYield = L.regYield + r
  regIns : M.regIns = L.regIns + r
  regInsPos : 0 < L.regIns ∧ 0 < M.regIns
  regTupleid : M.regTupleid = L.regTupleid + r
  regData : M.regData = L.regData + r
  noRegister : ∀ l, L.pList = some l → ∀ it ∈ l, it.pExpr.op ≠ TK_REGISTER
  regRowCount : opened = true → cnt = true → M.regRowCount = L.regRowCount + r
  iDataCur : opened = true → L.isView = false → M.iDataCur = L.iDataCur + c
  iIdxCur : opened = true → L.isView = false → M.iIdxCur = L.iIdxCur + c
  aRegIdx : opened = true → L.isView = false →
    ShiftRegs r L.aRegIdx M.aRegIdx ∧ L.aRegIdx.length = nIdx

/-- The results of two runs of `sqlite3Insert` are the same up to a shift: both runs fail,
or both leave the same way with the same destination table and contexts that are the same up
to the shift. -/
def SimR (r c : Int) : Option InsertResult → Option InsertResult → Prop
  | none, none => True
  | some a, some b => b.exit = a.exit ∧ b.pTab = a.pTab ∧ Sim r c a.pParse b.pParse
  | _, _ => False

/-- The collaborators of `insert.c` compile the same up to a shift of the registers by `r`
and of the cursors by `c`: in two contexts that are the same up to the shift, with the
co-routine register `r` higher and the destination registers either both left to the
sub-select (0) or both given and `r` higher, the sub-select compiler reports the same result
code, errors and result list, allocates as many registers and cursors, appends the same
instructions up to the shift and hands back a base register that is `r` higher; and the
diagnostics of the three checks are the same. -/
structure ExternShift (r c : Int) (ext : Extern) : Prop where
  select : ∀ (p q : Parse) (s : Select) (d e : SelectDest), Sim r c p q →
    e.iSDParm = d.iSDParm + r →
    ((d.iSdst = 0 ∧ e.iSdst = 0) ∨ (0 < d.iSdst ∧ 0 < e.iSdst ∧ e.iSdst = d.iSdst + r)) →
    e.nSdst = d.nSdst →
    (ext.sqlite3Select q s e).rc = (ext.sqlite3Select p s d).rc
      ∧ (ext.sqlite3Select q s e).aOp = (ext.sqlite3Select p s d).aOp.map (shiftOp r c)
      ∧ (ext.sqlite3Select q s e).nMem = (ext.sqlite3Select p s d).nMem
      ∧ (ext.sqlite3Select q s e).nTab = (ext.sqlite3Select p s d).nTab
      ∧ (ext.sqlite3Select q s e).nErr = (ext.sqlite3Select p s d).nErr
      ∧ (ext.sqlite3Select q s e).mallocFailed = (ext.sqlite3Select p s d).mallocFailed
      ∧ (ext.sqlite3Select q s e).iSdst = (ext.sqlite3Select p s d).iSdst + r
      ∧ (ext.sqlite3Select q s e).pEList = (ext.sqlite3Select p s d).pEList
  viewGetColumnNames : ∀ (p q : Parse) (pTab : Table), Sim r c p q →
    ext.sqlite3ViewGetColumnNames q pTab = ext.sqlite3ViewGetColumnNames p pTab
  isReadOnly : ∀ (p q : Parse) (pTab : Table) (tmask : Nat), Sim r c p q →
    ext.sqlite3IsReadOnly q pTab tmask = ext.sqlite3IsReadOnly p pTab tmask
  resolveExprListNames : ∀ (p q : Parse) (l : ExprList), Sim r c p q →
    ext.sqlite3ResolveExprListNames q l = ext.sqlite3ResolveExprListNames p l

/-- The nodes of an expression tree, in the order `sqlite3WalkExpr` visits them: the
expression itself, then the nodes of its left and of its right sub-expression. -/
def Expr.nodes : Expr → List Expr
  | .term op t c z => [.term op t c z]
  | .unary op t c z l => .unary op t c z l :: l.nodes
  | .binary op t c z l r => .binary op t c z l r :: (l.nodes ++ r.nodes)

/-- The expression uses a changing column, in the words of the specification: one of its
nodes is a column reference (`TK_COLUMN`) with a non-negative ordinal `c` and
`aiChng[c] >= 0`. -/
def usesChangingColumn (aiChng : List Int) (pExpr : Expr) : Prop :=
  ∃ n ∈ pExpr.nodes, n.op = TK_COLUMN ∧ 0 ≤ n.iColumn
    ∧ ∃ v, aiChng.get? n.iColumn.toNat = some v ∧ 0 ≤ v

/-- The CHECK expressions a piece of code tests: the expression operands of its
`CALL_sqlite3ExprIfTrue` entries, in the order of the code. -/
def checkedExprs (code : List VdbeOp) : List P4 :=
  (code.filter (fun o => o.opcode == CALL_sqlite3ExprIfTrue)).map (fun o => o.p4)

/-- The CHECK expression `pExpr` is skipped, in the words of the specification: a change
array is supplied (the statement is an UPDATE) and `checkConstraintUnchanged` returns true
for it. -/
def checkSkipped (aiChng : Option (List Int)) (pExpr : Expr) : Bool :=
  match aiChng with
  | some a => checkConstraintUnchanged pExpr a
  | none => false

/-- The opcodes `sqlite3GenerateConstraintChecks` can emit before the uniqueness test of an
index: the start of the program, the NOT NULL and CHECK constraints and the index record.
Neither the probe `OP_NoConflict` nor the deletion of a row is among them. -/
def sqlite3GenerateConstraintChecks_entryOps : List Opcode :=
  [OP_Init, OP_HaltIfNull, OP_IsNull, OP_NotNull, CALL_sqlite3ExprCode, CALL_sqlite3ExprIfTrue,
    OP_Goto, OP_Halt, OP_Affinity, OP_Null, CALL_sqlite3ExprIfFalseDup,
    CALL_sqlite3ExprCodeCopy, OP_SCopy, OP_MustBeInt, OP_MakeRecord]

/-- The comparison chain of an UPDATE in the words of the specification: one comparison per
primary-key field `i` between the key field of the old row (register
`regOldData + 1 + column`) and the candidate key field (register `regCmp + i`); every
comparison but the last is `OP_Ne` with the jump target `addrHandler`, and the last is
`OP_Eq` with the jump target `addrUniqueOk`. -/
def updateKeyChain (pPk : Index) (regOldData regCmp addrHandler addrUniqueOk : Int) :
    List VdbeOp :=
  (List.range pPk.nKeyCol).map (fun (i : Nat) =>
    { opcode := if i + 1 < pPk.nKeyCol then OP_Ne else OP_Eq
      p1 := regOldData + 1 + pPk.aiColumn.getD i 0
      p2 := if i + 1 < pPk.nKeyCol then addrHandler else addrUniqueOk
      p3 := regCmp + i
      p4 := P4_COLLSEQ (pPk.azColl.getD i none)
      p5 := [SQLITE_NOTNULL] })

/-- Modelled from the spec: the interpreter that runs the emitted program is not part of
`insert.c` (spec, Output contract: conditional-jump family).  A run of comparison
instructions that starts at address `addr`: `OP_Ne` jumps to its target P2 when the values
of the registers P1 and P3 differ, `OP_Eq` when they are equal, and otherwise control falls
through to the next instruction; the result is the address at which control leaves the run.
`same` compares two values under the collation P4 and `regs` gives the value of a
register. -/
def runComparisons {V : Type} (same : P4 → V → V → Bool) (regs : Int → V) :
    List VdbeOp → Int → Int
  | [], addr => addr
  | o :: rest, addr =>
    if (o.opcode = OP_Ne ∧ same o.p4 (regs o.p1) (regs o.p3) = false)
        ∨ (o.opcode = OP_Eq ∧ same o.p4 (regs o.p1) (regs o.p3) = true) then o.p2
    else runComparisons same regs rest (addr + 1)

/-- Every field of the primary key of the old row (registers `regOldData + 1 + column`)
equals the corresponding field of the candidate key (registers `regCmp + i`) under the
collation of the field. -/
def keyFieldsEqual {V : Type} (same : P4 → V → V → Bool) (regs : Int → V) (pPk : Index)
    (regOldData regCmp : Int) : Prop :=
  ∀ i, i < pPk.nKeyCol →
    same (P4_COLLSEQ (pPk.azColl.getD i none)) (regs (regOldData + 1 + pPk.aiColumn.getD i 0))
      (regs (regCmp + i)) = true

instance {V : Type} (same : P4 → V → V → Bool) (regs : Int → V) (pPk : Index)
    (regOldData regCmp : Int) : Decidable (keyFieldsEqual same regs pPk regOldData regCmp) := by
  unfold keyFieldsEqual; infer_instance

/-- `SQLITE_AFF_INTEGER`. -/
def SQLITE_AFF_INTEGER : Char := 'D'

/-- The type check of a single-column integer primary key in the words of the
specification: `OP_MustBeInt` on the register `reg_pk` of the key column, preceded, when the
table is auto-increment, by an `OP_IsNull` on the same register that jumps to the label
`skip_if_null`. -/
def intPkCheck (pTab : Table) (reg_pk skip_if_null : Int) : List VdbeOp :=
  (if pTab.TF_Autoincrement = true then
      [{ opcode := OP_IsNull, p1 := reg_pk, p2 := skip_if_null }]
    else [])
  ++ [{ opcode := OP_MustBeInt, p1 := reg_pk, p2 := 0 }]

/-- The test of the loop of `sqlite3OpenTableAndIndices` (insert.c:1607-1615): the index
gets a cursor when the statement is an UPDATE, the index is the primary index, the table is
referenced by a foreign key, the index is unique with a declared policy other than Default
and Abort, or the statement policy is Rollback. -/
def openCursorNeeded (ext : Extern) (pTab : Table) (overrideError : on_conflict_action)
    (isUpdate : Bool) (pIdx : Index) : Prop :=
  isUpdate = true
    ∨ IsPrimaryKeyIndex pIdx = true
    ∨ ext.sqlite3FkReferences pTab = true
    ∨ (IsUniqueIndex pIdx = true ∧ pIdx.onError ≠ ON_CONFLICT_ACTION_DEFAULT
        ∧ pIdx.onError ≠ ON_CONFLICT_ACTION_ABORT)
    ∨ overrideError = ON_CONFLICT_ACTION_ROLLBACK

instance (ext : Extern) (pTab : Table) (overrideError : on_conflict_action)
    (isUpdate : Bool) (pIdx : Index) :
    Decidable (openCursorNeeded ext pTab overrideError isUpdate pIdx) := by
  unfold openCursorNeeded; infer_instance

/-- The instructions the loop of `sqlite3OpenTableAndIndices` emits for the indexes `l` when
every cursor is to be opened (`aToOpen` is `NULL`) with the flags `p5 = 0`: one instruction
`op` per index that passes the test `openCursorNeeded`, on consecutive cursors from `iBase`
on; an index that does not pass gets neither an instruction nor a cursor. -/
def openIndexCode (ext : Extern) (pTab : Table) (op : Opcode)
    (overrideError : on_conflict_action) (isUpdate : Bool) (space_ptr_reg : Int) :
    List Index → Int → List VdbeOp
  | [], _ => []
  | pIdx :: pNext, iBase =>
    if openCursorNeeded ext pTab overrideError isUpdate pIdx then
      { opcode := op, p1 := iBase, p2 := pIdx.tnum, p3 := space_ptr_reg,
        p4 := P4_KEYINFO pIdx.nColumn (some pIdx.zName) }
        :: openIndexCode ext pTab op overrideError isUpdate space_ptr_reg pNext (iBase + 1)
    else openIndexCode ext pTab op overrideError isUpdate space_ptr_reg pNext iBase

/-- The number of indexes among the first `N` of the list `l` that pass the test
`openCursorNeeded`. -/
def openedBefore (ext : Extern) (pTab : Table) (overrideError : on_conflict_action)
    (isUpdate : Bool) (l : List Index) (N : Nat) : Nat :=
  ((l.take N).filter
    (fun pIdx => decide (openCursorNeeded ext pTab overrideError isUpdate pIdx))).length

/-- The context `q` is reached from `p` by appending instructions whose opcodes all belong to
`L`; the instructions already in the program are left as they are. -/
def Appends (L : List Opcode) (p q : Parse) : Prop :=
  ∃ post : List VdbeOp, q.aOp = p.aOp ++ post ∧ ∀ o ∈ post, o.opcode ∈ L

/-- The opcodes `sqlite3Insert` can emit between the opening of the destination and the
constraint checks (insert.c:635-828): the top of the loop, the columns for the BEFORE
triggers and their call, and the new row.  `OP_OpenWrite` is not among them. -/
def sqlite3Insert_newRow_ops : List Opcode :=
  [OP_Rewind, OP_Yield, OP_Integer, CALL_sqlite3ExprCode, OP_Column,
    CALL_sqlite3ExprCodeAndCache, OP_Affinity, CALL_sqlite3CodeRowTrigger, OP_Copy, OP_Null,
    CALL_sqlite3ExprCodeFactorable, OP_FCopy, OP_SCopy]

/-- The instructions the compiler of the sub-select emits when `sqlite3Insert` compiles the
co-routine (insert.c:502-508): those of the call `sqlite3Select(pParse, pSelect, &dest)`,
made right after `OP_InitCoroutine` has been emitted. -/
def sqlite3Insert_selectCode (ext : Extern) (pParse : Parse) (pTab : Table)
    (L : InsertLocals) (pSelect : Select) : List VdbeOp :=
  let regYield : Int := ((pParse.nMem + 1 : Nat) : Int)
  let pParse := pParse.allocMem 1
  let addrTop := sqlite3VdbeCurrentAddr pParse + 1
  let pParse := sqlite3VdbeAddOp3 pParse OP_InitCoroutine regYield 0 addrTop
  let dest : SelectDest :=
    { iSDParm := regYield, iSdst := if L.bIdListInOrder = true then L.regData else 0,
      nSdst := pTab.nCol }
  (ext.sqlite3Select pParse pSelect dest).aOp

/-- The instruction `pOp` opens the table `pTab` or one of its indexes for reading: the test
of the loop of `readsTable` (insert.c:191-204). -/
def opensForRead (pTab : Table) (pOp : VdbeOp) : Prop :=
  pOp.opcode = OP_OpenRead
    ∧ (pOp.p2 = pTab.tnum ∨ ∃ pIndex ∈ pTab.pIndex, pOp.p2 = pIndex.tnum)

instance (pTab : Table) (pOp : VdbeOp) : Decidable (opensForRead pTab pOp) := by
  unfold opensForRead; infer_instance

/-! ## A small schema for the examples -/

/-- The primary index of the example table `t1`: unique, on column `a`. -/
def demoPk1 : Index :=
  { zName := "pk_t1", tnum := 524288, aiColumn := [0], nKeyCol := 1,
    onError := ON_CONFLICT_ACTION_ABORT, idxType := 2, aSortOrder := [0],
    azColl := [some "BINARY"] }

/-- The example table `t1 (a INTEGER PRIMARY KEY NOT NULL, b BLOB)`. -/
def demoT1 : Table :=
  { zName := "t1",
    aCol :=
      [ { zName := "a", affinity := 'D', is_nullable := false,
          nullable_action := ON_CONFLICT_ACTION_ABORT },
        { zName := "b", affinity := 'B' } ],
    pIndex := [demoPk1], tnum := 524288 }

/-- The example table `t2`, of the same shape as `t1`. -/
def demoT2 : Table :=
  { demoT1 with
    zName := "t2", pIndex := [{ demoPk1 with zName := "pk_t2", tnum := 525312 }],
    tnum := 525312 }

/-- The example table `t3`: as `t1`, but column `b` is NOT NULL. -/
def demoT3 : Table :=
  { demoT1 with
    zName := "t3",
    aCol :=
      [ { zName := "a", affinity := 'D', is_nullable := false,
          nullable_action := ON_CONFLICT_ACTION_ABORT },
        { zName := "b", affinity := 'B', is_nullable := false,
          nullable_action := ON_CONFLICT_ACTION_ABORT } ],
    pIndex := [{ demoPk1 with zName := "pk_t3", tnum := 526336 }], tnum := 526336 }

/-- The example table `t4`: as `t1`, with the constraint `CHECK (b)`. -/
def demoT4 : Table :=
  { demoT1 with
    zName := "t4", pCheck := some [{ pExpr := Expr.term TK_COLUMN 0 1 "b" }],
    pIndex := [{ demoPk1 with zName := "pk_t4", tnum := 527360 }], tnum := 527360 }

/-- The sub-select `SELECT * FROM zName`. -/
def demoStar (zName : String) : Select :=
  { pEList := [{ pExpr := Expr.term TK_ASTERISK 0 0 "" }], pSrc := [{ zName := zName }] }

/-- A compilation context with the example schema and a program that holds `OP_Init`. -/
def demoParse : Parse :=
  { db := { aTable := [demoT1, demoT2, demoT3, demoT4] }, pVdbe := true,
    aOp := [{ opcode := OP_Init, p2 := 1 }] }

/-- The same context inside a program that has already opened `t1` for reading. -/
def demoParseRead : Parse :=
  { demoParse with
    aOp := [{ opcode := OP_Init, p2 := 1 }, { opcode := OP_OpenRead, p1 := 0, p2 := 524288 }],
    nTab := 1 }

/-- Example collaborators: the sub-select scans its table (root page `525312`) with one
`OP_OpenRead` and one `OP_Yield`, and delivers two columns; there are no triggers, no
foreign keys, no views and no read-only tables. -/
def demoExtern : Extern :=
  { sqlite3Select := fun pParse _ d =>
      { aOp := [ { opcode := OP_OpenRead, p1 := pParse.nTab, p2 := 525312 },
                 { opcode := OP_Yield, p1 := d.iSDParm } ],
        nTab := 1, iSdst := d.iSdst,
        pEList := [ { pExpr := Expr.term TK_COLUMN 0 0 "a" },
                    { pExpr := Expr.term TK_COLUMN 0 1 "b" } ] }
    sqlite3TriggersExist := fun _ _ => ([], 0)
    sqlite3FkReferences := fun _ => false
    sqlite3ViewGetColumnNames := fun _ _ => none
    sqlite3IsReadOnly := fun _ _ _ => none
    sqlite3ResolveExprListNames := fun _ _ => none }

/-- The sub-select `SELECT * FROM zName WHERE b`. -/
def demoStarWhere (zName : String) : Select :=
  { demoStar zName with pWhere := some (Expr.term TK_COLUMN 0 1 "b") }

/-- What `xferOptimization` hands back for `INSERT INTO t1 SELECT * FROM t2` in the example
context. -/
def demoXfer : Int × Parse :=
  (xferOptimization demoParse demoT1 (some (demoStar "t2")) ON_CONFLICT_ACTION_DEFAULT).getD
    (0, demoParse)

instance (pParse : Parse) (pDest : Table) (s : Select) :
    Decidable (xferSyntaxOk pParse pDest s) := by
  unfold xferSyntaxOk; infer_instance

instance (pParse : Parse) (pDest : Table) (s : Select) (pSrc : Table) :
    Decidable (xferStaticOk pParse pDest s pSrc) := by
  unfold xferStaticOk; infer_instance

/-- The example table `t5 (a INTEGER, b BLOB)` whose primary index is not unique and whose
column `a` is the integer primary key. -/
def demoT5 : Table :=
  { demoT1 with
    zName := "t5", iPKey := 0,
    pIndex := [{ demoPk1 with zName := "pk_t5", tnum := 528384,
                              onError := ON_CONFLICT_ACTION_NONE }],
    tnum := 528384 }

/-- The example table `t6`, of the same shape as `t5`. -/
def demoT6 : Table :=
  { demoT5 with
    zName := "t6",
    pIndex := [{ demoPk1 with zName := "pk_t6", tnum := 529408,
                              onError := ON_CONFLICT_ACTION_NONE }],
    tnum := 529408 }

/-- The example context with the tables `t5` and `t6` in the schema. -/
def demoParse56 : Parse :=
  { demoParse with db := { aTable := [demoT5, demoT6] } }

/-- What `sqlite3Insert` does with `INSERT INTO t1 SELECT * FROM t2`: guarded transfer code,
then the streamed template. -/
def demoGuarded : InsertResult :=
  (sqlite3Insert demoExtern demoParse [{ zName := "t1" }] (some (demoStar "t2")) none
    ON_CONFLICT_ACTION_DEFAULT).getD default

/-- What `sqlite3Insert` does with `INSERT INTO t1 SELECT * FROM t2` inside a program that
has already opened `t1` for reading: guarded transfer code, then the staged template. -/
def demoGuardedStaged : InsertResult :=
  (sqlite3Insert demoExtern demoParseRead [{ zName := "t1" }] (some (demoStar "t2")) none
    ON_CONFLICT_ACTION_DEFAULT).getD default

/-- What `sqlite3Insert` does with `INSERT INTO t2 SELECT * FROM t2 WHERE b`: the staged
template. -/
def demoSelfInsert : InsertResult :=
  (sqlite3Insert demoExtern demoParse [{ zName := "t2" }] (some (demoStarWhere "t2")) none
    ON_CONFLICT_ACTION_DEFAULT).getD default

/-- The example table `t7 (a INTEGER PRIMARY KEY AUTOINCREMENT, b BLOB)`. -/
def demoT7 : Table :=
  { demoT1 with
    zName := "t7", iPKey := 0, iAutoIncPKey := 0, TF_Autoincrement := true,
    pIndex := [{ demoPk1 with zName := "pk_t7", tnum := 530432 }], tnum := 530432 }

/-- The example context with the tables `t7` and `t2` in the schema. -/
def demoParse7 : Parse :=
  { demoParse with db := { aTable := [demoT7, demoT2] } }

/-- The single-row clause `VALUES (?)`, whose expression is not a literal NULL. -/
def demoValues1 : Select :=
  { pEList := [{ pExpr := Expr.term (TK_OTHER 1) 0 0 "?" }], SF_Values := true }

/-- The single-row clause `VALUES (?, ?)`. -/
def demoValues2 : Select :=
  { pEList := [{ pExpr := Expr.term (TK_OTHER 1) 0 0 "?" },
               { pExpr := Expr.term (TK_OTHER 1) 0 0 "?" }], SF_Values := true }

/-- The example table `t8 (a INTEGER PRIMARY KEY NOT NULL, b BLOB UNIQUE)`: the primary index
and a unique secondary index on `b`. -/
def demoT8 : Table :=
  { demoT1 with
    zName := "t8",
    pIndex := [{ demoPk1 with zName := "pk_t8", tnum := 531456 },
               { zName := "i_t8_b", tnum := 531457, aiColumn := [1], nKeyCol := 1,
                 onError := ON_CONFLICT_ACTION_ABORT, idxType := 1, aSortOrder := [0],
                 azColl := [some "BINARY"] }],
    tnum := 531456 }

/-- The example table `t9` with the column affinities INTEGER, BLOB, TEXT, BLOB, BLOB. -/
def demoT9 : Table :=
  { zName := "t9",
    aCol :=
      [ { zName := "a", affinity := 'D' }, { zName := "b", affinity := 'A' },
        { zName := "c", affinity := 'B' }, { zName := "d", affinity := 'A' },
        { zName := "e", affinity := 'A' } ],
    pIndex := [{ demoPk1 with zName := "pk_t9", tnum := 532480 }], tnum := 532480 }

/-- An example of what the writes report: at most two bytes are written by one call. -/
def demoWrite : WriteOracle := fun _ _ len => min (len : Int) 2

/-- What `sqlite3Insert` does with `INSERT OR ROLLBACK INTO t1 DEFAULT VALUES`. -/
def demoRollbackDefaults : InsertResult :=
  (sqlite3Insert demoExtern demoParse [{ zName := "t1" }] none none
    ON_CONFLICT_ACTION_ROLLBACK).getD default

/-- The example collaborators with a sub-select compiler that allocates the registers of its
result row itself when the caller has given none (`iSdst == 0`). -/
def demoExternAlloc : Extern :=
  { demoExtern with
    sqlite3Select := fun pParse _ d =>
      { aOp := [ { opcode := OP_OpenRead, p1 := pParse.nTab, p2 := 525312 },
                 { opcode := OP_Yield, p1 := d.iSDParm } ],
        nTab := 1,
        nMem := if d.iSdst = 0 then 2 else 0,
        iSdst := if d.iSdst = 0 then ((pParse.nMem + 1 : Nat) : Int) else d.iSdst,
        pEList := [ { pExpr := Expr.term TK_COLUMN 0 0 "a" },
                    { pExpr := Expr.term TK_COLUMN 0 1 "b" } ] } }

/-- The example context with three more registers and two more cursors in use. -/
def demoParseShifted : Parse :=
  { demoParse with nMem := demoParse.nMem + 3, nTab := demoParse.nTab + 2 }

/-- The example context of `t7` with three more registers and two more cursors in use. -/
def demoParse7Shifted : Parse :=
  { demoParse7 with nMem := demoParse7.nMem + 3, nTab := demoParse7.nTab + 2 }

/-- The single-row clause `VALUES (<register 7>, ?)`: the first value is a `TK_REGISTER`
expression that names register 7. -/
def demoRegisterValues : Select :=
  { pEList := [{ pExpr := Expr.term TK_REGISTER 7 0 "" },
               { pExpr := Expr.term (TK_OTHER 1) 0 0 "?" }], SF_Values := true }

/-- What `sqlite3Insert` does with `INSERT INTO t7 VALUES (<register 7>, ?)`. -/
def demoRegisterRun : InsertResult :=
  (sqlite3Insert demoExtern demoParse7 [{ zName := "t7" }] (some demoRegisterValues) none
    ON_CONFLICT_ACTION_DEFAULT).getD default

/-- What `sqlite3Insert` does with `INSERT INTO t7 VALUES (<register 7>, ?)` when three more
registers and two more cursors are in use. -/
def demoRegisterRunShifted : InsertResult :=
  (sqlite3Insert demoExtern demoParse7Shifted [{ zName := "t7" }] (some demoRegisterValues) none
    ON_CONFLICT_ACTION_DEFAULT).getD default

/-- What `sqlite3Insert` does with `INSERT INTO t2 SELECT * FROM t2 WHERE b` when the
sub-select compiler is `demoExternAlloc`: the staged template. -/
def demoSelfInsertAlloc : InsertResult :=
  (sqlite3Insert demoExternAlloc demoParse [{ zName := "t2" }] (some (demoStarWhere "t2")) none
    ON_CONFLICT_ACTION_DEFAULT).getD default

/-- The CHECK expression `a < b` over the columns 0 and 1, as a binary node with two column
references. -/
def demoCheckLess : Expr :=
  Expr.binary (TK_OTHER 2) 0 0 "<" (Expr.term TK_COLUMN 0 0 "a") (Expr.term TK_COLUMN 0 1 "b")

/-- A primary index on the two columns `a` and `b`. -/
def demoPk2 : Index :=
  { zName := "pk_ab", tnum := 533504, aiColumn := [0, 1], nKeyCol := 2,
    onError := ON_CONFLICT_ACTION_ABORT, idxType := 2, aSortOrder := [0, 0],
    azColl := [some "BINARY", some "BINARY"] }

/-- The variables of an iteration of the UNIQUE loop for an index whose entry is in the
registers from 5 on and whose uniqueness needs byte code; the label `addrUniqueOk` is -1. -/
def demoUniqueLocals : UniqueLocals :=
  { addrUniqueOk := -1, regIdx := 5, reg_pk := -1, table_ipk_autoinc := false,
    uniqueByteCodeNeeded := true }

/-- The primary index of the example table `t7`. -/
def demoPk7 : Index := { demoPk1 with zName := "pk_t7", tnum := 530432 }

/-- The state in which the UNIQUE loop starts on `t7` in the example context. -/
def demoUniqueStart7 : UniqueState :=
  { pParse := demoParse7, pTab := demoT7, bAffinityDone := false, seenReplace := 0 }

/-- The example table `t10 (a INTEGER PRIMARY KEY NOT NULL, b BLOB, c BLOB UNIQUE ON CONFLICT
REPLACE)` with a plain index on `b`: the index list is the primary index, the plain index
`i_t10_b` and the unique index `u_t10_c`, whose declared policy is Replace. -/
def demoT10 : Table :=
  { zName := "t10",
    aCol :=
      [ { zName := "a", affinity := 'D', is_nullable := false,
          nullable_action := ON_CONFLICT_ACTION_ABORT },
        { zName := "b", affinity := 'B' },
        { zName := "c", affinity := 'B' } ],
    pIndex := [{ demoPk1 with zName := "pk_t10", tnum := 534528 },
               { zName := "i_t10_b", tnum := 534529, aiColumn := [1, 0], nKeyCol := 1,
                 onError := ON_CONFLICT_ACTION_NONE, idxType := 0, aSortOrder := [0, 0],
                 azColl := [some "BINARY", some "BINARY"] },
               { zName := "u_t10_c", tnum := 534530, aiColumn := [2, 0], nKeyCol := 1,
                 onError := ON_CONFLICT_ACTION_REPLACE, idxType := 1, aSortOrder := [0, 0],
                 azColl := [some "BINARY", some "BINARY"] }],
    tnum := 534528 }

/-- The example context with the table `t10` in the schema. -/
def demoParse10 : Parse :=
  { demoParse with db := { aTable := [demoT10] } }

/-- The single-row clause `VALUES (?, ?, ?)`. -/
def demoValues3 : Select :=
  { pEList := [{ pExpr := Expr.term (TK_OTHER 1) 0 0 "?" },
               { pExpr := Expr.term (TK_OTHER 1) 0 0 "?" },
               { pExpr := Expr.term (TK_OTHER 1) 0 0 "?" }], SF_Values := true }

/-- What `sqlite3Insert` does with `INSERT INTO t10 VALUES (?, ?, ?)`. -/
def demoInsert10 : InsertResult :=
  (sqlite3Insert demoExtern demoParse10 [{ zName := "t10" }] (some demoValues3) none
    ON_CONFLICT_ACTION_DEFAULT).getD default

/-- The example context with the table `t8` in the schema. -/
def demoParse8 : Parse :=
  { demoParse with db := { aTable := [demoT8] } }

/-- What `sqlite3Insert` does with `INSERT INTO t8 VALUES (?, ?)`. -/
def demoInsert8 : InsertResult :=
  (sqlite3Insert demoExtern demoParse8 [{ zName := "t8" }] (some demoValues2) none
    ON_CONFLICT_ACTION_DEFAULT).getD default

/-- What `sqlite3Insert` does with `INSERT OR REPLACE INTO t8 VALUES (?, ?)`. -/
def demoReplace8 : InsertResult :=
  (sqlite3Insert demoExtern demoParse8 [{ zName := "t8" }] (some demoValues2) none
    ON_CONFLICT_ACTION_REPLACE).getD default

/-- The example table `t11 (a INTEGER PRIMARY KEY NOT NULL, b BLOB UNIQUE ON CONFLICT
REPLACE)`: the primary index and a unique secondary index on `b` whose declared policy is
Replace. -/
def demoT11 : Table :=
  { demoT1 with
    zName := "t11",
    pIndex := [{ demoPk1 with zName := "pk_t11", tnum := 535552 },
               { zName := "u_t11_b", tnum := 535553, aiColumn := [1, 0], nKeyCol := 1,
                 onError := ON_CONFLICT_ACTION_REPLACE, idxType := 1, aSortOrder := [0, 0],
                 azColl := [some "BINARY", some "BINARY"] }],
    tnum := 535552 }

/-- The state in which the UNIQUE loop reaches the index `u_t11_b` in the example context. -/
def demoUniqueStart11 : UniqueState :=
  { pParse := demoParse, pTab := demoT11, bAffinityDone := true, seenReplace := 0 }

/-- The example context with the table `t11` in the schema. -/
def demoParse11 : Parse :=
  { demoParse with db := { aTable := [demoT11] } }

/-- What `sqlite3Insert` does with `INSERT INTO t11 VALUES (?, ?)`. -/
def demoInsert11 : InsertResult :=
  (sqlite3Insert demoExtern demoParse11 [{ zName := "t11" }] (some demoValues2) none
    ON_CONFLICT_ACTION_DEFAULT).getD default

/-- The example table `t12 (a INTEGER PRIMARY KEY ON CONFLICT REPLACE NOT NULL, b BLOB
UNIQUE)`: the declared policy of the primary index is Replace, and there is a unique
secondary index on `b`. -/
def demoT12 : Table :=
  { demoT1 with
    zName := "t12",
    pIndex := [{ demoPk1 with
                 zName := "pk_t12", tnum := 536576, onError := ON_CONFLICT_ACTION_REPLACE },
               { zName := "u_t12_b", tnum := 536577, aiColumn := [1, 0], nKeyCol := 1,
                 onError := ON_CONFLICT_ACTION_ABORT, idxType := 1, aSortOrder := [0, 0],
                 azColl := [some "BINARY", some "BINARY"] }],
    tnum := 536576 }

/-- The example context with the table `t12` in the schema. -/
def demoParse12 : Parse :=
  { demoParse with db := { aTable := [demoT12] } }

/-- What `sqlite3Insert` does with `INSERT INTO t12 VALUES (?, ?)`. -/
def demoInsert12 : InsertResult :=
  (sqlite3Insert demoExtern demoParse12 [{ zName := "t12" }] (some demoValues2) none
    ON_CONFLICT_ACTION_DEFAULT).getD default

/-! ## Theorems -/

section VdbeLemmas

theorem changeLastOp_append_singleton (f : VdbeOp → VdbeOp) (l : List VdbeOp) (a : VdbeOp) :
    changeLastOp f (l ++ [a]) = l ++ [f a] := by
  induction l with
  | nil => rfl
  | cons x l ih =>
    cases l with
    | nil => rfl
    | cons y l => simpa [changeLastOp] using ih

theorem changeLastOp_append_cons (f : VdbeOp → VdbeOp) (l l' : List VdbeOp) (a : VdbeOp) :
    changeLastOp f (l ++ a :: l') = l ++ changeLastOp f (a :: l') := by
  induction l with
  | nil => rfl
  | cons x l ih =>
    cases l with
    | nil => simp [changeLastOp]
    | cons y l => simpa [changeLastOp] using ih

theorem changeOpAt_length_add (f : VdbeOp → VdbeOp) (l l' : List VdbeOp) (k : Nat) :
    changeOpAt f (l.length + k) (l ++ l') = l ++ changeOpAt f k l' := by
  induction l with
  | nil => simp
  | cons x l ih =>
    have : (x :: l).length + k = (l.length + k) + 1 := by simp; omega
    rw [this]
    simpa [changeOpAt] using ih

theorem changeOpAt_length (f : VdbeOp → VdbeOp) (l l' : List VdbeOp) :
    changeOpAt f l.length (l ++ l') = l ++ changeOpAt f 0 l' := by
  simpa using changeOpAt_length_add f l l' 0

end VdbeLemmas

section XferLemmas

theorem xferOptimization_indexes_eq (pSrc : Table) (idxs : List Index) (u : Bool) :
    xferOptimization_indexes pSrc idxs u =
      if ∀ d ∈ idxs, (xferOptimization_srcIdx pSrc d).isSome = true
      then some (u || idxs.any IsUniqueIndex) else none := by
  induction idxs generalizing u with
  | nil => simp [xferOptimization_indexes]
  | cons d rest ih =>
    simp only [xferOptimization_indexes]
    cases hs : xferOptimization_srcIdx pSrc d with
    | none => simp [hs]
    | some s =>
      simp only [ih, List.mem_cons, forall_eq_or_imp, hs, Option.isSome_some, true_and,
        List.any_cons]
      by_cases hu : IsUniqueIndex d = true <;> simp [hu]

theorem sqlite3LocateTableItem_some (pParse : Parse) (pItem : SrcList_item) (t : Table)
    (h : (sqlite3LocateTableItem pParse pItem).1 = some t) :
    sqlite3LocateTableItem pParse pItem = (some t, pParse) := by
  unfold sqlite3LocateTableItem at *
  split at h <;> simp_all

theorem xferOptimization_of_static (pParse : Parse) (pDest : Table) (s : Select) (pSrc : Table)
    (onError : on_conflict_action) (h : xferStaticOk pParse pDest s pSrc) :
    xferOptimization pParse pDest (some s) onError =
      xferOptimization_emit pParse pDest pSrc (xferOptimization_onError pDest onError)
        (pDest.pIndex.any IsUniqueIndex) := by
  obtain ⟨⟨h1, h2, h3, h4, h5, h6, h7, h8, h9, h10, h11, h12, h13⟩, h14, h15, h16, h17, h18,
    h19, h20, h21, h22, h23⟩ := h
  have hl := sqlite3LocateTableItem_some _ _ _ h14
  unfold xferOptimization
  simp only [h1, h2, h3, h4, h5, h6, h7, h8, h9, h10, h11, h12, h13, hl, h15, h16, h18,
    h19, h23, xferOptimization_indexes_eq, h20]
  have hc : ¬ (pDest.pCheck.isSome = true
      ∧ sqlite3ExprListCompare pSrc.pCheck pDest.pCheck ≠ 0) := by
    rintro ⟨hc1, hc2⟩
    rcases h21 with h21 | h21
    · simp [h21] at hc1
    · exact hc2 h21
  have hf : ¬ (pParse.user_session.SQLITE_ForeignKeys = true ∧ pDest.pFKey ≠ []) := by
    rintro ⟨hf1, hf2⟩
    exact hf2 (h22 hf1)
  simp [h17, hc, hf]
  rw [if_pos h20]

theorem xferOptimization_copy_eq (pSrc : Table) (iSrc iDest regData : Int) (idxs : List Index)
    (pParse : Parse) (h : ∀ d ∈ idxs, (xferOptimization_srcIdx pSrc d).isSome = true) :
    xferOptimization_copy pSrc iSrc iDest regData idxs pParse =
      some { pParse with
        nMem := pParse.nMem + 2 * idxs.length
        aOp := pParse.aOp
          ++ xferCopyCode pSrc iSrc iDest regData idxs pParse.aOp.length pParse.nMem } := by
  induction idxs generalizing pParse with
  | nil => simp [xferOptimization_copy, xferCopyCode]
  | cons d rest ih =>
    have hd := h d (List.mem_cons_self _ _)
    obtain ⟨s, hs⟩ := Option.isSome_iff_exists.mp hd
    have hrest : ∀ d ∈ rest, (xferOptimization_srcIdx pSrc d).isSome = true :=
      fun x hx => h x (List.mem_cons_of_mem _ hx)
    simp only [xferOptimization_copy, xferCopyCode, hs]
    rw [ih _ hrest]
    simp [sqlite3VdbeAddOp4, sqlite3VdbeAddOp3, sqlite3VdbeAddOp2, sqlite3VdbeAddOp,
      sqlite3VdbeSetP4KeyInfo, sqlite3VdbeChangeP4, sqlite3VdbeChangeP5, sqlite3VdbeJumpHere,
      sqlite3VdbeCurrentAddr, changeLastOp_append_cons, changeOpAt_length_add, changeLastOp,
      changeOpAt, xferBlock]
    omega

theorem xferCopyCode_length (pSrc : Table) (iSrc iDest regData : Int) (idxs : List Index)
    (addr : Nat) (nMem : Int) (h : ∀ d ∈ idxs, (xferOptimization_srcIdx pSrc d).isSome = true) :
    (xferCopyCode pSrc iSrc iDest regData idxs addr nMem).length = 10 * idxs.length := by
  induction idxs generalizing addr nMem with
  | nil => simp [xferCopyCode]
  | cons d rest ih =>
    obtain ⟨s, hs⟩ := Option.isSome_iff_exists.mp (h d (List.mem_cons_self _ _))
    have hrest : ∀ d ∈ rest, (xferOptimization_srcIdx pSrc d).isSome = true :=
      fun x hx => h x (List.mem_cons_of_mem _ hx)
    simp [xferCopyCode, hs, ih _ _ hrest, xferBlock]
    omega

theorem sqlite3GetVdbe_of_pVdbe (p : Parse) (h : p.pVdbe = true) : sqlite3GetVdbe p = p := by
  simp [sqlite3GetVdbe, h]

theorem sqlite3GetVdbe_pVdbe (p : Parse) : (sqlite3GetVdbe p).pVdbe = true := by
  unfold sqlite3GetVdbe; split <;> simp_all

theorem xferOptimization_emit_eq (pParse : Parse) (pDest pSrc : Table)
    (onError : on_conflict_action) (u : Bool) (pk : Index)
    (hpk : sqlite3PrimaryKeyIndex pDest = some pk)
    (h : ∀ d ∈ pDest.pIndex, (xferOptimization_srcIdx pSrc d).isSome = true) :
    xferOptimization_emit pParse pDest pSrc onError u =
      some (if xferNeedsEmptyDest pDest onError u then 0 else 1,
        { sqlite3GetVdbe pParse with
          nTab := (sqlite3GetVdbe pParse).nTab + 1 + 1
          nMem := (sqlite3GetVdbe pParse).nMem + 1 + 1 + 1 + 2 * pDest.pIndex.length
          aOp := (sqlite3GetVdbe pParse).aOp
            ++ xferEmitCode (sqlite3GetVdbe pParse) pDest pSrc pk
                (decide (xferNeedsEmptyDest pDest onError u)) }) := by
  have hq := sqlite3GetVdbe_pVdbe pParse
  by_cases hc : xferNeedsEmptyDest pDest onError u
  · have hc' := hc
    unfold xferNeedsEmptyDest at hc'
    simp only [xferOptimization_emit, sqlite3CodeVerifySchema, sqlite3GetTempReg,
      sqlite3OpenTable, hpk, sqlite3ReleaseTempReg, if_pos hc']
    generalize sqlite3GetVdbe pParse = q at hq ⊢
    simp [sqlite3GetVdbe_of_pVdbe, hq, sqlite3VdbeAddOp4, sqlite3VdbeAddOp3, sqlite3VdbeAddOp2,
      sqlite3VdbeAddOp0, sqlite3VdbeAddOp,
      sqlite3VdbeSetP4KeyInfo, sqlite3VdbeChangeP4, sqlite3VdbeChangeP5, sqlite3VdbeJumpHere,
      sqlite3VdbeCurrentAddr, changeLastOp_append_cons, changeOpAt_length_add, changeLastOp,
      changeOpAt, xferOptimization_copy_eq _ _ _ _ _ _ h, xferEmitCode, xferPreamble,
      xferPostamble, hc,
      xferCopyCode_length _ _ _ _ _ _ _ h, SQLITE_OK]
    omega
  · have hc' := hc
    unfold xferNeedsEmptyDest at hc'
    simp only [xferOptimization_emit, sqlite3CodeVerifySchema, sqlite3GetTempReg,
      sqlite3OpenTable, hpk, sqlite3ReleaseTempReg, if_neg hc']
    generalize sqlite3GetVdbe pParse = q at hq ⊢
    simp [sqlite3GetVdbe_of_pVdbe, hq, sqlite3VdbeAddOp4, sqlite3VdbeAddOp3, sqlite3VdbeAddOp2,
      sqlite3VdbeAddOp0, sqlite3VdbeAddOp,
      sqlite3VdbeSetP4KeyInfo, sqlite3VdbeChangeP4, sqlite3VdbeChangeP5, sqlite3VdbeJumpHere,
      sqlite3VdbeCurrentAddr, changeLastOp_append_cons, changeOpAt_length_add, changeLastOp,
      changeOpAt, xferOptimization_copy_eq _ _ _ _ _ _ h, xferEmitCode, xferPreamble,
      xferPostamble, hc,
      xferCopyCode_length _ _ _ _ _ _ _ h, SQLITE_OK]

theorem sqlite3LocateTableItem_none (pParse : Parse) (pItem : SrcList_item) (p1 : Parse)
    (h : sqlite3LocateTableItem pParse pItem = (none, p1)) :
    p1 = sqlite3ErrorMsg pParse ("no such table: " ++ pItem.zName) := by
  unfold sqlite3LocateTableItem at h
  split at h
  · simp at h
  · simp only [Prod.mk.injEq, true_and] at h
    exact h.symm

theorem sqlite3LocateTableItem_some_eq (pParse : Parse) (pItem : SrcList_item) (t : Table)
    (p1 : Parse) (h : sqlite3LocateTableItem pParse pItem = (some t, p1)) : p1 = pParse := by
  unfold sqlite3LocateTableItem at h
  split at h
  · simp only [Prod.mk.injEq] at h
    exact h.2.symm
  · simp at h

theorem ite_decline {c : Prop} [Decidable c] {pParse : Parse} {B : Option (Int × Parse)}
    {Q : Parse → Prop} (hQ : Q pParse) (h : ¬ c → ∃ p', B = some (0, p') ∧ Q p') :
    ∃ p', (if c then some (0, pParse) else B) = some (0, p') ∧ Q p' := by
  by_cases hc : c
  · exact ⟨pParse, if_pos hc, hQ⟩
  · rw [if_neg hc]; exact h hc

theorem xferOptimization_decline (pParse : Parse) (pDest : Table) (s : Select)
    (onError : on_conflict_action) (hst : ¬ ∃ pSrc, xferStaticOk pParse pDest s pSrc) :
    ∃ p', xferOptimization pParse pDest (some s) onError = some (0, p')
      ∧ (p' = pParse ∨ (p' = sqlite3ErrorMsg pParse
          ("no such table: " ++ (s.pSrc.getD 0 default).zName) ∧ xferSyntaxOk pParse pDest s
          ∧ (sqlite3LocateTableItem pParse (s.pSrc.getD 0 default)).1 = none)) := by
  unfold xferOptimization
  simp only []
  refine ite_decline (Or.inl rfl) (fun c1 => ?_)
  refine ite_decline (Or.inl rfl) (fun c2 => ?_)
  refine ite_decline (Or.inl rfl) (fun c3 => ?_)
  refine ite_decline (Or.inl rfl) (fun c4 => ?_)
  refine ite_decline (Or.inl rfl) (fun c5 => ?_)
  refine ite_decline (Or.inl rfl) (fun c6 => ?_)
  refine ite_decline (Or.inl rfl) (fun c7 => ?_)
  refine ite_decline (Or.inl rfl) (fun c8 => ?_)
  refine ite_decline (Or.inl rfl) (fun c9 => ?_)
  refine ite_decline (Or.inl rfl) (fun c10 => ?_)
  refine ite_decline (Or.inl rfl) (fun c11 => ?_)
  refine ite_decline (Or.inl rfl) (fun c12 => ?_)
  cases hl : sqlite3LocateTableItem pParse (s.pSrc.getD 0 default) with
  | mk o p1 =>
    cases o with
    | none =>
      refine ⟨_, rfl, Or.inr ⟨sqlite3LocateTableItem_none _ _ _ hl, ?_, rfl⟩⟩
      have e1 : pParse.pWith = false ∧ s.pWith = false := by
        constructor
        · cases hw : pParse.pWith
          · rfl
          · exact absurd (Or.inl hw) c1
        · cases hw : s.pWith
          · rfl
          · exact absurd (Or.inr hw) c1
      exact ⟨e1.1, e1.2, by simpa using c2, by simpa using c3, by simpa using c4,
        by simpa using c5, by simpa using c6, by simpa using c7, by simpa using c8,
        by simpa using c9, by simpa using c10, by simpa using c11, by simpa using c12⟩
    | some pSrc =>
      have hp1 : p1 = pParse := sqlite3LocateTableItem_some_eq _ _ _ _ hl
      subst hp1
      simp only []
      refine ite_decline (Or.inl rfl) (fun d1 => ?_)
      refine ite_decline (Or.inl rfl) (fun d2 => ?_)
      refine ite_decline (Or.inl rfl) (fun d3 => ?_)
      refine ite_decline (Or.inl rfl) (fun d4 => ?_)
      refine ite_decline (Or.inl rfl) (fun d5 => ?_)
      rw [xferOptimization_indexes_eq]
      by_cases d6 : ∀ d ∈ pDest.pIndex, (xferOptimization_srcIdx pSrc d).isSome = true
      · rw [if_pos d6]
        simp only []
        refine ite_decline (Or.inl rfl) (fun d7 => ?_)
        refine ite_decline (Or.inl rfl) (fun d8 => ?_)
        refine ite_decline (Or.inl rfl) (fun d9 => ?_)
        exfalso
        apply hst
        refine ⟨pSrc, ?_⟩
        unfold xferStaticOk xferSyntaxOk
        have e1 : p1.pWith = false ∧ s.pWith = false := by
          constructor
          · cases hw : p1.pWith
            · rfl
            · exact absurd (Or.inl hw) c1
          · cases hw : s.pWith
            · rfl
            · exact absurd (Or.inr hw) c1
        have e7 : pDest.pCheck = none
            ∨ sqlite3ExprListCompare pSrc.pCheck pDest.pCheck = 0 := by
          by_cases hz : sqlite3ExprListCompare pSrc.pCheck pDest.pCheck = 0
          · exact Or.inr hz
          · left
            cases hpc : pDest.pCheck with
            | none => rfl
            | some x => exact absurd ⟨by simp [hpc], hz⟩ d7
        have e8 : p1.user_session.SQLITE_ForeignKeys = true → pDest.pFKey = [] := by
          intro hf
          by_contra hne
          exact d8 ⟨hf, hne⟩
        refine ⟨⟨e1.1, e1.2, by simpa using c2, by simpa using c3, by simpa using c4,
          by simpa using c5, by simpa using c6, by simpa using c7, by simpa using c8,
          by simpa using c9, by simpa using c10, by simpa using c11, by simpa using c12⟩,
          by rw [hl], d1, by simpa using d2, by simpa using d3, by simpa using d4,
          by simpa using d5, d6, e7, e8, by simpa using d9⟩
      · rw [if_neg d6]
        exact ⟨_, rfl, Or.inl rfl⟩

theorem sqlite3GetVdbe_aOp (p : Parse) :
    (sqlite3GetVdbe p).aOp
      = p.aOp ++ (if p.pVdbe = true then [] else [{ opcode := OP_Init, p2 := 1 }]) := by
  unfold sqlite3GetVdbe; split <;> simp_all

theorem sqlite3GetVdbe_nMem (p : Parse) : (sqlite3GetVdbe p).nMem = p.nMem := by
  unfold sqlite3GetVdbe; split <;> simp_all

theorem sqlite3GetVdbe_nTab (p : Parse) : (sqlite3GetVdbe p).nTab = p.nTab := by
  unfold sqlite3GetVdbe; split <;> simp_all

theorem xferOptimization_emit_none (pParse : Parse) (pDest pSrc : Table)
    (onError : on_conflict_action) (u : Bool) (hpk : sqlite3PrimaryKeyIndex pDest = none) :
    xferOptimization_emit pParse pDest pSrc onError u = none := by
  simp [xferOptimization_emit, sqlite3OpenTable, hpk, sqlite3GetTempReg]

theorem xferEmitCode_ne_nil (q : Parse) (pDest pSrc : Table) (pk : Index) (guard : Bool) :
    xferEmitCode q pDest pSrc pk guard ≠ [] := by
  simp [xferEmitCode, xferPreamble]

theorem sqlite3GetVdbe_init (p : Parse) :
    ∃ init, (sqlite3GetVdbe p).aOp = p.aOp ++ init
      ∧ ∀ op ∈ init, op = { opcode := OP_Init, p2 := 1 } := by
  refine ⟨_, sqlite3GetVdbe_aOp p, ?_⟩
  intro op hop
  split at hop <;> simp at hop
  exact hop

theorem xferPreamble_length (q : Parse) (pk : Index) (n : Nat) (guard : Bool) :
    (xferPreamble q pk n guard).length = if guard = true then 4 else 2 := by
  cases guard <;> simp [xferPreamble]

/-- What `xferOptimization` returns: either it declines, leaving the program as it was, or
every static test passed, the destination has a primary index and the program grew by
`xferEmitCode`. -/
theorem xferOptimization_result (pParse : Parse) (pDest : Table) (pSelect : Option Select)
    (onError : on_conflict_action) (r : Int × Parse)
    (h : xferOptimization pParse pDest pSelect onError = some r) :
    (r.1 = 0 ∧ r.2.aOp = pParse.aOp ∧ r.2.nMem = pParse.nMem ∧ r.2.nTab = pParse.nTab
      ∧ ¬ ∃ s pSrc, pSelect = some s ∧ xferStaticOk pParse pDest s pSrc)
    ∨ (∃ s pSrc pk, pSelect = some s ∧ xferStaticOk pParse pDest s pSrc
        ∧ sqlite3PrimaryKeyIndex pDest = some pk
        ∧ r.1 = (if xferNeedsEmptyDest pDest (xferOptimization_onError pDest onError)
                    (pDest.pIndex.any IsUniqueIndex) then 0 else 1)
        ∧ r.2.aOp = (sqlite3GetVdbe pParse).aOp
            ++ xferEmitCode (sqlite3GetVdbe pParse) pDest pSrc pk
                (decide (xferNeedsEmptyDest pDest (xferOptimization_onError pDest onError)
                    (pDest.pIndex.any IsUniqueIndex)))
        ∧ r.2.nMem = pParse.nMem + 1 + 1 + 1 + 2 * pDest.pIndex.length
        ∧ r.2.nTab = pParse.nTab + 1 + 1) := by
  cases pSelect with
  | none =>
    left
    simp only [xferOptimization, Option.some.injEq] at h
    subst h
    simp
  | some s =>
    by_cases hst : ∃ pSrc, xferStaticOk pParse pDest s pSrc
    · right
      obtain ⟨pSrc, hs⟩ := hst
      rw [xferOptimization_of_static _ _ _ _ _ hs] at h
      cases hpk : sqlite3PrimaryKeyIndex pDest with
      | none => rw [xferOptimization_emit_none _ _ _ _ _ hpk] at h; cases h
      | some pk =>
        rw [xferOptimization_emit_eq _ _ _ _ _ pk hpk hs.2.2.2.2.2.2.2.1] at h
        simp only [Option.some.injEq] at h
        subst h
        exact ⟨s, pSrc, pk, rfl, hs, rfl, rfl, rfl, by simp [sqlite3GetVdbe_nMem],
          by simp [sqlite3GetVdbe_nTab]⟩
    · left
      obtain ⟨p', hp', hcase⟩ := xferOptimization_decline pParse pDest s onError hst
      rw [hp'] at h
      simp only [Option.some.injEq] at h
      subst h
      refine ⟨rfl, ?_, ?_, ?_, ?_⟩
      · rcases hcase with rfl | ⟨rfl, -⟩ <;> simp [sqlite3ErrorMsg]
      · rcases hcase with rfl | ⟨rfl, -⟩ <;> simp [sqlite3ErrorMsg]
      · rcases hcase with rfl | ⟨rfl, -⟩ <;> simp [sqlite3ErrorMsg]
      · rintro ⟨s', pSrc, hs', hk⟩
        cases hs'
        exact hst ⟨pSrc, hk⟩

theorem xferOptimization_column_true (pDest pSrc : Table) (i : Nat)
    (h : xferOptimization_column pDest pSrc i = true) :
    (pDest.aCol.getD i default).affinity = (pSrc.aCol.getD i default).affinity
    ∧ sqlite3_stricmp (pDest.aCol.getD i default).zColl (pSrc.aCol.getD i default).zColl = 0
    ∧ (table_column_is_nullable pDest i = true ∨ table_column_is_nullable pSrc i = false) := by
  unfold xferOptimization_column at h
  simp only [] at h
  split at h
  · cases h
  · rename_i h1
    split at h
    · cases h
    · rename_i h2
      split at h
      · cases h
      · rename_i h3
        refine ⟨by simpa using h1, by simpa using h2, ?_⟩
        cases hd : table_column_is_nullable pDest i <;>
          cases hs : table_column_is_nullable pSrc i <;> simp_all

theorem xferStaticOk_column (pParse : Parse) (pDest : Table) (s : Select) (pSrc : Table)
    (h : xferStaticOk pParse pDest s pSrc) (i : Nat) (hi : i < pDest.nCol) :
    xferOptimization_column pDest pSrc i = true := by
  have := h.2.2.2.2.2.2.1
  rw [List.all_eq_true] at this
  exact this i (List.mem_range.mpr hi)

/-- If the source table is found but no static test can pass for it, `xferOptimization`
returns 0 and leaves the compilation context untouched. -/
theorem xferOptimization_decline_located (pParse : Parse) (pDest : Table) (s : Select)
    (pSrc : Table) (onError : on_conflict_action)
    (hl : (sqlite3LocateTableItem pParse (s.pSrc.getD 0 default)).1 = some pSrc)
    (hst : ¬ xferStaticOk pParse pDest s pSrc) :
    xferOptimization pParse pDest (some s) onError = some (0, pParse) := by
  have hst' : ¬ ∃ pSrc', xferStaticOk pParse pDest s pSrc' := by
    rintro ⟨pSrc', hk⟩
    have := hk.2.1
    rw [hl] at this
    cases this
    exact hst hk
  obtain ⟨p', hp', hcase⟩ := xferOptimization_decline pParse pDest s onError hst'
  rcases hcase with rfl | ⟨-, -, hnone⟩
  · exact hp'
  · rw [hl] at hnone; cases hnone

/-- C6: `xferOptimization` emits transfer code only if the source (the table named in the
FROM clause) and the destination are distinct tables, the source is not a view, both have
the same number of columns and the same `iPKey`, every column pair has the same affinity
and case-insensitively equal collation names, and the destination has no foreign keys when
the ForeignKeys session flag is set; if one of these fails it returns 0 and the
compilation context (program, counters) is left as it was. -/
theorem xferOptimization_requires_same_shape (pParse : Parse) (pDest : Table)
    (pSelect : Option Select) (onError : on_conflict_action) :
    (∀ r, xferOptimization pParse pDest pSelect onError = some r → r.2.aOp ≠ pParse.aOp →
      ∃ s pSrc, pSelect = some s
        ∧ (sqlite3LocateTableItem pParse (s.pSrc.getD 0 default)).1 = some pSrc
        ∧ pSrc ≠ pDest ∧ pSrc.pSelect = none
        ∧ pDest.nCol = pSrc.nCol ∧ pDest.iPKey = pSrc.iPKey
        ∧ (∀ i < pDest.nCol,
            (pDest.aCol.getD i default).affinity = (pSrc.aCol.getD i default).affinity
            ∧ sqlite3_stricmp (pDest.aCol.getD i default).zColl
                (pSrc.aCol.getD i default).zColl = 0)
        ∧ (pParse.user_session.SQLITE_ForeignKeys = true → pDest.pFKey = []))
    ∧ (∀ s pSrc, pSelect = some s
        → (sqlite3LocateTableItem pParse (s.pSrc.getD 0 default)).1 = some pSrc
        → (pSrc = pDest ∨ pSrc.pSelect ≠ none
            ∨ pDest.nCol ≠ pSrc.nCol ∨ pDest.iPKey ≠ pSrc.iPKey
            ∨ (∃ i < pDest.nCol,
                (pDest.aCol.getD i default).affinity ≠ (pSrc.aCol.getD i default).affinity
                ∨ sqlite3_stricmp (pDest.aCol.getD i default).zColl
                    (pSrc.aCol.getD i default).zColl ≠ 0)
            ∨ (pParse.user_session.SQLITE_ForeignKeys = true ∧ pDest.pFKey ≠ []))
        → xferOptimization pParse pDest pSelect onError = some (0, pParse)) := by
  constructor
  · intro r h hne
    rcases xferOptimization_result _ _ _ _ _ h with ⟨-, he, -⟩ | ⟨s, pSrc, pk, hs, hst, -⟩
    · exact absurd he hne
    · refine ⟨s, pSrc, hs, hst.2.1, hst.2.2.1, hst.2.2.2.1, hst.2.2.2.2.1, hst.2.2.2.2.2.1,
        ?_, hst.2.2.2.2.2.2.2.2.2.1⟩
      intro i hi
      have := xferOptimization_column_true _ _ _ (xferStaticOk_column _ _ _ _ hst i hi)
      exact ⟨this.1, this.2.1⟩
  · rintro s pSrc rfl hl hfail
    apply xferOptimization_decline_located _ _ _ _ _ hl
    intro hst
    rcases hfail with h | h | h | h | ⟨i, hi, h⟩ | ⟨h1, h2⟩
    · exact hst.2.2.1 h
    · exact h hst.2.2.2.1
    · exact h hst.2.2.2.2.1
    · exact h hst.2.2.2.2.2.1
    · have := xferOptimization_column_true _ _ _ (xferStaticOk_column _ _ _ _ hst i hi)
      rcases h with h | h
      · exact h this.1
      · exact h this.2.1
    · exact h2 (hst.2.2.2.2.2.2.2.2.2.1 h1)

/-- C7 (as amended): `xferOptimization` emits transfer code only if, for every column, the
destination column is nullable or the source column is NOT NULL (the nullability is the
same, or the source is the stricter one); a destination column that is NOT NULL while the
source column is nullable makes it return 0 with the compilation context untouched. -/
theorem xferOptimization_nullability (pParse : Parse) (pDest : Table)
    (pSelect : Option Select) (onError : on_conflict_action) :
    (∀ r, xferOptimization pParse pDest pSelect onError = some r → r.2.aOp ≠ pParse.aOp →
      ∃ s pSrc, pSelect = some s
        ∧ (sqlite3LocateTableItem pParse (s.pSrc.getD 0 default)).1 = some pSrc
        ∧ ∀ i < pDest.nCol,
            table_column_is_nullable pDest i = true ∨ table_column_is_nullable pSrc i = false)
    ∧ (∀ s pSrc, pSelect = some s
        → (sqlite3LocateTableItem pParse (s.pSrc.getD 0 default)).1 = some pSrc
        → (∃ i < pDest.nCol,
            table_column_is_nullable pDest i = false ∧ table_column_is_nullable pSrc i = true)
        → xferOptimization pParse pDest pSelect onError = some (0, pParse)) := by
  constructor
  · intro r h hne
    rcases xferOptimization_result _ _ _ _ _ h with ⟨-, he, -⟩ | ⟨s, pSrc, pk, hs, hst, -⟩
    · exact absurd he hne
    · refine ⟨s, pSrc, hs, hst.2.1, ?_⟩
      intro i hi
      exact (xferOptimization_column_true _ _ _ (xferStaticOk_column _ _ _ _ hst i hi)).2.2
  · rintro s pSrc rfl hl ⟨i, hi, hd, hs⟩
    apply xferOptimization_decline_located _ _ _ _ _ hl
    intro hst
    have := (xferOptimization_column_true _ _ _ (xferStaticOk_column _ _ _ _ hst i hi)).2.2
    rw [hd, hs] at this
    simp at this

theorem sqlite3ExprListCompare_eq_zero (a b : Option ExprList) :
    sqlite3ExprListCompare a b = 0 ↔
      a.map (List.map (fun it => (it.pExpr, it.sortOrder)))
        = b.map (List.map (fun it => (it.pExpr, it.sortOrder))) := by
  cases a with
  | none => cases b <;> simp [sqlite3ExprListCompare]
  | some a =>
    cases b with
    | none => simp [sqlite3ExprListCompare]
    | some b =>
      simp only [sqlite3ExprListCompare, Option.map_some', Option.some.injEq]
      induction a generalizing b with
      | nil => cases b <;> simp
      | cons x a ih =>
        cases b with
        | nil => simp
        | cons y b =>
          have ih' := ih b
          by_cases hlen : a.length = b.length
          · simp only [hlen, ne_eq, not_true_eq_false, if_false] at ih'
            simp only [List.length_cons, hlen, ne_eq, not_true_eq_false, if_false,
              List.zip_cons_cons, List.all_cons, List.map_cons, List.cons.injEq,
              Prod.mk.injEq]
            by_cases hxy : x.sortOrder = y.sortOrder ∧ x.pExpr = y.pExpr
            · obtain ⟨h1, h2⟩ := hxy
              simp only [h1, h2, sqlite3ExprCompare, beq_self_eq_true, if_true, Bool.true_and,
                and_self, true_and] at ih' ⊢
              exact ih'
            · have : (x.sortOrder == y.sortOrder
                  && sqlite3ExprCompare (some x.pExpr) (some y.pExpr) == 0) = false := by
                simp only [sqlite3ExprCompare, Option.some.injEq]
                by_cases h1 : x.sortOrder = y.sortOrder
                · have h2 : x.pExpr ≠ y.pExpr := fun h2 => hxy ⟨h1, h2⟩
                  simp [h1, h2]
                · simp [h1]
              simp only [this, Bool.false_and]
              constructor
              · intro h; simp at h
              · rintro ⟨⟨h2, h1⟩, -⟩
                exact absurd ⟨h1, h2⟩ hxy
          · have hlen' : ¬ (a.map (fun it => (it.pExpr, it.sortOrder))
                = b.map (fun it => (it.pExpr, it.sortOrder))) := by
              intro h
              apply hlen
              simpa using congrArg List.length h
            simp [hlen, hlen']

/-- C8 (as amended): `xferOptimization` emits transfer code only if the destination has no
CHECK constraints or the CHECK constraint lists of source and destination are identical
(same expressions in the same order); a destination with CHECK constraints whose source has
none, or different ones, is never eligible: the function returns 0 with the compilation
context untouched.  CHECK constraints of the source alone are not an obstacle. -/
theorem xferOptimization_check_constraints (pParse : Parse) (pDest : Table)
    (pSelect : Option Select) (onError : on_conflict_action) :
    (∀ r, xferOptimization pParse pDest pSelect onError = some r → r.2.aOp ≠ pParse.aOp →
      ∃ s pSrc, pSelect = some s
        ∧ (sqlite3LocateTableItem pParse (s.pSrc.getD 0 default)).1 = some pSrc
        ∧ (pDest.pCheck = none
          ∨ pSrc.pCheck.map (List.map (fun it => (it.pExpr, it.sortOrder)))
              = pDest.pCheck.map (List.map (fun it => (it.pExpr, it.sortOrder)))))
    ∧ (∀ s pSrc, pSelect = some s
        → (sqlite3LocateTableItem pParse (s.pSrc.getD 0 default)).1 = some pSrc
        → pDest.pCheck ≠ none
        → pSrc.pCheck.map (List.map (fun it => (it.pExpr, it.sortOrder)))
              ≠ pDest.pCheck.map (List.map (fun it => (it.pExpr, it.sortOrder)))
        → xferOptimization pParse pDest pSelect onError = some (0, pParse)) := by
  constructor
  · intro r h hne
    rcases xferOptimization_result _ _ _ _ _ h with ⟨-, he, -⟩ | ⟨s, pSrc, pk, hs, hst, -⟩
    · exact absurd he hne
    · refine ⟨s, pSrc, hs, hst.2.1, ?_⟩
      rcases hst.2.2.2.2.2.2.2.2.1 with h1 | h1
      · exact Or.inl h1
      · exact Or.inr ((sqlite3ExprListCompare_eq_zero _ _).mp h1)
  · rintro s pSrc rfl hl hd hne
    apply xferOptimization_decline_located _ _ _ _ _ hl
    intro hst
    rcases hst.2.2.2.2.2.2.2.2.1 with h1 | h1
    · exact hd h1
    · exact hne ((sqlite3ExprListCompare_eq_zero _ _).mp h1)

theorem xferCopyCode_forall (P : VdbeOp → Prop) (pSrc : Table) (iSrc iDest regData : Int)
    (hP : ∀ addr nMem d s, ∀ op ∈ xferBlock iSrc iDest regData addr nMem d s, P op)
    (idxs : List Index) (addr : Nat) (nMem : Int) :
    ∀ op ∈ xferCopyCode pSrc iSrc iDest regData idxs addr nMem, P op := by
  induction idxs generalizing addr nMem with
  | nil => simp [xferCopyCode]
  | cons d rest ih =>
    intro op hop
    unfold xferCopyCode at hop
    split at hop
    · simp at hop
    · rcases List.mem_append.mp hop with h | h
      · exact hP _ _ _ _ op h
      · exact ih _ _ op h

theorem sqlite3PrimaryKeyIndex_mem (pTab : Table) (pk : Index)
    (h : sqlite3PrimaryKeyIndex pTab = some pk) : pk ∈ pTab.pIndex ∧ IsPrimaryKeyIndex pk = true := by
  unfold sqlite3PrimaryKeyIndex at h
  exact ⟨List.mem_of_find?_eq_some h, by simpa using List.find?_some h⟩

theorem xferNeedsEmptyDest_iff (pDest : Table) (onError : on_conflict_action)
    (hidx : pDest.pIndex ≠ []) :
    xferNeedsEmptyDest pDest (xferOptimization_onError pDest onError)
        (pDest.pIndex.any IsUniqueIndex)
      ↔ ((pDest.iPKey < 0 ∧ pDest.pIndex ≠ [])
        ∨ (∃ idx ∈ pDest.pIndex, IsUniqueIndex idx = true)
        ∨ ((if onError ≠ ON_CONFLICT_ACTION_DEFAULT then onError
              else if pDest.keyConf ≠ ON_CONFLICT_ACTION_DEFAULT then pDest.keyConf
              else ON_CONFLICT_ACTION_ABORT) ≠ ON_CONFLICT_ACTION_ABORT
          ∧ (if onError ≠ ON_CONFLICT_ACTION_DEFAULT then onError
              else if pDest.keyConf ≠ ON_CONFLICT_ACTION_DEFAULT then pDest.keyConf
              else ON_CONFLICT_ACTION_ABORT) ≠ ON_CONFLICT_ACTION_ROLLBACK)) := by
  unfold xferNeedsEmptyDest
  by_cases hpk : pDest.iPKey < 0
  · simp [hpk, hidx]
  · have hge : pDest.iPKey ≥ 0 := by omega
    have hres : xferOptimization_onError pDest onError
        = (if onError ≠ ON_CONFLICT_ACTION_DEFAULT then onError
              else if pDest.keyConf ≠ ON_CONFLICT_ACTION_DEFAULT then pDest.keyConf
              else ON_CONFLICT_ACTION_ABORT) := by
      unfold xferOptimization_onError
      by_cases h1 : onError = ON_CONFLICT_ACTION_DEFAULT
      · subst h1
        by_cases h2 : pDest.keyConf = ON_CONFLICT_ACTION_DEFAULT <;> simp [hge, h2]
      · simp [h1]
    rw [hres]
    simp [hpk, List.any_eq_true]

theorem not_hasEmptyDestGuard_of_no_goto (code : List VdbeOp) (base : Nat) (iDest : Int)
    (h : ∀ op ∈ code, op.opcode ≠ OP_Goto) : ¬ hasEmptyDestGuard code base iDest := by
  rintro ⟨pre, post, rw, gt, hc, -, -, -, hg, -⟩
  exact h gt (by rw [hc]; simp) hg

/-- What a result of `xferOptimization` says about the code it emitted: emitted code contains
the run-time destination-emptiness guard (`OP_Rewind` on the destination cursor followed by
an `OP_Goto` around the transfer code) exactly when the destination has no integer primary
key but has indexes, or has a unique index, or the resolved conflict policy (override, else
the table's key policy, else Abort) is neither Abort nor Rollback.  The function returns 1
exactly when it emitted code without the guard and 0 exactly when it emitted the guard or
nothing. -/
theorem xferOptimization_guard_of_result (pParse : Parse) (pDest : Table)
    (pSelect : Option Select) (onError : on_conflict_action) (r : Int × Parse)
    (h : xferOptimization pParse pDest pSelect onError = some r) :
    (r.2.aOp.drop pParse.aOp.length ≠ [] →
      (hasEmptyDestGuard (r.2.aOp.drop pParse.aOp.length) pParse.aOp.length (pParse.nTab + 1)
        ↔ ((pDest.iPKey < 0 ∧ pDest.pIndex ≠ [])
          ∨ (∃ idx ∈ pDest.pIndex, IsUniqueIndex idx = true)
          ∨ ((if onError ≠ ON_CONFLICT_ACTION_DEFAULT then onError
                else if pDest.keyConf ≠ ON_CONFLICT_ACTION_DEFAULT then pDest.keyConf
                else ON_CONFLICT_ACTION_ABORT) ≠ ON_CONFLICT_ACTION_ABORT
            ∧ (if onError ≠ ON_CONFLICT_ACTION_DEFAULT then onError
                else if pDest.keyConf ≠ ON_CONFLICT_ACTION_DEFAULT then pDest.keyConf
                else ON_CONFLICT_ACTION_ABORT) ≠ ON_CONFLICT_ACTION_ROLLBACK))))
    ∧ (r.1 = 1 ↔ (r.2.aOp.drop pParse.aOp.length ≠ []
        ∧ ¬ hasEmptyDestGuard (r.2.aOp.drop pParse.aOp.length) pParse.aOp.length
            (pParse.nTab + 1)))
    ∧ (r.1 = 0 ↔ (hasEmptyDestGuard (r.2.aOp.drop pParse.aOp.length) pParse.aOp.length
            (pParse.nTab + 1)
        ∨ r.2.aOp.drop pParse.aOp.length = [])) := by
  rcases xferOptimization_result _ _ _ _ _ h with
    ⟨h0, he, -⟩ | ⟨s, pSrc, pk, hs, hst, hpk, hr, hcode, -, -⟩
  · have hnil : r.2.aOp.drop pParse.aOp.length = [] := by rw [he]; simp
    rw [hnil]
    have hng : ¬ hasEmptyDestGuard [] pParse.aOp.length (pParse.nTab + 1) :=
      not_hasEmptyDestGuard_of_no_goto _ _ _ (by simp)
    simp [h0, hng]
  · have hidx : pDest.pIndex ≠ [] := by
      intro hnil
      have := (sqlite3PrimaryKeyIndex_mem _ _ hpk).1
      rw [hnil] at this
      simp at this
    have hall := hst.2.2.2.2.2.2.2.1
    rw [← xferNeedsEmptyDest_iff pDest onError hidx]
    obtain ⟨init, hinit, hinit'⟩ := sqlite3GetVdbe_init pParse
    have hlen : (sqlite3GetVdbe pParse).aOp.length = pParse.aOp.length + init.length := by
      rw [hinit]; simp
    have hdrop : r.2.aOp.drop pParse.aOp.length
        = init ++ xferEmitCode (sqlite3GetVdbe pParse) pDest pSrc pk
                (decide (xferNeedsEmptyDest pDest (xferOptimization_onError pDest onError)
                    (pDest.pIndex.any IsUniqueIndex))) := by
      rw [hcode, hinit, List.append_assoc, List.drop_left]
    have hne : r.2.aOp.drop pParse.aOp.length ≠ [] := by
      rw [hdrop]
      simp [xferEmitCode_ne_nil]
    by_cases hg : xferNeedsEmptyDest pDest (xferOptimization_onError pDest onError)
        (pDest.pIndex.any IsUniqueIndex)
    · have hguard : hasEmptyDestGuard (r.2.aOp.drop pParse.aOp.length) pParse.aOp.length
          (pParse.nTab + 1) := by
        rw [hdrop]
        simp only [hg, decide_True, xferEmitCode, xferPreamble, xferPostamble, if_true]
        refine ⟨init
            ++ [ { opcode := OP_Int64, p2 := (sqlite3GetVdbe pParse).nMem + 1 + 1 + 1,
                   p4 := P4_SPACEPTR (SQLITE_PAGENO_TO_SPACEID pk.tnum) },
                 { opcode := OP_OpenWrite, p1 := (sqlite3GetVdbe pParse).nTab + 1,
                   p2 := pk.tnum, p3 := (sqlite3GetVdbe pParse).nMem + 1 + 1 + 1,
                   p4 := P4_KEYINFO pk.nColumn (some pk.zName) } ],
          _, _, _, by simp; exact ⟨rfl, rfl, rfl⟩, rfl, ?_, ?_, rfl, ?_⟩
        · simp [sqlite3GetVdbe_nTab]
        · simp [hlen]
          omega
        · simp [hlen, xferCopyCode_length _ _ _ _ _ _ _ hall]
          omega
      simp [hr, hg, hguard, hne]
    · have hnog : ¬ hasEmptyDestGuard (r.2.aOp.drop pParse.aOp.length) pParse.aOp.length
          (pParse.nTab + 1) := by
        apply not_hasEmptyDestGuard_of_no_goto
        rw [hdrop]
        simp only [hg, decide_False, xferEmitCode, xferPreamble, xferPostamble]
        intro op hop
        simp only [Bool.false_eq_true, if_false, List.append_nil, List.mem_append] at hop
        rcases hop with hop | hop | hop
        · rw [hinit' op hop]; simp
        · simp at hop
          rcases hop with rfl | rfl <;> simp
        · exact xferCopyCode_forall (fun op => op.opcode ≠ OP_Goto) _ _ _ _
            (by intro addr nMem d s op hop; simp [xferBlock] at hop;
                rcases hop with rfl | rfl | rfl | rfl | rfl | rfl | rfl | rfl | rfl | rfl <;> simp)
            _ _ _ op hop
      simp [hr, hg, hnog, hne]

/-- When every static test passes and the destination has a primary index, `xferOptimization`
returns and has emitted code: the program has grown by the `OP_Init` of a new program, if
any, and by `xferEmitCode`, which is not empty. -/
theorem xferOptimization_static_emits (pParse : Parse) (pDest : Table) (s : Select)
    (pSrc : Table) (pk : Index) (onError : on_conflict_action)
    (hst : xferStaticOk pParse pDest s pSrc) (hpk : sqlite3PrimaryKeyIndex pDest = some pk) :
    ∃ r, xferOptimization pParse pDest (some s) onError = some r
      ∧ r.2.aOp = (sqlite3GetVdbe pParse).aOp
          ++ xferEmitCode (sqlite3GetVdbe pParse) pDest pSrc pk
              (decide (xferNeedsEmptyDest pDest (xferOptimization_onError pDest onError)
                (pDest.pIndex.any IsUniqueIndex)))
      ∧ r.2.aOp.drop pParse.aOp.length ≠ [] := by
  rw [xferOptimization_of_static _ _ _ _ _ hst,
    xferOptimization_emit_eq _ _ _ _ _ pk hpk hst.2.2.2.2.2.2.2.1]
  refine ⟨_, rfl, rfl, ?_⟩
  obtain ⟨init, hinit, -⟩ := sqlite3GetVdbe_init pParse
  simp only []
  rw [hinit, List.append_assoc, List.drop_left]
  simp [xferEmitCode_ne_nil]

/-- C4: when every static applicability test of `xferOptimization` passes (`xferStaticOk`)
and the destination has its primary index, the function returns and has emitted transfer
code, and that code contains the run-time destination-emptiness guard (`OP_Rewind` on the
destination cursor followed by an `OP_Goto` around the transfer code) exactly when the
destination has no integer primary key but has indexes, or has a unique index, or the
resolved conflict policy (override, else the table's key policy, else Abort) is neither
Abort nor Rollback; it returns 0 exactly when it emitted the guard and 1 exactly when it
emitted the transfer code without the guard.  For every result of the function, whether the
static tests passed or not: emitted code contains the guard exactly under that condition,
the function returns 1 exactly when it emitted code without the guard, and it returns 0
exactly when it emitted the guard or emitted nothing (the optimization is not
applicable). -/
theorem xferOptimization_empty_dest_guard (pParse : Parse) (pDest : Table)
    (pSelect : Option Select) (onError : on_conflict_action) :
    (∀ (s : Select) (pSrc : Table) (pk : Index), pSelect = some s →
      xferStaticOk pParse pDest s pSrc → sqlite3PrimaryKeyIndex pDest = some pk →
      ∃ r, xferOptimization pParse pDest pSelect onError = some r
        ∧ r.2.aOp.drop pParse.aOp.length ≠ []
        ∧ (hasEmptyDestGuard (r.2.aOp.drop pParse.aOp.length) pParse.aOp.length
              (pParse.nTab + 1)
            ↔ ((pDest.iPKey < 0 ∧ pDest.pIndex ≠ [])
              ∨ (∃ idx ∈ pDest.pIndex, IsUniqueIndex idx = true)
              ∨ ((if onError ≠ ON_CONFLICT_ACTION_DEFAULT then onError
                    else if pDest.keyConf ≠ ON_CONFLICT_ACTION_DEFAULT then pDest.keyConf
                    else ON_CONFLICT_ACTION_ABORT) ≠ ON_CONFLICT_ACTION_ABORT
                ∧ (if onError ≠ ON_CONFLICT_ACTION_DEFAULT then onError
                    else if pDest.keyConf ≠ ON_CONFLICT_ACTION_DEFAULT then pDest.keyConf
                    else ON_CONFLICT_ACTION_ABORT) ≠ ON_CONFLICT_ACTION_ROLLBACK)))
        ∧ (r.1 = 0 ↔ hasEmptyDestGuard (r.2.aOp.drop pParse.aOp.length) pParse.aOp.length
              (pParse.nTab + 1))
        ∧ (r.1 = 1 ↔ ¬ hasEmptyDestGuard (r.2.aOp.drop pParse.aOp.length) pParse.aOp.length
              (pParse.nTab + 1)))
    ∧ (∀ r, xferOptimization pParse pDest pSelect onError = some r →
      (r.2.aOp.drop pParse.aOp.length ≠ [] →
        (hasEmptyDestGuard (r.2.aOp.drop pParse.aOp.length) pParse.aOp.length
            (pParse.nTab + 1)
          ↔ ((pDest.iPKey < 0 ∧ pDest.pIndex ≠ [])
            ∨ (∃ idx ∈ pDest.pIndex, IsUniqueIndex idx = true)
            ∨ ((if onError ≠ ON_CONFLICT_ACTION_DEFAULT then onError
                  else if pDest.keyConf ≠ ON_CONFLICT_ACTION_DEFAULT then pDest.keyConf
                  else ON_CONFLICT_ACTION_ABORT) ≠ ON_CONFLICT_ACTION_ABORT
              ∧ (if onError ≠ ON_CONFLICT_ACTION_DEFAULT then onError
                  else if pDest.keyConf ≠ ON_CONFLICT_ACTION_DEFAULT then pDest.keyConf
                  else ON_CONFLICT_ACTION_ABORT) ≠ ON_CONFLICT_ACTION_ROLLBACK))))
      ∧ (r.1 = 1 ↔ (r.2.aOp.drop pParse.aOp.length ≠ []
          ∧ ¬ hasEmptyDestGuard (r.2.aOp.drop pParse.aOp.length) pParse.aOp.length
              (pParse.nTab + 1)))
      ∧ (r.1 = 0 ↔ (hasEmptyDestGuard (r.2.aOp.drop pParse.aOp.length) pParse.aOp.length
              (pParse.nTab + 1)
          ∨ r.2.aOp.drop pParse.aOp.length = []))) := by
  refine ⟨?_, fun r h => xferOptimization_guard_of_result pParse pDest pSelect onError r h⟩
  intro s pSrc pk hs hst hpk
  subst hs
  obtain ⟨r, hr, -, hne⟩ := xferOptimization_static_emits pParse pDest s pSrc pk onError hst hpk
  obtain ⟨g1, g2, g3⟩ := xferOptimization_guard_of_result pParse pDest (some s) onError r hr
  refine ⟨r, hr, hne, g1 hne, ?_, ?_⟩
  · rw [g3]
    exact ⟨fun h => h.resolve_right hne, Or.inl⟩
  · rw [g2]
    exact ⟨fun h => h.2, fun h => ⟨hne, h⟩⟩

/-- C5: `xferOptimization` declines silently (it returns 0 and hands back the compilation
context exactly as it received it: no instruction emitted, register counter, cursor counter
and error count unchanged) whenever the sub-select is absent, a WITH clause is present (on
the statement or on the sub-select), the destination has triggers, the FROM clause has
other than exactly one term or contains a sub-query, the sub-select has a WHERE, ORDER BY,
GROUP BY or LIMIT clause, is a compound query or is DISTINCT, or its result list is not the
single `*` term. -/
theorem xferOptimization_declines_silently (pParse : Parse) (pDest : Table)
    (pSelect : Option Select) (onError : on_conflict_action)
    (h : pSelect = none ∨ pParse.pWith = true ∨ pDest.pTrigger ≠ []
      ∨ ∃ s, pSelect = some s
        ∧ (s.pWith = true ∨ s.pSrc.length ≠ 1 ∨ (∃ it ∈ s.pSrc, it.pSelect = true)
          ∨ s.pWhere ≠ none ∨ s.pOrderBy ≠ none ∨ s.pGroupBy ≠ none ∨ s.pLimit ≠ none
          ∨ s.pPrior = true ∨ s.SF_Distinct = true
          ∨ ¬ (∃ e, s.pEList = [e] ∧ e.pExpr.op = TK_ASTERISK))) :
    xferOptimization pParse pDest pSelect onError = some (0, pParse) := by
  cases pSelect with
  | none => rfl
  | some s =>
    have hsy : ¬ xferSyntaxOk pParse pDest s := by
      rintro ⟨k1, k2, k3, k4, k5, k6, k7, k8, k9, k10, k11, k12, k13⟩
      rcases h with h | h | h | ⟨s', hs', h⟩
      · cases h
      · simp [k1] at h
      · exact h k3
      · cases hs'
        rcases h with h | h | ⟨it, hit, h⟩ | h | h | h | h | h | h | h
        · simp [k2] at h
        · exact h k4
        · match hsrc : s.pSrc, k4 with
          | [x], _ =>
            rw [hsrc] at hit k5
            simp at hit k5
            subst hit
            simp [k5] at h
        · exact h k6
        · exact h k7
        · exact h k8
        · exact h k9
        · simp [k10] at h
        · simp [k11] at h
        · match hel : s.pEList, k12 with
          | [e], _ =>
            rw [hel] at k13
            exact h ⟨e, hel, by simpa using k13⟩
    have hst : ¬ ∃ pSrc, xferStaticOk pParse pDest s pSrc := fun ⟨_, hk⟩ => hsy hk.1
    obtain ⟨p', hp', hcase⟩ := xferOptimization_decline pParse pDest s onError hst
    rcases hcase with rfl | ⟨-, hk, -⟩
    · exact hp'
    · exact absurd hk hsy

/-- The code of a result of `xferOptimization`: every emitted instruction belongs to the
raw-copy repertoire (no `OP_Column`, `OP_MakeRecord`, `OP_Affinity`, `OP_NoConflict`,
`OP_HaltIfNull`, no call of an expression or constraint code generator; the only `OP_Halt`
is the normal end with `SQLITE_OK`), and every `OP_IdxInsert` carries `OPFLAG_APPEND`.  When
code is emitted it consists of a preamble, then `xferCopyCode`, i.e. for each index of the
destination in order one `xferBlock`, then a postamble; in a block the `OP_IdxInsert`
carries `OPFLAG_NCHANGE` exactly when the destination index is the primary-key index. -/
theorem xferOptimization_copy_of_result (pParse : Parse) (pDest : Table)
    (pSelect : Option Select) (onError : on_conflict_action) (r : Int × Parse)
    (h : xferOptimization pParse pDest pSelect onError = some r) :
    (∀ op ∈ r.2.aOp.drop pParse.aOp.length,
        op.opcode ∈ [OP_Init, OP_Int64, OP_OpenRead, OP_OpenWrite, OP_Rewind, OP_Goto, OP_RowData,
          OP_IdxInsert, OP_Next, OP_Close, OP_Halt]
        ∧ (op.opcode = OP_Halt → op.p1 = SQLITE_OK ∧ op.p4 = P4_NOTUSED)
        ∧ (op.opcode = OP_IdxInsert → OPFLAG_APPEND ∈ op.p5))
    ∧ (r.2.aOp.drop pParse.aOp.length ≠ [] →
        ∃ s pSrc pre post, pSelect = some s
          ∧ (sqlite3LocateTableItem pParse (s.pSrc.getD 0 default)).1 = some pSrc
          ∧ (∀ d ∈ pDest.pIndex, ∃ pSrcIdx, xferOptimization_srcIdx pSrc d = some pSrcIdx)
          ∧ r.2.aOp.drop pParse.aOp.length
              = pre ++ xferCopyCode pSrc pParse.nTab (pParse.nTab + 1) (pParse.nMem + 1)
                  pDest.pIndex (pParse.aOp.length + pre.length) (pParse.nMem + 1 + 1 + 1)
                ++ post
          ∧ (∀ op ∈ pre ++ post, op.opcode ≠ OP_OpenRead ∧ op.opcode ≠ OP_RowData
              ∧ op.opcode ≠ OP_IdxInsert ∧ op.opcode ≠ OP_Next))
    ∧ (∀ (iSrc iDest regData : Int) (addr : Nat) (nMem : Int) (d sIdx : Index),
        ∀ op ∈ xferBlock iSrc iDest regData addr nMem d sIdx, op.opcode = OP_IdxInsert →
          (OPFLAG_APPEND ∈ op.p5 ∧ (OPFLAG_NCHANGE ∈ op.p5 ↔ IsPrimaryKeyIndex d = true))) := by
  have hblock : ∀ (iSrc iDest regData : Int) (addr : Nat) (nMem : Int) (d sIdx : Index),
      ∀ op ∈ xferBlock iSrc iDest regData addr nMem d sIdx,
        op.opcode ∈ [OP_Init, OP_Int64, OP_OpenRead, OP_OpenWrite, OP_Rewind, OP_Goto,
          OP_RowData, OP_IdxInsert, OP_Next, OP_Close, OP_Halt]
        ∧ (op.opcode = OP_Halt → op.p1 = SQLITE_OK ∧ op.p4 = P4_NOTUSED)
        ∧ (op.opcode = OP_IdxInsert → OPFLAG_APPEND ∈ op.p5) := by
    intro iSrc iDest regData addr nMem d sIdx op hop
    simp only [xferBlock, List.mem_cons, List.mem_singleton, List.not_mem_nil, or_false] at hop
    rcases hop with rfl | rfl | rfl | rfl | rfl | rfl | rfl | rfl | rfl | rfl <;> simp
  refine ⟨?_, ?_, ?_⟩
  · rcases xferOptimization_result _ _ _ _ _ h with
      ⟨h0, he, -⟩ | ⟨s, pSrc, pk, hs, hst, hpk, hr, hcode, -, -⟩
    · rw [he]; simp
    · obtain ⟨init, hinit, hinit'⟩ := sqlite3GetVdbe_init pParse
      rw [hcode, hinit, List.append_assoc, List.drop_left]
      intro op hop
      simp only [xferEmitCode, xferPreamble, xferPostamble, List.mem_append] at hop
      rcases hop with hop | ((hop | hop) | hop) | hop
      · rw [hinit' op hop]; simp
      · simp at hop
        rcases hop with rfl | rfl <;> simp
      · split at hop <;> simp at hop
        rcases hop with rfl | rfl <;> simp
      · exact xferCopyCode_forall _ _ _ _ _ (hblock _ _ _) _ _ _ op hop
      · split at hop <;> simp at hop
        rcases hop with rfl | rfl <;> simp [SQLITE_OK]
  · intro hne
    rcases xferOptimization_result _ _ _ _ _ h with
      ⟨h0, he, -⟩ | ⟨s, pSrc, pk, hs, hst, hpk, hr, hcode, -, -⟩
    · exact absurd (by rw [he]; simp) hne
    · have hall := hst.2.2.2.2.2.2.2.1
      obtain ⟨init, hinit, hinit'⟩ := sqlite3GetVdbe_init pParse
      have hlen : (sqlite3GetVdbe pParse).aOp.length = pParse.aOp.length + init.length := by
        rw [hinit]; simp
      refine ⟨s, pSrc,
        init ++ xferPreamble (sqlite3GetVdbe pParse) pk pDest.pIndex.length
          (decide (xferNeedsEmptyDest pDest (xferOptimization_onError pDest onError)
                  (pDest.pIndex.any IsUniqueIndex))),
        xferPostamble (sqlite3GetVdbe pParse)
          (decide (xferNeedsEmptyDest pDest (xferOptimization_onError pDest onError)
                  (pDest.pIndex.any IsUniqueIndex))),
        hs, hst.2.1, fun d hd => Option.isSome_iff_exists.mp (hall d hd), ?_, ?_⟩
      · rw [hcode, hinit, List.append_assoc, List.drop_left]
        simp only [xferEmitCode, sqlite3GetVdbe_nTab, sqlite3GetVdbe_nMem, hlen,
          List.length_append, List.append_assoc, Nat.add_assoc]
      · intro op hop
        simp only [List.mem_append, xferPreamble, xferPostamble] at hop
        rcases hop with (hop | (hop | hop)) | hop
        · rw [hinit' op hop]; simp
        · simp at hop
          rcases hop with rfl | rfl <;> simp
        · split at hop <;> simp at hop
          rcases hop with rfl | rfl <;> simp
        · split at hop <;> simp at hop
          rcases hop with rfl | rfl <;> simp
  · intro iSrc iDest regData addr nMem d sIdx op hop hins
    simp only [xferBlock, List.mem_cons, List.mem_singleton, List.not_mem_nil, or_false] at hop
    rcases hop with rfl | rfl | rfl | rfl | rfl | rfl | rfl | rfl | rfl | rfl <;>
      simp at hins
    simp only [IsPrimaryKeyIndex]
    by_cases hd : d.idxType = 2 <;> simp [hd]

theorem xferCopyCode_infix (pSrc : Table) (iSrc iDest regData : Int) (idxs : List Index)
    (addr : Nat) (nMem : Int)
    (hall : ∀ d ∈ idxs, (xferOptimization_srcIdx pSrc d).isSome = true) :
    ∀ d ∈ idxs, ∃ (sIdx : Index) (a : Nat) (m : Int),
      xferOptimization_srcIdx pSrc d = some sIdx
      ∧ xferBlock iSrc iDest regData a m d sIdx
          <:+: xferCopyCode pSrc iSrc iDest regData idxs addr nMem := by
  induction idxs generalizing addr nMem with
  | nil => intro d hd; cases hd
  | cons d0 rest ih =>
    intro d hd
    obtain ⟨s0, hs0⟩ := Option.isSome_iff_exists.1 (hall d0 (List.mem_cons_self _ _))
    have hc : xferCopyCode pSrc iSrc iDest regData (d0 :: rest) addr nMem
        = xferBlock iSrc iDest regData addr nMem d0 s0
          ++ xferCopyCode pSrc iSrc iDest regData rest (addr + 10) (nMem + 1 + 1) := by
      simp only [xferCopyCode, hs0]
    rw [hc]
    rcases List.mem_cons.1 hd with rfl | hd
    · exact ⟨s0, addr, nMem, hs0, List.infix_append' [] _ _⟩
    · obtain ⟨sIdx, a, m, e1, e2⟩ :=
        ih (addr + 10) (nMem + 1 + 1) (fun x hx => hall x (List.mem_cons_of_mem _ hx)) d hd
      exact ⟨sIdx, a, m, e1, e2.trans (List.suffix_append _ _).isInfix⟩

/-- C9: when every static applicability test of `xferOptimization` passes (`xferStaticOk`)
and the destination has its primary index, the function returns, has emitted code, and for
every index `d` of the destination that code contains, as ten consecutive instructions, the
raw copy of that index: `OP_Int64` and `OP_OpenRead` on the first compatible source index
(cursor `iSrc = nTab`, root page `sIdx.tnum`), `OP_Int64` and `OP_OpenWrite` on the
destination index (cursor `iDest = nTab + 1`, root page `d.tnum`, `OPFLAG_BULKCSR`), the loop
`OP_Rewind` / `OP_RowData` / `OP_IdxInsert` / `OP_Next`, which moves each record through the
register `regData = nMem + 1` without decoding it, and the two `OP_Close`; the `OP_IdxInsert`
carries `OPFLAG_APPEND`, preceded by `OPFLAG_NCHANGE` exactly when `d` is the primary-key
index.  For every result of the function, every emitted instruction belongs to the raw-copy
repertoire (no `OP_Column`, `OP_MakeRecord`, `OP_Affinity`, `OP_NoConflict`, `OP_HaltIfNull`,
no call of an expression or constraint code generator; the only `OP_Halt` is the normal end
with `SQLITE_OK`), every `OP_IdxInsert` carries `OPFLAG_APPEND`, and emitted code consists of
a preamble, one `xferBlock` per index of the destination in order, and a postamble, neither
of which holds an `OP_OpenRead`, `OP_RowData`, `OP_IdxInsert` or `OP_Next`.  In every block
the `OP_IdxInsert` carries `OPFLAG_NCHANGE` exactly when the destination index is the
primary-key index. -/
theorem xferOptimization_raw_copy (pParse : Parse) (pDest : Table)
    (pSelect : Option Select) (onError : on_conflict_action) :
    (∀ (s : Select) (pSrc : Table) (pk : Index), pSelect = some s →
      xferStaticOk pParse pDest s pSrc → sqlite3PrimaryKeyIndex pDest = some pk →
      ∃ r, xferOptimization pParse pDest pSelect onError = some r
        ∧ r.2.aOp.drop pParse.aOp.length ≠ []
        ∧ ∀ d ∈ pDest.pIndex, ∃ (sIdx : Index) (addr : Nat) (nMem : Int),
            xferOptimization_srcIdx pSrc d = some sIdx
            ∧ [ { opcode := OP_Int64, p2 := nMem + 1,
                  p4 := P4_SPACEPTR (SQLITE_PAGENO_TO_SPACEID sIdx.tnum) },
                { opcode := OP_OpenRead, p1 := pParse.nTab, p2 := sIdx.tnum, p3 := nMem + 1,
                  p4 := P4_KEYINFO sIdx.nColumn (some sIdx.zName) },
                { opcode := OP_Int64, p2 := nMem + 1 + 1,
                  p4 := P4_SPACEPTR (SQLITE_PAGENO_TO_SPACEID d.tnum) },
                { opcode := OP_OpenWrite, p1 := pParse.nTab + 1, p2 := d.tnum,
                  p3 := nMem + 1 + 1, p4 := P4_KEYINFO d.nColumn (some d.zName),
                  p5 := [OPFLAG_BULKCSR] },
                { opcode := OP_Rewind, p1 := pParse.nTab, p2 := ((addr + 8 : Nat) : Int) },
                { opcode := OP_RowData, p1 := pParse.nTab, p2 := pParse.nMem + 1 },
                { opcode := OP_IdxInsert, p1 := pParse.nTab + 1, p2 := pParse.nMem + 1,
                  p5 := (if IsPrimaryKeyIndex d = true then [OPFLAG_NCHANGE] else [])
                    ++ [OPFLAG_APPEND] },
                { opcode := OP_Next, p1 := pParse.nTab, p2 := ((addr + 4 : Nat) : Int) + 1 },
                { opcode := OP_Close, p1 := pParse.nTab },
                ({ opcode := OP_Close, p1 := pParse.nTab + 1 } : VdbeOp) ]
              <:+: r.2.aOp.drop pParse.aOp.length)
    ∧ (∀ r, xferOptimization pParse pDest pSelect onError = some r →
      (∀ op ∈ r.2.aOp.drop pParse.aOp.length,
          op.opcode ∈ [OP_Init, OP_Int64, OP_OpenRead, OP_OpenWrite, OP_Rewind, OP_Goto,
            OP_RowData, OP_IdxInsert, OP_Next, OP_Close, OP_Halt]
          ∧ (op.opcode = OP_Halt → op.p1 = SQLITE_OK ∧ op.p4 = P4_NOTUSED)
          ∧ (op.opcode = OP_IdxInsert → OPFLAG_APPEND ∈ op.p5))
      ∧ (r.2.aOp.drop pParse.aOp.length ≠ [] →
          ∃ s pSrc pre post, pSelect = some s
            ∧ (sqlite3LocateTableItem pParse (s.pSrc.getD 0 default)).1 = some pSrc
            ∧ (∀ d ∈ pDest.pIndex, ∃ pSrcIdx, xferOptimization_srcIdx pSrc d = some pSrcIdx)
            ∧ r.2.aOp.drop pParse.aOp.length
                = pre ++ xferCopyCode pSrc pParse.nTab (pParse.nTab + 1) (pParse.nMem + 1)
                    pDest.pIndex (pParse.aOp.length + pre.length) (pParse.nMem + 1 + 1 + 1)
                  ++ post
            ∧ (∀ op ∈ pre ++ post, op.opcode ≠ OP_OpenRead ∧ op.opcode ≠ OP_RowData
                ∧ op.opcode ≠ OP_IdxInsert ∧ op.opcode ≠ OP_Next)))
    ∧ (∀ (iSrc iDest regData : Int) (addr : Nat) (nMem : Int) (d sIdx : Index),
        ∀ op ∈ xferBlock iSrc iDest regData addr nMem d sIdx, op.opcode = OP_IdxInsert →
          (OPFLAG_APPEND ∈ op.p5 ∧ (OPFLAG_NCHANGE ∈ op.p5 ↔ IsPrimaryKeyIndex d = true))) := by
  refine ⟨?_, fun r h => ⟨(xferOptimization_copy_of_result pParse pDest pSelect onError r h).1,
      (xferOptimization_copy_of_result pParse pDest pSelect onError r h).2.1⟩, ?_⟩
  · intro s pSrc pk hs hst hpk
    subst hs
    obtain ⟨r, hr, -, hne⟩ :=
      xferOptimization_static_emits pParse pDest s pSrc pk onError hst hpk
    obtain ⟨-, g2, -⟩ := xferOptimization_copy_of_result pParse pDest (some s) onError r hr
    obtain ⟨s', pSrc', pre, post, hs', hl', hall', hcode, -⟩ := g2 hne
    cases hs'
    have hsrc : pSrc' = pSrc := by
      have := hst.2.1
      rw [hl'] at this
      exact Option.some.inj this
    subst hsrc
    refine ⟨r, hr, hne, ?_⟩
    intro d hd
    obtain ⟨sIdx, a, m, e1, e2⟩ := xferCopyCode_infix pSrc' pParse.nTab (pParse.nTab + 1)
      (pParse.nMem + 1) pDest.pIndex (pParse.aOp.length + pre.length) (pParse.nMem + 1 + 1 + 1)
      (fun x hx => Option.isSome_iff_exists.2 (hall' x hx)) d hd
    refine ⟨sIdx, a, m, e1, ?_⟩
    rw [hcode]
    have hb : xferBlock (pParse.nTab : Int) (pParse.nTab + 1) (pParse.nMem + 1) a m d sIdx
        <:+: pre ++ xferCopyCode pSrc' pParse.nTab (pParse.nTab + 1) (pParse.nMem + 1)
              pDest.pIndex (pParse.aOp.length + pre.length) (pParse.nMem + 1 + 1 + 1)
            ++ post :=
      (e2.trans (List.suffix_append _ _).isInfix).trans (List.prefix_append _ _).isInfix
    unfold xferBlock at hb
    simpa [IsPrimaryKeyIndex] using hb
  · exact (xferOptimization_copy_of_result pParse pDest none onError (0, pParse) rfl).2.2

end XferLemmas

section XferExamples

/-- Witness of C4.  On `INSERT INTO t1 SELECT * FROM t2` every static test passes and the
destination has a unique (primary) index: transfer code is emitted, it starts with the
opening of the destination and the guard `OP_Rewind 1 5`, `OP_Goto 0 16`, and the function
returns 0.  On `INSERT INTO t5 SELECT * FROM t6` every static test passes as well, but none
of the three conditions holds (`t5` has an integer primary key, no unique index and the
policy Abort): the transfer code is emitted without the guard and the function returns
1. -/
theorem xferOptimization_empty_dest_guard_witness :
    (xferStaticOk demoParse demoT1 (demoStar "t2") demoT2
      ∧ sqlite3PrimaryKeyIndex demoT1 = some demoPk1
      ∧ ((xferOptimization demoParse demoT1 (some (demoStar "t2"))
            ON_CONFLICT_ACTION_DEFAULT).map
          (fun r => ((r.2.aOp.drop demoParse.aOp.length).take 4).map
            (fun o => (o.opcode, o.p1, o.p2))))
          = some [(OP_Int64, 0, 3), (OP_OpenWrite, 1, 524288), (OP_Rewind, 1, 5),
                  (OP_Goto, 0, 16)]
      ∧ ∃ r, xferOptimization demoParse demoT1 (some (demoStar "t2"))
            ON_CONFLICT_ACTION_DEFAULT = some r
        ∧ r.2.aOp.drop demoParse.aOp.length ≠ []
        ∧ hasEmptyDestGuard (r.2.aOp.drop demoParse.aOp.length) demoParse.aOp.length
            (demoParse.nTab + 1)
        ∧ r.1 = 0)
    ∧ (xferStaticOk demoParse56 demoT5 (demoStar "t6") demoT6
      ∧ sqlite3PrimaryKeyIndex demoT5 = some (demoT5.pIndex.getD 0 demoPk1)
      ∧ ((xferOptimization demoParse56 demoT5 (some (demoStar "t6"))
            ON_CONFLICT_ACTION_DEFAULT).map
          (fun r => (r.2.aOp.drop demoParse56.aOp.length).map
            (fun o => (o.opcode, o.p1, o.p2))))
          = some [(OP_Int64, 0, 3), (OP_OpenWrite, 1, 528384), (OP_Int64, 0, 4),
                  (OP_OpenRead, 0, 529408), (OP_Int64, 0, 5), (OP_OpenWrite, 1, 528384),
                  (OP_Rewind, 0, 11), (OP_RowData, 0, 1), (OP_IdxInsert, 1, 1),
                  (OP_Next, 0, 8), (OP_Close, 0, 0), (OP_Close, 1, 0)]
      ∧ ∃ r, xferOptimization demoParse56 demoT5 (some (demoStar "t6"))
            ON_CONFLICT_ACTION_DEFAULT = some r
        ∧ r.2.aOp.drop demoParse56.aOp.length ≠ []
        ∧ ¬ hasEmptyDestGuard (r.2.aOp.drop demoParse56.aOp.length) demoParse56.aOp.length
            (demoParse56.nTab + 1)
        ∧ r.1 = 1) :=
  ⟨⟨by decide, by decide, by decide,
    match (xferOptimization_empty_dest_guard demoParse demoT1 (some (demoStar "t2"))
      ON_CONFLICT_ACTION_DEFAULT).1 (demoStar "t2") demoT2 demoPk1 rfl (by decide)
      (by decide) with
    | ⟨r, h1, h2, h3, h4, _⟩ =>
      ⟨r, h1, h2, h3.2 (Or.inr (Or.inl ⟨demoPk1, by decide, by decide⟩)),
        h4.2 (h3.2 (Or.inr (Or.inl ⟨demoPk1, by decide, by decide⟩)))⟩⟩,
    by decide, by decide, by decide,
    match (xferOptimization_empty_dest_guard demoParse56 demoT5 (some (demoStar "t6"))
      ON_CONFLICT_ACTION_DEFAULT).1 (demoStar "t6") demoT6 (demoT5.pIndex.getD 0 demoPk1) rfl
      (by decide) (by decide) with
    | ⟨r, h1, h2, h3, _, h5⟩ =>
      ⟨r, h1, h2, fun hg => absurd (h3.1 hg) (by decide),
        h5.2 (fun hg => absurd (h3.1 hg) (by decide))⟩⟩

/-- Witness of C5 on `INSERT INTO t1 SELECT * FROM t2 WHERE b`: the WHERE clause makes
`xferOptimization` decline without touching the context. -/
theorem xferOptimization_declines_silently_witness :
    (demoStarWhere "t2").pWhere ≠ none
      ∧ xferOptimization demoParse demoT1 (some (demoStarWhere "t2")) ON_CONFLICT_ACTION_DEFAULT
          = some (0, demoParse) :=
  ⟨by decide,
    xferOptimization_declines_silently demoParse demoT1 (some (demoStarWhere "t2"))
      ON_CONFLICT_ACTION_DEFAULT
      (Or.inr (Or.inr (Or.inr ⟨demoStarWhere "t2", rfl,
        Or.inr (Or.inr (Or.inr (Or.inl (by decide))))⟩)))⟩

/-- Witness of C6 on `INSERT INTO t1 SELECT * FROM t1`: source and destination are the same
table, so nothing is emitted. -/
theorem xferOptimization_requires_same_shape_witness :
    xferOptimization demoParse demoT1 (some (demoStar "t1")) ON_CONFLICT_ACTION_DEFAULT
      = some (0, demoParse) :=
  (xferOptimization_requires_same_shape demoParse demoT1 (some (demoStar "t1"))
    ON_CONFLICT_ACTION_DEFAULT).2 (demoStar "t1") demoT1 rfl (by decide) (Or.inl rfl)

/-- Counterexample to C7 as stated.  `t3.b` is NOT NULL and `t1.b` is nullable, everything
else is the same.  With the stricter table as destination the transfer is declined, and
with the laxer table as destination the transfer code is emitted. -/
theorem xferOptimization_nullability_counterexample :
    table_column_is_nullable demoT3 1 = false ∧ table_column_is_nullable demoT1 1 = true
      ∧ xferOptimization demoParse demoT3 (some (demoStar "t1")) ON_CONFLICT_ACTION_DEFAULT
          = some (0, demoParse)
      ∧ (xferOptimization demoParse demoT1 (some (demoStar "t3")) ON_CONFLICT_ACTION_DEFAULT).map
            (fun r => (r.2.aOp.drop demoParse.aOp.length).map (fun o => o.opcode))
          = some [OP_Int64, OP_OpenWrite, OP_Rewind, OP_Goto, OP_Int64, OP_OpenRead, OP_Int64,
              OP_OpenWrite, OP_Rewind, OP_RowData, OP_IdxInsert, OP_Next, OP_Close, OP_Close,
              OP_Halt, OP_Close] := by
  decide

/-- Witness of C7 (as amended) on `INSERT INTO t3 SELECT * FROM t1`: column `b` is NOT NULL
in the destination and nullable in the source, so nothing is emitted. -/
theorem xferOptimization_nullability_witness :
    xferOptimization demoParse demoT3 (some (demoStar "t1")) ON_CONFLICT_ACTION_DEFAULT
      = some (0, demoParse) :=
  (xferOptimization_nullability demoParse demoT3 (some (demoStar "t1"))
    ON_CONFLICT_ACTION_DEFAULT).2 (demoStar "t1") demoT1 rfl (by decide)
    ⟨1, by decide, by decide, by decide⟩

/-- Counterexample to C8 as stated.  `t4` has a CHECK constraint and `t1` has none,
everything else is the same.  With `t1` as destination and `t4` as source the transfer
code is emitted. -/
theorem xferOptimization_check_constraints_counterexample :
    demoT4.pCheck ≠ none ∧ demoT1.pCheck = none
      ∧ (xferOptimization demoParse demoT1 (some (demoStar "t4")) ON_CONFLICT_ACTION_DEFAULT).map
            (fun r => (r.2.aOp.drop demoParse.aOp.length).map (fun o => o.opcode))
          = some [OP_Int64, OP_OpenWrite, OP_Rewind, OP_Goto, OP_Int64, OP_OpenRead, OP_Int64,
              OP_OpenWrite, OP_Rewind, OP_RowData, OP_IdxInsert, OP_Next, OP_Close, OP_Close,
              OP_Halt, OP_Close] := by
  decide

/-- Witness of C8 (as amended) on `INSERT INTO t4 SELECT * FROM t1`: the destination has a
CHECK constraint the source lacks, so nothing is emitted. -/
theorem xferOptimization_check_constraints_witness :
    xferOptimization demoParse demoT4 (some (demoStar "t1")) ON_CONFLICT_ACTION_DEFAULT
      = some (0, demoParse) :=
  (xferOptimization_check_constraints demoParse demoT4 (some (demoStar "t1"))
    ON_CONFLICT_ACTION_DEFAULT).2 (demoStar "t1") demoT1 rfl (by decide) (by decide)
    (by decide)

/-- Witness of C9 on `INSERT INTO t1 SELECT * FROM t2`: every static test passes, and the
emitted program is the opening of the destination, the guard, the block of the only index
(`OP_OpenRead` of the primary index of `t2`, `OP_OpenWrite` of the one of `t1`, the loop
`OP_Rewind`, `OP_RowData`, `OP_IdxInsert`, `OP_Next`, two `OP_Close`) and the end. -/
theorem xferOptimization_raw_copy_witness :
    xferStaticOk demoParse demoT1 (demoStar "t2") demoT2
      ∧ sqlite3PrimaryKeyIndex demoT1 = some demoPk1
      ∧ ((xferOptimization demoParse demoT1 (some (demoStar "t2"))
            ON_CONFLICT_ACTION_DEFAULT).map
          (fun r => (r.2.aOp.drop demoParse.aOp.length).map
            (fun o => (o.opcode, o.p1, o.p2))))
          = some [(OP_Int64, 0, 3), (OP_OpenWrite, 1, 524288), (OP_Rewind, 1, 5),
                  (OP_Goto, 0, 16), (OP_Int64, 0, 4), (OP_OpenRead, 0, 525312),
                  (OP_Int64, 0, 5), (OP_OpenWrite, 1, 524288), (OP_Rewind, 0, 13),
                  (OP_RowData, 0, 1), (OP_IdxInsert, 1, 1), (OP_Next, 0, 10),
                  (OP_Close, 0, 0), (OP_Close, 1, 0), (OP_Halt, 0, 0), (OP_Close, 1, 0)]
      ∧ ∃ r, xferOptimization demoParse demoT1 (some (demoStar "t2"))
            ON_CONFLICT_ACTION_DEFAULT = some r
        ∧ r.2.aOp.drop demoParse.aOp.length ≠ []
        ∧ ∃ (sIdx : Index) (addr : Nat) (nMem : Int),
            xferOptimization_srcIdx demoT2 demoPk1 = some sIdx
            ∧ [ { opcode := OP_Int64, p2 := nMem + 1,
                  p4 := P4_SPACEPTR (SQLITE_PAGENO_TO_SPACEID sIdx.tnum) },
                { opcode := OP_OpenRead, p1 := demoParse.nTab, p2 := sIdx.tnum,
                  p3 := nMem + 1, p4 := P4_KEYINFO sIdx.nColumn (some sIdx.zName) },
                { opcode := OP_Int64, p2 := nMem + 1 + 1,
                  p4 := P4_SPACEPTR (SQLITE_PAGENO_TO_SPACEID demoPk1.tnum) },
                { opcode := OP_OpenWrite, p1 := demoParse.nTab + 1, p2 := demoPk1.tnum,
                  p3 := nMem + 1 + 1,
                  p4 := P4_KEYINFO demoPk1.nColumn (some demoPk1.zName),
                  p5 := [OPFLAG_BULKCSR] },
                { opcode := OP_Rewind, p1 := demoParse.nTab, p2 := ((addr + 8 : Nat) : Int) },
                { opcode := OP_RowData, p1 := demoParse.nTab, p2 := demoParse.nMem + 1 },
                { opcode := OP_IdxInsert, p1 := demoParse.nTab + 1, p2 := demoParse.nMem + 1,
                  p5 := (if IsPrimaryKeyIndex demoPk1 = true then [OPFLAG_NCHANGE] else [])
                    ++ [OPFLAG_APPEND] },
                { opcode := OP_Next, p1 := demoParse.nTab,
                  p2 := ((addr + 4 : Nat) : Int) + 1 },
                { opcode := OP_Close, p1 := demoParse.nTab },
                ({ opcode := OP_Close, p1 := demoParse.nTab + 1 } : VdbeOp) ]
              <:+: r.2.aOp.drop demoParse.aOp.length :=
  ⟨by decide, by decide, by decide,
    match (xferOptimization_raw_copy demoParse demoT1 (some (demoStar "t2"))
      ON_CONFLICT_ACTION_DEFAULT).1 (demoStar "t2") demoT2 demoPk1 rfl (by decide)
      (by decide) with
    | ⟨r, h1, h2, h3⟩ => ⟨r, h1, h2, h3 demoPk1 (by decide)⟩⟩

end XferExamples

section GrowsLemmas

theorem map_opcode_changeOpAt (f : VdbeOp → VdbeOp) (hf : ∀ o, (f o).opcode = o.opcode)
    (n : Nat) (l : List VdbeOp) :
    (changeOpAt f n l).map (fun o => o.opcode) = l.map (fun o => o.opcode) := by
  induction l generalizing n with
  | nil => cases n <;> simp [changeOpAt]
  | cons a l ih => cases n <;> simp [changeOpAt, hf, ih]

theorem map_opcode_changeLastOp (f : VdbeOp → VdbeOp) (hf : ∀ o, (f o).opcode = o.opcode)
    (l : List VdbeOp) :
    (changeLastOp f l).map (fun o => o.opcode) = l.map (fun o => o.opcode) := by
  induction l with
  | nil => rfl
  | cons a l ih =>
    cases l with
    | nil => simp [changeLastOp, hf]
    | cons b l => simpa [changeLastOp] using ih

theorem Grows.refl (L : List Opcode) (p : Parse) : Grows L p p :=
  ⟨Nat.le_refl _, [], by simp, by simp⟩

theorem Grows.trans {L : List Opcode} {p q r : Parse} (h1 : Grows L p q) (h2 : Grows L q r) :
    Grows L p r := by
  obtain ⟨m1, c1, e1, a1⟩ := h1
  obtain ⟨m2, c2, e2, a2⟩ := h2
  refine ⟨Nat.le_trans m1 m2, c1 ++ c2, by rw [e2, e1, List.append_assoc], ?_⟩
  intro c hc
  rcases List.mem_append.mp hc with h | h
  · exact a1 c h
  · exact a2 c h

theorem Grows.mono {L L' : List Opcode} {p q : Parse} (h : Grows L p q)
    (hL : ∀ c ∈ L, c ∈ L') : Grows L' p q := by
  obtain ⟨m, cs, e, a⟩ := h
  exact ⟨m, cs, e, fun c hc => hL c (a c hc)⟩

/-- `Grows.mono` with the larger list given first. -/
theorem Grows.widen {L : List Opcode} {p q : Parse} (L' : List Opcode) (h : Grows L p q)
    (hL : ∀ c ∈ L, c ∈ L') : Grows L' p q := h.mono hL

/-- A step that leaves the opcodes alone and does not lower the register counter. -/
theorem Grows.same {L : List Opcode} {p q : Parse} (hm : p.nMem ≤ q.nMem)
    (ho : q.ops = p.ops) : Grows L p q :=
  ⟨hm, [], by simp [ho], by simp⟩

/-- A step that appends the opcodes `cs`. -/
theorem Grows.emit {L : List Opcode} {p q : Parse} (cs : List Opcode) (hm : p.nMem ≤ q.nMem)
    (ho : q.ops = p.ops ++ cs) (hc : ∀ c ∈ cs, c ∈ L) : Grows L p q :=
  ⟨hm, cs, ho, hc⟩

theorem Grows.ite {L : List Opcode} {p a b : Parse} {c : Prop} [Decidable c]
    (ha : c → Grows L p a) (hb : ¬ c → Grows L p b) : Grows L p (if c then a else b) := by
  split
  · exact ha ‹_›
  · exact hb ‹_›

theorem Grows.foldl {α : Type} {L : List Opcode} (f : Parse → α → Parse)
    (hf : ∀ q i, Grows L q (f q i)) (l : List α) (p : Parse) : Grows L p (l.foldl f p) := by
  induction l generalizing p with
  | nil => exact Grows.refl _ _
  | cons a l ih => exact (hf p a).trans (ih _)

@[simp] theorem ops_sqlite3VdbeAddOp (p : Parse) (op : VdbeOp) :
    (sqlite3VdbeAddOp p op).ops = p.ops ++ [op.opcode] := by
  simp [Parse.ops, sqlite3VdbeAddOp]

@[simp] theorem nMem_sqlite3VdbeAddOp (p : Parse) (op : VdbeOp) :
    (sqlite3VdbeAddOp p op).nMem = p.nMem := rfl

@[simp] theorem ops_sqlite3VdbeJumpHere (p : Parse) (addr : Nat) :
    (sqlite3VdbeJumpHere p addr).ops = p.ops := by
  simp [Parse.ops, sqlite3VdbeJumpHere, map_opcode_changeOpAt]

@[simp] theorem nMem_sqlite3VdbeJumpHere (p : Parse) (addr : Nat) :
    (sqlite3VdbeJumpHere p addr).nMem = p.nMem := rfl

@[simp] theorem ops_sqlite3VdbeChangeP3 (p : Parse) (v : Int) :
    (sqlite3VdbeChangeP3 p v).ops = p.ops := by
  simp [Parse.ops, sqlite3VdbeChangeP3, map_opcode_changeLastOp]

@[simp] theorem nMem_sqlite3VdbeChangeP3 (p : Parse) (v : Int) :
    (sqlite3VdbeChangeP3 p v).nMem = p.nMem := rfl

@[simp] theorem ops_sqlite3VdbeChangeP4 (p : Parse) (v : P4) :
    (sqlite3VdbeChangeP4 p v).ops = p.ops := by
  simp [Parse.ops, sqlite3VdbeChangeP4, map_opcode_changeLastOp]

@[simp] theorem nMem_sqlite3VdbeChangeP4 (p : Parse) (v : P4) :
    (sqlite3VdbeChangeP4 p v).nMem = p.nMem := rfl

@[simp] theorem ops_sqlite3VdbeChangeP5 (p : Parse) (v : FlagWord) :
    (sqlite3VdbeChangeP5 p v).ops = p.ops := by
  simp [Parse.ops, sqlite3VdbeChangeP5, map_opcode_changeLastOp]

@[simp] theorem nMem_sqlite3VdbeChangeP5 (p : Parse) (v : FlagWord) :
    (sqlite3VdbeChangeP5 p v).nMem = p.nMem := rfl

@[simp] theorem ops_sqlite3VdbeResolveLabel (p : Parse) (x : Int) :
    (sqlite3VdbeResolveLabel p x).ops = p.ops := rfl

@[simp] theorem nMem_sqlite3VdbeResolveLabel (p : Parse) (x : Int) :
    (sqlite3VdbeResolveLabel p x).nMem = p.nMem := rfl

@[simp] theorem ops_sqlite3VdbeMakeLabel (p : Parse) : (sqlite3VdbeMakeLabel p).2.ops = p.ops :=
  rfl

@[simp] theorem nMem_sqlite3VdbeMakeLabel (p : Parse) :
    (sqlite3VdbeMakeLabel p).2.nMem = p.nMem := rfl

theorem ops_sqlite3GetVdbe (p : Parse) :
    (sqlite3GetVdbe p).ops = p.ops ++ (if p.pVdbe = true then [] else [OP_Init]) := by
  unfold sqlite3GetVdbe Parse.ops
  split <;> simp_all

theorem Grows.getVdbe {L : List Opcode} (p : Parse) (hL : OP_Init ∈ L) :
    Grows L p (sqlite3GetVdbe p) := by
  refine ⟨by rw [sqlite3GetVdbe_nMem], _, ops_sqlite3GetVdbe p, ?_⟩
  intro c hc
  split at hc <;> simp at hc
  subst hc
  exact hL

end GrowsLemmas

section OpcodeLemmas

@[simp] theorem ops_sqlite3VdbeAddOp0 (p : Parse) (op : Opcode) :
    (sqlite3VdbeAddOp0 p op).ops = p.ops ++ [op] := by simp [sqlite3VdbeAddOp0]

@[simp] theorem ops_sqlite3VdbeAddOp1 (p : Parse) (op : Opcode) (p1 : Int) :
    (sqlite3VdbeAddOp1 p op p1).ops = p.ops ++ [op] := by simp [sqlite3VdbeAddOp1]

@[simp] theorem ops_sqlite3VdbeAddOp2 (p : Parse) (op : Opcode) (p1 p2 : Int) :
    (sqlite3VdbeAddOp2 p op p1 p2).ops = p.ops ++ [op] := by simp [sqlite3VdbeAddOp2]

@[simp] theorem ops_sqlite3VdbeAddOp3 (p : Parse) (op : Opcode) (p1 p2 p3 : Int) :
    (sqlite3VdbeAddOp3 p op p1 p2 p3).ops = p.ops ++ [op] := by simp [sqlite3VdbeAddOp3]

@[simp] theorem ops_sqlite3VdbeAddOp4 (p : Parse) (op : Opcode) (p1 p2 p3 : Int) (p4 : P4) :
    (sqlite3VdbeAddOp4 p op p1 p2 p3 p4).ops = p.ops ++ [op] := by simp [sqlite3VdbeAddOp4]

@[simp] theorem ops_sqlite3VdbeGoto (p : Parse) (iDest : Int) :
    (sqlite3VdbeGoto p iDest).ops = p.ops ++ [OP_Goto] := by simp [sqlite3VdbeGoto]

@[simp] theorem nMem_sqlite3VdbeAddOp0 (p : Parse) (op : Opcode) :
    (sqlite3VdbeAddOp0 p op).nMem = p.nMem := rfl

@[simp] theorem nMem_sqlite3VdbeAddOp1 (p : Parse) (op : Opcode) (p1 : Int) :
    (sqlite3VdbeAddOp1 p op p1).nMem = p.nMem := rfl

@[simp] theorem nMem_sqlite3VdbeAddOp2 (p : Parse) (op : Opcode) (p1 p2 : Int) :
    (sqlite3VdbeAddOp2 p op p1 p2).nMem = p.nMem := rfl

@[simp] theorem nMem_sqlite3VdbeAddOp3 (p : Parse) (op : Opcode) (p1 p2 p3 : Int) :
    (sqlite3VdbeAddOp3 p op p1 p2 p3).nMem = p.nMem := rfl

@[simp] theorem nMem_sqlite3VdbeAddOp4 (p : Parse) (op : Opcode) (p1 p2 p3 : Int) (p4 : P4) :
    (sqlite3VdbeAddOp4 p op p1 p2 p3 p4).nMem = p.nMem := rfl

@[simp] theorem nMem_sqlite3VdbeGoto (p : Parse) (iDest : Int) :
    (sqlite3VdbeGoto p iDest).nMem = p.nMem := rfl

@[simp] theorem ops_sqlite3VdbeSetP4KeyInfo (p : Parse) (pIdx : Index) :
    (sqlite3VdbeSetP4KeyInfo p pIdx).ops = p.ops := by simp [sqlite3VdbeSetP4KeyInfo]

@[simp] theorem nMem_sqlite3VdbeSetP4KeyInfo (p : Parse) (pIdx : Index) :
    (sqlite3VdbeSetP4KeyInfo p pIdx).nMem = p.nMem := rfl

@[simp] theorem ops_sqlite3MayAbort (p : Parse) : (sqlite3MayAbort p).ops = p.ops := rfl

@[simp] theorem nMem_sqlite3MayAbort (p : Parse) : (sqlite3MayAbort p).nMem = p.nMem := rfl

@[simp] theorem ops_sqlite3MultiWrite (p : Parse) : (sqlite3MultiWrite p).ops = p.ops := rfl

@[simp] theorem nMem_sqlite3MultiWrite (p : Parse) : (sqlite3MultiWrite p).nMem = p.nMem := rfl

@[simp] theorem ops_allocMem (p : Parse) (n : Nat) : (p.allocMem n).ops = p.ops := rfl

@[simp] theorem nMem_allocMem (p : Parse) (n : Nat) : (p.allocMem n).nMem = p.nMem + n := rfl

@[simp] theorem ops_setNTab (p : Parse) (n : Nat) : (p.setNTab n).ops = p.ops := rfl

@[simp] theorem nMem_setNTab (p : Parse) (n : Nat) : (p.setNTab n).nMem = p.nMem := rfl

@[simp] theorem ops_setCkBase (p : Parse) (x : Int) : (p.setCkBase x).ops = p.ops := rfl

@[simp] theorem nMem_setCkBase (p : Parse) (x : Int) : (p.setCkBase x).nMem = p.nMem := rfl

/-- A record update that leaves the program alone leaves its opcodes alone. -/
@[simp] theorem ops_mk_aOp (p : Parse) (db : sqlite3) (us : Session) (nErr : Nat)
    (zErrMsg : Option String) (checkSchema : Bool) (nMem nTab nested : Nat)
    (pTriggerTab pWith : Bool) (ckBase : Int) (mayAbort isMultiWrite pVdbe : Bool)
    (aLabel : List Int) (changeCntOn : Bool) (aColName : List String) :
    (Parse.mk db us nErr zErrMsg checkSchema nMem nTab nested pTriggerTab pWith ckBase mayAbort
      isMultiWrite pVdbe p.aOp aLabel changeCntOn aColName).ops = p.ops := rfl

/-- Closed form of `Grows` once the opcodes of the new context are known. -/
theorem grows_iff_of_ops {L : List Opcode} {p q : Parse} (cs : List Opcode)
    (ho : q.ops = p.ops ++ cs) : Grows L p q ↔ p.nMem ≤ q.nMem ∧ ∀ c ∈ cs, c ∈ L := by
  constructor
  · rintro ⟨hm, cs', e, a⟩
    rw [ho] at e
    have := List.append_cancel_left e
    subst this
    exact ⟨hm, a⟩
  · rintro ⟨hm, a⟩
    exact ⟨hm, cs, ho, a⟩

theorem sqlite3TableAffinity_grows (p : Parse) (pTab : Table) (iReg : Int) :
    Grows [OP_Affinity] p (sqlite3TableAffinity p pTab iReg).2 := by
  unfold sqlite3TableAffinity
  simp only []
  split_ifs <;> simp [Grows]

theorem sqlite3HaltConstraint_grows (p : Parse) (errCode : Int) (onError : on_conflict_action)
    (p4 : String) (p5 : OpFlag) :
    Grows [OP_Halt] p (sqlite3HaltConstraint p errCode onError p4 p5) := by
  unfold sqlite3HaltConstraint
  simp only []
  split_ifs <;> simp [Grows]

theorem sqlite3UniqueConstraint_grows (p : Parse) (onError : on_conflict_action) (pIdx : Index) :
    Grows [OP_Halt] p (sqlite3UniqueConstraint p onError pIdx) :=
  sqlite3HaltConstraint_grows _ _ _ _ _

theorem sqlite3GenerateConstraintChecks_notNull_grows (p : Parse) (pTab : Table)
    (regNewData : Int) (overrideError : on_conflict_action) (ignoreDest : Int)
    (aiChng : Option (List Int)) (i : Nat) :
    Grows [OP_HaltIfNull, OP_IsNull, OP_NotNull, CALL_sqlite3ExprCode] p
      (sqlite3GenerateConstraintChecks_notNull p pTab regNewData overrideError ignoreDest
        aiChng i) := by
  unfold sqlite3GenerateConstraintChecks_notNull
  simp only []
  split_ifs
  all_goals first
    | exact Grows.refl _ _
    | (split <;> simp [Grows])


theorem sqlite3GenerateConstraintChecks_check_grows (pTab : Table) (ignoreDest : Int)
    (aiChng : Option (List Int)) (l : List ExprList_item) (onError : on_conflict_action)
    (p : Parse) :
    Grows [CALL_sqlite3ExprIfTrue, OP_Goto, OP_Halt] p
      (sqlite3GenerateConstraintChecks_check pTab ignoreDest aiChng l onError p) := by
  induction l generalizing onError p with
  | nil => exact Grows.refl _ _
  | cons item rest ih =>
    unfold sqlite3GenerateConstraintChecks_check
    simp only []
    split_ifs
    · exact ih _ _
    · exact Grows.trans (by simp [Grows]) (ih _ _)
    all_goals
      refine Grows.trans ?_ (ih _ _)
      refine Grows.trans ?_ (Grows.same (Nat.le_refl _) (ops_sqlite3VdbeResolveLabel _ _))
      refine Grows.trans ?_ ((sqlite3HaltConstraint_grows _ _ _ _ _).mono (by decide))
      simp [Grows]

theorem sqlite3GenerateConstraintChecks_entry_grows (pTab : Table) (pIdx : Index)
    (regNewData regIdx : Int) (l : List Int) (i : Nat) (p : Parse) :
    Grows [CALL_sqlite3ExprCodeCopy, OP_SCopy] p
      (sqlite3GenerateConstraintChecks_entry pTab pIdx regNewData regIdx l i p) := by
  induction l generalizing i p with
  | nil => exact Grows.refl _ _
  | cons x rest ih =>
    unfold sqlite3GenerateConstraintChecks_entry
    simp only []
    refine Grows.trans ?_ (ih _ _)
    split_ifs <;> simp [Grows]

theorem sqlite3GenerateConstraintChecks_pkCols_grows (pIdx : Index) (iThisCur regR : Int)
    (l : List Int) (i : Nat) (p : Parse) :
    Grows [OP_Column] p (sqlite3GenerateConstraintChecks_pkCols pIdx iThisCur regR l i p) := by
  induction l generalizing i p with
  | nil => exact Grows.refl _ _
  | cons x rest ih =>
    unfold sqlite3GenerateConstraintChecks_pkCols
    simp only []
    refine Grows.trans ?_ (ih _ _)
    simp [Grows]

theorem sqlite3GenerateConstraintChecks_cmp_grows (pPk : Index) (regOldData regCmp : Int)
    (addrJump addrUniqueOk : Int) (nKeyCol : Nat) (l : List Int) (i : Nat) (p : Parse) :
    Grows [OP_Eq, OP_Ne] p
      (sqlite3GenerateConstraintChecks_cmp pPk regOldData regCmp addrJump addrUniqueOk nKeyCol
        l i p) := by
  induction l generalizing i p with
  | nil => exact Grows.refl _ _
  | cons x rest ih =>
    unfold sqlite3GenerateConstraintChecks_cmp
    simp only []
    refine Grows.trans ?_ (ih _ _)
    by_cases h : i = nKeyCol - 1 <;> simp [Grows, h]

end OpcodeLemmas

section GrowsRules

variable {L : List Opcode} {p q : Parse}

theorem Grows.if_then_else {a b : Parse} {c : Prop} [Decidable c]
    (ha : Grows L p a) (hb : Grows L p b) : Grows L p (if c then a else b) := by
  split
  · exact ha
  · exact hb

theorem Grows.addOp (op : VdbeOp) (hm : op.opcode ∈ L) (h : Grows L p q) :
    Grows L p (sqlite3VdbeAddOp q op) :=
  h.trans (Grows.emit [op.opcode] (Nat.le_refl _) (by simp) (by simpa using hm))

theorem Grows.addOp0 (op : Opcode) (hm : op ∈ L) (h : Grows L p q) :
    Grows L p (sqlite3VdbeAddOp0 q op) := Grows.addOp _ hm h

theorem Grows.addOp1 (op : Opcode) (p1 : Int) (hm : op ∈ L) (h : Grows L p q) :
    Grows L p (sqlite3VdbeAddOp1 q op p1) := Grows.addOp _ hm h

theorem Grows.addOp2 (op : Opcode) (p1 p2 : Int) (hm : op ∈ L) (h : Grows L p q) :
    Grows L p (sqlite3VdbeAddOp2 q op p1 p2) := Grows.addOp _ hm h

theorem Grows.addOp3 (op : Opcode) (p1 p2 p3 : Int) (hm : op ∈ L) (h : Grows L p q) :
    Grows L p (sqlite3VdbeAddOp3 q op p1 p2 p3) := Grows.addOp _ hm h

theorem Grows.addOp4 (op : Opcode) (p1 p2 p3 : Int) (p4 : P4) (hm : op ∈ L) (h : Grows L p q) :
    Grows L p (sqlite3VdbeAddOp4 q op p1 p2 p3 p4) := Grows.addOp _ hm h

theorem Grows.goto (iDest : Int) (hm : OP_Goto ∈ L) (h : Grows L p q) :
    Grows L p (sqlite3VdbeGoto q iDest) := Grows.addOp _ hm h

theorem Grows.jumpHere (addr : Nat) (h : Grows L p q) : Grows L p (sqlite3VdbeJumpHere q addr) :=
  h.trans (Grows.same (Nat.le_refl _) (by simp))

theorem Grows.changeP3 (v : Int) (h : Grows L p q) : Grows L p (sqlite3VdbeChangeP3 q v) :=
  h.trans (Grows.same (Nat.le_refl _) (by simp))

theorem Grows.changeP4 (v : P4) (h : Grows L p q) : Grows L p (sqlite3VdbeChangeP4 q v) :=
  h.trans (Grows.same (Nat.le_refl _) (by simp))

theorem Grows.changeP5 (v : FlagWord) (h : Grows L p q) : Grows L p (sqlite3VdbeChangeP5 q v) :=
  h.trans (Grows.same (Nat.le_refl _) (by simp))

theorem Grows.setP4KeyInfo (pIdx : Index) (h : Grows L p q) :
    Grows L p (sqlite3VdbeSetP4KeyInfo q pIdx) :=
  h.trans (Grows.same (Nat.le_refl _) (by simp))

theorem Grows.resolveLabel (x : Int) (h : Grows L p q) :
    Grows L p (sqlite3VdbeResolveLabel q x) :=
  h.trans (Grows.same (Nat.le_refl _) rfl)

theorem Grows.makeLabel (h : Grows L p q) : Grows L p (sqlite3VdbeMakeLabel q).2 :=
  h.trans (Grows.same (Nat.le_refl _) rfl)

theorem Grows.mayAbort (h : Grows L p q) : Grows L p (sqlite3MayAbort q) :=
  h.trans (Grows.same (Nat.le_refl _) rfl)

theorem Grows.multiWrite (h : Grows L p q) : Grows L p (sqlite3MultiWrite q) :=
  h.trans (Grows.same (Nat.le_refl _) rfl)

theorem Grows.setCkBase (x : Int) (h : Grows L p q) : Grows L p (q.setCkBase x) :=
  h.trans (Grows.same (Nat.le_refl _) rfl)

theorem Grows.allocMem (n : Nat) (h : Grows L p q) : Grows L p (q.allocMem n) :=
  h.trans (Grows.same (Nat.le_add_right _ _) rfl)

theorem Grows.setNTab (n : Nat) (h : Grows L p q) : Grows L p (q.setNTab n) :=
  h.trans (Grows.same (Nat.le_refl _) rfl)

theorem Grows.getTempReg (h : Grows L p q) : Grows L p (sqlite3GetTempReg q).2 :=
  h.trans (Grows.same (Nat.le_add_right _ _) rfl)

theorem Grows.getTempRange (n : Nat) (h : Grows L p q) : Grows L p (sqlite3GetTempRange q n).2 :=
  h.trans (Grows.same (Nat.le_add_right _ _) rfl)

theorem Grows.releaseTempReg (r : Int) (h : Grows L p q) :
    Grows L p (sqlite3ReleaseTempReg q r) := h

theorem Grows.releaseTempRange (r : Int) (n : Nat) (h : Grows L p q) :
    Grows L p (sqlite3ReleaseTempRange q r n) := h

theorem Grows.vdbe (hm : OP_Init ∈ L) (h : Grows L p q) : Grows L p (sqlite3GetVdbe q) :=
  h.trans (Grows.getVdbe q hm)

theorem Grows.tableAffinity (pTab : Table) (iReg : Int) (hm : OP_Affinity ∈ L)
    (h : Grows L p q) : Grows L p (sqlite3TableAffinity q pTab iReg).2 :=
  h.trans ((sqlite3TableAffinity_grows q pTab iReg).mono (by simpa using hm))

theorem Grows.haltConstraint (errCode : Int) (onError : on_conflict_action) (p4 : String)
    (p5 : OpFlag) (hm : OP_Halt ∈ L) (h : Grows L p q) :
    Grows L p (sqlite3HaltConstraint q errCode onError p4 p5) :=
  h.trans ((sqlite3HaltConstraint_grows q errCode onError p4 p5).mono (by simpa using hm))

theorem Grows.uniqueConstraint (onError : on_conflict_action) (pIdx : Index) (hm : OP_Halt ∈ L)
    (h : Grows L p q) : Grows L p (sqlite3UniqueConstraint q onError pIdx) :=
  Grows.haltConstraint _ _ _ _ hm h

theorem Grows.entry (pTab : Table) (pIdx : Index) (regNewData regIdx : Int) (l : List Int)
    (i : Nat) (hm : ∀ c ∈ [CALL_sqlite3ExprCodeCopy, OP_SCopy], c ∈ L) (h : Grows L p q) :
    Grows L p (sqlite3GenerateConstraintChecks_entry pTab pIdx regNewData regIdx l i q) :=
  h.trans ((sqlite3GenerateConstraintChecks_entry_grows _ _ _ _ _ _ _).mono hm)

theorem Grows.pkCols (pIdx : Index) (iThisCur regR : Int) (l : List Int) (i : Nat)
    (hm : OP_Column ∈ L) (h : Grows L p q) :
    Grows L p (sqlite3GenerateConstraintChecks_pkCols pIdx iThisCur regR l i q) :=
  h.trans ((sqlite3GenerateConstraintChecks_pkCols_grows _ _ _ _ _ _).mono (by simpa using hm))

theorem Grows.cmp (pPk : Index) (regOldData regCmp : Int) (addrJump addrUniqueOk : Int)
    (nKeyCol : Nat) (l : List Int) (i : Nat) (hm : ∀ c ∈ [OP_Eq, OP_Ne], c ∈ L)
    (h : Grows L p q) :
    Grows L p (sqlite3GenerateConstraintChecks_cmp pPk regOldData regCmp addrJump addrUniqueOk
      nKeyCol l i q) :=
  h.trans ((sqlite3GenerateConstraintChecks_cmp_grows _ _ _ _ _ _ _ _ _).mono hm)

end GrowsRules

section UniqueRecordFrame

/-- The index-record block of one UNIQUE iteration only appends opcodes of its short list
and never lowers the register counter. -/
theorem sqlite3GenerateConstraintChecks_record_grows (aRegIdx : List Int) (regNewData : Int)
    (overrideError : on_conflict_action) (pIdx : Index) (ix : Nat) (st : UniqueState) :
    Grows [OP_Affinity, OP_Null, CALL_sqlite3ExprIfFalseDup, CALL_sqlite3ExprCodeCopy, OP_SCopy,
        OP_IsNull, OP_MustBeInt, OP_MakeRecord] st.pParse
      (sqlite3GenerateConstraintChecks_record aRegIdx regNewData overrideError pIdx ix st).2.pParse := by
  unfold sqlite3GenerateConstraintChecks_record
  simp only []
  have h1 : Grows [OP_Affinity, OP_Null, CALL_sqlite3ExprIfFalseDup, CALL_sqlite3ExprCodeCopy,
      OP_SCopy, OP_IsNull, OP_MustBeInt, OP_MakeRecord] st.pParse
      (if st.bAffinityDone = false then
        ({ st with pParse := (sqlite3TableAffinity st.pParse st.pTab (regNewData + 1)).2,
                   pTab := (sqlite3TableAffinity st.pParse st.pTab (regNewData + 1)).1,
                   bAffinityDone := true } : UniqueState)
       else st).pParse := by
    split_ifs
    · exact (sqlite3TableAffinity_grows _ _ _).mono (by decide)
    · exact Grows.refl _ _
  generalize (if st.bAffinityDone = false then
        ({ st with pParse := (sqlite3TableAffinity st.pParse st.pTab (regNewData + 1)).2,
                   pTab := (sqlite3TableAffinity st.pParse st.pTab (regNewData + 1)).1,
                   bAffinityDone := true } : UniqueState)
       else st) = st1 at h1 ⊢
  repeat' with_reducible first
    | exact h1
    | apply Grows.if_then_else
    | apply Grows.addOp2
    | apply Grows.addOp3
    | apply Grows.addOp
    | apply Grows.resolveLabel
    | apply Grows.makeLabel
    | apply Grows.setCkBase
    | apply Grows.entry
  all_goals simp

end UniqueRecordFrame

section UniqueConflictFrame

theorem sqlite3GenerateConstraintChecks_probe_grows (iIdxCur regOldData : Int)
    (onError : on_conflict_action) (pPk : Index) (pkIx : Nat) (pIdx : Index) (ix : Nat)
    (U : UniqueLocals) (p : Parse) :
    Grows [OP_IsNull, OP_NoConflict, OP_Column, OP_Eq, OP_Ne] p
      (sqlite3GenerateConstraintChecks_probe iIdxCur regOldData onError pPk pkIx pIdx ix U p).2 := by
  unfold sqlite3GenerateConstraintChecks_probe
  by_cases hpk : ix = pkIx
  · simp only [hpk, if_true, ne_eq, not_true_eq_false, if_false]
    repeat' with_reducible first
      | exact Grows.refl _ _
      | apply Grows.if_then_else
      | apply Grows.addOp2
      | apply Grows.addOp4
      | apply Grows.pkCols
      | apply Grows.cmp
    all_goals simp
  · simp only [hpk, if_false, ne_eq, not_false_eq_true, if_true]
    repeat' with_reducible first
      | exact Grows.refl _ _
      | apply Grows.if_then_else
      | apply Grows.addOp2
      | apply Grows.addOp4
      | apply Grows.pkCols
      | apply Grows.cmp
      | apply Grows.getTempRange
    all_goals simp

theorem sqlite3GenerateConstraintChecks_resolve_grows (ext : Extern) (pTab : Table)
    (iDataCur iIdxCur : Int) (ignoreDest : Int) (onError : on_conflict_action) (pPk : Index)
    (pkIx : Nat) (pIdx : Index) (ix : Nat) (U : UniqueLocals) (regR : Int) (seenReplace : Int)
    (p : Parse) :
    Grows [OP_Halt, OP_Goto, CALL_sqlite3GenerateRowDelete] p
      (sqlite3GenerateConstraintChecks_resolve ext pTab iDataCur iIdxCur ignoreDest onError pPk
        pkIx pIdx ix U regR seenReplace p).1 := by
  unfold sqlite3GenerateConstraintChecks_resolve
  cases onError <;> simp only [] <;>
    (repeat' with_reducible first
      | exact Grows.refl _ _
      | apply Grows.if_then_else
      | apply Grows.releaseTempRange
      | apply Grows.resolveLabel
      | apply Grows.uniqueConstraint
      | apply Grows.goto
      | apply Grows.addOp
      | apply Grows.multiWrite) <;> simp

end UniqueConflictFrame

section ConstraintChecksFrame

theorem sqlite3GenerateConstraintChecks_unique_grows (ext : Extern) (aRegIdx : List Int)
    (iDataCur iIdxCur regNewData regOldData : Int) (pkChng : Bool)
    (overrideError : on_conflict_action) (ignoreDest : Int) (pPk : Index) (pkIx nIndex : Nat)
    (pIdx : Index) (ix : Nat) (st : UniqueState) :
    Grows sqlite3GenerateConstraintChecks_ops st.pParse
      (sqlite3GenerateConstraintChecks_unique ext aRegIdx iDataCur iIdxCur regNewData regOldData
        pkChng overrideError ignoreDest pPk pkIx nIndex pIdx ix st).pParse := by
  have hrec := Grows.widen sqlite3GenerateConstraintChecks_ops
    (sqlite3GenerateConstraintChecks_record_grows aRegIdx regNewData overrideError pIdx ix st)
    (by decide)
  unfold sqlite3GenerateConstraintChecks_unique
  simp only []
  generalize sqlite3GenerateConstraintChecks_record aRegIdx regNewData overrideError pIdx ix st
    = r at hrec ⊢
  split_ifs
  all_goals first
    | exact Grows.refl _ _
    | exact Grows.resolveLabel _ hrec
    | (simp only []
       refine Grows.trans ?_ ((sqlite3GenerateConstraintChecks_resolve_grows _ _ _ _ _ _ _ _ _ _
          _ _ _ _).mono (by decide))
       exact hrec.trans ((sqlite3GenerateConstraintChecks_probe_grows _ _ _ _ _ _ _ _ _).mono
        (by decide)))

theorem sqlite3GenerateConstraintChecks_uniqueLoop_grows (ext : Extern) (aRegIdx : List Int)
    (iDataCur iIdxCur regNewData regOldData : Int) (pkChng : Bool)
    (overrideError : on_conflict_action) (ignoreDest : Int) (pPk : Index) (pkIx nIndex : Nat)
    (l : List Index) (ix : Nat) (st : UniqueState) :
    Grows sqlite3GenerateConstraintChecks_ops st.pParse
      (sqlite3GenerateConstraintChecks_uniqueLoop ext aRegIdx iDataCur iIdxCur regNewData
        regOldData pkChng overrideError ignoreDest pPk pkIx nIndex l ix st).pParse := by
  induction l generalizing ix st with
  | nil => exact Grows.refl _ _
  | cons pIdx rest ih =>
    unfold sqlite3GenerateConstraintChecks_uniqueLoop
    exact (sqlite3GenerateConstraintChecks_unique_grows _ _ _ _ _ _ _ _ _ _ _ _ _ _ _).trans
      (ih _ _)

theorem sqlite3GenerateConstraintChecks_grows (ext : Extern) (p : Parse) (pTab : Table)
    (aRegIdx : List Int) (iDataCur iIdxCur regNewData regOldData : Int) (pkChng : Bool)
    (overrideError : on_conflict_action) (ignoreDest : Int) (aiChng : Option (List Int))
    (c : ConstraintResult)
    (h : sqlite3GenerateConstraintChecks ext p pTab aRegIdx iDataCur iIdxCur regNewData
      regOldData pkChng overrideError ignoreDest aiChng = some c) :
    Grows sqlite3GenerateConstraintChecks_ops p c.pParse := by
  unfold sqlite3GenerateConstraintChecks at h
  simp only [] at h
  split at h
  · cases h
  · simp only [Option.some.injEq] at h
    subst h
    simp only []
    refine Grows.trans ?_ (sqlite3GenerateConstraintChecks_uniqueLoop_grows _ _ _ _ _ _ _ _ _ _
      _ _ _ _ _)
    simp only []
    have h1 : Grows sqlite3GenerateConstraintChecks_ops p
        ((List.range pTab.nCol).foldl
          (fun pParse i => sqlite3GenerateConstraintChecks_notNull pParse pTab regNewData
            overrideError ignoreDest aiChng i) (sqlite3GetVdbe p)) :=
      (Grows.getVdbe p (by decide)).trans
        (Grows.foldl _ (fun q i => (sqlite3GenerateConstraintChecks_notNull_grows q pTab
          regNewData overrideError ignoreDest aiChng i).mono (by decide)) _ _)
    generalize ((List.range pTab.nCol).foldl
          (fun pParse i => sqlite3GenerateConstraintChecks_notNull pParse pTab regNewData
            overrideError ignoreDest aiChng i) (sqlite3GetVdbe p)) = q at h1 ⊢
    split_ifs
    all_goals first
      | exact h1
      | exact h1.trans (Grows.trans (Grows.setCkBase _ (Grows.refl _ _))
          ((sqlite3GenerateConstraintChecks_check_grows _ _ _ _ _ _).mono (by decide)))

end ConstraintChecksFrame

section OpenAndColumnFrames

theorem sqlite3OpenTableAndIndices_loop_grows (ext : Extern) (pTab : Table) (op : Opcode)
    (aToOpen : Option (List Bool)) (overrideError : on_conflict_action) (isUpdate : Bool)
    (space_ptr_reg : Int) (l : List Index) (i : Nat) (st : OpenCursors) :
    Grows [op] st.pParse
      (sqlite3OpenTableAndIndices_loop ext pTab op aToOpen overrideError isUpdate space_ptr_reg
        l i st).pParse := by
  induction l generalizing i st with
  | nil => exact Grows.refl _ _
  | cons pIdx rest ih =>
    unfold sqlite3OpenTableAndIndices_loop
    simp only []
    refine Grows.trans ?_ (ih _ _)
    split_ifs <;> simp [Grows]

theorem Grows.openLoop {L : List Opcode} {p : Parse} (ext : Extern) (pTab : Table)
    (op : Opcode) (aToOpen : Option (List Bool)) (overrideError : on_conflict_action)
    (isUpdate : Bool) (space_ptr_reg : Int) (l : List Index) (i : Nat) (st : OpenCursors)
    (hm : op ∈ L) (h : Grows L p st.pParse) :
    Grows L p (sqlite3OpenTableAndIndices_loop ext pTab op aToOpen overrideError isUpdate
      space_ptr_reg l i st).pParse :=
  h.trans ((sqlite3OpenTableAndIndices_loop_grows _ _ _ _ _ _ _ _ _ _).mono (by simpa using hm))

theorem sqlite3OpenTableAndIndices_grows (ext : Extern) (p : Parse) (pTab : Table) (op : Opcode)
    (p5 : FlagWord) (iBase : Int) (aToOpen : Option (List Bool))
    (overrideError : on_conflict_action) (isUpdate : Bool) :
    Grows [OP_Init, OP_Int64, op] p
      (sqlite3OpenTableAndIndices ext p pTab op p5 iBase aToOpen overrideError isUpdate).pParse := by
  unfold sqlite3OpenTableAndIndices
  simp only []
  split_ifs <;>
    (repeat' with_reducible first
      | exact Grows.refl _ _
      | apply Grows.setNTab
      | apply Grows.openLoop
      | apply Grows.addOp4
      | apply Grows.allocMem
      | apply Grows.vdbe) <;> simp

theorem sqlite3CompleteInsertion_grows (p : Parse) (pTab : Table) (iIdxCur : Int)
    (aRegIdx : List Int) (useSeekResult : Bool) (onError : on_conflict_action) (q : Parse)
    (h : sqlite3CompleteInsertion p pTab iIdxCur aRegIdx useSeekResult onError = some q) :
    Grows [OP_Init, OP_IdxReplace, OP_IdxInsert] p q := by
  unfold sqlite3CompleteInsertion at h
  simp only [] at h
  split at h
  · cases h
  · simp only [Option.some.injEq] at h
    subst h
    apply Grows.changeP5
    apply Grows.addOp4 _ _ _ _ _ (by split_ifs <;> simp)
    exact Grows.getVdbe p (by simp)

theorem sqlite3Insert_triggerColumn_grows (p : Parse) (pTab : Table) (pColumn : Option IdList)
    (pList : Option ExprList) (useTempTable : Bool) (srcTab regCols : Int) (i : Nat) :
    Grows [OP_Integer, CALL_sqlite3ExprCode, OP_Column, CALL_sqlite3ExprCodeAndCache] p
      (sqlite3Insert_triggerColumn p pTab pColumn pList useTempTable srcTab regCols i) := by
  unfold sqlite3Insert_triggerColumn
  simp only []
  split_ifs <;> simp [Grows]

theorem sqlite3Insert_column_grows (p : Parse) (pTab : Table) (pColumn : Option IdList)
    (pList : Option ExprList) (pSelect : Bool) (useTempTable : Bool)
    (srcTab regFromSelect regData regTupleid : Int) (nColumn : Nat) (i : Nat) :
    Grows [OP_Null, CALL_sqlite3ExprCodeFactorable, OP_Column, OP_FCopy, OP_SCopy,
        CALL_sqlite3ExprCode] p
      (sqlite3Insert_column p pTab pColumn pList pSelect useTempTable srcTab regFromSelect
        regData regTupleid nColumn i) := by
  unfold sqlite3Insert_column
  simp only []
  split_ifs <;> simp [Grows]

theorem sqlite3Insert_aRegIdx_grows (L : List Opcode) (l : List Index) (p : Parse)
    (a : List Int) : Grows L p (sqlite3Insert_aRegIdx l p a).2 := by
  induction l generalizing p a with
  | nil => exact Grows.refl _ _
  | cons pIdx rest ih =>
    unfold sqlite3Insert_aRegIdx
    exact Grows.trans (Grows.allocMem _ (Grows.refl _ _)) (ih _ _)

end OpenAndColumnFrames

section LoopSegmentFrames

theorem sqlite3Insert_open_grows (ext : Extern) (p : Parse) (pTab : Table)
    (onError : on_conflict_action) (L : InsertLocals) :
    Grows sqlite3Insert_loop_ops p (sqlite3Insert_open ext p pTab onError L).2 := by
  unfold sqlite3Insert_open
  simp only []
  have h2 := fun q => Grows.widen sqlite3Insert_loop_ops
    (sqlite3OpenTableAndIndices_grows ext q pTab OP_OpenWrite [] (-1) none onError false)
    (by decide)
  split_ifs
  all_goals simp only []
  all_goals first
    | exact Grows.refl _ _
    | exact Grows.addOp2 _ _ _ (by decide) (Grows.allocMem _ (Grows.refl _ _))
    | exact (h2 _).trans (sqlite3Insert_aRegIdx_grows _ _ _ _)
    | exact (Grows.addOp2 _ _ _ (by decide) (Grows.allocMem _ (Grows.refl _ _))).trans
        ((h2 _).trans (sqlite3Insert_aRegIdx_grows _ _ _ _))

theorem sqlite3Insert_top_grows (p : Parse) (L : InsertLocals) :
    Grows sqlite3Insert_loop_ops p (sqlite3Insert_top p L).2 := by
  unfold sqlite3Insert_top
  simp only []
  split_ifs <;> simp only [] <;>
    (repeat' with_reducible first
      | exact Grows.refl _ _
      | apply Grows.makeLabel
      | apply Grows.addOp1) <;> decide

theorem sqlite3Insert_before_grows (p : Parse) (pTab : Table) (onError : on_conflict_action)
    (L : InsertLocals) :
    Grows sqlite3Insert_loop_ops p (sqlite3Insert_before p pTab onError L).2 := by
  unfold sqlite3Insert_before
  simp only []
  have hcols : ∀ q regCols, Grows sqlite3Insert_loop_ops q
      ((List.range pTab.nCol).foldl
        (fun pParse i => sqlite3Insert_triggerColumn pParse pTab L.pColumn L.pList
          L.useTempTable L.srcTab regCols i) q) := fun q regCols =>
    Grows.foldl _ (fun q i => (sqlite3Insert_triggerColumn_grows q pTab L.pColumn L.pList
      L.useTempTable L.srcTab regCols i).mono (by decide)) _ _
  split_ifs
  all_goals simp only []
  all_goals first
    | exact Grows.refl _ _
    | (apply Grows.releaseTempRange
       apply Grows.addOp _ (by simp only []; decide)
       first
        | (apply Grows.tableAffinity _ _ (by decide)
           exact (Grows.getTempRange _ (Grows.refl _ _)).trans (hcols _ _))
        | exact (Grows.getTempRange _ (Grows.refl _ _)).trans (hcols _ _))

theorem sqlite3Insert_newRow_grows (p : Parse) (pTab : Table) (L : InsertLocals) :
    Grows sqlite3Insert_loop_ops p (sqlite3Insert_newRow p pTab L) := by
  unfold sqlite3Insert_newRow
  simp only []
  refine Grows.trans ?_ (Grows.foldl _ (fun q i => (sqlite3Insert_column_grows q pTab L.pColumn
    L.pList L.pSelect.isSome L.useTempTable L.srcTab L.regFromSelect L.regData L.regTupleid
    L.nColumn i).mono (by decide)) _ _)
  split_ifs <;>
    (repeat' with_reducible first
      | exact Grows.refl _ _
      | apply Grows.addOp2
      | apply Grows.addOp3) <;> decide

theorem sqlite3Insert_write_grows (ext : Extern) (p : Parse) (pTab : Table)
    (onError : on_conflict_action) (L : InsertLocals) (r : Table × Parse)
    (h : sqlite3Insert_write ext p pTab onError L = some r) :
    Grows sqlite3Insert_loop_ops p r.2 := by
  unfold sqlite3Insert_write at h
  split at h
  · cases h
  · rename_i c hc
    simp only [] at h
    split at h
    · cases h
    · rename_i q hq
      simp only [Option.some.injEq] at h
      subst h
      have h1 := Grows.widen sqlite3Insert_loop_ops
        (sqlite3GenerateConstraintChecks_grows _ _ _ _ _ _ _ _ _ _ _ _ _ hc) (by decide)
      have h2 := Grows.widen sqlite3Insert_loop_ops
        (sqlite3CompleteInsertion_grows _ _ _ _ _ _ _ hq) (by decide)
      exact (Grows.addOp _ (by simp only []; decide) h1).trans h2

theorem sqlite3Insert_bottom_grows (p : Parse) (pTab : Table) (onError : on_conflict_action)
    (L : InsertLocals) :
    Grows sqlite3Insert_loop_ops p (sqlite3Insert_bottom p pTab onError L) := by
  unfold sqlite3Insert_bottom
  simp only []
  repeat' with_reducible first
    | exact Grows.refl _ _
    | apply Grows.if_then_else
    | apply Grows.addOp1
    | apply Grows.addOp2
    | apply Grows.addOp
    | apply Grows.jumpHere
    | apply Grows.goto
    | apply Grows.resolveLabel
  all_goals first
    | decide
    | (simp only []; decide)

theorem sqlite3Insert_end_grows (p : Parse) (regRowCount : Int) :
    Grows sqlite3Insert_loop_ops p (sqlite3Insert_end p regRowCount) := by
  unfold sqlite3Insert_end
  split_ifs
  · exact Grows.trans (Grows.addOp2 _ _ _ (by decide) (Grows.refl _ _))
      (Grows.same (Nat.le_refl _) rfl)
  · exact Grows.refl _ _

end LoopSegmentFrames

section LoopFrame

theorem sqlite3Insert_open_settled (ext : Extern) (p : Parse) (pTab : Table)
    (onError : on_conflict_action) (L : InsertLocals) :
    (sqlite3Insert_open ext p pTab onError L).1.settled = L.settled := by
  unfold sqlite3Insert_open
  simp only []
  split_ifs <;> rfl

theorem sqlite3Insert_top_settled (p : Parse) (L : InsertLocals) :
    (sqlite3Insert_top p L).1.settled = L.settled := by
  unfold sqlite3Insert_top
  simp only []
  split_ifs <;> rfl

theorem sqlite3Insert_loop_spec (ext : Extern) (p : Parse) (pTab : Table)
    (onError : on_conflict_action) (L : InsertLocals) (r : InsertResult)
    (h : sqlite3Insert_loop ext p pTab onError L = some r) :
    Grows sqlite3Insert_loop_ops p r.pParse ∧ r.exit = InsertExit.insert_end
      ∧ r.L.settled = L.settled := by
  unfold sqlite3Insert_loop at h
  simp only [] at h
  have ho := sqlite3Insert_open_grows ext p pTab onError L
  have hos := sqlite3Insert_open_settled ext p pTab onError L
  generalize sqlite3Insert_open ext p pTab onError L = o at h ho hos
  have ht := sqlite3Insert_top_grows o.2 o.1
  have hts := sqlite3Insert_top_settled o.2 o.1
  generalize sqlite3Insert_top o.2 o.1 = t at h ht hts
  have hb := sqlite3Insert_before_grows t.2 pTab onError t.1
  generalize sqlite3Insert_before t.2 pTab onError t.1 = b at h hb
  have h3 := ho.trans (ht.trans hb)
  have hnr := sqlite3Insert_newRow_grows b.2 b.1 t.1
  split at h
  · cases h
  · rename_i pTab2 q hw
    simp only [Option.some.injEq] at h
    subst h
    refine ⟨?_, rfl, hts.trans hos⟩
    simp only []
    refine Grows.trans ?_ (sqlite3Insert_end_grows _ _)
    refine Grows.trans ?_ (sqlite3Insert_bottom_grows _ _ _ _)
    split at hw
    · exact h3.trans (hnr.trans (sqlite3Insert_write_grows _ _ _ _ _ _ hw))
    · simp only [Option.some.injEq, Prod.mk.injEq] at hw
      rw [← hw.2]
      exact h3

theorem sqlite3Insert_shape_spec (ext : Extern) (p : Parse) (pTab : Table)
    (onError : on_conflict_action) (L : InsertLocals) (r : InsertResult)
    (h : sqlite3Insert_shape ext p pTab onError L = some r)
    (hexit : r.exit = InsertExit.insert_end) :
    Grows sqlite3Insert_loop_ops p r.pParse ∧ r.L.settled = L.settled := by
  unfold sqlite3Insert_shape at h
  simp only [] at h
  split_ifs at h
  all_goals first
    | (simp only [Option.some.injEq] at h
       subst h
       simp [sqlite3Insert_cleanup] at hexit)
    | (obtain ⟨h1, -, h3⟩ := sqlite3Insert_loop_spec _ _ _ _ _ _ h
       exact ⟨h1, h3⟩)

theorem sqlite3Insert_stage_ops_eq (p : Parse) (regYield regFromSelect : Int) (nColumn : Nat) :
    (sqlite3Insert_stage p regYield regFromSelect nColumn).2.ops
        = p.ops ++ sqlite3Insert_stage_ops
      ∧ p.nMem ≤ (sqlite3Insert_stage p regYield regFromSelect nColumn).2.nMem
      ∧ (sqlite3Insert_stage p regYield regFromSelect nColumn).1 = p.nTab := by
  simp [sqlite3Insert_stage, sqlite3Insert_stage_ops, sqlite3GetTempReg, sqlite3GetTempRange,
    sqlite3ReleaseTempReg, sqlite3ReleaseTempRange]
  omega

end LoopFrame

section CoroutineFrame

/-- What the co-routine of the sub-select leaves when it has been compiled: the program is
the old one, `OP_InitCoroutine`, the code of the sub-select and `OP_EndCoroutine`. -/
theorem sqlite3Insert_coroutine_spec (ext : Extern) (p : Parse) (pTab : Table)
    (L : InsertLocals) (s : Select)
    (hok : (sqlite3Insert_coroutine ext p pTab L s).1 = true) :
    ∃ sel : List VdbeOp,
      (sqlite3Insert_coroutine ext p pTab L s).2.2.ops
        = p.ops ++ OP_InitCoroutine :: (sel.map (fun o => o.opcode) ++ [OP_EndCoroutine])
      ∧ p.nMem + 1 ≤ (sqlite3Insert_coroutine ext p pTab L s).2.2.nMem
      ∧ { (sqlite3Insert_coroutine ext p pTab L s).2.1 with
            regYield := 0, regFromSelect := 0, pSelect := none, nColumn := 0 }
          = { L with regYield := 0, regFromSelect := 0, pSelect := none, nColumn := 0 }
      ∧ (sqlite3Insert_coroutine ext p pTab L s).2.1.pSelect.isSome = true
      ∧ (sqlite3Insert_coroutine ext p pTab L s).2.1.regYield = ((p.nMem + 1 : Nat) : Int) := by
  unfold sqlite3Insert_coroutine at hok ⊢
  simp only [sqlite3Select] at hok ⊢
  generalize (if L.bIdListInOrder = true then L.regData else 0) = d at hok ⊢
  split_ifs at hok ⊢
  · refine ⟨(ext.sqlite3Select (sqlite3VdbeAddOp3 (p.allocMem 1) OP_InitCoroutine
        ((p.nMem + 1 : Nat) : Int) 0 ((sqlite3VdbeCurrentAddr (p.allocMem 1) + 1 : Nat) : Int)) s
        { iSDParm := ((p.nMem + 1 : Nat) : Int), iSdst := d, nSdst := pTab.nCol }).aOp,
      ?_, ?_, rfl, rfl, rfl⟩
    · simp [sqlite3VdbeEndCoroutine, Parse.ops, sqlite3VdbeJumpHere, map_opcode_changeOpAt,
        sqlite3VdbeAddOp1, sqlite3VdbeAddOp, sqlite3VdbeAddOp3, Parse.allocMem]
    · simp [sqlite3VdbeEndCoroutine, sqlite3VdbeJumpHere, sqlite3VdbeAddOp1, sqlite3VdbeAddOp,
        sqlite3VdbeAddOp3, Parse.allocMem]

end CoroutineFrame

section SourceFrame

theorem Grows.nMem_le {L : List Opcode} {p q : Parse} (h : Grows L p q) : p.nMem ≤ q.nMem := h.1

/-- The choice between the 3rd and the 4th template (insert.c:517-568), for a statement
that `sqlite3Insert_source` compiles to the end. -/
theorem sqlite3Insert_source_select (ext : Extern) (p : Parse) (pTab : Table)
    (onError : on_conflict_action) (L : InsertLocals) (s : Select) (r : InsertResult)
    (hs : L.pSelect = some s) (h : sqlite3Insert_source ext p pTab onError L = some r)
    (hexit : r.exit = InsertExit.insert_end) :
    (sqlite3Insert_coroutine ext p pTab L s).1 = true
    ∧ r.L.useTempTable
        = decide (L.pTrigger ≠ []
            ∨ readsTable (sqlite3Insert_coroutine ext p pTab L s).2.2 pTab ≠ 0)
    ∧ (r.L.useTempTable = true →
        r.L.srcTab = (sqlite3Insert_coroutine ext p pTab L s).2.2.nTab
        ∧ ∃ rest, r.pParse.ops
            = (sqlite3Insert_coroutine ext p pTab L s).2.2.ops ++ sqlite3Insert_stage_ops ++ rest
          ∧ ∀ c ∈ rest, c ∈ sqlite3Insert_loop_ops)
    ∧ (r.L.useTempTable = false →
        Grows sqlite3Insert_loop_ops (sqlite3Insert_coroutine ext p pTab L s).2.2 r.pParse)
    ∧ (sqlite3Insert_coroutine ext p pTab L s).2.2.nMem ≤ r.pParse.nMem
    ∧ r.L.regIns = L.regIns ∧ r.L.regTupleid = L.regTupleid ∧ r.L.regData = L.regData := by
  unfold sqlite3Insert_source at h
  rw [hs] at h
  simp only [] at h
  have hc := sqlite3Insert_coroutine_spec ext p pTab L s
  generalize sqlite3Insert_coroutine ext p pTab L s = c at h hc ⊢
  obtain ⟨ok, Lc, q⟩ := c
  simp only [] at h hc ⊢
  cases ok with
  | false =>
    simp only [if_true, Option.some.injEq] at h
    subst h
    simp [sqlite3Insert_cleanup] at hexit
  | true =>
    obtain ⟨sel, -, -, hL, -, -⟩ := hc rfl
    have hT : Lc.pTrigger = L.pTrigger := by
      have := congrArg InsertLocals.pTrigger hL
      exact this
    have hI : Lc.regIns = L.regIns := by
      have := congrArg InsertLocals.regIns hL
      exact this
    have hU : Lc.regTupleid = L.regTupleid := by
      have := congrArg InsertLocals.regTupleid hL
      exact this
    have hD : Lc.regData = L.regData := by
      have := congrArg InsertLocals.regData hL
      exact this
    simp only [Bool.true_eq_false, if_false] at h
    by_cases hd : (Lc.pTrigger ≠ [] ∨ readsTable q pTab ≠ 0)
    · have hdt : decide (Lc.pTrigger ≠ [] ∨ readsTable q pTab ≠ 0) = true := by simpa using hd
      rw [hdt] at h
      simp only [if_true] at h
      obtain ⟨hg, hset⟩ := sqlite3Insert_shape_spec _ _ _ _ _ _ h hexit
      obtain ⟨hso, hsm, hst⟩ := sqlite3Insert_stage_ops_eq q Lc.regYield Lc.regFromSelect Lc.nColumn
      have huse : r.L.useTempTable = true := by
        have := congrArg InsertLocals.useTempTable hset
        exact this
      have hsrc : r.L.srcTab = (sqlite3Insert_stage q Lc.regYield Lc.regFromSelect Lc.nColumn).1 := by
        have := congrArg InsertLocals.srcTab hset
        exact this
      obtain ⟨hm, cs, hcs, hall⟩ := hg
      refine ⟨rfl, ?_, ?_, ?_, Nat.le_trans hsm hm, ?_, ?_, ?_⟩
      · rw [huse, ← hT]; exact hdt.symm
      · intro _
        refine ⟨by rw [hsrc, hst], cs, by rw [hcs, hso], hall⟩
      · intro hf; rw [huse] at hf; cases hf
      · have := congrArg InsertLocals.regIns hset
        exact Eq.trans this hI
      · have := congrArg InsertLocals.regTupleid hset
        exact Eq.trans this hU
      · have := congrArg InsertLocals.regData hset
        exact Eq.trans this hD
    · have hdf : decide (Lc.pTrigger ≠ [] ∨ readsTable q pTab ≠ 0) = false := by simpa using hd
      rw [hdf] at h
      simp only [Bool.false_eq_true, if_false] at h
      obtain ⟨hg, hset⟩ := sqlite3Insert_shape_spec _ _ _ _ _ _ h hexit
      have huse : r.L.useTempTable = false := by
        have := congrArg InsertLocals.useTempTable hset
        exact this
      refine ⟨rfl, ?_, ?_, fun _ => hg, hg.nMem_le, ?_, ?_, ?_⟩
      · rw [huse, ← hT]; exact hdf.symm
      · intro ht; rw [huse] at ht; cases ht
      · have := congrArg InsertLocals.regIns hset
        exact Eq.trans this hI
      · have := congrArg InsertLocals.regTupleid hset
        exact Eq.trans this hU
      · have := congrArg InsertLocals.regData hset
        exact Eq.trans this hD

end SourceFrame

section InsertEquation

/-- `sqlite3Insert` once the destination has been found and may be written. -/
theorem sqlite3Insert_eq (ext : Extern) (pParse : Parse) (pTabList : SrcList)
    (pSelect : Option Select) (pColumn : Option IdList) (onError : on_conflict_action)
    (pTab : Table) (p1 : Parse)
    (h0 : pParse.nErr = 0 ∧ pParse.db.mallocFailed = false)
    (hlook : sqlite3SrcListLookup pParse pTabList = (some pTab, p1))
    (hview : ext.sqlite3ViewGetColumnNames p1 pTab = none)
    (hro : ext.sqlite3IsReadOnly p1 pTab (ext.sqlite3TriggersExist pTab TK_INSERT).2 = none) :
    sqlite3Insert ext pParse pTabList pSelect pColumn onError
      = if pColumn.isNone = true then
          match xferOptimization
              (sqlite3Insert_begin p1 (sqlite3Insert_locals ext pTab pSelect pColumn)) pTab
              (sqlite3Insert_locals ext pTab pSelect pColumn).pSelect onError with
          | none => none
          | some (rc, x) =>
            if rc ≠ 0 then
              some { pParse := sqlite3Insert_end x 0, pTab := some pTab,
                     L := sqlite3Insert_locals ext pTab pSelect pColumn,
                     exit := InsertExit.xfer_end }
            else sqlite3Insert_general ext x pTab onError
              (sqlite3Insert_locals ext pTab pSelect pColumn)
        else sqlite3Insert_general ext
          (sqlite3Insert_begin p1 (sqlite3Insert_locals ext pTab pSelect pColumn)) pTab onError
          (sqlite3Insert_locals ext pTab pSelect pColumn) := by
  unfold sqlite3Insert
  have hn : ¬ (pParse.nErr ≠ 0 ∨ pParse.db.mallocFailed = true) := by
    rw [h0.1, h0.2]; simp
  simp only [hn, if_false, hlook, hview, hro]
  cases pSelect with
  | none => cases pColumn <;> rfl
  | some s =>
    by_cases hv : s.SF_Values = true ∧ s.pPrior = false
    · simp only [sqlite3Insert_locals, hv, and_self, if_true]
    · simp only [sqlite3Insert_locals, hv, if_false]

end InsertEquation

section GeneralPath

/-- A statement that `sqlite3Insert` compiles to `insert_end` along the general path went
through `sqlite3Insert_general`, in the context `xferOptimization` handed back (or, with a
column-name list, in the context of `sqlite3Insert_begin`). -/
theorem sqlite3Insert_reaches_general (ext : Extern) (pParse : Parse) (pTabList : SrcList)
    (pSelect : Option Select) (pColumn : Option IdList) (onError : on_conflict_action)
    (r : InsertResult)
    (h : sqlite3Insert ext pParse pTabList pSelect pColumn onError = some r)
    (hexit : r.exit = InsertExit.insert_end) :
    ∃ pTab p1 x, sqlite3SrcListLookup pParse pTabList = (some pTab, p1)
      ∧ sqlite3Insert_general ext x pTab onError
          (sqlite3Insert_locals ext pTab pSelect pColumn) = some r
      ∧ ((pColumn ≠ none
            ∧ x = sqlite3Insert_begin p1 (sqlite3Insert_locals ext pTab pSelect pColumn))
        ∨ (pColumn = none
            ∧ xferOptimization
                (sqlite3Insert_begin p1 (sqlite3Insert_locals ext pTab pSelect pColumn)) pTab
                (sqlite3Insert_locals ext pTab pSelect pColumn).pSelect onError
              = some (0, x))) := by
  by_cases h0 : pParse.nErr = 0 ∧ pParse.db.mallocFailed = false
  · cases hl : sqlite3SrcListLookup pParse pTabList with
    | mk t p1 =>
      cases t with
      | none =>
        unfold sqlite3Insert at h
        have hn : ¬ (pParse.nErr ≠ 0 ∨ pParse.db.mallocFailed = true) := by
          rw [h0.1, h0.2]; simp
        simp only [hn, if_false, hl, Option.some.injEq] at h
        subst h
        simp [sqlite3Insert_cleanup] at hexit
      | some pTab =>
        cases hv : ext.sqlite3ViewGetColumnNames p1 pTab with
        | some z =>
          unfold sqlite3Insert at h
          have hn : ¬ (pParse.nErr ≠ 0 ∨ pParse.db.mallocFailed = true) := by
            rw [h0.1, h0.2]; simp
          simp only [hn, if_false, hl, hv, Option.some.injEq] at h
          subst h
          simp [sqlite3Insert_cleanup] at hexit
        | none =>
          cases hr : ext.sqlite3IsReadOnly p1 pTab (ext.sqlite3TriggersExist pTab TK_INSERT).2 with
          | some z =>
            unfold sqlite3Insert at h
            have hn : ¬ (pParse.nErr ≠ 0 ∨ pParse.db.mallocFailed = true) := by
              rw [h0.1, h0.2]; simp
            simp only [hn, if_false, hl, hv, hr, Option.some.injEq] at h
            subst h
            simp [sqlite3Insert_cleanup] at hexit
          | none =>
            rw [sqlite3Insert_eq ext pParse pTabList pSelect pColumn onError pTab p1 h0 hl hv hr]
              at h
            refine ⟨pTab, p1, ?_⟩
            cases pColumn with
            | some cols =>
              simp only [Option.isNone_some, Bool.false_eq_true, if_false] at h
              exact ⟨_, rfl, h, Or.inl ⟨by simp, rfl⟩⟩
            | none =>
              simp only [Option.isNone_none, if_true] at h
              split at h
              · cases h
              · rename_i rc x hx
                split_ifs at h with hrc
                · simp only [Option.some.injEq] at h
                  subst h
                  cases hexit
                · have hrc0 : rc = 0 := by simpa using hrc
                  subst hrc0
                  exact ⟨x, rfl, h, Or.inr ⟨rfl, hx⟩⟩
  · unfold sqlite3Insert at h
    have hn : (pParse.nErr ≠ 0 ∨ pParse.db.mallocFailed = true) := by
      by_contra hc
      apply h0
      constructor
      · by_contra h1; exact hc (Or.inl h1)
      · cases hm : pParse.db.mallocFailed
        · rfl
        · exact absurd (Or.inr hm) hc
    simp only [hn, if_true, Option.some.injEq] at h
    subst h
    simp [sqlite3Insert_cleanup] at hexit

/-- The registers of the new row (insert.c:441-446) and the way from `sqlite3Insert_general`
to `sqlite3Insert_source`. -/
theorem sqlite3Insert_general_spec (ext : Extern) (p : Parse) (pTab : Table)
    (onError : on_conflict_action) (L : InsertLocals) (r : InsertResult)
    (h : sqlite3Insert_general ext p pTab onError L = some r)
    (hexit : r.exit = InsertExit.insert_end) :
    ∃ L1, sqlite3Insert_source ext (p.allocMem (pTab.nCol + 1)) pTab onError L1 = some r
      ∧ L1.regIns = ((p.nMem + 1 : Nat) : Int) ∧ L1.regTupleid = L1.regIns
      ∧ L1.regData = L1.regIns + 1
      ∧ L1.pSelect = L.pSelect ∧ L1.pTrigger = L.pTrigger ∧ L1.pList = L.pList := by
  unfold sqlite3Insert_general at h
  simp only [] at h
  split at h
  · split at h
    · simp only [Option.some.injEq] at h
      subst h
      simp [sqlite3Insert_cleanup] at hexit
    · exact ⟨_, h, rfl, rfl, rfl, rfl, rfl, rfl⟩
  · exact ⟨_, h, rfl, rfl, rfl, rfl, rfl, rfl⟩

end GeneralPath

section SourceRegisters

/-- The registers of the new row are final, and registers are only added, on the way from
`sqlite3Insert_source` to `insert_end`. -/
theorem sqlite3Insert_source_regs (ext : Extern) (p : Parse) (pTab : Table)
    (onError : on_conflict_action) (L : InsertLocals) (r : InsertResult)
    (h : sqlite3Insert_source ext p pTab onError L = some r)
    (hexit : r.exit = InsertExit.insert_end) :
    p.nMem ≤ r.pParse.nMem ∧ r.L.regIns = L.regIns ∧ r.L.regTupleid = L.regTupleid
      ∧ r.L.regData = L.regData := by
  cases hs : L.pSelect with
  | some s =>
    obtain ⟨hok, -, -, -, hm, h1, h2, h3⟩ :=
      sqlite3Insert_source_select ext p pTab onError L s r hs h hexit
    obtain ⟨sel, -, hm2, -⟩ := sqlite3Insert_coroutine_spec ext p pTab L s hok
    exact ⟨by omega, h1, h2, h3⟩
  | none =>
    unfold sqlite3Insert_source at h
    rw [hs] at h
    simp only [] at h
    split at h
    · split at h
      · simp only [Option.some.injEq] at h
        subst h
        simp [sqlite3Insert_cleanup] at hexit
      · obtain ⟨hg, hset⟩ := sqlite3Insert_shape_spec _ _ _ _ _ _ h hexit
        refine ⟨hg.nMem_le, ?_, ?_, ?_⟩
        · have := congrArg InsertLocals.regIns hset
          exact this
        · have := congrArg InsertLocals.regTupleid hset
          exact this
        · have := congrArg InsertLocals.regData hset
          exact this
    · obtain ⟨hg, hset⟩ := sqlite3Insert_shape_spec _ _ _ _ _ _ h hexit
      refine ⟨hg.nMem_le, ?_, ?_, ?_⟩
      · have := congrArg InsertLocals.regIns hset
        exact this
      · have := congrArg InsertLocals.regTupleid hset
        exact this
      · have := congrArg InsertLocals.regData hset
        exact this

end SourceRegisters

section TemplateChoice

theorem ops_take_of_append (l a b : List Opcode) (h : l = a ++ b) : l.take a.length = a := by
  subst h; simp

theorem ops_drop_of_append (l a b : List Opcode) (h : l = a ++ b) : l.drop a.length = b := by
  subst h; simp

theorem ops_get_of_append_cons (l a : List Opcode) (x : Opcode) (b : List Opcode)
    (h : l = a ++ x :: b) : l.get? a.length = some x := by
  subst h
  induction a with
  | nil => rfl
  | cons y a ih => simpa using ih

/-- C1: for every INSERT whose data source is a sub-select (not a single-row VALUES list
and not DEFAULT VALUES) and that `sqlite3Insert` compiles to `insert_end` along the general
path (it is not finished by the transfer path and no error stops it), the template is
chosen by `sqlite3Insert_source` with the insert triggers of the destination, and there the
staged template is chosen (`useTempTable`, and the first instruction after the co-routine of
the sub-select is `OP_OpenTEphemeral`) if and only if insert triggers exist or `readsTable`
reports a read of the destination in the program emitted so far, i.e. up to the end of the
co-routine; otherwise the streamed template is chosen and no `OP_OpenTEphemeral` is emitted
after the co-routine.  The program up to the end of the co-routine keeps its opcodes. -/
theorem sqlite3Insert_staged_iff (ext : Extern) (onError : on_conflict_action) :
    (∀ (pParse : Parse) (pTabList : SrcList) (s : Select) (pColumn : Option IdList)
        (r : InsertResult),
      ¬ (s.SF_Values = true ∧ s.pPrior = false) →
      sqlite3Insert ext pParse pTabList (some s) pColumn onError = some r →
      r.exit = InsertExit.insert_end →
      ∃ pTab pX L, (sqlite3SrcListLookup pParse pTabList).1 = some pTab
        ∧ L.pSelect = some s
        ∧ L.pTrigger = (ext.sqlite3TriggersExist pTab TK_INSERT).1
        ∧ sqlite3Insert_source ext pX pTab onError L = some r)
    ∧ (∀ (pX : Parse) (pTab : Table) (L : InsertLocals) (s : Select) (r : InsertResult),
      L.pSelect = some s →
      sqlite3Insert_source ext pX pTab onError L = some r →
      r.exit = InsertExit.insert_end →
        (r.L.useTempTable = true ↔
          (L.pTrigger ≠ []
            ∨ readsTable (sqlite3Insert_coroutine ext pX pTab L s).2.2 pTab ≠ 0))
        ∧ r.pParse.ops.take (sqlite3Insert_coroutine ext pX pTab L s).2.2.ops.length
            = (sqlite3Insert_coroutine ext pX pTab L s).2.2.ops
        ∧ (r.L.useTempTable = true →
            r.pParse.ops.get? (sqlite3Insert_coroutine ext pX pTab L s).2.2.ops.length
              = some OP_OpenTEphemeral)
        ∧ (r.L.useTempTable = false →
            ∀ c ∈ r.pParse.ops.drop (sqlite3Insert_coroutine ext pX pTab L s).2.2.ops.length,
              c ≠ OP_OpenTEphemeral)) := by
  constructor
  · intro pParse pTabList s pColumn r hv h hexit
    obtain ⟨pTab, p1, x, hl, hg, -⟩ :=
      sqlite3Insert_reaches_general ext pParse pTabList (some s) pColumn onError r h hexit
    obtain ⟨L1, hsrc, -, -, -, hsel, htr, -⟩ :=
      sqlite3Insert_general_spec ext x pTab onError _ r hg hexit
    refine ⟨pTab, _, L1, by rw [hl], ?_, ?_, hsrc⟩
    · rw [hsel]
      simp [sqlite3Insert_locals, hv]
    · rw [htr]
      simp [sqlite3Insert_locals]
  · intro pX pTab L s r hs h hexit
    obtain ⟨-, huse, hst, hstr, -⟩ := sqlite3Insert_source_select ext pX pTab onError L s r hs h hexit
    generalize (sqlite3Insert_coroutine ext pX pTab L s).2.2 = q at huse hst hstr ⊢
    cases hu : r.L.useTempTable with
    | true =>
      obtain ⟨-, rest, hops, -⟩ := hst hu
      rw [hu] at huse
      refine ⟨?_, ?_, ?_, ?_⟩
      · simpa using huse.symm
      · exact ops_take_of_append _ _ _ (by rw [hops, List.append_assoc])
      · intro _
        refine ops_get_of_append_cons _ _ _ (List.tail sqlite3Insert_stage_ops ++ rest) ?_
        rw [hops]
        simp [sqlite3Insert_stage_ops]
      · intro hf; cases hf
    | false =>
      obtain ⟨-, cs, hops, hall⟩ := hstr hu
      rw [hu] at huse
      refine ⟨?_, ops_take_of_append _ _ _ hops, ?_, ?_⟩
      · have := huse.symm
        simp only [decide_eq_false_iff_not] at this
        simp [this]
      · intro hf; cases hf
      · intro _ c hc
        rw [ops_drop_of_append _ _ _ hops] at hc
        intro hce
        subst hce
        exact absurd (hall _ hc) (by decide)

end TemplateChoice

section StagingOrder

/-- C2 (as amended): for every statement that `sqlite3Insert` compiles with the staged
template, the `OP_OpenTEphemeral` that opens the staging table is the first instruction
after the co-routine of the sub-select; the rest of the staging code and then the main loop
follow it, so every `OP_OpenWrite` emitted after the co-routine (the opening of the
destination by the general path) is at a higher address.  An `OP_OpenWrite` at a lower
address belongs to the program `sqlite3Insert_source` started from (which holds the guarded
transfer section when `xferOptimization` emitted one for the same statement) or to the code
of the sub-select. -/
theorem sqlite3Insert_staging_precedes_open (ext : Extern) (onError : on_conflict_action) :
    (∀ (pParse : Parse) (pTabList : SrcList) (s : Select) (pColumn : Option IdList)
        (r : InsertResult),
      ¬ (s.SF_Values = true ∧ s.pPrior = false) →
      sqlite3Insert ext pParse pTabList (some s) pColumn onError = some r →
      r.exit = InsertExit.insert_end →
      ∃ pTab p1 x L, sqlite3SrcListLookup pParse pTabList = (some pTab, p1)
        ∧ ((pColumn ≠ none
              ∧ x = sqlite3Insert_begin p1 (sqlite3Insert_locals ext pTab (some s) pColumn))
          ∨ (pColumn = none
              ∧ xferOptimization
                  (sqlite3Insert_begin p1 (sqlite3Insert_locals ext pTab (some s) pColumn)) pTab
                  (some s) onError = some (0, x)))
        ∧ L.pSelect = some s
        ∧ sqlite3Insert_source ext (x.allocMem (pTab.nCol + 1)) pTab onError L = some r)
    ∧ (∀ (pX : Parse) (pTab : Table) (L : InsertLocals) (s : Select) (r : InsertResult),
      L.pSelect = some s →
      sqlite3Insert_source ext pX pTab onError L = some r →
      r.exit = InsertExit.insert_end →
      r.L.useTempTable = true →
        (∃ sel : List VdbeOp,
          (sqlite3Insert_coroutine ext pX pTab L s).2.2.ops
            = pX.ops ++ OP_InitCoroutine :: (sel.map (fun o => o.opcode) ++ [OP_EndCoroutine]))
        ∧ (∃ rest, r.pParse.ops
              = (sqlite3Insert_coroutine ext pX pTab L s).2.2.ops ++ sqlite3Insert_stage_ops
                  ++ rest
            ∧ ∀ c ∈ rest, c ∈ sqlite3Insert_loop_ops)
        ∧ r.pParse.ops.get? (sqlite3Insert_coroutine ext pX pTab L s).2.2.ops.length
            = some OP_OpenTEphemeral
        ∧ ∀ a, r.pParse.ops.get? a = some OP_OpenWrite →
            (sqlite3Insert_coroutine ext pX pTab L s).2.2.ops.length ≤ a →
            (sqlite3Insert_coroutine ext pX pTab L s).2.2.ops.length
              + sqlite3Insert_stage_ops.length ≤ a) := by
  constructor
  · intro pParse pTabList s pColumn r hv h hexit
    obtain ⟨pTab, p1, x, hl, hg, hx⟩ :=
      sqlite3Insert_reaches_general ext pParse pTabList (some s) pColumn onError r h hexit
    obtain ⟨L1, hsrc, -, -, -, hsel, -, -⟩ :=
      sqlite3Insert_general_spec ext x pTab onError _ r hg hexit
    have hs0 : (sqlite3Insert_locals ext pTab (some s) pColumn).pSelect = some s := by
      simp [sqlite3Insert_locals, hv]
    rw [hs0] at hx
    exact ⟨pTab, p1, x, L1, hl, hx, hsel.trans hs0, hsrc⟩
  · intro pX pTab L s r hs h hexit hu
    obtain ⟨hok, -, hst, -, -⟩ := sqlite3Insert_source_select ext pX pTab onError L s r hs h hexit
    obtain ⟨sel, hsel, -⟩ := sqlite3Insert_coroutine_spec ext pX pTab L s hok
    obtain ⟨-, rest, hops, hall⟩ := hst hu
    generalize (sqlite3Insert_coroutine ext pX pTab L s).2.2 = q at hsel hops ⊢
    refine ⟨⟨sel, hsel⟩, ⟨rest, hops, hall⟩, ?_, ?_⟩
    · refine ops_get_of_append_cons _ _ _ (List.tail sqlite3Insert_stage_ops ++ rest) ?_
      rw [hops]
      simp [sqlite3Insert_stage_ops]
    · intro a ha hle
      by_contra hlt
      have hlt' : a - q.ops.length < sqlite3Insert_stage_ops.length := by omega
      rw [hops, List.append_assoc, List.get?_append_right hle,
        List.get?_append hlt'] at ha
      have hmem : OP_OpenWrite ∈ sqlite3Insert_stage_ops := List.get?_mem ha
      exact absurd hmem (by decide)

end StagingOrder

section TransferTemplate

theorem sqlite3Insert_begin_pVdbe (p : Parse) (L : InsertLocals) :
    (sqlite3Insert_begin p L).pVdbe = true := by
  unfold sqlite3Insert_begin sqlite3BeginWriteOperation
  simp only []
  split_ifs <;> exact sqlite3GetVdbe_pVdbe p

/-- C3 (as amended): for `INSERT INTO dest SELECT * FROM src` with no column-name list,
where every static compatibility rule of `xferOptimization` holds (in particular the
destination has no triggers and row counting is off), `sqlite3Insert` selects the Transfer
template alone only when no run-time emptiness guard is needed: then it returns through
`xfer_end` with a program that is the old one followed by `xferEmitCode`, all of whose
instructions are raw-copy instructions (no `OP_Affinity`, no value materialization, no
constraint check).  When the guard is needed, in particular whenever the destination has a
unique index, the guarded transfer code is emitted and `sqlite3Insert` goes on to compile
the general template after it. -/
theorem sqlite3Insert_transfer_template (ext : Extern) (pParse : Parse) (pTabList : SrcList)
    (s : Select) (onError : on_conflict_action) (pTab pSrc : Table) (p1 : Parse) (pk : Index)
    (h0 : pParse.nErr = 0 ∧ pParse.db.mallocFailed = false)
    (hlook : sqlite3SrcListLookup pParse pTabList = (some pTab, p1))
    (hview : ext.sqlite3ViewGetColumnNames p1 pTab = none)
    (hro : ext.sqlite3IsReadOnly p1 pTab (ext.sqlite3TriggersExist pTab TK_INSERT).2 = none)
    (hval : s.SF_Values = false)
    (hst : xferStaticOk (sqlite3Insert_begin p1 (sqlite3Insert_locals ext pTab (some s) none))
      pTab s pSrc)
    (hpk : sqlite3PrimaryKeyIndex pTab = some pk) :
    (¬ xferNeedsEmptyDest pTab (xferOptimization_onError pTab onError)
          (pTab.pIndex.any IsUniqueIndex) →
      sqlite3Insert ext pParse pTabList (some s) none onError
        = some { pParse := xferResult
                   (sqlite3Insert_begin p1 (sqlite3Insert_locals ext pTab (some s) none))
                   pTab pSrc pk false,
                 pTab := some pTab,
                 L := sqlite3Insert_locals ext pTab (some s) none,
                 exit := InsertExit.xfer_end }
      ∧ ∀ op ∈ xferEmitCode
            (sqlite3Insert_begin p1 (sqlite3Insert_locals ext pTab (some s) none))
            pTab pSrc pk false,
          op.opcode ∈ [OP_Int64, OP_OpenRead, OP_OpenWrite, OP_Rewind, OP_RowData,
            OP_IdxInsert, OP_Next, OP_Close])
    ∧ (xferNeedsEmptyDest pTab (xferOptimization_onError pTab onError)
          (pTab.pIndex.any IsUniqueIndex) →
      sqlite3Insert ext pParse pTabList (some s) none onError
        = sqlite3Insert_general ext
            (xferResult (sqlite3Insert_begin p1 (sqlite3Insert_locals ext pTab (some s) none))
              pTab pSrc pk true)
            pTab onError (sqlite3Insert_locals ext pTab (some s) none)) := by
  have hsel : (sqlite3Insert_locals ext pTab (some s) none).pSelect = some s := by
    simp [sqlite3Insert_locals, hval]
  have hall := hst.2.2.2.2.2.2.2.1
  have hcount := hst.2.2.2.2.2.2.2.2.2.2
  rw [sqlite3Insert_eq ext pParse pTabList (some s) none onError pTab p1 h0 hlook hview hro]
  simp only [Option.isNone_none, if_true]
  rw [hsel, xferOptimization_of_static _ _ _ _ _ hst,
    xferOptimization_emit_eq _ _ _ _ _ pk hpk hall,
    sqlite3GetVdbe_of_pVdbe _ (sqlite3Insert_begin_pVdbe _ _)]
  generalize sqlite3Insert_begin p1 (sqlite3Insert_locals ext pTab (some s) none) = X
    at hcount ⊢
  constructor
  · intro hg
    constructor
    · simp only [hg, if_false, decide_False, ne_eq, one_ne_zero, not_false_eq_true, if_true]
      simp [sqlite3Insert_end, xferResult, hcount]
    · intro op hop
      simp only [xferEmitCode, xferPreamble, xferPostamble, List.mem_append] at hop
      rcases hop with ((hop | hop) | hop) | hop
      · simp at hop
        rcases hop with rfl | rfl <;> simp
      · simp at hop
      · exact xferCopyCode_forall
          (fun op => op.opcode ∈ [OP_Int64, OP_OpenRead, OP_OpenWrite, OP_Rewind, OP_RowData,
            OP_IdxInsert, OP_Next, OP_Close]) _ _ _ _
          (by intro addr nMem d sIdx op hop
              simp only [xferBlock, List.mem_cons, List.mem_singleton, List.not_mem_nil,
                or_false] at hop
              rcases hop with rfl | rfl | rfl | rfl | rfl | rfl | rfl | rfl | rfl | rfl <;> simp)
          _ _ _ op hop
      · simp at hop
  · intro hg
    simp only [hg, if_true, decide_True, ne_eq, not_true_eq_false, if_false]
    rfl

end TransferTemplate

section NewRowRegisters

theorem sqlite3SrcListLookup_nMem (pParse : Parse) (pTabList : SrcList) (pTab : Table)
    (p1 : Parse) (h : sqlite3SrcListLookup pParse pTabList = (some pTab, p1)) :
    p1.nMem = pParse.nMem := by
  unfold sqlite3SrcListLookup at h
  split at h
  · cases h
  · unfold sqlite3LocateTableItem at h
    split at h
    · simp only [Prod.mk.injEq] at h
      rw [← h.2]
    · cases h

theorem sqlite3Insert_begin_nMem (p : Parse) (L : InsertLocals) :
    (sqlite3Insert_begin p L).nMem = p.nMem := by
  unfold sqlite3Insert_begin sqlite3BeginWriteOperation
  simp only []
  split_ifs <;> exact sqlite3GetVdbe_nMem p

theorem sqlite3Insert_column_code (p : Parse) (pTab : Table) (pColumn : Option IdList)
    (pList : Option ExprList) (pSelect : Bool) (useTempTable : Bool)
    (srcTab regFromSelect regData regTupleid : Int) (nColumn : Nat) (i : Nat) :
    (sqlite3Insert_column p pTab pColumn pList pSelect useTempTable srcTab regFromSelect
        regData regTupleid nColumn i).aOp
      = p.aOp ++ emittedSince p.aOp.length
          (sqlite3Insert_column p pTab pColumn pList pSelect useTempTable srcTab regFromSelect
            regData regTupleid nColumn i)
    ∧ (emittedSince p.aOp.length
          (sqlite3Insert_column p pTab pColumn pList pSelect useTempTable srcTab regFromSelect
            regData regTupleid nColumn i) = []
      ∨ (∃ op, emittedSince p.aOp.length
            (sqlite3Insert_column p pTab pColumn pList pSelect useTempTable srcTab
              regFromSelect regData regTupleid nColumn i) = [op]
          ∧ storeRegister op = regTupleid + 1 + i)
      ∨ (∃ ld cp, emittedSince p.aOp.length
            (sqlite3Insert_column p pTab pColumn pList pSelect useTempTable srcTab
              regFromSelect regData regTupleid nColumn i) = [ld, cp]
          ∧ ld.opcode = OP_Column ∧ ld.p3 = ((p.nMem + 1 : Nat) : Int)
          ∧ cp.opcode = OP_FCopy ∧ cp.p1 = ld.p3 ∧ cp.p2 = regTupleid + 1 + i)) := by
  unfold sqlite3Insert_column
  simp only []
  split_ifs
  all_goals
    simp [emittedSince, storeRegister, sqlite3VdbeAddOp2, sqlite3VdbeAddOp3, sqlite3VdbeAddOp4,
      sqlite3VdbeAddOp, sqlite3VdbeChangeP3, changeLastOp_append_singleton,
      changeLastOp_append_cons, changeLastOp, Parse.allocMem]
  exact ⟨_, _, ⟨rfl, rfl⟩, rfl, rfl, rfl, rfl, rfl⟩

/-- The register block of the new row in terms of the register counter of the model:
`regIns = nMem + 1` up to `nMem + nCol + 1`, where `nMem` is the counter when the general
path starts, `regTupleid = regIns` and `regData = regIns + 1`.  The code of the new row first
stores the row identifier in `regTupleid` (at most one instruction) and then handles the
columns `0 .. nCol-1` in table order, and the code for column `i` stores the value in
register `regTupleid + 1 + i` whatever the column-name list is. -/
theorem sqlite3Insert_row_block (ext : Extern) (onError : on_conflict_action) :
    (∀ (pParse : Parse) (pTabList : SrcList) (pSelect : Option Select)
        (pColumn : Option IdList) (r : InsertResult),
      sqlite3Insert ext pParse pTabList pSelect pColumn onError = some r →
      r.exit = InsertExit.insert_end →
      ∃ pTab p1 x, sqlite3SrcListLookup pParse pTabList = (some pTab, p1)
        ∧ ((pColumn ≠ none
              ∧ x = sqlite3Insert_begin p1 (sqlite3Insert_locals ext pTab pSelect pColumn))
          ∨ (pColumn = none
              ∧ xferOptimization
                  (sqlite3Insert_begin p1 (sqlite3Insert_locals ext pTab pSelect pColumn)) pTab
                  (sqlite3Insert_locals ext pTab pSelect pColumn).pSelect onError
                = some (0, x)))
        ∧ pParse.nMem ≤ x.nMem
        ∧ r.L.regIns = ((x.nMem + 1 : Nat) : Int)
        ∧ r.L.regTupleid = r.L.regIns ∧ r.L.regData = r.L.regIns + 1
        ∧ x.nMem + (pTab.nCol + 1) ≤ r.pParse.nMem)
    ∧ (∀ (p : Parse) (pTab : Table) (L : InsertLocals),
      ∃ idCode : List VdbeOp, idCode.length ≤ 1
        ∧ (∀ op ∈ idCode, storeRegister op = L.regTupleid)
        ∧ sqlite3Insert_newRow p pTab L
          = (List.range pTab.nCol).foldl
              (fun q i => sqlite3Insert_column q pTab L.pColumn L.pList L.pSelect.isSome
                L.useTempTable L.srcTab L.regFromSelect L.regData L.regTupleid L.nColumn i)
              { p with aOp := p.aOp ++ idCode })
    ∧ (∀ (p : Parse) (pTab : Table) (pColumn : Option IdList) (pList : Option ExprList)
        (pSelect useTempTable : Bool) (srcTab regFromSelect regData regTupleid : Int)
        (nColumn i : Nat),
      (sqlite3Insert_column p pTab pColumn pList pSelect useTempTable srcTab regFromSelect
          regData regTupleid nColumn i).aOp
        = p.aOp ++ emittedSince p.aOp.length
            (sqlite3Insert_column p pTab pColumn pList pSelect useTempTable srcTab
              regFromSelect regData regTupleid nColumn i)
      ∧ (emittedSince p.aOp.length
            (sqlite3Insert_column p pTab pColumn pList pSelect useTempTable srcTab
              regFromSelect regData regTupleid nColumn i) = []
        ∨ (∃ op, emittedSince p.aOp.length
              (sqlite3Insert_column p pTab pColumn pList pSelect useTempTable srcTab
                regFromSelect regData regTupleid nColumn i) = [op]
            ∧ storeRegister op = regTupleid + 1 + i)
        ∨ (∃ ld cp, emittedSince p.aOp.length
              (sqlite3Insert_column p pTab pColumn pList pSelect useTempTable srcTab
                regFromSelect regData regTupleid nColumn i) = [ld, cp]
            ∧ ld.opcode = OP_Column ∧ ld.p3 = ((p.nMem + 1 : Nat) : Int)
            ∧ cp.opcode = OP_FCopy ∧ cp.p1 = ld.p3 ∧ cp.p2 = regTupleid + 1 + i))) := by
  refine ⟨?_, ?_, ?_⟩
  · intro pParse pTabList pSelect pColumn r h hexit
    obtain ⟨pTab, p1, x, hl, hg, hx⟩ :=
      sqlite3Insert_reaches_general ext pParse pTabList pSelect pColumn onError r h hexit
    obtain ⟨L1, hsrc, hI, hU, hD, -, -, -⟩ :=
      sqlite3Insert_general_spec ext x pTab onError _ r hg hexit
    obtain ⟨hm, h1, h2, h3⟩ := sqlite3Insert_source_regs ext _ pTab onError L1 r hsrc hexit
    have hp1 := sqlite3SrcListLookup_nMem _ _ _ _ hl
    refine ⟨pTab, p1, x, hl, hx, ?_, by rw [h1, hI], by rw [h2, h1, hU], by rw [h3, h1, hD],
      by simpa [Parse.allocMem] using hm⟩
    rcases hx with ⟨-, rfl⟩ | ⟨-, hxf⟩
    · rw [sqlite3Insert_begin_nMem, hp1]
    · rcases xferOptimization_result _ _ _ _ _ hxf with ⟨-, -, hn, -⟩ | ⟨_, _, _, -, -, -, -, -, hn, -⟩
      · simp only [] at hn
        rw [hn, sqlite3Insert_begin_nMem, hp1]
      · simp only [] at hn
        rw [hn, sqlite3Insert_begin_nMem, hp1]
        omega
  · intro p pTab L
    unfold sqlite3Insert_newRow
    simp only []
    split_ifs
    · exact ⟨[_], by simp, by simp [storeRegister], rfl⟩
    · exact ⟨[_], by simp, by simp [storeRegister], rfl⟩
    · exact ⟨[], by simp, by simp, by simp⟩
    · exact ⟨[_], by simp, by simp [storeRegister], rfl⟩
  · intro p pTab pColumn pList pSelect useTempTable srcTab regFromSelect regData regTupleid
      nColumn i
    exact sqlite3Insert_column_code _ _ _ _ _ _ _ _ _ _ _ _

theorem wrapInt32_eq (x : Int) (h0 : -2147483648 ≤ x) (h1 : x ≤ (INT_MAX : Int)) :
    wrapInt32 x = x := by
  unfold wrapInt32
  unfold INT_MAX at h1
  omega

theorem wrapInt32_succ_INT_MAX : wrapInt32 ((INT_MAX : Int) + 1) = -2147483648 := by
  decide

/-- C10: for a compilation whose register counter ends at no more than `INT_MAX` (the
counter `pParse->nMem` of the source is a C `int`; as the counter of the model never
decreases, no increment of the compilation overflows in that case, and the two counters
agree), `sqlite3Insert` allocates for the new row one block of `nCol + 1` consecutive
registers above every register allocated before (`regIns = nMem + 1` up to
`nMem + nCol + 1`, where `nMem` is the register counter when the general path starts):
`regTupleid = regIns` is the row-identifier slot and `regData = regIns + 1`, every register
of the block lies above the counter at the start and is at most `INT_MAX`, so that it is
the number the 32-bit addition of the source yields.  The code of the new row first stores
the row identifier in `regTupleid` (at most one instruction) and then handles the columns
`0 .. nCol-1` in table order, and the code for column `i` stores the value in register
`regTupleid + 1 + i` whatever the column-name list is: it is empty (the co-routine has
already put the value there), or one instruction that stores into that register, or, for an
auto-increment key read back from the staging table, an `OP_Column` into a fresh scratch
register followed by an `OP_FCopy` from the scratch register into `regTupleid + 1 + i`. -/
theorem sqlite3Insert_row_registers (ext : Extern) (onError : on_conflict_action) :
    (∀ (pParse : Parse) (pTabList : SrcList) (pSelect : Option Select)
        (pColumn : Option IdList) (r : InsertResult),
      sqlite3Insert ext pParse pTabList pSelect pColumn onError = some r →
      r.exit = InsertExit.insert_end →
      r.pParse.nMem ≤ INT_MAX →
      ∃ pTab p1 x, sqlite3SrcListLookup pParse pTabList = (some pTab, p1)
        ∧ ((pColumn ≠ none
              ∧ x = sqlite3Insert_begin p1 (sqlite3Insert_locals ext pTab pSelect pColumn))
          ∨ (pColumn = none
              ∧ xferOptimization
                  (sqlite3Insert_begin p1 (sqlite3Insert_locals ext pTab pSelect pColumn)) pTab
                  (sqlite3Insert_locals ext pTab pSelect pColumn).pSelect onError
                = some (0, x)))
        ∧ pParse.nMem ≤ x.nMem
        ∧ r.L.regIns = ((x.nMem + 1 : Nat) : Int)
        ∧ r.L.regTupleid = r.L.regIns ∧ r.L.regData = r.L.regIns + 1
        ∧ x.nMem + (pTab.nCol + 1) ≤ r.pParse.nMem
        ∧ x.nMem + (pTab.nCol + 1) ≤ INT_MAX
        ∧ (∀ k : Nat, k ≤ pTab.nCol →
            (pParse.nMem : Int) < r.L.regIns + k ∧ r.L.regIns + k ≤ (INT_MAX : Int)
            ∧ wrapInt32 (r.L.regIns + k) = r.L.regIns + k))
    ∧ (∀ (p : Parse) (pTab : Table) (L : InsertLocals),
      ∃ idCode : List VdbeOp, idCode.length ≤ 1
        ∧ (∀ op ∈ idCode, storeRegister op = L.regTupleid)
        ∧ sqlite3Insert_newRow p pTab L
          = (List.range pTab.nCol).foldl
              (fun q i => sqlite3Insert_column q pTab L.pColumn L.pList L.pSelect.isSome
                L.useTempTable L.srcTab L.regFromSelect L.regData L.regTupleid L.nColumn i)
              { p with aOp := p.aOp ++ idCode })
    ∧ (∀ (p : Parse) (pTab : Table) (pColumn : Option IdList) (pList : Option ExprList)
        (pSelect useTempTable : Bool) (srcTab regFromSelect regData regTupleid : Int)
        (nColumn i : Nat),
      (sqlite3Insert_column p pTab pColumn pList pSelect useTempTable srcTab regFromSelect
          regData regTupleid nColumn i).aOp
        = p.aOp ++ emittedSince p.aOp.length
            (sqlite3Insert_column p pTab pColumn pList pSelect useTempTable srcTab
              regFromSelect regData regTupleid nColumn i)
      ∧ (emittedSince p.aOp.length
            (sqlite3Insert_column p pTab pColumn pList pSelect useTempTable srcTab
              regFromSelect regData regTupleid nColumn i) = []
        ∨ (∃ op, emittedSince p.aOp.length
              (sqlite3Insert_column p pTab pColumn pList pSelect useTempTable srcTab
                regFromSelect regData regTupleid nColumn i) = [op]
            ∧ storeRegister op = regTupleid + 1 + i)
        ∨ (∃ ld cp, emittedSince p.aOp.length
              (sqlite3Insert_column p pTab pColumn pList pSelect useTempTable srcTab
                regFromSelect regData regTupleid nColumn i) = [ld, cp]
            ∧ ld.opcode = OP_Column ∧ ld.p3 = ((p.nMem + 1 : Nat) : Int)
            ∧ cp.opcode = OP_FCopy ∧ cp.p1 = ld.p3 ∧ cp.p2 = regTupleid + 1 + i))) := by
  obtain ⟨g1, g2, g3⟩ := sqlite3Insert_row_block ext onError
  refine ⟨?_, g2, g3⟩
  intro pParse pTabList pSelect pColumn r h hexit hmax
  obtain ⟨pTab, p1, x, e1, e2, e3, e4, e5, e6, e7⟩ :=
    g1 pParse pTabList pSelect pColumn r h hexit
  refine ⟨pTab, p1, x, e1, e2, e3, e4, e5, e6, e7, Nat.le_trans e7 hmax, ?_⟩
  intro k hk
  have hb : x.nMem + (pTab.nCol + 1) ≤ INT_MAX := Nat.le_trans e7 hmax
  have h1 : (pParse.nMem : Int) < r.L.regIns + k := by
    rw [e4]
    push_cast
    omega
  have h2 : r.L.regIns + k ≤ (INT_MAX : Int) := by
    rw [e4]
    have : ((x.nMem + 1 + k : Nat) : Int) ≤ ((INT_MAX : Nat) : Int) :=
      Int.ofNat_le.2 (by omega)
    push_cast at this ⊢
    omega
  exact ⟨h1, h2, wrapInt32_eq _ (by omega) h2⟩

end NewRowRegisters

section InsertExamples

/-- Witness of C1 on `INSERT INTO t2 SELECT * FROM t2 WHERE b`: the sub-select reads the
destination, so the staged template is chosen. -/
theorem sqlite3Insert_staged_iff_witness :
    sqlite3Insert demoExtern demoParse [{ zName := "t2" }] (some (demoStarWhere "t2")) none
        ON_CONFLICT_ACTION_DEFAULT = some demoSelfInsert
      ∧ demoSelfInsert.exit = InsertExit.insert_end
      ∧ ∃ pTab pX L, sqlite3Insert_source demoExtern pX pTab ON_CONFLICT_ACTION_DEFAULT L
            = some demoSelfInsert
        ∧ (demoSelfInsert.L.useTempTable = true ↔
            (L.pTrigger ≠ []
              ∨ readsTable (sqlite3Insert_coroutine demoExtern pX pTab L
                  (demoStarWhere "t2")).2.2 pTab ≠ 0)) :=
  ⟨by decide, by decide,
    match (sqlite3Insert_staged_iff demoExtern ON_CONFLICT_ACTION_DEFAULT).1 demoParse
        [{ zName := "t2" }] (demoStarWhere "t2") none demoSelfInsert (by decide) (by decide)
        (by decide) with
    | ⟨pTab, pX, L, _, hs, _, hsrc⟩ =>
      ⟨pTab, pX, L, hsrc,
        ((sqlite3Insert_staged_iff demoExtern ON_CONFLICT_ACTION_DEFAULT).2 pX pTab L
          (demoStarWhere "t2") demoSelfInsert hs hsrc (by decide)).1⟩⟩

/-- Counterexample to C2 as stated.  `INSERT INTO t1 SELECT * FROM t2` is compiled inside a
program that has already opened `t1` for reading.  The statement is compiled with the
staged template, but the `OP_OpenWrite` on the primary index of `t1` (root page `524288`)
that the guarded transfer section emits at address 3 precedes the only
`OP_OpenTEphemeral`, which is at address 22. -/
theorem sqlite3Insert_staging_counterexample :
    sqlite3Insert demoExtern demoParseRead [{ zName := "t1" }] (some (demoStar "t2")) none
        ON_CONFLICT_ACTION_DEFAULT = some demoGuardedStaged
      ∧ demoGuardedStaged.exit = InsertExit.insert_end
      ∧ demoGuardedStaged.L.useTempTable = true
      ∧ demoParseRead.aOp.length ≤ 3
      ∧ (demoT1.pIndex.map (fun pIdx => pIdx.tnum)) = [524288]
      ∧ (demoGuardedStaged.pParse.aOp.get? 3).map (fun o => (o.opcode, o.p2))
          = some (OP_OpenWrite, 524288)
      ∧ demoGuardedStaged.pParse.ops.indexOf OP_OpenTEphemeral = 22
      ∧ demoGuardedStaged.pParse.ops.count OP_OpenTEphemeral = 1 := by
  decide

/-- Witness of C2 (as amended) on the same statement: the staging table is opened right
after the co-routine and the staging code is followed by code of the main loop only. -/
theorem sqlite3Insert_staging_precedes_open_witness :
    sqlite3Insert demoExtern demoParseRead [{ zName := "t1" }] (some (demoStar "t2")) none
        ON_CONFLICT_ACTION_DEFAULT = some demoGuardedStaged
      ∧ demoGuardedStaged.exit = InsertExit.insert_end
      ∧ demoGuardedStaged.L.useTempTable = true
      ∧ ∃ pTab pX L, sqlite3Insert_source demoExtern pX pTab ON_CONFLICT_ACTION_DEFAULT L
            = some demoGuardedStaged
        ∧ demoGuardedStaged.pParse.ops.get?
            (sqlite3Insert_coroutine demoExtern pX pTab L (demoStar "t2")).2.2.ops.length
          = some OP_OpenTEphemeral :=
  ⟨by decide, by decide, by decide,
    match (sqlite3Insert_staging_precedes_open demoExtern ON_CONFLICT_ACTION_DEFAULT).1
        demoParseRead [{ zName := "t1" }] (demoStar "t2") none demoGuardedStaged (by decide)
        (by decide) (by decide) with
    | ⟨pTab, _p1, x, L, _, _, hs, hsrc⟩ =>
      ⟨pTab, x.allocMem (pTab.nCol + 1), L, hsrc,
        ((sqlite3Insert_staging_precedes_open demoExtern ON_CONFLICT_ACTION_DEFAULT).2
          (x.allocMem (pTab.nCol + 1)) pTab L (demoStar "t2") demoGuardedStaged hs hsrc
          (by decide) (by decide)).2.2.1⟩⟩

/-- Counterexample to C3 as stated.  For `INSERT INTO t1 SELECT * FROM t2` every static rule
of `xferOptimization` holds, the destination has no triggers and row counting is off, but
the primary index of `t1` is unique: the program holds the guarded transfer code and then
the streamed template with `OP_HaltIfNull`, `OP_Affinity` and `OP_MakeRecord`. -/
theorem sqlite3Insert_transfer_counterexample :
    xferStaticOk
        (sqlite3Insert_begin demoParse
          (sqlite3Insert_locals demoExtern demoT1 (some (demoStar "t2")) none))
        demoT1 (demoStar "t2") demoT2
      ∧ demoT1.pTrigger = [] ∧ demoParse.user_session.SQLITE_CountRows = false
      ∧ sqlite3Insert demoExtern demoParse [{ zName := "t1" }] (some (demoStar "t2")) none
          ON_CONFLICT_ACTION_DEFAULT = some demoGuarded
      ∧ demoGuarded.exit = InsertExit.insert_end
      ∧ demoGuarded.pParse.ops
          = [OP_Init, OP_Int64, OP_OpenWrite, OP_Rewind, OP_Goto, OP_Int64, OP_OpenRead,
              OP_Int64, OP_OpenWrite, OP_Rewind, OP_RowData, OP_IdxInsert, OP_Next, OP_Close,
              OP_Close, OP_Halt, OP_Close, OP_InitCoroutine, OP_OpenRead, OP_Yield,
              OP_EndCoroutine, OP_Int64, OP_OpenWrite, OP_Yield, OP_Null, OP_HaltIfNull,
              OP_Affinity, OP_SCopy, OP_MustBeInt, OP_MakeRecord, CALL_sqlite3FkCheck,
              OP_IdxInsert, OP_Goto]
      ∧ OP_Affinity ∈ demoGuarded.pParse.ops := by
  decide

/-- Witness of C3 (as amended).  For `INSERT INTO t5 SELECT * FROM t6` (no unique index,
integer primary key, policy Abort) the transfer code is the whole program; for
`INSERT INTO t1 SELECT * FROM t2` (unique primary index) the general template is compiled
after the guarded transfer code. -/
theorem sqlite3Insert_transfer_template_witness :
    (sqlite3Insert demoExtern demoParse56 [{ zName := "t5" }] (some (demoStar "t6")) none
        ON_CONFLICT_ACTION_DEFAULT
      = some { pParse := xferResult
                 (sqlite3Insert_begin demoParse56
                   (sqlite3Insert_locals demoExtern demoT5 (some (demoStar "t6")) none))
                 demoT5 demoT6 (demoT5.pIndex.getD 0 demoPk1) false,
               pTab := some demoT5,
               L := sqlite3Insert_locals demoExtern demoT5 (some (demoStar "t6")) none,
               exit := InsertExit.xfer_end })
    ∧ (sqlite3Insert demoExtern demoParse [{ zName := "t1" }] (some (demoStar "t2")) none
        ON_CONFLICT_ACTION_DEFAULT
      = sqlite3Insert_general demoExtern
          (xferResult
            (sqlite3Insert_begin demoParse
              (sqlite3Insert_locals demoExtern demoT1 (some (demoStar "t2")) none))
            demoT1 demoT2 demoPk1 true)
          demoT1 ON_CONFLICT_ACTION_DEFAULT
          (sqlite3Insert_locals demoExtern demoT1 (some (demoStar "t2")) none)) :=
  ⟨((sqlite3Insert_transfer_template demoExtern demoParse56 [{ zName := "t5" }]
        (demoStar "t6") ON_CONFLICT_ACTION_DEFAULT demoT5 demoT6 demoParse56
        (demoT5.pIndex.getD 0 demoPk1) (by decide) (by decide) (by decide) (by decide)
        (by decide) (by decide) (by decide)).1 (by decide)).1,
    (sqlite3Insert_transfer_template demoExtern demoParse [{ zName := "t1" }]
        (demoStar "t2") ON_CONFLICT_ACTION_DEFAULT demoT1 demoT2 demoParse demoPk1
        (by decide) (by decide) (by decide) (by decide) (by decide) (by decide)
        (by decide)).2 (by decide)⟩

/-- Witness of C10 on `INSERT INTO t2 SELECT * FROM t2 WHERE b`, whose register counter ends
far below `INT_MAX`: `t2` has two columns and the registers 1 to 3 are those of the new
row. -/
theorem sqlite3Insert_row_registers_witness :
    sqlite3Insert demoExtern demoParse [{ zName := "t2" }] (some (demoStarWhere "t2")) none
        ON_CONFLICT_ACTION_DEFAULT = some demoSelfInsert
      ∧ demoSelfInsert.exit = InsertExit.insert_end
      ∧ demoSelfInsert.pParse.nMem ≤ INT_MAX
      ∧ demoSelfInsert.L.regIns = 1
      ∧ ∃ (pTab : Table) (x : Parse),
        (sqlite3SrcListLookup demoParse [{ zName := "t2" }]).1 = some pTab
        ∧ demoParse.nMem ≤ x.nMem
        ∧ demoSelfInsert.L.regIns = ((x.nMem + 1 : Nat) : Int)
        ∧ demoSelfInsert.L.regTupleid = demoSelfInsert.L.regIns
        ∧ demoSelfInsert.L.regData = demoSelfInsert.L.regIns + 1
        ∧ x.nMem + (pTab.nCol + 1) ≤ demoSelfInsert.pParse.nMem
        ∧ (∀ k : Nat, k ≤ pTab.nCol →
            (demoParse.nMem : Int) < demoSelfInsert.L.regIns + k
            ∧ demoSelfInsert.L.regIns + k ≤ (INT_MAX : Int)
            ∧ wrapInt32 (demoSelfInsert.L.regIns + k) = demoSelfInsert.L.regIns + k) :=
  ⟨by decide, by decide, by decide, by decide,
    match (sqlite3Insert_row_registers demoExtern ON_CONFLICT_ACTION_DEFAULT).1 demoParse
        [{ zName := "t2" }] (some (demoStarWhere "t2")) none demoSelfInsert (by decide)
        (by decide) (by decide) with
    | ⟨pTab, _p1, x, hl, _, h1, h2, h3, h4, h5, _, h7⟩ =>
      ⟨pTab, x, by rw [hl], h1, h2, h3, h4, h5, h7⟩⟩

end InsertExamples

section NotNullChecks

theorem notNullChecked_iff (pTab : Table) (aiChng : Option (List Int)) (i : Nat) :
    notNullChecked pTab aiChng i = true ↔
      (¬ ((i : Int) = pTab.iPKey)
        ∧ ¬ (aiChng.isSome = true ∧ (aiChng.getD []).getD i 0 < 0)
        ∧ ¬ (table_column_is_nullable pTab i = true
              ∨ (pTab.TF_Autoincrement = true ∧ pTab.iAutoIncPKey = (i : Int)))) := by
  unfold notNullChecked
  simp only [Bool.and_eq_true, decide_eq_true_eq, Bool.not_eq_true', Bool.and_eq_false_imp,
    Bool.or_eq_false_iff, decide_eq_false_iff_not, not_lt, ne_eq, not_and, not_or,
    Bool.not_eq_true]
  tauto

/-- The NOT NULL iteration does nothing for a column that is not checked. -/
theorem sqlite3GenerateConstraintChecks_notNull_skip (p : Parse) (pTab : Table)
    (regNewData : Int) (overrideError : on_conflict_action) (ignoreDest : Int)
    (aiChng : Option (List Int)) (i : Nat) (hc : notNullChecked pTab aiChng i = false) :
    sqlite3GenerateConstraintChecks_notNull p pTab regNewData overrideError ignoreDest aiChng i
      = p := by
  unfold sqlite3GenerateConstraintChecks_notNull
  by_cases c1 : (i : Int) = pTab.iPKey
  · rw [if_pos c1]
  rw [if_neg c1]
  by_cases c2 : aiChng.isSome = true ∧ (aiChng.getD []).getD i 0 < 0
  · rw [if_pos c2]
  rw [if_neg c2]
  by_cases c3 : table_column_is_nullable pTab i = true
      ∨ (pTab.TF_Autoincrement = true ∧ pTab.iAutoIncPKey = (i : Int))
  · rw [if_pos c3]
  exfalso
  have := (notNullChecked_iff pTab aiChng i).2 ⟨c1, c2, c3⟩
  rw [hc] at this
  cases this

/-- The policy the code computes (insert.c:1105-1114) is the one of the specification. -/
theorem specNotNullPolicy_eq (pTab : Table) (overrideError : on_conflict_action) (i : Nat) :
    (if (if overrideError ≠ ON_CONFLICT_ACTION_DEFAULT then overrideError
          else if table_column_nullable_action pTab i = ON_CONFLICT_ACTION_DEFAULT then
            ON_CONFLICT_ACTION_ABORT
          else table_column_nullable_action pTab i) = ON_CONFLICT_ACTION_REPLACE
        ∧ (pTab.aCol.getD i default).pDflt = none then ON_CONFLICT_ACTION_ABORT
      else if overrideError ≠ ON_CONFLICT_ACTION_DEFAULT then overrideError
          else if table_column_nullable_action pTab i = ON_CONFLICT_ACTION_DEFAULT then
            ON_CONFLICT_ACTION_ABORT
          else table_column_nullable_action pTab i)
      = specNotNullPolicy pTab overrideError i := by
  unfold specNotNullPolicy
  simp only []
  by_cases h1 : overrideError = ON_CONFLICT_ACTION_DEFAULT <;>
    by_cases h2 : table_column_nullable_action pTab i = ON_CONFLICT_ACTION_DEFAULT <;>
    simp [h1, h2]

/-- The NOT NULL iteration for a checked column, in terms of the resolved policy. -/
theorem sqlite3GenerateConstraintChecks_notNull_checked (p : Parse) (pTab : Table)
    (regNewData : Int) (overrideError : on_conflict_action) (ignoreDest : Int)
    (aiChng : Option (List Int)) (i : Nat) (hc : notNullChecked pTab aiChng i = true) :
    sqlite3GenerateConstraintChecks_notNull p pTab regNewData overrideError ignoreDest aiChng i
      = match specNotNullPolicy pTab overrideError i with
        | ON_CONFLICT_ACTION_ABORT | ON_CONFLICT_ACTION_ROLLBACK | ON_CONFLICT_ACTION_FAIL =>
          sqlite3VdbeChangeP5
            (sqlite3VdbeChangeP4
              (sqlite3VdbeAddOp3
                (if specNotNullPolicy pTab overrideError i = ON_CONFLICT_ACTION_ABORT then
                  sqlite3MayAbort p else p)
                OP_HaltIfNull SQLITE_CONSTRAINT_NOTNULL
                (specNotNullPolicy pTab overrideError i).toInt (regNewData + 1 + i))
              (P4_STRING (pTab.zName ++ "." ++ (pTab.aCol.getD i default).zName)))
            [P5_ConstraintNotNull]
        | ON_CONFLICT_ACTION_IGNORE =>
          sqlite3VdbeAddOp2 p OP_IsNull (regNewData + 1 + i) ignoreDest
        | _ =>
          sqlite3VdbeJumpHere
            (sqlite3VdbeAddOp4 (sqlite3VdbeAddOp1 p OP_NotNull (regNewData + 1 + i))
              CALL_sqlite3ExprCode 0 (regNewData + 1 + i) 0
              (P4_EXPR (pTab.aCol.getD i default).pDflt))
            (sqlite3VdbeCurrentAddr p) := by
  unfold sqlite3GenerateConstraintChecks_notNull
  obtain ⟨e1, e2, e3⟩ := (notNullChecked_iff pTab aiChng i).1 hc
  rw [if_neg e1, if_neg e2, if_neg e3]
  simp only []
  rw [specNotNullPolicy_eq]

end NotNullChecks

section NotNullColumns

theorem sqlite3GenerateConstraintChecks_notNull_code (p : Parse) (pTab : Table)
    (regNewData : Int) (overrideError : on_conflict_action) (ignoreDest : Int)
    (aiChng : Option (List Int)) (i : Nat) (hc : notNullChecked pTab aiChng i = true) :
    (sqlite3GenerateConstraintChecks_notNull p pTab regNewData overrideError ignoreDest aiChng
        i).aOp
      = p.aOp ++ notNullCode pTab regNewData overrideError ignoreDest p.aOp.length i := by
  rw [sqlite3GenerateConstraintChecks_notNull_checked _ _ _ _ _ _ _ hc]
  unfold notNullCode
  generalize specNotNullPolicy pTab overrideError i = pol
  cases pol <;>
    simp [sqlite3VdbeChangeP5, sqlite3VdbeChangeP4, sqlite3VdbeAddOp4, sqlite3VdbeAddOp3,
      sqlite3VdbeAddOp2, sqlite3VdbeAddOp1, sqlite3VdbeAddOp, sqlite3MayAbort,
      sqlite3VdbeJumpHere, sqlite3VdbeCurrentAddr, changeLastOp_append_singleton,
      changeOpAt_length, changeOpAt]

theorem notNullCode_opcodes (pTab : Table) (regNewData : Int)
    (overrideError : on_conflict_action) (ignoreDest : Int) (addr : Nat) (i : Nat) :
    (notNullCode pTab regNewData overrideError ignoreDest addr i).map (fun o => o.opcode)
      = notNullOps pTab overrideError i := by
  unfold notNullCode notNullOps
  generalize specNotNullPolicy pTab overrideError i = pol
  cases pol <;> rfl

theorem sqlite3GenerateConstraintChecks_notNull_ops (p : Parse) (pTab : Table)
    (regNewData : Int) (overrideError : on_conflict_action) (ignoreDest : Int)
    (aiChng : Option (List Int)) (i : Nat) :
    (sqlite3GenerateConstraintChecks_notNull p pTab regNewData overrideError ignoreDest aiChng
        i).ops
      = p.ops ++ (if notNullChecked pTab aiChng i = true then notNullOps pTab overrideError i
          else []) := by
  cases hc : notNullChecked pTab aiChng i
  · rw [sqlite3GenerateConstraintChecks_notNull_skip _ _ _ _ _ _ _ hc]
    simp
  · unfold Parse.ops
    rw [sqlite3GenerateConstraintChecks_notNull_code _ _ _ _ _ _ _ hc]
    simp [notNullCode_opcodes]

theorem sqlite3GenerateConstraintChecks_notNullLoop_ops (pTab : Table)
    (regNewData : Int) (overrideError : on_conflict_action) (ignoreDest : Int)
    (aiChng : Option (List Int)) (l : List Nat) (p : Parse) :
    (l.foldl (fun q i => sqlite3GenerateConstraintChecks_notNull q pTab regNewData
        overrideError ignoreDest aiChng i) p).ops
      = p.ops ++ (l.map (fun i => if notNullChecked pTab aiChng i = true then
          notNullOps pTab overrideError i else [])).flatten := by
  induction l generalizing p with
  | nil => simp
  | cons i rest ih =>
    simp only [List.foldl_cons, List.map_cons, List.flatten_cons]
    rw [ih, sqlite3GenerateConstraintChecks_notNull_ops, List.append_assoc]

/-- C13: for a column that `sqlite3GenerateConstraintChecks` subjects to the NOT NULL check,
the policy is the statement override if it is not Default, else the declared action of the
column, else Abort, and Replace on a column without a default is downgraded to Abort
(`specNotNullPolicy`).  The iteration then appends: for Rollback, Abort and Fail one
`OP_HaltIfNull` with P1 `SQLITE_CONSTRAINT_NOTNULL`, the policy as P2, the register
`regNewData + 1 + i` as P3 and the message `table.column`; for Ignore one `OP_IsNull` on that
register that jumps to `ignoreDest`; for Replace an `OP_NotNull` on that register that jumps
over the code storing the default of the column into the same register. -/
theorem sqlite3GenerateConstraintChecks_notNull_policy (p : Parse) (pTab : Table)
    (regNewData : Int) (overrideError : on_conflict_action) (ignoreDest : Int)
    (aiChng : Option (List Int)) (i : Nat) (hc : notNullChecked pTab aiChng i = true) :
    ((specNotNullPolicy pTab overrideError i = ON_CONFLICT_ACTION_ROLLBACK
        ∨ specNotNullPolicy pTab overrideError i = ON_CONFLICT_ACTION_ABORT
        ∨ specNotNullPolicy pTab overrideError i = ON_CONFLICT_ACTION_FAIL) →
      (sqlite3GenerateConstraintChecks_notNull p pTab regNewData overrideError ignoreDest
          aiChng i).aOp
        = p.aOp ++ [{ opcode := OP_HaltIfNull, p1 := SQLITE_CONSTRAINT_NOTNULL,
                      p2 := (specNotNullPolicy pTab overrideError i).toInt,
                      p3 := regNewData + 1 + i,
                      p4 := P4_STRING (pTab.zName ++ "." ++ (pTab.aCol.getD i default).zName),
                      p5 := [P5_ConstraintNotNull] }])
    ∧ (specNotNullPolicy pTab overrideError i = ON_CONFLICT_ACTION_IGNORE →
      (sqlite3GenerateConstraintChecks_notNull p pTab regNewData overrideError ignoreDest
          aiChng i).aOp
        = p.aOp ++ [{ opcode := OP_IsNull, p1 := regNewData + 1 + i, p2 := ignoreDest }])
    ∧ (specNotNullPolicy pTab overrideError i = ON_CONFLICT_ACTION_REPLACE →
      (pTab.aCol.getD i default).pDflt ≠ none
      ∧ (sqlite3GenerateConstraintChecks_notNull p pTab regNewData overrideError ignoreDest
          aiChng i).aOp
        = p.aOp ++ [{ opcode := OP_NotNull, p1 := regNewData + 1 + i,
                      p2 := (p.aOp.length : Int) + 2 },
                    { opcode := CALL_sqlite3ExprCode, p2 := regNewData + 1 + i,
                      p4 := P4_EXPR (pTab.aCol.getD i default).pDflt }]) := by
  rw [sqlite3GenerateConstraintChecks_notNull_code _ _ _ _ _ _ _ hc]
  unfold notNullCode
  refine ⟨?_, ?_, ?_⟩
  · intro h
    rcases h with h | h | h <;> rw [h]
  · intro h
    rw [h]
  · intro h
    constructor
    · intro hd
      unfold specNotNullPolicy at h
      simp only [] at h
      split_ifs at h <;> simp_all
    · rw [h]

end NotNullColumns

section ConstraintPhases

/-- `sqlite3GenerateConstraintChecks` runs the NOT NULL loop, the CHECK block and the UNIQUE
loop in this order. -/
theorem sqlite3GenerateConstraintChecks_eq (ext : Extern) (p : Parse) (pTab : Table)
    (aRegIdx : List Int) (iDataCur iIdxCur regNewData regOldData : Int) (pkChng : Bool)
    (overrideError : on_conflict_action) (ignoreDest : Int) (aiChng : Option (List Int)) :
    sqlite3GenerateConstraintChecks ext p pTab aRegIdx iDataCur iIdxCur regNewData regOldData
        pkChng overrideError ignoreDest aiChng
      = (sqlite3PrimaryKeyIndex pTab).map (fun pPk =>
          { pbMayReplace :=
              (sqlite3GenerateConstraintChecks_uniqueLoop ext aRegIdx iDataCur iIdxCur
                regNewData regOldData pkChng overrideError ignoreDest pPk
                (pTab.pIndex.findIdx IsPrimaryKeyIndex) pTab.pIndex.length pTab.pIndex 0
                (sqlite3GenerateConstraintChecks_uniqueStart p pTab regNewData overrideError
                  ignoreDest aiChng)).seenReplace,
            pTab :=
              (sqlite3GenerateConstraintChecks_uniqueLoop ext aRegIdx iDataCur iIdxCur
                regNewData regOldData pkChng overrideError ignoreDest pPk
                (pTab.pIndex.findIdx IsPrimaryKeyIndex) pTab.pIndex.length pTab.pIndex 0
                (sqlite3GenerateConstraintChecks_uniqueStart p pTab regNewData overrideError
                  ignoreDest aiChng)).pTab,
            pParse :=
              (sqlite3GenerateConstraintChecks_uniqueLoop ext aRegIdx iDataCur iIdxCur
                regNewData regOldData pkChng overrideError ignoreDest pPk
                (pTab.pIndex.findIdx IsPrimaryKeyIndex) pTab.pIndex.length pTab.pIndex 0
                (sqlite3GenerateConstraintChecks_uniqueStart p pTab regNewData overrideError
                  ignoreDest aiChng)).pParse }) := by
  unfold sqlite3GenerateConstraintChecks
  cases sqlite3PrimaryKeyIndex pTab <;> rfl

/-- The NOT NULL loop of `sqlite3GenerateConstraintChecks` on an arbitrary table: it handles
the columns in table order and emits a check exactly for the columns with `notNullChecked`,
i.e. the column is not the column `iPKey`, is marked as changed (no change array, or
`aiChng[i] >= 0`), is declared non-nullable and is not the auto-increment key.  The check of
column `i` starts with `OP_HaltIfNull`, `OP_IsNull` or `OP_NotNull` on the register
`regNewData + 1 + i`; for every other column the iteration leaves the context unchanged. -/
theorem sqlite3GenerateConstraintChecks_notNull_exact (p : Parse) (pTab : Table)
    (regNewData : Int) (overrideError : on_conflict_action) (ignoreDest : Int)
    (aiChng : Option (List Int)) :
    (sqlite3GenerateConstraintChecks_notNullLoop p pTab regNewData overrideError ignoreDest
        aiChng).ops
      = p.ops ++ ((List.range pTab.nCol).map (fun i =>
          if notNullChecked pTab aiChng i = true then notNullOps pTab overrideError i
          else [])).flatten
    ∧ (∀ i : Nat, notNullChecked pTab aiChng i = true ↔
        ((i : Int) ≠ pTab.iPKey
          ∧ (aiChng = none ∨ (aiChng.getD []).getD i 0 ≥ 0)
          ∧ table_column_is_nullable pTab i = false
          ∧ ¬ (pTab.TF_Autoincrement = true ∧ pTab.iAutoIncPKey = (i : Int))))
    ∧ (∀ i : Nat, ∃ c rest, notNullOps pTab overrideError i = c :: rest
        ∧ c ∈ [OP_HaltIfNull, OP_IsNull, OP_NotNull]
        ∧ ∀ d ∈ rest, d = CALL_sqlite3ExprCode)
    ∧ (∀ (q : Parse) (i : Nat), notNullChecked pTab aiChng i = true →
        ∃ op rest,
          (sqlite3GenerateConstraintChecks_notNull q pTab regNewData overrideError ignoreDest
              aiChng i).aOp = q.aOp ++ op :: rest
          ∧ op.opcode ∈ [OP_HaltIfNull, OP_IsNull, OP_NotNull]
          ∧ notNullRegister op = regNewData + 1 + i)
    ∧ (∀ (q : Parse) (i : Nat), notNullChecked pTab aiChng i = false →
        sqlite3GenerateConstraintChecks_notNull q pTab regNewData overrideError ignoreDest
          aiChng i = q) := by
  refine ⟨sqlite3GenerateConstraintChecks_notNullLoop_ops _ _ _ _ _ _ _, ?_, ?_, ?_, ?_⟩
  · intro i
    rw [notNullChecked_iff]
    cases aiChng <;> simp
  · intro i
    unfold notNullOps
    generalize specNotNullPolicy pTab overrideError i = pol
    cases pol <;> exact ⟨_, _, rfl, by simp, by simp⟩
  · intro q i hc
    rw [sqlite3GenerateConstraintChecks_notNull_code _ _ _ _ _ _ _ hc]
    unfold notNullCode
    generalize specNotNullPolicy pTab overrideError i = pol
    cases pol <;> exact ⟨_, _, rfl, by simp, by simp [notNullRegister]⟩
  · intro q i hc
    exact sqlite3GenerateConstraintChecks_notNull_skip _ _ _ _ _ _ _ hc

/-- C14: on a table without an integer primary key alias (`iPKey < 0`; insert.c:474 asserts
that a target whose `iPKey` column is named in the column list is a view, and the constraint
checks are generated for no view, insert.c:1080), the NOT NULL loop of
`sqlite3GenerateConstraintChecks` handles the columns in table order and emits a check for
every column that is declared non-nullable, is not the auto-increment key and is marked as
changed (no change array, or `aiChng[i] >= 0`), and for no other column: the opcodes of the
loop are those of the checks of these columns, in order; `notNullChecked` is that
condition; the check of such a column `i` starts with `OP_HaltIfNull`, `OP_IsNull` or
`OP_NotNull` on the register `regNewData + 1 + i`; and for every other column the iteration
leaves the context unchanged. -/
theorem sqlite3GenerateConstraintChecks_notNull_columns (p : Parse) (pTab : Table)
    (regNewData : Int) (overrideError : on_conflict_action) (ignoreDest : Int)
    (aiChng : Option (List Int)) (hipk : pTab.iPKey < 0) :
    (sqlite3GenerateConstraintChecks_notNullLoop p pTab regNewData overrideError ignoreDest
        aiChng).ops
      = p.ops ++ ((List.range pTab.nCol).map (fun i =>
          if table_column_is_nullable pTab i = false
              ∧ ¬ (pTab.TF_Autoincrement = true ∧ pTab.iAutoIncPKey = (i : Int))
              ∧ (aiChng = none ∨ (aiChng.getD []).getD i 0 ≥ 0) then
            notNullOps pTab overrideError i
          else [])).flatten
    ∧ (∀ i : Nat, notNullChecked pTab aiChng i = true ↔
        (table_column_is_nullable pTab i = false
          ∧ ¬ (pTab.TF_Autoincrement = true ∧ pTab.iAutoIncPKey = (i : Int))
          ∧ (aiChng = none ∨ (aiChng.getD []).getD i 0 ≥ 0)))
    ∧ (∀ i : Nat, ∃ c rest, notNullOps pTab overrideError i = c :: rest
        ∧ c ∈ [OP_HaltIfNull, OP_IsNull, OP_NotNull]
        ∧ ∀ d ∈ rest, d = CALL_sqlite3ExprCode)
    ∧ (∀ (q : Parse) (i : Nat),
        (table_column_is_nullable pTab i = false
          ∧ ¬ (pTab.TF_Autoincrement = true ∧ pTab.iAutoIncPKey = (i : Int))
          ∧ (aiChng = none ∨ (aiChng.getD []).getD i 0 ≥ 0)) →
        ∃ op rest,
          (sqlite3GenerateConstraintChecks_notNull q pTab regNewData overrideError ignoreDest
              aiChng i).aOp = q.aOp ++ op :: rest
          ∧ op.opcode ∈ [OP_HaltIfNull, OP_IsNull, OP_NotNull]
          ∧ notNullRegister op = regNewData + 1 + i)
    ∧ (∀ (q : Parse) (i : Nat),
        ¬ (table_column_is_nullable pTab i = false
          ∧ ¬ (pTab.TF_Autoincrement = true ∧ pTab.iAutoIncPKey = (i : Int))
          ∧ (aiChng = none ∨ (aiChng.getD []).getD i 0 ≥ 0)) →
        sqlite3GenerateConstraintChecks_notNull q pTab regNewData overrideError ignoreDest
          aiChng i = q) := by
  obtain ⟨g1, g2, g3, g4, g5⟩ := sqlite3GenerateConstraintChecks_notNull_exact p pTab
    regNewData overrideError ignoreDest aiChng
  have hne : ∀ i : Nat, (i : Int) ≠ pTab.iPKey := by
    intro i
    omega
  have hiff : ∀ i : Nat, notNullChecked pTab aiChng i = true ↔
      (table_column_is_nullable pTab i = false
        ∧ ¬ (pTab.TF_Autoincrement = true ∧ pTab.iAutoIncPKey = (i : Int))
        ∧ (aiChng = none ∨ (aiChng.getD []).getD i 0 ≥ 0)) := by
    intro i
    rw [g2 i]
    constructor
    · rintro ⟨-, a, b, c⟩
      exact ⟨b, c, a⟩
    · rintro ⟨b, c, a⟩
      exact ⟨hne i, a, b, c⟩
  refine ⟨?_, hiff, g3, fun q i hc => g4 q i ((hiff i).2 hc), fun q i hc => g5 q i ?_⟩
  · rw [g1]
    congr 2
    apply List.map_congr_left
    intro i _
    by_cases hc : notNullChecked pTab aiChng i = true
    · rw [if_pos hc, if_pos ((hiff i).1 hc)]
    · rw [if_neg hc, if_neg (fun h => hc ((hiff i).2 h))]
  · cases hb : notNullChecked pTab aiChng i
    · rfl
    · exact absurd ((hiff i).1 hb) hc

end ConstraintPhases

section CheckConstraints

theorem sqlite3HaltConstraint_aOp (p : Parse) (errCode : Int) (onError : on_conflict_action)
    (p4 : String) (p5 : OpFlag) :
    (sqlite3HaltConstraint p errCode onError p4 p5).aOp
      = p.aOp ++ [{ opcode := OP_Halt, p1 := errCode, p2 := onError.toInt, p4 := P4_STRING p4,
                    p5 := [p5] }] := by
  unfold sqlite3HaltConstraint
  simp only []
  split_ifs <;>
    simp [sqlite3VdbeChangeP5, sqlite3VdbeAddOp4, sqlite3VdbeAddOp, sqlite3MayAbort,
      changeLastOp_append_singleton]

theorem sqlite3HaltConstraint_aLabel (p : Parse) (errCode : Int) (onError : on_conflict_action)
    (p4 : String) (p5 : OpFlag) :
    (sqlite3HaltConstraint p errCode onError p4 p5).aLabel = p.aLabel := by
  unfold sqlite3HaltConstraint
  simp only []
  split_ifs <;> rfl

theorem sqlite3GenerateConstraintChecks_check_code (pTab : Table) (ignoreDest : Int)
    (aiChng : Option (List Int)) (overrideError : on_conflict_action)
    (l : List ExprList_item) (onError : on_conflict_action) (p : Parse)
    (hon : onError = (if overrideError ≠ ON_CONFLICT_ACTION_DEFAULT then overrideError
          else ON_CONFLICT_ACTION_ABORT)
      ∨ (overrideError = ON_CONFLICT_ACTION_REPLACE ∧ onError = ON_CONFLICT_ACTION_ABORT)) :
    (sqlite3GenerateConstraintChecks_check pTab ignoreDest aiChng l onError p).aOp
      = p.aOp ++ checkConstraintsCode pTab ignoreDest overrideError aiChng l p.aLabel.length
    ∧ (sqlite3GenerateConstraintChecks_check pTab ignoreDest aiChng l onError p).aLabel
      = p.aLabel ++ checkConstraintsLabels aiChng l p.aOp.length := by
  induction l generalizing onError p with
  | nil => simp [sqlite3GenerateConstraintChecks_check, checkConstraintsCode,
      checkConstraintsLabels]
  | cons item rest ih =>
    unfold sqlite3GenerateConstraintChecks_check checkConstraintsCode checkConstraintsLabels
    simp only []
    by_cases hs : aiChng.isSome = true
        ∧ checkConstraintUnchanged item.pExpr (aiChng.getD []) = true
    · rw [if_pos hs, if_pos hs, if_pos hs]
      exact ih onError p hon
    · rw [if_neg hs, if_neg hs, if_neg hs]
      by_cases hi : onError = ON_CONFLICT_ACTION_IGNORE
      · rw [if_pos hi]
        have hov : overrideError = ON_CONFLICT_ACTION_IGNORE := by
          rcases hon with h | ⟨_, h⟩
          · rw [hi] at h
            split_ifs at h with h1
            · exact h.symm
          · rw [hi] at h; cases h
        obtain ⟨h1, h2⟩ := ih onError
          (sqlite3VdbeResolveLabel (sqlite3VdbeGoto (sqlite3VdbeAddOp (sqlite3VdbeMakeLabel p).2
            { opcode := CALL_sqlite3ExprIfTrue, p2 := (sqlite3VdbeMakeLabel p).1,
              p4 := P4_EXPR (some item.pExpr), p5 := [SQLITE_JUMPIFNULL] }) ignoreDest)
            (sqlite3VdbeMakeLabel p).1) hon
        rw [h1, h2]
        simp [sqlite3VdbeResolveLabel, sqlite3VdbeGoto, sqlite3VdbeAddOp3, sqlite3VdbeAddOp,
          sqlite3VdbeMakeLabel, checkConstraintCode, hov, List.set_append]
      · rw [if_neg hi]
        have hov : overrideError ≠ ON_CONFLICT_ACTION_IGNORE := by
          rintro rfl
          rcases hon with h | ⟨h, _⟩
          · exact hi (by simpa using h)
          · cases h
        have hpol : (if onError = ON_CONFLICT_ACTION_REPLACE then ON_CONFLICT_ACTION_ABORT
            else onError) = specCheckPolicy overrideError := by
          unfold specCheckPolicy
          rcases hon with h | ⟨h1, h2⟩
          · rw [h]
            by_cases c1 : overrideError = ON_CONFLICT_ACTION_DEFAULT
            · simp [c1]
            · by_cases c2 : overrideError = ON_CONFLICT_ACTION_REPLACE <;> simp [c1, c2]
          · simp [h1, h2]
        rw [hpol]
        generalize hq : sqlite3VdbeResolveLabel (sqlite3HaltConstraint _ _ _ _ _) _ = q
        obtain ⟨h1, h2⟩ := ih (specCheckPolicy overrideError) q (by
              unfold specCheckPolicy
              by_cases c1 : overrideError = ON_CONFLICT_ACTION_DEFAULT
              · simp [c1]
              · by_cases c2 : overrideError = ON_CONFLICT_ACTION_REPLACE <;> simp [c1, c2])
        rw [h1, h2, ← hq]
        cases hz : item.zName <;>
        simp [sqlite3VdbeResolveLabel, sqlite3HaltConstraint_aOp, sqlite3HaltConstraint_aLabel,
          sqlite3VdbeAddOp, sqlite3VdbeMakeLabel, checkConstraintCode, hov, List.set_append, hz]

end CheckConstraints

section CheckOrder

/-- C15: when the table has CHECK constraints and the session flag `SQLITE_IgnoreChecks` is
clear, the CHECK block of `sqlite3GenerateConstraintChecks` appends, for every constraint that
is not skipped, the two instructions of `checkConstraintCode`: the jump to a fresh pass label
when the expression is true, followed by `OP_Goto ignoreDest` when the override policy is
Ignore and otherwise by `OP_Halt` with `SQLITE_CONSTRAINT_CHECK`, the override policy with
Default and Replace replaced by Abort, and the name of the constraint (the name of the table
when it has none); each pass label is resolved to the address right after its two
instructions.  When `SQLITE_IgnoreChecks` is set, or the table has no CHECK constraint, the
block leaves the context unchanged. -/
theorem sqlite3GenerateConstraintChecks_check_constraints (p : Parse) (pTab : Table)
    (regNewData : Int) (overrideError : on_conflict_action) (ignoreDest : Int)
    (aiChng : Option (List Int)) :
    (pTab.pCheck.isSome = true → p.user_session.SQLITE_IgnoreChecks = false →
      (sqlite3GenerateConstraintChecks_checks p pTab regNewData overrideError ignoreDest
          aiChng).aOp
        = p.aOp ++ checkConstraintsCode pTab ignoreDest overrideError aiChng
            (pTab.pCheck.getD []) p.aLabel.length
      ∧ (sqlite3GenerateConstraintChecks_checks p pTab regNewData overrideError ignoreDest
          aiChng).aLabel
        = p.aLabel ++ checkConstraintsLabels aiChng (pTab.pCheck.getD []) p.aOp.length)
    ∧ (p.user_session.SQLITE_IgnoreChecks = true →
      sqlite3GenerateConstraintChecks_checks p pTab regNewData overrideError ignoreDest aiChng
        = p)
    ∧ (pTab.pCheck = none →
      sqlite3GenerateConstraintChecks_checks p pTab regNewData overrideError ignoreDest aiChng
        = p) := by
  refine ⟨?_, ?_, ?_⟩
  · intro h1 h2
    unfold sqlite3GenerateConstraintChecks_checks
    rw [if_pos ⟨h1, h2⟩]
    exact sqlite3GenerateConstraintChecks_check_code pTab ignoreDest aiChng overrideError
      (pTab.pCheck.getD []) _ (p.setCkBase (regNewData + 1)) (Or.inl rfl)
  · intro h
    unfold sqlite3GenerateConstraintChecks_checks
    rw [if_neg (by simp [h])]
  · intro h
    unfold sqlite3GenerateConstraintChecks_checks
    rw [if_neg (by simp [h])]

theorem sqlite3GenerateConstraintChecks_checks_grows (p : Parse) (pTab : Table)
    (regNewData : Int) (overrideError : on_conflict_action) (ignoreDest : Int)
    (aiChng : Option (List Int)) :
    Grows [CALL_sqlite3ExprIfTrue, OP_Goto, OP_Halt] p
      (sqlite3GenerateConstraintChecks_checks p pTab regNewData overrideError ignoreDest
        aiChng) := by
  unfold sqlite3GenerateConstraintChecks_checks
  by_cases h : pTab.pCheck.isSome = true ∧ p.user_session.SQLITE_IgnoreChecks = false
  · rw [if_pos h]
    exact Grows.trans (Grows.setCkBase _ (Grows.refl _ _))
      (sqlite3GenerateConstraintChecks_check_grows _ _ _ _ _ _)
  · rw [if_neg h]
    exact Grows.refl _ _

theorem sqlite3GenerateConstraintChecks_notNullLoop_grows (p : Parse) (pTab : Table)
    (regNewData : Int) (overrideError : on_conflict_action) (ignoreDest : Int)
    (aiChng : Option (List Int)) :
    Grows [OP_HaltIfNull, OP_IsNull, OP_NotNull, CALL_sqlite3ExprCode] p
      (sqlite3GenerateConstraintChecks_notNullLoop p pTab regNewData overrideError ignoreDest
        aiChng) :=
  Grows.foldl _ (fun q i => sqlite3GenerateConstraintChecks_notNull_grows q pTab
    regNewData overrideError ignoreDest aiChng i) _ _

theorem sqlite3GenerateConstraintChecks_unique_segment (ext : Extern) (aRegIdx : List Int)
    (iDataCur iIdxCur regNewData regOldData : Int) (pkChng : Bool)
    (overrideError : on_conflict_action) (ignoreDest : Int) (pPk : Index) (pkIx nIndex : Nat)
    (pIdx : Index) (ix : Nat) (st : UniqueState) :
    Grows sqlite3GenerateConstraintChecks_uniqueOps st.pParse
      (sqlite3GenerateConstraintChecks_unique ext aRegIdx iDataCur iIdxCur regNewData regOldData
        pkChng overrideError ignoreDest pPk pkIx nIndex pIdx ix st).pParse := by
  have hrec := Grows.widen sqlite3GenerateConstraintChecks_uniqueOps
    (sqlite3GenerateConstraintChecks_record_grows aRegIdx regNewData overrideError pIdx ix st)
    (by decide)
  unfold sqlite3GenerateConstraintChecks_unique
  simp only []
  generalize sqlite3GenerateConstraintChecks_record aRegIdx regNewData overrideError pIdx ix st
    = r at hrec ⊢
  split_ifs
  all_goals first
    | exact Grows.refl _ _
    | exact Grows.resolveLabel _ hrec
    | (simp only []
       refine Grows.trans ?_ (Grows.widen sqlite3GenerateConstraintChecks_uniqueOps
          (sqlite3GenerateConstraintChecks_resolve_grows _ _ _ _ _ _ _ _ _ _ _ _ _ _) (by decide))
       exact hrec.trans (Grows.widen sqlite3GenerateConstraintChecks_uniqueOps
        (sqlite3GenerateConstraintChecks_probe_grows _ _ _ _ _ _ _ _ _) (by decide)))

theorem sqlite3GenerateConstraintChecks_uniqueLoop_append (ext : Extern) (aRegIdx : List Int)
    (iDataCur iIdxCur regNewData regOldData : Int) (pkChng : Bool)
    (overrideError : on_conflict_action) (ignoreDest : Int) (pPk : Index) (pkIx nIndex : Nat)
    (l1 l2 : List Index) (ix : Nat) (st : UniqueState) :
    sqlite3GenerateConstraintChecks_uniqueLoop ext aRegIdx iDataCur iIdxCur regNewData
        regOldData pkChng overrideError ignoreDest pPk pkIx nIndex (l1 ++ l2) ix st
      = sqlite3GenerateConstraintChecks_uniqueLoop ext aRegIdx iDataCur iIdxCur regNewData
          regOldData pkChng overrideError ignoreDest pPk pkIx nIndex l2 (ix + l1.length)
          (sqlite3GenerateConstraintChecks_uniqueLoop ext aRegIdx iDataCur iIdxCur regNewData
            regOldData pkChng overrideError ignoreDest pPk pkIx nIndex l1 ix st) := by
  induction l1 generalizing ix st with
  | nil => simp [sqlite3GenerateConstraintChecks_uniqueLoop]
  | cons a l1 ih =>
    show sqlite3GenerateConstraintChecks_uniqueLoop ext aRegIdx iDataCur iIdxCur regNewData
        regOldData pkChng overrideError ignoreDest pPk pkIx nIndex (a :: (l1 ++ l2)) ix st = _
    rw [sqlite3GenerateConstraintChecks_uniqueLoop, ih]
    simp only [List.length_cons, sqlite3GenerateConstraintChecks_uniqueLoop]
    congr 1
    omega

theorem sqlite3GenerateConstraintChecks_uniqueLoop_step (ext : Extern) (aRegIdx : List Int)
    (iDataCur iIdxCur regNewData regOldData : Int) (pkChng : Bool)
    (overrideError : on_conflict_action) (ignoreDest : Int) (pPk : Index) (pkIx nIndex : Nat)
    (l : List Index) (st : UniqueState) (k : Nat) (hk : k < l.length) :
    sqlite3GenerateConstraintChecks_uniqueLoop ext aRegIdx iDataCur iIdxCur regNewData
        regOldData pkChng overrideError ignoreDest pPk pkIx nIndex (l.take (k + 1)) 0 st
      = sqlite3GenerateConstraintChecks_unique ext aRegIdx iDataCur iIdxCur regNewData
          regOldData pkChng overrideError ignoreDest pPk pkIx nIndex (l.get ⟨k, hk⟩) k
          (sqlite3GenerateConstraintChecks_uniqueLoop ext aRegIdx iDataCur iIdxCur regNewData
            regOldData pkChng overrideError ignoreDest pPk pkIx nIndex (l.take k) 0 st) := by
  have e : l.take (k + 1) = l.take k ++ [l.get ⟨k, hk⟩] := by
    rw [List.take_succ, List.getElem?_eq_getElem hk]
    rfl
  rw [e, sqlite3GenerateConstraintChecks_uniqueLoop_append]
  have e2 : (l.take k).length = k := by
    rw [List.length_take]
    omega
  rw [e2, Nat.zero_add]
  rfl

theorem sqlite3GenerateConstraintChecks_uniqueLoop_segments (ext : Extern)
    (aRegIdx : List Int) (iDataCur iIdxCur regNewData regOldData : Int) (pkChng : Bool)
    (overrideError : on_conflict_action) (ignoreDest : Int) (pPk : Index) (pkIx nIndex : Nat)
    (l : List Index) (ix : Nat) (st : UniqueState) :
    ∃ segs : List (List Opcode), segs.length = l.length
      ∧ (∀ seg ∈ segs, ∀ x ∈ seg, x ∈ sqlite3GenerateConstraintChecks_uniqueOps)
      ∧ ∀ k, k ≤ l.length →
        (sqlite3GenerateConstraintChecks_uniqueLoop ext aRegIdx iDataCur iIdxCur regNewData
          regOldData pkChng overrideError ignoreDest pPk pkIx nIndex (l.take k) ix st).pParse.ops
        = st.pParse.ops ++ (segs.take k).flatten := by
  induction l generalizing ix st with
  | nil => exact ⟨[], rfl, by simp, by intro k _; simp [sqlite3GenerateConstraintChecks_uniqueLoop]⟩
  | cons pIdx rest ih =>
    obtain ⟨-, seg, hseg, hin⟩ := sqlite3GenerateConstraintChecks_unique_segment ext aRegIdx
      iDataCur iIdxCur regNewData regOldData pkChng overrideError ignoreDest pPk pkIx nIndex
      pIdx ix st
    obtain ⟨segs, hl, hall, hk⟩ := ih (ix + 1)
      (sqlite3GenerateConstraintChecks_unique ext aRegIdx iDataCur iIdxCur regNewData
        regOldData pkChng overrideError ignoreDest pPk pkIx nIndex pIdx ix st)
    refine ⟨seg :: segs, by simp [hl], ?_, ?_⟩
    · intro s hs x hx
      rcases List.mem_cons.1 hs with rfl | hs
      · exact hin x hx
      · exact hall s hs x hx
    · intro k hkl
      cases k with
      | zero => simp [sqlite3GenerateConstraintChecks_uniqueLoop]
      | succ k =>
        simp only [List.take_succ_cons, sqlite3GenerateConstraintChecks_uniqueLoop,
          List.flatten_cons]
        rw [hk k (by simpa using hkl), hseg, List.append_assoc]

end CheckOrder

section CheckOrderClaim

/-- C16: the program left by one call of `sqlite3GenerateConstraintChecks` is the program it
started from followed by the instructions of the NOT NULL loop, then those of the CHECK
block, then those of the UNIQUE loop; the UNIQUE loop handles the indexes in the order of the
index list of the table, the code of the index at position `k` coming right after the code of
the indexes before it, and the index handled first is the primary index when it heads the
list. -/
theorem sqlite3GenerateConstraintChecks_order (ext : Extern) (p : Parse) (pTab : Table)
    (aRegIdx : List Int) (iDataCur iIdxCur regNewData regOldData : Int) (pkChng : Bool)
    (overrideError : on_conflict_action) (ignoreDest : Int) (aiChng : Option (List Int))
    (c : ConstraintResult)
    (h : sqlite3GenerateConstraintChecks ext p pTab aRegIdx iDataCur iIdxCur regNewData
      regOldData pkChng overrideError ignoreDest aiChng = some c) :
    ∃ (pPk : Index) (nn ck : List Opcode) (uq : List (List Opcode)),
      sqlite3PrimaryKeyIndex pTab = some pPk
      ∧ (sqlite3GenerateConstraintChecks_notNullLoop (sqlite3GetVdbe p) pTab regNewData
          overrideError ignoreDest aiChng).ops = (sqlite3GetVdbe p).ops ++ nn
      ∧ (∀ x ∈ nn, x ∈ [OP_HaltIfNull, OP_IsNull, OP_NotNull, CALL_sqlite3ExprCode])
      ∧ (sqlite3GenerateConstraintChecks_uniqueStart p pTab regNewData overrideError
          ignoreDest aiChng).pParse.ops = (sqlite3GetVdbe p).ops ++ nn ++ ck
      ∧ (∀ x ∈ ck, x ∈ [CALL_sqlite3ExprIfTrue, OP_Goto, OP_Halt])
      ∧ uq.length = pTab.pIndex.length
      ∧ (∀ seg ∈ uq, ∀ x ∈ seg, x ∈ sqlite3GenerateConstraintChecks_uniqueOps)
      ∧ (∀ k, k ≤ pTab.pIndex.length →
          (sqlite3GenerateConstraintChecks_uniqueLoop ext aRegIdx iDataCur iIdxCur regNewData
            regOldData pkChng overrideError ignoreDest pPk
            (pTab.pIndex.findIdx IsPrimaryKeyIndex) pTab.pIndex.length (pTab.pIndex.take k) 0
            (sqlite3GenerateConstraintChecks_uniqueStart p pTab regNewData overrideError
              ignoreDest aiChng)).pParse.ops
            = (sqlite3GetVdbe p).ops ++ nn ++ ck ++ (uq.take k).flatten)
      ∧ (∀ (k : Nat) (hk : k < pTab.pIndex.length),
          sqlite3GenerateConstraintChecks_uniqueLoop ext aRegIdx iDataCur iIdxCur regNewData
            regOldData pkChng overrideError ignoreDest pPk
            (pTab.pIndex.findIdx IsPrimaryKeyIndex) pTab.pIndex.length
            (pTab.pIndex.take (k + 1)) 0
            (sqlite3GenerateConstraintChecks_uniqueStart p pTab regNewData overrideError
              ignoreDest aiChng)
          = sqlite3GenerateConstraintChecks_unique ext aRegIdx iDataCur iIdxCur regNewData
              regOldData pkChng overrideError ignoreDest pPk
              (pTab.pIndex.findIdx IsPrimaryKeyIndex) pTab.pIndex.length
              (pTab.pIndex.get ⟨k, hk⟩) k
              (sqlite3GenerateConstraintChecks_uniqueLoop ext aRegIdx iDataCur iIdxCur
                regNewData regOldData pkChng overrideError ignoreDest pPk
                (pTab.pIndex.findIdx IsPrimaryKeyIndex) pTab.pIndex.length (pTab.pIndex.take k)
                0
                (sqlite3GenerateConstraintChecks_uniqueStart p pTab regNewData overrideError
                  ignoreDest aiChng)))
      ∧ c.pParse.ops = (sqlite3GetVdbe p).ops ++ nn ++ ck ++ uq.flatten
      ∧ (∀ pIdx, pTab.pIndex.head? = some pIdx → IsPrimaryKeyIndex pIdx = true →
          pPk = pIdx ∧ pTab.pIndex.findIdx IsPrimaryKeyIndex = 0) := by
  rw [sqlite3GenerateConstraintChecks_eq] at h
  cases hpk : sqlite3PrimaryKeyIndex pTab with
  | none => rw [hpk] at h; cases h
  | some pPk =>
    rw [hpk] at h
    simp only [Option.map_some', Option.some.injEq] at h
    obtain ⟨-, nn, hnn, hnn2⟩ := sqlite3GenerateConstraintChecks_notNullLoop_grows
      (sqlite3GetVdbe p) pTab regNewData overrideError ignoreDest aiChng
    obtain ⟨-, ck, hck, hck2⟩ := sqlite3GenerateConstraintChecks_checks_grows
      (sqlite3GenerateConstraintChecks_notNullLoop (sqlite3GetVdbe p) pTab regNewData
        overrideError ignoreDest aiChng) pTab regNewData overrideError ignoreDest aiChng
    obtain ⟨uq, hl, hall, hk⟩ := sqlite3GenerateConstraintChecks_uniqueLoop_segments ext
      aRegIdx iDataCur iIdxCur regNewData regOldData pkChng overrideError ignoreDest pPk
      (pTab.pIndex.findIdx IsPrimaryKeyIndex) pTab.pIndex.length pTab.pIndex 0
      (sqlite3GenerateConstraintChecks_uniqueStart p pTab regNewData overrideError ignoreDest
        aiChng)
    have hst : (sqlite3GenerateConstraintChecks_uniqueStart p pTab regNewData overrideError
        ignoreDest aiChng).pParse.ops = (sqlite3GetVdbe p).ops ++ nn ++ ck := by
      rw [← hnn]
      exact hck
    refine ⟨pPk, nn, ck, uq, rfl, hnn, hnn2, hst, hck2, hl, hall, ?_, ?_, ?_, ?_⟩
    · intro k hkl
      rw [hk k hkl, hst]
    · intro k hkl
      exact sqlite3GenerateConstraintChecks_uniqueLoop_step _ _ _ _ _ _ _ _ _ _ _ _ _ _ _ hkl
    · have := hk pTab.pIndex.length (Nat.le_refl _)
      rw [List.take_length] at this
      have e : uq.take pTab.pIndex.length = uq := by
        rw [← hl]
        exact List.take_length uq
      rw [e, hst] at this
      rw [← h]
      exact this
    · intro pIdx hh hp
      unfold sqlite3PrimaryKeyIndex at hpk
      cases hI : pTab.pIndex with
      | nil => rw [hI] at hh; cases hh
      | cons a rest =>
        rw [hI] at hh hpk
        simp only [List.head?_cons, Option.some.injEq] at hh
        subst hh
        simp only [List.find?_cons, hp, Option.some.injEq] at hpk
        exact ⟨hpk.symm, by simp [List.findIdx_cons, hp]⟩

end CheckOrderClaim

section UniqueElision

theorem sqlite3GenerateConstraintChecks_record_seenReplace (aRegIdx : List Int)
    (regNewData : Int) (overrideError : on_conflict_action) (pIdx : Index) (ix : Nat)
    (st : UniqueState) :
    (sqlite3GenerateConstraintChecks_record aRegIdx regNewData overrideError pIdx ix
      st).2.seenReplace = st.seenReplace := by
  unfold sqlite3GenerateConstraintChecks_record
  simp only []
  split_ifs <;> rfl

/-- C17 (as amended): under a statement override of Fail, Ignore or Abort one iteration of
the UNIQUE loop emits, for every index that has a register, primary index included, only the
code that builds the index entry and then resolves the label `addrUniqueOk`; over the whole
loop no `OP_NoConflict` probe, no `OP_Halt`, no `OP_Goto` and no row deletion is emitted, and
`seenReplace` keeps its value. -/
theorem sqlite3GenerateConstraintChecks_override_elides (ext : Extern) (aRegIdx : List Int)
    (iDataCur iIdxCur regNewData regOldData : Int) (pkChng : Bool)
    (overrideError : on_conflict_action) (ignoreDest : Int) (pPk : Index) (pkIx nIndex : Nat)
    (hov : overrideError = ON_CONFLICT_ACTION_FAIL ∨ overrideError = ON_CONFLICT_ACTION_IGNORE
      ∨ overrideError = ON_CONFLICT_ACTION_ABORT) :
    (∀ (pIdx : Index) (ix : Nat) (st : UniqueState),
      sqlite3GenerateConstraintChecks_unique ext aRegIdx iDataCur iIdxCur regNewData regOldData
          pkChng overrideError ignoreDest pPk pkIx nIndex pIdx ix st
        = if aRegIdx.getD ix 0 = 0 then st
          else
            { (sqlite3GenerateConstraintChecks_record aRegIdx regNewData overrideError pIdx ix
                st).2 with
              pParse := sqlite3VdbeResolveLabel
                (sqlite3GenerateConstraintChecks_record aRegIdx regNewData overrideError pIdx ix
                  st).2.pParse
                (sqlite3GenerateConstraintChecks_record aRegIdx regNewData overrideError pIdx ix
                  st).1.addrUniqueOk })
    ∧ (∀ (l : List Index) (ix : Nat) (st : UniqueState),
      (∃ cs,
        (sqlite3GenerateConstraintChecks_uniqueLoop ext aRegIdx iDataCur iIdxCur regNewData
          regOldData pkChng overrideError ignoreDest pPk pkIx nIndex l ix st).pParse.ops
          = st.pParse.ops ++ cs
        ∧ ∀ c ∈ cs, c ∈ sqlite3GenerateConstraintChecks_recordOps)
      ∧ (sqlite3GenerateConstraintChecks_uniqueLoop ext aRegIdx iDataCur iIdxCur regNewData
          regOldData pkChng overrideError ignoreDest pPk pkIx nIndex l ix st).seenReplace
        = st.seenReplace)
    ∧ OP_NoConflict ∉ sqlite3GenerateConstraintChecks_recordOps
    ∧ OP_Halt ∉ sqlite3GenerateConstraintChecks_recordOps
    ∧ OP_Goto ∉ sqlite3GenerateConstraintChecks_recordOps
    ∧ CALL_sqlite3GenerateRowDelete ∉ sqlite3GenerateConstraintChecks_recordOps := by
  have h1 : ∀ (pIdx : Index) (ix : Nat) (st : UniqueState),
      sqlite3GenerateConstraintChecks_unique ext aRegIdx iDataCur iIdxCur regNewData regOldData
          pkChng overrideError ignoreDest pPk pkIx nIndex pIdx ix st
        = if aRegIdx.getD ix 0 = 0 then st
          else
            { (sqlite3GenerateConstraintChecks_record aRegIdx regNewData overrideError pIdx ix
                st).2 with
              pParse := sqlite3VdbeResolveLabel
                (sqlite3GenerateConstraintChecks_record aRegIdx regNewData overrideError pIdx ix
                  st).2.pParse
                (sqlite3GenerateConstraintChecks_record aRegIdx regNewData overrideError pIdx ix
                  st).1.addrUniqueOk } := by
    intro pIdx ix st
    unfold sqlite3GenerateConstraintChecks_unique
    simp only []
    by_cases h0 : aRegIdx.getD ix 0 = 0
    · rw [if_pos h0, if_pos h0]
    · rw [if_neg h0, if_neg h0]
      generalize sqlite3GenerateConstraintChecks_record aRegIdx regNewData overrideError pIdx ix
        st = r
      by_cases c1 : decide (regOldData ≠ 0) = true ∧ ix = pkIx ∧ pkChng = false
      · rw [if_pos c1]
      · rw [if_neg c1]
        by_cases c2 : pIdx.onError = ON_CONFLICT_ACTION_NONE
        · rw [if_pos c2]
        · rw [if_neg c2, if_pos hov]
  refine ⟨h1, ?_, by decide, by decide, by decide, by decide⟩
  intro l
  induction l with
  | nil =>
    intro ix st
    exact ⟨⟨[], by simp [sqlite3GenerateConstraintChecks_uniqueLoop], by simp⟩, rfl⟩
  | cons pIdx rest ih =>
    intro ix st
    unfold sqlite3GenerateConstraintChecks_uniqueLoop
    obtain ⟨⟨cs, hcs, hin⟩, hsr⟩ := ih (ix + 1)
      (sqlite3GenerateConstraintChecks_unique ext aRegIdx iDataCur iIdxCur regNewData regOldData
          pkChng overrideError ignoreDest pPk pkIx nIndex pIdx ix st)
    rw [hcs, hsr, h1]
    by_cases h0 : aRegIdx.getD ix 0 = 0
    · rw [if_pos h0]
      exact ⟨⟨cs, rfl, hin⟩, rfl⟩
    · rw [if_neg h0]
      obtain ⟨-, cs0, h0s, h0in⟩ := sqlite3GenerateConstraintChecks_record_grows aRegIdx
        regNewData overrideError pIdx ix st
      refine ⟨⟨cs0 ++ cs, ?_, ?_⟩, sqlite3GenerateConstraintChecks_record_seenReplace aRegIdx regNewData overrideError
        pIdx ix st⟩
      · show (sqlite3GenerateConstraintChecks_record aRegIdx regNewData overrideError pIdx ix
          st).2.pParse.ops ++ cs = _
        rw [h0s, List.append_assoc]
      · intro c hc
        rcases List.mem_append.1 hc with hc | hc
        · exact h0in c hc
        · exact hin c hc

end UniqueElision

section ConflictHandler

theorem specUniquePolicy_eq (overrideError : on_conflict_action) (pIdx : Index) :
    (if overrideError ≠ ON_CONFLICT_ACTION_DEFAULT then overrideError
      else if pIdx.onError = ON_CONFLICT_ACTION_DEFAULT then ON_CONFLICT_ACTION_ABORT
      else pIdx.onError) = specUniquePolicy overrideError pIdx := by
  unfold specUniquePolicy
  by_cases h1 : overrideError = ON_CONFLICT_ACTION_DEFAULT <;>
    by_cases h2 : pIdx.onError = ON_CONFLICT_ACTION_DEFAULT <;> simp [h1, h2]

theorem sqlite3UniqueConstraint_aOp (p : Parse) (onError : on_conflict_action) (pIdx : Index) :
    (sqlite3UniqueConstraint p onError pIdx).aOp
      = p.aOp ++ [{ opcode := OP_Halt,
                    p1 := if IsPrimaryKeyIndex pIdx then SQLITE_CONSTRAINT_PRIMARYKEY
                      else SQLITE_CONSTRAINT_UNIQUE,
                    p2 := onError.toInt, p4 := P4_STRING pIdx.zName,
                    p5 := [P5_ConstraintUnique] }] := by
  unfold sqlite3UniqueConstraint
  rw [sqlite3HaltConstraint_aOp]

theorem sqlite3GenerateConstraintChecks_resolve_code (ext : Extern) (pTab : Table)
    (iDataCur iIdxCur : Int) (ignoreDest : Int) (onError : on_conflict_action) (pPk : Index)
    (pkIx : Nat) (pIdx : Index) (ix : Nat) (U : UniqueLocals) (regR : Int) (seenReplace : Int)
    (q : Parse) :
    (sqlite3GenerateConstraintChecks_resolve ext pTab iDataCur iIdxCur ignoreDest onError pPk
        pkIx pIdx ix U regR seenReplace q).1.aOp
      = q.aOp ++ uniqueConflictCode ext q.user_session pTab iDataCur iIdxCur ignoreDest onError
          pPk pkIx pIdx ix regR
    ∧ (sqlite3GenerateConstraintChecks_resolve ext pTab iDataCur iIdxCur ignoreDest onError pPk
        pkIx pIdx ix U regR seenReplace q).2
      = (if onError = ON_CONFLICT_ACTION_FAIL ∨ onError = ON_CONFLICT_ACTION_ROLLBACK
            ∨ onError = ON_CONFLICT_ACTION_ABORT ∨ onError = ON_CONFLICT_ACTION_IGNORE then
          seenReplace else 1) := by
  have ht : decide ((if q.user_session.SQLITE_RecTriggers = true then
        (ext.sqlite3TriggersExist pTab TK_DELETE).1 else []) ≠ [])
      = decide (q.user_session.SQLITE_RecTriggers = true
          ∧ (ext.sqlite3TriggersExist pTab TK_DELETE).1 ≠ []) := by
    cases q.user_session.SQLITE_RecTriggers <;> simp
  have hm : (sqlite3MultiWrite q).user_session = q.user_session := rfl
  unfold sqlite3GenerateConstraintChecks_resolve uniqueConflictCode
  cases onError
  all_goals
    simp only [hm, ht, sqlite3ReleaseTempRange, ite_self]
    refine ⟨?_, ?_⟩
    · simp [sqlite3VdbeResolveLabel, sqlite3UniqueConstraint_aOp,
        sqlite3VdbeGoto, sqlite3VdbeAddOp3, sqlite3VdbeAddOp, sqlite3MultiWrite]
    · simp

end ConflictHandler

section UniqueIteration

theorem sqlite3GenerateConstraintChecks_unique_cases (ext : Extern) (aRegIdx : List Int)
    (iDataCur iIdxCur regNewData regOldData : Int) (pkChng : Bool)
    (overrideError : on_conflict_action) (ignoreDest : Int) (pPk : Index) (pkIx nIndex : Nat)
    (pIdx : Index) (ix : Nat) (st : UniqueState) (h0 : aRegIdx.getD ix 0 ≠ 0) :
    sqlite3GenerateConstraintChecks_unique ext aRegIdx iDataCur iIdxCur regNewData regOldData
        pkChng overrideError ignoreDest pPk pkIx nIndex pIdx ix st
      = if uniqueTestElided ext
            (sqlite3GenerateConstraintChecks_record aRegIdx regNewData overrideError pIdx ix
              st).2.pParse.user_session
            (sqlite3GenerateConstraintChecks_record aRegIdx regNewData overrideError pIdx ix
              st).2.pTab
            regOldData pkChng overrideError pkIx nIndex pIdx ix then
          { (sqlite3GenerateConstraintChecks_record aRegIdx regNewData overrideError pIdx ix
              st).2 with
            pParse := sqlite3VdbeResolveLabel
              (sqlite3GenerateConstraintChecks_record aRegIdx regNewData overrideError pIdx ix
                st).2.pParse
              (sqlite3GenerateConstraintChecks_record aRegIdx regNewData overrideError pIdx ix
                st).1.addrUniqueOk }
        else
          { (sqlite3GenerateConstraintChecks_record aRegIdx regNewData overrideError pIdx ix
              st).2 with
            pParse :=
              (sqlite3GenerateConstraintChecks_resolve ext
                (sqlite3GenerateConstraintChecks_record aRegIdx regNewData overrideError pIdx ix
                  st).2.pTab
                iDataCur iIdxCur ignoreDest (specUniquePolicy overrideError pIdx) pPk pkIx pIdx
                ix
                (sqlite3GenerateConstraintChecks_record aRegIdx regNewData overrideError pIdx ix
                  st).1
                (sqlite3GenerateConstraintChecks_probe iIdxCur regOldData
                  (specUniquePolicy overrideError pIdx) pPk pkIx pIdx ix
                  (sqlite3GenerateConstraintChecks_record aRegIdx regNewData overrideError pIdx
                    ix st).1
                  (sqlite3GenerateConstraintChecks_record aRegIdx regNewData overrideError pIdx
                    ix st).2.pParse).1
                (sqlite3GenerateConstraintChecks_record aRegIdx regNewData overrideError pIdx ix
                  st).2.seenReplace
                (sqlite3GenerateConstraintChecks_probe iIdxCur regOldData
                  (specUniquePolicy overrideError pIdx) pPk pkIx pIdx ix
                  (sqlite3GenerateConstraintChecks_record aRegIdx regNewData overrideError pIdx
                    ix st).1
                  (sqlite3GenerateConstraintChecks_record aRegIdx regNewData overrideError pIdx
                    ix st).2.pParse).2).1,
            seenReplace :=
              (sqlite3GenerateConstraintChecks_resolve ext
                (sqlite3GenerateConstraintChecks_record aRegIdx regNewData overrideError pIdx ix
                  st).2.pTab
                iDataCur iIdxCur ignoreDest (specUniquePolicy overrideError pIdx) pPk pkIx pIdx
                ix
                (sqlite3GenerateConstraintChecks_record aRegIdx regNewData overrideError pIdx ix
                  st).1
                (sqlite3GenerateConstraintChecks_probe iIdxCur regOldData
                  (specUniquePolicy overrideError pIdx) pPk pkIx pIdx ix
                  (sqlite3GenerateConstraintChecks_record aRegIdx regNewData overrideError pIdx
                    ix st).1
                  (sqlite3GenerateConstraintChecks_record aRegIdx regNewData overrideError pIdx
                    ix st).2.pParse).1
                (sqlite3GenerateConstraintChecks_record aRegIdx regNewData overrideError pIdx ix
                  st).2.seenReplace
                (sqlite3GenerateConstraintChecks_probe iIdxCur regOldData
                  (specUniquePolicy overrideError pIdx) pPk pkIx pIdx ix
                  (sqlite3GenerateConstraintChecks_record aRegIdx regNewData overrideError pIdx
                    ix st).1
                  (sqlite3GenerateConstraintChecks_record aRegIdx regNewData overrideError pIdx
                    ix st).2.pParse).2).2 } := by
  unfold sqlite3GenerateConstraintChecks_unique uniqueTestElided
  simp only []
  rw [if_neg h0]
  generalize sqlite3GenerateConstraintChecks_record aRegIdx regNewData overrideError pIdx ix
    st = r
  rw [specUniquePolicy_eq]
  by_cases c1 : decide (regOldData ≠ 0) = true ∧ ix = pkIx ∧ pkChng = false
  · rw [if_pos c1, if_pos]
    left
    simpa using c1
  rw [if_neg c1]
  have c1' : ¬ (regOldData ≠ 0 ∧ ix = pkIx ∧ pkChng = false) := by simpa using c1
  by_cases c2 : pIdx.onError = ON_CONFLICT_ACTION_NONE
  · rw [if_pos c2, if_pos (Or.inr (Or.inl c2))]
  rw [if_neg c2]
  by_cases c3 : overrideError = ON_CONFLICT_ACTION_FAIL
      ∨ overrideError = ON_CONFLICT_ACTION_IGNORE ∨ overrideError = ON_CONFLICT_ACTION_ABORT
  · rw [if_pos c3, if_pos (Or.inr (Or.inr (Or.inl c3)))]
  rw [if_neg c3]
  by_cases c4 : (ix = 0 ∧ nIndex = ix + 1)
      ∧ specUniquePolicy overrideError pIdx = ON_CONFLICT_ACTION_REPLACE
      ∧ (r.2.pParse.user_session.SQLITE_RecTriggers = false
          ∨ (ext.sqlite3TriggersExist r.2.pTab TK_DELETE).1 = [])
      ∧ (r.2.pParse.user_session.SQLITE_ForeignKeys = false
          ∨ (r.2.pTab.pFKey = [] ∧ ext.sqlite3FkReferences r.2.pTab = false))
  · rw [if_pos c4, if_pos (Or.inr (Or.inr (Or.inr c4)))]
  rw [if_neg c4, if_neg]
  rintro (h | h | h | h)
  · exact c1' h
  · exact c2 h
  · exact c3 h
  · exact c4 h

end UniqueIteration

section ConflictHandlerClaim

/-- C18: for an index that has a register and whose uniqueness test is not elided, the code
emitted after the probe is chosen by the resolved policy (the statement override if it is not
Default, else the declared policy of the index, else Abort): Rollback and Fail append an
`OP_Halt` with the uniqueness code, the policy and the name of the index; Ignore appends
`OP_Goto ignoreDest`; Abort appends nothing; Replace appends the deletion of the conflicting
row, identified by the `nKeyCol` primary-key registers from `regR` on, and passes delete
triggers exactly when `SQLITE_RecTriggers` is set and the table has some, and sets
`seenReplace`. -/
theorem sqlite3GenerateConstraintChecks_conflict_handler (ext : Extern) (aRegIdx : List Int)
    (iDataCur iIdxCur regNewData regOldData : Int) (pkChng : Bool)
    (overrideError : on_conflict_action) (ignoreDest : Int) (pPk : Index) (pkIx nIndex : Nat)
    (pIdx : Index) (ix : Nat) (st : UniqueState) (h0 : aRegIdx.getD ix 0 ≠ 0)
    (hne : ¬ uniqueTestElided ext
      (sqlite3GenerateConstraintChecks_record aRegIdx regNewData overrideError pIdx ix
        st).2.pParse.user_session
      (sqlite3GenerateConstraintChecks_record aRegIdx regNewData overrideError pIdx ix st).2.pTab
      regOldData pkChng overrideError pkIx nIndex pIdx ix) :
    ∃ (regR : Int) (q : Parse),
      sqlite3GenerateConstraintChecks_probe iIdxCur regOldData
          (specUniquePolicy overrideError pIdx) pPk pkIx pIdx ix
          (sqlite3GenerateConstraintChecks_record aRegIdx regNewData overrideError pIdx ix st).1
          (sqlite3GenerateConstraintChecks_record aRegIdx regNewData overrideError pIdx ix
            st).2.pParse = (regR, q)
      ∧ ((specUniquePolicy overrideError pIdx = ON_CONFLICT_ACTION_ROLLBACK
            ∨ specUniquePolicy overrideError pIdx = ON_CONFLICT_ACTION_FAIL) →
          (sqlite3GenerateConstraintChecks_unique ext aRegIdx iDataCur iIdxCur regNewData
              regOldData pkChng overrideError ignoreDest pPk pkIx nIndex pIdx ix st).pParse.aOp
            = q.aOp ++ [{ opcode := OP_Halt,
                          p1 := if IsPrimaryKeyIndex pIdx then SQLITE_CONSTRAINT_PRIMARYKEY
                            else SQLITE_CONSTRAINT_UNIQUE,
                          p2 := (specUniquePolicy overrideError pIdx).toInt,
                          p4 := P4_STRING pIdx.zName, p5 := [P5_ConstraintUnique] }]
          ∧ (sqlite3GenerateConstraintChecks_unique ext aRegIdx iDataCur iIdxCur regNewData
              regOldData pkChng overrideError ignoreDest pPk pkIx nIndex pIdx ix st).seenReplace
            = st.seenReplace)
      ∧ (specUniquePolicy overrideError pIdx = ON_CONFLICT_ACTION_IGNORE →
          (sqlite3GenerateConstraintChecks_unique ext aRegIdx iDataCur iIdxCur regNewData
              regOldData pkChng overrideError ignoreDest pPk pkIx nIndex pIdx ix st).pParse.aOp
            = q.aOp ++ [{ opcode := OP_Goto, p2 := ignoreDest }]
          ∧ (sqlite3GenerateConstraintChecks_unique ext aRegIdx iDataCur iIdxCur regNewData
              regOldData pkChng overrideError ignoreDest pPk pkIx nIndex pIdx ix st).seenReplace
            = st.seenReplace)
      ∧ (specUniquePolicy overrideError pIdx = ON_CONFLICT_ACTION_ABORT →
          (sqlite3GenerateConstraintChecks_unique ext aRegIdx iDataCur iIdxCur regNewData
              regOldData pkChng overrideError ignoreDest pPk pkIx nIndex pIdx ix st).pParse.aOp
            = q.aOp
          ∧ (sqlite3GenerateConstraintChecks_unique ext aRegIdx iDataCur iIdxCur regNewData
              regOldData pkChng overrideError ignoreDest pPk pkIx nIndex pIdx ix st).seenReplace
            = st.seenReplace)
      ∧ (specUniquePolicy overrideError pIdx = ON_CONFLICT_ACTION_REPLACE →
          ∃ hasTrigger : Bool,
            (sqlite3GenerateConstraintChecks_unique ext aRegIdx iDataCur iIdxCur regNewData
                regOldData pkChng overrideError ignoreDest pPk pkIx nIndex pIdx ix
                st).pParse.aOp
              = q.aOp ++ [{ opcode := CALL_sqlite3GenerateRowDelete, p1 := iDataCur,
                            p2 := iIdxCur, p3 := regR,
                            p4 := P4_ARGS ON_CONFLICT_ACTION_REPLACE pPk.nKeyCol hasTrigger,
                            p5 := [if ix = pkIx then ONEPASS_SINGLE else ONEPASS_OFF] }]
            ∧ (hasTrigger = true ↔
                (q.user_session.SQLITE_RecTriggers = true
                  ∧ (ext.sqlite3TriggersExist
                      (sqlite3GenerateConstraintChecks_record aRegIdx regNewData overrideError
                        pIdx ix st).2.pTab TK_DELETE).1 ≠ []))
            ∧ (sqlite3GenerateConstraintChecks_unique ext aRegIdx iDataCur iIdxCur regNewData
                regOldData pkChng overrideError ignoreDest pPk pkIx nIndex pIdx ix
                st).seenReplace = 1) := by
  rw [sqlite3GenerateConstraintChecks_unique_cases _ _ _ _ _ _ _ _ _ _ _ _ _ _ _ h0, if_neg hne]
  have hsr := sqlite3GenerateConstraintChecks_record_seenReplace aRegIdx regNewData
    overrideError pIdx ix st
  generalize sqlite3GenerateConstraintChecks_record aRegIdx regNewData overrideError pIdx ix
    st = r at hsr ⊢
  generalize specUniquePolicy overrideError pIdx = pol
  generalize hpq : sqlite3GenerateConstraintChecks_probe iIdxCur regOldData pol pPk pkIx pIdx ix
    r.1 r.2.pParse = pq
  obtain ⟨regR, q⟩ := pq
  refine ⟨regR, q, rfl, ?_⟩
  simp only []
  obtain ⟨e1, e2⟩ := sqlite3GenerateConstraintChecks_resolve_code ext r.2.pTab iDataCur iIdxCur
    ignoreDest pol pPk pkIx pIdx ix r.1 regR r.2.seenReplace q
  rw [e1, e2, hsr]
  unfold uniqueConflictCode
  refine ⟨?_, ?_, ?_, ?_⟩
  · rintro (h | h) <;> subst h <;> simp
  · rintro rfl
    simp
  · rintro rfl
    simp
  · rintro rfl
    exact ⟨_, rfl, by simp, by simp⟩

end ConflictHandlerClaim

section SessionFrame

theorem sqlite3GetVdbe_user_session (p : Parse) :
    (sqlite3GetVdbe p).user_session = p.user_session := by
  unfold sqlite3GetVdbe
  split_ifs <;> rfl

theorem sqlite3GenerateConstraintChecks_notNull_user_session (p : Parse) (pTab : Table)
    (regNewData : Int) (overrideError : on_conflict_action) (ignoreDest : Int)
    (aiChng : Option (List Int)) (i : Nat) :
    (sqlite3GenerateConstraintChecks_notNull p pTab regNewData overrideError ignoreDest aiChng
      i).user_session = p.user_session := by
  cases hc : notNullChecked pTab aiChng i
  · rw [sqlite3GenerateConstraintChecks_notNull_skip _ _ _ _ _ _ _ hc]
  · rw [sqlite3GenerateConstraintChecks_notNull_checked _ _ _ _ _ _ _ hc]
    generalize specNotNullPolicy pTab overrideError i = pol
    cases pol <;> simp only [] <;> rfl

theorem sqlite3GenerateConstraintChecks_notNullLoop_user_session (p : Parse) (pTab : Table)
    (regNewData : Int) (overrideError : on_conflict_action) (ignoreDest : Int)
    (aiChng : Option (List Int)) :
    (sqlite3GenerateConstraintChecks_notNullLoop p pTab regNewData overrideError ignoreDest
      aiChng).user_session = p.user_session := by
  unfold sqlite3GenerateConstraintChecks_notNullLoop
  generalize List.range pTab.nCol = l
  induction l generalizing p with
  | nil => rfl
  | cons i rest ih =>
    rw [List.foldl_cons, ih, sqlite3GenerateConstraintChecks_notNull_user_session]

theorem sqlite3HaltConstraint_user_session (p : Parse) (errCode : Int)
    (onError : on_conflict_action) (p4 : String) (p5 : OpFlag) :
    (sqlite3HaltConstraint p errCode onError p4 p5).user_session = p.user_session := by
  unfold sqlite3HaltConstraint
  simp only []
  split_ifs <;> rfl

theorem sqlite3GenerateConstraintChecks_check_user_session (pTab : Table) (ignoreDest : Int)
    (aiChng : Option (List Int)) (l : List ExprList_item) (onError : on_conflict_action)
    (p : Parse) :
    (sqlite3GenerateConstraintChecks_check pTab ignoreDest aiChng l onError p).user_session
      = p.user_session := by
  induction l generalizing onError p with
  | nil => rfl
  | cons item rest ih =>
    unfold sqlite3GenerateConstraintChecks_check
    simp only []
    split_ifs
    · exact ih _ _
    · rw [ih]; rfl
    all_goals
      rw [ih]
      simp only [sqlite3VdbeResolveLabel, sqlite3HaltConstraint_user_session, sqlite3VdbeAddOp,
        sqlite3VdbeMakeLabel]

theorem sqlite3GenerateConstraintChecks_checks_user_session (p : Parse) (pTab : Table)
    (regNewData : Int) (overrideError : on_conflict_action) (ignoreDest : Int)
    (aiChng : Option (List Int)) :
    (sqlite3GenerateConstraintChecks_checks p pTab regNewData overrideError ignoreDest
      aiChng).user_session = p.user_session := by
  unfold sqlite3GenerateConstraintChecks_checks
  by_cases h : pTab.pCheck.isSome = true ∧ p.user_session.SQLITE_IgnoreChecks = false
  · rw [if_pos h]
    simp only []
    rw [sqlite3GenerateConstraintChecks_check_user_session]
    rfl
  · rw [if_neg h]

theorem sqlite3GenerateConstraintChecks_uniqueStart_user_session (p : Parse) (pTab : Table)
    (regNewData : Int) (overrideError : on_conflict_action) (ignoreDest : Int)
    (aiChng : Option (List Int)) :
    (sqlite3GenerateConstraintChecks_uniqueStart p pTab regNewData overrideError ignoreDest
      aiChng).pParse.user_session = p.user_session := by
  unfold sqlite3GenerateConstraintChecks_uniqueStart
  simp only []
  rw [sqlite3GenerateConstraintChecks_checks_user_session,
    sqlite3GenerateConstraintChecks_notNullLoop_user_session, sqlite3GetVdbe_user_session]

theorem sqlite3TableAffinity_user_session (p : Parse) (pTab : Table) (iReg : Int) :
    (sqlite3TableAffinity p pTab iReg).2.user_session = p.user_session := by
  unfold sqlite3TableAffinity
  simp only []
  split_ifs <;> rfl

theorem sqlite3TableAffinity_table (p : Parse) (pTab : Table) (iReg : Int) :
    (sqlite3TableAffinity p pTab iReg).1 = pTab.withAffinity := by
  unfold sqlite3TableAffinity Table.withAffinity
  simp only []
  split_ifs <;> rfl

theorem sqlite3GenerateConstraintChecks_entry_user_session (pTab : Table) (pIdx : Index)
    (regNewData regIdx : Int) (l : List Int) (i : Nat) (p : Parse) :
    (sqlite3GenerateConstraintChecks_entry pTab pIdx regNewData regIdx l i p).user_session
      = p.user_session := by
  induction l generalizing i p with
  | nil => rfl
  | cons x rest ih =>
    unfold sqlite3GenerateConstraintChecks_entry
    simp only []
    rw [ih]
    split_ifs <;> rfl

theorem sqlite3GenerateConstraintChecks_record_state (aRegIdx : List Int)
    (regNewData : Int) (overrideError : on_conflict_action) (pIdx : Index) (ix : Nat)
    (st : UniqueState) :
    (sqlite3GenerateConstraintChecks_record aRegIdx regNewData overrideError pIdx ix
        st).2.pParse.user_session = st.pParse.user_session
    ∧ (sqlite3GenerateConstraintChecks_record aRegIdx regNewData overrideError pIdx ix
        st).2.pTab = (if st.bAffinityDone = false then st.pTab.withAffinity else st.pTab)
    ∧ (sqlite3GenerateConstraintChecks_record aRegIdx regNewData overrideError pIdx ix
        st).2.bAffinityDone = true := by
  unfold sqlite3GenerateConstraintChecks_record
  simp only []
  refine ⟨?_, ?_, ?_⟩
  · have h1 : (if st.bAffinityDone = false then
        ({ st with pParse := (sqlite3TableAffinity st.pParse st.pTab (regNewData + 1)).2,
                   pTab := (sqlite3TableAffinity st.pParse st.pTab (regNewData + 1)).1,
                   bAffinityDone := true } : UniqueState)
       else st).pParse.user_session = st.pParse.user_session := by
      split_ifs
      · exact sqlite3TableAffinity_user_session _ _ _
      · rfl
    generalize (if st.bAffinityDone = false then
        ({ st with pParse := (sqlite3TableAffinity st.pParse st.pTab (regNewData + 1)).2,
                   pTab := (sqlite3TableAffinity st.pParse st.pTab (regNewData + 1)).1,
                   bAffinityDone := true } : UniqueState)
       else st) = st1 at h1 ⊢
    rw [← h1]
    split_ifs <;>
      simp only [sqlite3VdbeAddOp3, sqlite3VdbeAddOp2, sqlite3VdbeAddOp, sqlite3VdbeResolveLabel,
        sqlite3VdbeMakeLabel, Parse.setCkBase,
        sqlite3GenerateConstraintChecks_entry_user_session]
  · split_ifs with h
    · exact sqlite3TableAffinity_table _ _ _
    · rfl
  · split_ifs with h
    · rfl
    · simpa using h

end SessionFrame

section MayReplace

theorem uniqueTestElided_session (ext : Extern) (s s' : Session) (pTab : Table)
    (regOldData : Int) (pkChng : Bool) (overrideError : on_conflict_action) (pkIx nIndex : Nat)
    (pIdx : Index) (ix : Nat) (h : ix = 0 → s' = s) :
    uniqueTestElided ext s' pTab regOldData pkChng overrideError pkIx nIndex pIdx ix
      ↔ uniqueTestElided ext s pTab regOldData pkChng overrideError pkIx nIndex pIdx ix := by
  by_cases h0 : ix = 0
  · rw [h h0]
  · unfold uniqueTestElided
    simp [h0]

theorem specUniquePolicy_valid (overrideError : on_conflict_action) (pIdx : Index)
    (hov : overrideError ≠ ON_CONFLICT_ACTION_NONE)
    (hix : pIdx.onError ≠ ON_CONFLICT_ACTION_NONE) :
    (specUniquePolicy overrideError pIdx = ON_CONFLICT_ACTION_FAIL
      ∨ specUniquePolicy overrideError pIdx = ON_CONFLICT_ACTION_ROLLBACK
      ∨ specUniquePolicy overrideError pIdx = ON_CONFLICT_ACTION_ABORT
      ∨ specUniquePolicy overrideError pIdx = ON_CONFLICT_ACTION_IGNORE)
    ↔ specUniquePolicy overrideError pIdx ≠ ON_CONFLICT_ACTION_REPLACE := by
  unfold specUniquePolicy
  by_cases h1 : overrideError = ON_CONFLICT_ACTION_DEFAULT
  · by_cases h2 : pIdx.onError = ON_CONFLICT_ACTION_DEFAULT
    · simp [h1, h2]
    · simp only [h1, h2, ne_eq, not_true_eq_false, if_false, not_false_eq_true, if_true]
      revert hix h2
      cases pIdx.onError <;> simp
  · simp only [h1, ne_eq, not_false_eq_true, if_true]
    revert hov h1
    cases overrideError <;> simp

theorem sqlite3GenerateConstraintChecks_unique_seenReplace (ext : Extern) (aRegIdx : List Int)
    (iDataCur iIdxCur regNewData regOldData : Int) (pkChng : Bool)
    (overrideError : on_conflict_action) (ignoreDest : Int) (pPk : Index) (pkIx nIndex : Nat)
    (hov : overrideError ≠ ON_CONFLICT_ACTION_NONE) (pTab : Table) (s : Session)
    (pIdx : Index) (ix : Nat) (st : UniqueState)
    (hT : (st.bAffinityDone = false ∧ st.pTab = pTab)
      ∨ (st.bAffinityDone = true ∧ st.pTab = pTab.withAffinity))
    (hS : ix = 0 → st.pParse.user_session = s) :
    ((sqlite3GenerateConstraintChecks_unique ext aRegIdx iDataCur iIdxCur regNewData regOldData
        pkChng overrideError ignoreDest pPk pkIx nIndex pIdx ix st).seenReplace
      = if reachesReplaceHandler ext s pTab.withAffinity aRegIdx regOldData pkChng overrideError
            pkIx nIndex pIdx ix then 1 else st.seenReplace)
    ∧ ((sqlite3GenerateConstraintChecks_unique ext aRegIdx iDataCur iIdxCur regNewData
          regOldData pkChng overrideError ignoreDest pPk pkIx nIndex pIdx ix st).bAffinityDone
          = false
        ∧ (sqlite3GenerateConstraintChecks_unique ext aRegIdx iDataCur iIdxCur regNewData
          regOldData pkChng overrideError ignoreDest pPk pkIx nIndex pIdx ix st).pTab = pTab
      ∨ (sqlite3GenerateConstraintChecks_unique ext aRegIdx iDataCur iIdxCur regNewData
          regOldData pkChng overrideError ignoreDest pPk pkIx nIndex pIdx ix st).bAffinityDone
          = true
        ∧ (sqlite3GenerateConstraintChecks_unique ext aRegIdx iDataCur iIdxCur regNewData
          regOldData pkChng overrideError ignoreDest pPk pkIx nIndex pIdx ix st).pTab
          = pTab.withAffinity) := by
  by_cases h0 : aRegIdx.getD ix 0 = 0
  · have e : sqlite3GenerateConstraintChecks_unique ext aRegIdx iDataCur iIdxCur regNewData
        regOldData pkChng overrideError ignoreDest pPk pkIx nIndex pIdx ix st = st := by
      unfold sqlite3GenerateConstraintChecks_unique
      simp only []
      rw [if_pos h0]
    rw [e, if_neg (fun h => h.1 h0)]
    exact ⟨rfl, hT⟩
  · rw [sqlite3GenerateConstraintChecks_unique_cases _ _ _ _ _ _ _ _ _ _ _ _ _ _ _ h0]
    obtain ⟨r1, r2, r3⟩ := sqlite3GenerateConstraintChecks_record_state aRegIdx regNewData
      overrideError pIdx ix st
    have r4 := sqlite3GenerateConstraintChecks_record_seenReplace aRegIdx regNewData
      overrideError pIdx ix st
    have r2' : (sqlite3GenerateConstraintChecks_record aRegIdx regNewData overrideError pIdx ix
        st).2.pTab = pTab.withAffinity := by
      rw [r2]
      rcases hT with ⟨a, b⟩ | ⟨a, b⟩
      · rw [if_pos a, b]
      · rw [if_neg (by simp [a]), b]
    generalize sqlite3GenerateConstraintChecks_record aRegIdx regNewData overrideError pIdx ix
      st = r at r1 r2 r3 r4 r2' ⊢
    have hel := uniqueTestElided_session ext s r.2.pParse.user_session pTab.withAffinity
      regOldData pkChng overrideError pkIx nIndex pIdx ix (fun h => by rw [r1]; exact hS h)
    rw [← r2'] at hel
    by_cases he : uniqueTestElided ext s pTab.withAffinity regOldData pkChng overrideError pkIx
        nIndex pIdx ix
    · rw [if_pos (by rw [← r2'] at he; exact hel.2 he), if_neg (fun h => h.2.1 he)]
      exact ⟨r4, Or.inr ⟨r3, r2'⟩⟩
    · rw [if_neg (fun h => by rw [← r2'] at he; exact he (hel.1 h))]
      refine ⟨?_, Or.inr ⟨r3, r2'⟩⟩
      simp only []
      rw [(sqlite3GenerateConstraintChecks_resolve_code _ _ _ _ _ _ _ _ _ _ _ _ _ _).2, r4]
      have hix : pIdx.onError ≠ ON_CONFLICT_ACTION_NONE := by
        intro h
        exact he (Or.inr (Or.inl h))
      have hv := specUniquePolicy_valid overrideError pIdx hov hix
      by_cases hp : specUniquePolicy overrideError pIdx = ON_CONFLICT_ACTION_REPLACE
      · rw [if_neg (fun h => (hv.1 h) hp), if_pos ⟨h0, he, hp⟩]
      · rw [if_pos (hv.2 hp), if_neg (fun h => hp h.2.2)]

theorem sqlite3GenerateConstraintChecks_uniqueLoop_seenReplace (ext : Extern)
    (aRegIdx : List Int) (iDataCur iIdxCur regNewData regOldData : Int) (pkChng : Bool)
    (overrideError : on_conflict_action) (ignoreDest : Int) (pPk : Index) (pkIx nIndex : Nat)
    (hov : overrideError ≠ ON_CONFLICT_ACTION_NONE) (pTab : Table) (s : Session)
    (l : List Index) (ix : Nat) (st : UniqueState)
    (hT : (st.bAffinityDone = false ∧ st.pTab = pTab)
      ∨ (st.bAffinityDone = true ∧ st.pTab = pTab.withAffinity))
    (hS : ix = 0 → st.pParse.user_session = s)
    (h01 : st.seenReplace = 0 ∨ st.seenReplace = 1) :
    ((sqlite3GenerateConstraintChecks_uniqueLoop ext aRegIdx iDataCur iIdxCur regNewData
        regOldData pkChng overrideError ignoreDest pPk pkIx nIndex l ix st).seenReplace = 1
      ↔ (st.seenReplace = 1
          ∨ ∃ k pIdx, l.get? k = some pIdx
            ∧ reachesReplaceHandler ext s pTab.withAffinity aRegIdx regOldData pkChng
                overrideError pkIx nIndex pIdx (ix + k)))
    ∧ ((sqlite3GenerateConstraintChecks_uniqueLoop ext aRegIdx iDataCur iIdxCur regNewData
        regOldData pkChng overrideError ignoreDest pPk pkIx nIndex l ix st).seenReplace = 0
      ∨ (sqlite3GenerateConstraintChecks_uniqueLoop ext aRegIdx iDataCur iIdxCur regNewData
        regOldData pkChng overrideError ignoreDest pPk pkIx nIndex l ix st).seenReplace = 1) := by
  induction l generalizing ix st with
  | nil =>
    simp only [sqlite3GenerateConstraintChecks_uniqueLoop]
    exact ⟨by simp, h01⟩
  | cons pIdx rest ih =>
    unfold sqlite3GenerateConstraintChecks_uniqueLoop
    obtain ⟨e1, e2⟩ := sqlite3GenerateConstraintChecks_unique_seenReplace ext aRegIdx iDataCur
      iIdxCur regNewData regOldData pkChng overrideError ignoreDest pPk pkIx nIndex hov pTab s
      pIdx ix st hT hS
    have h01' : (sqlite3GenerateConstraintChecks_unique ext aRegIdx iDataCur iIdxCur regNewData
        regOldData pkChng overrideError ignoreDest pPk pkIx nIndex pIdx ix st).seenReplace = 0
      ∨ (sqlite3GenerateConstraintChecks_unique ext aRegIdx iDataCur iIdxCur regNewData
        regOldData pkChng overrideError ignoreDest pPk pkIx nIndex pIdx ix st).seenReplace
        = 1 := by
      rw [e1]
      split_ifs
      · exact Or.inr rfl
      · exact h01
    obtain ⟨i1, i2⟩ := ih (ix + 1) _ e2 (fun h => absurd h (Nat.succ_ne_zero ix)) h01'
    refine ⟨?_, i2⟩
    rw [i1, e1]
    constructor
    · rintro (h | ⟨k, q, hk, hr⟩)
      · split_ifs at h with hc
        · exact Or.inr ⟨0, pIdx, rfl, by simpa using hc⟩
        · exact Or.inl h
      · refine Or.inr ⟨k + 1, q, by simpa using hk, ?_⟩
        have : ix + (k + 1) = ix + 1 + k := by omega
        rw [this]
        exact hr
    · rintro (h | ⟨k, q, hk, hr⟩)
      · left
        split_ifs
        · rfl
        · exact h
      · cases k with
        | zero =>
          simp only [List.get?_cons_zero, Option.some.injEq] at hk
          subst hk
          left
          rw [if_pos (by simpa using hr)]
        | succ k =>
          right
          refine ⟨k, q, by simpa using hk, ?_⟩
          have : ix + (k + 1) = ix + 1 + k := by omega
          rw [← this]
          exact hr

end MayReplace

section MayReplaceClaim

/-- C19: for an override policy other than None, `sqlite3GenerateConstraintChecks` sets
`*pbMayReplace` to 1 exactly when some index of the table reaches the Replace conflict
handler (`reachesReplaceHandler`: the index has a non-zero `aRegIdx` entry, its uniqueness
test is not elided and its resolved policy is Replace), and to 0 otherwise. -/
theorem sqlite3GenerateConstraintChecks_mayReplace (ext : Extern) (p : Parse) (pTab : Table)
    (aRegIdx : List Int) (iDataCur iIdxCur regNewData regOldData : Int) (pkChng : Bool)
    (overrideError : on_conflict_action) (ignoreDest : Int) (aiChng : Option (List Int))
    (c : ConstraintResult) (hov : overrideError ≠ ON_CONFLICT_ACTION_NONE)
    (h : sqlite3GenerateConstraintChecks ext p pTab aRegIdx iDataCur iIdxCur regNewData
      regOldData pkChng overrideError ignoreDest aiChng = some c) :
    (c.pbMayReplace = 1 ↔
      ∃ ix pIdx, pTab.pIndex.get? ix = some pIdx
        ∧ reachesReplaceHandler ext p.user_session pTab.withAffinity aRegIdx regOldData pkChng
            overrideError (pTab.pIndex.findIdx IsPrimaryKeyIndex) pTab.pIndex.length pIdx ix)
    ∧ (c.pbMayReplace = 0 ∨ c.pbMayReplace = 1) := by
  rw [sqlite3GenerateConstraintChecks_eq] at h
  cases hpk : sqlite3PrimaryKeyIndex pTab with
  | none => rw [hpk] at h; cases h
  | some pPk =>
    rw [hpk] at h
    simp only [Option.map_some', Option.some.injEq] at h
    obtain ⟨h1, h2⟩ := sqlite3GenerateConstraintChecks_uniqueLoop_seenReplace ext aRegIdx
      iDataCur iIdxCur regNewData regOldData pkChng overrideError ignoreDest pPk
      (pTab.pIndex.findIdx IsPrimaryKeyIndex) pTab.pIndex.length hov pTab p.user_session
      pTab.pIndex 0
      (sqlite3GenerateConstraintChecks_uniqueStart p pTab regNewData overrideError ignoreDest
        aiChng)
      (Or.inl ⟨rfl, rfl⟩)
      (fun _ => sqlite3GenerateConstraintChecks_uniqueStart_user_session _ _ _ _ _ _)
      (Or.inl rfl)
    rw [← h]
    refine ⟨?_, h2⟩
    simp only []
    rw [h1]
    constructor
    · rintro (h | ⟨k, q, hk, hr⟩)
      · exact absurd (show (0 : Int) = 1 from h) (by decide)
      · exact ⟨k, q, hk, by simpa using hr⟩
    · rintro ⟨k, q, hk, hr⟩
      exact Or.inr ⟨k, q, hk, by simpa using hr⟩

end MayReplaceClaim

section MissingValues

/-- C11 (as amended): for a column that gets no explicit value (the statement is DEFAULT
VALUES, or the column-name list omits the column), the code of the new row appends one
instruction that stores into `regTupleid + 1 + i`: `OP_Null` when the column is the
auto-increment key, and otherwise the default expression of the column (`NULL` when it has
none); the column build for the BEFORE triggers appends `OP_Integer -1` for the
auto-increment key and the default expression otherwise. -/
theorem sqlite3Insert_missing_value (p : Parse) (pTab : Table) (pColumn : Option IdList)
    (pList : Option ExprList) (pSelect useTempTable : Bool)
    (srcTab regFromSelect regData regTupleid regCols : Int) (nColumn i : Nat) :
    ((nColumn = 0 ∨ ∃ cols, pColumn = some cols ∧ ∀ item ∈ cols, item.idx ≠ (i : Int)) →
      sqlite3Insert_column p pTab pColumn pList pSelect useTempTable srcTab regFromSelect
          regData regTupleid nColumn i
        = sqlite3VdbeAddOp p
            (if (i : Int) = pTab.iAutoIncPKey then
              { opcode := OP_Null, p1 := 0, p2 := regTupleid + 1 + i }
            else
              { opcode := CALL_sqlite3ExprCodeFactorable, p2 := regTupleid + 1 + i,
                p4 := P4_EXPR (pTab.aCol.getD i default).pDflt }))
    ∧ (((useTempTable = false ∧ pList = none)
          ∨ ∃ cols, pColumn = some cols ∧ ∀ item ∈ cols, item.idx ≠ (i : Int)) →
      sqlite3Insert_triggerColumn p pTab pColumn pList useTempTable srcTab regCols i
        = sqlite3VdbeAddOp p
            (if (i : Int) = pTab.iAutoIncPKey then
              { opcode := OP_Integer, p1 := -1, p2 := regCols + i + 1 }
            else
              { opcode := CALL_sqlite3ExprCode, p2 := regCols + i + 1,
                p4 := P4_EXPR (pTab.aCol.getD i default).pDflt })) := by
  have hfind : ∀ cols : IdList, (∀ item ∈ cols, item.idx ≠ (i : Int)) →
      sqlite3Insert_findColumn (some cols) i = cols.length := by
    intro cols hc
    unfold sqlite3Insert_findColumn
    simp only []
    rw [List.findIdx_eq_length]
    intro x hx
    simpa using hc x hx
  constructor
  · intro h
    have hc : nColumn = 0 ∨ (pColumn.isSome = true
        ∧ sqlite3Insert_findColumn pColumn i ≥ (pColumn.getD []).length) := by
      rcases h with h | ⟨cols, rfl, hc⟩
      · exact Or.inl h
      · exact Or.inr ⟨rfl, by rw [hfind cols hc]; exact Nat.le_refl _⟩
    unfold sqlite3Insert_column
    simp only []
    rw [if_pos hc]
    split_ifs <;> rfl
  · intro h
    have hc : (useTempTable = false ∧ pList.isNone = true) ∨ (pColumn.isSome = true
        ∧ sqlite3Insert_findColumn pColumn i ≥ (pColumn.getD []).length) := by
      rcases h with ⟨h1, h2⟩ | ⟨cols, rfl, hc⟩
      · exact Or.inl ⟨h1, by rw [h2]; rfl⟩
      · exact Or.inr ⟨rfl, by rw [hfind cols hc]; exact Nat.le_refl _⟩
    unfold sqlite3Insert_triggerColumn
    simp only []
    rw [if_pos hc]
    split_ifs <;> rfl

end MissingValues

section AutoincrementCopy

theorem sqlite3Insert_coroutine_regFromSelect (ext : Extern) (p : Parse) (pTab : Table)
    (L : InsertLocals) (s : Select) :
    (sqlite3Insert_coroutine ext p pTab L s).2.1.regFromSelect
      = (ext.sqlite3Select
          (sqlite3VdbeAddOp3 (p.allocMem 1) OP_InitCoroutine ((p.nMem + 1 : Nat) : Int) 0
            ((sqlite3VdbeCurrentAddr (p.allocMem 1) + 1 : Nat) : Int))
          s
          { iSDParm := ((p.nMem + 1 : Nat) : Int),
            iSdst := if L.bIdListInOrder = true then L.regData else 0,
            nSdst := pTab.nCol }).iSdst := by
  unfold sqlite3Insert_coroutine
  simp only []
  split_ifs <;> rfl

/-- C12 (as amended): for the auto-increment key of a table, supplied from a source column:
in the staged template the value is read with `OP_Column` into a fresh scratch register and
moved by `OP_FCopy` with `OPFLAG_SAME_FRAME | OPFLAG_NOOP_IF_NULL` into the register of the
column; in the streamed template such an `OP_FCopy` from the result register of the
sub-select is emitted only when `regFromSelect != regData`; when `regFromSelect == regData`
nothing is emitted, the co-routine having stored its result in the row registers.
`regFromSelect` is what the sub-select compiler answers when it is handed `regData` for a
column-name list in table order and `0` otherwise. -/
theorem sqlite3Insert_autoinc_copy (p : Parse) (pTab : Table) (pColumn : Option IdList)
    (pList : Option ExprList) (srcTab regFromSelect regData regTupleid : Int)
    (nColumn i : Nat) (hA : pTab.TF_Autoincrement = true) (hi : (i : Int) = pTab.iAutoIncPKey)
    (hn : nColumn ≠ 0)
    (hc : pColumn = none ∨ ∃ cols, pColumn = some cols ∧ ∃ item ∈ cols, item.idx = (i : Int)) :
    (∀ pSelect : Bool,
      (sqlite3Insert_column p pTab pColumn pList pSelect true srcTab regFromSelect regData
          regTupleid nColumn i).aOp
        = p.aOp ++ [{ opcode := OP_Column, p1 := srcTab,
                      p2 := (sqlite3Insert_findColumn pColumn i : Int),
                      p3 := ((p.nMem + 1 : Nat) : Int) },
                    { opcode := OP_FCopy, p1 := ((p.nMem + 1 : Nat) : Int),
                      p2 := regTupleid + 1 + i,
                      p3 := ((OPFLAG_SAME_FRAME ||| OPFLAG_NOOP_IF_NULL : Nat) : Int) }])
    ∧ (regFromSelect ≠ regData →
      (sqlite3Insert_column p pTab pColumn pList true false srcTab regFromSelect regData
          regTupleid nColumn i).aOp
        = p.aOp ++ [{ opcode := OP_FCopy,
                      p1 := regFromSelect + (sqlite3Insert_findColumn pColumn i : Int),
                      p2 := regTupleid + 1 + i,
                      p3 := ((OPFLAG_SAME_FRAME ||| OPFLAG_NOOP_IF_NULL : Nat) : Int) }])
    ∧ (regFromSelect = regData →
      sqlite3Insert_column p pTab pColumn pList true false srcTab regFromSelect regData
          regTupleid nColumn i = p)
    ∧ (∀ (ext : Extern) (q : Parse) (L : InsertLocals) (s : Select),
      (sqlite3Insert_coroutine ext q pTab L s).2.1.regFromSelect
        = (ext.sqlite3Select
            (sqlite3VdbeAddOp3 (q.allocMem 1) OP_InitCoroutine ((q.nMem + 1 : Nat) : Int) 0
              ((sqlite3VdbeCurrentAddr (q.allocMem 1) + 1 : Nat) : Int))
            s
            { iSDParm := ((q.nMem + 1 : Nat) : Int),
              iSdst := if L.bIdListInOrder = true then L.regData else 0,
              nSdst := pTab.nCol }).iSdst) := by
  have h1 : ¬ (nColumn = 0 ∨ (pColumn.isSome = true
      ∧ sqlite3Insert_findColumn pColumn i ≥ (pColumn.getD []).length)) := by
    rintro (h | ⟨h1, h2⟩)
    · exact hn h
    · rcases hc with rfl | ⟨cols, rfl, item, hm, hidx⟩
      · cases h1
      · unfold sqlite3Insert_findColumn at h2
        simp only [Option.getD_some] at h2
        have : cols.findIdx (fun item => item.idx == (i : Int)) < cols.length :=
          List.findIdx_lt_length_of_exists ⟨item, hm, by simpa using hidx⟩
        omega
  have h2 : pTab.TF_Autoincrement = true ∧ (i : Int) = pTab.iAutoIncPKey := ⟨hA, hi⟩
  refine ⟨?_, ?_, ?_, ?_⟩
  · intro pSelect
    unfold sqlite3Insert_column
    simp only []
    rw [if_neg h1]
    simp only [if_true, if_pos h2]
    simp [sqlite3VdbeChangeP3, sqlite3VdbeAddOp2, sqlite3VdbeAddOp3, sqlite3VdbeAddOp,
      Parse.allocMem, changeLastOp_append_singleton, changeLastOp_append_cons, changeLastOp]
  · intro hne
    unfold sqlite3Insert_column
    simp only []
    rw [if_neg h1]
    simp only [Bool.false_eq_true, if_false, if_true, if_pos hne, if_pos h2]
    simp [sqlite3VdbeChangeP3, sqlite3VdbeAddOp2, sqlite3VdbeAddOp,
      changeLastOp_append_singleton]
  · intro he
    unfold sqlite3Insert_column
    simp only []
    rw [if_neg h1]
    simp only [Bool.false_eq_true, if_false, if_true]
    rw [if_neg (by simpa using he)]
  · intro ext q L s
    exact sqlite3Insert_coroutine_regFromSelect ext q pTab L s

end AutoincrementCopy

section CompleteInsertion

theorem sqlite3CompleteInsertion_one_write (pParse : Parse) (pTab : Table) (iIdxCur : Int)
    (aRegIdx : List Int) (useSeekResult : Bool) (onError : on_conflict_action)
    (h : pTab.pIndex ≠ []) :
    ∃ q op, sqlite3CompleteInsertion pParse pTab iIdxCur aRegIdx useSeekResult onError = some q
      ∧ q.aOp = (sqlite3GetVdbe pParse).aOp ++ [op]
      ∧ q.nMem = pParse.nMem ∧ q.nTab = pParse.nTab
      ∧ op.opcode = (if onError = ON_CONFLICT_ACTION_REPLACE then OP_IdxReplace else OP_IdxInsert)
      ∧ op.p1 = iIdxCur ∧ op.p2 = aRegIdx.getD 0 0
      ∧ OPFLAG_NCHANGE ∈ op.p5
      ∧ (OPFLAG_USESEEKRESULT ∈ op.p5 ↔ useSeekResult = true)
      ∧ (OPFLAG_OE_IGNORE ∈ op.p5 ↔ onError = ON_CONFLICT_ACTION_IGNORE)
      ∧ (OPFLAG_OE_FAIL ∈ op.p5 ↔ onError = ON_CONFLICT_ACTION_FAIL)
      ∧ (∀ f ∈ op.p5, f ∈ [OPFLAG_NCHANGE, OPFLAG_USESEEKRESULT, OPFLAG_OE_IGNORE,
            OPFLAG_OE_FAIL])
      ∧ op.p5.Nodup := by
  unfold sqlite3CompleteInsertion
  cases hI : pTab.pIndex with
  | nil => exact absurd hI h
  | cons pIdx rest =>
    simp only []
    refine ⟨_,
      { opcode := if onError = ON_CONFLICT_ACTION_REPLACE then OP_IdxReplace else OP_IdxInsert,
        p1 := iIdxCur, p2 := aRegIdx.getD 0 0, p3 := aRegIdx.getD 0 0 + 1,
        p4 := P4_INT32 (if pIdx.uniqNotNull = true then (pIdx.nKeyCol : Int)
          else (pIdx.nColumn : Int)),
        p5 := (if onError = ON_CONFLICT_ACTION_IGNORE then
            (if useSeekResult = true then [OPFLAG_NCHANGE] ++ [OPFLAG_USESEEKRESULT]
              else [OPFLAG_NCHANGE]) ++ [OPFLAG_OE_IGNORE]
          else if onError = ON_CONFLICT_ACTION_FAIL then
            (if useSeekResult = true then [OPFLAG_NCHANGE] ++ [OPFLAG_USESEEKRESULT]
              else [OPFLAG_NCHANGE]) ++ [OPFLAG_OE_FAIL]
          else if useSeekResult = true then [OPFLAG_NCHANGE] ++ [OPFLAG_USESEEKRESULT]
            else [OPFLAG_NCHANGE]) }, rfl, ?_, ?_⟩
    · simp only [sqlite3VdbeChangeP5, sqlite3VdbeAddOp4, sqlite3VdbeAddOp,
        changeLastOp_append_singleton]
    · refine ⟨sqlite3GetVdbe_nMem _, sqlite3GetVdbe_nTab _, ?_⟩
      cases useSeekResult <;> cases onError <;> simp
end CompleteInsertion

section ConstraintExamples

/-- Counterexample to C11 as stated.  In `t7` column `a` is the auto-increment key and
`regData = 2` is its register.  For `INSERT INTO t7(b) VALUES (?)` and for
`INSERT INTO t7 DEFAULT VALUES` the instruction at address 4 is `OP_Null 0 2`: a NULL is
loaded into the register of the auto-increment key. -/
theorem sqlite3Insert_missing_value_counterexample :
    demoT7.TF_Autoincrement = true ∧ demoT7.iAutoIncPKey = 0
      ∧ (sqlite3Insert demoExtern demoParse7 [{ zName := "t7" }] (some demoValues1)
            (some [{ zName := "b" }]) ON_CONFLICT_ACTION_DEFAULT).map
          (fun r => (r.exit, r.L.regData, r.pParse.aOp.get? 4))
        = some (InsertExit.insert_end, 2, some { opcode := OP_Null, p1 := 0, p2 := 2 })
      ∧ (sqlite3Insert demoExtern demoParse7 [{ zName := "t7" }] none none
            ON_CONFLICT_ACTION_DEFAULT).map
          (fun r => (r.exit, r.L.regData, r.pParse.aOp.get? 4))
        = some (InsertExit.insert_end, 2, some { opcode := OP_Null, p1 := 0, p2 := 2 }) := by
  decide

/-- Witness of C11 (as amended) on `t7`: `OP_Null` for the omitted auto-increment key, the
default expression for the omitted column `b`, and `OP_Integer -1` in the column build for
the BEFORE triggers. -/
theorem sqlite3Insert_missing_value_witness :
    sqlite3Insert_column demoParse7 demoT7 (some [{ zName := "b", idx := 1 }])
        (some demoValues1.pEList) false false (-1) 0 2 1 1 0
      = sqlite3VdbeAddOp demoParse7 { opcode := OP_Null, p1 := 0, p2 := 2 }
    ∧ sqlite3Insert_column demoParse7 demoT7 none none false false (-1) 0 2 1 0 1
      = sqlite3VdbeAddOp demoParse7
          { opcode := CALL_sqlite3ExprCodeFactorable, p2 := 3, p4 := P4_EXPR none }
    ∧ sqlite3Insert_triggerColumn demoParse7 demoT7 none none false (-1) 4 0
      = sqlite3VdbeAddOp demoParse7 { opcode := OP_Integer, p1 := -1, p2 := 5 } :=
  ⟨(sqlite3Insert_missing_value demoParse7 demoT7 (some [{ zName := "b", idx := 1 }])
      (some demoValues1.pEList) false false (-1) 0 2 1 4 1 0).1
      (Or.inr ⟨_, rfl, by decide⟩),
    (sqlite3Insert_missing_value demoParse7 demoT7 none none false false (-1) 0 2 1 4 0 1).1
      (Or.inl rfl),
    (sqlite3Insert_missing_value demoParse7 demoT7 none none false false (-1) 0 2 1 4 0 0).2
      (Or.inl ⟨rfl, rfl⟩)⟩

/-- Counterexample to C12 as stated.  `INSERT INTO t7(a, b) SELECT * FROM t2` and
`INSERT INTO t7 SELECT * FROM t2 WHERE b` are compiled with the streamed template, the
column-name list is in table order, the sub-select stores its result in the row registers
and the program holds no `OP_FCopy` at all. -/
theorem sqlite3Insert_autoinc_copy_counterexample :
    demoT7.TF_Autoincrement = true ∧ demoT7.iAutoIncPKey = 0
      ∧ (sqlite3Insert demoExtern demoParse7 [{ zName := "t7" }] (some (demoStar "t2"))
            (some [{ zName := "a" }, { zName := "b" }]) ON_CONFLICT_ACTION_DEFAULT).map
          (fun r => (r.exit, r.L.useTempTable, r.L.bIdListInOrder,
            decide (r.L.regFromSelect = r.L.regData),
            r.pParse.aOp.all (fun op => op.opcode != OP_FCopy)))
        = some (InsertExit.insert_end, false, true, true, true)
      ∧ (sqlite3Insert demoExtern demoParse7 [{ zName := "t7" }] (some (demoStarWhere "t2"))
            none ON_CONFLICT_ACTION_DEFAULT).map
          (fun r => (r.exit, r.L.useTempTable, r.L.bIdListInOrder,
            decide (r.L.regFromSelect = r.L.regData),
            r.pParse.aOp.all (fun op => op.opcode != OP_FCopy)))
        = some (InsertExit.insert_end, false, true, true, true) := by
  decide

/-- Witness of C12 (as amended) on the auto-increment key of `t7`: the staged template, the
streamed template with the list `(b, a)`, and the streamed template without a list. -/
theorem sqlite3Insert_autoinc_copy_witness :
    (sqlite3Insert_column demoParse7 demoT7 (some [{ zName := "b", idx := 1 },
          { zName := "a", idx := 0 }]) none true true 0 5 2 1 2 0).aOp
        = demoParse7.aOp ++ [{ opcode := OP_Column, p1 := 0, p2 := 1, p3 := 1 },
                             { opcode := OP_FCopy, p1 := 1, p2 := 2, p3 := 3 }]
    ∧ (sqlite3Insert_column demoParse7 demoT7 (some [{ zName := "b", idx := 1 },
          { zName := "a", idx := 0 }]) none true false 0 5 2 1 2 0).aOp
        = demoParse7.aOp ++ [{ opcode := OP_FCopy, p1 := 6, p2 := 2, p3 := 3 }]
    ∧ sqlite3Insert_column demoParse7 demoT7 none none true false 0 2 2 1 2 0 = demoParse7 :=
  ⟨(sqlite3Insert_autoinc_copy demoParse7 demoT7 (some [{ zName := "b", idx := 1 },
        { zName := "a", idx := 0 }]) none 0 5 2 1 2 0 rfl rfl (by decide)
      (Or.inr ⟨_, rfl, { zName := "a", idx := 0 }, by decide, rfl⟩)).1 true,
    (sqlite3Insert_autoinc_copy demoParse7 demoT7 (some [{ zName := "b", idx := 1 },
        { zName := "a", idx := 0 }]) none 0 5 2 1 2 0 rfl rfl (by decide)
      (Or.inr ⟨_, rfl, { zName := "a", idx := 0 }, by decide, rfl⟩)).2.1 (by decide),
    (sqlite3Insert_autoinc_copy demoParse7 demoT7 none none 0 2 2 1 2 0 rfl rfl (by decide)
      (Or.inl rfl)).2.2.1 rfl⟩

/-- Witness of C13 on column `b` of `t3`, which is NOT NULL with the declared action Abort. -/
theorem sqlite3GenerateConstraintChecks_notNull_policy_witness :
    notNullChecked demoT3 none 1 = true
      ∧ specNotNullPolicy demoT3 ON_CONFLICT_ACTION_DEFAULT 1 = ON_CONFLICT_ACTION_ABORT
      ∧ (sqlite3GenerateConstraintChecks_notNull demoParse demoT3 1 ON_CONFLICT_ACTION_DEFAULT
          (-1) none 1).aOp
        = demoParse.aOp ++ [{ opcode := OP_HaltIfNull, p1 := SQLITE_CONSTRAINT_NOTNULL,
                              p2 := 2, p3 := 3, p4 := P4_STRING "t3.b",
                              p5 := [P5_ConstraintNotNull] }] :=
  ⟨by decide, by decide,
    (sqlite3GenerateConstraintChecks_notNull_policy demoParse demoT3 1
      ON_CONFLICT_ACTION_DEFAULT (-1) none 1 (by decide)).1 (Or.inr (Or.inl (by decide)))⟩

/-- Witness of C14 on `t3`, a table without an integer primary key (`iPKey = -1`) whose two
columns are declared non-nullable: an INSERT checks both, with `OP_HaltIfNull` on the
registers 2 and 3. -/
theorem sqlite3GenerateConstraintChecks_notNull_columns_witness :
    demoT3.iPKey < 0
      ∧ (sqlite3GenerateConstraintChecks_notNullLoop demoParse demoT3 1
          ON_CONFLICT_ACTION_DEFAULT (-1) none).ops
        = demoParse.ops ++ [OP_HaltIfNull, OP_HaltIfNull]
      ∧ (notNullChecked demoT3 none 1 = true ↔
          (table_column_is_nullable demoT3 1 = false
            ∧ ¬ (demoT3.TF_Autoincrement = true ∧ demoT3.iAutoIncPKey = ((1 : Nat) : Int))
            ∧ ((none : Option (List Int)) = none
                ∨ ((none : Option (List Int)).getD []).getD 1 0 ≥ 0)))
      ∧ ∃ op rest,
          (sqlite3GenerateConstraintChecks_notNull demoParse demoT3 1
              ON_CONFLICT_ACTION_DEFAULT (-1) none 1).aOp = demoParse.aOp ++ op :: rest
          ∧ op.opcode ∈ [OP_HaltIfNull, OP_IsNull, OP_NotNull]
          ∧ notNullRegister op = 1 + 1 + (1 : Nat) :=
  ⟨by decide,
    (sqlite3GenerateConstraintChecks_notNull_columns demoParse demoT3 1
      ON_CONFLICT_ACTION_DEFAULT (-1) none (by decide)).1.trans (by decide),
    (sqlite3GenerateConstraintChecks_notNull_columns demoParse demoT3 1
      ON_CONFLICT_ACTION_DEFAULT (-1) none (by decide)).2.1 1,
    (sqlite3GenerateConstraintChecks_notNull_columns demoParse demoT3 1
      ON_CONFLICT_ACTION_DEFAULT (-1) none (by decide)).2.2.2.1 demoParse 1
      ⟨by decide, by decide, Or.inl rfl⟩⟩

/-- Witness of C15 on `t4`, which has the constraint `CHECK (b)`: the jump and the halt
under the default policy, and nothing when `SQLITE_IgnoreChecks` is set. -/
theorem sqlite3GenerateConstraintChecks_check_constraints_witness :
    demoT4.pCheck.isSome = true ∧ demoParse.user_session.SQLITE_IgnoreChecks = false
      ∧ (sqlite3GenerateConstraintChecks_checks demoParse demoT4 1 ON_CONFLICT_ACTION_DEFAULT
          (-1) none).aOp
        = demoParse.aOp
            ++ [{ opcode := CALL_sqlite3ExprIfTrue, p2 := -1,
                  p4 := P4_EXPR (some (Expr.term TK_COLUMN 0 1 "b")),
                  p5 := [SQLITE_JUMPIFNULL] },
                { opcode := OP_Halt, p1 := SQLITE_CONSTRAINT_CHECK, p2 := 2,
                  p4 := P4_STRING "t4", p5 := [P5_ConstraintCheck] }]
      ∧ sqlite3GenerateConstraintChecks_checks
          { demoParse with user_session := { SQLITE_IgnoreChecks := true } } demoT4 1
          ON_CONFLICT_ACTION_DEFAULT (-1) none
        = { demoParse with user_session := { SQLITE_IgnoreChecks := true } } :=
  ⟨by decide, by decide,
    ((sqlite3GenerateConstraintChecks_check_constraints demoParse demoT4 1
      ON_CONFLICT_ACTION_DEFAULT (-1) none).1 (by decide) (by decide)).1.trans (by decide),
    (sqlite3GenerateConstraintChecks_check_constraints
      { demoParse with user_session := { SQLITE_IgnoreChecks := true } } demoT4 1
      ON_CONFLICT_ACTION_DEFAULT (-1) none).2.1 rfl⟩

/-- Witness of C16 on `t4`. -/
theorem sqlite3GenerateConstraintChecks_order_witness :
    ∃ (c : ConstraintResult) (nn ck : List Opcode) (uq : List (List Opcode)),
      sqlite3GenerateConstraintChecks demoExtern demoParse demoT4 [4] 1 1 1 0 false
          ON_CONFLICT_ACTION_DEFAULT (-1) none = some c
        ∧ c.pParse.ops = (sqlite3GetVdbe demoParse).ops ++ nn ++ ck ++ uq.flatten
        ∧ (∀ x ∈ nn, x ∈ [OP_HaltIfNull, OP_IsNull, OP_NotNull, CALL_sqlite3ExprCode])
        ∧ (∀ x ∈ ck, x ∈ [CALL_sqlite3ExprIfTrue, OP_Goto, OP_Halt])
        ∧ uq.length = demoT4.pIndex.length :=
  match Option.isSome_iff_exists.1
      (by decide : (sqlite3GenerateConstraintChecks demoExtern demoParse demoT4 [4] 1 1 1 0
        false ON_CONFLICT_ACTION_DEFAULT (-1) none).isSome = true) with
  | ⟨c, h⟩ =>
    match sqlite3GenerateConstraintChecks_order demoExtern demoParse demoT4 [4] 1 1 1 0 false
        ON_CONFLICT_ACTION_DEFAULT (-1) none c h with
    | ⟨_, nn, ck, uq, _, _, h3, _, h5, h6, _, _, _, h10, _⟩ =>
      ⟨c, nn, ck, uq, h, h10, h3, h5, h6⟩

/-- Counterexample to C17 as stated.  The only index of `t1` is its primary index, which is
unique.  Under the override Fail the constraint code holds no `OP_NoConflict` and no
conflict handler for it, while under Rollback it holds both; the program of
`INSERT OR FAIL INTO t1 VALUES (?, ?)` holds neither. -/
theorem sqlite3GenerateConstraintChecks_override_counterexample :
    (demoT1.pIndex.map (fun pIdx => (IsPrimaryKeyIndex pIdx, IsUniqueIndex pIdx)))
        = [(true, true)]
      ∧ (sqlite3GenerateConstraintChecks demoExtern demoParse demoT1 [4] 1 1 1 0 false
            ON_CONFLICT_ACTION_FAIL (-1) none).map (fun c => c.pParse.ops)
        = some [OP_Init, OP_HaltIfNull, OP_Affinity, OP_SCopy, OP_MustBeInt, OP_MakeRecord]
      ∧ (sqlite3GenerateConstraintChecks demoExtern demoParse demoT1 [4] 1 1 1 0 false
            ON_CONFLICT_ACTION_ROLLBACK (-1) none).map (fun c => c.pParse.ops)
        = some [OP_Init, OP_HaltIfNull, OP_Affinity, OP_SCopy, OP_MustBeInt, OP_MakeRecord,
            OP_NoConflict, OP_Halt]
      ∧ (sqlite3Insert demoExtern demoParse [{ zName := "t1" }] (some demoValues2) none
            ON_CONFLICT_ACTION_FAIL).map
          (fun r => (r.exit, r.pParse.aOp.all (fun op =>
            op.opcode != OP_NoConflict && op.opcode != OP_Halt)))
        = some (InsertExit.insert_end, true) := by
  decide

/-- Witness of C17 (as amended) on `t1` under the override Fail. -/
theorem sqlite3GenerateConstraintChecks_override_elides_witness :
    (sqlite3GenerateConstraintChecks_uniqueLoop demoExtern [4] 1 1 1 0 false
        ON_CONFLICT_ACTION_FAIL (-1) demoPk1 0 1 demoT1.pIndex 0
        (sqlite3GenerateConstraintChecks_uniqueStart demoParse demoT1 1 ON_CONFLICT_ACTION_FAIL
          (-1) none)).seenReplace = 0
      ∧ ∃ cs,
        (sqlite3GenerateConstraintChecks_uniqueLoop demoExtern [4] 1 1 1 0 false
          ON_CONFLICT_ACTION_FAIL (-1) demoPk1 0 1 demoT1.pIndex 0
          (sqlite3GenerateConstraintChecks_uniqueStart demoParse demoT1 1
            ON_CONFLICT_ACTION_FAIL (-1) none)).pParse.ops
          = (sqlite3GenerateConstraintChecks_uniqueStart demoParse demoT1 1
              ON_CONFLICT_ACTION_FAIL (-1) none).pParse.ops ++ cs
        ∧ ∀ c ∈ cs, c ∈ sqlite3GenerateConstraintChecks_recordOps :=
  ⟨((sqlite3GenerateConstraintChecks_override_elides demoExtern [4] 1 1 1 0 false
      ON_CONFLICT_ACTION_FAIL (-1) demoPk1 0 1 (Or.inl rfl)).2.1 demoT1.pIndex 0
      (sqlite3GenerateConstraintChecks_uniqueStart demoParse demoT1 1 ON_CONFLICT_ACTION_FAIL
        (-1) none)).2,
    ((sqlite3GenerateConstraintChecks_override_elides demoExtern [4] 1 1 1 0 false
      ON_CONFLICT_ACTION_FAIL (-1) demoPk1 0 1 (Or.inl rfl)).2.1 demoT1.pIndex 0
      (sqlite3GenerateConstraintChecks_uniqueStart demoParse demoT1 1 ON_CONFLICT_ACTION_FAIL
        (-1) none)).1⟩

end ConstraintExamples

section ConflictExamples

/-- Witness of C18 on the primary index of `t1` under the override Rollback. -/
theorem sqlite3GenerateConstraintChecks_conflict_handler_witness :
    specUniquePolicy ON_CONFLICT_ACTION_ROLLBACK demoPk1 = ON_CONFLICT_ACTION_ROLLBACK
      ∧ ∃ (regR : Int) (q : Parse),
        sqlite3GenerateConstraintChecks_probe 1 0 ON_CONFLICT_ACTION_ROLLBACK demoPk1 0 demoPk1 0
            (sqlite3GenerateConstraintChecks_record [4] 1 ON_CONFLICT_ACTION_ROLLBACK demoPk1 0
              (sqlite3GenerateConstraintChecks_uniqueStart demoParse demoT1 1
                ON_CONFLICT_ACTION_ROLLBACK (-1) none)).1
            (sqlite3GenerateConstraintChecks_record [4] 1 ON_CONFLICT_ACTION_ROLLBACK demoPk1 0
              (sqlite3GenerateConstraintChecks_uniqueStart demoParse demoT1 1
                ON_CONFLICT_ACTION_ROLLBACK (-1) none)).2.pParse = (regR, q)
        ∧ (sqlite3GenerateConstraintChecks_unique demoExtern [4] 1 1 1 0 false
            ON_CONFLICT_ACTION_ROLLBACK (-1) demoPk1 0 1 demoPk1 0
            (sqlite3GenerateConstraintChecks_uniqueStart demoParse demoT1 1
              ON_CONFLICT_ACTION_ROLLBACK (-1) none)).pParse.aOp
          = q.aOp ++ [{ opcode := OP_Halt, p1 := SQLITE_CONSTRAINT_PRIMARYKEY, p2 := 1,
                        p4 := P4_STRING "pk_t1", p5 := [P5_ConstraintUnique] }] :=
  match sqlite3GenerateConstraintChecks_conflict_handler demoExtern [4] 1 1 1 0 false
      ON_CONFLICT_ACTION_ROLLBACK (-1) demoPk1 0 1 demoPk1 0
      (sqlite3GenerateConstraintChecks_uniqueStart demoParse demoT1 1
        ON_CONFLICT_ACTION_ROLLBACK (-1) none) (by decide) (by decide) with
  | ⟨regR, q, hp, h1, _⟩ => ⟨by decide, regR, q, hp, (h1 (Or.inl (by decide))).1⟩

/-- Witness of C19 on `t8`, which has two indexes, under the override Replace: the primary
index reaches the Replace handler. -/
theorem sqlite3GenerateConstraintChecks_mayReplace_witness :
    ∃ c : ConstraintResult,
      sqlite3GenerateConstraintChecks demoExtern demoParse demoT8 [4, 6] 1 1 1 0 false
          ON_CONFLICT_ACTION_REPLACE (-1) none = some c
        ∧ reachesReplaceHandler demoExtern demoParse.user_session demoT8.withAffinity [4, 6] 0
            false ON_CONFLICT_ACTION_REPLACE 0 2 { demoPk1 with zName := "pk_t8", tnum := 531456 }
            0
        ∧ c.pbMayReplace = 1 :=
  match Option.isSome_iff_exists.1
      (by decide : (sqlite3GenerateConstraintChecks demoExtern demoParse demoT8 [4, 6] 1 1 1 0
        false ON_CONFLICT_ACTION_REPLACE (-1) none).isSome = true) with
  | ⟨c, h⟩ =>
    ⟨c, h, by decide,
      (sqlite3GenerateConstraintChecks_mayReplace demoExtern demoParse demoT8 [4, 6] 1 1 1 0
        false ON_CONFLICT_ACTION_REPLACE (-1) none c (by decide) h).1.2
        ⟨0, { demoPk1 with zName := "pk_t8", tnum := 531456 }, rfl, by decide⟩⟩

/-- Witness of C20 on `t8`, which has two indexes, under the policy Replace. -/
theorem sqlite3CompleteInsertion_one_write_witness :
    demoT8.pIndex.length = 2
      ∧ ∃ q op, sqlite3CompleteInsertion demoParse demoT8 1 [4, 6] true
            ON_CONFLICT_ACTION_REPLACE = some q
        ∧ q.aOp = (sqlite3GetVdbe demoParse).aOp ++ [op]
        ∧ op.opcode = OP_IdxReplace ∧ op.p1 = 1 ∧ op.p2 = 4
        ∧ OPFLAG_NCHANGE ∈ op.p5 ∧ OPFLAG_USESEEKRESULT ∈ op.p5 :=
  match sqlite3CompleteInsertion_one_write demoParse demoT8 1 [4, 6] true
      ON_CONFLICT_ACTION_REPLACE (by decide) with
  | ⟨q, op, h1, h2, _, _, h5, h6, h7, h8, h9, _⟩ =>
    ⟨by decide, q, op, h1, h2, h5, h6, h7, h8, h9.2 rfl⟩

end ConflictExamples

section TableAffinity

theorem sqlite3TableAffinity_trim_spec (s : List Char) (hs : s.getLast? ≠ some SQLITE_AFF_BLOB) :
    ∀ (m k : Nat),
      sqlite3TableAffinity_trim (s ++ List.replicate m SQLITE_AFF_BLOB ++ List.replicate k NUL)
          (s.length + m)
        = s ++ List.replicate (m + k) NUL := by
  intro m
  induction m with
  | zero =>
    intro k
    simp only [List.replicate_zero, List.append_nil, Nat.add_zero, Nat.zero_add]
    cases hl : s.length with
    | zero =>
      rw [sqlite3TableAffinity_trim]
    | succ n =>
      rw [sqlite3TableAffinity_trim]
      have hne : s ≠ [] := by
        intro h; rw [h] at hl; simp at hl
      have hlast : (s ++ List.replicate k NUL).getD n NUL = s.getLast hne := by
        rw [List.getD_eq_getElem?_getD, List.getElem?_append_left (by omega),
          List.getLast_eq_getElem]
        have : s.length - 1 = n := by omega
        simp only [this]
        rw [List.getElem?_eq_getElem (by omega)]
        rfl
      rw [hlast, if_neg]
      intro h
      apply hs
      rw [List.getLast?_eq_getLast _ hne, h]
  | succ m ih =>
    intro k
    have e1 : s.length + (m + 1) = (s.length + m) + 1 := by omega
    rw [e1, sqlite3TableAffinity_trim]
    have hget : (s ++ List.replicate (m + 1) SQLITE_AFF_BLOB ++ List.replicate k NUL).getD
        (s.length + m) NUL = SQLITE_AFF_BLOB := by
      rw [List.getD_eq_getElem?_getD, List.append_assoc,
        List.getElem?_append_right (by omega)]
      have : s.length + m - s.length = m := by omega
      rw [this, List.getElem?_append_left (by simp)]
      simp
    rw [hget, if_pos rfl]
    have hset : (s ++ List.replicate (m + 1) SQLITE_AFF_BLOB ++ List.replicate k NUL).set
        (s.length + m) NUL
        = s ++ List.replicate m SQLITE_AFF_BLOB ++ List.replicate (k + 1) NUL := by
      rw [List.replicate_succ', List.replicate_succ]
      simp only [List.append_assoc]
      rw [List.set_append_right _ _ (by omega)]
      have : s.length + m - s.length = m := by omega
      rw [this, List.set_append_right _ _ (by simp)]
      simp
    rw [hset, ih (k + 1)]
    congr 2
    omega

theorem trailing_run (l : List Char) :
    ∃ (s : List Char) (m : Nat), l = s ++ List.replicate m SQLITE_AFF_BLOB
      ∧ s.getLast? ≠ some SQLITE_AFF_BLOB := by
  induction l using List.reverseRecOn with
  | nil => exact ⟨[], 0, rfl, by simp⟩
  | append_singleton l a ih =>
    by_cases ha : a = SQLITE_AFF_BLOB
    · obtain ⟨s, m, hl, hs⟩ := ih
      by_cases hm : m = 0
      · subst hm
        simp only [List.replicate_zero, List.append_nil] at hl
        subst hl
        by_cases hnil : l = []
        · subst hnil
          exact ⟨[], 1, by simp [ha], by simp⟩
        · exact ⟨l, 1, by simp [ha], hs⟩
      · refine ⟨s, m + 1, ?_, hs⟩
        rw [hl, ha, List.replicate_succ', List.append_assoc]
    · exact ⟨l ++ [a], 0, by simp, by simpa using ha⟩

theorem sqlite3Strlen30_append_NUL (s : List Char) (hs : ∀ c ∈ s, c ≠ NUL) (n : Nat) :
    sqlite3Strlen30 (s ++ List.replicate (n + 1) NUL) = s.length := by
  unfold sqlite3Strlen30
  induction s with
  | nil => simp [List.replicate_succ, List.takeWhile]
  | cons a s ih =>
    have ha : a ≠ NUL := hs a (by simp)
    have := ih (fun c hc => hs c (by simp [hc]))
    have hb : (a != NUL) = true := by simpa using ha
    rw [List.cons_append, List.takeWhile_cons, hb]
    simp [this]

/-- C30: for a table whose affinity string is not cached yet and whose column affinities
are not NUL, the buffer `sqlite3TableAffinity` caches consists of the affinities `s` of the
columns in declared order without the maximal trailing run of `m` BLOB affinities (`s` is
empty when every column is BLOB), followed by `m + 1` NUL bytes: it has `nCol + 1` bytes,
its length as a C string is the length of `s`, every byte from that length through index
`nCol` is NUL, and for every column `c < nCol` the byte at position `c` is the affinity of
the column or NUL, and it is NUL only when the affinity of the column is BLOB. -/
theorem sqlite3TableAffinity_buffer (p : Parse) (pTab : Table) (iReg : Int)
    (hnew : pTab.zColAff = none) (haff : ∀ col ∈ pTab.aCol, col.affinity ≠ NUL) :
    ∃ (s : List Char) (m : Nat),
      pTab.aCol.map (fun col => col.affinity) = s ++ List.replicate m SQLITE_AFF_BLOB
      ∧ s.getLast? ≠ some SQLITE_AFF_BLOB
      ∧ ((∀ col ∈ pTab.aCol, col.affinity = SQLITE_AFF_BLOB) → s = [])
      ∧ (sqlite3TableAffinity p pTab iReg).1.zColAff = some (s ++ List.replicate (m + 1) NUL)
      ∧ (s ++ List.replicate (m + 1) NUL).length = pTab.nCol + 1
      ∧ sqlite3Strlen30 (s ++ List.replicate (m + 1) NUL) = s.length
      ∧ (∀ k, s.length ≤ k → k ≤ pTab.nCol →
          (s ++ List.replicate (m + 1) NUL).get? k = some NUL)
      ∧ (∀ c, c < pTab.nCol →
          ((s ++ List.replicate (m + 1) NUL).get? c = some (pTab.aCol.getD c default).affinity
            ∨ (s ++ List.replicate (m + 1) NUL).get? c = some NUL)
          ∧ ((s ++ List.replicate (m + 1) NUL).get? c = some NUL →
              (pTab.aCol.getD c default).affinity = SQLITE_AFF_BLOB)) := by
  obtain ⟨s, m, hl, hs⟩ := trailing_run (pTab.aCol.map (fun col => col.affinity))
  have hlen : s.length + m = pTab.nCol := by
    have := congrArg List.length hl
    simp only [List.length_map, List.length_append, List.length_replicate] at this
    unfold Table.nCol
    omega
  have hsN : ∀ c ∈ s, c ≠ NUL := by
    intro c hc
    have hmem : c ∈ pTab.aCol.map (fun col => col.affinity) := by
      rw [hl]; exact List.mem_append_left _ hc
    obtain ⟨col, hcol, rfl⟩ := List.mem_map.1 hmem
    exact haff col hcol
  have haffc : ∀ c, c < pTab.nCol →
      (s ++ List.replicate m SQLITE_AFF_BLOB).get? c
        = some (pTab.aCol.getD c default).affinity := by
    intro c hc
    rw [← hl, List.get?_eq_getElem?, List.getElem?_map]
    unfold Table.nCol at hc
    rw [List.getD_eq_getElem?_getD, List.getElem?_eq_getElem hc]
    rfl
  refine ⟨s, m, hl, hs, ?_, ?_, ?_, sqlite3Strlen30_append_NUL s hsN m, ?_, ?_⟩
  · intro hall
    cases hsl : s.getLast? with
    | none => exact List.getLast?_eq_none_iff.1 hsl
    | some a =>
      exfalso
      apply hs
      rw [hsl]
      have ha : a ∈ s := List.mem_of_getLast?_eq_some hsl
      have hmem : a ∈ pTab.aCol.map (fun col => col.affinity) := by
        rw [hl]; exact List.mem_append_left _ ha
      obtain ⟨col, hcol, rfl⟩ := List.mem_map.1 hmem
      rw [hall col hcol]
  · unfold sqlite3TableAffinity
    have hz : sqlite3TableAffinity_zColAff pTab = s ++ List.replicate (m + 1) NUL := by
      unfold sqlite3TableAffinity_zColAff
      rw [hl, ← hlen]
      have := sqlite3TableAffinity_trim_spec s hs m 1
      simpa using this
    simp only [hnew, hz]
    split_ifs <;> rfl
  · simp only [List.length_append, List.length_replicate]
    omega
  · intro k hk1 hk2
    rw [List.get?_eq_getElem?, List.getElem?_append_right hk1, List.getElem?_replicate]
    rw [if_pos (by omega)]
  · intro c hc
    have h1 := haffc c hc
    by_cases hcs : c < s.length
    · have e : (s ++ List.replicate (m + 1) NUL).get? c
          = some (pTab.aCol.getD c default).affinity := by
        rw [← h1, List.get?_eq_getElem?, List.get?_eq_getElem?,
          List.getElem?_append_left hcs, List.getElem?_append_left hcs]
      refine ⟨Or.inl e, ?_⟩
      intro h2
      exfalso
      rw [e] at h2
      have hin : (pTab.aCol.getD c default).affinity ∈ s := by
        rw [List.get?_eq_getElem?, List.getElem?_append_left hcs] at h1
        exact List.getElem?_mem h1
      exact hsN _ hin (Option.some.inj h2)
    · have e : (s ++ List.replicate (m + 1) NUL).get? c = some NUL := by
        rw [List.get?_eq_getElem?, List.getElem?_append_right (by omega),
          List.getElem?_replicate, if_pos (by omega)]
      refine ⟨Or.inr e, fun _ => ?_⟩
      rw [List.get?_eq_getElem?, List.getElem?_append_right (by omega),
        List.getElem?_replicate, if_pos (by omega)] at h1
      exact (Option.some.inj h1).symm

end TableAffinity

section ReadsTable

theorem readsTable_match_iff (pTab : Table) (tnum : Int) :
    readsTable_match pTab tnum = true
      ↔ (tnum = pTab.tnum ∨ ∃ pIndex ∈ pTab.pIndex, tnum = pIndex.tnum) := by
  unfold readsTable_match
  simp

/-- The scan of `readsTable` (insert.c:194) runs over the addresses from 1 on: the function
returns 1 or 0, and it returns non-zero exactly when some instruction at an address from 1
on is an `OP_OpenRead` whose P2 is the `tnum` of the table or of one of its indexes; when
address 0 holds no `OP_OpenRead`, exactly when some instruction at any address is one. -/
theorem readsTable_scan (p : Parse) (pTab : Table) :
    (readsTable p pTab ≠ 0
      ↔ ∃ (i : Nat) (pOp : VdbeOp), 1 ≤ i ∧ (sqlite3GetVdbe p).aOp.get? i = some pOp
          ∧ pOp.opcode = OP_OpenRead
          ∧ (pOp.p2 = pTab.tnum ∨ ∃ pIndex ∈ pTab.pIndex, pOp.p2 = pIndex.tnum))
    ∧ (readsTable p pTab = 0 ∨ readsTable p pTab = 1)
    ∧ ((∀ pOp, (sqlite3GetVdbe p).aOp.get? 0 = some pOp → pOp.opcode ≠ OP_OpenRead) →
        (readsTable p pTab ≠ 0
          ↔ ∃ (i : Nat) (pOp : VdbeOp), (sqlite3GetVdbe p).aOp.get? i = some pOp
              ∧ pOp.opcode = OP_OpenRead
              ∧ (pOp.p2 = pTab.tnum ∨ ∃ pIndex ∈ pTab.pIndex, pOp.p2 = pIndex.tnum))) := by
  have key : readsTable p pTab ≠ 0
      ↔ ∃ (i : Nat) (pOp : VdbeOp), 1 ≤ i ∧ (sqlite3GetVdbe p).aOp.get? i = some pOp
          ∧ pOp.opcode = OP_OpenRead
          ∧ (pOp.p2 = pTab.tnum ∨ ∃ pIndex ∈ pTab.pIndex, pOp.p2 = pIndex.tnum) := by
    unfold readsTable
    simp only []
    generalize (sqlite3GetVdbe p).aOp = l
    constructor
    · intro h
      by_cases hany : (l.drop 1).any
          (fun pOp => pOp.opcode == OP_OpenRead && readsTable_match pTab pOp.p2) = true
      · obtain ⟨pOp, hmem, hp⟩ := List.any_eq_true.1 hany
        simp only [Bool.and_eq_true, beq_iff_eq] at hp
        obtain ⟨k, hk⟩ := List.get?_of_mem hmem
        rw [List.get?_eq_getElem?, List.getElem?_drop] at hk
        exact ⟨1 + k, pOp, by omega, by rw [List.get?_eq_getElem?]; exact hk, hp.1,
          (readsTable_match_iff _ _).1 hp.2⟩
      · rw [if_neg hany] at h
        exact absurd rfl h
    · rintro ⟨i, pOp, hi, hget, hop, hm⟩
      have hany : (l.drop 1).any
          (fun pOp => pOp.opcode == OP_OpenRead && readsTable_match pTab pOp.p2) = true := by
        refine List.any_eq_true.2 ⟨pOp, ?_, ?_⟩
        · apply List.get?_mem (n := i - 1)
          rw [List.get?_eq_getElem?, List.getElem?_drop]
          have : 1 + (i - 1) = i := by omega
          rw [this, ← List.get?_eq_getElem?]
          exact hget
        · simp only [Bool.and_eq_true, beq_iff_eq]
          exact ⟨hop, (readsTable_match_iff _ _).2 hm⟩
      rw [if_pos hany]
      decide
  refine ⟨key, ?_, ?_⟩
  · unfold readsTable
    simp only []
    split_ifs
    · exact Or.inr rfl
    · exact Or.inl rfl
  · intro h0
    rw [key]
    constructor
    · rintro ⟨i, pOp, -, h⟩
      exact ⟨i, pOp, h⟩
    · rintro ⟨i, pOp, hget, hop, hm⟩
      refine ⟨i, pOp, ?_, hget, hop, hm⟩
      by_contra hlt
      have hi : i = 0 := by omega
      subst hi
      exact h0 pOp hget hop

/-- C28: for every table and every program that does not start with an `OP_OpenRead`
(address 0 of a program holds the `OP_Init` that `sqlite3GetVdbe` emits when it creates the
program), `readsTable` returns non-zero exactly when some instruction at any address of the
program emitted so far is an `OP_OpenRead` whose P2 is the `tnum` of the table or of one of
its indexes.  The result is 0 or 1.  In terms of the loop of the source, which starts at
address 1 (insert.c:194), the result is non-zero exactly when such an instruction stands at
an address from 1 on.  For a context that has no program yet, `sqlite3GetVdbe` creates the
program with `OP_Init` at address 0, and `readsTable` returns 0. -/
theorem readsTable_iff (p : Parse) (pTab : Table) :
    ((∀ pOp, (sqlite3GetVdbe p).aOp.get? 0 = some pOp → pOp.opcode ≠ OP_OpenRead) →
        (readsTable p pTab ≠ 0
          ↔ ∃ (i : Nat) (pOp : VdbeOp), (sqlite3GetVdbe p).aOp.get? i = some pOp
              ∧ pOp.opcode = OP_OpenRead
              ∧ (pOp.p2 = pTab.tnum ∨ ∃ pIndex ∈ pTab.pIndex, pOp.p2 = pIndex.tnum)))
    ∧ (readsTable p pTab = 0 ∨ readsTable p pTab = 1)
    ∧ (readsTable p pTab ≠ 0
      ↔ ∃ (i : Nat) (pOp : VdbeOp), 1 ≤ i ∧ (sqlite3GetVdbe p).aOp.get? i = some pOp
          ∧ pOp.opcode = OP_OpenRead
          ∧ (pOp.p2 = pTab.tnum ∨ ∃ pIndex ∈ pTab.pIndex, pOp.p2 = pIndex.tnum))
    ∧ (p.pVdbe = false → p.aOp = [] →
        (sqlite3GetVdbe p).aOp.get? 0 = some { opcode := OP_Init, p2 := 1 }
          ∧ readsTable p pTab = 0) := by
  obtain ⟨g1, g2, g3⟩ := readsTable_scan p pTab
  refine ⟨g3, g2, g1, ?_⟩
  intro hv he
  have e : (sqlite3GetVdbe p).aOp = [{ opcode := OP_Init, p2 := 1 }] := by
    unfold sqlite3GetVdbe
    rw [hv, he]
    rfl
  refine ⟨by rw [e]; rfl, ?_⟩
  unfold readsTable
  simp only []
  rw [e]
  rfl

end ReadsTable

section CompatibleIndex

theorem sqlite3_stricmp_eq_zero (a b : Option String) :
    sqlite3_stricmp a b = 0
      ↔ a.map (fun z => z.data.map Char.toLower) = b.map (fun z => z.data.map Char.toLower) := by
  unfold sqlite3_stricmp
  cases a <;> cases b <;> simp

theorem sqlite3ExprCompare_eq_zero (a b : Option Expr) :
    sqlite3ExprCompare a b = 0 ↔ a = b := by
  unfold sqlite3ExprCompare
  split_ifs with h <;> simp [h]

theorem xferCompatibleIndex_col_iff (pDest pSrc : Index) (i : Nat) :
    xferCompatibleIndex_col pDest pSrc i = true
      ↔ (pSrc.aiColumn.getD i 0 = pDest.aiColumn.getD i 0
        ∧ (pSrc.aiColumn.getD i 0 = XN_EXPR → pSrc.colExpr i = pDest.colExpr i)
        ∧ pSrc.aSortOrder.getD i 0 = pDest.aSortOrder.getD i 0
        ∧ (pSrc.azColl.getD i none).map (fun z => z.data.map Char.toLower)
            = (pDest.azColl.getD i none).map (fun z => z.data.map Char.toLower)) := by
  unfold xferCompatibleIndex_col
  rw [← sqlite3_stricmp_eq_zero, ← sqlite3ExprCompare_eq_zero]
  by_cases h1 : pSrc.aiColumn.getD i 0 = pDest.aiColumn.getD i 0
  · by_cases h2 : pSrc.aiColumn.getD i 0 = XN_EXPR
      ∧ sqlite3ExprCompare (pSrc.colExpr i) (pDest.colExpr i) ≠ 0
    · rw [if_neg (not_not.2 h1), if_pos h2]
      simp only [Bool.false_eq_true, false_iff, not_and]
      intro _ h3
      exact absurd (h3 h2.1) h2.2
    · rw [if_neg (not_not.2 h1), if_neg h2]
      have h2' : pSrc.aiColumn.getD i 0 = XN_EXPR →
          sqlite3ExprCompare (pSrc.colExpr i) (pDest.colExpr i) = 0 := by
        intro hx
        by_contra hne
        exact h2 ⟨hx, hne⟩
      by_cases h3 : pSrc.aSortOrder.getD i 0 = pDest.aSortOrder.getD i 0
      · rw [if_neg (not_not.2 h3)]
        by_cases h4 : sqlite3_stricmp (pSrc.azColl.getD i none) (pDest.azColl.getD i none) = 0
        · rw [if_neg (not_not.2 h4)]
          simp only [true_iff]
          exact ⟨h1, h2', h3, h4⟩
        · rw [if_pos h4]
          simp only [Bool.false_eq_true, false_iff]
          exact fun h => h4 h.2.2.2
      · rw [if_pos h3]
        simp only [Bool.false_eq_true, false_iff]
        exact fun h => h3 h.2.2.1
  · rw [if_pos h1]
    simp only [Bool.false_eq_true, false_iff]
    exact fun h => h1 h.1

theorem xferCompatibleIndex_eq_one (pDest pSrc : Index) :
    xferCompatibleIndex pDest pSrc = 1
      ↔ (pDest.nKeyCol = pSrc.nKeyCol ∧ pDest.onError = pSrc.onError
        ∧ (∀ i, i < pSrc.nKeyCol → xferCompatibleIndex_col pDest pSrc i = true)
        ∧ pSrc.pPartIdxWhere = pDest.pPartIdxWhere) := by
  unfold xferCompatibleIndex
  rw [← sqlite3ExprCompare_eq_zero]
  have hall : (List.range pSrc.nKeyCol).all (xferCompatibleIndex_col pDest pSrc) = true
      ↔ ∀ i, i < pSrc.nKeyCol → xferCompatibleIndex_col pDest pSrc i = true := by
    simp [List.all_eq_true]
  rw [← hall]
  by_cases h1 : pDest.nKeyCol = pSrc.nKeyCol
  · by_cases h2 : pDest.onError = pSrc.onError
    · by_cases h3 : (List.range pSrc.nKeyCol).all (xferCompatibleIndex_col pDest pSrc) = true
      · by_cases h4 : sqlite3ExprCompare pSrc.pPartIdxWhere pDest.pPartIdxWhere = 0
        · rw [if_neg (not_not.2 h1), if_neg (not_not.2 h2), if_neg (not_not.2 h3),
            if_neg (not_not.2 h4)]
          simp only [true_iff]
          exact ⟨h1, h2, h3, h4⟩
        · rw [if_neg (not_not.2 h1), if_neg (not_not.2 h2), if_neg (not_not.2 h3), if_pos h4]
          simp only [zero_ne_one, false_iff]
          exact fun h => h4 h.2.2.2
      · rw [if_neg (not_not.2 h1), if_neg (not_not.2 h2), if_pos h3]
        simp only [zero_ne_one, false_iff]
        exact fun h => h3 h.2.2.1
    · rw [if_neg (not_not.2 h1), if_pos h2]
      simp only [zero_ne_one, false_iff]
      exact fun h => h2 h.2.1
  · rw [if_pos h1]
    simp only [zero_ne_one, false_iff]
    exact fun h => h1 h.1

theorem xferCompatibleIndex_zero_or_one (pDest pSrc : Index) :
    xferCompatibleIndex pDest pSrc = 1 ∨ xferCompatibleIndex pDest pSrc = 0 := by
  unfold xferCompatibleIndex
  split_ifs <;> simp

/-- C29: `xferCompatibleIndex pDest pSrc` returns 1 or 0, and it returns 1 exactly when the
two indexes have the same number of key columns and the same conflict policy, at every key
position the same column ordinal (and, where that is the expression marker `XN_EXPR`, equal
key expressions), the same sort order and collation names that are equal up to case, and
equal partial-index predicates; its value does not change when the two arguments are
swapped. -/
theorem xferCompatibleIndex_iff (pDest pSrc : Index) :
    (xferCompatibleIndex pDest pSrc = 1
      ↔ (pDest.nKeyCol = pSrc.nKeyCol ∧ pDest.onError = pSrc.onError
        ∧ (∀ i, i < pSrc.nKeyCol →
            pSrc.aiColumn.getD i 0 = pDest.aiColumn.getD i 0
            ∧ (pSrc.aiColumn.getD i 0 = XN_EXPR → pSrc.colExpr i = pDest.colExpr i)
            ∧ pSrc.aSortOrder.getD i 0 = pDest.aSortOrder.getD i 0
            ∧ (pSrc.azColl.getD i none).map (fun z => z.data.map Char.toLower)
                = (pDest.azColl.getD i none).map (fun z => z.data.map Char.toLower))
        ∧ pSrc.pPartIdxWhere = pDest.pPartIdxWhere))
    ∧ (xferCompatibleIndex pDest pSrc = 1 ∨ xferCompatibleIndex pDest pSrc = 0)
    ∧ xferCompatibleIndex pDest pSrc = xferCompatibleIndex pSrc pDest := by
  have h1 : ∀ a b : Index, xferCompatibleIndex a b = 1
      ↔ (a.nKeyCol = b.nKeyCol ∧ a.onError = b.onError
        ∧ (∀ i, i < b.nKeyCol →
            b.aiColumn.getD i 0 = a.aiColumn.getD i 0
            ∧ (b.aiColumn.getD i 0 = XN_EXPR → b.colExpr i = a.colExpr i)
            ∧ b.aSortOrder.getD i 0 = a.aSortOrder.getD i 0
            ∧ (b.azColl.getD i none).map (fun z => z.data.map Char.toLower)
                = (a.azColl.getD i none).map (fun z => z.data.map Char.toLower))
        ∧ b.pPartIdxWhere = a.pPartIdxWhere) := by
    intro a b
    rw [xferCompatibleIndex_eq_one]
    simp only [xferCompatibleIndex_col_iff]
  have hsymm : ∀ a b : Index, xferCompatibleIndex a b = 1 → xferCompatibleIndex b a = 1 := by
    intro a b h
    obtain ⟨e1, e2, e3, e4⟩ := (h1 a b).1 h
    refine (h1 b a).2 ⟨e1.symm, e2.symm, ?_, e4.symm⟩
    intro i hi
    obtain ⟨c1, c2, c3, c4⟩ := e3 i (by omega)
    exact ⟨c1.symm, fun hx => (c2 (c1.trans hx)).symm, c3.symm, c4.symm⟩
  refine ⟨h1 pDest pSrc, xferCompatibleIndex_zero_or_one pDest pSrc, ?_⟩
  rcases xferCompatibleIndex_zero_or_one pDest pSrc with h | h
  · rw [h, hsymm _ _ h]
  · rcases xferCompatibleIndex_zero_or_one pSrc pDest with h2 | h2
    · have := hsymm _ _ h2
      rw [h] at this
      exact absurd this (by decide)
    · rw [h, h2]

end CompatibleIndex

section IdList

theorem findIdx?_eq_some_findIdx {α : Type} (p : α → Bool) (l : List α) (h : ∃ x ∈ l, p x = true) :
    l.findIdx? p = some (l.findIdx p) := by
  induction l with
  | nil => obtain ⟨x, hx, -⟩ := h; cases hx
  | cons a l ih =>
    by_cases ha : p a = true
    · simp [List.findIdx?_cons, List.findIdx_cons, ha]
    · have ha' : p a = false := by simpa using ha
      have : ∃ x ∈ l, p x = true := by
        obtain ⟨x, hx, hp⟩ := h
        rcases List.mem_cons.1 hx with rfl | hx
        · exact absurd hp ha
        · exact ⟨x, hx, hp⟩
      simp [List.findIdx?_cons, List.findIdx_cons, ha', ih this]

theorem findIdx?_eq_none_of_forall {α : Type} (p : α → Bool) (l : List α)
    (h : ∀ x ∈ l, p x = false) : l.findIdx? p = none := by
  induction l with
  | nil => rfl
  | cons a l ih =>
    have ha := h a (by simp)
    simp [List.findIdx?_cons, ha, ih (fun x hx => h x (by simp [hx]))]

theorem sqlite3Insert_idlist_ok (pTab : Table) :
    ∀ (cols : List IdList_item) (i : Nat) (st : IdListState),
      (∀ x ∈ cols, ∃ c ∈ pTab.aCol, c.zName = x.zName) →
      ∃ st', sqlite3Insert_idlist pTab cols i st = Except.ok st'
        ∧ st'.a = st.a ++ cols.map
            (fun item => { item with idx := (pTab.columnOrdinal item.zName : Int) })
        ∧ (st'.bIdListInOrder = true
            ↔ (st.bIdListInOrder = true
              ∧ ∀ k (hk : k < cols.length), pTab.columnOrdinal (cols.get ⟨k, hk⟩).zName = i + k))
      := by
  intro cols
  induction cols with
  | nil =>
    intro i st _
    exact ⟨st, rfl, by simp, by simp⟩
  | cons item rest ih =>
    intro i st hall
    have hf : pTab.aCol.findIdx? (fun c => c.zName == item.zName)
        = some (pTab.columnOrdinal item.zName) := by
      apply findIdx?_eq_some_findIdx
      obtain ⟨c, hc, hz⟩ := hall item (by simp)
      exact ⟨c, hc, by simpa using hz⟩
    unfold sqlite3Insert_idlist
    rw [hf]
    simp only []
    obtain ⟨st', h1, h2, h3⟩ := ih (i + 1)
      { a := st.a ++ [{ item with idx := (pTab.columnOrdinal item.zName : Int) }]
        bIdListInOrder := if i ≠ pTab.columnOrdinal item.zName then false
          else st.bIdListInOrder
        ipkColumn := if (pTab.columnOrdinal item.zName : Int) = pTab.iPKey then (i : Int)
          else st.ipkColumn }
      (fun x hx => hall x (by simp [hx]))
    refine ⟨st', h1, ?_, ?_⟩
    · rw [h2]
      simp
    · rw [h3]
      constructor
      · rintro ⟨hb, hrest⟩
        by_cases hi : i ≠ pTab.columnOrdinal item.zName
        · rw [if_pos hi] at hb
          cases hb
        · rw [if_neg hi] at hb
          refine ⟨hb, ?_⟩
          intro k hk
          cases k with
          | zero => simpa using (not_not.1 hi).symm
          | succ k =>
            have := hrest k (by simpa using hk)
            simp only [List.get_eq_getElem, List.getElem_cons_succ] at this ⊢
            omega
      · rintro ⟨hb, hall2⟩
        have h0 := hall2 0 (by simp)
        simp only [List.get_eq_getElem, List.getElem_cons_zero, Nat.add_zero] at h0
        refine ⟨?_, ?_⟩
        · rw [if_neg (by simpa using h0.symm)]
          exact hb
        · intro k hk
          have := hall2 (k + 1) (by simpa using hk)
          simp only [List.get_eq_getElem, List.getElem_cons_succ] at this ⊢
          omega

theorem sqlite3Insert_idlist_error (pTab : Table) :
    ∀ (pre : List IdList_item) (item : IdList_item) (post : List IdList_item) (i : Nat)
      (st : IdListState),
      (∀ x ∈ pre, ∃ c ∈ pTab.aCol, c.zName = x.zName) →
      (∀ c ∈ pTab.aCol, c.zName ≠ item.zName) →
      sqlite3Insert_idlist pTab (pre ++ item :: post) i st = Except.error item.zName := by
  intro pre
  induction pre with
  | nil =>
    intro item post i st _ hno
    have hf : pTab.aCol.findIdx? (fun c => c.zName == item.zName) = none := by
      apply findIdx?_eq_none_of_forall
      intro c hc
      simpa using hno c hc
    simp only [List.nil_append]
    unfold sqlite3Insert_idlist
    rw [hf]
  | cons x pre ih =>
    intro item post i st hall hno
    have hf : pTab.aCol.findIdx? (fun c => c.zName == x.zName)
        = some (pTab.columnOrdinal x.zName) := by
      apply findIdx?_eq_some_findIdx
      obtain ⟨c, hc, hz⟩ := hall x (by simp)
      exact ⟨c, hc, by simpa using hz⟩
    simp only [List.cons_append]
    unfold sqlite3Insert_idlist
    rw [hf]
    exact ih item post (i + 1) _ (fun y hy => hall y (by simp [hy])) hno

theorem sqlite3Insert_begin_aOp (p : Parse) (L : InsertLocals) :
    (sqlite3Insert_begin p L).aOp = (sqlite3GetVdbe p).aOp := by
  unfold sqlite3Insert_begin sqlite3BeginWriteOperation
  simp only []
  split_ifs <;> rfl

theorem sqlite3Insert_begin_nErr (p : Parse) (L : InsertLocals) :
    (sqlite3Insert_begin p L).nErr = p.nErr := by
  unfold sqlite3Insert_begin sqlite3BeginWriteOperation sqlite3GetVdbe
  simp only []
  split_ifs <;> rfl

/-- C23: for an INSERT with a column-name list that gets as far as the IDLIST check (the
destination is found and may be written): when the list holds a name that is no column of
the destination, `sqlite3Insert` leaves at `insert_cleanup` with the diagnostic
`table T has no column named Z` for the first such name `Z`, with one more error counted
and the schema-recheck flag set, and the program is the one `sqlite3GetVdbe` hands out:
nothing has been emitted.  When every name is a column, `sqlite3Insert` goes on to
`sqlite3Insert_source` with a list whose entry `k` carries the ordinal of the first table
column of that name, and `bIdListInOrder` is set exactly when every entry `k` has the
ordinal `k`. -/
theorem sqlite3Insert_idlist_spec (ext : Extern) (pParse : Parse) (pTabList : SrcList)
    (pSelect : Option Select) (cols : IdList) (onError : on_conflict_action)
    (pTab : Table) (p1 : Parse)
    (h0 : pParse.nErr = 0 ∧ pParse.db.mallocFailed = false)
    (hlook : sqlite3SrcListLookup pParse pTabList = (some pTab, p1))
    (hview : ext.sqlite3ViewGetColumnNames p1 pTab = none)
    (hro : ext.sqlite3IsReadOnly p1 pTab (ext.sqlite3TriggersExist pTab TK_INSERT).2 = none) :
    (∀ (pre : List IdList_item) (item : IdList_item) (post : List IdList_item),
        cols = pre ++ item :: post →
        (∀ x ∈ pre, ∃ c ∈ pTab.aCol, c.zName = x.zName) →
        (∀ c ∈ pTab.aCol, c.zName ≠ item.zName) →
        ∃ r, sqlite3Insert ext pParse pTabList pSelect (some cols) onError = some r
          ∧ r.exit = InsertExit.insert_cleanup
          ∧ r.pParse.zErrMsg
              = some ("table " ++ pTab.zName ++ " has no column named " ++ item.zName)
          ∧ r.pParse.nErr = p1.nErr + 1
          ∧ r.pParse.checkSchema = true
          ∧ r.pParse.aOp = (sqlite3GetVdbe p1).aOp)
    ∧ ((∀ x ∈ cols, ∃ c ∈ pTab.aCol, c.zName = x.zName) →
        ∃ L : InsertLocals,
          sqlite3Insert ext pParse pTabList pSelect (some cols) onError
            = sqlite3Insert_source ext
                ((sqlite3Insert_begin p1 (sqlite3Insert_locals ext pTab pSelect (some cols))).allocMem
                  (pTab.nCol + 1)) pTab onError L
          ∧ L.pColumn = some (cols.map
              (fun item => { item with idx := (pTab.columnOrdinal item.zName : Int) }))
          ∧ (∀ k (hk : k < cols.length),
              (((L.pColumn.getD []).getD k default).idx
                = (pTab.columnOrdinal (cols.get ⟨k, hk⟩).zName : Int))
              ∧ pTab.columnOrdinal (cols.get ⟨k, hk⟩).zName < pTab.nCol
              ∧ ((pTab.aCol.getD (pTab.columnOrdinal (cols.get ⟨k, hk⟩).zName) default).zName
                  = (cols.get ⟨k, hk⟩).zName))
          ∧ (L.bIdListInOrder = true
              ↔ ∀ k (hk : k < cols.length),
                  pTab.columnOrdinal (cols.get ⟨k, hk⟩).zName = k)) := by
  have heq := sqlite3Insert_eq ext pParse pTabList pSelect (some cols) onError pTab p1 h0 hlook
    hview hro
  have hsome : ¬ ((some cols : Option IdList).isNone = true) := by simp
  rw [if_neg hsome] at heq
  have hcol : (sqlite3Insert_locals ext pTab pSelect (some cols)).pColumn = some cols := by
    unfold sqlite3Insert_locals
    cases pSelect with
    | none => rfl
    | some s =>
      simp only []
      split_ifs <;> rfl
  refine ⟨?_, ?_⟩
  · intro pre item post hc hpre hno
    have herr := sqlite3Insert_idlist_error pTab pre item post 0 {} hpre hno
    rw [← hc] at herr
    rw [heq]
    unfold sqlite3Insert_general
    simp only [hcol, herr]
    refine ⟨_, rfl, rfl, rfl, ?_, rfl, ?_⟩
    · simp only [sqlite3Insert_cleanup, sqlite3ErrorMsg, Parse.allocMem]
      rw [sqlite3Insert_begin_nErr]
    · simp only [sqlite3Insert_cleanup, sqlite3ErrorMsg, Parse.allocMem]
      rw [sqlite3Insert_begin_aOp]
  · intro hall
    obtain ⟨st', h1, h2, h3⟩ := sqlite3Insert_idlist_ok pTab cols 0 {} hall
    rw [heq]
    unfold sqlite3Insert_general
    simp only [hcol, h1]
    refine ⟨_, rfl, ?_, ?_, ?_⟩
    · simp only [h2]
      simp
    · intro k hk
      refine ⟨?_, ?_, ?_⟩
      · simp only [h2]
        simp [List.getD_eq_getElem?_getD, List.getElem?_map, List.getElem?_eq_getElem hk]
      · obtain ⟨c, hc, hz⟩ := hall (cols.get ⟨k, hk⟩) (List.get_mem _ _ _)
        unfold Table.columnOrdinal Table.nCol
        exact List.findIdx_lt_length_of_exists ⟨c, hc, by simpa using hz⟩
      · obtain ⟨c, hc, hz⟩ := hall (cols.get ⟨k, hk⟩) (List.get_mem _ _ _)
        have hlt : pTab.aCol.findIdx (fun c => c.zName == (cols.get ⟨k, hk⟩).zName)
            < pTab.aCol.length :=
          List.findIdx_lt_length_of_exists ⟨c, hc, by simpa using hz⟩
        have := List.findIdx_getElem (w := hlt)
        unfold Table.columnOrdinal
        rw [List.getD_eq_getElem?_getD, List.getElem?_eq_getElem hlt]
        simpa using this
    · simp only []
      rw [h3]
      simp

end IdList

section ConsolePush

theorem console_do_push_spec (write : WriteOracle)
    (hw : ∀ fd text len, write fd text len ≤ (len : Int)) :
    ∀ (fuel : Nat) (fd : Console) (text : List Char) (len : Nat) (rc : Int) (fd' : Console),
      len < 2 ^ 32 →
      console_do_push write fuel fd text len = some (rc, fd') →
      ∃ us : List Int, fd'.reported = fd.reported ++ us
        ∧ ((rc = 0 ∧ (∀ u ∈ us, 0 ≤ u) ∧ us.sum = (len : Int)
              ∧ fd'.out = fd.out ++ text.take len)
          ∨ (rc = -1 ∧ ∃ (vs : List Int) (w : Int), us = vs ++ [w] ∧ (∀ v ∈ vs, 0 ≤ v)
              ∧ vs.sum < (len : Int) ∧ w < 0
              ∧ fd'.out = fd.out ++ text.take vs.sum.toNat)) := by
  intro fuel
  induction fuel with
  | zero =>
    intro fd text len rc fd' _ h
    unfold console_do_push at h
    by_cases hl : len > 0
    · rw [if_pos hl] at h
      cases h
    · rw [if_neg hl] at h
      simp only [Option.some.injEq, Prod.mk.injEq] at h
      obtain ⟨rfl, rfl⟩ := h
      have : len = 0 := by omega
      subst this
      exact ⟨[], by simp, Or.inl ⟨rfl, by simp, by simp, by simp⟩⟩
  | succ fuel ih =>
    intro fd text len rc fd' hlen h
    unfold console_do_push at h
    by_cases hl : len > 0
    · rw [if_pos hl] at h
      simp only [fio_write_silent] at h
      have hle := hw fd text len
      generalize write fd text len = written at h hle
      by_cases hneg : written < 0
      · rw [if_pos hneg] at h
        simp only [Option.some.injEq, Prod.mk.injEq] at h
        obtain ⟨rfl, rfl⟩ := h
        refine ⟨[written], rfl, Or.inr ⟨rfl, [], written, rfl, by simp, ?_, hneg, ?_⟩⟩
        · simpa using hl
        · simp [hneg]
      · rw [if_neg hneg] at h
        have h0 : 0 ≤ written := by omega
        obtain ⟨n, rfl⟩ := Int.eq_ofNat_of_zero_le h0
        have hn : n ≤ len := by exact_mod_cast hle
        have hrem : (((len : Int) - (n : Int)) % 2 ^ 32).toNat = len - n := by
          have e : ((len : Int) - (n : Int)) = ((len - n : Nat) : Int) := by omega
          rw [e]
          have : ((len - n : Nat) : Int) % 2 ^ 32 = ((len - n : Nat) : Int) := by
            apply Int.emod_eq_of_lt
            · omega
            · have : len - n < 2 ^ 32 := by omega
              exact_mod_cast this
          rw [this]
          simp
        rw [hrem] at h
        simp only [Int.toNat_ofNat] at h
        obtain ⟨us, hrep, hcase⟩ := ih _ _ _ _ _ (by omega) h
        simp only [if_neg hneg] at hrep hcase
        refine ⟨(n : Int) :: us, by rw [hrep]; simp, ?_⟩
        rcases hcase with ⟨hrc, hall, hsum, hout⟩ | ⟨hrc, vs, w, hus, hall, hsum, hw0, hout⟩
        · refine Or.inl ⟨hrc, ?_, ?_, ?_⟩
          · intro u hu
            rcases List.mem_cons.1 hu with rfl | hu
            · exact h0
            · exact hall u hu
          · rw [List.sum_cons, hsum]
            omega
          · rw [hout, List.append_assoc]
            congr 1
            have : len = n + (len - n) := by omega
            conv_rhs => rw [this, List.take_add]
        · refine Or.inr ⟨hrc, (n : Int) :: vs, w, by rw [hus]; rfl, ?_, ?_, hw0, ?_⟩
          · intro u hu
            rcases List.mem_cons.1 hu with rfl | hu
            · exact h0
            · exact hall u hu
          · rw [List.sum_cons]
            omega
          · have hvs : 0 ≤ vs.sum := List.sum_nonneg hall
            rw [hout, List.append_assoc]
            congr 1
            rw [List.sum_cons]
            have : ((n : Int) + vs.sum).toNat = n + vs.sum.toNat := by omega
            rw [this, List.take_add]
    · rw [if_neg hl] at h
      simp only [Option.some.injEq, Prod.mk.injEq] at h
      obtain ⟨rfl, rfl⟩ := h
      have : len = 0 := by omega
      subst this
      exact ⟨[], by simp, Or.inl ⟨rfl, by simp, by simp, by simp⟩⟩

theorem console_do_push_returns (write : WriteOracle)
    (hw : ∀ fd text len, write fd text len ≤ (len : Int))
    (hp : ∀ fd text len, 0 < len → write fd text len ≠ 0) :
    ∀ (fuel : Nat) (fd : Console) (text : List Char) (len : Nat),
      len < 2 ^ 32 → len ≤ fuel → (console_do_push write fuel fd text len).isSome = true := by
  intro fuel
  induction fuel with
  | zero =>
    intro fd text len _ hf
    have : len = 0 := by omega
    subst this
    rfl
  | succ fuel ih =>
    intro fd text len hlen hf
    unfold console_do_push
    by_cases hl : len > 0
    · rw [if_pos hl]
      simp only [fio_write_silent]
      have hle := hw fd text len
      have hnz := hp fd text len hl
      generalize write fd text len = written at hle hnz
      by_cases hneg : written < 0
      · rw [if_pos hneg]
        rfl
      · rw [if_neg hneg]
        have h0 : 0 ≤ written := by omega
        obtain ⟨n, rfl⟩ := Int.eq_ofNat_of_zero_le h0
        have hn : n ≤ len := by exact_mod_cast hle
        have hn0 : n ≠ 0 := by
          intro h; apply hnz; rw [h]; rfl
        have hrem : (((len : Int) - (n : Int)) % 2 ^ 32).toNat = len - n := by
          have e : ((len : Int) - (n : Int)) = ((len - n : Nat) : Int) := by omega
          rw [e]
          have : ((len - n : Nat) : Int) % 2 ^ 32 = ((len - n : Nat) : Int) := by
            apply Int.emod_eq_of_lt
            · omega
            · have : len - n < 2 ^ 32 := by omega
              exact_mod_cast this
          rw [this]
          simp
        rw [hrem]
        exact ih _ _ _ (by omega) (by omega)
    · rw [if_neg hl]
      rfl

end ConsolePush

section ConsolePushClaim

/-- C27: under the assertion of `console_do_push` that a write never reports more than it
was asked for, and for a dump shorter than 2^32 bytes: `console_session_owner_push` returns
-1 at once when the raw dump of the port is `NULL`; when it returns 0 the dump is not `NULL`,
no write has reported a negative count and the descriptor has received `push:` followed by
the whole dump; when it returns -1 the dump is `NULL` or some write has reported a negative
count.  When `console_do_push` returns 0 the counts reported by its writes are non-negative
and sum to `len`, and the first `len` bytes of the text have been written; it returns -1
right after the first write that reports a negative count.  If moreover every write makes
progress or fails, both functions return once the loop may run as often as there are bytes
to write. -/
theorem console_session_owner_push_spec (write : WriteOracle)
    (hw : ∀ fd text len, write fd text len ≤ (len : Int)) (fuel : Nat) (fd : Console)
    (port : Port) (hlen : ∀ text, port_dump_raw port = some text → text.length < 2 ^ 32) :
    (port_dump_raw port = none → console_session_owner_push write fuel fd port = some (-1, fd))
    ∧ (∀ rc fd', console_session_owner_push write fuel fd port = some (rc, fd') →
        ∃ us : List Int, fd'.reported = fd.reported ++ us
          ∧ ((rc = 0 ∧ (∀ u ∈ us, 0 ≤ u)
                ∧ ∃ text, port_dump_raw port = some text
                  ∧ fd'.out = fd.out ++ "push:".data ++ text
                  ∧ us.sum = (("push:".length + text.length : Nat) : Int))
            ∨ (rc = -1 ∧ (port_dump_raw port = none ∨ ∃ u ∈ us, u < 0))))
    ∧ (∀ (text : List Char) (len : Nat) (rc : Int) (fd' : Console), len < 2 ^ 32 →
        console_do_push write fuel fd text len = some (rc, fd') →
        ∃ us : List Int, fd'.reported = fd.reported ++ us
          ∧ ((rc = 0 ∧ (∀ u ∈ us, 0 ≤ u) ∧ us.sum = (len : Int)
                ∧ fd'.out = fd.out ++ text.take len)
            ∨ (rc = -1 ∧ ∃ (vs : List Int) (w : Int), us = vs ++ [w] ∧ (∀ v ∈ vs, 0 ≤ v)
                ∧ vs.sum < (len : Int) ∧ w < 0
                ∧ fd'.out = fd.out ++ text.take vs.sum.toNat)))
    ∧ ((∀ fd text len, 0 < len → write fd text len ≠ 0) →
        (∀ (text : List Char) (len : Nat), len < 2 ^ 32 → len ≤ fuel →
          (console_do_push write fuel fd text len).isSome = true)
        ∧ (∀ text, port_dump_raw port = some text → "push:".length ≤ fuel →
            text.length ≤ fuel →
            (console_session_owner_push write fuel fd port).isSome = true)) := by
  refine ⟨?_, ?_, ?_, ?_⟩
  · intro h
    unfold console_session_owner_push
    rw [h]
  · intro rc fd' h
    unfold console_session_owner_push at h
    cases hd : port_dump_raw port with
    | none =>
      rw [hd] at h
      simp only [Option.some.injEq, Prod.mk.injEq] at h
      obtain ⟨rfl, rfl⟩ := h
      exact ⟨[], by simp, Or.inr ⟨rfl, Or.inl rfl⟩⟩
    | some text =>
      rw [hd] at h
      simp only [] at h
      have htl := hlen text hd
      cases h1 : console_do_push write fuel fd "push:".data "push:".length with
      | none => rw [h1] at h; cases h
      | some r1 =>
        obtain ⟨rc1, fd1⟩ := r1
        rw [h1] at h
        simp only [] at h
        obtain ⟨us1, hrep1, hc1⟩ :=
          console_do_push_spec write hw fuel fd _ _ rc1 fd1 (by decide) h1
        by_cases hrc1 : rc1 ≠ 0
        · rw [if_pos hrc1] at h
          simp only [Option.some.injEq, Prod.mk.injEq] at h
          obtain ⟨rfl, rfl⟩ := h
          refine ⟨us1, hrep1, Or.inr ⟨rfl, Or.inr ?_⟩⟩
          rcases hc1 with ⟨h0, -⟩ | ⟨-, vs, w, hus, -, -, hw0, -⟩
          · exact absurd h0 hrc1
          · exact ⟨w, by rw [hus]; simp, hw0⟩
        · rw [if_neg hrc1] at h
          have hrc1' : rc1 = 0 := not_not.1 hrc1
          rcases hc1 with ⟨-, hall1, hsum1, hout1⟩ | ⟨hm1, -⟩
          · cases h2 : console_do_push write fuel fd1 text text.length with
            | none => rw [h2] at h; cases h
            | some r2 =>
              obtain ⟨rc2, fd2⟩ := r2
              rw [h2] at h
              simp only [] at h
              obtain ⟨us2, hrep2, hc2⟩ :=
                console_do_push_spec write hw fuel fd1 _ _ rc2 fd2 htl h2
              by_cases hrc2 : rc2 ≠ 0
              · rw [if_pos hrc2] at h
                simp only [Option.some.injEq, Prod.mk.injEq] at h
                obtain ⟨rfl, rfl⟩ := h
                refine ⟨us1 ++ us2, by rw [hrep2, hrep1, List.append_assoc],
                  Or.inr ⟨rfl, Or.inr ?_⟩⟩
                rcases hc2 with ⟨h0, -⟩ | ⟨-, vs, w, hus, -, -, hw0, -⟩
                · exact absurd h0 hrc2
                · exact ⟨w, by rw [hus]; simp, hw0⟩
              · rw [if_neg hrc2] at h
                simp only [Option.some.injEq, Prod.mk.injEq] at h
                obtain ⟨rfl, rfl⟩ := h
                refine ⟨us1 ++ us2, by rw [hrep2, hrep1, List.append_assoc], Or.inl ⟨rfl, ?_, ?_⟩⟩
                · rcases hc2 with ⟨-, hall2, -, -⟩ | ⟨hm2, -⟩
                  · intro u hu
                    rcases List.mem_append.1 hu with hu | hu
                    · exact hall1 u hu
                    · exact hall2 u hu
                  · exact absurd hm2 (by rw [not_not.1 hrc2]; decide)
                · rcases hc2 with ⟨-, -, hsum2, hout2⟩ | ⟨hm2, -⟩
                  · refine ⟨text, rfl, ?_, ?_⟩
                    · rw [hout2, hout1, List.take_length]
                      have : List.take "push:".length "push:".data = "push:".data := by decide
                      rw [this]
                    · rw [List.sum_append, hsum1, hsum2]
                      push_cast
                      rfl
                  · exact absurd hm2 (by rw [not_not.1 hrc2]; decide)
          · exact absurd hm1 (by rw [hrc1']; decide)
  · intro text len rc fd' hl h
    exact console_do_push_spec write hw fuel fd text len rc fd' hl h
  · intro hp
    refine ⟨fun text len hl hf => console_do_push_returns write hw hp fuel fd text len hl hf, ?_⟩
    intro text hd hf1 hf2
    unfold console_session_owner_push
    rw [hd]
    simp only []
    have r1 := console_do_push_returns write hw hp fuel fd "push:".data "push:".length
      (by decide) hf1
    obtain ⟨⟨rc1, fd1⟩, h1⟩ := Option.isSome_iff_exists.1 r1
    rw [h1]
    simp only []
    by_cases hrc1 : rc1 ≠ 0
    · rw [if_pos hrc1]; rfl
    · rw [if_neg hrc1]
      have r2 := console_do_push_returns write hw hp fuel fd1 text text.length
        (hlen text hd) hf2
      obtain ⟨⟨rc2, fd2⟩, h2⟩ := Option.isSome_iff_exists.1 r2
      rw [h2]
      simp only []
      split_ifs <;> rfl

end ConsolePushClaim

section KeepsRules

theorem changeOpAt_len (f : VdbeOp → VdbeOp) (n : Nat) (l : List VdbeOp) :
    (changeOpAt f n l).length = l.length := by
  induction l generalizing n with
  | nil => cases n <;> rfl
  | cons a l ih =>
    cases n with
    | zero => rfl
    | succ n => simp [changeOpAt, ih]

theorem changeLastOp_len (f : VdbeOp → VdbeOp) (l : List VdbeOp) :
    (changeLastOp f l).length = l.length := by
  induction l with
  | nil => rfl
  | cons a l ih =>
    cases l with
    | nil => rfl
    | cons b l => simpa [changeLastOp] using ih

theorem keeps_iff (p q : Parse) :
    Keeps p q ↔ (q.db = p.db ∧ q.user_session = p.user_session ∧ q.nErr = p.nErr
      ∧ q.zErrMsg = p.zErrMsg ∧ q.checkSchema = p.checkSchema ∧ q.nested = p.nested
      ∧ q.pTriggerTab = p.pTriggerTab ∧ q.pWith = p.pWith ∧ p.nMem ≤ q.nMem ∧ p.nTab ≤ q.nTab
      ∧ (p.pVdbe = true → q.pVdbe = true) ∧ p.aOp.length ≤ q.aOp.length
      ∧ p.aLabel.length ≤ q.aLabel.length) :=
  ⟨fun h => ⟨h.db, h.user_session, h.nErr, h.zErrMsg, h.checkSchema, h.nested, h.pTriggerTab,
      h.pWith, h.nMem, h.nTab, h.pVdbe, h.aOp, h.aLabel⟩,
    fun ⟨h1, h2, h3, h4, h5, h6, h7, h8, h9, h10, h11, h12, h13⟩ =>
      ⟨h1, h2, h3, h4, h5, h6, h7, h8, h9, h10, h11, h12, h13⟩⟩

theorem Keeps.keep_refl (p : Parse) : Keeps p p :=
  ⟨rfl, rfl, rfl, rfl, rfl, rfl, rfl, rfl, Nat.le_refl _, Nat.le_refl _, id, Nat.le_refl _,
    Nat.le_refl _⟩

theorem Keeps.keep_trans {p q r : Parse} (h1 : Keeps p q) (h2 : Keeps q r) : Keeps p r :=
  ⟨h2.db.trans h1.db, h2.user_session.trans h1.user_session, h2.nErr.trans h1.nErr,
    h2.zErrMsg.trans h1.zErrMsg, h2.checkSchema.trans h1.checkSchema,
    h2.nested.trans h1.nested, h2.pTriggerTab.trans h1.pTriggerTab, h2.pWith.trans h1.pWith,
    Nat.le_trans h1.nMem h2.nMem, Nat.le_trans h1.nTab h2.nTab, fun h => h2.pVdbe (h1.pVdbe h),
    Nat.le_trans h1.aOp h2.aOp, Nat.le_trans h1.aLabel h2.aLabel⟩

theorem Keeps.keep_foldl {α : Type} (f : Parse → α → Parse) (hf : ∀ q i, Keeps q (f q i))
    (l : List α) (p : Parse) : Keeps p (l.foldl f p) := by
  induction l generalizing p with
  | nil => exact Keeps.keep_refl _
  | cons a l ih => exact (hf p a).keep_trans (ih _)

variable {p q : Parse}

theorem Keeps.keep_if_then_else {a b : Parse} {c : Prop} [Decidable c]
    (ha : Keeps p a) (hb : Keeps p b) : Keeps p (if c then a else b) := by
  split
  · exact ha
  · exact hb

theorem Keeps.keep_addOp (op : VdbeOp) (h : Keeps p q) : Keeps p (sqlite3VdbeAddOp q op) :=
  h.keep_trans ⟨rfl, rfl, rfl, rfl, rfl, rfl, rfl, rfl, Nat.le_refl _, Nat.le_refl _, id,
    by simp [sqlite3VdbeAddOp], Nat.le_refl _⟩

theorem Keeps.keep_addOp0 (op : Opcode) (h : Keeps p q) : Keeps p (sqlite3VdbeAddOp0 q op) :=
  Keeps.keep_addOp _ h

theorem Keeps.keep_addOp1 (op : Opcode) (p1 : Int) (h : Keeps p q) :
    Keeps p (sqlite3VdbeAddOp1 q op p1) := Keeps.keep_addOp _ h

theorem Keeps.keep_addOp2 (op : Opcode) (p1 p2 : Int) (h : Keeps p q) :
    Keeps p (sqlite3VdbeAddOp2 q op p1 p2) := Keeps.keep_addOp _ h

theorem Keeps.keep_addOp3 (op : Opcode) (p1 p2 p3 : Int) (h : Keeps p q) :
    Keeps p (sqlite3VdbeAddOp3 q op p1 p2 p3) := Keeps.keep_addOp _ h

theorem Keeps.keep_addOp4 (op : Opcode) (p1 p2 p3 : Int) (p4 : P4) (h : Keeps p q) :
    Keeps p (sqlite3VdbeAddOp4 q op p1 p2 p3 p4) := Keeps.keep_addOp _ h

theorem Keeps.keep_goto (iDest : Int) (h : Keeps p q) : Keeps p (sqlite3VdbeGoto q iDest) :=
  Keeps.keep_addOp _ h

theorem Keeps.keep_jumpHere (addr : Nat) (h : Keeps p q) : Keeps p (sqlite3VdbeJumpHere q addr) :=
  h.keep_trans ⟨rfl, rfl, rfl, rfl, rfl, rfl, rfl, rfl, Nat.le_refl _, Nat.le_refl _, id,
    by simp [sqlite3VdbeJumpHere, changeOpAt_len], Nat.le_refl _⟩

theorem Keeps.keep_changeP3 (v : Int) (h : Keeps p q) : Keeps p (sqlite3VdbeChangeP3 q v) :=
  h.keep_trans ⟨rfl, rfl, rfl, rfl, rfl, rfl, rfl, rfl, Nat.le_refl _, Nat.le_refl _, id,
    by simp [sqlite3VdbeChangeP3, changeLastOp_len], Nat.le_refl _⟩

theorem Keeps.keep_changeP4 (v : P4) (h : Keeps p q) : Keeps p (sqlite3VdbeChangeP4 q v) :=
  h.keep_trans ⟨rfl, rfl, rfl, rfl, rfl, rfl, rfl, rfl, Nat.le_refl _, Nat.le_refl _, id,
    by simp [sqlite3VdbeChangeP4, changeLastOp_len], Nat.le_refl _⟩

theorem Keeps.keep_changeP5 (v : FlagWord) (h : Keeps p q) : Keeps p (sqlite3VdbeChangeP5 q v) :=
  h.keep_trans ⟨rfl, rfl, rfl, rfl, rfl, rfl, rfl, rfl, Nat.le_refl _, Nat.le_refl _, id,
    by simp [sqlite3VdbeChangeP5, changeLastOp_len], Nat.le_refl _⟩

theorem Keeps.keep_setP4KeyInfo (pIdx : Index) (h : Keeps p q) :
    Keeps p (sqlite3VdbeSetP4KeyInfo q pIdx) := Keeps.keep_changeP4 _ h

theorem Keeps.keep_resolveLabel (x : Int) (h : Keeps p q) : Keeps p (sqlite3VdbeResolveLabel q x) :=
  h.keep_trans ⟨rfl, rfl, rfl, rfl, rfl, rfl, rfl, rfl, Nat.le_refl _, Nat.le_refl _, id,
    Nat.le_refl _, by simp [sqlite3VdbeResolveLabel]⟩

theorem Keeps.keep_makeLabel (h : Keeps p q) : Keeps p (sqlite3VdbeMakeLabel q).2 :=
  h.keep_trans ⟨rfl, rfl, rfl, rfl, rfl, rfl, rfl, rfl, Nat.le_refl _, Nat.le_refl _, id,
    Nat.le_refl _, by simp [sqlite3VdbeMakeLabel]⟩

theorem Keeps.keep_mayAbort (h : Keeps p q) : Keeps p (sqlite3MayAbort q) :=
  h.keep_trans ⟨rfl, rfl, rfl, rfl, rfl, rfl, rfl, rfl, Nat.le_refl _, Nat.le_refl _, id,
    Nat.le_refl _, Nat.le_refl _⟩

theorem Keeps.keep_multiWrite (h : Keeps p q) : Keeps p (sqlite3MultiWrite q) :=
  h.keep_trans ⟨rfl, rfl, rfl, rfl, rfl, rfl, rfl, rfl, Nat.le_refl _, Nat.le_refl _, id,
    Nat.le_refl _, Nat.le_refl _⟩

theorem Keeps.keep_setCkBase (x : Int) (h : Keeps p q) : Keeps p (q.setCkBase x) :=
  h.keep_trans ⟨rfl, rfl, rfl, rfl, rfl, rfl, rfl, rfl, Nat.le_refl _, Nat.le_refl _, id,
    Nat.le_refl _, Nat.le_refl _⟩

theorem Keeps.keep_allocMem (n : Nat) (h : Keeps p q) : Keeps p (q.allocMem n) :=
  h.keep_trans ⟨rfl, rfl, rfl, rfl, rfl, rfl, rfl, rfl, Nat.le_add_right _ _, Nat.le_refl _, id,
    Nat.le_refl _, Nat.le_refl _⟩

theorem Keeps.keep_getTempReg (h : Keeps p q) : Keeps p (sqlite3GetTempReg q).2 :=
  h.keep_trans ⟨rfl, rfl, rfl, rfl, rfl, rfl, rfl, rfl, Nat.le_add_right _ _, Nat.le_refl _, id,
    Nat.le_refl _, Nat.le_refl _⟩

theorem Keeps.keep_getTempRange (n : Nat) (h : Keeps p q) : Keeps p (sqlite3GetTempRange q n).2 :=
  h.keep_trans ⟨rfl, rfl, rfl, rfl, rfl, rfl, rfl, rfl, Nat.le_add_right _ _, Nat.le_refl _, id,
    Nat.le_refl _, Nat.le_refl _⟩

theorem Keeps.keep_releaseTempReg (r : Int) (h : Keeps p q) : Keeps p (sqlite3ReleaseTempReg q r) := h

theorem Keeps.keep_releaseTempRange (r : Int) (n : Nat) (h : Keeps p q) :
    Keeps p (sqlite3ReleaseTempRange q r n) := h

theorem Keeps.keep_vdbe (h : Keeps p q) : Keeps p (sqlite3GetVdbe q) := by
  refine h.keep_trans ?_
  unfold sqlite3GetVdbe
  split
  · exact Keeps.keep_refl _
  · exact ⟨rfl, rfl, rfl, rfl, rfl, rfl, rfl, rfl, Nat.le_refl _, Nat.le_refl _, fun _ => rfl,
      by simp, Nat.le_refl _⟩

theorem Keeps.keep_tableAffinity (pTab : Table) (iReg : Int) (h : Keeps p q) :
    Keeps p (sqlite3TableAffinity q pTab iReg).2 := by
  unfold sqlite3TableAffinity
  simp only []
  split_ifs
  · exact Keeps.keep_addOp4 _ _ _ _ _ h
  · exact Keeps.keep_changeP4 _ h
  · exact h

theorem Keeps.keep_haltConstraint (errCode : Int) (onError : on_conflict_action) (p4 : String)
    (p5 : OpFlag) (h : Keeps p q) : Keeps p (sqlite3HaltConstraint q errCode onError p4 p5) := by
  unfold sqlite3HaltConstraint
  simp only []
  apply Keeps.keep_changeP5
  apply Keeps.keep_addOp4
  split_ifs
  · exact Keeps.keep_mayAbort h
  · exact h

theorem Keeps.keep_uniqueConstraint (onError : on_conflict_action) (pIdx : Index)
    (h : Keeps p q) : Keeps p (sqlite3UniqueConstraint q onError pIdx) :=
  Keeps.keep_haltConstraint _ _ _ _ h

end KeepsRules

section KeepsConstraintChecks

theorem sqlite3GenerateConstraintChecks_notNull_keeps (p : Parse) (pTab : Table)
    (regNewData : Int) (overrideError : on_conflict_action) (ignoreDest : Int)
    (aiChng : Option (List Int)) (i : Nat) :
    Keeps p (sqlite3GenerateConstraintChecks_notNull p pTab regNewData overrideError ignoreDest
      aiChng i) := by
  unfold sqlite3GenerateConstraintChecks_notNull
  simp only []
  split_ifs
  all_goals first
    | exact Keeps.keep_refl _
    | (split <;>
        (repeat' with_reducible first
          | exact Keeps.keep_refl _
          | apply Keeps.keep_if_then_else
          | apply Keeps.keep_changeP5
          | apply Keeps.keep_changeP4
          | apply Keeps.keep_addOp3
          | apply Keeps.keep_addOp2
          | apply Keeps.keep_addOp1
          | apply Keeps.keep_addOp4
          | apply Keeps.keep_jumpHere
          | apply Keeps.keep_mayAbort))

theorem sqlite3GenerateConstraintChecks_check_keeps (pTab : Table) (ignoreDest : Int)
    (aiChng : Option (List Int)) (l : List ExprList_item) (onError : on_conflict_action)
    (p : Parse) :
    Keeps p (sqlite3GenerateConstraintChecks_check pTab ignoreDest aiChng l onError p) := by
  induction l generalizing onError p with
  | nil => exact Keeps.keep_refl _
  | cons item rest ih =>
    unfold sqlite3GenerateConstraintChecks_check
    simp only []
    split_ifs
    · exact ih _ _
    all_goals
      refine Keeps.keep_trans ?_ (ih _ _)
      repeat' with_reducible first
        | exact Keeps.keep_refl _
        | apply Keeps.keep_resolveLabel
        | apply Keeps.keep_haltConstraint
        | apply Keeps.keep_goto
        | apply Keeps.keep_addOp
        | apply Keeps.keep_makeLabel

theorem sqlite3GenerateConstraintChecks_entry_keeps (pTab : Table) (pIdx : Index)
    (regNewData regIdx : Int) (l : List Int) (i : Nat) (p : Parse) :
    Keeps p (sqlite3GenerateConstraintChecks_entry pTab pIdx regNewData regIdx l i p) := by
  induction l generalizing i p with
  | nil => exact Keeps.keep_refl _
  | cons x rest ih =>
    unfold sqlite3GenerateConstraintChecks_entry
    simp only []
    refine Keeps.keep_trans ?_ (ih _ _)
    repeat' with_reducible first
      | exact Keeps.keep_refl _
      | apply Keeps.keep_if_then_else
      | apply Keeps.keep_setCkBase
      | apply Keeps.keep_addOp4
      | apply Keeps.keep_addOp2

theorem sqlite3GenerateConstraintChecks_pkCols_keeps (pIdx : Index) (iThisCur regR : Int)
    (l : List Int) (i : Nat) (p : Parse) :
    Keeps p (sqlite3GenerateConstraintChecks_pkCols pIdx iThisCur regR l i p) := by
  induction l generalizing i p with
  | nil => exact Keeps.keep_refl _
  | cons x rest ih =>
    unfold sqlite3GenerateConstraintChecks_pkCols
    simp only []
    exact Keeps.keep_trans (Keeps.keep_addOp3 _ _ _ _ (Keeps.keep_refl _)) (ih _ _)

theorem sqlite3GenerateConstraintChecks_cmp_keeps (pPk : Index) (regOldData regCmp : Int)
    (addrJump addrUniqueOk : Int) (nKeyCol : Nat) (l : List Int) (i : Nat) (p : Parse) :
    Keeps p (sqlite3GenerateConstraintChecks_cmp pPk regOldData regCmp addrJump addrUniqueOk
      nKeyCol l i p) := by
  induction l generalizing i p with
  | nil => exact Keeps.keep_refl _
  | cons x rest ih =>
    unfold sqlite3GenerateConstraintChecks_cmp
    simp only []
    exact Keeps.keep_trans (Keeps.keep_changeP5 _ (Keeps.keep_addOp4 _ _ _ _ _ (Keeps.keep_refl _))) (ih _ _)

variable {p q : Parse}

theorem Keeps.keep_entry (pTab : Table) (pIdx : Index) (regNewData regIdx : Int) (l : List Int)
    (i : Nat) (h : Keeps p q) :
    Keeps p (sqlite3GenerateConstraintChecks_entry pTab pIdx regNewData regIdx l i q) :=
  h.keep_trans (sqlite3GenerateConstraintChecks_entry_keeps _ _ _ _ _ _ _)

theorem Keeps.keep_pkCols (pIdx : Index) (iThisCur regR : Int) (l : List Int) (i : Nat)
    (h : Keeps p q) :
    Keeps p (sqlite3GenerateConstraintChecks_pkCols pIdx iThisCur regR l i q) :=
  h.keep_trans (sqlite3GenerateConstraintChecks_pkCols_keeps _ _ _ _ _ _)

theorem Keeps.keep_cmp (pPk : Index) (regOldData regCmp : Int) (addrJump addrUniqueOk : Int)
    (nKeyCol : Nat) (l : List Int) (i : Nat) (h : Keeps p q) :
    Keeps p (sqlite3GenerateConstraintChecks_cmp pPk regOldData regCmp addrJump addrUniqueOk
      nKeyCol l i q) :=
  h.keep_trans (sqlite3GenerateConstraintChecks_cmp_keeps _ _ _ _ _ _ _ _ _)

theorem sqlite3GenerateConstraintChecks_record_keeps (aRegIdx : List Int) (regNewData : Int)
    (overrideError : on_conflict_action) (pIdx : Index) (ix : Nat) (st : UniqueState) :
    Keeps st.pParse
      (sqlite3GenerateConstraintChecks_record aRegIdx regNewData overrideError pIdx ix st).2.pParse := by
  unfold sqlite3GenerateConstraintChecks_record
  simp only []
  have h1 : Keeps st.pParse
      (if st.bAffinityDone = false then
        ({ st with pParse := (sqlite3TableAffinity st.pParse st.pTab (regNewData + 1)).2,
                   pTab := (sqlite3TableAffinity st.pParse st.pTab (regNewData + 1)).1,
                   bAffinityDone := true } : UniqueState)
       else st).pParse := by
    split_ifs
    · exact Keeps.keep_tableAffinity _ _ (Keeps.keep_refl _)
    · exact Keeps.keep_refl _
  generalize (if st.bAffinityDone = false then
        ({ st with pParse := (sqlite3TableAffinity st.pParse st.pTab (regNewData + 1)).2,
                   pTab := (sqlite3TableAffinity st.pParse st.pTab (regNewData + 1)).1,
                   bAffinityDone := true } : UniqueState)
       else st) = st1 at h1 ⊢
  repeat' with_reducible first
    | exact h1
    | apply Keeps.keep_if_then_else
    | apply Keeps.keep_addOp2
    | apply Keeps.keep_addOp3
    | apply Keeps.keep_addOp
    | apply Keeps.keep_resolveLabel
    | apply Keeps.keep_makeLabel
    | apply Keeps.keep_setCkBase
    | apply Keeps.keep_entry

theorem sqlite3GenerateConstraintChecks_probe_keeps (iIdxCur regOldData : Int)
    (onError : on_conflict_action) (pPk : Index) (pkIx : Nat) (pIdx : Index) (ix : Nat)
    (U : UniqueLocals) (p : Parse) :
    Keeps p
      (sqlite3GenerateConstraintChecks_probe iIdxCur regOldData onError pPk pkIx pIdx ix U p).2 := by
  unfold sqlite3GenerateConstraintChecks_probe
  by_cases hpk : ix = pkIx
  · simp only [hpk, if_true, ne_eq, not_true_eq_false, if_false]
    repeat' with_reducible first
      | exact Keeps.keep_refl _
      | apply Keeps.keep_if_then_else
      | apply Keeps.keep_addOp2
      | apply Keeps.keep_addOp4
      | apply Keeps.keep_pkCols
      | apply Keeps.keep_cmp
  · simp only [hpk, if_false, ne_eq, not_false_eq_true, if_true]
    repeat' with_reducible first
      | exact Keeps.keep_refl _
      | apply Keeps.keep_if_then_else
      | apply Keeps.keep_addOp2
      | apply Keeps.keep_addOp4
      | apply Keeps.keep_pkCols
      | apply Keeps.keep_cmp
      | apply Keeps.keep_getTempRange

theorem sqlite3GenerateConstraintChecks_resolve_keeps (ext : Extern) (pTab : Table)
    (iDataCur iIdxCur : Int) (ignoreDest : Int) (onError : on_conflict_action) (pPk : Index)
    (pkIx : Nat) (pIdx : Index) (ix : Nat) (U : UniqueLocals) (regR : Int) (seenReplace : Int)
    (p : Parse) :
    Keeps p
      (sqlite3GenerateConstraintChecks_resolve ext pTab iDataCur iIdxCur ignoreDest onError pPk
        pkIx pIdx ix U regR seenReplace p).1 := by
  unfold sqlite3GenerateConstraintChecks_resolve
  cases onError <;> simp only [] <;>
    (repeat' with_reducible first
      | exact Keeps.keep_refl _
      | apply Keeps.keep_if_then_else
      | apply Keeps.keep_releaseTempRange
      | apply Keeps.keep_resolveLabel
      | apply Keeps.keep_uniqueConstraint
      | apply Keeps.keep_goto
      | apply Keeps.keep_addOp
      | apply Keeps.keep_multiWrite)

theorem sqlite3GenerateConstraintChecks_unique_keeps (ext : Extern) (aRegIdx : List Int)
    (iDataCur iIdxCur regNewData regOldData : Int) (pkChng : Bool)
    (overrideError : on_conflict_action) (ignoreDest : Int) (pPk : Index) (pkIx nIndex : Nat)
    (pIdx : Index) (ix : Nat) (st : UniqueState) :
    Keeps st.pParse
      (sqlite3GenerateConstraintChecks_unique ext aRegIdx iDataCur iIdxCur regNewData regOldData
        pkChng overrideError ignoreDest pPk pkIx nIndex pIdx ix st).pParse := by
  have hrec := sqlite3GenerateConstraintChecks_record_keeps aRegIdx regNewData overrideError
    pIdx ix st
  unfold sqlite3GenerateConstraintChecks_unique
  simp only []
  generalize sqlite3GenerateConstraintChecks_record aRegIdx regNewData overrideError pIdx ix st
    = r at hrec ⊢
  split_ifs
  all_goals first
    | exact Keeps.keep_refl _
    | exact Keeps.keep_resolveLabel _ hrec
    | (simp only []
       refine Keeps.keep_trans ?_ (sqlite3GenerateConstraintChecks_resolve_keeps _ _ _ _ _ _ _ _ _ _
          _ _ _ _)
       exact hrec.keep_trans (sqlite3GenerateConstraintChecks_probe_keeps _ _ _ _ _ _ _ _ _))

theorem sqlite3GenerateConstraintChecks_uniqueLoop_keeps (ext : Extern) (aRegIdx : List Int)
    (iDataCur iIdxCur regNewData regOldData : Int) (pkChng : Bool)
    (overrideError : on_conflict_action) (ignoreDest : Int) (pPk : Index) (pkIx nIndex : Nat)
    (l : List Index) (ix : Nat) (st : UniqueState) :
    Keeps st.pParse
      (sqlite3GenerateConstraintChecks_uniqueLoop ext aRegIdx iDataCur iIdxCur regNewData
        regOldData pkChng overrideError ignoreDest pPk pkIx nIndex l ix st).pParse := by
  induction l generalizing ix st with
  | nil => exact Keeps.keep_refl _
  | cons pIdx rest ih =>
    unfold sqlite3GenerateConstraintChecks_uniqueLoop
    exact (sqlite3GenerateConstraintChecks_unique_keeps _ _ _ _ _ _ _ _ _ _ _ _ _ _ _).keep_trans
      (ih _ _)

theorem sqlite3GenerateConstraintChecks_keeps (ext : Extern) (p : Parse) (pTab : Table)
    (aRegIdx : List Int) (iDataCur iIdxCur regNewData regOldData : Int) (pkChng : Bool)
    (overrideError : on_conflict_action) (ignoreDest : Int) (aiChng : Option (List Int))
    (c : ConstraintResult)
    (h : sqlite3GenerateConstraintChecks ext p pTab aRegIdx iDataCur iIdxCur regNewData
      regOldData pkChng overrideError ignoreDest aiChng = some c) :
    Keeps p c.pParse := by
  unfold sqlite3GenerateConstraintChecks at h
  simp only [] at h
  split at h
  · cases h
  · simp only [Option.some.injEq] at h
    subst h
    simp only []
    refine Keeps.keep_trans ?_ (sqlite3GenerateConstraintChecks_uniqueLoop_keeps _ _ _ _ _ _ _ _ _ _
      _ _ _ _ _)
    simp only []
    have h1 : Keeps p
        ((List.range pTab.nCol).foldl
          (fun pParse i => sqlite3GenerateConstraintChecks_notNull pParse pTab regNewData
            overrideError ignoreDest aiChng i) (sqlite3GetVdbe p)) :=
      (Keeps.keep_vdbe (Keeps.keep_refl p)).keep_trans
        (Keeps.keep_foldl _ (fun q i => sqlite3GenerateConstraintChecks_notNull_keeps q pTab
          regNewData overrideError ignoreDest aiChng i) _ _)
    generalize ((List.range pTab.nCol).foldl
          (fun pParse i => sqlite3GenerateConstraintChecks_notNull pParse pTab regNewData
            overrideError ignoreDest aiChng i) (sqlite3GetVdbe p)) = q at h1 ⊢
    split_ifs
    all_goals first
      | exact h1
      | exact h1.keep_trans (Keeps.keep_trans (Keeps.keep_setCkBase _ (Keeps.keep_refl _))
          (sqlite3GenerateConstraintChecks_check_keeps _ _ _ _ _ _))

end KeepsConstraintChecks

section KeepsInsertLoop

theorem sqlite3OpenTableAndIndices_loop_keeps (ext : Extern) (pTab : Table) (op : Opcode)
    (aToOpen : Option (List Bool)) (overrideError : on_conflict_action) (isUpdate : Bool)
    (space_ptr_reg : Int) (l : List Index) (i : Nat) (st : OpenCursors) :
    Keeps st.pParse
      (sqlite3OpenTableAndIndices_loop ext pTab op aToOpen overrideError isUpdate space_ptr_reg
        l i st).pParse := by
  induction l generalizing i st with
  | nil => exact Keeps.keep_refl _
  | cons pIdx rest ih =>
    unfold sqlite3OpenTableAndIndices_loop
    simp only []
    refine Keeps.keep_trans ?_ (ih _ _)
    split_ifs <;>
      (repeat' with_reducible first
        | exact Keeps.keep_refl _
        | apply Keeps.keep_changeP5
        | apply Keeps.keep_setP4KeyInfo
        | apply Keeps.keep_addOp3)

theorem sqlite3OpenTableAndIndices_keeps (ext : Extern) (p : Parse) (pTab : Table) (op : Opcode)
    (p5 : FlagWord) (iBase : Int) (aToOpen : Option (List Bool))
    (overrideError : on_conflict_action) (isUpdate : Bool) :
    Keeps p
      (sqlite3OpenTableAndIndices ext p pTab op p5 iBase aToOpen overrideError isUpdate).pParse := by
  unfold sqlite3OpenTableAndIndices
  simp only []
  have h1 : ∀ st : OpenCursors, Keeps p st.pParse →
      Keeps p (if st.iBase > st.pParse.nTab then st.pParse.setNTab st.iBase.toNat
        else st.pParse) := by
    intro st h
    split_ifs with hc
    · refine h.keep_trans ⟨rfl, rfl, rfl, rfl, rfl, rfl, rfl, rfl, Nat.le_refl _, ?_, id,
        Nat.le_refl _, Nat.le_refl _⟩
      simp only [Parse.setNTab]
      omega
    · exact h
  apply h1
  refine Keeps.keep_trans ?_ (sqlite3OpenTableAndIndices_loop_keeps _ _ _ _ _ _ _ _ _ _)
  simp only []
  exact Keeps.keep_addOp4 _ _ _ _ _ (Keeps.keep_allocMem _ (Keeps.keep_vdbe (Keeps.keep_refl _)))

theorem sqlite3CompleteInsertion_keeps (p : Parse) (pTab : Table) (iIdxCur : Int)
    (aRegIdx : List Int) (useSeekResult : Bool) (onError : on_conflict_action) (q : Parse)
    (h : sqlite3CompleteInsertion p pTab iIdxCur aRegIdx useSeekResult onError = some q) :
    Keeps p q := by
  unfold sqlite3CompleteInsertion at h
  simp only [] at h
  split at h
  · cases h
  · simp only [Option.some.injEq] at h
    subst h
    exact Keeps.keep_changeP5 _ (Keeps.keep_addOp4 _ _ _ _ _ (Keeps.keep_vdbe (Keeps.keep_refl _)))

theorem sqlite3Insert_triggerColumn_keeps (p : Parse) (pTab : Table) (pColumn : Option IdList)
    (pList : Option ExprList) (useTempTable : Bool) (srcTab regCols : Int) (i : Nat) :
    Keeps p (sqlite3Insert_triggerColumn p pTab pColumn pList useTempTable srcTab regCols i) := by
  unfold sqlite3Insert_triggerColumn
  simp only []
  split_ifs <;>
    (repeat' with_reducible first
      | exact Keeps.keep_refl _
      | apply Keeps.keep_addOp2
      | apply Keeps.keep_addOp3
      | apply Keeps.keep_addOp4)

theorem sqlite3Insert_column_keeps (p : Parse) (pTab : Table) (pColumn : Option IdList)
    (pList : Option ExprList) (pSelect : Bool) (useTempTable : Bool)
    (srcTab regFromSelect regData regTupleid : Int) (nColumn : Nat) (i : Nat) :
    Keeps p
      (sqlite3Insert_column p pTab pColumn pList pSelect useTempTable srcTab regFromSelect
        regData regTupleid nColumn i) := by
  unfold sqlite3Insert_column
  simp only []
  split_ifs <;>
    (repeat' with_reducible first
      | exact Keeps.keep_refl _
      | apply Keeps.keep_changeP3
      | apply Keeps.keep_addOp2
      | apply Keeps.keep_addOp3
      | apply Keeps.keep_addOp4
      | apply Keeps.keep_allocMem)

theorem sqlite3Insert_aRegIdx_keeps (l : List Index) (p : Parse) (a : List Int) :
    Keeps p (sqlite3Insert_aRegIdx l p a).2 := by
  induction l generalizing p a with
  | nil => exact Keeps.keep_refl _
  | cons pIdx rest ih =>
    unfold sqlite3Insert_aRegIdx
    exact Keeps.keep_trans (Keeps.keep_allocMem _ (Keeps.keep_refl _)) (ih _ _)

theorem sqlite3Insert_open_keeps (ext : Extern) (p : Parse) (pTab : Table)
    (onError : on_conflict_action) (L : InsertLocals) :
    Keeps p (sqlite3Insert_open ext p pTab onError L).2 := by
  unfold sqlite3Insert_open
  simp only []
  have h2 := fun q =>
    sqlite3OpenTableAndIndices_keeps ext q pTab OP_OpenWrite [] (-1) none onError false
  split_ifs
  all_goals simp only []
  all_goals first
    | exact Keeps.keep_refl _
    | exact Keeps.keep_addOp2 _ _ _ (Keeps.keep_allocMem _ (Keeps.keep_refl _))
    | exact (h2 _).keep_trans (sqlite3Insert_aRegIdx_keeps _ _ _)
    | exact (Keeps.keep_addOp2 _ _ _ (Keeps.keep_allocMem _ (Keeps.keep_refl _))).keep_trans
        ((h2 _).keep_trans (sqlite3Insert_aRegIdx_keeps _ _ _))

theorem sqlite3Insert_top_keeps (p : Parse) (L : InsertLocals) :
    Keeps p (sqlite3Insert_top p L).2 := by
  unfold sqlite3Insert_top
  simp only []
  split_ifs <;> simp only [] <;>
    (repeat' with_reducible first
      | exact Keeps.keep_refl _
      | apply Keeps.keep_makeLabel
      | apply Keeps.keep_addOp1)

theorem sqlite3Insert_before_keeps (p : Parse) (pTab : Table) (onError : on_conflict_action)
    (L : InsertLocals) :
    Keeps p (sqlite3Insert_before p pTab onError L).2 := by
  unfold sqlite3Insert_before
  simp only []
  have hcols : ∀ q regCols, Keeps q
      ((List.range pTab.nCol).foldl
        (fun pParse i => sqlite3Insert_triggerColumn pParse pTab L.pColumn L.pList
          L.useTempTable L.srcTab regCols i) q) := fun q regCols =>
    Keeps.keep_foldl _ (fun q i => sqlite3Insert_triggerColumn_keeps q pTab L.pColumn L.pList
      L.useTempTable L.srcTab regCols i) _ _
  split_ifs
  all_goals simp only []
  all_goals first
    | exact Keeps.keep_refl _
    | (apply Keeps.keep_releaseTempRange
       apply Keeps.keep_addOp
       first
        | (apply Keeps.keep_tableAffinity
           exact (Keeps.keep_getTempRange _ (Keeps.keep_refl _)).keep_trans (hcols _ _))
        | exact (Keeps.keep_getTempRange _ (Keeps.keep_refl _)).keep_trans (hcols _ _))

theorem sqlite3Insert_newRow_keeps (p : Parse) (pTab : Table) (L : InsertLocals) :
    Keeps p (sqlite3Insert_newRow p pTab L) := by
  unfold sqlite3Insert_newRow
  simp only []
  refine Keeps.keep_trans ?_ (Keeps.keep_foldl _ (fun q i => sqlite3Insert_column_keeps q pTab L.pColumn
    L.pList L.pSelect.isSome L.useTempTable L.srcTab L.regFromSelect L.regData L.regTupleid
    L.nColumn i) _ _)
  split_ifs <;>
    (repeat' with_reducible first
      | exact Keeps.keep_refl _
      | apply Keeps.keep_addOp2
      | apply Keeps.keep_addOp3)

theorem sqlite3Insert_write_keeps (ext : Extern) (p : Parse) (pTab : Table)
    (onError : on_conflict_action) (L : InsertLocals) (r : Table × Parse)
    (h : sqlite3Insert_write ext p pTab onError L = some r) :
    Keeps p r.2 := by
  unfold sqlite3Insert_write at h
  split at h
  · cases h
  · rename_i c hc
    simp only [] at h
    split at h
    · cases h
    · rename_i q hq
      simp only [Option.some.injEq] at h
      subst h
      have h1 := sqlite3GenerateConstraintChecks_keeps _ _ _ _ _ _ _ _ _ _ _ _ _ hc
      have h2 := sqlite3CompleteInsertion_keeps _ _ _ _ _ _ _ hq
      exact (Keeps.keep_addOp _ h1).keep_trans h2

theorem sqlite3Insert_bottom_keeps (p : Parse) (pTab : Table) (onError : on_conflict_action)
    (L : InsertLocals) :
    Keeps p (sqlite3Insert_bottom p pTab onError L) := by
  unfold sqlite3Insert_bottom
  simp only []
  repeat' with_reducible first
    | exact Keeps.keep_refl _
    | apply Keeps.keep_if_then_else
    | apply Keeps.keep_addOp1
    | apply Keeps.keep_addOp2
    | apply Keeps.keep_addOp
    | apply Keeps.keep_jumpHere
    | apply Keeps.keep_goto
    | apply Keeps.keep_resolveLabel

theorem sqlite3Insert_end_keeps (p : Parse) (regRowCount : Int) :
    Keeps p (sqlite3Insert_end p regRowCount) := by
  unfold sqlite3Insert_end
  split_ifs
  · exact Keeps.keep_trans (Keeps.keep_addOp2 _ _ _ (Keeps.keep_refl _))
      ⟨rfl, rfl, rfl, rfl, rfl, rfl, rfl, rfl, Nat.le_refl _, Nat.le_refl _, id,
        Nat.le_refl _, Nat.le_refl _⟩
  · exact Keeps.keep_refl _

end KeepsInsertLoop

section ReachesLoop

/-- A statement that `sqlite3Insert_shape` compiles to `insert_end` has passed both shape
tests and went through `sqlite3Insert_loop`. -/
theorem sqlite3Insert_shape_reaches_loop (ext : Extern) (p : Parse) (pTab : Table)
    (onError : on_conflict_action) (L : InsertLocals) (r : InsertResult)
    (h : sqlite3Insert_shape ext p pTab onError L = some r)
    (hexit : r.exit = InsertExit.insert_end) :
    ¬ (L.pColumn.isNone = true ∧ L.nColumn ≠ 0 ∧ L.nColumn ≠ pTab.nCol)
    ∧ ¬ (L.pColumn.isSome = true ∧ L.nColumn ≠ (L.pColumn.getD []).length)
    ∧ ∃ L1, sqlite3Insert_loop ext p pTab onError L1 = some r
        ∧ { L1 with ipkColumn := -1 } = { L with ipkColumn := -1 } := by
  unfold sqlite3Insert_shape at h
  simp only [] at h
  have hpc : ∀ c : Prop, ∀ [Decidable c],
      (if c then { L with ipkColumn := pTab.iPKey } else L).pColumn = L.pColumn := by
    intro c _; split_ifs <;> rfl
  have hnc : ∀ c : Prop, ∀ [Decidable c],
      (if c then { L with ipkColumn := pTab.iPKey } else L).nColumn = L.nColumn := by
    intro c _; split_ifs <;> rfl
  have hrest : ∀ c : Prop, ∀ [Decidable c],
      { (if c then { L with ipkColumn := pTab.iPKey } else L) with ipkColumn := -1 }
        = { L with ipkColumn := -1 } := by
    intro c _; split_ifs <;> rfl
  rw [hpc, hnc] at h
  by_cases h1 : L.pColumn.isNone = true ∧ L.nColumn ≠ 0 ∧ L.nColumn ≠ pTab.nCol
  · rw [if_pos h1] at h
    simp only [Option.some.injEq] at h
    subst h
    simp [sqlite3Insert_cleanup] at hexit
  · rw [if_neg h1] at h
    by_cases h2 : L.pColumn.isSome = true ∧ L.nColumn ≠ (L.pColumn.getD []).length
    · rw [if_pos h2] at h
      simp only [Option.some.injEq] at h
      subst h
      simp [sqlite3Insert_cleanup] at hexit
    · rw [if_neg h2] at h
      exact ⟨h1, h2, _, h, hrest _⟩

/-- The parts of `sqlite3Insert_loop`: the local variables are final after the top of the
loop, and the final context is the one after the write (or, for a view, after the BEFORE
and INSTEAD OF triggers) followed by the bottom of the loop and the code at
`insert_end`. -/
theorem sqlite3Insert_loop_parts (ext : Extern) (p : Parse) (pTab : Table)
    (onError : on_conflict_action) (L : InsertLocals) (r : InsertResult)
    (h : sqlite3Insert_loop ext p pTab onError L = some r) :
    r.L = (sqlite3Insert_top (sqlite3Insert_open ext p pTab onError L).2
            (sqlite3Insert_open ext p pTab onError L).1).1
    ∧ r.exit = InsertExit.insert_end
    ∧ ∃ (pTabW : Table) (q : Parse),
        r.pParse = sqlite3Insert_end (sqlite3Insert_bottom q pTabW onError r.L) r.L.regRowCount
        ∧ r.pTab = some pTabW
        ∧ (if r.L.isView = false then
            sqlite3Insert_write ext
              (sqlite3Insert_newRow
                (sqlite3Insert_before
                  (sqlite3Insert_top (sqlite3Insert_open ext p pTab onError L).2
                    (sqlite3Insert_open ext p pTab onError L).1).2 pTab onError r.L).2
                (sqlite3Insert_before
                  (sqlite3Insert_top (sqlite3Insert_open ext p pTab onError L).2
                    (sqlite3Insert_open ext p pTab onError L).1).2 pTab onError r.L).1 r.L)
              (sqlite3Insert_before
                (sqlite3Insert_top (sqlite3Insert_open ext p pTab onError L).2
                  (sqlite3Insert_open ext p pTab onError L).1).2 pTab onError r.L).1 onError r.L
              = some (pTabW, q)
          else
            (pTabW, q)
              = sqlite3Insert_before
                  (sqlite3Insert_top (sqlite3Insert_open ext p pTab onError L).2
                    (sqlite3Insert_open ext p pTab onError L).1).2 pTab onError r.L) := by
  unfold sqlite3Insert_loop at h
  simp only [] at h
  generalize sqlite3Insert_open ext p pTab onError L = o at h ⊢
  generalize sqlite3Insert_top o.2 o.1 = t at h ⊢
  split at h
  · cases h
  · rename_i pTab2 q hw
    simp only [Option.some.injEq] at h
    subst h
    refine ⟨rfl, rfl, pTab2, q, rfl, rfl, ?_⟩
    simp only []
    by_cases hv : t.1.isView = false
    · rw [if_pos hv] at hw ⊢
      exact hw
    · rw [if_neg hv] at hw ⊢
      simp only [Option.some.injEq] at hw
      exact hw.symm

theorem sqlite3Insert_loop_keeps (ext : Extern) (p : Parse) (pTab : Table)
    (onError : on_conflict_action) (L : InsertLocals) (r : InsertResult)
    (h : sqlite3Insert_loop ext p pTab onError L = some r) : Keeps p r.pParse := by
  obtain ⟨hL, -, pTabW, q, hp, -, hw⟩ := sqlite3Insert_loop_parts ext p pTab onError L r h
  have ho := sqlite3Insert_open_keeps ext p pTab onError L
  generalize sqlite3Insert_open ext p pTab onError L = o at hL hw ho
  have ht := sqlite3Insert_top_keeps o.2 o.1
  generalize sqlite3Insert_top o.2 o.1 = t at hL hw ht
  have hb := sqlite3Insert_before_keeps t.2 pTab onError r.L
  generalize sqlite3Insert_before t.2 pTab onError r.L = b at hw hb
  rw [hp]
  refine Keeps.keep_trans ?_ (sqlite3Insert_end_keeps _ _)
  refine Keeps.keep_trans ?_ (sqlite3Insert_bottom_keeps _ _ _ _)
  refine ho.keep_trans (ht.keep_trans (hb.keep_trans ?_))
  by_cases hv : r.L.isView = false
  · rw [if_pos hv] at hw
    exact (sqlite3Insert_newRow_keeps _ _ _).keep_trans (sqlite3Insert_write_keeps _ _ _ _ _ _ hw)
  · rw [if_neg hv] at hw
    have : q = b.2 := congrArg Prod.snd hw
    rw [this]
    exact Keeps.keep_refl _

end ReachesLoop

section ReachesShape

theorem sqlite3Insert_coroutine_frame (ext : Extern) (p : Parse) (pTab : Table)
    (L : InsertLocals) (s : Select) :
    (sqlite3Insert_coroutine ext p pTab L s).2.2.pVdbe = p.pVdbe
    ∧ (sqlite3Insert_coroutine ext p pTab L s).2.2.user_session = p.user_session := by
  unfold sqlite3Insert_coroutine
  simp only [sqlite3Select]
  split_ifs <;> exact ⟨rfl, rfl⟩

theorem sqlite3Insert_stage_frame (p : Parse) (regYield regFromSelect : Int) (nColumn : Nat) :
    (sqlite3Insert_stage p regYield regFromSelect nColumn).2.pVdbe = p.pVdbe
    ∧ (sqlite3Insert_stage p regYield regFromSelect nColumn).2.user_session = p.user_session := by
  simp [sqlite3Insert_stage, sqlite3GetTempReg, sqlite3GetTempRange, sqlite3ReleaseTempReg,
    sqlite3ReleaseTempRange, sqlite3VdbeJumpHere, sqlite3VdbeGoto, sqlite3VdbeAddOp1,
    sqlite3VdbeAddOp2, sqlite3VdbeAddOp3, sqlite3VdbeAddOp4, sqlite3VdbeAddOp,
    sqlite3VdbeChangeP5, Parse.setNTab, sqlite3VdbeCurrentAddr]

/-- A statement that `sqlite3Insert_source` compiles to `insert_end` went through
`sqlite3Insert_shape`: the registers of the new row, the column-name list, the triggers and
the view flag are those it started with, and a sub-select has got the co-routine register
`nMem + 1`. -/
theorem sqlite3Insert_source_reaches_shape (ext : Extern) (p : Parse) (pTab : Table)
    (onError : on_conflict_action) (L : InsertLocals) (r : InsertResult)
    (h : sqlite3Insert_source ext p pTab onError L = some r)
    (hexit : r.exit = InsertExit.insert_end) :
    ∃ (ps : Parse) (Ls : InsertLocals),
      sqlite3Insert_shape ext ps pTab onError Ls = some r
      ∧ p.nMem ≤ ps.nMem ∧ ps.pVdbe = p.pVdbe ∧ ps.user_session = p.user_session
      ∧ Ls.regIns = L.regIns ∧ Ls.regTupleid = L.regTupleid ∧ Ls.regData = L.regData
      ∧ Ls.pColumn = L.pColumn ∧ Ls.isView = L.isView ∧ Ls.pTrigger = L.pTrigger
      ∧ Ls.pList = L.pList ∧ Ls.tmask = L.tmask
      ∧ (L.pSelect.isSome = true →
          Ls.pSelect.isSome = true ∧ Ls.regYield = ((p.nMem + 1 : Nat) : Int)
          ∧ p.nMem + 1 ≤ ps.nMem)
      ∧ (L.pSelect = none →
          Ls.pSelect = none ∧ ps = p ∧ Ls.useTempTable = L.useTempTable
          ∧ Ls.nColumn = (L.pList.map List.length).getD 0) := by
  cases hs : L.pSelect with
  | some s =>
    unfold sqlite3Insert_source at h
    rw [hs] at h
    simp only [] at h
    have hc := sqlite3Insert_coroutine_spec ext p pTab L s
    have hf := sqlite3Insert_coroutine_frame ext p pTab L s
    generalize sqlite3Insert_coroutine ext p pTab L s = c at h hc hf
    obtain ⟨ok, Lc, q⟩ := c
    simp only [] at h hc hf
    cases ok with
    | false =>
      simp only [if_true, Option.some.injEq] at h
      subst h
      simp [sqlite3Insert_cleanup] at hexit
    | true =>
      obtain ⟨sel, -, hm, hL, hsel, hy⟩ := hc rfl
      have e1 : Lc.regIns = L.regIns := by
        have := congrArg InsertLocals.regIns hL
        exact this
      have e2 : Lc.regTupleid = L.regTupleid := by
        have := congrArg InsertLocals.regTupleid hL
        exact this
      have e3 : Lc.regData = L.regData := by
        have := congrArg InsertLocals.regData hL
        exact this
      have e4 : Lc.pColumn = L.pColumn := by
        have := congrArg InsertLocals.pColumn hL
        exact this
      have e5 : Lc.isView = L.isView := by
        have := congrArg InsertLocals.isView hL
        exact this
      have e6 : Lc.pTrigger = L.pTrigger := by
        have := congrArg InsertLocals.pTrigger hL
        exact this
      have e7 : Lc.pList = L.pList := by
        have := congrArg InsertLocals.pList hL
        exact this
      have e8 : Lc.tmask = L.tmask := by
        have := congrArg InsertLocals.tmask hL
        exact this
      simp only [Bool.true_eq_false, if_false] at h
      by_cases hd : (Lc.pTrigger ≠ [] ∨ readsTable q pTab ≠ 0)
      · have hdt : decide (Lc.pTrigger ≠ [] ∨ readsTable q pTab ≠ 0) = true := by simpa using hd
        rw [hdt] at h
        simp only [if_true] at h
        obtain ⟨-, hsm, -⟩ := sqlite3Insert_stage_ops_eq q Lc.regYield Lc.regFromSelect Lc.nColumn
        obtain ⟨hv, hu⟩ := sqlite3Insert_stage_frame q Lc.regYield Lc.regFromSelect Lc.nColumn
        refine ⟨_, _, h, by omega, hv.trans hf.1, hu.trans hf.2, e1, e2, e3, e4, e5, e6, e7, e8,
          fun _ => ⟨hsel, hy, by omega⟩, fun hn => by cases hn⟩
      · have hdf : decide (Lc.pTrigger ≠ [] ∨ readsTable q pTab ≠ 0) = false := by
          simpa using hd
        rw [hdf] at h
        simp only [Bool.false_eq_true, if_false] at h
        refine ⟨_, _, h, by omega, hf.1, hf.2, e1, e2, e3, e4, e5, e6, e7, e8,
          fun _ => ⟨hsel, hy, hm⟩, fun hn => by cases hn⟩
  | none =>
    unfold sqlite3Insert_source at h
    rw [hs] at h
    simp only [] at h
    cases hl : L.pList with
    | some pList =>
      rw [hl] at h
      simp only [] at h
      split at h
      · simp only [Option.some.injEq] at h
        subst h
        simp [sqlite3Insert_cleanup] at hexit
      · exact ⟨_, _, h, Nat.le_refl _, rfl, rfl, rfl, rfl, rfl, rfl, rfl, rfl, rfl, rfl,
          fun hn => by simp at hn, fun _ => ⟨rfl, rfl, rfl, by simp⟩⟩
    | none =>
      rw [hl] at h
      simp only [] at h
      exact ⟨_, _, h, Nat.le_refl _, rfl, rfl, rfl, rfl, rfl, rfl, rfl, rfl, rfl, rfl,
        fun hn => by simp at hn, fun _ => ⟨rfl, rfl, rfl, by simp⟩⟩

end ReachesShape

section ReachesLoopFromInsert

theorem sqlite3Insert_loop_locals (ext : Extern) (p : Parse) (pTab : Table)
    (onError : on_conflict_action) (L : InsertLocals) (r : InsertResult)
    (h : sqlite3Insert_loop ext p pTab onError L = some r) :
    r.L.settled = L.settled := by
  obtain ⟨hL, -⟩ := sqlite3Insert_loop_parts ext p pTab onError L r h
  rw [hL, sqlite3Insert_top_settled, sqlite3Insert_open_settled]

theorem xferOptimization_declined_frame (pParse : Parse) (pDest : Table)
    (pSelect : Option Select) (onError : on_conflict_action) (x : Parse)
    (h : xferOptimization pParse pDest pSelect onError = some (0, x)) :
    (pParse.pVdbe = true → x.pVdbe = true) ∧ x.user_session = pParse.user_session := by
  cases pSelect with
  | none =>
    simp only [xferOptimization, Option.some.injEq, Prod.mk.injEq, true_and] at h
    subst h
    exact ⟨id, rfl⟩
  | some s =>
    by_cases hst : ∃ pSrc, xferStaticOk pParse pDest s pSrc
    · obtain ⟨pSrc, hs⟩ := hst
      rw [xferOptimization_of_static _ _ _ _ _ hs] at h
      cases hpk : sqlite3PrimaryKeyIndex pDest with
      | none => rw [xferOptimization_emit_none _ _ _ _ _ hpk] at h; cases h
      | some pk =>
        rw [xferOptimization_emit_eq _ _ _ _ _ pk hpk hs.2.2.2.2.2.2.2.1] at h
        simp only [Option.some.injEq, Prod.mk.injEq] at h
        rw [← h.2]
        refine ⟨fun hv => ?_, sqlite3GetVdbe_user_session _⟩
        show (sqlite3GetVdbe pParse).pVdbe = true
        unfold sqlite3GetVdbe
        rw [if_pos hv]
        exact hv
    · obtain ⟨p', hp, hc⟩ := xferOptimization_decline pParse pDest s onError hst
      rw [hp] at h
      simp only [Option.some.injEq, Prod.mk.injEq, true_and] at h
      subst h
      rcases hc with rfl | ⟨rfl, -⟩
      · exact ⟨id, rfl⟩
      · exact ⟨id, rfl⟩

/-- A statement that `sqlite3Insert` compiles to `insert_end` along the general path: the
general path starts in the context `x` (the one of `sqlite3Insert_begin`, or the one
`xferOptimization` hands back), the new row gets the registers `x.nMem + 1` to
`x.nMem + nCol + 1`, a sub-select gets the co-routine register `x.nMem + nCol + 2`, the shape
tests pass, and the rest is compiled by `sqlite3Insert_loop` in a context `po`. -/
theorem sqlite3Insert_reaches_loop (ext : Extern) (pParse : Parse) (pTabList : SrcList)
    (pSelect : Option Select) (pColumn : Option IdList) (onError : on_conflict_action)
    (r : InsertResult)
    (h : sqlite3Insert ext pParse pTabList pSelect pColumn onError = some r)
    (hexit : r.exit = InsertExit.insert_end) :
    ∃ (pTab : Table) (x po : Parse) (L0 : InsertLocals),
      (sqlite3SrcListLookup pParse pTabList).1 = some pTab
      ∧ sqlite3Insert_loop ext po pTab onError L0 = some r
      ∧ pParse.nMem ≤ x.nMem
      ∧ x.nMem + (pTab.nCol + 1) ≤ po.nMem
      ∧ po.pVdbe = true
      ∧ r.L.regIns = ((x.nMem + 1 : Nat) : Int)
      ∧ r.L.regTupleid = r.L.regIns ∧ r.L.regData = r.L.regIns + 1
      ∧ r.L.settled = L0.settled
      ∧ (r.L.pSelect.isSome = true →
          r.L.regYield = ((x.nMem + (pTab.nCol + 1) + 1 : Nat) : Int)
          ∧ x.nMem + (pTab.nCol + 1) + 1 ≤ po.nMem)
      ∧ ¬ (r.L.pColumn = none ∧ r.L.nColumn ≠ 0 ∧ r.L.nColumn ≠ pTab.nCol)
      ∧ (∀ cols, r.L.pColumn = some cols → r.L.nColumn = cols.length) := by
  obtain ⟨pTab, p1, x, hl, hg, hx⟩ :=
    sqlite3Insert_reaches_general ext pParse pTabList pSelect pColumn onError r h hexit
  obtain ⟨L1, hsrc, hI, hU, hD, hS, -, -⟩ :=
    sqlite3Insert_general_spec ext x pTab onError _ r hg hexit
  obtain ⟨ps, Ls, hsh, hm, hv, -, e1, e2, e3, e4, -, -, -, -, hsel, hnosel⟩ :=
    sqlite3Insert_source_reaches_shape ext _ pTab onError L1 r hsrc hexit
  obtain ⟨hn1, hn2, L2, hloop, hL2⟩ :=
    sqlite3Insert_shape_reaches_loop ext ps pTab onError Ls r hsh hexit
  have hset := sqlite3Insert_loop_locals ext ps pTab onError L2 r hloop
  have f1 : ∀ {α : Type} (f : InsertLocals → α), (∀ A : InsertLocals, f A.settled = f A) →
      (∀ A : InsertLocals, f { A with ipkColumn := -1 } = f A) → f r.L = f Ls := by
    intro α f hf hg
    rw [← hf r.L, hset, hf L2, ← hg L2, hL2, hg Ls]
  have g1 : r.L.regIns = Ls.regIns := f1 InsertLocals.regIns (fun _ => rfl) (fun _ => rfl)
  have g2 : r.L.regTupleid = Ls.regTupleid :=
    f1 InsertLocals.regTupleid (fun _ => rfl) (fun _ => rfl)
  have g3 : r.L.regData = Ls.regData := f1 InsertLocals.regData (fun _ => rfl) (fun _ => rfl)
  have g4 : r.L.regYield = Ls.regYield := f1 InsertLocals.regYield (fun _ => rfl) (fun _ => rfl)
  have g5 : r.L.pSelect = Ls.pSelect := f1 InsertLocals.pSelect (fun _ => rfl) (fun _ => rfl)
  have g6 : r.L.pColumn = Ls.pColumn := f1 InsertLocals.pColumn (fun _ => rfl) (fun _ => rfl)
  have g7 : r.L.nColumn = Ls.nColumn := f1 InsertLocals.nColumn (fun _ => rfl) (fun _ => rfl)
  have hxm : pParse.nMem ≤ x.nMem := by
    have hp1 : p1.nMem = pParse.nMem := sqlite3SrcListLookup_nMem _ _ _ _ hl
    rcases hx with ⟨-, rfl⟩ | ⟨-, hxf⟩
    · rw [sqlite3Insert_begin_nMem, hp1]
    · rcases xferOptimization_result _ _ _ _ _ hxf with ⟨-, -, hn, -⟩ |
        ⟨_, _, _, -, -, -, -, -, hn, -⟩
      · simp only [] at hn
        rw [hn, sqlite3Insert_begin_nMem, hp1]
      · simp only [] at hn
        rw [hn, sqlite3Insert_begin_nMem, hp1]
        omega
  have hxv : x.pVdbe = true := by
    rcases hx with ⟨-, rfl⟩ | ⟨-, hxf⟩
    · exact sqlite3Insert_begin_pVdbe _ _
    · exact (xferOptimization_declined_frame _ _ _ _ _ hxf).1 (sqlite3Insert_begin_pVdbe _ _)
  have hps : x.nMem + (pTab.nCol + 1) ≤ ps.nMem := by
    simpa [Parse.allocMem] using hm
  refine ⟨pTab, x, ps, L2, by rw [hl], hloop, hxm, hps, ?_, ?_, ?_, ?_, hset, ?_, ?_, ?_⟩
  · rw [hv]
    exact hxv
  · rw [g1, e1, hI]
  · rw [g2, g1, e2, e1, hU]
  · rw [g3, g1, e3, e1, hD]
  · intro hsome
    rw [g5] at hsome
    cases hL1 : L1.pSelect with
    | none =>
      obtain ⟨hnone, -⟩ := hnosel hL1
      rw [hnone] at hsome
      cases hsome
    | some s =>
      obtain ⟨-, hy, hmm⟩ := hsel (by rw [hL1]; rfl)
      refine ⟨by rw [g4, hy]; rfl, ?_⟩
      simpa [Parse.allocMem] using hmm
  · rw [g6, g7]
    intro hc
    apply hn1
    exact ⟨by rw [hc.1]; rfl, hc.2⟩
  · intro cols hc
    rw [g6] at hc
    rw [g7]
    by_contra hne
    apply hn2
    rw [hc]
    exact ⟨rfl, hne⟩

end ReachesLoopFromInsert

section ShapeErrors

/-- C22: at the shape tests of `sqlite3Insert` (insert.c:588-606), with `nColumn` values
supplied: without a column-name list, if `nColumn` is neither 0 nor the number of columns of
the table, the function leaves at `insert_cleanup` with the diagnostic
`table T has N columns but M values were supplied`, one more error counted and no
instruction added; with a column-name list whose length differs from `nColumn` it leaves the
same way with the diagnostic `M values for N columns`.  In every other case no error is
reported there: the function goes on with `sqlite3Insert_loop`, and whenever that returns
it has left at `insert_end` with the error count and the diagnostic unchanged.  In
particular DEFAULT VALUES (`nColumn = 0`) without a column-name list goes on with
`sqlite3Insert_loop`.  Every run of `sqlite3Insert` that leaves at `insert_end` has passed
both tests. -/
theorem sqlite3Insert_shape_mismatch (ext : Extern) (p : Parse) (pTab : Table)
    (onError : on_conflict_action) (L : InsertLocals) :
    ((L.pColumn = none ∧ L.nColumn ≠ 0 ∧ L.nColumn ≠ pTab.nCol) →
      ∃ r, sqlite3Insert_shape ext p pTab onError L = some r
        ∧ r.exit = InsertExit.insert_cleanup
        ∧ r.pParse.nErr = p.nErr + 1
        ∧ r.pParse.zErrMsg
            = some ("table " ++ pTab.zName ++ " has " ++ toString pTab.nCol ++ " columns but "
                ++ toString L.nColumn ++ " values were supplied")
        ∧ r.pParse.aOp = p.aOp)
    ∧ (∀ cols, L.pColumn = some cols → L.nColumn ≠ cols.length →
      ∃ r, sqlite3Insert_shape ext p pTab onError L = some r
        ∧ r.exit = InsertExit.insert_cleanup
        ∧ r.pParse.nErr = p.nErr + 1
        ∧ r.pParse.zErrMsg
            = some (toString L.nColumn ++ " values for " ++ toString cols.length ++ " columns")
        ∧ r.pParse.aOp = p.aOp)
    ∧ (¬ (L.pColumn = none ∧ L.nColumn ≠ 0 ∧ L.nColumn ≠ pTab.nCol) →
        (∀ cols, L.pColumn = some cols → L.nColumn = cols.length) →
        (∃ L1, sqlite3Insert_shape ext p pTab onError L = sqlite3Insert_loop ext p pTab onError L1
          ∧ { L1 with ipkColumn := -1 } = { L with ipkColumn := -1 })
        ∧ ∀ r, sqlite3Insert_shape ext p pTab onError L = some r →
            r.exit = InsertExit.insert_end ∧ r.pParse.nErr = p.nErr
            ∧ r.pParse.zErrMsg = p.zErrMsg)
    ∧ (L.pColumn = none → L.nColumn = 0 →
        sqlite3Insert_shape ext p pTab onError L = sqlite3Insert_loop ext p pTab onError L)
    ∧ (∀ (pParse : Parse) (pTabList : SrcList) (pSelect : Option Select)
        (pColumn : Option IdList) (r : InsertResult),
        sqlite3Insert ext pParse pTabList pSelect pColumn onError = some r →
        r.exit = InsertExit.insert_end →
        ∃ pDest, (sqlite3SrcListLookup pParse pTabList).1 = some pDest
          ∧ ¬ (r.L.pColumn = none ∧ r.L.nColumn ≠ 0 ∧ r.L.nColumn ≠ pDest.nCol)
          ∧ (∀ cols, r.L.pColumn = some cols → r.L.nColumn = cols.length)) := by
  have hpc : ∀ c : Prop, ∀ [Decidable c],
      (if c then { L with ipkColumn := pTab.iPKey } else L).pColumn = L.pColumn := by
    intro c _; split_ifs <;> rfl
  have hnc : ∀ c : Prop, ∀ [Decidable c],
      (if c then { L with ipkColumn := pTab.iPKey } else L).nColumn = L.nColumn := by
    intro c _; split_ifs <;> rfl
  have hrest : ∀ c : Prop, ∀ [Decidable c],
      { (if c then { L with ipkColumn := pTab.iPKey } else L) with ipkColumn := -1 }
        = { L with ipkColumn := -1 } := by
    intro c _; split_ifs <;> rfl
  refine ⟨?_, ?_, ?_, ?_, ?_⟩
  · intro h
    unfold sqlite3Insert_shape
    simp only []
    rw [hpc, hnc]
    have h1 : L.pColumn.isNone = true ∧ L.nColumn ≠ 0 ∧ L.nColumn ≠ pTab.nCol :=
      ⟨by rw [h.1]; rfl, h.2⟩
    rw [if_pos h1]
    exact ⟨_, rfl, rfl, rfl, rfl, rfl⟩
  · intro cols hc hne
    unfold sqlite3Insert_shape
    simp only []
    rw [hpc, hnc]
    have h1 : ¬ (L.pColumn.isNone = true ∧ L.nColumn ≠ 0 ∧ L.nColumn ≠ pTab.nCol) := by
      rw [hc]; simp
    have h2 : L.pColumn.isSome = true ∧ L.nColumn ≠ (L.pColumn.getD []).length := by
      rw [hc]; exact ⟨rfl, hne⟩
    rw [if_neg h1, if_pos h2, hc]
    exact ⟨_, rfl, rfl, rfl, rfl, rfl⟩
  · intro hn hs
    have h1 : ¬ (L.pColumn.isNone = true ∧ L.nColumn ≠ 0 ∧ L.nColumn ≠ pTab.nCol) := by
      intro h
      apply hn
      refine ⟨?_, h.2⟩
      cases hc : L.pColumn with
      | none => rfl
      | some cols => rw [hc] at h; simp at h
    have h2 : ¬ (L.pColumn.isSome = true ∧ L.nColumn ≠ (L.pColumn.getD []).length) := by
      intro h
      cases hc : L.pColumn with
      | none => rw [hc] at h; simp at h
      | some cols =>
        rw [hc] at h
        exact h.2 (hs cols hc)
    have heq : sqlite3Insert_shape ext p pTab onError L
        = sqlite3Insert_loop ext p pTab onError
            (if L.pColumn.isNone = true ∧ L.nColumn > 0 then
              { L with ipkColumn := pTab.iPKey } else L) := by
      unfold sqlite3Insert_shape
      simp only []
      rw [hpc, hnc, if_neg h1, if_neg h2]
    refine ⟨⟨_, heq, hrest _⟩, ?_⟩
    intro r hr
    rw [heq] at hr
    have hk := sqlite3Insert_loop_keeps _ _ _ _ _ _ hr
    obtain ⟨-, he, -⟩ := sqlite3Insert_loop_parts _ _ _ _ _ _ hr
    exact ⟨he, hk.nErr, hk.zErrMsg⟩
  · intro hc h0
    unfold sqlite3Insert_shape
    simp only []
    have e : (if L.pColumn.isNone = true ∧ L.nColumn > 0 then
        { L with ipkColumn := pTab.iPKey } else L) = L := by
      rw [if_neg]
      rw [h0]
      simp
    rw [e]
    have h1 : ¬ (L.pColumn.isNone = true ∧ L.nColumn ≠ 0 ∧ L.nColumn ≠ pTab.nCol) := by
      rw [h0]; simp
    have h2 : ¬ (L.pColumn.isSome = true ∧ L.nColumn ≠ (L.pColumn.getD []).length) := by
      rw [hc]; simp
    rw [if_neg h1, if_neg h2]
  · intro pParse pTabList pSelect pColumn r h hexit
    obtain ⟨pDest, -, -, -, hl, -, -, -, -, -, -, -, -, -, hn, hs⟩ :=
      sqlite3Insert_reaches_loop ext pParse pTabList pSelect pColumn onError r h hexit
    exact ⟨pDest, hl, hn, hs⟩

end ShapeErrors

section EndOfLoop

theorem changeOpAt_append_lt (f : VdbeOp → VdbeOp) (n : Nat) (l l' : List VdbeOp)
    (h : n < l.length) : changeOpAt f n (l ++ l') = changeOpAt f n l ++ l' := by
  induction l generalizing n with
  | nil => simp at h
  | cons a l ih =>
    cases n with
    | zero => rfl
    | succ n =>
      simp only [List.cons_append, changeOpAt, List.cons.injEq, true_and]
      exact ih n (by simpa using h)

/-- The top of the loop (insert.c:635-665): `endOfLoop` is a fresh label, and with a
sub-select `addrInsTop` is the address of the `OP_Rewind` or `OP_Yield` emitted there. -/
theorem sqlite3Insert_top_spec (p : Parse) (L : InsertLocals) :
    (sqlite3Insert_top p L).1.endOfLoop = -1 - (p.aLabel.length : Int)
    ∧ (sqlite3Insert_top p L).2.aLabel.length = p.aLabel.length + 1
    ∧ ((L.useTempTable = true ∨ L.pSelect.isSome = true) →
        (sqlite3Insert_top p L).1.addrInsTop = p.aOp.length
        ∧ p.aOp.length < (sqlite3Insert_top p L).2.aOp.length) := by
  unfold sqlite3Insert_top
  simp only []
  split_ifs with h1 h2
  · simp [sqlite3VdbeMakeLabel, sqlite3VdbeAddOp1, sqlite3VdbeAddOp, sqlite3VdbeCurrentAddr]
  · simp [sqlite3VdbeMakeLabel, sqlite3VdbeAddOp1, sqlite3VdbeAddOp, sqlite3VdbeCurrentAddr]
  · refine ⟨by simp [sqlite3VdbeMakeLabel], by simp [sqlite3VdbeMakeLabel], ?_⟩
    rintro (h | h)
    · exact absurd h h1
    · exact absurd h h2

theorem sqlite3GetVdbe_idem (p : Parse) : sqlite3GetVdbe (sqlite3GetVdbe p) = sqlite3GetVdbe p := by
  have h := sqlite3GetVdbe_pVdbe p
  generalize sqlite3GetVdbe p = q at h
  unfold sqlite3GetVdbe
  rw [if_pos h]

theorem sqlite3GenerateConstraintChecks_vdbe (ext : Extern) (p : Parse) (pTab : Table)
    (aRegIdx : List Int) (iDataCur iIdxCur regNewData regOldData : Int) (pkChng : Bool)
    (overrideError : on_conflict_action) (ignoreDest : Int) (aiChng : Option (List Int)) :
    sqlite3GenerateConstraintChecks ext (sqlite3GetVdbe p) pTab aRegIdx iDataCur iIdxCur
        regNewData regOldData pkChng overrideError ignoreDest aiChng
      = sqlite3GenerateConstraintChecks ext p pTab aRegIdx iDataCur iIdxCur regNewData
          regOldData pkChng overrideError ignoreDest aiChng := by
  unfold sqlite3GenerateConstraintChecks
  rw [sqlite3GetVdbe_idem]

/-- The write of `sqlite3Insert_write` (insert.c:830-855): the constraint checks, which get
`endOfLoop` as their `ignoreDest`, then the foreign-key check and then exactly the
completion write. -/
theorem sqlite3Insert_write_spec (ext : Extern) (p : Parse) (pTab : Table)
    (onError : on_conflict_action) (L : InsertLocals) (pTabW : Table) (q : Parse)
    (h : sqlite3Insert_write ext p pTab onError L = some (pTabW, q)) :
    ∃ (c : ConstraintResult) (w : VdbeOp),
      sqlite3GenerateConstraintChecks ext p pTab L.aRegIdx L.iDataCur L.iIdxCur L.regIns 0
          (decide (L.ipkColumn ≥ 0)) onError L.endOfLoop none = some c
      ∧ q.aOp = c.pParse.aOp ++ [{ opcode := CALL_sqlite3FkCheck, p1 := 0, p2 := L.regIns }, w]
      ∧ w.opcode = (if onError = ON_CONFLICT_ACTION_REPLACE then OP_IdxReplace else OP_IdxInsert)
      ∧ w.p1 = L.iIdxCur ∧ w.p2 = L.aRegIdx.getD 0 0 := by
  unfold sqlite3Insert_write at h
  split at h
  · cases h
  · rename_i c hc
    simp only [] at h
    split at h
    · cases h
    · rename_i q' hq
      simp only [Option.some.injEq, Prod.mk.injEq] at h
      obtain ⟨-, rfl⟩ := h
      have hv : c.pParse.pVdbe = true := by
        have hc' := hc
        rw [← sqlite3GenerateConstraintChecks_vdbe] at hc'
        exact (sqlite3GenerateConstraintChecks_keeps _ _ _ _ _ _ _ _ _ _ _ _ _ hc').pVdbe
          (sqlite3GetVdbe_pVdbe p)
      unfold sqlite3CompleteInsertion at hq
      simp only [] at hq
      split at hq
      · cases hq
      · rename_i pIdx rest hidx
        simp only [Option.some.injEq] at hq
        subst hq
        have hg : sqlite3GetVdbe (sqlite3VdbeAddOp c.pParse
            { opcode := CALL_sqlite3FkCheck, p1 := 0, p2 := L.regIns })
            = sqlite3VdbeAddOp c.pParse
                { opcode := CALL_sqlite3FkCheck, p1 := 0, p2 := L.regIns } := by
          unfold sqlite3GetVdbe
          rw [if_pos]
          exact hv
        rw [hg]
        generalize (if onError = ON_CONFLICT_ACTION_IGNORE then _ else _ : FlagWord) = flags
        refine ⟨c,
          { opcode := if onError = ON_CONFLICT_ACTION_REPLACE then OP_IdxReplace else OP_IdxInsert
            p1 := L.iIdxCur, p2 := L.aRegIdx.getD 0 0, p3 := L.aRegIdx.getD 0 0 + 1
            p4 := P4_INT32 (if pIdx.uniqNotNull = true then (pIdx.nKeyCol : Int)
              else (pIdx.nColumn : Int))
            p5 := flags }, hc, ?_, rfl, rfl, rfl⟩
        simp only [sqlite3VdbeChangeP5, sqlite3VdbeAddOp4, sqlite3VdbeAddOp,
          changeLastOp_append_singleton]
        simp

end EndOfLoop

section EndOfLoopClaim

theorem changeOpAt_get?_ne (f : VdbeOp → VdbeOp) (n k : Nat) (l : List VdbeOp) (hk : k ≠ n) :
    (changeOpAt f n l).get? k = l.get? k := by
  induction l generalizing n k with
  | nil => cases n <;> rfl
  | cons a l ih =>
    cases n with
    | zero =>
      cases k with
      | zero => exact absurd rfl hk
      | succ k => rfl
    | succ n =>
      cases k with
      | zero => rfl
      | succ k =>
        simp only [changeOpAt, List.get?_cons_succ]
        exact ih n k (by omega)

/-- A jump that is patched below the address `l.length` leaves the instructions from that
address on alone, and changes no opcode. -/
theorem sqlite3VdbeJumpHere_append (p : Parse) (n : Nat) (l cs : List VdbeOp)
    (hp : p.aOp = l ++ cs) (hn : n < l.length) :
    ∃ pre : List VdbeOp, (sqlite3VdbeJumpHere p n).aOp = pre ++ cs
      ∧ pre.length = l.length
      ∧ pre.map (fun o => o.opcode) = l.map (fun o => o.opcode)
      ∧ (∀ k, k ≠ n → pre.get? k = l.get? k)
      ∧ (sqlite3VdbeJumpHere p n).aLabel = p.aLabel := by
  refine ⟨changeOpAt (fun o => { o with p2 := (p.aOp.length : Int) }) n l, ?_,
    changeOpAt_len _ _ _,
    map_opcode_changeOpAt (fun o => { o with p2 := (p.aOp.length : Int) }) (fun _ => rfl) _ _,
    fun k hk => changeOpAt_get?_ne _ _ _ _ hk, rfl⟩
  simp only [sqlite3VdbeJumpHere]
  rw [hp, changeOpAt_append_lt _ _ _ _ hn]

/-- The first half of the bottom of the loop (insert.c:857-873): the count of the row and
the AFTER triggers are appended, and `endOfLoop` is resolved to the next address. -/
theorem sqlite3Insert_bottom_resolve (q : Parse) (pTab : Table) (onError : on_conflict_action)
    (L : InsertLocals) :
    sqlite3VdbeResolveLabel
        (if L.pTrigger ≠ [] then
          sqlite3VdbeAddOp
            (if q.user_session.SQLITE_CountRows = true then
              sqlite3VdbeAddOp2 q OP_AddImm L.regRowCount 1 else q)
            { opcode := CALL_sqlite3CodeRowTrigger, p1 := TRIGGER_AFTER, p2 := L.endOfLoop,
              p3 := L.regData - 2 - pTab.nCol, p4 := P4_ARGS onError 0 true }
         else
          (if q.user_session.SQLITE_CountRows = true then
            sqlite3VdbeAddOp2 q OP_AddImm L.regRowCount 1 else q)) L.endOfLoop
      = { q with
          aOp := q.aOp ++ (sqlite3Insert_rowCountCode q.user_session L
            ++ sqlite3Insert_afterCode pTab onError L)
          aLabel := q.aLabel.set (-1 - L.endOfLoop).toNat
            (((q.aOp.length + (sqlite3Insert_rowCountCode q.user_session L).length
              + (sqlite3Insert_afterCode pTab onError L).length : Nat)) : Int) } := by
  unfold sqlite3Insert_rowCountCode sqlite3Insert_afterCode
  by_cases hc : q.user_session.SQLITE_CountRows = true <;> by_cases ht : L.pTrigger ≠ []
  all_goals (try simp [hc, ht, sqlite3VdbeResolveLabel, sqlite3VdbeAddOp, sqlite3VdbeAddOp2])
  all_goals (try (rw [show ((q.aOp.length : Int) + 1 + 1) = (q.aOp.length : Int) + 2 by omega]))

/-- The bottom of the loop (insert.c:857-884) in closed form: the program so far, in which
at most the jump at `addrInsTop` is patched, followed by the count of the row, the AFTER
triggers and the instructions that go on to the next row; `endOfLoop` is resolved to the
address of the first of the latter. -/
theorem sqlite3Insert_bottom_spec (q : Parse) (pTab : Table) (onError : on_conflict_action)
    (L : InsertLocals) (hlab : (-1 - L.endOfLoop).toNat < q.aLabel.length)
    (htop : (L.useTempTable = true ∨ L.pSelect.isSome = true) → L.addrInsTop < q.aOp.length) :
    ∃ pre : List VdbeOp,
      (sqlite3Insert_bottom q pTab onError L).aOp
        = pre ++ (sqlite3Insert_rowCountCode q.user_session L
            ++ sqlite3Insert_afterCode pTab onError L ++ sqlite3Insert_advanceCode L)
      ∧ pre.length = q.aOp.length
      ∧ pre.map (fun o => o.opcode) = q.ops
      ∧ (∀ k, (k ≠ L.addrInsTop ∨ ¬ (L.useTempTable = true ∨ L.pSelect.isSome = true)) →
          pre.get? k = q.aOp.get? k)
      ∧ (sqlite3Insert_bottom q pTab onError L).aLabel.get? (-1 - L.endOfLoop).toNat
          = some (((pre.length + (sqlite3Insert_rowCountCode q.user_session L).length
              + (sqlite3Insert_afterCode pTab onError L).length : Nat)) : Int) := by
  have hr := sqlite3Insert_bottom_resolve q pTab onError L
  unfold sqlite3Insert_bottom
  simp only []
  rw [hr]
  generalize hq3 : ({ q with
          aOp := q.aOp ++ (sqlite3Insert_rowCountCode q.user_session L
            ++ sqlite3Insert_afterCode pTab onError L)
          aLabel := q.aLabel.set (-1 - L.endOfLoop).toNat
            (((q.aOp.length + (sqlite3Insert_rowCountCode q.user_session L).length
              + (sqlite3Insert_afterCode pTab onError L).length : Nat)) : Int) } : Parse) = q3
  have ha : q3.aOp = q.aOp ++ (sqlite3Insert_rowCountCode q.user_session L
      ++ sqlite3Insert_afterCode pTab onError L) := by rw [← hq3]
  have hl : q3.aLabel.get? (-1 - L.endOfLoop).toNat
      = some (((q.aOp.length + (sqlite3Insert_rowCountCode q.user_session L).length
              + (sqlite3Insert_afterCode pTab onError L).length : Nat)) : Int) := by
    rw [← hq3]
    simp only []
    rw [List.get?_eq_getElem?, List.getElem?_set_self hlab]
  generalize sqlite3Insert_rowCountCode q.user_session L = rc at ha hl ⊢
  generalize sqlite3Insert_afterCode pTab onError L = af at ha hl ⊢
  unfold sqlite3Insert_advanceCode
  by_cases hu : L.useTempTable = true
  · rw [if_pos hu, if_pos hu]
    obtain ⟨pre, h1, h2, h3, h4, h5⟩ := sqlite3VdbeJumpHere_append
      (sqlite3VdbeAddOp2 q3 OP_Next L.srcTab L.addrCont) L.addrInsTop q.aOp
      (rc ++ af ++ [{ opcode := OP_Next, p1 := L.srcTab, p2 := L.addrCont }])
      (by simp [sqlite3VdbeAddOp2, sqlite3VdbeAddOp, ha]) (htop (Or.inl hu))
    refine ⟨pre, ?_, h2, h3, fun k hk => h4 k (hk.resolve_right (fun hn => hn (Or.inl hu))),
      ?_⟩
    · simp only [sqlite3VdbeAddOp1, sqlite3VdbeAddOp, h1]
      simp
    · simp only [sqlite3VdbeAddOp1, sqlite3VdbeAddOp, h5, h2]
      exact hl
  · rw [if_neg hu, if_neg hu]
    by_cases hs : L.pSelect.isSome = true
    · rw [if_pos hs, if_pos hs]
      obtain ⟨pre, h1, h2, h3, h4, h5⟩ := sqlite3VdbeJumpHere_append
        (sqlite3VdbeGoto q3 L.addrCont) L.addrInsTop q.aOp
        (rc ++ af ++ [{ opcode := OP_Goto, p2 := L.addrCont }])
        (by simp [sqlite3VdbeGoto, sqlite3VdbeAddOp3, sqlite3VdbeAddOp, ha]) (htop (Or.inr hs))
      refine ⟨pre, ?_, h2, h3,
        fun k hk => h4 k (hk.resolve_right (fun hn => hn (Or.inr hs))), ?_⟩
      · rw [h1]
      · rw [h5, h2]
        exact hl
    · rw [if_neg hs, if_neg hs]
      refine ⟨q.aOp, ?_, rfl, rfl, fun _ _ => rfl, hl⟩
      rw [ha]
      simp

/-- C26: every program that `sqlite3Insert` compiles along the general path to `insert_end`
ends with the increment of the count of rows (if rows are counted), the AFTER triggers (if
any), the instructions that go on to the next row (`OP_Next` and `OP_Close` in the staged
template, the `OP_Goto` to the top of the loop in the streamed template) and the
`OP_ResultRow` of `insert_end` (if the count is returned); the label `endOfLoop` is bound
to the address right after the increment and the AFTER triggers, which is the address of the
`OP_Next` or `OP_Goto` when there is one.  Unless the destination is a view, the code before
the increment ends with the constraint checks, which got `endOfLoop` as `ignoreDest`, the
foreign-key check and the completion write (`OP_IdxInsert`, or `OP_IdxReplace` under
Replace), so the write and the increment are both below the address of `endOfLoop`. -/
theorem sqlite3Insert_endOfLoop (ext : Extern) (onError : on_conflict_action) (pParse : Parse)
    (pTabList : SrcList) (pSelect : Option Select) (pColumn : Option IdList) (r : InsertResult)
    (h : sqlite3Insert ext pParse pTabList pSelect pColumn onError = some r)
    (hexit : r.exit = InsertExit.insert_end) :
    ∃ (pre : List VdbeOp) (pTabW : Table),
      r.pParse.aOp
        = pre ++ (sqlite3Insert_rowCountCode r.pParse.user_session r.L
            ++ sqlite3Insert_afterCode pTabW onError r.L ++ sqlite3Insert_advanceCode r.L)
          ++ sqlite3Insert_endCode r.pParse r.L.regRowCount
      ∧ r.pParse.aLabel.get? (-1 - r.L.endOfLoop).toNat
          = some (((pre.length + (sqlite3Insert_rowCountCode r.pParse.user_session r.L).length
              + (sqlite3Insert_afterCode pTabW onError r.L).length : Nat)) : Int)
      ∧ (r.L.isView = false →
          ∃ (q0 : Parse) (pTab0 : Table) (c : ConstraintResult) (w : VdbeOp),
            sqlite3GenerateConstraintChecks ext q0 pTab0 r.L.aRegIdx r.L.iDataCur r.L.iIdxCur
                r.L.regIns 0 (decide (r.L.ipkColumn ≥ 0)) onError r.L.endOfLoop none = some c
            ∧ pre.length = c.pParse.aOp.length + 2
            ∧ (pre.take c.pParse.aOp.length).map (fun o => o.opcode) = c.pParse.ops
            ∧ pre.get? c.pParse.aOp.length
                = some { opcode := CALL_sqlite3FkCheck, p1 := 0, p2 := r.L.regIns }
            ∧ pre.get? (c.pParse.aOp.length + 1) = some w
            ∧ w.opcode
                = (if onError = ON_CONFLICT_ACTION_REPLACE then OP_IdxReplace else OP_IdxInsert)
            ∧ w.p1 = r.L.iIdxCur ∧ w.p2 = r.L.aRegIdx.getD 0 0) := by
  obtain ⟨pTab, x, po, L0, -, hloop, -⟩ :=
    sqlite3Insert_reaches_loop ext pParse pTabList pSelect pColumn onError r h hexit
  obtain ⟨hL, -, pTabW, q, hp, -, hw⟩ := sqlite3Insert_loop_parts ext po pTab onError L0 r hloop
  generalize sqlite3Insert_open ext po pTab onError L0 = o at hL hw
  have hts := sqlite3Insert_top_settled o.2 o.1
  obtain ⟨ht1, ht2, ht3⟩ := sqlite3Insert_top_spec o.2 o.1
  have htk := sqlite3Insert_top_keeps o.2 o.1
  generalize sqlite3Insert_top o.2 o.1 = t at hL hw hts ht1 ht2 ht3 htk
  have hbk := sqlite3Insert_before_keeps t.2 pTab onError r.L
  generalize sqlite3Insert_before t.2 pTab onError r.L = b at hw hbk
  have hnk := sqlite3Insert_newRow_keeps b.2 b.1 r.L
  have hu : r.L.useTempTable = o.1.useTempTable := by
    rw [hL]
    have := congrArg InsertLocals.useTempTable hts
    exact this
  have hs : r.L.pSelect = o.1.pSelect := by
    rw [hL]
    have := congrArg InsertLocals.pSelect hts
    exact this
  -- the context after the write has the label and the top of the loop below it
  have hq : Keeps t.2 q := by
    by_cases hv : r.L.isView = false
    · rw [if_pos hv] at hw
      exact hbk.keep_trans (hnk.keep_trans (sqlite3Insert_write_keeps _ _ _ _ _ _ hw))
    · rw [if_neg hv] at hw
      have : q = b.2 := congrArg Prod.snd hw
      rw [this]
      exact hbk
  have hlab : (-1 - r.L.endOfLoop).toNat < q.aLabel.length := by
    have h1 := hq.aLabel
    rw [hL, ht1]
    have : (-1 - (-1 - (o.2.aLabel.length : Int))).toNat = o.2.aLabel.length := by omega
    rw [this]
    omega
  have htop : (r.L.useTempTable = true ∨ r.L.pSelect.isSome = true) →
      r.L.addrInsTop < q.aOp.length := by
    intro hc
    rw [hu, hs] at hc
    obtain ⟨e1, e2⟩ := ht3 hc
    have h1 := hq.aOp
    rw [hL, e1]
    omega
  obtain ⟨pre, b1, b2, b3, b4, b5⟩ := sqlite3Insert_bottom_spec q pTabW onError r.L hlab htop
  have hkb := sqlite3Insert_bottom_keeps q pTabW onError r.L
  have hus : r.pParse.user_session = q.user_session := by
    rw [hp]
    exact ((sqlite3Insert_end_keeps _ _).user_session).trans hkb.user_session
  have hend : r.pParse.aOp = (sqlite3Insert_bottom q pTabW onError r.L).aOp
        ++ sqlite3Insert_endCode r.pParse r.L.regRowCount
      ∧ r.pParse.aLabel = (sqlite3Insert_bottom q pTabW onError r.L).aLabel := by
    have e1 : sqlite3Insert_endCode r.pParse r.L.regRowCount
        = sqlite3Insert_endCode (sqlite3Insert_bottom q pTabW onError r.L) r.L.regRowCount := by
      unfold sqlite3Insert_endCode
      rw [hp, (sqlite3Insert_end_keeps _ _).user_session, (sqlite3Insert_end_keeps _ _).nested,
        (sqlite3Insert_end_keeps _ _).pTriggerTab]
    rw [e1, hp]
    unfold sqlite3Insert_end sqlite3Insert_endCode
    split_ifs with hc
    · exact ⟨by simp [sqlite3VdbeAddOp2, sqlite3VdbeAddOp], rfl⟩
    · exact ⟨by simp, rfl⟩
  refine ⟨pre, pTabW, ?_, ?_, ?_⟩
  · rw [hend.1, b1, hus]
  · rw [hend.2, hus]
    exact b5
  · intro hv
    rw [if_pos hv] at hw
    obtain ⟨c, w, hc, hqa, hw1, hw2, hw3⟩ := sqlite3Insert_write_spec _ _ _ _ _ _ _ hw
    have hck := sqlite3GenerateConstraintChecks_keeps _ _ _ _ _ _ _ _ _ _ _ _ _ hc
    have hlen : q.aOp.length = c.pParse.aOp.length + 2 := by
      rw [hqa]; simp
    have hne : ∀ k, c.pParse.aOp.length ≤ k →
        (k ≠ r.L.addrInsTop ∨ ¬ (r.L.useTempTable = true ∨ r.L.pSelect.isSome = true)) := by
      intro k hk
      by_cases hsel : (r.L.useTempTable = true ∨ r.L.pSelect.isSome = true)
      · left
        have hsel' := hsel
        rw [hu, hs] at hsel'
        obtain ⟨e1, e2⟩ := ht3 hsel'
        have h1 := (hbk.keep_trans (hnk.keep_trans hck)).aOp
        rw [hL, e1]
        omega
      · exact Or.inr hsel
    refine ⟨_, _, c, w, hc, by rw [b2, hlen], ?_, ?_, ?_, hw1, hw2, hw3⟩
    · have e : (pre.take c.pParse.aOp.length).map (fun o => o.opcode)
          = (pre.map (fun o => o.opcode)).take c.pParse.aOp.length := by
        rw [List.map_take]
      rw [e, b3]
      unfold Parse.ops
      rw [hqa, List.map_append, List.take_append_of_le_length (by simp)]
      simp
    · rw [b4 _ (hne _ (Nat.le_refl _)), hqa, List.get?_eq_getElem?,
        List.getElem?_append_right (Nat.le_refl _)]
      simp
    · rw [b4 _ (hne _ (Nat.le_succ _)), hqa, List.get?_eq_getElem?,
        List.getElem?_append_right (Nat.le_succ _)]
      simp

end EndOfLoopClaim

section RegisterBlocks

theorem sqlite3Insert_aRegIdx_spec :
    ∀ (l : List Index) (p : Parse) (a : List Int),
      (sqlite3Insert_aRegIdx l p a).1 = a ++ sqlite3Insert_indexRegisters l p.nMem
      ∧ (sqlite3Insert_aRegIdx l p a).2.nMem
          = p.nMem + (l.map (fun pIdx => 1 + pIdx.nColumn)).sum
      ∧ (sqlite3Insert_aRegIdx l p a).2.aOp = p.aOp := by
  intro l
  induction l with
  | nil => intro p a; simp [sqlite3Insert_aRegIdx, sqlite3Insert_indexRegisters]
  | cons pIdx rest ih =>
    intro p a
    unfold sqlite3Insert_aRegIdx
    obtain ⟨h1, h2, h3⟩ := ih (p.allocMem (1 + pIdx.nColumn)) (a ++ [((p.nMem + 1 : Nat) : Int)])
    refine ⟨?_, ?_, ?_⟩
    · rw [h1]
      simp [sqlite3Insert_indexRegisters, Parse.allocMem]
    · rw [h2]
      simp [Parse.allocMem]
      omega
    · rw [h3]
      rfl

/-- The blocks of the indexes lie one after the other above the register counter the loop
starts with. -/
theorem sqlite3Insert_indexBlocks_sorted :
    ∀ (l : List Index) (n : Nat),
      (sqlite3Insert_indexBlocks (sqlite3Insert_indexRegisters l n) l).Pairwise RegBlock.before
      ∧ ∀ b ∈ sqlite3Insert_indexBlocks (sqlite3Insert_indexRegisters l n) l,
          b.within n (n + (l.map (fun pIdx => 1 + pIdx.nColumn)).sum) := by
  intro l
  induction l with
  | nil =>
    intro n
    simp [sqlite3Insert_indexBlocks, sqlite3Insert_indexRegisters]
  | cons pIdx rest ih =>
    intro n
    obtain ⟨h1, h2⟩ := ih (n + (1 + pIdx.nColumn))
    have e : sqlite3Insert_indexBlocks (sqlite3Insert_indexRegisters (pIdx :: rest) n)
        (pIdx :: rest)
        = { base := ((n + 1 : Nat) : Int), size := 1 + pIdx.nColumn }
          :: sqlite3Insert_indexBlocks
              (sqlite3Insert_indexRegisters rest (n + (1 + pIdx.nColumn))) rest := rfl
    rw [e]
    refine ⟨List.pairwise_cons.2 ⟨?_, h1⟩, ?_⟩
    · intro b hb
      have := (h2 b hb).1
      unfold RegBlock.before
      simp only []
      push_cast at this ⊢
      omega
    · intro b hb
      rcases List.mem_cons.1 hb with rfl | hb
      · simp only [List.map_cons, List.sum_cons, RegBlock.within]
        generalize (rest.map (fun pIdx => 1 + pIdx.nColumn)).sum = s
        push_cast
        constructor <;> omega
      · obtain ⟨b1, b2⟩ := h2 b hb
        simp only [List.map_cons, List.sum_cons, RegBlock.within]
        generalize (rest.map (fun pIdx => 1 + pIdx.nColumn)).sum = s at b2 ⊢
        push_cast at b1 b2 ⊢
        constructor <;> omega

theorem sqlite3Insert_indexRegisters_length (l : List Index) (n : Nat) :
    (sqlite3Insert_indexRegisters l n).length = l.length := by
  induction l generalizing n with
  | nil => rfl
  | cons pIdx rest ih => simp [sqlite3Insert_indexRegisters, ih]

theorem sqlite3OpenTableAndIndices_loop_spec (ext : Extern) (pTab : Table) (op : Opcode)
    (aToOpen : Option (List Bool)) (overrideError : on_conflict_action) (isUpdate : Bool)
    (space_ptr_reg : Int) :
    ∀ (l : List Index) (i : Nat) (st : OpenCursors),
      ∃ opens : List VdbeOp,
        (sqlite3OpenTableAndIndices_loop ext pTab op aToOpen overrideError isUpdate
            space_ptr_reg l i st).pParse.aOp = st.pParse.aOp ++ opens
        ∧ (∀ o ∈ opens, o.opcode = op ∧ o.p3 = space_ptr_reg)
        ∧ (sqlite3OpenTableAndIndices_loop ext pTab op aToOpen overrideError isUpdate
            space_ptr_reg l i st).pParse.nMem = st.pParse.nMem := by
  intro l
  induction l with
  | nil => intro i st; exact ⟨[], by simp [sqlite3OpenTableAndIndices_loop], by simp, rfl⟩
  | cons pIdx rest ih =>
    intro i st
    have step : ∀ st' : OpenCursors,
        (∃ new : List VdbeOp, st'.pParse.aOp = st.pParse.aOp ++ new
          ∧ (∀ o ∈ new, o.opcode = op ∧ o.p3 = space_ptr_reg)
          ∧ st'.pParse.nMem = st.pParse.nMem) →
        ∃ opens : List VdbeOp,
          (sqlite3OpenTableAndIndices_loop ext pTab op aToOpen overrideError isUpdate
              space_ptr_reg rest (i + 1) st').pParse.aOp = st.pParse.aOp ++ opens
          ∧ (∀ o ∈ opens, o.opcode = op ∧ o.p3 = space_ptr_reg)
          ∧ (sqlite3OpenTableAndIndices_loop ext pTab op aToOpen overrideError isUpdate
              space_ptr_reg rest (i + 1) st').pParse.nMem = st.pParse.nMem := by
      rintro st' ⟨new, n1, n2, n3⟩
      obtain ⟨opens, e1, e2, e3⟩ := ih (i + 1) st'
      refine ⟨new ++ opens, by rw [e1, n1, List.append_assoc], ?_, by rw [e3, n3]⟩
      intro o ho
      rcases List.mem_append.1 ho with ho | ho
      · exact n2 o ho
      · exact e2 o ho
    have hopen : ∀ (q : Parse) (c : Int) (f : FlagWord), q.aOp = st.pParse.aOp →
        q.nMem = st.pParse.nMem →
        ∃ new : List VdbeOp,
          (sqlite3VdbeChangeP5 (sqlite3VdbeSetP4KeyInfo
            (sqlite3VdbeAddOp3 q op c pIdx.tnum space_ptr_reg) pIdx) f).aOp
            = st.pParse.aOp ++ new
          ∧ (∀ o ∈ new, o.opcode = op ∧ o.p3 = space_ptr_reg)
          ∧ (sqlite3VdbeChangeP5 (sqlite3VdbeSetP4KeyInfo
            (sqlite3VdbeAddOp3 q op c pIdx.tnum space_ptr_reg) pIdx) f).nMem
            = st.pParse.nMem := by
      intro q c f hq hm
      simp only [sqlite3VdbeChangeP5, sqlite3VdbeSetP4KeyInfo, sqlite3VdbeChangeP4,
        sqlite3VdbeAddOp3, sqlite3VdbeAddOp, changeLastOp_append_singleton, hq]
      refine ⟨_, rfl, ?_, hm⟩
      intro o ho
      rw [List.mem_singleton] at ho
      subst ho
      exact ⟨rfl, rfl⟩
    unfold sqlite3OpenTableAndIndices_loop
    simp only []
    apply step
    split_ifs <;>
      first
        | exact hopen _ _ _ rfl rfl
        | exact ⟨[], by simp, by simp, rfl⟩

/-- `sqlite3OpenTableAndIndices` takes one register, the space pointer, stores the pointer
there with `OP_Int64`, and hands that register to every cursor it opens. -/
theorem sqlite3OpenTableAndIndices_spec (ext : Extern) (p : Parse) (pTab : Table) (op : Opcode)
    (p5 : FlagWord) (iBase : Int) (aToOpen : Option (List Bool))
    (overrideError : on_conflict_action) (isUpdate : Bool) :
    ∃ opens : List VdbeOp,
      (sqlite3OpenTableAndIndices ext p pTab op p5 iBase aToOpen overrideError
          isUpdate).pParse.aOp
        = (sqlite3GetVdbe p).aOp
          ++ { opcode := OP_Int64, p1 := 0, p2 := ((p.nMem + 1 : Nat) : Int), p3 := 0,
               p4 := P4_SPACEPTR (SQLITE_PAGENO_TO_SPACEID pTab.tnum) } :: opens
      ∧ (∀ o ∈ opens, o.opcode = op ∧ o.p3 = ((p.nMem + 1 : Nat) : Int))
      ∧ (sqlite3OpenTableAndIndices ext p pTab op p5 iBase aToOpen overrideError
          isUpdate).pParse.nMem = p.nMem + 1
      ∧ (sqlite3OpenTableAndIndices ext p pTab op p5 iBase aToOpen overrideError
          isUpdate).nIdx = pTab.pIndex.length := by
  generalize hib : (if iBase < 0 then ((sqlite3GetVdbe p).nTab : Int) else iBase) = ib
  obtain ⟨opens, e1, e2, e3⟩ := sqlite3OpenTableAndIndices_loop_spec ext pTab op aToOpen
    overrideError isUpdate (((sqlite3GetVdbe p).nMem + 1 : Nat) : Int) pTab.pIndex 0
    { pParse := sqlite3VdbeAddOp4 ((sqlite3GetVdbe p).allocMem 1) OP_Int64 0
        (((sqlite3GetVdbe p).nMem + 1 : Nat) : Int) 0
        (P4_SPACEPTR (SQLITE_PAGENO_TO_SPACEID pTab.tnum)),
      iBase := ib + 1, piDataCur := ib, p5 := p5 }
  rw [sqlite3GetVdbe_nMem] at e1 e2 e3
  have e1' : (sqlite3OpenTableAndIndices_loop ext pTab op aToOpen overrideError isUpdate
      ((p.nMem + 1 : Nat) : Int) pTab.pIndex 0
      { pParse := sqlite3VdbeAddOp4 ((sqlite3GetVdbe p).allocMem 1) OP_Int64 0
          ((p.nMem + 1 : Nat) : Int) 0 (P4_SPACEPTR (SQLITE_PAGENO_TO_SPACEID pTab.tnum)),
        iBase := ib + 1, piDataCur := ib, p5 := p5 }).pParse.aOp
      = (sqlite3GetVdbe p).aOp
          ++ { opcode := OP_Int64, p1 := 0, p2 := ((p.nMem + 1 : Nat) : Int), p3 := 0,
               p4 := P4_SPACEPTR (SQLITE_PAGENO_TO_SPACEID pTab.tnum) } :: opens := by
    rw [e1]
    simp [sqlite3VdbeAddOp4, sqlite3VdbeAddOp, Parse.allocMem]
  have e3' : (sqlite3OpenTableAndIndices_loop ext pTab op aToOpen overrideError isUpdate
      ((p.nMem + 1 : Nat) : Int) pTab.pIndex 0
      { pParse := sqlite3VdbeAddOp4 ((sqlite3GetVdbe p).allocMem 1) OP_Int64 0
          ((p.nMem + 1 : Nat) : Int) 0 (P4_SPACEPTR (SQLITE_PAGENO_TO_SPACEID pTab.tnum)),
        iBase := ib + 1, piDataCur := ib, p5 := p5 }).pParse.nMem = p.nMem + 1 := by
    rw [e3]
    simp [sqlite3VdbeAddOp4, sqlite3VdbeAddOp, Parse.allocMem, sqlite3GetVdbe_nMem]
  refine ⟨opens, ?_, e2, ?_, ?_⟩
  · unfold sqlite3OpenTableAndIndices
    simp only [sqlite3GetVdbe_nMem, hib]
    split_ifs
    · simp only [Parse.setNTab]
      exact e1'
    · exact e1'
  · unfold sqlite3OpenTableAndIndices
    simp only [sqlite3GetVdbe_nMem, hib]
    split_ifs
    · simp only [Parse.setNTab]
      exact e3'
    · exact e3'
  · rfl

end RegisterBlocks

section RegisterStations

/-- What `sqlite3Insert_open` allocates (insert.c:608-633): the count of rows if rows are
counted, then, unless the destination is a view, the space pointer and the blocks of the
indexes.  `m` is the register counter after the count of rows. -/
theorem sqlite3Insert_open_spec (ext : Extern) (p : Parse) (pTab : Table)
    (onError : on_conflict_action) (L : InsertLocals) :
    ∃ m : Nat,
      (if p.user_session.SQLITE_CountRows = true then
          (sqlite3Insert_open ext p pTab onError L).1.regRowCount = ((p.nMem + 1 : Nat) : Int)
            ∧ m = p.nMem + 1
        else m = p.nMem)
      ∧ (L.isView = false →
          (sqlite3Insert_open ext p pTab onError L).1.aRegIdx
              = sqlite3Insert_indexRegisters pTab.pIndex (m + 1)
          ∧ (sqlite3Insert_open ext p pTab onError L).2.nMem
              = m + 1 + (pTab.pIndex.map (fun pIdx => 1 + pIdx.nColumn)).sum
          ∧ ∃ (pre opens : List VdbeOp),
              (sqlite3Insert_open ext p pTab onError L).2.aOp
                = pre ++ { opcode := OP_Int64, p1 := 0, p2 := ((m + 1 : Nat) : Int), p3 := 0,
                           p4 := P4_SPACEPTR (SQLITE_PAGENO_TO_SPACEID pTab.tnum) } :: opens
              ∧ ∀ o ∈ opens, o.opcode = OP_OpenWrite ∧ o.p3 = ((m + 1 : Nat) : Int))
      ∧ (¬ L.isView = false → (sqlite3Insert_open ext p pTab onError L).2.nMem = m) := by
  have hopen : ∀ q : Parse,
      (sqlite3Insert_aRegIdx
          (pTab.pIndex.take
            (sqlite3OpenTableAndIndices ext q pTab OP_OpenWrite [] (-1) none onError false).nIdx)
          (sqlite3OpenTableAndIndices ext q pTab OP_OpenWrite [] (-1) none onError
            false).pParse []).1
        = sqlite3Insert_indexRegisters pTab.pIndex (q.nMem + 1)
      ∧ (sqlite3Insert_aRegIdx
          (pTab.pIndex.take
            (sqlite3OpenTableAndIndices ext q pTab OP_OpenWrite [] (-1) none onError false).nIdx)
          (sqlite3OpenTableAndIndices ext q pTab OP_OpenWrite [] (-1) none onError
            false).pParse []).2.nMem
        = q.nMem + 1 + (pTab.pIndex.map (fun pIdx => 1 + pIdx.nColumn)).sum
      ∧ ∃ (pre opens : List VdbeOp),
          (sqlite3Insert_aRegIdx
            (pTab.pIndex.take
              (sqlite3OpenTableAndIndices ext q pTab OP_OpenWrite [] (-1) none onError
                false).nIdx)
            (sqlite3OpenTableAndIndices ext q pTab OP_OpenWrite [] (-1) none onError
              false).pParse []).2.aOp
            = pre ++ { opcode := OP_Int64, p1 := 0, p2 := ((q.nMem + 1 : Nat) : Int), p3 := 0,
                       p4 := P4_SPACEPTR (SQLITE_PAGENO_TO_SPACEID pTab.tnum) } :: opens
          ∧ ∀ o ∈ opens, o.opcode = OP_OpenWrite ∧ o.p3 = ((q.nMem + 1 : Nat) : Int) := by
    intro q
    obtain ⟨opens, o1, o2, o3, o4⟩ :=
      sqlite3OpenTableAndIndices_spec ext q pTab OP_OpenWrite [] (-1) none onError false
    rw [o4, List.take_length]
    obtain ⟨a1, a2, a3⟩ := sqlite3Insert_aRegIdx_spec pTab.pIndex
      (sqlite3OpenTableAndIndices ext q pTab OP_OpenWrite [] (-1) none onError false).pParse []
    rw [o3] at a1 a2
    exact ⟨by rw [a1]; rfl, a2, _, opens, by rw [a3, o1], o2⟩
  unfold sqlite3Insert_open
  simp only []
  by_cases hc : p.user_session.SQLITE_CountRows = true
  · refine ⟨p.nMem + 1, ?_, ?_, ?_⟩
    · rw [if_pos hc, if_pos hc]
      refine ⟨?_, rfl⟩
      split_ifs <;> rfl
    · intro hv
      rw [if_pos hc]
      simp only []
      rw [if_pos hv]
      simp only []
      have := hopen (sqlite3VdbeAddOp2 (p.allocMem 1) OP_Integer 0 ((p.nMem + 1 : Nat) : Int))
      exact this
    · intro hv
      rw [if_pos hc]
      simp only []
      rw [if_neg hv]
      rfl
  · refine ⟨p.nMem, ?_, ?_, ?_⟩
    · rw [if_neg hc]
    · intro hv
      rw [if_neg hc]
      simp only []
      rw [if_pos hv]
      exact hopen p
    · intro hv
      rw [if_neg hc]
      simp only []
      rw [if_neg hv]

/-- The top of the loop leaves the registers of the statement alone. -/
theorem sqlite3Insert_top_registers (p : Parse) (L : InsertLocals) :
    (sqlite3Insert_top p L).1.regRowCount = L.regRowCount
    ∧ (sqlite3Insert_top p L).1.aRegIdx = L.aRegIdx := by
  unfold sqlite3Insert_top
  simp only []
  split_ifs <;> exact ⟨rfl, rfl⟩

/-- Everything after `sqlite3Insert_open` keeps the registers that are allocated. -/
theorem sqlite3Insert_loop_keeps_open (ext : Extern) (p : Parse) (pTab : Table)
    (onError : on_conflict_action) (L : InsertLocals) (r : InsertResult)
    (h : sqlite3Insert_loop ext p pTab onError L = some r) :
    Keeps (sqlite3Insert_open ext p pTab onError L).2 r.pParse := by
  obtain ⟨hL, -, pTabW, q, hp, -, hw⟩ := sqlite3Insert_loop_parts ext p pTab onError L r h
  generalize sqlite3Insert_open ext p pTab onError L = o at hL hw ⊢
  have ht := sqlite3Insert_top_keeps o.2 o.1
  generalize sqlite3Insert_top o.2 o.1 = t at hL hw ht
  have hb := sqlite3Insert_before_keeps t.2 pTab onError r.L
  generalize sqlite3Insert_before t.2 pTab onError r.L = b at hw hb
  rw [hp]
  refine Keeps.keep_trans ?_ (sqlite3Insert_end_keeps _ _)
  refine Keeps.keep_trans ?_ (sqlite3Insert_bottom_keeps _ _ _ _)
  refine ht.keep_trans (hb.keep_trans ?_)
  by_cases hv : r.L.isView = false
  · rw [if_pos hv] at hw
    exact (sqlite3Insert_newRow_keeps _ _ _).keep_trans (sqlite3Insert_write_keeps _ _ _ _ _ _ hw)
  · rw [if_neg hv] at hw
    have : q = b.2 := congrArg Prod.snd hw
    rw [this]
    exact Keeps.keep_refl _

theorem sqlite3Insert_shape_nMem (ext : Extern) (p : Parse) (pTab : Table)
    (onError : on_conflict_action) (L : InsertLocals) (r : InsertResult)
    (h : sqlite3Insert_shape ext p pTab onError L = some r) : p.nMem ≤ r.pParse.nMem := by
  unfold sqlite3Insert_shape at h
  simp only [] at h
  split_ifs at h
  all_goals first
    | (simp only [Option.some.injEq] at h
       subst h
       exact Nat.le_refl _)
    | exact (sqlite3Insert_loop_keeps _ _ _ _ _ _ h).nMem

theorem sqlite3Insert_coroutine_nMem (ext : Extern) (p : Parse) (pTab : Table)
    (L : InsertLocals) (s : Select) :
    p.nMem ≤ (sqlite3Insert_coroutine ext p pTab L s).2.2.nMem := by
  unfold sqlite3Insert_coroutine
  simp only [sqlite3Select]
  split_ifs <;>
    simp [sqlite3VdbeEndCoroutine, sqlite3VdbeJumpHere, sqlite3VdbeAddOp3, sqlite3VdbeAddOp1,
      sqlite3VdbeAddOp, Parse.allocMem] <;> omega

theorem sqlite3Insert_source_nMem (ext : Extern) (p : Parse) (pTab : Table)
    (onError : on_conflict_action) (L : InsertLocals) (r : InsertResult)
    (h : sqlite3Insert_source ext p pTab onError L = some r) : p.nMem ≤ r.pParse.nMem := by
  unfold sqlite3Insert_source at h
  split at h
  · rename_i s hs
    simp only [] at h
    have hc := sqlite3Insert_coroutine_nMem ext p pTab L s
    generalize sqlite3Insert_coroutine ext p pTab L s = c at h hc
    split_ifs at h
    · simp only [Option.some.injEq] at h
      subst h
      exact hc
    · have h1 := (sqlite3Insert_stage_ops_eq c.2.2 c.2.1.regYield c.2.1.regFromSelect
        c.2.1.nColumn).2.1
      exact hc.trans (h1.trans (sqlite3Insert_shape_nMem _ _ _ _ _ _ h))
    · exact hc.trans (sqlite3Insert_shape_nMem _ _ _ _ _ _ h)
  · simp only [] at h
    split at h
    · split at h
      · simp only [Option.some.injEq] at h
        subst h
        exact Nat.le_refl _
      · exact sqlite3Insert_shape_nMem _ _ _ _ _ _ h
    · exact sqlite3Insert_shape_nMem _ _ _ _ _ _ h

theorem sqlite3Insert_general_nMem (ext : Extern) (p : Parse) (pTab : Table)
    (onError : on_conflict_action) (L : InsertLocals) (r : InsertResult)
    (h : sqlite3Insert_general ext p pTab onError L = some r) : p.nMem ≤ r.pParse.nMem := by
  unfold sqlite3Insert_general at h
  simp only [] at h
  have ha : p.nMem ≤ (p.allocMem (pTab.nCol + 1)).nMem := by
    simp [Parse.allocMem]
  split at h
  · split at h
    · simp only [Option.some.injEq] at h
      subst h
      exact ha
    · exact ha.trans (sqlite3Insert_source_nMem _ _ _ _ _ _ h)
  · exact ha.trans (sqlite3Insert_source_nMem _ _ _ _ _ _ h)

theorem sqlite3Insert_end_nMem (p : Parse) (regRowCount : Int) :
    (sqlite3Insert_end p regRowCount).nMem = p.nMem := by
  unfold sqlite3Insert_end
  split_ifs <;> rfl

theorem sqlite3SrcListLookup_nMem_eq (pParse : Parse) (pTabList : SrcList) :
    (sqlite3SrcListLookup pParse pTabList).2.nMem = pParse.nMem := by
  unfold sqlite3SrcListLookup
  simp only [sqlite3LocateTableItem]
  repeat' split
  all_goals rfl

/-- The register counter at the end of `sqlite3Insert` is at least what it was at the
start, whichever way the function leaves. -/
theorem sqlite3Insert_nMem (ext : Extern) (pParse : Parse) (pTabList : SrcList)
    (pSelect : Option Select) (pColumn : Option IdList) (onError : on_conflict_action)
    (r : InsertResult)
    (h : sqlite3Insert ext pParse pTabList pSelect pColumn onError = some r) :
    pParse.nMem ≤ r.pParse.nMem := by
  have hn := sqlite3SrcListLookup_nMem_eq pParse pTabList
  by_cases h0 : pParse.nErr = 0 ∧ pParse.db.mallocFailed = false
  · have hn0 : ¬ (pParse.nErr ≠ 0 ∨ pParse.db.mallocFailed = true) := by
      rw [h0.1, h0.2]; simp
    cases hl : sqlite3SrcListLookup pParse pTabList with
    | mk t p1 =>
      rw [hl] at hn
      simp only [] at hn
      cases t with
      | none =>
        unfold sqlite3Insert at h
        simp only [hn0, if_false, hl, Option.some.injEq] at h
        subst h
        exact hn.ge
      | some pTab =>
        cases hv : ext.sqlite3ViewGetColumnNames p1 pTab with
        | some z =>
          unfold sqlite3Insert at h
          simp only [hn0, if_false, hl, hv, Option.some.injEq] at h
          subst h
          exact hn.ge
        | none =>
          cases hro : ext.sqlite3IsReadOnly p1 pTab (ext.sqlite3TriggersExist pTab TK_INSERT).2 with
          | some z =>
            unfold sqlite3Insert at h
            simp only [hn0, if_false, hl, hv, hro, Option.some.injEq] at h
            subst h
            exact hn.ge
          | none =>
            rw [sqlite3Insert_eq ext pParse pTabList pSelect pColumn onError pTab p1 h0 hl hv
              hro] at h
            have hb := sqlite3Insert_begin_nMem p1 (sqlite3Insert_locals ext pTab pSelect pColumn)
            generalize sqlite3Insert_begin p1 (sqlite3Insert_locals ext pTab pSelect pColumn)
              = pb at h hb
            have hpb : pParse.nMem ≤ pb.nMem := by rw [hb, hn]
            split_ifs at h
            · split at h
              · cases h
              · rename_i rc x hx
                have hxm : pb.nMem ≤ x.nMem := by
                  rcases xferOptimization_result _ _ _ _ _ hx with ⟨-, -, hm, -⟩ |
                    ⟨_, _, _, -, -, -, -, -, hm, -⟩
                  · exact hm.ge
                  · simp only [] at hm
                    omega
                split_ifs at h
                · simp only [Option.some.injEq] at h
                  subst h
                  simp only [sqlite3Insert_end_nMem]
                  exact hpb.trans hxm
                · exact hpb.trans (hxm.trans (sqlite3Insert_general_nMem _ _ _ _ _ _ h))
            · exact hpb.trans (sqlite3Insert_general_nMem _ _ _ _ _ _ h)
  · unfold sqlite3Insert at h
    have hn0 : pParse.nErr ≠ 0 ∨ pParse.db.mallocFailed = true := by
      by_contra hc
      push_neg at hc
      exact h0 ⟨hc.1, by simpa using hc.2⟩
    simp only [hn0, if_true, Option.some.injEq] at h
    subst h
    exact Nat.le_refl _

end RegisterStations

section RegisterBlocksClaim

/-- Blocks that lie in order between `lo` and `mid`, followed by blocks that lie in order
between `mid` and `hi`, lie in order between `lo` and `hi`. -/
theorem RegBlock.ordered_append (lo mid hi : Nat) (l1 l2 : List RegBlock)
    (h1 : l1.Pairwise RegBlock.before ∧ ∀ b ∈ l1, b.within lo mid)
    (h2 : l2.Pairwise RegBlock.before ∧ ∀ b ∈ l2, b.within mid hi)
    (hlm : lo ≤ mid) (hmh : mid ≤ hi) :
    (l1 ++ l2).Pairwise RegBlock.before ∧ ∀ b ∈ l1 ++ l2, b.within lo hi := by
  refine ⟨List.pairwise_append.2 ⟨h1.1, h2.1, ?_⟩, ?_⟩
  · intro a ha b hb
    have := (h1.2 a ha).2
    have := (h2.2 b hb).1
    unfold RegBlock.before
    omega
  · intro b hb
    rcases List.mem_append.1 hb with hb | hb
    · have := h1.2 b hb
      unfold RegBlock.within at this ⊢
      omega
    · have := h2.2 b hb
      unfold RegBlock.within at this ⊢
      omega

theorem RegBlock.ordered_nil (lo : Nat) :
    ([] : List RegBlock).Pairwise RegBlock.before ∧ ∀ b ∈ ([] : List RegBlock), b.within lo lo :=
  ⟨List.Pairwise.nil, fun _ hb => absurd hb (List.not_mem_nil _)⟩

theorem RegBlock.ordered_single (lo n : Nat) :
    [({ base := ((lo + 1 : Nat) : Int), size := n } : RegBlock)].Pairwise RegBlock.before
      ∧ ∀ b ∈ [({ base := ((lo + 1 : Nat) : Int), size := n } : RegBlock)],
          b.within lo (lo + n) := by
  refine ⟨List.pairwise_singleton _ _, ?_⟩
  intro b hb
  rw [List.mem_singleton] at hb
  subst hb
  unfold RegBlock.within
  simp only []
  push_cast
  omega

theorem RegBlock.ordered_mono (lo hi lo2 hi2 : Nat) (l : List RegBlock)
    (h : l.Pairwise RegBlock.before ∧ ∀ b ∈ l, b.within lo hi) (h1 : lo2 ≤ lo) (h2 : hi ≤ hi2) :
    l.Pairwise RegBlock.before ∧ ∀ b ∈ l, b.within lo2 hi2 := by
  refine ⟨h.1, fun b hb => ?_⟩
  have := h.2 b hb
  unfold RegBlock.within at this ⊢
  omega

end RegisterBlocksClaim

section RegisterBlocksOfInsert

/-- The register blocks of `sqlite3Insert` in terms of the register counter of the model:
the counter at the end is at least the one at the start; along the general path it does not
decrease from the start to the point `po` where the destination is opened, from there to
the end of `sqlite3Insert_open` and from there to the end; the blocks of
`sqlite3Insert_blocks` are pairwise disjoint and lie above the counter at the start and not
above the counter at the end. -/
theorem sqlite3Insert_blocks_disjoint (ext : Extern) (pParse : Parse) (pTabList : SrcList)
    (pSelect : Option Select) (pColumn : Option IdList) (onError : on_conflict_action)
    (r : InsertResult)
    (h : sqlite3Insert ext pParse pTabList pSelect pColumn onError = some r) :
    pParse.nMem ≤ r.pParse.nMem
    ∧ (r.exit = InsertExit.insert_end →
        ∃ (pTab : Table) (po : Parse) (L0 : InsertLocals) (spacePtr : Nat),
          (sqlite3SrcListLookup pParse pTabList).1 = some pTab
          ∧ sqlite3Insert_loop ext po pTab onError L0 = some r
          ∧ pParse.nMem ≤ po.nMem
          ∧ po.nMem ≤ (sqlite3Insert_open ext po pTab onError L0).2.nMem
          ∧ (sqlite3Insert_open ext po pTab onError L0).2.nMem ≤ r.pParse.nMem
          ∧ (r.L.isView = false →
              r.L.aRegIdx.length = pTab.pIndex.length
              ∧ ∃ (pre opens : List VdbeOp),
                  (sqlite3Insert_open ext po pTab onError L0).2.aOp
                    = pre ++ { opcode := OP_Int64, p1 := 0, p2 := (spacePtr : Int), p3 := 0,
                               p4 := P4_SPACEPTR (SQLITE_PAGENO_TO_SPACEID pTab.tnum) }
                        :: opens
                  ∧ ∀ o ∈ opens, o.opcode = OP_OpenWrite ∧ o.p3 = (spacePtr : Int))
          ∧ (sqlite3Insert_blocks pTab r.pParse.user_session r.L (spacePtr : Int)).Pairwise
              RegBlock.disjoint
          ∧ ∀ b ∈ sqlite3Insert_blocks pTab r.pParse.user_session r.L (spacePtr : Int),
              b.within pParse.nMem r.pParse.nMem) := by
  refine ⟨sqlite3Insert_nMem ext pParse pTabList pSelect pColumn onError r h, fun hexit => ?_⟩
  obtain ⟨pTab, x, po, L0, hlook, hloop, hx, hpo, -, hIns, -, -, hset, hsel, -, -⟩ :=
    sqlite3Insert_reaches_loop ext pParse pTabList pSelect pColumn onError r h hexit
  obtain ⟨hL, -⟩ := sqlite3Insert_loop_parts ext po pTab onError L0 r hloop
  have hk := sqlite3Insert_loop_keeps_open ext po pTab onError L0 r hloop
  have hko := sqlite3Insert_open_keeps ext po pTab onError L0
  obtain ⟨m, hm1, hm2, hm3⟩ := sqlite3Insert_open_spec ext po pTab onError L0
  obtain ⟨ht1, ht2⟩ := sqlite3Insert_top_registers (sqlite3Insert_open ext po pTab onError L0).2
    (sqlite3Insert_open ext po pTab onError L0).1
  rw [← hL] at ht1 ht2
  have hview : r.L.isView = L0.isView := by
    have := congrArg InsertLocals.isView hset
    exact this
  have hus : r.pParse.user_session = po.user_session := by
    rw [hk.user_session, hko.user_session]
  refine ⟨pTab, po, L0, m + 1, hlook, hloop, hx.trans (by omega), hko.nMem, hk.nMem, ?_, ?_⟩
  · intro hv
    rw [hview] at hv
    obtain ⟨a1, -, a3⟩ := hm2 hv
    refine ⟨?_, a3⟩
    rw [ht2, a1, sqlite3Insert_indexRegisters_length]
  · -- the blocks in the order in which they are allocated
    have hmp : po.nMem ≤ m := by
      split_ifs at hm1
      · omega
      · omega
    have hmo : m ≤ (sqlite3Insert_open ext po pTab onError L0).2.nMem := by
      by_cases hv : L0.isView = false
      · have := (hm2 hv).2.1
        omega
      · exact (hm3 hv).ge
    have b1 := RegBlock.ordered_single x.nMem (pTab.nCol + 1)
    rw [← hIns] at b1
    have b2 : (if r.L.pSelect.isSome = true then [({ base := r.L.regYield, size := 1 } : RegBlock)]
        else []).Pairwise RegBlock.before
        ∧ ∀ b ∈ (if r.L.pSelect.isSome = true then
                  [({ base := r.L.regYield, size := 1 } : RegBlock)] else []),
            b.within (x.nMem + (pTab.nCol + 1)) po.nMem := by
      by_cases hs : r.L.pSelect.isSome = true
      · rw [if_pos hs]
        obtain ⟨e1, e2⟩ := hsel hs
        have := RegBlock.ordered_single (x.nMem + (pTab.nCol + 1)) 1
        rw [← e1] at this
        exact RegBlock.ordered_mono _ _ _ _ _ this (Nat.le_refl _) e2
      · rw [if_neg hs]
        exact RegBlock.ordered_mono _ _ _ _ _ (RegBlock.ordered_nil _) (Nat.le_refl _) hpo
    have b3 : (if r.pParse.user_session.SQLITE_CountRows = true then
          [({ base := r.L.regRowCount, size := 1 } : RegBlock)] else []).Pairwise
          RegBlock.before
        ∧ ∀ b ∈ (if r.pParse.user_session.SQLITE_CountRows = true then
                  [({ base := r.L.regRowCount, size := 1 } : RegBlock)] else []),
            b.within po.nMem m := by
      rw [hus]
      by_cases hc : po.user_session.SQLITE_CountRows = true
      · rw [if_pos hc] at hm1 ⊢
        obtain ⟨e1, e2⟩ := hm1
        have := RegBlock.ordered_single po.nMem 1
        rw [← e1, ← ht1, ← e2] at this
        exact this
      · rw [if_neg hc] at hm1 ⊢
        rw [hm1]
        exact RegBlock.ordered_nil _
    have b4 : (if r.L.isView = false then
          ({ base := ((m + 1 : Nat) : Int), size := 1 } : RegBlock)
            :: sqlite3Insert_indexBlocks r.L.aRegIdx pTab.pIndex
        else []).Pairwise RegBlock.before
        ∧ ∀ b ∈ (if r.L.isView = false then
                  ({ base := ((m + 1 : Nat) : Int), size := 1 } : RegBlock)
                    :: sqlite3Insert_indexBlocks r.L.aRegIdx pTab.pIndex
                else []),
            b.within m (sqlite3Insert_open ext po pTab onError L0).2.nMem := by
      rw [hview]
      by_cases hv : L0.isView = false
      · rw [if_pos hv]
        obtain ⟨a1, a2, -⟩ := hm2 hv
        rw [ht2, a1, a2]
        have s1 := RegBlock.ordered_single m 1
        have s2 := sqlite3Insert_indexBlocks_sorted pTab.pIndex (m + 1)
        have := RegBlock.ordered_append _ _ _ _ _ s1 s2 (by omega) (by omega)
        rw [List.singleton_append] at this
        exact this
      · rw [if_neg hv]
        exact RegBlock.ordered_mono _ _ _ _ _ (RegBlock.ordered_nil _) (Nat.le_refl _) hmo
    have b12 := RegBlock.ordered_append _ _ _ _ _ b1 b2 (by omega) hpo
    have b123 := RegBlock.ordered_append _ _ _ _ _ b12 b3 (by omega) hmp
    have b1234 := RegBlock.ordered_append _ _ _ _ _ b123 b4 (by omega) hmo
    have hall := RegBlock.ordered_mono _ _ pParse.nMem r.pParse.nMem _ b1234 hx hk.nMem
    exact ⟨hall.1.imp (fun hab => Or.inl hab), hall.2⟩

/-- C21: for a compilation whose register counter ends at no more than `INT_MAX` (the
counter `pParse->nMem` of the source is a C `int`; as the counter of the model never
decreases, no increment of the compilation overflows in that case, and the two counters
agree), whichever way `sqlite3Insert` leaves, the register counter at the end is at least
the one at the start, also when both are read as 32-bit integers.  When it leaves at
`insert_end` along the general path, the counter does not decrease from the start to the
point `po` where the destination is opened, from there to the end of `sqlite3Insert_open`
and from there to the end; unless the destination is a view, `aRegIdx` has one entry per
index, and `sqlite3Insert_open` emits an `OP_Int64` that stores the space pointer in
register `spacePtr` and hands that register to every `OP_OpenWrite`.  The blocks of
`sqlite3Insert_blocks` (the `nCol + 1` registers of the new row, the co-routine register of
a sub-select, the count of rows if rows are counted, the space pointer and, for every index,
`aRegIdx[i]` followed by the `nColumn` registers of the entry) are pairwise disjoint, all of
them lie above the counter at the start and not above the counter at the end, and every
register of every block is positive and at most `INT_MAX`, so that it is the number the
32-bit addition of the source yields. -/
theorem sqlite3Insert_register_blocks (ext : Extern) (pParse : Parse) (pTabList : SrcList)
    (pSelect : Option Select) (pColumn : Option IdList) (onError : on_conflict_action)
    (r : InsertResult)
    (h : sqlite3Insert ext pParse pTabList pSelect pColumn onError = some r)
    (hmax : r.pParse.nMem ≤ INT_MAX) :
    pParse.nMem ≤ r.pParse.nMem
    ∧ wrapInt32 (pParse.nMem : Int) ≤ wrapInt32 (r.pParse.nMem : Int)
    ∧ (r.exit = InsertExit.insert_end →
        ∃ (pTab : Table) (po : Parse) (L0 : InsertLocals) (spacePtr : Nat),
          (sqlite3SrcListLookup pParse pTabList).1 = some pTab
          ∧ sqlite3Insert_loop ext po pTab onError L0 = some r
          ∧ pParse.nMem ≤ po.nMem
          ∧ po.nMem ≤ (sqlite3Insert_open ext po pTab onError L0).2.nMem
          ∧ (sqlite3Insert_open ext po pTab onError L0).2.nMem ≤ r.pParse.nMem
          ∧ (r.L.isView = false →
              r.L.aRegIdx.length = pTab.pIndex.length
              ∧ ∃ (pre opens : List VdbeOp),
                  (sqlite3Insert_open ext po pTab onError L0).2.aOp
                    = pre ++ { opcode := OP_Int64, p1 := 0, p2 := (spacePtr : Int), p3 := 0,
                               p4 := P4_SPACEPTR (SQLITE_PAGENO_TO_SPACEID pTab.tnum) }
                        :: opens
                  ∧ ∀ o ∈ opens, o.opcode = OP_OpenWrite ∧ o.p3 = (spacePtr : Int))
          ∧ (sqlite3Insert_blocks pTab r.pParse.user_session r.L (spacePtr : Int)).Pairwise
              RegBlock.disjoint
          ∧ (∀ b ∈ sqlite3Insert_blocks pTab r.pParse.user_session r.L (spacePtr : Int),
              b.within pParse.nMem r.pParse.nMem)
          ∧ (∀ b ∈ sqlite3Insert_blocks pTab r.pParse.user_session r.L (spacePtr : Int),
              ∀ k : Nat, k < b.size →
                0 < b.base + k ∧ b.base + k ≤ (INT_MAX : Int)
                ∧ wrapInt32 (b.base + k) = b.base + k)) := by
  obtain ⟨g1, g2⟩ :=
    sqlite3Insert_blocks_disjoint ext pParse pTabList pSelect pColumn onError r h
  have hr : ((r.pParse.nMem : Nat) : Int) ≤ (INT_MAX : Int) := Int.ofNat_le.2 hmax
  have hp : ((pParse.nMem : Nat) : Int) ≤ (INT_MAX : Int) :=
    Int.ofNat_le.2 (Nat.le_trans g1 hmax)
  refine ⟨g1, ?_, fun hexit => ?_⟩
  · rw [wrapInt32_eq _ (by omega) hp, wrapInt32_eq _ (by omega) hr]
    exact Int.ofNat_le.2 g1
  · obtain ⟨pTab, po, L0, spacePtr, e1, e2, e3, e4, e5, e6, e7, e8⟩ := g2 hexit
    refine ⟨pTab, po, L0, spacePtr, e1, e2, e3, e4, e5, e6, e7, e8, ?_⟩
    intro b hb k hk
    have hw := e8 b hb
    unfold RegBlock.within at hw
    have hk' : (k : Int) < (b.size : Int) := Int.ofNat_lt.2 hk
    have h0 : 0 < b.base + k := by omega
    have h1 : b.base + k ≤ (INT_MAX : Int) := by omega
    exact ⟨h0, h1, wrapInt32_eq _ (by omega) h1⟩

end RegisterBlocksOfInsert

section MoreExamples

/-- Witness of C30 on the table `t9`, whose column affinities are INTEGER, BLOB, TEXT, BLOB,
BLOB: the buffer holds `D`, `A`, `B` and three NUL bytes. -/
theorem sqlite3TableAffinity_buffer_witness :
    demoT9.zColAff = none
      ∧ (∀ col ∈ demoT9.aCol, col.affinity ≠ NUL)
      ∧ (sqlite3TableAffinity demoParse demoT9 1).1.zColAff
          = some ['D', 'A', 'B', NUL, NUL, NUL]
      ∧ ∃ (s : List Char) (m : Nat),
          demoT9.aCol.map (fun col => col.affinity) = s ++ List.replicate m SQLITE_AFF_BLOB
          ∧ s.getLast? ≠ some SQLITE_AFF_BLOB
          ∧ (sqlite3TableAffinity demoParse demoT9 1).1.zColAff
              = some (s ++ List.replicate (m + 1) NUL)
          ∧ sqlite3Strlen30 (s ++ List.replicate (m + 1) NUL) = s.length :=
  match sqlite3TableAffinity_buffer demoParse demoT9 1 rfl (by decide) with
  | ⟨s, m, h1, h2, _, h4, _, h6, _⟩ => ⟨rfl, by decide, by decide, s, m, h1, h2, h4, h6⟩

/-- Witness of C23: `INSERT INTO t1(b, zz) VALUES (?, ?)` is refused because of `zz`, and the
program still consists of `OP_Init` alone. -/
theorem sqlite3Insert_idlist_spec_witness :
    ∃ r, sqlite3Insert demoExtern demoParse [{ zName := "t1" }] (some demoValues2)
          (some [{ zName := "b" }, { zName := "zz" }]) ON_CONFLICT_ACTION_DEFAULT = some r
      ∧ r.exit = InsertExit.insert_cleanup
      ∧ r.pParse.zErrMsg = some "table t1 has no column named zz"
      ∧ r.pParse.nErr = 1
      ∧ r.pParse.checkSchema = true
      ∧ r.pParse.aOp = [{ opcode := OP_Init, p2 := 1 }] :=
  (sqlite3Insert_idlist_spec demoExtern demoParse [{ zName := "t1" }] (some demoValues2)
    [{ zName := "b" }, { zName := "zz" }] ON_CONFLICT_ACTION_DEFAULT demoT1 demoParse
    ⟨rfl, rfl⟩ (by decide) rfl rfl).1 [{ zName := "b" }] { zName := "zz" } [] rfl
    (by decide) (by decide)

end MoreExamples

section ConsoleExamples

theorem demoWrite_le (fd : Console) (text : List Char) (len : Nat) :
    demoWrite fd text len ≤ (len : Int) := by
  unfold demoWrite; omega

/-- Witness of C27 -/
theorem console_session_owner_push_spec_witness :
    console_session_owner_push demoWrite 5 {} { dump := some "ok".data }
        = some (0, { out := "push:ok".data, reported := [2, 2, 1, 2] })
      ∧ ∃ us : List Int, us = [2, 2, 1, 2] ∧ (∀ u ∈ us, 0 ≤ u)
        ∧ us.sum = (("push:".length + "ok".data.length : Nat) : Int) :=
  ⟨by decide,
    match (console_session_owner_push_spec demoWrite demoWrite_le 5 {} { dump := some "ok".data }
      (fun text h => by
        have : text = "ok".data := (Option.some.inj h).symm
        rw [this]; decide)).2.1 0 { out := "push:ok".data, reported := [2, 2, 1, 2] }
      (by decide) with
    | ⟨us, hrep, Or.inl ⟨_, hall, text, hd, _, hsum⟩⟩ =>
      ⟨us, by simpa using hrep.symm, hall, by
        have : text = "ok".data := (Option.some.inj hd).symm
        rw [hsum, this]⟩
    | ⟨_, _, Or.inr ⟨h, _⟩⟩ => absurd h (by decide)⟩

end ConsoleExamples

section ShapeExamples

/-- The local variables of `sqlite3Insert` at the shape tests for `INSERT INTO t1 VALUES (?)`:
one value, no column-name list. -/
theorem sqlite3Insert_shape_mismatch_witness :
    ∃ r, sqlite3Insert_shape demoExtern demoParse demoT1 ON_CONFLICT_ACTION_DEFAULT
          { pList := some demoValues1.pEList, nColumn := 1, srcTab := -1, regIns := 1,
            regTupleid := 1, regData := 2 } = some r
      ∧ r.exit = InsertExit.insert_cleanup
      ∧ r.pParse.nErr = demoParse.nErr + 1
      ∧ r.pParse.zErrMsg
          = some ("table " ++ demoT1.zName ++ " has " ++ toString demoT1.nCol ++ " columns but "
              ++ toString 1 ++ " values were supplied")
      ∧ r.pParse.aOp = demoParse.aOp :=
  (sqlite3Insert_shape_mismatch demoExtern demoParse demoT1 ON_CONFLICT_ACTION_DEFAULT
    { pList := some demoValues1.pEList, nColumn := 1, srcTab := -1, regIns := 1,
      regTupleid := 1, regData := 2 }).1 ⟨rfl, by decide, by decide⟩

end ShapeExamples

section RegisterExamples

/-- Witness of C28 on the program `OP_Init`, `OP_OpenRead 0 524288`, which opens `t1` for
reading at address 1: `readsTable` returns 1 for `t1` and 0 for `t2`, of which no
instruction opens the table or an index. -/
theorem readsTable_iff_witness :
    (sqlite3GetVdbe demoParseRead).aOp.map (fun o => (o.opcode, o.p1, o.p2))
        = [(OP_Init, 0, 1), (OP_OpenRead, 0, 524288)]
      ∧ demoT1.tnum = 524288
      ∧ readsTable demoParseRead demoT1 ≠ 0
      ∧ readsTable demoParseRead demoT1 = 1
      ∧ (readsTable demoParseRead demoT2 ≠ 0
          ↔ ∃ (i : Nat) (pOp : VdbeOp), (sqlite3GetVdbe demoParseRead).aOp.get? i = some pOp
              ∧ pOp.opcode = OP_OpenRead
              ∧ (pOp.p2 = demoT2.tnum ∨ ∃ pIndex ∈ demoT2.pIndex, pOp.p2 = pIndex.tnum))
      ∧ readsTable demoParseRead demoT2 = 0 :=
  ⟨by decide, by decide,
    ((readsTable_iff demoParseRead demoT1).1 (by decide)).2
      ⟨1, { opcode := OP_OpenRead, p1 := 0, p2 := 524288 }, by decide, rfl,
        Or.inl (by decide)⟩,
    by decide,
    (readsTable_iff demoParseRead demoT2).1 (by decide),
    by decide⟩

/-- Witness of C29 on the primary indexes of `t1` and `t2`, which differ in name and root
page only. -/
theorem xferCompatibleIndex_iff_witness :
    xferCompatibleIndex demoPk1 { demoPk1 with zName := "pk_t2", tnum := 525312 } = 1 :=
  (xferCompatibleIndex_iff demoPk1 { demoPk1 with zName := "pk_t2", tnum := 525312 }).1.2
    ⟨rfl, rfl, by decide, rfl⟩

/-- Witness of C21 on `INSERT INTO t2 SELECT * FROM t2 WHERE b`, whose register counter ends
at 11, far below `INT_MAX`: the registers 1 to 3 hold the new row, register 4 is the
co-routine register, register 9 holds the space pointer and the registers 10 and 11 are the
block of the primary index. -/
theorem sqlite3Insert_register_blocks_witness :
    sqlite3Insert demoExtern demoParse [{ zName := "t2" }] (some (demoStarWhere "t2")) none
        ON_CONFLICT_ACTION_DEFAULT = some demoSelfInsert
      ∧ demoSelfInsert.pParse.nMem ≤ INT_MAX
      ∧ demoParse.nMem ≤ demoSelfInsert.pParse.nMem
      ∧ ∃ (pTab : Table) (spacePtr : Nat),
          (sqlite3SrcListLookup demoParse [{ zName := "t2" }]).1 = some pTab
          ∧ (sqlite3Insert_blocks pTab demoSelfInsert.pParse.user_session demoSelfInsert.L
              (spacePtr : Int)).Pairwise RegBlock.disjoint
          ∧ (∀ b ∈ sqlite3Insert_blocks pTab demoSelfInsert.pParse.user_session
                demoSelfInsert.L (spacePtr : Int),
              ∀ k : Nat, k < b.size →
                0 < b.base + k ∧ b.base + k ≤ (INT_MAX : Int)
                ∧ wrapInt32 (b.base + k) = b.base + k) :=
  ⟨by decide, by decide,
    (sqlite3Insert_register_blocks demoExtern demoParse [{ zName := "t2" }]
      (some (demoStarWhere "t2")) none ON_CONFLICT_ACTION_DEFAULT demoSelfInsert (by decide)
      (by decide)).1,
    match (sqlite3Insert_register_blocks demoExtern demoParse [{ zName := "t2" }]
      (some (demoStarWhere "t2")) none ON_CONFLICT_ACTION_DEFAULT demoSelfInsert
      (by decide) (by decide)).2.2 (by decide) with
    | ⟨pTab, _, _, spacePtr, h1, _, _, _, _, _, h7, _, h9⟩ => ⟨pTab, spacePtr, h1, h7, h9⟩⟩

/-- Witness of C26 on `INSERT INTO t2 SELECT * FROM t2 WHERE b`, which is compiled with the
staged template: the program ends with `OP_Next` and `OP_Close`, and `endOfLoop` is the
address of that `OP_Next`. -/
theorem sqlite3Insert_endOfLoop_witness :
    sqlite3Insert demoExtern demoParse [{ zName := "t2" }] (some (demoStarWhere "t2")) none
        ON_CONFLICT_ACTION_DEFAULT = some demoSelfInsert
      ∧ demoSelfInsert.exit = InsertExit.insert_end
      ∧ ∃ (pre : List VdbeOp) (pTabW : Table),
          demoSelfInsert.pParse.aOp
            = pre ++ (sqlite3Insert_rowCountCode demoSelfInsert.pParse.user_session
                  demoSelfInsert.L
                ++ sqlite3Insert_afterCode pTabW ON_CONFLICT_ACTION_DEFAULT demoSelfInsert.L
                ++ sqlite3Insert_advanceCode demoSelfInsert.L)
              ++ sqlite3Insert_endCode demoSelfInsert.pParse demoSelfInsert.L.regRowCount
          ∧ demoSelfInsert.pParse.aLabel.get? (-1 - demoSelfInsert.L.endOfLoop).toNat
              = some (((pre.length
                  + (sqlite3Insert_rowCountCode demoSelfInsert.pParse.user_session
                      demoSelfInsert.L).length
                  + (sqlite3Insert_afterCode pTabW ON_CONFLICT_ACTION_DEFAULT
                      demoSelfInsert.L).length : Nat)) : Int) :=
  ⟨by decide, by decide,
    match sqlite3Insert_endOfLoop demoExtern ON_CONFLICT_ACTION_DEFAULT demoParse
      [{ zName := "t2" }] (some (demoStarWhere "t2")) none demoSelfInsert (by decide)
      (by decide) with
    | ⟨pre, pTabW, h1, h2, _⟩ => ⟨pre, pTabW, h1, h2⟩⟩

end RegisterExamples

section RowFrames

theorem sqlite3Insert_open_row (ext : Extern) (p : Parse) (pTab : Table)
    (onError : on_conflict_action) (L : InsertLocals) :
    Grows sqlite3Insert_row_ops p (sqlite3Insert_open ext p pTab onError L).2 := by
  unfold sqlite3Insert_open
  simp only []
  have h2 := fun q => Grows.widen sqlite3Insert_row_ops
    (sqlite3OpenTableAndIndices_grows ext q pTab OP_OpenWrite [] (-1) none onError false)
    (by decide)
  split_ifs
  all_goals simp only []
  all_goals first
    | exact Grows.refl _ _
    | exact Grows.addOp2 _ _ _ (by decide) (Grows.allocMem _ (Grows.refl _ _))
    | exact (h2 _).trans (sqlite3Insert_aRegIdx_grows _ _ _ _)
    | exact (Grows.addOp2 _ _ _ (by decide) (Grows.allocMem _ (Grows.refl _ _))).trans
        ((h2 _).trans (sqlite3Insert_aRegIdx_grows _ _ _ _))

theorem sqlite3Insert_top_row (p : Parse) (L : InsertLocals) :
    Grows sqlite3Insert_row_ops p (sqlite3Insert_top p L).2 := by
  unfold sqlite3Insert_top
  simp only []
  split_ifs <;> simp only [] <;>
    (repeat' with_reducible first
      | exact Grows.refl _ _
      | apply Grows.makeLabel
      | apply Grows.addOp1) <;> decide

theorem sqlite3Insert_before_row (p : Parse) (pTab : Table) (onError : on_conflict_action)
    (L : InsertLocals) :
    Grows sqlite3Insert_row_ops p (sqlite3Insert_before p pTab onError L).2 := by
  unfold sqlite3Insert_before
  simp only []
  have hcols : ∀ q regCols, Grows sqlite3Insert_row_ops q
      ((List.range pTab.nCol).foldl
        (fun pParse i => sqlite3Insert_triggerColumn pParse pTab L.pColumn L.pList
          L.useTempTable L.srcTab regCols i) q) := fun q regCols =>
    Grows.foldl _ (fun q i => (sqlite3Insert_triggerColumn_grows q pTab L.pColumn L.pList
      L.useTempTable L.srcTab regCols i).mono (by decide)) _ _
  split_ifs
  all_goals simp only []
  all_goals first
    | exact Grows.refl _ _
    | (apply Grows.releaseTempRange
       apply Grows.addOp _ (by simp only []; decide)
       first
        | (apply Grows.tableAffinity _ _ (by decide)
           exact (Grows.getTempRange _ (Grows.refl _ _)).trans (hcols _ _))
        | exact (Grows.getTempRange _ (Grows.refl _ _)).trans (hcols _ _))

theorem sqlite3Insert_newRow_row (p : Parse) (pTab : Table) (L : InsertLocals) :
    Grows sqlite3Insert_row_ops p (sqlite3Insert_newRow p pTab L) := by
  unfold sqlite3Insert_newRow
  simp only []
  refine Grows.trans ?_ (Grows.foldl _ (fun q i => (sqlite3Insert_column_grows q pTab L.pColumn
    L.pList L.pSelect.isSome L.useTempTable L.srcTab L.regFromSelect L.regData L.regTupleid
    L.nColumn i).mono (by decide)) _ _)
  split_ifs <;>
    (repeat' with_reducible first
      | exact Grows.refl _ _
      | apply Grows.addOp2
      | apply Grows.addOp3) <;> decide

theorem sqlite3Insert_bottom_tail (p : Parse) (pTab : Table) (onError : on_conflict_action)
    (L : InsertLocals) :
    Grows sqlite3Insert_tail_ops p (sqlite3Insert_bottom p pTab onError L) := by
  unfold sqlite3Insert_bottom
  simp only []
  repeat' with_reducible first
    | exact Grows.refl _ _
    | apply Grows.if_then_else
    | apply Grows.addOp1
    | apply Grows.addOp2
    | apply Grows.addOp
    | apply Grows.jumpHere
    | apply Grows.goto
    | apply Grows.resolveLabel
  all_goals first
    | decide
    | (simp only []; decide)

theorem sqlite3Insert_end_tail (p : Parse) (regRowCount : Int) :
    Grows sqlite3Insert_tail_ops p (sqlite3Insert_end p regRowCount) := by
  unfold sqlite3Insert_end
  split_ifs
  · exact Grows.trans (Grows.addOp2 _ _ _ (by decide) (Grows.refl _ _))
      (Grows.same (Nat.le_refl _) rfl)
  · exact Grows.refl _ _

/-- The start of the constraint checks, up to the UNIQUE loop, emits no write and no probe. -/
theorem sqlite3GenerateConstraintChecks_uniqueStart_row (p : Parse) (pTab : Table)
    (regNewData : Int) (overrideError : on_conflict_action) (ignoreDest : Int)
    (aiChng : Option (List Int)) :
    Grows sqlite3Insert_row_ops p
      (sqlite3GenerateConstraintChecks_uniqueStart p pTab regNewData overrideError ignoreDest
        aiChng).pParse := by
  unfold sqlite3GenerateConstraintChecks_uniqueStart
  simp only []
  exact (Grows.getVdbe p (by decide)).trans
    (((sqlite3GenerateConstraintChecks_notNullLoop_grows _ pTab regNewData overrideError
        ignoreDest aiChng).mono (by decide)).trans
      ((sqlite3GenerateConstraintChecks_checks_grows _ pTab regNewData overrideError
        ignoreDest aiChng).mono (by decide)))

theorem sqlite3Insert_before_table (p : Parse) (pTab : Table) (onError : on_conflict_action)
    (L : InsertLocals) :
    (sqlite3Insert_before p pTab onError L).1 = pTab
      ∨ (sqlite3Insert_before p pTab onError L).1 = pTab.withAffinity := by
  unfold sqlite3Insert_before
  simp only []
  split_ifs
  · right
    exact sqlite3TableAffinity_table _ _ _
  · left; rfl
  · left; rfl

end RowFrames

section DefaultValuesPath

theorem sqlite3SrcListLookup_aOp (pParse : Parse) (pTabList : SrcList) :
    (sqlite3SrcListLookup pParse pTabList).2.aOp = pParse.aOp := by
  unfold sqlite3SrcListLookup
  simp only [sqlite3LocateTableItem]
  repeat' split
  all_goals rfl

theorem sqlite3SrcListLookup_session (pParse : Parse) (pTabList : SrcList) :
    (sqlite3SrcListLookup pParse pTabList).2.user_session = pParse.user_session := by
  unfold sqlite3SrcListLookup
  simp only [sqlite3LocateTableItem]
  repeat' split
  all_goals rfl

/-- The column loop of the new row when no value is supplied (`nColumn = 0`): every column
gets its default, the auto-increment key gets NULL. -/
theorem sqlite3Insert_column_defaults (pTab : Table) (pColumn : Option IdList)
    (pList : Option ExprList) (pSelect useTempTable : Bool)
    (srcTab regFromSelect regData regTupleid : Int) :
    ∀ (l : List Nat) (p : Parse),
      (l.foldl (fun q i => sqlite3Insert_column q pTab pColumn pList pSelect useTempTable
          srcTab regFromSelect regData regTupleid 0 i) p).aOp
        = p.aOp ++ l.map (fun (i : Nat) =>
            if (i : Int) = pTab.iAutoIncPKey then
              ({ opcode := OP_Null, p1 := 0, p2 := regTupleid + 1 + i } : VdbeOp)
            else
              { opcode := CALL_sqlite3ExprCodeFactorable, p1 := 0, p2 := regTupleid + 1 + i,
                p3 := 0, p4 := P4_EXPR (pTab.aCol.getD i default).pDflt }) := by
  intro l
  induction l with
  | nil => intro p; simp
  | cons i rest ih =>
    intro p
    rw [List.foldl_cons, ih, List.map_cons]
    have : (sqlite3Insert_column p pTab pColumn pList pSelect useTempTable srcTab
        regFromSelect regData regTupleid 0 i).aOp
        = p.aOp ++ [if (i : Int) = pTab.iAutoIncPKey then
              ({ opcode := OP_Null, p1 := 0, p2 := regTupleid + 1 + i } : VdbeOp)
            else
              { opcode := CALL_sqlite3ExprCodeFactorable, p1 := 0, p2 := regTupleid + 1 + i,
                p3 := 0, p4 := P4_EXPR (pTab.aCol.getD i default).pDflt }] := by
      unfold sqlite3Insert_column
      simp only [true_or, if_true]
      split_ifs <;> simp [sqlite3VdbeAddOp2, sqlite3VdbeAddOp4, sqlite3VdbeAddOp]
    rw [this, List.append_assoc, List.singleton_append]

/-- The new row of a statement that supplies no value and has no integer key in its list:
the code is `sqlite3Insert_defaultRowCode`. -/
theorem sqlite3Insert_newRow_defaults (p : Parse) (pTab : Table) (L : InsertLocals)
    (hn : L.nColumn = 0) (hi : L.ipkColumn = -1) :
    (sqlite3Insert_newRow p pTab L).aOp
      = p.aOp ++ sqlite3Insert_defaultRowCode pTab L.regTupleid := by
  unfold sqlite3Insert_newRow sqlite3Insert_defaultRowCode
  simp only []
  rw [hn, hi, sqlite3Insert_column_defaults]
  simp [sqlite3VdbeAddOp2, sqlite3VdbeAddOp]

theorem sqlite3Insert_defaultRowCode_affinity (pTab : Table) (regTupleid : Int) :
    sqlite3Insert_defaultRowCode pTab.withAffinity regTupleid
      = sqlite3Insert_defaultRowCode pTab regTupleid := rfl

/-- The way of `INSERT ... DEFAULT VALUES` without a column-name list to the main loop: the
program is the one `sqlite3GetVdbe` hands out, no value is supplied and there is no
sub-select. -/
theorem sqlite3Insert_defaultValues_loop (ext : Extern) (pParse : Parse) (pTabList : SrcList)
    (onError : on_conflict_action) (r : InsertResult)
    (h : sqlite3Insert ext pParse pTabList none none onError = some r)
    (hexit : r.exit = InsertExit.insert_end) :
    ∃ (pTab : Table) (po : Parse) (L0 : InsertLocals),
      (sqlite3SrcListLookup pParse pTabList).1 = some pTab
      ∧ sqlite3Insert_loop ext po pTab onError L0 = some r
      ∧ po.ops = (sqlite3GetVdbe pParse).ops
      ∧ po.user_session = pParse.user_session
      ∧ L0.pSelect = none ∧ L0.pColumn = none ∧ L0.nColumn = 0 ∧ L0.useTempTable = false
      ∧ L0.ipkColumn = -1 ∧ L0.isView = pTab.pSelect.isSome
      ∧ L0.regTupleid = L0.regIns ∧ L0.regData = L0.regIns + 1 := by
  obtain ⟨pTab, p1, x, hl, hg, hx⟩ :=
    sqlite3Insert_reaches_general ext pParse pTabList none none onError r h hexit
  have hx2 : x = sqlite3Insert_begin p1 (sqlite3Insert_locals ext pTab none none) := by
    rcases hx with ⟨hc, -⟩ | ⟨-, hx⟩
    · exact absurd rfl hc
    · have : (sqlite3Insert_locals ext pTab none none).pSelect = none := rfl
      rw [this] at hx
      simp only [xferOptimization, Option.some.injEq, Prod.mk.injEq, true_and] at hx
      exact hx.symm
  have hp1a : p1.aOp = pParse.aOp := by
    have := sqlite3SrcListLookup_aOp pParse pTabList
    rw [hl] at this
    exact this
  have hp1s : p1.user_session = pParse.user_session := by
    have := sqlite3SrcListLookup_session pParse pTabList
    rw [hl] at this
    exact this
  have hp1v : p1.pVdbe = pParse.pVdbe := by
    have : (sqlite3SrcListLookup pParse pTabList).2.pVdbe = pParse.pVdbe := by
      unfold sqlite3SrcListLookup
      simp only [sqlite3LocateTableItem]
      repeat' split
      all_goals rfl
    rw [hl] at this
    exact this
  have hxa : x.ops = (sqlite3GetVdbe pParse).ops := by
    rw [hx2]
    unfold Parse.ops
    rw [sqlite3Insert_begin_aOp]
    unfold sqlite3GetVdbe
    rw [hp1v]
    split_ifs <;> simp [hp1a]
  have hxs : x.user_session = pParse.user_session := by
    rw [hx2, ← hp1s]
    unfold sqlite3Insert_begin sqlite3BeginWriteOperation sqlite3GetVdbe
    simp only []
    split_ifs <;> rfl
  unfold sqlite3Insert_general sqlite3Insert_source sqlite3Insert_shape at hg
  simp [sqlite3Insert_locals] at hg
  exact ⟨pTab, _, _, by rw [hl], hg, hxa, hxs, rfl, rfl, rfl, rfl, rfl, rfl, rfl, rfl⟩

end DefaultValuesPath

section SingleIndex

/-- The probe of an INSERT for the primary index at position 0: `OP_IsNull` for an
auto-increment integer key and `OP_NoConflict` when the byte code is needed; nothing
else. -/
theorem sqlite3GenerateConstraintChecks_probe_insert (iIdxCur : Int)
    (onError : on_conflict_action) (pPk pIdx : Index) (U : UniqueLocals) (p : Parse) :
    (sqlite3GenerateConstraintChecks_probe iIdxCur 0 onError pPk 0 pIdx 0 U p).2.ops
      = p.ops ++ ((if U.table_ipk_autoinc = true then [OP_IsNull] else [])
          ++ (if U.uniqueByteCodeNeeded = true then [OP_NoConflict] else [])) := by
  unfold sqlite3GenerateConstraintChecks_probe
  simp only [ne_eq, not_true_eq_false, decide_False, Bool.false_eq_true, false_or, false_and,
    if_false, if_true]
  split_ifs <;> simp

theorem sqlite3GenerateConstraintChecks_record_needed (aRegIdx : List Int) (regNewData : Int)
    (overrideError : on_conflict_action) (pIdx : Index) (ix : Nat) (st : UniqueState) :
    (sqlite3GenerateConstraintChecks_record aRegIdx regNewData overrideError pIdx ix
        st).1.uniqueByteCodeNeeded
      = decide ((pIdx.onError ≠ ON_CONFLICT_ACTION_ABORT
          ∧ pIdx.onError ≠ ON_CONFLICT_ACTION_DEFAULT)
        ∨ (overrideError ≠ ON_CONFLICT_ACTION_ABORT
          ∧ overrideError ≠ ON_CONFLICT_ACTION_DEFAULT)) := by
  unfold sqlite3GenerateConstraintChecks_record
  rfl

/-- The constraint checks of an INSERT into a table whose only index is the primary index:
apart from the probe `OP_NoConflict` they emit opcodes of `sqlite3Insert_row_ops` only, and
the probe is emitted, once, exactly under `uniqueProbeEmitted`. -/
theorem sqlite3GenerateConstraintChecks_single (ext : Extern) (p : Parse) (pTab : Table)
    (aRegIdx : List Int) (iDataCur iIdxCur regNewData : Int) (pkChng : Bool)
    (overrideError : on_conflict_action) (ignoreDest : Int) (pk : Index)
    (c : ConstraintResult)
    (hidx : pTab.pIndex = [pk]) (hpk : IsPrimaryKeyIndex pk = true)
    (h0 : aRegIdx.getD 0 0 ≠ 0)
    (h : sqlite3GenerateConstraintChecks ext p pTab aRegIdx iDataCur iIdxCur regNewData 0
      pkChng overrideError ignoreDest none = some c) :
    ∃ cs : List Opcode, c.pParse.ops = p.ops ++ cs
      ∧ (∀ o ∈ cs, o ∈ sqlite3Insert_row_ops ∨ o = OP_NoConflict)
      ∧ (OP_NoConflict ∈ cs
          ↔ uniqueProbeEmitted ext p.user_session pTab.withAffinity overrideError pk)
      ∧ cs.count OP_NoConflict ≤ 1 := by
  rw [sqlite3GenerateConstraintChecks_eq] at h
  have hfind : sqlite3PrimaryKeyIndex pTab = some pk := by
    unfold sqlite3PrimaryKeyIndex
    rw [hidx]
    simp [hpk]
  have hix : pTab.pIndex.findIdx IsPrimaryKeyIndex = 0 := by
    rw [hidx]
    simp [List.findIdx_cons, hpk]
  rw [hfind, hix, hidx] at h
  simp only [Option.map_some', Option.some.injEq, List.length_singleton] at h
  subst h
  simp only [sqlite3GenerateConstraintChecks_uniqueLoop]
  rw [sqlite3GenerateConstraintChecks_unique_cases _ _ _ _ _ _ _ _ _ _ _ _ _ _ _ h0]
  have hstart := sqlite3GenerateConstraintChecks_uniqueStart_row p pTab regNewData overrideError
    ignoreDest none
  have hss := sqlite3GenerateConstraintChecks_uniqueStart_user_session p pTab regNewData
    overrideError ignoreDest none
  have hst1 : (sqlite3GenerateConstraintChecks_uniqueStart p pTab regNewData overrideError
      ignoreDest none).pTab = pTab := rfl
  have hst2 : (sqlite3GenerateConstraintChecks_uniqueStart p pTab regNewData overrideError
      ignoreDest none).bAffinityDone = false := rfl
  generalize sqlite3GenerateConstraintChecks_uniqueStart p pTab regNewData overrideError
    ignoreDest none = st at hstart hss hst1 hst2 ⊢
  have hrec := (sqlite3GenerateConstraintChecks_record_grows aRegIdx regNewData overrideError
    pk 0 st).mono (show ∀ o ∈ _, o ∈ sqlite3Insert_row_ops by decide)
  obtain ⟨hr1, hr2, -⟩ := sqlite3GenerateConstraintChecks_record_state aRegIdx regNewData
    overrideError pk 0 st
  have hneed := sqlite3GenerateConstraintChecks_record_needed aRegIdx regNewData overrideError
    pk 0 st
  rw [hst2, if_pos rfl, hst1] at hr2
  rw [hss] at hr1
  generalize sqlite3GenerateConstraintChecks_record aRegIdx regNewData overrideError pk 0 st
    = rc at hrec hr1 hr2 hneed ⊢
  rw [hr1, hr2]
  obtain ⟨-, cs1, e1, a1⟩ := hstart.trans hrec
  have hel : uniqueTestElided ext p.user_session pTab.withAffinity 0 pkChng overrideError 0 1
      pk 0
      ↔ uniqueTestElided ext p.user_session pTab.withAffinity 0 false overrideError 0 1 pk 0 := by
    unfold uniqueTestElided
    simp
  have hno : ∀ l : List Opcode, (∀ o ∈ l, o ∈ sqlite3Insert_row_ops) → OP_NoConflict ∉ l := by
    intro l hl hm
    exact absurd (hl _ hm) (by decide)
  by_cases he : uniqueTestElided ext p.user_session pTab.withAffinity 0 pkChng overrideError 0
      1 pk 0
  · rw [if_pos he]
    refine ⟨cs1, e1, fun o ho => Or.inl (a1 o ho), ?_, ?_⟩
    · constructor
      · intro hm
        exact absurd hm (hno cs1 a1)
      · intro hp
        exact absurd (hel.1 he) hp.1
    · rw [List.count_eq_zero_of_not_mem (hno cs1 a1)]
      exact Nat.zero_le _
  · rw [if_neg he]
    simp only []
    have hp := sqlite3GenerateConstraintChecks_probe_insert iIdxCur
      (specUniquePolicy overrideError pk) pk pk rc.1 rc.2.pParse
    generalize sqlite3GenerateConstraintChecks_probe iIdxCur 0
      (specUniquePolicy overrideError pk) pk 0 pk 0 rc.1 rc.2.pParse = pr at hp ⊢
    obtain ⟨-, cs3, e3, a3⟩ := sqlite3GenerateConstraintChecks_resolve_grows ext
      pTab.withAffinity iDataCur iIdxCur ignoreDest (specUniquePolicy overrideError pk) pk 0 pk
      0 rc.1 pr.1 rc.2.seenReplace pr.2
    have a3r : ∀ o ∈ cs3, o ∈ sqlite3Insert_row_ops := by
      intro o ho
      have := a3 o ho
      revert this
      generalize o = o'
      intro ho'
      simp only [List.mem_cons, List.mem_singleton, List.not_mem_nil, or_false] at ho'
      rcases ho' with rfl | rfl | rfl <;> decide
    refine ⟨cs1 ++ ((if rc.1.table_ipk_autoinc = true then [OP_IsNull] else [])
      ++ (if rc.1.uniqueByteCodeNeeded = true then [OP_NoConflict] else [])) ++ cs3, ?_, ?_, ?_,
      ?_⟩
    · rw [e3, hp, e1]
      simp only [List.append_assoc]
    · intro o ho
      simp only [List.mem_append] at ho
      rcases ho with (ho | ho | ho) | ho
      · exact Or.inl (a1 o ho)
      · split_ifs at ho
        · rw [List.mem_singleton] at ho
          subst ho
          exact Or.inl (by decide)
        · exact absurd ho (List.not_mem_nil _)
      · split_ifs at ho
        · rw [List.mem_singleton] at ho
          exact Or.inr ho
        · exact absurd ho (List.not_mem_nil _)
      · exact Or.inl (a3r o ho)
    · have hn1 := hno cs1 a1
      have hn3 := hno cs3 a3r
      unfold uniqueProbeEmitted
      rw [hneed]
      simp only [List.mem_append, hn1, hn3, false_or, or_false]
      constructor
      · intro hm
        rcases hm with hm | hm
        · split_ifs at hm
          · simp at hm
          · simp at hm
        · split_ifs at hm with hb
          · exact ⟨fun hc => he (hel.2 hc), by simpa using hb⟩
          · simp at hm
      · rintro ⟨-, hb⟩
        right
        rw [if_pos (by simpa using hb)]
        exact List.mem_singleton.2 rfl
    · have hn1 := hno cs1 a1
      have hn3 := hno cs3 a3r
      simp only [List.count_append, List.count_eq_zero_of_not_mem hn1,
        List.count_eq_zero_of_not_mem hn3]
      split_ifs <;> simp

end SingleIndex

section DefaultValues

theorem not_mem_of_all_mem {l L : List Opcode} (h : ∀ o ∈ l, o ∈ L) {op : Opcode}
    (hop : op ∉ L) : op ∉ l :=
  fun hm => hop (h op hm)

theorem sqlite3Insert_open_top_ipkColumn (ext : Extern) (p : Parse) (pTab : Table)
    (onError : on_conflict_action) (L : InsertLocals) :
    (sqlite3Insert_top (sqlite3Insert_open ext p pTab onError L).2
      (sqlite3Insert_open ext p pTab onError L).1).1.ipkColumn = L.ipkColumn := by
  have h1 : (sqlite3Insert_open ext p pTab onError L).1.ipkColumn = L.ipkColumn := by
    unfold sqlite3Insert_open
    simp only []
    split_ifs <;> rfl
  generalize sqlite3Insert_open ext p pTab onError L = o at h1 ⊢
  rw [← h1]
  unfold sqlite3Insert_top
  simp only []
  split_ifs <;> rfl

/-- C24 (as amended): for `INSERT ... DEFAULT VALUES` without a column-name list into a
table (not a view) whose only index is the primary index, compiled to `insert_end` under
the statement policy `onError`: the opcodes `cs` emitted by the statement hold exactly one
write, which is `OP_IdxReplace` exactly under Replace and `OP_IdxInsert` otherwise; the
probe `OP_NoConflict` occurs at most once, and it occurs exactly under
`uniqueProbeEmitted`, that is when the uniqueness test of the index is not elided and the
index or the statement has a policy other than Abort and Default.  So there is no probe
under Abort, Fail and Ignore, and there is one under Rollback when the index is unique.
The code of the new row, after which the constraint checks and the write are emitted, is
`sqlite3Insert_defaultRowCode`: `OP_Null` for the row identifier, and for column `i` its
default expression coded into register `regIns + 1 + i`, which is `regData + i`, or
`OP_Null` when the column is the auto-increment key. -/
theorem sqlite3Insert_defaultValues (ext : Extern) (pParse : Parse) (pTabList : SrcList)
    (onError : on_conflict_action) (r : InsertResult) (pTab : Table) (pk : Index)
    (h : sqlite3Insert ext pParse pTabList none none onError = some r)
    (hexit : r.exit = InsertExit.insert_end)
    (hlook : (sqlite3SrcListLookup pParse pTabList).1 = some pTab)
    (hidx : pTab.pIndex = [pk]) (hpk : IsPrimaryKeyIndex pk = true)
    (htab : pTab.pSelect = none) :
    (∃ cs : List Opcode,
      r.pParse.ops = pParse.ops ++ cs
      ∧ cs.count OP_IdxInsert + cs.count OP_IdxReplace = 1
      ∧ (OP_IdxReplace ∈ cs ↔ onError = ON_CONFLICT_ACTION_REPLACE)
      ∧ (OP_NoConflict ∈ cs
          ↔ uniqueProbeEmitted ext pParse.user_session pTab.withAffinity onError pk)
      ∧ cs.count OP_NoConflict ≤ 1
      ∧ ((onError = ON_CONFLICT_ACTION_ABORT ∨ onError = ON_CONFLICT_ACTION_FAIL
            ∨ onError = ON_CONFLICT_ACTION_IGNORE) → OP_NoConflict ∉ cs)
      ∧ (onError = ON_CONFLICT_ACTION_ROLLBACK → pk.onError ≠ ON_CONFLICT_ACTION_NONE →
          OP_NoConflict ∈ cs))
    ∧ ∃ (q qw : Parse) (pTabB pTabW : Table),
        sqlite3Insert_write ext (sqlite3Insert_newRow q pTabB r.L) pTabB onError r.L
          = some (pTabW, qw)
        ∧ r.pParse = sqlite3Insert_end (sqlite3Insert_bottom qw pTabW onError r.L)
            r.L.regRowCount
        ∧ (sqlite3Insert_newRow q pTabB r.L).aOp
            = q.aOp ++ sqlite3Insert_defaultRowCode pTab r.L.regIns
        ∧ r.L.regData = r.L.regIns + 1 := by
  obtain ⟨pTab', po, L0, hl', hloop, hpo, hpos, hsel, hcol, hnc, hut, hipk, hview, hti, hrd⟩ :=
    sqlite3Insert_defaultValues_loop ext pParse pTabList onError r h hexit
  rw [hlook, Option.some.injEq] at hl'
  subst hl'
  obtain ⟨hL, -, pTabW, q, hp, -, hw⟩ := sqlite3Insert_loop_parts ext po pTab onError L0 r hloop
  have hset := sqlite3Insert_loop_locals ext po pTab onError L0 r hloop
  have hv : r.L.isView = false := by
    have := congrArg InsertLocals.isView hset
    have e : r.L.isView = L0.isView := this
    rw [e, hview, htab]
    rfl
  have hn0 : r.L.nColumn = 0 := by
    have := congrArg InsertLocals.nColumn hset
    have e : r.L.nColumn = L0.nColumn := this
    rw [e, hnc]
  have hti2 : r.L.regTupleid = r.L.regIns := by
    have := congrArg InsertLocals.regTupleid hset
    have e1 : r.L.regTupleid = L0.regTupleid := this
    have := congrArg InsertLocals.regIns hset
    have e2 : r.L.regIns = L0.regIns := this
    rw [e1, e2, hti]
  have hrd2 : r.L.regData = r.L.regIns + 1 := by
    have := congrArg InsertLocals.regData hset
    have e1 : r.L.regData = L0.regData := this
    have := congrArg InsertLocals.regIns hset
    have e2 : r.L.regIns = L0.regIns := this
    rw [e1, e2, hrd]
  have hipk2 : r.L.ipkColumn = -1 := by
    rw [hL, sqlite3Insert_open_top_ipkColumn, hipk]
  -- the registers of the only index
  have hreg : r.L.aRegIdx.getD 0 0 ≠ 0 := by
    obtain ⟨m, -, hm2, -⟩ := sqlite3Insert_open_spec ext po pTab onError L0
    have hv0 : L0.isView = false := by rw [hview, htab]; rfl
    obtain ⟨a1, -, -⟩ := hm2 hv0
    obtain ⟨-, ht2⟩ := sqlite3Insert_top_registers (sqlite3Insert_open ext po pTab onError L0).2
      (sqlite3Insert_open ext po pTab onError L0).1
    rw [hL, ht2, a1, hidx]
    simp only [sqlite3Insert_indexRegisters, List.getD_cons_zero]
    omega
  rw [if_pos hv] at hw
  -- the stations of the loop
  have ho := sqlite3Insert_open_row ext po pTab onError L0
  have hok := sqlite3Insert_open_keeps ext po pTab onError L0
  generalize sqlite3Insert_open ext po pTab onError L0 = o at hL hw ho hok
  have ht := sqlite3Insert_top_row o.2 o.1
  have htk := sqlite3Insert_top_keeps o.2 o.1
  generalize sqlite3Insert_top o.2 o.1 = t at hL hw ht htk
  have hb := sqlite3Insert_before_row t.2 pTab onError r.L
  have hbk := sqlite3Insert_before_keeps t.2 pTab onError r.L
  have hbt := sqlite3Insert_before_table t.2 pTab onError r.L
  generalize sqlite3Insert_before t.2 pTab onError r.L = b at hw hb hbk hbt
  have hnr := sqlite3Insert_newRow_row b.2 b.1 r.L
  have hnk := sqlite3Insert_newRow_keeps b.2 b.1 r.L
  have hnd := sqlite3Insert_newRow_defaults b.2 b.1 r.L hn0 hipk2
  have hbi : b.1.pIndex = [pk] := by
    rcases hbt with e | e <;> rw [e] <;> exact hidx
  have hba : b.1.withAffinity = pTab.withAffinity := by
    rcases hbt with e | e <;> rw [e]
    rfl
  have hbd : sqlite3Insert_defaultRowCode b.1 r.L.regTupleid
      = sqlite3Insert_defaultRowCode pTab r.L.regIns := by
    rw [hti2]
    rcases hbt with e | e <;> rw [e]
    rfl
  rw [hbd] at hnd
  refine ⟨?_, b.2, q, b.1, pTabW, hw, hp, hnd, hrd2⟩
  have hns : (sqlite3Insert_newRow b.2 b.1 r.L).user_session = pParse.user_session := by
    rw [hnk.user_session, hbk.user_session, htk.user_session, hok.user_session, hpos]
  generalize sqlite3Insert_newRow b.2 b.1 r.L = n at hw hnr hns
  obtain ⟨c, w, hc, hq, hwop, -, -⟩ := sqlite3Insert_write_spec ext n b.1 onError r.L pTabW q hw
  obtain ⟨csC, eC, aC, hprobe, hcount⟩ := sqlite3GenerateConstraintChecks_single ext n b.1
    r.L.aRegIdx r.L.iDataCur r.L.iIdxCur r.L.regIns (decide (r.L.ipkColumn ≥ 0)) onError
    r.L.endOfLoop pk c hbi hpk hreg hc
  rw [hns, hba] at hprobe
  obtain ⟨-, csI, eI, aI⟩ := Grows.getVdbe (L := [OP_Init]) pParse (List.mem_singleton.2 rfl)
  obtain ⟨-, csR, eR, aR⟩ := ho.trans (ht.trans (hb.trans hnr))
  obtain ⟨-, csT, eT, aT⟩ := (sqlite3Insert_bottom_tail q pTabW onError r.L).trans
    (sqlite3Insert_end_tail (sqlite3Insert_bottom q pTabW onError r.L) r.L.regRowCount)
  rw [← hp] at eT
  have eQ : q.ops = c.pParse.ops ++ [CALL_sqlite3FkCheck, w.opcode] := by
    unfold Parse.ops
    rw [hq]
    simp
  have hwn : w.opcode ≠ OP_NoConflict := by
    rw [hwop]
    split_ifs <;> decide
  have hrow : ∀ o ∈ csC, o ≠ OP_IdxInsert ∧ o ≠ OP_IdxReplace := by
    intro o ho'
    rcases aC o ho' with hm | rfl
    · constructor
      · rintro rfl
        exact absurd hm (by decide)
      · rintro rfl
        exact absurd hm (by decide)
    · exact ⟨by decide, by decide⟩
  have cI1 : OP_IdxInsert ∉ csI := not_mem_of_all_mem aI (by decide)
  have cI2 : OP_IdxReplace ∉ csI := not_mem_of_all_mem aI (by decide)
  have cI3 : OP_NoConflict ∉ csI := not_mem_of_all_mem aI (by decide)
  have cR1 : OP_IdxInsert ∉ csR := not_mem_of_all_mem aR (by decide)
  have cR2 : OP_IdxReplace ∉ csR := not_mem_of_all_mem aR (by decide)
  have cR3 : OP_NoConflict ∉ csR := not_mem_of_all_mem aR (by decide)
  have cT1 : OP_IdxInsert ∉ csT := not_mem_of_all_mem aT (by decide)
  have cT2 : OP_IdxReplace ∉ csT := not_mem_of_all_mem aT (by decide)
  have cT3 : OP_NoConflict ∉ csT := not_mem_of_all_mem aT (by decide)
  have cC1 : OP_IdxInsert ∉ csC := fun hm => (hrow _ hm).1 rfl
  have cC2 : OP_IdxReplace ∉ csC := fun hm => (hrow _ hm).2 rfl
  have hmemN : OP_NoConflict ∈ csI ++ csR ++ csC ++ [CALL_sqlite3FkCheck, w.opcode] ++ csT
      ↔ OP_NoConflict ∈ csC := by
    simp only [List.mem_append, List.mem_cons, List.mem_singleton, List.not_mem_nil, cI3, cR3,
      cT3, false_or, or_false]
    constructor
    · rintro (hm | hm | hm)
      · exact hm
      · exact absurd hm (by decide)
      · exact absurd hm.symm hwn
    · exact Or.inl
  refine ⟨csI ++ csR ++ csC ++ [CALL_sqlite3FkCheck, w.opcode] ++ csT, ?_, ?_, ?_, ?_, ?_, ?_,
    ?_⟩
  · rw [eT, eQ, eC, eR, hpo, eI]
    simp only [List.append_assoc]
  · simp only [List.count_append, List.count_eq_zero_of_not_mem cI1,
      List.count_eq_zero_of_not_mem cI2, List.count_eq_zero_of_not_mem cR1,
      List.count_eq_zero_of_not_mem cR2, List.count_eq_zero_of_not_mem cT1,
      List.count_eq_zero_of_not_mem cT2, List.count_eq_zero_of_not_mem cC1,
      List.count_eq_zero_of_not_mem cC2, hwop]
    split_ifs <;> simp [List.count_cons]
  · simp only [List.mem_append, List.mem_cons, List.mem_singleton, List.not_mem_nil, cI2, cR2,
      cT2, cC2, false_or, or_false, hwop]
    split_ifs with hr
    · simp [hr]
    · simp [hr]
  · rw [hmemN]
    exact hprobe
  · simp only [List.count_append, List.count_eq_zero_of_not_mem cI3,
      List.count_eq_zero_of_not_mem cR3, List.count_eq_zero_of_not_mem cT3]
    have : List.count OP_NoConflict [CALL_sqlite3FkCheck, w.opcode] = 0 := by
      apply List.count_eq_zero_of_not_mem
      simp only [List.mem_cons, List.mem_singleton, List.not_mem_nil, or_false]
      rintro (hm | hm)
      · exact absurd hm (by decide)
      · exact absurd hm.symm hwn
    rw [this]
    simpa using hcount
  · intro hov
    rw [hmemN, hprobe]
    intro hp'
    apply hp'.1
    unfold uniqueTestElided
    right; right; left
    rcases hov with e | e | e
    · exact Or.inr (Or.inr e)
    · exact Or.inl e
    · exact Or.inr (Or.inl e)
  · intro hov hnone
    rw [hmemN, hprobe]
    refine ⟨?_, Or.inr ⟨by rw [hov]; decide, by rw [hov]; decide⟩⟩
    unfold uniqueTestElided specUniquePolicy
    rw [hov]
    simp [hnone]

end DefaultValues

section DefaultValuesExamples

/-- The claim C24 fails under the policy Rollback: `INSERT OR ROLLBACK INTO t1 DEFAULT VALUES`,
where the primary index is the only index of `t1`, compiles to a program whose instruction
at address 11 is the uniqueness probe `OP_NoConflict` of that index. -/
theorem sqlite3Insert_defaultValues_counterexample :
    sqlite3Insert demoExtern demoParse [{ zName := "t1" }] none none ON_CONFLICT_ACTION_ROLLBACK
        = some demoRollbackDefaults
      ∧ demoRollbackDefaults.exit = InsertExit.insert_end
      ∧ (sqlite3SrcListLookup demoParse [{ zName := "t1" }]).1 = some demoT1
      ∧ demoT1.pIndex = [demoPk1] ∧ IsPrimaryKeyIndex demoPk1 = true
      ∧ demoRollbackDefaults.pParse.aOp.get? 11
          = some { opcode := OP_NoConflict, p1 := 1, p2 := -2, p3 := 6, p4 := P4_INT32 1 } := by
  decide

/-- Witness of C24 (as amended) on `INSERT OR ROLLBACK INTO t1 DEFAULT VALUES`: one write, and
the probe of the primary index. -/
theorem sqlite3Insert_defaultValues_witness :
    sqlite3Insert demoExtern demoParse [{ zName := "t1" }] none none ON_CONFLICT_ACTION_ROLLBACK
        = some demoRollbackDefaults
      ∧ ∃ cs : List Opcode,
          demoRollbackDefaults.pParse.ops = demoParse.ops ++ cs
          ∧ cs.count OP_IdxInsert + cs.count OP_IdxReplace = 1
          ∧ OP_NoConflict ∈ cs :=
  ⟨by decide,
    match (sqlite3Insert_defaultValues demoExtern demoParse [{ zName := "t1" }]
      ON_CONFLICT_ACTION_ROLLBACK demoRollbackDefaults demoT1 demoPk1 (by decide) (by decide)
      (by decide) rfl (by decide) rfl).1 with
    | ⟨cs, h1, h2, _, _, _, _, h7⟩ => ⟨cs, h1, h2, h7 rfl (by decide)⟩⟩

end DefaultValuesExamples

section ShiftRules

variable {r c : Int} {p q : Parse}

theorem shiftOp_opcode (r c : Int) (o : VdbeOp) : (shiftOp r c o).opcode = o.opcode := rfl

theorem shiftOp_p4 (r c : Int) (o : VdbeOp) : (shiftOp r c o).p4 = o.p4 := rfl

theorem shiftOp_p5 (r c : Int) (o : VdbeOp) : (shiftOp r c o).p5 = o.p5 := rfl

theorem changeLastOp_map (f g : VdbeOp → VdbeOp) (s : VdbeOp → VdbeOp)
    (hs : ∀ o, g (s o) = s (f o)) :
    ∀ l : List VdbeOp, changeLastOp g (l.map s) = (changeLastOp f l).map s
  | [] => rfl
  | [a] => by simp [changeLastOp, hs]
  | a :: b :: l => by
    have ih := changeLastOp_map f g s hs (b :: l)
    simp only [List.map_cons] at ih ⊢
    simp only [changeLastOp, List.map_cons, ih]

theorem changeOpAt_map (f g : VdbeOp → VdbeOp) (s : VdbeOp → VdbeOp) :
    ∀ (n : Nat) (l : List VdbeOp), (∀ o, l.get? n = some o → g (s o) = s (f o)) →
      changeOpAt g n (l.map s) = (changeOpAt f n l).map s
  | _, [], _ => by simp [changeOpAt]
  | 0, a :: l, h => by
    simp only [List.map_cons, changeOpAt]
    rw [h a rfl]
  | n + 1, a :: l, h => by
    simp only [List.map_cons, changeOpAt]
    rw [changeOpAt_map f g s n l (fun o ho => h o (by simpa using ho))]

/-- The instruction at the address at which `x` was emitted has a P2 that is no register and
no cursor, provided `x` has. -/
theorem role_at_append (l rest : List VdbeOp) (x : VdbeOp)
    (hx : (operandRoles x.opcode).2.1 = OperandRole.other) (aOp : List VdbeOp)
    (he : aOp = l ++ x :: rest) :
    ∀ o, aOp.get? l.length = some o → (operandRoles o.opcode).2.1 = OperandRole.other := by
  intro o ho
  rw [he, List.get?_eq_getElem?, List.getElem?_append_right (Nat.le_refl _)] at ho
  simp only [Nat.sub_self, List.getElem?_cons_zero, Option.some.injEq] at ho
  rw [← ho]
  exact hx

theorem Sim.len (h : Sim r c p q) : q.aOp.length = p.aOp.length := by
  rw [h.aOp, List.length_map]

theorem Sim.addr (h : Sim r c p q) : sqlite3VdbeCurrentAddr q = sqlite3VdbeCurrentAddr p :=
  h.len

theorem Sim.reg (h : Sim r c p q) (k : Nat) :
    (((q.nMem + k : Nat)) : Int) = (((p.nMem + k : Nat)) : Int) + r := by
  have := h.nMem
  push_cast
  omega

theorem Sim.cur (h : Sim r c p q) (k : Nat) :
    (((q.nTab + k : Nat)) : Int) = (((p.nTab + k : Nat)) : Int) + c := by
  have := h.nTab
  push_cast
  omega

theorem Sim.sim_addOp (op op' : VdbeOp) (ho : op' = shiftOp r c op) (h : Sim r c p q) :
    Sim r c (sqlite3VdbeAddOp p op) (sqlite3VdbeAddOp q op') :=
  ⟨h.db, h.user_session, h.nErr, h.zErrMsg, h.checkSchema, h.nMem, h.nTab, h.nested, h.pTriggerTab, h.pWith, h.mayAbort, h.isMultiWrite, h.pVdbe, by simp [sqlite3VdbeAddOp, h.aOp, ho], h.aLabel, h.changeCntOn, h.aColName⟩

theorem Sim.sim_addOp0 (op : Opcode) (ho : shiftOp r c { opcode := op } = { opcode := op })
    (h : Sim r c p q) : Sim r c (sqlite3VdbeAddOp0 p op) (sqlite3VdbeAddOp0 q op) :=
  Sim.sim_addOp _ _ ho.symm h

theorem Sim.sim_addOp1 (op : Opcode) (a a' : Int)
    (ho : shiftOp r c { opcode := op, p1 := a } = { opcode := op, p1 := a' })
    (h : Sim r c p q) : Sim r c (sqlite3VdbeAddOp1 p op a) (sqlite3VdbeAddOp1 q op a') :=
  Sim.sim_addOp _ _ ho.symm h

theorem Sim.sim_addOp2 (op : Opcode) (a b a' b' : Int)
    (ho : shiftOp r c { opcode := op, p1 := a, p2 := b } = { opcode := op, p1 := a', p2 := b' })
    (h : Sim r c p q) : Sim r c (sqlite3VdbeAddOp2 p op a b) (sqlite3VdbeAddOp2 q op a' b') :=
  Sim.sim_addOp _ _ ho.symm h

theorem Sim.sim_addOp3 (op : Opcode) (a b d a' b' d' : Int)
    (ho : shiftOp r c { opcode := op, p1 := a, p2 := b, p3 := d }
      = { opcode := op, p1 := a', p2 := b', p3 := d' })
    (h : Sim r c p q) :
    Sim r c (sqlite3VdbeAddOp3 p op a b d) (sqlite3VdbeAddOp3 q op a' b' d') :=
  Sim.sim_addOp _ _ ho.symm h

theorem Sim.sim_addOp4 (op : Opcode) (a b d a' b' d' : Int) (p4 : P4)
    (ho : shiftOp r c { opcode := op, p1 := a, p2 := b, p3 := d, p4 := p4 }
      = { opcode := op, p1 := a', p2 := b', p3 := d', p4 := p4 })
    (h : Sim r c p q) :
    Sim r c (sqlite3VdbeAddOp4 p op a b d p4) (sqlite3VdbeAddOp4 q op a' b' d' p4) :=
  Sim.sim_addOp _ _ ho.symm h

theorem Sim.sim_goto (iDest : Int) (h : Sim r c p q) :
    Sim r c (sqlite3VdbeGoto p iDest) (sqlite3VdbeGoto q iDest) :=
  Sim.sim_addOp _ _ rfl h

theorem Sim.sim_jumpHere (addr : Nat)
    (hrole : ∀ o, p.aOp.get? addr = some o → (operandRoles o.opcode).2.1 = OperandRole.other)
    (h : Sim r c p q) :
    Sim r c (sqlite3VdbeJumpHere p addr) (sqlite3VdbeJumpHere q addr) :=
  ⟨h.db, h.user_session, h.nErr, h.zErrMsg, h.checkSchema, h.nMem, h.nTab, h.nested, h.pTriggerTab, h.pWith, h.mayAbort, h.isMultiWrite, h.pVdbe, by
    simp only [sqlite3VdbeJumpHere]
    rw [h.len, h.aOp]
    refine changeOpAt_map _ _ _ _ _ (fun o ho => ?_)
    simp only [shiftOp, hrole o ho, shiftOperand], h.aLabel, h.changeCntOn, h.aColName⟩

theorem Sim.sim_changeP4 (v : P4) (h : Sim r c p q) :
    Sim r c (sqlite3VdbeChangeP4 p v) (sqlite3VdbeChangeP4 q v) :=
  ⟨h.db, h.user_session, h.nErr, h.zErrMsg, h.checkSchema, h.nMem, h.nTab, h.nested, h.pTriggerTab, h.pWith, h.mayAbort, h.isMultiWrite, h.pVdbe, by
    simp only [sqlite3VdbeChangeP4]
    rw [h.aOp]
    exact changeLastOp_map (fun o => { o with p4 := v }) (fun o => { o with p4 := v })
      (shiftOp r c) (fun _ => rfl) _, h.aLabel, h.changeCntOn, h.aColName⟩

theorem Sim.sim_changeP5 (v : FlagWord) (h : Sim r c p q) :
    Sim r c (sqlite3VdbeChangeP5 p v) (sqlite3VdbeChangeP5 q v) :=
  ⟨h.db, h.user_session, h.nErr, h.zErrMsg, h.checkSchema, h.nMem, h.nTab, h.nested, h.pTriggerTab, h.pWith, h.mayAbort, h.isMultiWrite, h.pVdbe, by
    simp only [sqlite3VdbeChangeP5]
    rw [h.aOp]
    exact changeLastOp_map (fun o => { o with p5 := v }) (fun o => { o with p5 := v })
      (shiftOp r c) (fun _ => rfl) _, h.aLabel, h.changeCntOn, h.aColName⟩

theorem Sim.sim_setP4KeyInfo (pIdx : Index) (h : Sim r c p q) :
    Sim r c (sqlite3VdbeSetP4KeyInfo p pIdx) (sqlite3VdbeSetP4KeyInfo q pIdx) :=
  Sim.sim_changeP4 _ h

/-- An `OP_FCopy` and the flags it gets in P3 (insert.c:768-774, 786-790, 807-811). -/
theorem Sim.sim_fcopy (a b a' b' v : Int) (ha : a' = a + r) (hb : b' = b + r)
    (h : Sim r c p q) :
    Sim r c (sqlite3VdbeChangeP3 (sqlite3VdbeAddOp2 p OP_FCopy a b) v)
      (sqlite3VdbeChangeP3 (sqlite3VdbeAddOp2 q OP_FCopy a' b') v) := by
  have e1 : sqlite3VdbeChangeP3 (sqlite3VdbeAddOp2 p OP_FCopy a b) v
      = sqlite3VdbeAddOp3 p OP_FCopy a b v := by
    simp [sqlite3VdbeChangeP3, sqlite3VdbeAddOp2, sqlite3VdbeAddOp3, sqlite3VdbeAddOp,
      changeLastOp_append_singleton]
  have e2 : sqlite3VdbeChangeP3 (sqlite3VdbeAddOp2 q OP_FCopy a' b') v
      = sqlite3VdbeAddOp3 q OP_FCopy a' b' v := by
    simp [sqlite3VdbeChangeP3, sqlite3VdbeAddOp2, sqlite3VdbeAddOp3, sqlite3VdbeAddOp,
      changeLastOp_append_singleton]
  rw [e1, e2]
  exact Sim.sim_addOp3 _ _ _ _ _ _ _ (by simp [shiftOp, operandRoles, shiftOperand, ha, hb]) h

theorem Sim.sim_makeLabel (h : Sim r c p q) :
    Sim r c (sqlite3VdbeMakeLabel p).2 (sqlite3VdbeMakeLabel q).2 :=
  ⟨h.db, h.user_session, h.nErr, h.zErrMsg, h.checkSchema, h.nMem, h.nTab, h.nested, h.pTriggerTab, h.pWith, h.mayAbort, h.isMultiWrite, h.pVdbe, h.aOp, by simp [sqlite3VdbeMakeLabel, h.aLabel], h.changeCntOn, h.aColName⟩

theorem Sim.label (h : Sim r c p q) :
    (sqlite3VdbeMakeLabel q).1 = (sqlite3VdbeMakeLabel p).1 := by
  simp [sqlite3VdbeMakeLabel, h.aLabel]

theorem Sim.sim_resolveLabel (x : Int) (h : Sim r c p q) :
    Sim r c (sqlite3VdbeResolveLabel p x) (sqlite3VdbeResolveLabel q x) :=
  ⟨h.db, h.user_session, h.nErr, h.zErrMsg, h.checkSchema, h.nMem, h.nTab, h.nested, h.pTriggerTab, h.pWith, h.mayAbort, h.isMultiWrite, h.pVdbe, h.aOp, by simp [sqlite3VdbeResolveLabel, h.aLabel, h.len], h.changeCntOn, h.aColName⟩

theorem Sim.sim_mayAbort (h : Sim r c p q) :
    Sim r c (sqlite3MayAbort p) (sqlite3MayAbort q) :=
  ⟨h.db, h.user_session, h.nErr, h.zErrMsg, h.checkSchema, h.nMem, h.nTab, h.nested, h.pTriggerTab, h.pWith, rfl, h.isMultiWrite, h.pVdbe, h.aOp, h.aLabel, h.changeCntOn, h.aColName⟩

theorem Sim.sim_multiWrite (h : Sim r c p q) :
    Sim r c (sqlite3MultiWrite p) (sqlite3MultiWrite q) :=
  ⟨h.db, h.user_session, h.nErr, h.zErrMsg, h.checkSchema, h.nMem, h.nTab, h.nested, h.pTriggerTab, h.pWith, h.mayAbort, rfl, h.pVdbe, h.aOp, h.aLabel, h.changeCntOn, h.aColName⟩

theorem Sim.sim_beginWrite (b : Bool) (h : Sim r c p q) :
    Sim r c (sqlite3BeginWriteOperation p b) (sqlite3BeginWriteOperation q b) :=
  ⟨h.db, h.user_session, h.nErr, h.zErrMsg, h.checkSchema, h.nMem, h.nTab, h.nested, h.pTriggerTab, h.pWith, h.mayAbort, by simp [sqlite3BeginWriteOperation, h.isMultiWrite], h.pVdbe, h.aOp, h.aLabel, h.changeCntOn, h.aColName⟩

theorem Sim.sim_setCkBase (x y : Int) (h : Sim r c p q) :
    Sim r c (p.setCkBase x) (q.setCkBase y) :=
  ⟨h.db, h.user_session, h.nErr, h.zErrMsg, h.checkSchema, h.nMem, h.nTab, h.nested, h.pTriggerTab, h.pWith, h.mayAbort, h.isMultiWrite, h.pVdbe, h.aOp, h.aLabel, h.changeCntOn, h.aColName⟩

theorem Sim.sim_allocMem (n : Nat) (h : Sim r c p q) :
    Sim r c (p.allocMem n) (q.allocMem n) :=
  ⟨h.db, h.user_session, h.nErr, h.zErrMsg, h.checkSchema, by simpa [Parse.allocMem] using h.reg n, h.nTab, h.nested, h.pTriggerTab, h.pWith, h.mayAbort, h.isMultiWrite, h.pVdbe, h.aOp, h.aLabel, h.changeCntOn, h.aColName⟩

theorem Sim.sim_setNTab (n n' : Nat) (hn : (n' : Int) = (n : Int) + c) (h : Sim r c p q) :
    Sim r c (p.setNTab n) (q.setNTab n') :=
  ⟨h.db, h.user_session, h.nErr, h.zErrMsg, h.checkSchema, h.nMem, hn, h.nested, h.pTriggerTab, h.pWith, h.mayAbort, h.isMultiWrite, h.pVdbe, h.aOp, h.aLabel, h.changeCntOn, h.aColName⟩

theorem Sim.sim_getTempReg (h : Sim r c p q) :
    Sim r c (sqlite3GetTempReg p).2 (sqlite3GetTempReg q).2 :=
  ⟨h.db, h.user_session, h.nErr, h.zErrMsg, h.checkSchema, by simpa [sqlite3GetTempReg] using h.reg 1, h.nTab, h.nested, h.pTriggerTab, h.pWith, h.mayAbort, h.isMultiWrite, h.pVdbe, h.aOp, h.aLabel, h.changeCntOn, h.aColName⟩

theorem Sim.sim_getTempRange (n : Nat) (h : Sim r c p q) :
    Sim r c (sqlite3GetTempRange p n).2 (sqlite3GetTempRange q n).2 :=
  ⟨h.db, h.user_session, h.nErr, h.zErrMsg, h.checkSchema, by simpa [sqlite3GetTempRange] using h.reg n, h.nTab, h.nested, h.pTriggerTab, h.pWith, h.mayAbort, h.isMultiWrite, h.pVdbe, h.aOp, h.aLabel, h.changeCntOn, h.aColName⟩

theorem Sim.sim_releaseTempReg (x y : Int) (h : Sim r c p q) :
    Sim r c (sqlite3ReleaseTempReg p x) (sqlite3ReleaseTempReg q y) := h

theorem Sim.sim_releaseTempRange (x y : Int) (n : Nat) (h : Sim r c p q) :
    Sim r c (sqlite3ReleaseTempRange p x n) (sqlite3ReleaseTempRange q y n) := h

theorem Sim.tempReg (h : Sim r c p q) :
    (sqlite3GetTempReg q).1 = (sqlite3GetTempReg p).1 + r := by
  have := h.nMem
  simp only [sqlite3GetTempReg]
  omega

theorem Sim.tempRange (h : Sim r c p q) (n : Nat) :
    (sqlite3GetTempRange q n).1 = (sqlite3GetTempRange p n).1 + r := by
  have := h.nMem
  simp only [sqlite3GetTempRange]
  omega

theorem Sim.sim_vdbe (h : Sim r c p q) : Sim r c (sqlite3GetVdbe p) (sqlite3GetVdbe q) := by
  unfold sqlite3GetVdbe
  rw [h.pVdbe]
  split_ifs
  · exact h
  · exact ⟨h.db, h.user_session, h.nErr, h.zErrMsg, h.checkSchema, h.nMem, h.nTab, h.nested, h.pTriggerTab, h.pWith, h.mayAbort, h.isMultiWrite, rfl, by simp [h.aOp, shiftOp, operandRoles, shiftOperand], h.aLabel, h.changeCntOn, h.aColName⟩

theorem Sim.sim_errorMsg (z : String) (h : Sim r c p q) :
    Sim r c (sqlite3ErrorMsg p z) (sqlite3ErrorMsg q z) :=
  ⟨h.db, h.user_session, by simp [sqlite3ErrorMsg, h.nErr], rfl, h.checkSchema, h.nMem, h.nTab, h.nested, h.pTriggerTab, h.pWith, h.mayAbort, h.isMultiWrite, h.pVdbe, h.aOp, h.aLabel, h.changeCntOn, h.aColName⟩

theorem Sim.sim_if_then_else {a b a' b' : Parse} {d : Prop} [Decidable d]
    (ha : Sim r c a a') (hb : Sim r c b b') :
    Sim r c (if d then a else b) (if d then a' else b') := by
  split_ifs
  · exact ha
  · exact hb

theorem Sim.sim_foldl {α : Type} (f g : Parse → α → Parse)
    (hf : ∀ p q i, Sim r c p q → Sim r c (f p i) (g q i)) :
    ∀ (l : List α) (p q : Parse), Sim r c p q → Sim r c (l.foldl f p) (l.foldl g q)
  | [], _, _, h => h
  | a :: l, p, q, h => Sim.sim_foldl f g hf l _ _ (hf p q a h)

end ShiftRules

section ShiftConstraints

variable {r c : Int} {p q : Parse}

theorem sqlite3TableAffinity_sim (pTab : Table) (iReg iReg' : Int) (hi : iReg' = iReg + r)
    (h0 : iReg ≠ 0) (h0' : iReg' ≠ 0) (h : Sim r c p q) :
    Sim r c (sqlite3TableAffinity p pTab iReg).2 (sqlite3TableAffinity q pTab iReg').2 := by
  unfold sqlite3TableAffinity
  simp only [h0, h0', ne_eq, not_false_eq_true, if_true]
  split_ifs
  · exact h
  · exact Sim.sim_addOp4 _ _ _ _ _ _ _ _
      (by simp [shiftOp, operandRoles, shiftOperand, hi]) h

theorem sqlite3TableAffinity_table_eq (p q : Parse) (pTab : Table) (iReg iReg' : Int) :
    (sqlite3TableAffinity q pTab iReg').1 = (sqlite3TableAffinity p pTab iReg).1 := by
  rw [sqlite3TableAffinity_table, sqlite3TableAffinity_table]

theorem sqlite3HaltConstraint_sim (errCode : Int) (onError : on_conflict_action) (p4 : String)
    (p5 : OpFlag) (h : Sim r c p q) :
    Sim r c (sqlite3HaltConstraint p errCode onError p4 p5)
      (sqlite3HaltConstraint q errCode onError p4 p5) := by
  unfold sqlite3HaltConstraint
  simp only []
  apply Sim.sim_changeP5
  apply Sim.sim_addOp4 _ _ _ _ _ _ _ _ (by simp [shiftOp, operandRoles, shiftOperand])
  split_ifs
  · exact Sim.sim_mayAbort h
  · exact h

theorem sqlite3UniqueConstraint_sim (onError : on_conflict_action) (pIdx : Index)
    (h : Sim r c p q) :
    Sim r c (sqlite3UniqueConstraint p onError pIdx) (sqlite3UniqueConstraint q onError pIdx) :=
  sqlite3HaltConstraint_sim _ _ _ _ h

theorem sqlite3GenerateConstraintChecks_notNull_sim (pTab : Table) (regNewData regNewData' : Int)
    (overrideError : on_conflict_action) (ignoreDest : Int) (aiChng : Option (List Int))
    (i : Nat) (hr : regNewData' = regNewData + r) (h : Sim r c p q) :
    Sim r c
      (sqlite3GenerateConstraintChecks_notNull p pTab regNewData overrideError ignoreDest
        aiChng i)
      (sqlite3GenerateConstraintChecks_notNull q pTab regNewData' overrideError ignoreDest
        aiChng i) := by
  unfold sqlite3GenerateConstraintChecks_notNull
  simp only []
  apply Sim.sim_if_then_else h
  apply Sim.sim_if_then_else h
  apply Sim.sim_if_then_else h
  have hhalt : ∀ oe : on_conflict_action, Sim r c
      (sqlite3VdbeChangeP5 (sqlite3VdbeChangeP4
        (sqlite3VdbeAddOp3 (if oe = ON_CONFLICT_ACTION_ABORT then sqlite3MayAbort p else p)
          OP_HaltIfNull SQLITE_CONSTRAINT_NOTNULL oe.toInt (regNewData + 1 + i))
        (P4_STRING (pTab.zName ++ "." ++ (pTab.aCol.getD i default).zName)))
        [P5_ConstraintNotNull])
      (sqlite3VdbeChangeP5 (sqlite3VdbeChangeP4
        (sqlite3VdbeAddOp3 (if oe = ON_CONFLICT_ACTION_ABORT then sqlite3MayAbort q else q)
          OP_HaltIfNull SQLITE_CONSTRAINT_NOTNULL oe.toInt (regNewData' + 1 + i))
        (P4_STRING (pTab.zName ++ "." ++ (pTab.aCol.getD i default).zName)))
        [P5_ConstraintNotNull]) := by
    intro oe
    apply Sim.sim_changeP5
    apply Sim.sim_changeP4
    refine Sim.sim_addOp3 _ _ _ _ _ _ _ ?_ (Sim.sim_if_then_else (Sim.sim_mayAbort h) h)
    simp [shiftOp, operandRoles, shiftOperand, hr]
    omega
  split
  · exact hhalt _
  · exact hhalt _
  · exact hhalt _
  · refine Sim.sim_addOp2 _ _ _ _ _ ?_ h
    simp [shiftOp, operandRoles, shiftOperand, hr]
    omega
  · rw [h.addr]
    apply Sim.sim_jumpHere
    · exact role_at_append p.aOp [_] { opcode := OP_NotNull, p1 := regNewData + 1 + i } rfl _
        (by simp [sqlite3VdbeAddOp4, sqlite3VdbeAddOp1, sqlite3VdbeAddOp]; rfl)
    · refine Sim.sim_addOp4 _ _ _ _ _ _ _ _ ?_ (Sim.sim_addOp1 _ _ _ ?_ h)
      · simp [shiftOp, operandRoles, shiftOperand, hr]
        omega
      · simp [shiftOp, operandRoles, shiftOperand, hr]
        omega

theorem sqlite3GenerateConstraintChecks_notNullLoop_sim (pTab : Table)
    (regNewData regNewData' : Int) (overrideError : on_conflict_action) (ignoreDest : Int)
    (aiChng : Option (List Int)) (hr : regNewData' = regNewData + r) (h : Sim r c p q) :
    Sim r c
      (sqlite3GenerateConstraintChecks_notNullLoop p pTab regNewData overrideError ignoreDest
        aiChng)
      (sqlite3GenerateConstraintChecks_notNullLoop q pTab regNewData' overrideError ignoreDest
        aiChng) :=
  Sim.sim_foldl _ _
    (fun _ _ i hs => sqlite3GenerateConstraintChecks_notNull_sim pTab regNewData regNewData'
      overrideError ignoreDest aiChng i hr hs) _ _ _ h

theorem sqlite3GenerateConstraintChecks_check_sim (pTab : Table) (ignoreDest : Int)
    (aiChng : Option (List Int)) :
    ∀ (l : List ExprList_item) (onError : on_conflict_action) (p q : Parse), Sim r c p q →
      Sim r c (sqlite3GenerateConstraintChecks_check pTab ignoreDest aiChng l onError p)
        (sqlite3GenerateConstraintChecks_check pTab ignoreDest aiChng l onError q) := by
  intro l
  induction l with
  | nil => intro onError p q h; exact h
  | cons item rest ih =>
    intro onError p q h
    unfold sqlite3GenerateConstraintChecks_check
    simp only []
    rw [h.label]
    have hm := Sim.sim_makeLabel h
    generalize (sqlite3VdbeMakeLabel p).1 = allOk
    generalize (sqlite3VdbeMakeLabel p).2 = p1 at hm
    generalize (sqlite3VdbeMakeLabel q).2 = q1 at hm
    have ha : Sim r c
        (sqlite3VdbeAddOp p1
          { opcode := CALL_sqlite3ExprIfTrue, p2 := allOk, p4 := P4_EXPR (some item.pExpr),
            p5 := [SQLITE_JUMPIFNULL] })
        (sqlite3VdbeAddOp q1
          { opcode := CALL_sqlite3ExprIfTrue, p2 := allOk, p4 := P4_EXPR (some item.pExpr),
            p5 := [SQLITE_JUMPIFNULL] }) :=
      Sim.sim_addOp _ _ rfl hm
    split_ifs
    all_goals first
      | exact ih _ _ _ h
      | exact ih _ _ _ (Sim.sim_resolveLabel _ (Sim.sim_goto _ ha))
      | exact ih _ _ _ (Sim.sim_resolveLabel _ (sqlite3HaltConstraint_sim _ _ _ _ ha))

theorem sqlite3GenerateConstraintChecks_checks_sim (pTab : Table)
    (regNewData regNewData' : Int) (overrideError : on_conflict_action) (ignoreDest : Int)
    (aiChng : Option (List Int)) (h : Sim r c p q) :
    Sim r c
      (sqlite3GenerateConstraintChecks_checks p pTab regNewData overrideError ignoreDest aiChng)
      (sqlite3GenerateConstraintChecks_checks q pTab regNewData' overrideError ignoreDest
        aiChng) := by
  unfold sqlite3GenerateConstraintChecks_checks
  simp only []
  rw [h.user_session]
  split_ifs
  all_goals first
    | exact h
    | exact sqlite3GenerateConstraintChecks_check_sim pTab ignoreDest aiChng _ _ _ _
        (Sim.sim_setCkBase _ _ h)

theorem sqlite3GenerateConstraintChecks_uniqueStart_sim (pTab : Table)
    (regNewData regNewData' : Int) (overrideError : on_conflict_action) (ignoreDest : Int)
    (aiChng : Option (List Int)) (hr : regNewData' = regNewData + r) (h : Sim r c p q) :
    Sim r c
      (sqlite3GenerateConstraintChecks_uniqueStart p pTab regNewData overrideError ignoreDest
        aiChng).pParse
      (sqlite3GenerateConstraintChecks_uniqueStart q pTab regNewData' overrideError ignoreDest
        aiChng).pParse := by
  unfold sqlite3GenerateConstraintChecks_uniqueStart
  simp only []
  exact sqlite3GenerateConstraintChecks_checks_sim _ _ _ _ _ _
    (sqlite3GenerateConstraintChecks_notNullLoop_sim _ _ _ _ _ _ hr (Sim.sim_vdbe h))

theorem sqlite3GenerateConstraintChecks_entry_sim (pTab : Table) (pIdx : Index)
    (regNewData regNewData' regIdx regIdx' : Int) (hr : regNewData' = regNewData + r)
    (hi : regIdx' = regIdx + r) :
    ∀ (l : List Int) (i : Nat) (p q : Parse), Sim r c p q →
      Sim r c (sqlite3GenerateConstraintChecks_entry pTab pIdx regNewData regIdx l i p)
        (sqlite3GenerateConstraintChecks_entry pTab pIdx regNewData' regIdx' l i q) := by
  intro l
  induction l with
  | nil => intro i p q h; exact h
  | cons x rest ih =>
    intro i p q h
    unfold sqlite3GenerateConstraintChecks_entry
    simp only []
    apply ih
    split_ifs
    · apply Sim.sim_setCkBase
      apply Sim.sim_addOp4 _ _ _ _ _ _ _ _
        (by simp [shiftOp, operandRoles, shiftOperand, hi]; omega)
      exact Sim.sim_setCkBase _ _ h
    · exact Sim.sim_addOp2 _ _ _ _ _
        (by simp [shiftOp, operandRoles, shiftOperand, hi, hr]; omega) h
    · exact Sim.sim_addOp2 _ _ _ _ _
        (by simp [shiftOp, operandRoles, shiftOperand, hi, hr]; omega) h

theorem sqlite3GenerateConstraintChecks_pkCols_sim (pIdx : Index)
    (iThisCur iThisCur' regR regR' : Int) (hc : iThisCur' = iThisCur + c)
    (hr : regR' = regR + r) :
    ∀ (l : List Int) (i : Nat) (p q : Parse), Sim r c p q →
      Sim r c (sqlite3GenerateConstraintChecks_pkCols pIdx iThisCur regR l i p)
        (sqlite3GenerateConstraintChecks_pkCols pIdx iThisCur' regR' l i q) := by
  intro l
  induction l with
  | nil => intro i p q h; exact h
  | cons x rest ih =>
    intro i p q h
    unfold sqlite3GenerateConstraintChecks_pkCols
    simp only []
    apply ih
    exact Sim.sim_addOp3 _ _ _ _ _ _ _
      (by simp [shiftOp, operandRoles, shiftOperand, hc, hr]; omega) h

end ShiftConstraints

section ShiftUnique

variable {r c : Int} {p q : Parse}

theorem ShiftRegs.getD (a b : List Int) (h : ShiftRegs r a b) (ix : Nat) :
    (a.getD ix 0 = 0 ∧ b.getD ix 0 = 0)
      ∨ (a.getD ix 0 ≠ 0 ∧ b.getD ix 0 ≠ 0 ∧ b.getD ix 0 = a.getD ix 0 + r) := by
  obtain ⟨hb, hx⟩ := h
  subst hb
  by_cases hix : ix < a.length
  · right
    have hm : a[ix] ∈ a := List.getElem_mem _
    have := hx _ hm
    simp only [List.getD_eq_getElem?_getD, List.getElem?_eq_getElem hix, List.getElem?_map,
      Option.map_some', Option.getD_some]
    exact ⟨by omega, by omega, trivial⟩
  · left
    have h1 : a.length ≤ ix := Nat.le_of_not_lt hix
    simp [List.getD_eq_getElem?_getD, List.getElem?_eq_none h1]

theorem sqlite3GenerateConstraintChecks_record_sim (aRegIdx aRegIdx' : List Int)
    (regNewData regNewData' : Int) (overrideError : on_conflict_action) (pIdx : Index)
    (ix : Nat) (s t : UniqueState) (hr : regNewData' = regNewData + r)
    (hx : aRegIdx'.getD ix 0 = aRegIdx.getD ix 0 + r)
    (h0 : regNewData + 1 ≠ 0) (h0' : regNewData' + 1 ≠ 0)
    (h : SimU r c s t) :
    SimUL r (sqlite3GenerateConstraintChecks_record aRegIdx regNewData overrideError pIdx ix s).1
        (sqlite3GenerateConstraintChecks_record aRegIdx' regNewData' overrideError pIdx ix t).1
      ∧ SimU r c
        (sqlite3GenerateConstraintChecks_record aRegIdx regNewData overrideError pIdx ix s).2
        (sqlite3GenerateConstraintChecks_record aRegIdx' regNewData' overrideError pIdx ix
          t).2 := by
  unfold sqlite3GenerateConstraintChecks_record
  simp only []
  generalize aRegIdx'.getD ix 0 = a' at hx ⊢
  generalize aRegIdx.getD ix 0 = a at hx ⊢
  subst hx
  have h1 : SimU r c
      (if s.bAffinityDone = false then
        { pParse := (sqlite3TableAffinity s.pParse s.pTab (regNewData + 1)).2,
          pTab := (sqlite3TableAffinity s.pParse s.pTab (regNewData + 1)).1,
          bAffinityDone := true, seenReplace := s.seenReplace }
      else s)
      (if t.bAffinityDone = false then
        { pParse := (sqlite3TableAffinity t.pParse t.pTab (regNewData' + 1)).2,
          pTab := (sqlite3TableAffinity t.pParse t.pTab (regNewData' + 1)).1,
          bAffinityDone := true, seenReplace := t.seenReplace }
      else t) := by
    rw [h.bAffinityDone, h.pTab]
    split_ifs
    · exact ⟨sqlite3TableAffinity_sim _ _ _ (by omega) h0 h0' h.pParse,
        sqlite3TableAffinity_table_eq _ _ _ _ _, rfl, h.seenReplace⟩
    · exact h
  generalize (if s.bAffinityDone = false then _ else s) = s1 at h1 ⊢
  generalize (if t.bAffinityDone = false then _ else t) = t1 at h1 ⊢
  rw [h1.pTab, h1.pParse.label]
  have h2 := Sim.sim_makeLabel h1.pParse
  generalize (sqlite3VdbeMakeLabel s1.pParse).1 = ok at h2 ⊢
  generalize (sqlite3VdbeMakeLabel s1.pParse).2 = p2 at h2 ⊢
  generalize (sqlite3VdbeMakeLabel t1.pParse).2 = q2 at h2 ⊢
  generalize hp4 : sqlite3GenerateConstraintChecks_entry s1.pTab pIdx regNewData _ _ _ _ = p4
  generalize hq4 : sqlite3GenerateConstraintChecks_entry s1.pTab pIdx regNewData' _ _ _ _ = q4
  have h4 : Sim r c p4 q4 := by
    rw [← hp4, ← hq4]
    apply sqlite3GenerateConstraintChecks_entry_sim _ _ _ _ _ _ hr (by omega)
    apply Sim.sim_if_then_else _ h2
    apply Sim.sim_setCkBase
    apply Sim.sim_addOp _ _ (by simp [shiftOp, operandRoles, shiftOperand])
    apply Sim.sim_setCkBase
    exact Sim.sim_addOp2 _ _ _ _ _ (by simp [shiftOp, operandRoles, shiftOperand]) h2
  clear hp4 hq4
  rw [h4.label]
  have h5 := Sim.sim_makeLabel h4
  generalize (sqlite3VdbeMakeLabel p4).1 = skip at h5 ⊢
  generalize (sqlite3VdbeMakeLabel p4).2 = p5 at h5 ⊢
  generalize (sqlite3VdbeMakeLabel q4).2 = q5 at h5 ⊢
  refine ⟨⟨rfl, by simp only []; omega, ?_, rfl, rfl⟩,
    ⟨?_, rfl, h1.bAffinityDone, h1.seenReplace⟩⟩
  · simp only [Bool.and_eq_true, decide_eq_true_eq]
    rintro ⟨⟨hpk, hk, -⟩, -⟩
    rw [if_pos ⟨hpk, hk⟩, if_pos ⟨hpk, hk⟩]
    omega
  · simp only []
    apply Sim.sim_if_then_else
    · apply Sim.sim_addOp3 _ _ _ _ _ _ _ (by simp [shiftOp, operandRoles, shiftOperand, hr]; omega)
      by_cases hint : (IsPrimaryKeyIndex pIdx = true ∧ pIdx.nKeyCol = 1 ∧
          (s1.pTab.zColAff.getD []).getD (pIdx.aiColumn.getD 0 0).toNat NUL = 'D')
      · simp only [hint, and_self, decide_True, if_true]
        apply Sim.sim_resolveLabel
        apply Sim.sim_addOp2 _ _ _ _ _ (by simp [shiftOp, operandRoles, shiftOperand, hr]; omega)
        apply Sim.sim_if_then_else _ h5
        exact Sim.sim_addOp2 _ _ _ _ _ (by simp [shiftOp, operandRoles, shiftOperand, hr]; omega)
          h5
      · simp only [hint, decide_False, if_false, Bool.false_eq_true]
        exact h4
    · apply Sim.sim_if_then_else _ h4
      exact Sim.sim_addOp3 _ _ _ _ _ _ _
        (by simp [shiftOp, operandRoles, shiftOperand]; omega) h4

theorem sqlite3GenerateConstraintChecks_probe_sim (iIdxCur iIdxCur' : Int)
    (onError : on_conflict_action) (pPk : Index) (pkIx : Nat) (pIdx : Index) (ix : Nat)
    (U V : UniqueLocals) (hc : iIdxCur' = iIdxCur + c) (hU : SimUL r U V) (h : Sim r c p q) :
    (sqlite3GenerateConstraintChecks_probe iIdxCur' 0 onError pPk pkIx pIdx ix V q).1
        = (sqlite3GenerateConstraintChecks_probe iIdxCur 0 onError pPk pkIx pIdx ix U p).1 + r
      ∧ Sim r c (sqlite3GenerateConstraintChecks_probe iIdxCur 0 onError pPk pkIx pIdx ix U p).2
        (sqlite3GenerateConstraintChecks_probe iIdxCur' 0 onError pPk pkIx pIdx ix V q).2 := by
  unfold sqlite3GenerateConstraintChecks_probe
  simp only [ne_eq, not_true_eq_false, decide_False, Bool.false_eq_true, false_or, false_and,
    if_false]
  rw [hU.table_ipk_autoinc, hU.uniqueByteCodeNeeded, hU.addrUniqueOk]
  have h1 : Sim r c
      (if U.table_ipk_autoinc = true then sqlite3VdbeAddOp2 p OP_IsNull U.reg_pk U.addrUniqueOk
        else p)
      (if U.table_ipk_autoinc = true then sqlite3VdbeAddOp2 q OP_IsNull V.reg_pk U.addrUniqueOk
        else q) := by
    split_ifs with ha
    · exact Sim.sim_addOp2 _ _ _ _ _
        (by simp [shiftOp, operandRoles, shiftOperand, hU.reg_pk ha]) h
    · exact h
  generalize (if U.table_ipk_autoinc = true then sqlite3VdbeAddOp2 p _ _ _ else p) = p1 at h1 ⊢
  generalize (if U.table_ipk_autoinc = true then sqlite3VdbeAddOp2 q _ _ _ else q) = q1 at h1 ⊢
  have h2 : Sim r c
      (if U.uniqueByteCodeNeeded = true then
        sqlite3VdbeAddOp4 p1 OP_NoConflict (iIdxCur + ix) U.addrUniqueOk U.regIdx
          (P4_INT32 pIdx.nKeyCol)
      else p1)
      (if U.uniqueByteCodeNeeded = true then
        sqlite3VdbeAddOp4 q1 OP_NoConflict (iIdxCur' + ix) U.addrUniqueOk V.regIdx
          (P4_INT32 pIdx.nKeyCol)
      else q1) := by
    apply Sim.sim_if_then_else _ h1
    exact Sim.sim_addOp4 _ _ _ _ _ _ _ _
      (by simp [shiftOp, operandRoles, shiftOperand, hU.regIdx, hc]; omega) h1
  generalize (if U.uniqueByteCodeNeeded = true then sqlite3VdbeAddOp4 p1 _ _ _ _ _ else p1)
    = p2 at h2 ⊢
  generalize (if U.uniqueByteCodeNeeded = true then sqlite3VdbeAddOp4 q1 _ _ _ _ _ else q1)
    = q2 at h2 ⊢
  by_cases hpk : ix = pkIx
  · simp only [hpk, if_true, ne_eq, not_true_eq_false, if_false]
    refine ⟨hU.regIdx, ?_⟩
    split_ifs
    · exact h2
    · exact h2
  · simp only [hpk, if_false, ne_eq, not_false_eq_true, if_true]
    refine ⟨Sim.tempRange h2 _, ?_⟩
    apply Sim.sim_if_then_else _ (Sim.sim_getTempRange _ h2)
    exact sqlite3GenerateConstraintChecks_pkCols_sim _ _ _ _ _ (by omega) (Sim.tempRange h2 _)
      _ _ _ _ (Sim.sim_getTempRange _ h2)

theorem sqlite3GenerateConstraintChecks_resolve_sim (ext : Extern) (pTab : Table)
    (iDataCur iIdxCur iDataCur' iIdxCur' : Int) (ignoreDest : Int)
    (onError : on_conflict_action) (pPk : Index) (pkIx : Nat) (pIdx : Index) (ix : Nat)
    (U V : UniqueLocals) (regR regR' : Int) (seenReplace : Int)
    (hd : iDataCur' = iDataCur + c) (hc : iIdxCur' = iIdxCur + c) (hR : regR' = regR + r)
    (hU : SimUL r U V) (h : Sim r c p q) :
    (sqlite3GenerateConstraintChecks_resolve ext pTab iDataCur' iIdxCur' ignoreDest onError pPk
        pkIx pIdx ix V regR' seenReplace q).2
        = (sqlite3GenerateConstraintChecks_resolve ext pTab iDataCur iIdxCur ignoreDest onError
          pPk pkIx pIdx ix U regR seenReplace p).2
      ∧ Sim r c
        (sqlite3GenerateConstraintChecks_resolve ext pTab iDataCur iIdxCur ignoreDest onError pPk
          pkIx pIdx ix U regR seenReplace p).1
        (sqlite3GenerateConstraintChecks_resolve ext pTab iDataCur' iIdxCur' ignoreDest onError
          pPk pkIx pIdx ix V regR' seenReplace q).1 := by
  unfold sqlite3GenerateConstraintChecks_resolve
  simp only [sqlite3ReleaseTempRange, ite_self]
  rw [hU.addrUniqueOk]
  have hus : (sqlite3MultiWrite q).user_session = (sqlite3MultiWrite p).user_session :=
    (Sim.sim_multiWrite h).user_session
  cases onError
  all_goals simp only []
  all_goals refine ⟨trivial, Sim.sim_resolveLabel _ ?_⟩
  all_goals first
    | exact sqlite3UniqueConstraint_sim _ _ h
    | exact h
    | exact Sim.sim_goto _ h
    | exact Sim.sim_addOp _ _
        (by simp [shiftOp, operandRoles, shiftOperand, hd, hc, hR, hus])
        (Sim.sim_multiWrite h)

theorem sqlite3GenerateConstraintChecks_unique_sim (ext : Extern) (aRegIdx aRegIdx' : List Int)
    (iDataCur iIdxCur regNewData iDataCur' iIdxCur' regNewData' : Int) (pkChng : Bool)
    (overrideError : on_conflict_action) (ignoreDest : Int) (pPk : Index) (pkIx nIndex : Nat)
    (pIdx : Index) (ix : Nat) (s t : UniqueState) (ha : ShiftRegs r aRegIdx aRegIdx')
    (hd : iDataCur' = iDataCur + c) (hc : iIdxCur' = iIdxCur + c)
    (hr : regNewData' = regNewData + r) (h0 : 0 < regNewData) (h0' : 0 < regNewData')
    (h : SimU r c s t) :
    SimU r c
      (sqlite3GenerateConstraintChecks_unique ext aRegIdx iDataCur iIdxCur regNewData 0 pkChng
        overrideError ignoreDest pPk pkIx nIndex pIdx ix s)
      (sqlite3GenerateConstraintChecks_unique ext aRegIdx' iDataCur' iIdxCur' regNewData' 0
        pkChng overrideError ignoreDest pPk pkIx nIndex pIdx ix t) := by
  unfold sqlite3GenerateConstraintChecks_unique
  simp only [ne_eq, not_true_eq_false, decide_False, Bool.false_eq_true, false_and, if_false]
  rcases ShiftRegs.getD _ _ ha ix with ⟨e1, e2⟩ | ⟨e1, e2, e3⟩
  · rw [if_pos e1, if_pos e2]
    exact h
  · rw [if_neg e1, if_neg e2]
    obtain ⟨hU, hS⟩ := sqlite3GenerateConstraintChecks_record_sim aRegIdx aRegIdx' regNewData
      regNewData' overrideError pIdx ix s t hr e3 (by omega) (by omega) h
    generalize sqlite3GenerateConstraintChecks_record aRegIdx regNewData overrideError pIdx ix s
      = R at hU hS ⊢
    generalize sqlite3GenerateConstraintChecks_record aRegIdx' regNewData' overrideError pIdx ix
      t = R' at hU hS ⊢
    rw [hS.pTab, hS.pParse.user_session, hU.addrUniqueOk, hS.seenReplace]
    generalize (if overrideError ≠ ON_CONFLICT_ACTION_DEFAULT then overrideError
      else if pIdx.onError = ON_CONFLICT_ACTION_DEFAULT then ON_CONFLICT_ACTION_ABORT
      else pIdx.onError) = oe
    split_ifs
    all_goals first
      | exact ⟨Sim.sim_resolveLabel _ hS.pParse, rfl, hS.bAffinityDone, rfl⟩
      | skip
    all_goals
      obtain ⟨hp1, hp2⟩ := sqlite3GenerateConstraintChecks_probe_sim iIdxCur iIdxCur'
        oe pPk pkIx pIdx ix R.1 R'.1 hc hU hS.pParse
      obtain ⟨hq1, hq2⟩ := sqlite3GenerateConstraintChecks_resolve_sim ext R.2.pTab iDataCur
        iIdxCur iDataCur' iIdxCur' ignoreDest oe pPk pkIx pIdx ix R.1 R'.1 _ _ R.2.seenReplace hd hc hp1 hU hp2
      exact ⟨hq2, rfl, hS.bAffinityDone, hq1⟩

theorem sqlite3GenerateConstraintChecks_uniqueLoop_sim (ext : Extern)
    (aRegIdx aRegIdx' : List Int)
    (iDataCur iIdxCur regNewData iDataCur' iIdxCur' regNewData' : Int) (pkChng : Bool)
    (overrideError : on_conflict_action) (ignoreDest : Int) (pPk : Index) (pkIx nIndex : Nat)
    (ha : ShiftRegs r aRegIdx aRegIdx') (hd : iDataCur' = iDataCur + c)
    (hc : iIdxCur' = iIdxCur + c) (hr : regNewData' = regNewData + r) (h0 : 0 < regNewData)
    (h0' : 0 < regNewData') :
    ∀ (l : List Index) (ix : Nat) (s t : UniqueState), SimU r c s t →
      SimU r c
        (sqlite3GenerateConstraintChecks_uniqueLoop ext aRegIdx iDataCur iIdxCur regNewData 0
          pkChng overrideError ignoreDest pPk pkIx nIndex l ix s)
        (sqlite3GenerateConstraintChecks_uniqueLoop ext aRegIdx' iDataCur' iIdxCur' regNewData'
          0 pkChng overrideError ignoreDest pPk pkIx nIndex l ix t) := by
  intro l
  induction l with
  | nil => intro ix s t h; exact h
  | cons pIdx rest ih =>
    intro ix s t h
    unfold sqlite3GenerateConstraintChecks_uniqueLoop
    exact ih _ _ _ (sqlite3GenerateConstraintChecks_unique_sim ext _ _ _ _ _ _ _ _ _ _ _ _ _ _
      _ _ _ _ ha hd hc hr h0 h0' h)

/-- The constraint checks of an INSERT compiled in two contexts that are the same up to a
shift: both fail or both succeed, with the same `*pbMayReplace` and table, and contexts that
are again the same up to the shift. -/
theorem sqlite3GenerateConstraintChecks_sim (ext : Extern) (pTab : Table)
    (aRegIdx aRegIdx' : List Int)
    (iDataCur iIdxCur regNewData iDataCur' iIdxCur' regNewData' : Int) (pkChng : Bool)
    (overrideError : on_conflict_action) (ignoreDest : Int) (aiChng : Option (List Int))
    (ha : ShiftRegs r aRegIdx aRegIdx') (hd : iDataCur' = iDataCur + c)
    (hc : iIdxCur' = iIdxCur + c) (hr : regNewData' = regNewData + r) (h0 : 0 < regNewData)
    (h0' : 0 < regNewData') (h : Sim r c p q) :
    (sqlite3GenerateConstraintChecks ext p pTab aRegIdx iDataCur iIdxCur regNewData 0 pkChng
        overrideError ignoreDest aiChng = none
      ∧ sqlite3GenerateConstraintChecks ext q pTab aRegIdx' iDataCur' iIdxCur' regNewData' 0
        pkChng overrideError ignoreDest aiChng = none)
    ∨ ∃ R R', sqlite3GenerateConstraintChecks ext p pTab aRegIdx iDataCur iIdxCur regNewData 0
        pkChng overrideError ignoreDest aiChng = some R
      ∧ sqlite3GenerateConstraintChecks ext q pTab aRegIdx' iDataCur' iIdxCur' regNewData' 0
        pkChng overrideError ignoreDest aiChng = some R'
      ∧ R'.pbMayReplace = R.pbMayReplace ∧ R'.pTab = R.pTab ∧ Sim r c R.pParse R'.pParse := by
  unfold sqlite3GenerateConstraintChecks
  simp only []
  cases hpk : sqlite3PrimaryKeyIndex pTab with
  | none => left; exact ⟨rfl, rfl⟩
  | some pPk =>
    right
    refine ⟨_, _, rfl, rfl, ?_⟩
    simp only []
    have h1 := sqlite3GenerateConstraintChecks_notNullLoop_sim pTab regNewData regNewData'
      overrideError ignoreDest aiChng hr (Sim.sim_vdbe h)
    unfold sqlite3GenerateConstraintChecks_notNullLoop at h1
    generalize (List.range pTab.nCol).foldl _ (sqlite3GetVdbe p) = p1 at h1 ⊢
    generalize (List.range pTab.nCol).foldl _ (sqlite3GetVdbe q) = q1 at h1 ⊢
    rw [h1.user_session]
    have h2 : SimU r c
        { pParse :=
            if pTab.pCheck.isSome = true ∧ p1.user_session.SQLITE_IgnoreChecks = false then
              sqlite3GenerateConstraintChecks_check pTab ignoreDest aiChng (pTab.pCheck.getD [])
                (if overrideError ≠ ON_CONFLICT_ACTION_DEFAULT then overrideError
                  else ON_CONFLICT_ACTION_ABORT) (p1.setCkBase (regNewData + 1))
            else p1,
          pTab := pTab, bAffinityDone := false, seenReplace := 0 }
        { pParse :=
            if pTab.pCheck.isSome = true ∧ p1.user_session.SQLITE_IgnoreChecks = false then
              sqlite3GenerateConstraintChecks_check pTab ignoreDest aiChng (pTab.pCheck.getD [])
                (if overrideError ≠ ON_CONFLICT_ACTION_DEFAULT then overrideError
                  else ON_CONFLICT_ACTION_ABORT) (q1.setCkBase (regNewData' + 1))
            else q1,
          pTab := pTab, bAffinityDone := false, seenReplace := 0 } :=
      ⟨Sim.sim_if_then_else
        (sqlite3GenerateConstraintChecks_check_sim pTab ignoreDest aiChng _ _ _ _
          (Sim.sim_setCkBase _ _ h1)) h1, rfl, rfl, rfl⟩
    have h3 := sqlite3GenerateConstraintChecks_uniqueLoop_sim ext aRegIdx aRegIdx' iDataCur
      iIdxCur regNewData iDataCur' iIdxCur' regNewData' pkChng overrideError ignoreDest pPk
      (pTab.pIndex.findIdx IsPrimaryKeyIndex) pTab.pIndex.length ha hd hc hr h0 h0'
      pTab.pIndex 0 _ _ h2
    exact ⟨h3.seenReplace, h3.pTab, h3.pParse⟩

end ShiftUnique

section ShiftOpen

variable {r c : Int} {p q : Parse}

theorem ShiftRegs.head (a b : List Int) (h : ShiftRegs r a b) (hl : 0 < a.length) :
    0 < a.getD 0 0 ∧ b.getD 0 0 = a.getD 0 0 + r := by
  obtain ⟨hb, hx⟩ := h
  subst hb
  cases a with
  | nil => simp at hl
  | cons x rest =>
    have := hx x (List.mem_cons_self _ _)
    simp only [List.getD_cons_zero, List.map_cons]
    exact ⟨this.1, trivial⟩

theorem sqlite3OpenTableAndIndices_loop_sim (ext : Extern) (pTab : Table) (op : Opcode)
    (aToOpen : Option (List Bool)) (overrideError : on_conflict_action) (isUpdate : Bool)
    (space_ptr_reg space_ptr_reg' : Int)
    (hop : operandRoles op = (OperandRole.cursor, OperandRole.other,
      OperandRole.optionalRegister))
    (hs : space_ptr_reg' = space_ptr_reg + r) (hs0 : space_ptr_reg ≠ 0) :
    ∀ (l : List Index) (i : Nat) (s t : OpenCursors), SimOC r c s t →
      SimOC r c
        (sqlite3OpenTableAndIndices_loop ext pTab op aToOpen overrideError isUpdate
          space_ptr_reg l i s)
        (sqlite3OpenTableAndIndices_loop ext pTab op aToOpen overrideError isUpdate
          space_ptr_reg' l i t) := by
  intro l
  induction l with
  | nil => intro i s t h; exact h
  | cons pIdx rest ih =>
    intro i s t h
    unfold sqlite3OpenTableAndIndices_loop
    simp only []
    apply ih
    rw [h.iBase, h.piDataCur, h.p5]
    have hopen : Sim r c
        (sqlite3VdbeChangeP5 (sqlite3VdbeSetP4KeyInfo
          (sqlite3VdbeAddOp3 s.pParse op s.iBase pIdx.tnum space_ptr_reg) pIdx) s.p5)
        (sqlite3VdbeChangeP5 (sqlite3VdbeSetP4KeyInfo
          (sqlite3VdbeAddOp3 t.pParse op (s.iBase + c) pIdx.tnum space_ptr_reg') pIdx) s.p5) := by
      apply Sim.sim_changeP5
      apply Sim.sim_setP4KeyInfo
      exact Sim.sim_addOp3 _ _ _ _ _ _ _
        (by simp [shiftOp, hop, shiftOperand, hs, hs0]) h.pParse
    have hopen0 : Sim r c
        (sqlite3VdbeChangeP5 (sqlite3VdbeSetP4KeyInfo
          (sqlite3VdbeAddOp3 s.pParse op s.iBase pIdx.tnum space_ptr_reg) pIdx) [])
        (sqlite3VdbeChangeP5 (sqlite3VdbeSetP4KeyInfo
          (sqlite3VdbeAddOp3 t.pParse op (s.iBase + c) pIdx.tnum space_ptr_reg') pIdx) []) := by
      apply Sim.sim_changeP5
      apply Sim.sim_setP4KeyInfo
      exact Sim.sim_addOp3 _ _ _ _ _ _ _
        (by simp [shiftOp, hop, shiftOperand, hs, hs0]) h.pParse
    split_ifs
    all_goals first
      | exact h
      | refine ⟨?_, ?_, ?_, ?_⟩ <;> first
        | exact hopen
        | exact hopen0
        | exact h.pParse
        | rfl
        | (simp only []; omega)

end ShiftOpen

section ShiftSegments

variable {r c : Int} {p q : Parse}

theorem sqlite3OpenTableAndIndices_sim (ext : Extern) (pTab : Table) (op : Opcode)
    (p5 : FlagWord) (iBase : Int) (aToOpen : Option (List Bool))
    (overrideError : on_conflict_action) (isUpdate : Bool)
    (hop : operandRoles op = (OperandRole.cursor, OperandRole.other,
      OperandRole.optionalRegister))
    (hb : iBase < 0) (h : Sim r c p q) :
    (sqlite3OpenTableAndIndices ext q pTab op p5 iBase aToOpen overrideError isUpdate).nIdx
        = (sqlite3OpenTableAndIndices ext p pTab op p5 iBase aToOpen overrideError isUpdate).nIdx
      ∧ (sqlite3OpenTableAndIndices ext q pTab op p5 iBase aToOpen overrideError
          isUpdate).iDataCur
        = (sqlite3OpenTableAndIndices ext p pTab op p5 iBase aToOpen overrideError
          isUpdate).iDataCur + c
      ∧ (sqlite3OpenTableAndIndices ext q pTab op p5 iBase aToOpen overrideError
          isUpdate).iIdxCur
        = (sqlite3OpenTableAndIndices ext p pTab op p5 iBase aToOpen overrideError
          isUpdate).iIdxCur + c
      ∧ Sim r c
        (sqlite3OpenTableAndIndices ext p pTab op p5 iBase aToOpen overrideError
          isUpdate).pParse
        (sqlite3OpenTableAndIndices ext q pTab op p5 iBase aToOpen overrideError
          isUpdate).pParse := by
  unfold sqlite3OpenTableAndIndices
  simp only [hb, if_true]
  have hv := Sim.sim_vdbe h
  generalize sqlite3GetVdbe p = p0 at hv ⊢
  generalize sqlite3GetVdbe q = q0 at hv ⊢
  have hn := hv.nMem
  have ht := hv.nTab
  have h1 : SimOC r c
      { pParse := sqlite3VdbeAddOp4 (p0.allocMem 1) OP_Int64 0 ((p0.nMem + 1 : Nat) : Int) 0
          (P4_SPACEPTR (SQLITE_PAGENO_TO_SPACEID pTab.tnum)),
        iBase := (p0.nTab : Int) + 1, piDataCur := (p0.nTab : Int), p5 := p5 }
      { pParse := sqlite3VdbeAddOp4 (q0.allocMem 1) OP_Int64 0 ((q0.nMem + 1 : Nat) : Int) 0
          (P4_SPACEPTR (SQLITE_PAGENO_TO_SPACEID pTab.tnum)),
        iBase := (q0.nTab : Int) + 1, piDataCur := (q0.nTab : Int), p5 := p5 } := by
    refine ⟨?_, ?_, ?_, rfl⟩
    · exact Sim.sim_addOp4 _ _ _ _ _ _ _ _
        (by simp [shiftOp, operandRoles, shiftOperand]; omega) (Sim.sim_allocMem _ hv)
    · simp only []; omega
    · simp only []; omega
  have h2 := sqlite3OpenTableAndIndices_loop_sim ext pTab op aToOpen overrideError isUpdate
    ((p0.nMem + 1 : Nat) : Int) ((q0.nMem + 1 : Nat) : Int) hop (by push_cast; omega) (by omega) pTab.pIndex 0 _ _ h1
  generalize sqlite3OpenTableAndIndices_loop ext pTab op aToOpen overrideError isUpdate
    ((p0.nMem + 1 : Nat) : Int) pTab.pIndex 0 _ = s at h2 ⊢
  generalize sqlite3OpenTableAndIndices_loop ext pTab op aToOpen overrideError isUpdate
    ((q0.nMem + 1 : Nat) : Int) pTab.pIndex 0 _ = t at h2 ⊢
  refine ⟨trivial, h2.piDataCur, by omega, ?_⟩
  have hb2 := h2.iBase
  have ht2 := h2.pParse.nTab
  by_cases hgt : s.iBase > s.pParse.nTab
  · rw [if_pos hgt, if_pos (by omega)]
    exact Sim.sim_setNTab _ _ (by omega) h2.pParse
  · rw [if_neg hgt, if_neg (by omega)]
    exact h2.pParse

theorem sqlite3Insert_aRegIdx_sim :
    ∀ (l : List Index) (p q : Parse) (a b : List Int), Sim r c p q → ShiftRegs r a b →
      ShiftRegs r (sqlite3Insert_aRegIdx l p a).1 (sqlite3Insert_aRegIdx l q b).1
        ∧ Sim r c (sqlite3Insert_aRegIdx l p a).2 (sqlite3Insert_aRegIdx l q b).2
        ∧ (sqlite3Insert_aRegIdx l p a).1.length = a.length + l.length := by
  intro l
  induction l with
  | nil =>
    intro p q a b h hab
    exact ⟨hab, h, rfl⟩
  | cons pIdx rest ih =>
    intro p q a b h hab
    unfold sqlite3Insert_aRegIdx
    have hn := h.nMem
    obtain ⟨h1, h2, h3⟩ := ih (p.allocMem (1 + pIdx.nColumn)) (q.allocMem (1 + pIdx.nColumn))
      (a ++ [((p.nMem + 1 : Nat) : Int)]) (b ++ [((q.nMem + 1 : Nat) : Int)])
      (Sim.sim_allocMem _ h) (by
        obtain ⟨hb, hx⟩ := hab
        subst hb
        refine ⟨?_, ?_⟩
        · simp only [List.map_append, List.map_cons, List.map_nil, List.append_cancel_left_eq,
            List.cons.injEq, and_true]
          push_cast
          omega
        · intro x hxm
          rcases List.mem_append.1 hxm with hm | hm
          · exact hx x hm
          · simp only [List.mem_singleton] at hm
            subst hm
            push_cast
            omega)
    refine ⟨h1, h2, ?_⟩
    rw [h3]
    simp only [List.length_append, List.length_cons, List.length_nil]
    omega

theorem sqlite3CompleteInsertion_sim (pTab : Table) (iIdxCur iIdxCur' : Int)
    (aRegIdx aRegIdx' : List Int) (useSeekResult : Bool) (onError : on_conflict_action)
    (hc : iIdxCur' = iIdxCur + c) (ha : ShiftRegs r aRegIdx aRegIdx')
    (hl : aRegIdx.length = pTab.pIndex.length) (h : Sim r c p q) :
    (sqlite3CompleteInsertion p pTab iIdxCur aRegIdx useSeekResult onError = none
      ∧ sqlite3CompleteInsertion q pTab iIdxCur' aRegIdx' useSeekResult onError = none)
    ∨ ∃ p1 q1, sqlite3CompleteInsertion p pTab iIdxCur aRegIdx useSeekResult onError = some p1
      ∧ sqlite3CompleteInsertion q pTab iIdxCur' aRegIdx' useSeekResult onError = some q1
      ∧ Sim r c p1 q1 := by
  unfold sqlite3CompleteInsertion
  simp only []
  cases hidx : pTab.pIndex with
  | nil => left; exact ⟨rfl, rfl⟩
  | cons pIdx rest =>
    right
    refine ⟨_, _, rfl, rfl, ?_⟩
    obtain ⟨h0, hx⟩ := ShiftRegs.head _ _ ha (by rw [hl, hidx]; simp)
    generalize aRegIdx'.getD 0 0 = a' at hx ⊢
    generalize aRegIdx.getD 0 0 = a at hx h0 ⊢
    subst hx
    apply Sim.sim_changeP5
    apply Sim.sim_addOp4
    · by_cases hrep : onError = ON_CONFLICT_ACTION_REPLACE
      · simp [hrep, shiftOp, operandRoles, shiftOperand, hc]
        omega
      · simp [hrep, shiftOp, operandRoles, shiftOperand, hc]
        omega
    · exact Sim.sim_vdbe h

theorem sqlite3Insert_triggerColumn_sim (pTab : Table) (pColumn : Option IdList)
    (pList : Option ExprList) (useTempTable : Bool) (srcTab srcTab' regCols regCols' : Int)
    (i : Nat) (hs : useTempTable = true → srcTab' = srcTab + c) (hr : regCols' = regCols + r)
    (h : Sim r c p q) :
    Sim r c (sqlite3Insert_triggerColumn p pTab pColumn pList useTempTable srcTab regCols i)
      (sqlite3Insert_triggerColumn q pTab pColumn pList useTempTable srcTab' regCols' i) := by
  unfold sqlite3Insert_triggerColumn
  simp only []
  split_ifs with h1 h2 h3
  · exact Sim.sim_addOp2 _ _ _ _ _ (by simp [shiftOp, operandRoles, shiftOperand, hr]; omega) h
  · exact Sim.sim_addOp4 _ _ _ _ _ _ _ _
      (by simp [shiftOp, operandRoles, shiftOperand, hr]; omega) h
  · exact Sim.sim_addOp3 _ _ _ _ _ _ _
      (by simp [shiftOp, operandRoles, shiftOperand, hr, hs h3]; omega) h
  · exact Sim.sim_addOp4 _ _ _ _ _ _ _ _
      (by simp [shiftOp, operandRoles, shiftOperand, hr]; omega) h

theorem sqlite3Insert_column_sim (pTab : Table) (pColumn : Option IdList)
    (pList : Option ExprList) (pSelect : Bool) (useTempTable : Bool)
    (srcTab regFromSelect regData regTupleid srcTab' regFromSelect' regData' regTupleid' : Int)
    (nColumn : Nat) (i : Nat) (hs : useTempTable = true → srcTab' = srcTab + c)
    (hf : pSelect = true → regFromSelect' = regFromSelect + r)
    (hd : regData' = regData + r) (ht : regTupleid' = regTupleid + r)
    (hreg : ∀ l, pList = some l → ∀ it ∈ l, it.pExpr.op ≠ TK_REGISTER)
    (h : Sim r c p q) :
    Sim r c
      (sqlite3Insert_column p pTab pColumn pList pSelect useTempTable srcTab regFromSelect
        regData regTupleid nColumn i)
      (sqlite3Insert_column q pTab pColumn pList pSelect useTempTable srcTab' regFromSelect'
        regData' regTupleid' nColumn i) := by
  unfold sqlite3Insert_column
  simp only []
  subst hd ht
  by_cases h1 : nColumn = 0
      ∨ (pColumn.isSome = true ∧ sqlite3Insert_findColumn pColumn i ≥ (pColumn.getD []).length)
  · rw [if_pos h1, if_pos h1]
    split_ifs
    · exact Sim.sim_addOp2 _ _ _ _ _ (by simp [shiftOp, operandRoles, shiftOperand]; omega) h
    · exact Sim.sim_addOp4 _ _ _ _ _ _ _ _
        (by simp [shiftOp, operandRoles, shiftOperand]; omega) h
  · rw [if_neg h1, if_neg h1]
    by_cases h2 : useTempTable = true
    · rw [if_pos h2, if_pos h2]
      have hs' := hs h2
      subst hs'
      split_ifs
      · have hn := h.nMem
        exact Sim.sim_fcopy _ _ _ _ _ (by omega) (by omega)
          (Sim.sim_addOp3 _ _ _ _ _ _ _
            (by simp [shiftOp, operandRoles, shiftOperand, Parse.allocMem]; omega)
            (Sim.sim_allocMem 1 h))
      · exact Sim.sim_addOp3 _ _ _ _ _ _ _
          (by simp [shiftOp, operandRoles, shiftOperand]; omega) h
    · rw [if_neg h2, if_neg h2]
      by_cases h3 : pSelect = true
      · rw [if_pos h3, if_pos h3]
        have hf' := hf h3
        subst hf'
        have e : (regFromSelect + r ≠ regData + r) ↔ (regFromSelect ≠ regData) := by omega
        simp only [e]
        split_ifs
        · exact Sim.sim_fcopy _ _ _ _ _ (by omega) (by omega) h
        · exact Sim.sim_addOp2 _ _ _ _ _
            (by simp [shiftOp, operandRoles, shiftOperand]; omega) h
        · exact h
      · rw [if_neg h3, if_neg h3]
        have hnr : ¬ ((i : Int) = pTab.iAutoIncPKey
            ∧ (((pList.getD []).get? (sqlite3Insert_findColumn pColumn i)).map
              (fun it => it.pExpr)).map Expr.op = some TK_REGISTER) := by
          rintro ⟨-, he⟩
          cases hl : pList with
          | none => simp [hl] at he
          | some l =>
            rw [hl] at he
            simp only [Option.getD_some, Option.map_map, Option.map_eq_some'] at he
            obtain ⟨it, hit, hop⟩ := he
            exact hreg l hl it (List.get?_mem hit) hop
        rw [if_neg hnr, if_neg hnr]
        split_ifs
        · exact Sim.sim_addOp2 _ _ _ _ _
            (by simp [shiftOp, operandRoles, shiftOperand]; omega) h
        · exact Sim.sim_addOp4 _ _ _ _ _ _ _ _
            (by simp [shiftOp, operandRoles, shiftOperand]; omega) h

end ShiftSegments

section ShiftLoop

variable {r c : Int} {p q : Parse}

theorem Grows.opcodeAt {L : List Opcode} {p q : Parse} (h : Grows L p q) (n : Nat)
    (x : Opcode) (hx : p.ops.get? n = some x) : q.ops.get? n = some x := by
  obtain ⟨-, cs, e, -⟩ := h
  rw [e]
  rw [List.get?_eq_getElem?] at hx ⊢
  have hn : n < p.ops.length := by
    by_contra hc
    rw [List.getElem?_eq_none (Nat.le_of_not_lt hc)] at hx
    cases hx
  rw [List.getElem?_append_left hn]
  exact hx

theorem role_of_opcodeAt (p : Parse) (n : Nat) (x : Opcode)
    (hx : (operandRoles x).2.1 = OperandRole.other) (h : p.ops.get? n = some x) :
    ∀ o, p.aOp.get? n = some o → (operandRoles o.opcode).2.1 = OperandRole.other := by
  intro o ho
  unfold Parse.ops at h
  rw [List.get?_eq_getElem?] at h ho
  rw [List.getElem?_map, ho] at h
  simp only [Option.map_some', Option.some.injEq] at h
  rw [h]
  exact hx

theorem sqlite3Insert_open_sim (ext : Extern) (pTab : Table) (onError : on_conflict_action)
    (L M : InsertLocals) (cnt : Bool) (nIdx : Nat)
    (hcnt : cnt = p.user_session.SQLITE_CountRows) (hn : nIdx = pTab.pIndex.length)
    (hL : SimL r c cnt nIdx false L M) (h : Sim r c p q) :
    SimL r c cnt nIdx true (sqlite3Insert_open ext p pTab onError L).1
        (sqlite3Insert_open ext q pTab onError M).1
      ∧ Sim r c (sqlite3Insert_open ext p pTab onError L).2
        (sqlite3Insert_open ext q pTab onError M).2 := by
  unfold sqlite3Insert_open
  simp only []
  rw [h.user_session, hL.isView]
  have hm := h.nMem
  have h1 : Sim r c
      (sqlite3VdbeAddOp2 (p.allocMem 1) OP_Integer 0 ((p.nMem + 1 : Nat) : Int))
      (sqlite3VdbeAddOp2 (q.allocMem 1) OP_Integer 0 ((q.nMem + 1 : Nat) : Int)) :=
    Sim.sim_addOp2 _ _ _ _ _ (by simp [shiftOp, operandRoles, shiftOperand]; omega)
      (Sim.sim_allocMem _ h)
  have hopen : ∀ p1 q1 : Parse, Sim r c p1 q1 →
      (sqlite3OpenTableAndIndices ext q1 pTab OP_OpenWrite [] (-1) none onError false).iDataCur
        = (sqlite3OpenTableAndIndices ext p1 pTab OP_OpenWrite [] (-1) none onError
          false).iDataCur + c
      ∧ (sqlite3OpenTableAndIndices ext q1 pTab OP_OpenWrite [] (-1) none onError
          false).iIdxCur
        = (sqlite3OpenTableAndIndices ext p1 pTab OP_OpenWrite [] (-1) none onError
          false).iIdxCur + c
      ∧ (ShiftRegs r
          (sqlite3Insert_aRegIdx (pTab.pIndex.take (sqlite3OpenTableAndIndices ext p1 pTab
            OP_OpenWrite [] (-1) none onError false).nIdx)
            (sqlite3OpenTableAndIndices ext p1 pTab OP_OpenWrite [] (-1) none onError
              false).pParse []).1
          (sqlite3Insert_aRegIdx (pTab.pIndex.take (sqlite3OpenTableAndIndices ext q1 pTab
            OP_OpenWrite [] (-1) none onError false).nIdx)
            (sqlite3OpenTableAndIndices ext q1 pTab OP_OpenWrite [] (-1) none onError
              false).pParse []).1
        ∧ (sqlite3Insert_aRegIdx (pTab.pIndex.take (sqlite3OpenTableAndIndices ext p1 pTab
            OP_OpenWrite [] (-1) none onError false).nIdx)
            (sqlite3OpenTableAndIndices ext p1 pTab OP_OpenWrite [] (-1) none onError
              false).pParse []).1.length = nIdx)
      ∧ Sim r c
          (sqlite3Insert_aRegIdx (pTab.pIndex.take (sqlite3OpenTableAndIndices ext p1 pTab
            OP_OpenWrite [] (-1) none onError false).nIdx)
            (sqlite3OpenTableAndIndices ext p1 pTab OP_OpenWrite [] (-1) none onError
              false).pParse []).2
          (sqlite3Insert_aRegIdx (pTab.pIndex.take (sqlite3OpenTableAndIndices ext q1 pTab
            OP_OpenWrite [] (-1) none onError false).nIdx)
            (sqlite3OpenTableAndIndices ext q1 pTab OP_OpenWrite [] (-1) none onError
              false).pParse []).2 := by
    intro p1 q1 h1
    obtain ⟨e1, e2, e3, e4⟩ := sqlite3OpenTableAndIndices_sim ext pTab OP_OpenWrite [] (-1) none
      onError false rfl (by decide) h1
    rw [e1]
    obtain ⟨a1, a2, a3⟩ := sqlite3Insert_aRegIdx_sim
      (pTab.pIndex.take (sqlite3OpenTableAndIndices ext p1 pTab OP_OpenWrite [] (-1) none
        onError false).nIdx) _ _ [] [] e4 ⟨rfl, by simp⟩
    refine ⟨e2, e3, ⟨a1, ?_⟩, a2⟩
    rw [a3, hn]
    simp [sqlite3OpenTableAndIndices]
  by_cases hc : p.user_session.SQLITE_CountRows = true
  · rw [if_pos hc, if_pos hc]
    simp only []
    by_cases hv : L.isView = false
    · rw [if_pos hv, if_pos hv]
      obtain ⟨e2, e3, e5, e6⟩ := hopen _ _ h1
      exact ⟨⟨hL.nColumn, hL.ipkColumn, hL.endOfLoop, hL.addrInsTop, hL.addrCont,
        hL.useTempTable, hL.bIdListInOrder, hL.pList, hL.pSelect, hL.pColumn,
        rfl, hL.pTrigger, hL.tmask, hL.srcTab, hL.regFromSelect,
        hL.regYield, hL.regIns, hL.regInsPos, hL.regTupleid, hL.regData,
        hL.noRegister, fun _ _ => by simp only []; push_cast; omega,
        fun _ _ => e2, fun _ _ => e3, fun _ _ => e5⟩, e6⟩
    · rw [if_neg hv, if_neg hv]
      exact ⟨⟨hL.nColumn, hL.ipkColumn, hL.endOfLoop, hL.addrInsTop, hL.addrCont,
        hL.useTempTable, hL.bIdListInOrder, hL.pList, hL.pSelect, hL.pColumn,
        rfl, hL.pTrigger, hL.tmask, hL.srcTab, hL.regFromSelect,
        hL.regYield, hL.regIns, hL.regInsPos, hL.regTupleid, hL.regData,
        hL.noRegister, fun _ _ => by simp only []; push_cast; omega,
        fun _ hh => absurd hh hv, fun _ hh => absurd hh hv,
        fun _ hh => absurd hh hv⟩, h1⟩
  · rw [if_neg hc, if_neg hc]
    simp only []
    by_cases hv : L.isView = false
    · rw [if_pos hv, if_pos hv]
      obtain ⟨e2, e3, e5, e6⟩ := hopen _ _ h
      exact ⟨⟨hL.nColumn, hL.ipkColumn, hL.endOfLoop, hL.addrInsTop, hL.addrCont,
        hL.useTempTable, hL.bIdListInOrder, hL.pList, hL.pSelect, hL.pColumn,
        rfl, hL.pTrigger, hL.tmask, hL.srcTab, hL.regFromSelect,
        hL.regYield, hL.regIns, hL.regInsPos, hL.regTupleid, hL.regData,
        hL.noRegister, fun _ hh => absurd (hcnt ▸ hh) hc, fun _ _ => e2,
        fun _ _ => e3, fun _ _ => e5⟩, e6⟩
    · rw [if_neg hv, if_neg hv]
      exact ⟨⟨hL.nColumn, hL.ipkColumn, hL.endOfLoop, hL.addrInsTop, hL.addrCont,
        hL.useTempTable, hL.bIdListInOrder, hL.pList, hL.pSelect, hL.pColumn,
        rfl, hL.pTrigger, hL.tmask, hL.srcTab, hL.regFromSelect,
        hL.regYield, hL.regIns, hL.regInsPos, hL.regTupleid, hL.regData,
        hL.noRegister, fun _ hh => absurd (hcnt ▸ hh) hc,
        fun _ hh => absurd hh hv, fun _ hh => absurd hh hv,
        fun _ hh => absurd hh hv⟩, h⟩

theorem sqlite3Insert_top_sim (L M : InsertLocals) (cnt : Bool) (nIdx : Nat) (o : Bool)
    (hL : SimL r c cnt nIdx o L M) (h : Sim r c p q) :
    SimL r c cnt nIdx o (sqlite3Insert_top p L).1 (sqlite3Insert_top q M).1
      ∧ Sim r c (sqlite3Insert_top p L).2 (sqlite3Insert_top q M).2 := by
  unfold sqlite3Insert_top
  simp only []
  by_cases hu : L.useTempTable = true
  · rw [if_pos hu, if_pos (hL.useTempTable.trans hu)]
    have h2 : Sim r c (sqlite3VdbeAddOp1 p OP_Rewind L.srcTab)
        (sqlite3VdbeAddOp1 q OP_Rewind M.srcTab) :=
      Sim.sim_addOp1 _ _ _ (by simp [shiftOp, operandRoles, shiftOperand, hL.srcTab hu]) h
    exact ⟨⟨hL.nColumn, hL.ipkColumn, Sim.label h2, Sim.addr h, Sim.addr h2,
        hL.useTempTable, hL.bIdListInOrder, hL.pList, hL.pSelect, hL.pColumn,
        hL.isView, hL.pTrigger, hL.tmask, hL.srcTab, hL.regFromSelect,
        hL.regYield, hL.regIns, hL.regInsPos, hL.regTupleid, hL.regData,
        hL.noRegister, hL.regRowCount, hL.iDataCur, hL.iIdxCur, hL.aRegIdx⟩, Sim.sim_makeLabel h2⟩
  · rw [if_neg hu, if_neg (fun hh => hu (hL.useTempTable.symm.trans hh))]
    by_cases hs : L.pSelect.isSome = true
    · rw [if_pos hs, if_pos (by rw [hL.pSelect]; exact hs)]
      have h2 : Sim r c (sqlite3VdbeAddOp1 p OP_Yield L.regYield)
          (sqlite3VdbeAddOp1 q OP_Yield M.regYield) :=
        Sim.sim_addOp1 _ _ _ (by simp [shiftOp, operandRoles, shiftOperand, hL.regYield hs]) h
      exact ⟨⟨hL.nColumn, hL.ipkColumn, Sim.label h2, Sim.addr h, Sim.addr h, hL.useTempTable,
        hL.bIdListInOrder, hL.pList, hL.pSelect, hL.pColumn, hL.isView,
        hL.pTrigger, hL.tmask, hL.srcTab, hL.regFromSelect, hL.regYield,
        hL.regIns, hL.regInsPos, hL.regTupleid, hL.regData, hL.noRegister,
        hL.regRowCount, hL.iDataCur, hL.iIdxCur, hL.aRegIdx⟩, Sim.sim_makeLabel h2⟩
    · rw [if_neg hs, if_neg (by rw [hL.pSelect]; exact hs)]
      exact ⟨⟨hL.nColumn, hL.ipkColumn, Sim.label h, hL.addrInsTop, hL.addrCont,
        hL.useTempTable, hL.bIdListInOrder, hL.pList, hL.pSelect, hL.pColumn,
        hL.isView, hL.pTrigger, hL.tmask, hL.srcTab, hL.regFromSelect,
        hL.regYield, hL.regIns, hL.regInsPos, hL.regTupleid, hL.regData,
        hL.noRegister, hL.regRowCount, hL.iDataCur, hL.iIdxCur, hL.aRegIdx⟩, Sim.sim_makeLabel h⟩

/-- When the rows come from a sub-select, the instruction at `addrInsTop` is the `OP_Rewind`
or the `OP_Yield` the top of the loop has emitted. -/
theorem sqlite3Insert_top_addrInsTop (p : Parse) (L : InsertLocals)
    (hs : L.useTempTable = true ∨ L.pSelect.isSome = true) :
    ∃ x, (sqlite3Insert_top p L).2.ops.get? (sqlite3Insert_top p L).1.addrInsTop = some x
      ∧ (operandRoles x).2.1 = OperandRole.other := by
  unfold sqlite3Insert_top
  simp only []
  by_cases hu : L.useTempTable = true
  · rw [if_pos hu]
    exact ⟨OP_Rewind, by simp [sqlite3VdbeMakeLabel, sqlite3VdbeAddOp1, sqlite3VdbeAddOp,
      sqlite3VdbeCurrentAddr, Parse.ops], rfl⟩
  · rw [if_neg hu]
    have hs' : L.pSelect.isSome = true := hs.resolve_left hu
    rw [if_pos hs']
    exact ⟨OP_Yield, by simp [sqlite3VdbeMakeLabel, sqlite3VdbeAddOp1, sqlite3VdbeAddOp,
      sqlite3VdbeCurrentAddr, Parse.ops], rfl⟩

theorem sqlite3Insert_before_sim (pTab : Table) (onError : on_conflict_action)
    (L M : InsertLocals) (cnt : Bool) (nIdx : Nat) (o : Bool)
    (hL : SimL r c cnt nIdx o L M) (h : Sim r c p q) :
    (sqlite3Insert_before q pTab onError M).1 = (sqlite3Insert_before p pTab onError L).1
      ∧ Sim r c (sqlite3Insert_before p pTab onError L).2
        (sqlite3Insert_before q pTab onError M).2 := by
  unfold sqlite3Insert_before
  simp only []
  rw [hL.tmask, hL.isView, hL.endOfLoop, hL.pColumn, hL.pList, hL.useTempTable]
  by_cases ht : L.tmask &&& TRIGGER_BEFORE ≠ 0
  · rw [if_pos ht, if_pos ht]
    have hR := Sim.tempRange h (pTab.nCol + 1)
    have h1 := Sim.sim_getTempRange (pTab.nCol + 1) h
    have hpos : 0 < (sqlite3GetTempRange p (pTab.nCol + 1)).1 := by
      simp only [sqlite3GetTempRange]
      omega
    have hpos' : 0 < (sqlite3GetTempRange q (pTab.nCol + 1)).1 := by
      simp only [sqlite3GetTempRange]
      omega
    generalize (sqlite3GetTempRange p (pTab.nCol + 1)).1 = regCols at hR hpos ⊢
    generalize (sqlite3GetTempRange q (pTab.nCol + 1)).1 = regCols' at hR hpos' ⊢
    generalize (sqlite3GetTempRange p (pTab.nCol + 1)).2 = p1 at h1 ⊢
    generalize (sqlite3GetTempRange q (pTab.nCol + 1)).2 = q1 at h1 ⊢
    have h2 : Sim r c
        ((List.range pTab.nCol).foldl
          (fun pParse i => sqlite3Insert_triggerColumn pParse pTab L.pColumn L.pList
            L.useTempTable L.srcTab regCols i) p1)
        ((List.range pTab.nCol).foldl
          (fun pParse i => sqlite3Insert_triggerColumn pParse pTab L.pColumn L.pList
            L.useTempTable M.srcTab regCols' i) q1) :=
      Sim.sim_foldl _ _ (fun _ _ i hs => sqlite3Insert_triggerColumn_sim pTab L.pColumn L.pList
        L.useTempTable L.srcTab M.srcTab regCols regCols' i hL.srcTab hR hs) _ _ _ h1
    generalize (List.range pTab.nCol).foldl _ p1 = p2 at h2 ⊢
    generalize (List.range pTab.nCol).foldl _ q1 = q2 at h2 ⊢
    by_cases hv : L.isView = false
    · rw [if_pos hv, if_pos hv]
      simp only [sqlite3ReleaseTempRange]
      rw [sqlite3TableAffinity_table_eq p2 q2 pTab (regCols + 1) (regCols' + 1)]
      refine ⟨rfl, ?_⟩
      exact Sim.sim_addOp _ _ (by simp [shiftOp, operandRoles, shiftOperand, hR]; omega)
        (sqlite3TableAffinity_sim pTab _ _ (by omega) (by omega) (by omega) h2)
    · rw [if_neg hv, if_neg hv]
      simp only [sqlite3ReleaseTempRange]
      refine ⟨trivial, ?_⟩
      exact Sim.sim_addOp _ _ (by simp [shiftOp, operandRoles, shiftOperand, hR]; omega) h2
  · rw [if_neg ht, if_neg ht]
    exact ⟨rfl, h⟩

end ShiftLoop

section ShiftBody

variable {r c : Int} {p q : Parse}

theorem sqlite3Insert_newRow_sim (pTab : Table) (L M : InsertLocals) (cnt : Bool) (nIdx : Nat)
    (o : Bool) (hL : SimL r c cnt nIdx o L M) (h : Sim r c p q) :
    Sim r c (sqlite3Insert_newRow p pTab L) (sqlite3Insert_newRow q pTab M) := by
  unfold sqlite3Insert_newRow
  simp only []
  rw [hL.ipkColumn, hL.useTempTable, hL.pSelect, hL.pColumn, hL.pList, hL.nColumn]
  have h1 : Sim r c
      (if L.ipkColumn ≥ 0 then
        if L.useTempTable = true then
          sqlite3VdbeAddOp3 p OP_Column L.srcTab L.ipkColumn L.regTupleid
        else if L.pSelect.isSome = true then
          sqlite3VdbeAddOp2 p OP_Copy (L.regFromSelect + L.ipkColumn) L.regTupleid
        else p
      else sqlite3VdbeAddOp2 p OP_Null 0 L.regTupleid)
      (if L.ipkColumn ≥ 0 then
        if L.useTempTable = true then
          sqlite3VdbeAddOp3 q OP_Column M.srcTab L.ipkColumn M.regTupleid
        else if L.pSelect.isSome = true then
          sqlite3VdbeAddOp2 q OP_Copy (M.regFromSelect + L.ipkColumn) M.regTupleid
        else q
      else sqlite3VdbeAddOp2 q OP_Null 0 M.regTupleid) := by
    split_ifs with h1 h2 h3
    · exact Sim.sim_addOp3 _ _ _ _ _ _ _
        (by simp [shiftOp, operandRoles, shiftOperand, hL.srcTab h2, hL.regTupleid]) h
    · exact Sim.sim_addOp2 _ _ _ _ _
        (by simp [shiftOp, operandRoles, shiftOperand, hL.regFromSelect h3, hL.regTupleid]
            omega) h
    · exact h
    · exact Sim.sim_addOp2 _ _ _ _ _
        (by simp [shiftOp, operandRoles, shiftOperand, hL.regTupleid]) h
  exact Sim.sim_foldl _ _ (fun _ _ i hs => sqlite3Insert_column_sim pTab L.pColumn L.pList
    L.pSelect.isSome L.useTempTable L.srcTab L.regFromSelect L.regData L.regTupleid M.srcTab
    M.regFromSelect M.regData M.regTupleid L.nColumn i hL.srcTab hL.regFromSelect hL.regData
    hL.regTupleid hL.noRegister hs) _ _ _ h1

theorem sqlite3GenerateConstraintChecks_unique_pIndex (ext : Extern) (aRegIdx : List Int)
    (iDataCur iIdxCur regNewData regOldData : Int) (pkChng : Bool)
    (overrideError : on_conflict_action) (ignoreDest : Int) (pPk : Index) (pkIx nIndex : Nat)
    (pIdx : Index) (ix : Nat) (st : UniqueState) :
    (sqlite3GenerateConstraintChecks_unique ext aRegIdx iDataCur iIdxCur regNewData regOldData
      pkChng overrideError ignoreDest pPk pkIx nIndex pIdx ix st).pTab.pIndex
      = st.pTab.pIndex := by
  have hrec : (sqlite3GenerateConstraintChecks_record aRegIdx regNewData overrideError pIdx ix
      st).2.pTab.pIndex = st.pTab.pIndex := by
    rw [(sqlite3GenerateConstraintChecks_record_state aRegIdx regNewData overrideError pIdx ix
      st).2.1]
    split_ifs <;> rfl
  unfold sqlite3GenerateConstraintChecks_unique
  simp only []
  split_ifs
  all_goals first
    | rfl
    | exact hrec

theorem sqlite3GenerateConstraintChecks_uniqueLoop_pIndex (ext : Extern) (aRegIdx : List Int)
    (iDataCur iIdxCur regNewData regOldData : Int) (pkChng : Bool)
    (overrideError : on_conflict_action) (ignoreDest : Int) (pPk : Index) (pkIx nIndex : Nat) :
    ∀ (l : List Index) (ix : Nat) (st : UniqueState),
      (sqlite3GenerateConstraintChecks_uniqueLoop ext aRegIdx iDataCur iIdxCur regNewData
        regOldData pkChng overrideError ignoreDest pPk pkIx nIndex l ix st).pTab.pIndex
        = st.pTab.pIndex := by
  intro l
  induction l with
  | nil => intro ix st; rfl
  | cons pIdx rest ih =>
    intro ix st
    unfold sqlite3GenerateConstraintChecks_uniqueLoop
    rw [ih, sqlite3GenerateConstraintChecks_unique_pIndex]

theorem sqlite3GenerateConstraintChecks_pIndex (ext : Extern) (p : Parse) (pTab : Table)
    (aRegIdx : List Int) (iDataCur iIdxCur regNewData regOldData : Int) (pkChng : Bool)
    (overrideError : on_conflict_action) (ignoreDest : Int) (aiChng : Option (List Int))
    (R : ConstraintResult)
    (h : sqlite3GenerateConstraintChecks ext p pTab aRegIdx iDataCur iIdxCur regNewData
      regOldData pkChng overrideError ignoreDest aiChng = some R) :
    R.pTab.pIndex = pTab.pIndex := by
  unfold sqlite3GenerateConstraintChecks at h
  simp only [] at h
  cases hpk : sqlite3PrimaryKeyIndex pTab with
  | none => rw [hpk] at h; cases h
  | some pPk =>
    rw [hpk] at h
    simp only [Option.some.injEq] at h
    rw [← h]
    simp only []
    rw [sqlite3GenerateConstraintChecks_uniqueLoop_pIndex]

theorem sqlite3Insert_write_sim (ext : Extern) (pTab : Table) (onError : on_conflict_action)
    (L M : InsertLocals) (cnt : Bool) (hL : SimL r c cnt pTab.pIndex.length true L M)
    (hv : L.isView = false) (h : Sim r c p q) :
    (sqlite3Insert_write ext p pTab onError L = none
      ∧ sqlite3Insert_write ext q pTab onError M = none)
    ∨ ∃ R R', sqlite3Insert_write ext p pTab onError L = some R
      ∧ sqlite3Insert_write ext q pTab onError M = some R'
      ∧ R'.1 = R.1 ∧ Sim r c R.2 R'.2 := by
  unfold sqlite3Insert_write
  obtain ⟨ha, hlen⟩ := hL.aRegIdx rfl hv
  rw [hL.ipkColumn, hL.endOfLoop, hL.pTrigger]
  rcases sqlite3GenerateConstraintChecks_sim ext pTab L.aRegIdx M.aRegIdx L.iDataCur L.iIdxCur
      L.regIns M.iDataCur M.iIdxCur M.regIns (decide (L.ipkColumn ≥ 0)) onError L.endOfLoop
      none ha (hL.iDataCur rfl hv) (hL.iIdxCur rfl hv) hL.regIns hL.regInsPos.1 hL.regInsPos.2
      h with ⟨e1, e2⟩ | ⟨R, R', e1, e2, e3, e4, e5⟩
  · left
    rw [e1, e2]
    exact ⟨rfl, rfl⟩
  · rw [e1, e2]
    simp only []
    have hfk : Sim r c
        (sqlite3VdbeAddOp R.pParse { opcode := CALL_sqlite3FkCheck, p1 := 0, p2 := L.regIns })
        (sqlite3VdbeAddOp R'.pParse { opcode := CALL_sqlite3FkCheck, p1 := 0, p2 := M.regIns }) :=
      Sim.sim_addOp _ _ (by simp [shiftOp, operandRoles, shiftOperand, hL.regIns]) e5
    rw [e3, e4, hfk.user_session]
    have hidx := sqlite3GenerateConstraintChecks_pIndex _ _ _ _ _ _ _ _ _ _ _ _ _ e1
    rcases sqlite3CompleteInsertion_sim R.pTab L.iIdxCur M.iIdxCur L.aRegIdx M.aRegIdx
        (decide (R.pbMayReplace = 0
          ∨ (L.pTrigger = []
            ∧ ((sqlite3VdbeAddOp R.pParse
                  { opcode := CALL_sqlite3FkCheck, p1 := 0, p2 := L.regIns }).user_session.SQLITE_ForeignKeys = false
              ∨ ext.sqlite3FkReferences R.pTab = false)))) onError (hL.iIdxCur rfl hv) ha
        (by rw [hlen, hidx]) hfk with ⟨c1, c2⟩ | ⟨p1, q1, c1, c2, c3⟩
    · left
      rw [c1, c2]
      exact ⟨rfl, rfl⟩
    · right
      rw [c1, c2]
      exact ⟨_, _, rfl, rfl, rfl, c3⟩

theorem Sim.sim_setColName (v : List String) (h : Sim r c p q) :
    Sim r c { p with aColName := v } { q with aColName := v } :=
  ⟨h.db, h.user_session, h.nErr, h.zErrMsg, h.checkSchema, h.nMem, h.nTab, h.nested,
    h.pTriggerTab, h.pWith, h.mayAbort, h.isMultiWrite, h.pVdbe, h.aOp, h.aLabel,
    h.changeCntOn, rfl⟩

theorem sqlite3Insert_end_sim (regRowCount regRowCount' : Int)
    (hr : p.user_session.SQLITE_CountRows = true → regRowCount' = regRowCount + r)
    (h : Sim r c p q) :
    Sim r c (sqlite3Insert_end p regRowCount) (sqlite3Insert_end q regRowCount') := by
  unfold sqlite3Insert_end
  rw [h.user_session, h.nested, h.pTriggerTab]
  split_ifs with hc
  · exact Sim.sim_setColName _ (Sim.sim_addOp2 _ _ _ _ _
      (by simp [shiftOp, operandRoles, shiftOperand, hr hc.1]) h)
  · exact h

theorem sqlite3Insert_bottom_sim (pTab : Table) (onError : on_conflict_action)
    (L M : InsertLocals) (cnt : Bool) (nIdx : Nat)
    (hcnt : cnt = p.user_session.SQLITE_CountRows) (hL : SimL r c cnt nIdx true L M)
    (hat : (L.useTempTable = true ∨ L.pSelect.isSome = true) →
      ∃ x, p.ops.get? L.addrInsTop = some x ∧ (operandRoles x).2.1 = OperandRole.other)
    (h : Sim r c p q) :
    Sim r c (sqlite3Insert_bottom p pTab onError L) (sqlite3Insert_bottom q pTab onError M) := by
  unfold sqlite3Insert_bottom
  simp only []
  rw [h.user_session, hL.pTrigger, hL.endOfLoop, hL.useTempTable, hL.pSelect, hL.addrCont,
    hL.addrInsTop]
  have h1 : Sim r c
      (if p.user_session.SQLITE_CountRows = true then
        sqlite3VdbeAddOp2 p OP_AddImm L.regRowCount 1 else p)
      (if p.user_session.SQLITE_CountRows = true then
        sqlite3VdbeAddOp2 q OP_AddImm M.regRowCount 1 else q) := by
    split_ifs with hc
    · exact Sim.sim_addOp2 _ _ _ _ _
        (by simp [shiftOp, operandRoles, shiftOperand, hL.regRowCount rfl (hcnt ▸ hc)]) h
    · exact h
  have g1 : Grows sqlite3Insert_loop_ops p
      (if p.user_session.SQLITE_CountRows = true then
        sqlite3VdbeAddOp2 p OP_AddImm L.regRowCount 1 else p) :=
    Grows.if_then_else (Grows.addOp2 _ _ _ (by decide) (Grows.refl _ _)) (Grows.refl _ _)
  generalize (if p.user_session.SQLITE_CountRows = true then
    sqlite3VdbeAddOp2 p OP_AddImm L.regRowCount 1 else p) = p1 at h1 g1 ⊢
  generalize (if p.user_session.SQLITE_CountRows = true then
    sqlite3VdbeAddOp2 q OP_AddImm M.regRowCount 1 else q) = q1 at h1 ⊢
  have h2 : Sim r c
      (sqlite3VdbeResolveLabel (if L.pTrigger ≠ [] then
        sqlite3VdbeAddOp p1
          { opcode := CALL_sqlite3CodeRowTrigger, p1 := TRIGGER_AFTER, p2 := L.endOfLoop,
            p3 := L.regData - 2 - pTab.nCol, p4 := P4_ARGS onError 0 true }
        else p1) L.endOfLoop)
      (sqlite3VdbeResolveLabel (if L.pTrigger ≠ [] then
        sqlite3VdbeAddOp q1
          { opcode := CALL_sqlite3CodeRowTrigger, p1 := TRIGGER_AFTER, p2 := L.endOfLoop,
            p3 := M.regData - 2 - pTab.nCol, p4 := P4_ARGS onError 0 true }
        else q1) L.endOfLoop) := by
    apply Sim.sim_resolveLabel
    apply Sim.sim_if_then_else _ h1
    exact Sim.sim_addOp _ _ (by simp [shiftOp, operandRoles, shiftOperand, hL.regData]; omega)
      h1
  have g2 : Grows sqlite3Insert_loop_ops p
      (sqlite3VdbeResolveLabel (if L.pTrigger ≠ [] then
        sqlite3VdbeAddOp p1
          { opcode := CALL_sqlite3CodeRowTrigger, p1 := TRIGGER_AFTER, p2 := L.endOfLoop,
            p3 := L.regData - 2 - pTab.nCol, p4 := P4_ARGS onError 0 true }
        else p1) L.endOfLoop) :=
    Grows.resolveLabel _ (Grows.if_then_else (Grows.addOp _ (by simp only []; decide) g1) g1)
  generalize (sqlite3VdbeResolveLabel (if L.pTrigger ≠ [] then sqlite3VdbeAddOp p1 _ else p1)
    L.endOfLoop) = p2 at h2 g2 ⊢
  generalize (sqlite3VdbeResolveLabel (if L.pTrigger ≠ [] then sqlite3VdbeAddOp q1 _ else q1)
    L.endOfLoop) = q2 at h2 ⊢
  by_cases hu : L.useTempTable = true
  · rw [if_pos hu, if_pos hu]
    obtain ⟨x, hx, hrole⟩ := hat (Or.inl hu)
    apply Sim.sim_addOp1 _ _ _ (by simp [shiftOp, operandRoles, shiftOperand, hL.srcTab hu])
    apply Sim.sim_jumpHere
    · exact role_of_opcodeAt _ _ x hrole
        ((Grows.addOp2 _ _ _ (by decide) g2).opcodeAt _ _ hx)
    · exact Sim.sim_addOp2 _ _ _ _ _
        (by simp [shiftOp, operandRoles, shiftOperand, hL.srcTab hu]) h2
  · rw [if_neg hu, if_neg hu]
    by_cases hs : L.pSelect.isSome = true
    · rw [if_pos hs, if_pos hs]
      obtain ⟨x, hx, hrole⟩ := hat (Or.inr hs)
      apply Sim.sim_jumpHere
      · exact role_of_opcodeAt _ _ x hrole ((Grows.goto _ (by decide) g2).opcodeAt _ _ hx)
      · exact Sim.sim_goto _ h2
    · rw [if_neg hs, if_neg hs]
      exact h2

end ShiftBody

section ShiftInsert

variable {r c : Int} {p q : Parse}

theorem sqlite3Insert_loop_sim (ext : Extern) (pTab : Table) (onError : on_conflict_action)
    (L M : InsertLocals) (cnt : Bool) (hcnt : cnt = p.user_session.SQLITE_CountRows)
    (hL : SimL r c cnt pTab.pIndex.length false L M) (h : Sim r c p q) :
    SimR r c (sqlite3Insert_loop ext p pTab onError L)
      (sqlite3Insert_loop ext q pTab onError M) := by
  unfold sqlite3Insert_loop
  simp only []
  obtain ⟨hL1, h1⟩ := sqlite3Insert_open_sim ext pTab onError L M cnt _ hcnt rfl hL h
  have k1 := (sqlite3Insert_open_keeps ext p pTab onError L).user_session
  generalize sqlite3Insert_open ext p pTab onError L = O at hL1 h1 k1 ⊢
  generalize sqlite3Insert_open ext q pTab onError M = O' at hL1 h1 ⊢
  obtain ⟨hL2, h2⟩ := sqlite3Insert_top_sim O.1 O'.1 cnt _ true hL1 h1
  have k2 := (sqlite3Insert_top_keeps O.2 O.1).user_session
  have a2 := sqlite3Insert_top_addrInsTop O.2 O.1
  have u2 : (sqlite3Insert_top O.2 O.1).1.useTempTable = O.1.useTempTable
      ∧ (sqlite3Insert_top O.2 O.1).1.pSelect = O.1.pSelect := by
    unfold sqlite3Insert_top
    simp only []
    split_ifs <;> exact ⟨rfl, rfl⟩
  rw [← u2.1, ← u2.2] at a2
  clear u2
  generalize sqlite3Insert_top O.2 O.1 = T at hL2 h2 k2 a2 ⊢
  generalize sqlite3Insert_top O'.2 O'.1 = T' at hL2 h2 ⊢
  obtain ⟨e3, h3⟩ := sqlite3Insert_before_sim pTab onError T.1 T'.1 cnt _ true hL2 h2
  have k3 := (sqlite3Insert_before_keeps T.2 pTab onError T.1).user_session
  have g3 := sqlite3Insert_before_grows T.2 pTab onError T.1
  have t3 := sqlite3Insert_before_table T.2 pTab onError T.1
  generalize sqlite3Insert_before T.2 pTab onError T.1 = B at e3 h3 k3 g3 t3 ⊢
  generalize sqlite3Insert_before T'.2 pTab onError T'.1 = B' at e3 h3 ⊢
  rw [e3, hL2.isView]
  have hidx : B.1.pIndex.length = pTab.pIndex.length := by
    rcases t3 with e | e
    · rw [e]
    · rw [e]
      rfl
  have hL2' : SimL r c cnt B.1.pIndex.length true T.1 T'.1 := by
    rw [hidx]
    exact hL2
  have hcB : cnt = B.2.user_session.SQLITE_CountRows := by
    rw [k3, k2, k1]
    exact hcnt
  by_cases hv : T.1.isView = false
  · rw [if_pos hv, if_pos hv]
    have hn := sqlite3Insert_newRow_sim B.1 T.1 T'.1 cnt _ true hL2 h3
    have kn := (sqlite3Insert_newRow_keeps B.2 B.1 T.1).user_session
    have gn := sqlite3Insert_newRow_grows B.2 B.1 T.1
    rcases sqlite3Insert_write_sim ext B.1 onError T.1 T'.1 cnt hL2' hv hn with
      ⟨w1, w2⟩ | ⟨R, R', w1, w2, w3, w4⟩
    · rw [w1, w2]
      trivial
    · rw [w1, w2]
      have kw := (sqlite3Insert_write_keeps ext _ B.1 onError T.1 R w1).user_session
      have gw := sqlite3Insert_write_grows ext _ B.1 onError T.1 R w1
      have hb := sqlite3Insert_bottom_sim R.1 onError T.1 T'.1 cnt _
        (by rw [kw, kn]; exact hcB) hL2
        (fun hs => by
          obtain ⟨x, hx, hrole⟩ := a2 hs
          exact ⟨x, gw.opcodeAt _ _ (gn.opcodeAt _ _ (g3.opcodeAt _ _ hx)), hrole⟩) w4
      have kb := (sqlite3Insert_bottom_keeps R.2 R.1 onError T.1).user_session
      refine ⟨rfl, ?_, ?_⟩
      · simp only [w3]
      · simp only [w3]
        exact sqlite3Insert_end_sim _ _
          (fun hc => hL2.regRowCount rfl (by rw [hcB, ← kn, ← kw, ← kb]; exact hc)) hb
  · rw [if_neg hv, if_neg hv]
    have hb := sqlite3Insert_bottom_sim B.1 onError T.1 T'.1 cnt _ hcB hL2
      (fun hs => by
        obtain ⟨x, hx, hrole⟩ := a2 hs
        exact ⟨x, g3.opcodeAt _ _ hx, hrole⟩) h3
    have kb := (sqlite3Insert_bottom_keeps B.2 B.1 onError T.1).user_session
    exact ⟨rfl, rfl, sqlite3Insert_end_sim _ _
      (fun hc => hL2.regRowCount rfl (by rw [hcB, ← kb]; exact hc)) hb⟩

end ShiftInsert

section ShiftSource

variable {r c : Int} {p q : Parse}

/-- Before the destination is opened, the comparison of the local variables does not depend
on whether the rows are counted or on the number of indexes. -/
theorem SimL.recount {L M : InsertLocals} {cnt : Bool} {nIdx : Nat} (cnt' : Bool)
    (nIdx' : Nat) (hL : SimL r c cnt nIdx false L M) : SimL r c cnt' nIdx' false L M :=
  ⟨hL.nColumn, hL.ipkColumn, hL.endOfLoop, hL.addrInsTop, hL.addrCont,
    hL.useTempTable, hL.bIdListInOrder, hL.pList, hL.pSelect, hL.pColumn,
    hL.isView, hL.pTrigger, hL.tmask, hL.srcTab, hL.regFromSelect, hL.regYield,
    hL.regIns, hL.regInsPos, hL.regTupleid, hL.regData, hL.noRegister,
    fun hh => Bool.noConfusion hh, fun hh => Bool.noConfusion hh,
    fun hh => Bool.noConfusion hh, fun hh => Bool.noConfusion hh⟩

theorem sqlite3Insert_shape_sim (ext : Extern) (pTab : Table) (onError : on_conflict_action)
    (L M : InsertLocals) (cnt : Bool) (nIdx : Nat) (hL : SimL r c cnt nIdx false L M)
    (h : Sim r c p q) :
    SimR r c (sqlite3Insert_shape ext p pTab onError L)
      (sqlite3Insert_shape ext q pTab onError M) := by
  have aux : ∀ L1 M1 : InsertLocals,
      SimL r c p.user_session.SQLITE_CountRows pTab.pIndex.length false L1 M1 →
      SimR r c
        (if L1.pColumn.isNone = true ∧ L1.nColumn ≠ 0 ∧ L1.nColumn ≠ pTab.nCol then
          some (sqlite3Insert_cleanup
            (sqlite3ErrorMsg p
              ("table " ++ pTab.zName ++ " has " ++ toString pTab.nCol ++ " columns but "
                ++ toString L1.nColumn ++ " values were supplied")) (some pTab) L1)
        else if L1.pColumn.isSome = true ∧ L1.nColumn ≠ (L1.pColumn.getD []).length then
          some (sqlite3Insert_cleanup
            (sqlite3ErrorMsg p
              (toString L1.nColumn ++ " values for " ++ toString (L1.pColumn.getD []).length
                ++ " columns")) (some pTab) L1)
        else sqlite3Insert_loop ext p pTab onError L1)
        (if M1.pColumn.isNone = true ∧ M1.nColumn ≠ 0 ∧ M1.nColumn ≠ pTab.nCol then
          some (sqlite3Insert_cleanup
            (sqlite3ErrorMsg q
              ("table " ++ pTab.zName ++ " has " ++ toString pTab.nCol ++ " columns but "
                ++ toString M1.nColumn ++ " values were supplied")) (some pTab) M1)
        else if M1.pColumn.isSome = true ∧ M1.nColumn ≠ (M1.pColumn.getD []).length then
          some (sqlite3Insert_cleanup
            (sqlite3ErrorMsg q
              (toString M1.nColumn ++ " values for " ++ toString (M1.pColumn.getD []).length
                ++ " columns")) (some pTab) M1)
        else sqlite3Insert_loop ext q pTab onError M1) := by
    intro L1 M1 hL1
    rw [hL1.nColumn, hL1.pColumn]
    split_ifs
    · exact ⟨rfl, rfl, Sim.sim_errorMsg _ h⟩
    · exact ⟨rfl, rfl, Sim.sim_errorMsg _ h⟩
    · exact sqlite3Insert_loop_sim ext pTab onError L1 M1 _ rfl hL1 h
  unfold sqlite3Insert_shape
  simp only []
  by_cases hc : L.pColumn.isNone = true ∧ L.nColumn > 0
  · have hc' : M.pColumn.isNone = true ∧ M.nColumn > 0 := by
      rw [hL.pColumn, hL.nColumn]
      exact hc
    rw [if_pos hc, if_pos hc']
    exact aux _ _ (SimL.recount _ _ ⟨hL.nColumn, rfl, hL.endOfLoop, hL.addrInsTop, hL.addrCont, hL.useTempTable,
      hL.bIdListInOrder, hL.pList, hL.pSelect, hL.pColumn, hL.isView,
      hL.pTrigger, hL.tmask, hL.srcTab, hL.regFromSelect, hL.regYield,
      hL.regIns, hL.regInsPos, hL.regTupleid, hL.regData, hL.noRegister,
      hL.regRowCount, hL.iDataCur, hL.iIdxCur, hL.aRegIdx⟩)
  · have hc' : ¬ (M.pColumn.isNone = true ∧ M.nColumn > 0) := by
      rw [hL.pColumn, hL.nColumn]
      exact hc
    rw [if_neg hc, if_neg hc']
    exact aux _ _ (SimL.recount _ _ hL)

theorem sqlite3Insert_stage_sim (regYield regFromSelect regYield' regFromSelect' : Int)
    (nColumn : Nat) (hy : regYield' = regYield + r) (hf : regFromSelect' = regFromSelect + r)
    (h : Sim r c p q) :
    (sqlite3Insert_stage q regYield' regFromSelect' nColumn).1
        = (sqlite3Insert_stage p regYield regFromSelect nColumn).1 + c
      ∧ Sim r c (sqlite3Insert_stage p regYield regFromSelect nColumn).2
        (sqlite3Insert_stage q regYield' regFromSelect' nColumn).2 := by
  unfold sqlite3Insert_stage
  simp only [sqlite3ReleaseTempReg, sqlite3ReleaseTempRange]
  have ht := h.nTab
  have h0 : Sim r c (p.setNTab (p.nTab + 1)) (q.setNTab (q.nTab + 1)) :=
    Sim.sim_setNTab _ _ (by push_cast; omega) h
  have hrec := Sim.tempReg h0
  have h1 := Sim.sim_getTempReg h0
  have hcopy := Sim.tempRange h1 nColumn
  have h2 := Sim.sim_getTempRange nColumn h1
  have htmp := Sim.tempReg h2
  have h3 := Sim.sim_getTempReg h2
  generalize (sqlite3GetTempReg (p.setNTab (p.nTab + 1))).1 = regRec at hrec ⊢
  generalize (sqlite3GetTempReg (q.setNTab (q.nTab + 1))).1 = regRec' at hrec ⊢
  generalize (sqlite3GetTempReg (p.setNTab (p.nTab + 1))).2 = p1 at h1 hcopy h2 htmp h3 ⊢
  generalize (sqlite3GetTempReg (q.setNTab (q.nTab + 1))).2 = q1 at h1 hcopy h2 htmp h3 ⊢
  generalize (sqlite3GetTempRange p1 nColumn).1 = regCopy at hcopy ⊢
  generalize (sqlite3GetTempRange q1 nColumn).1 = regCopy' at hcopy ⊢
  generalize (sqlite3GetTempRange p1 nColumn).2 = p2 at h2 htmp h3 ⊢
  generalize (sqlite3GetTempRange q1 nColumn).2 = q2 at h2 htmp h3 ⊢
  generalize (sqlite3GetTempReg p2).1 = regTempId at htmp ⊢
  generalize (sqlite3GetTempReg q2).1 = regTempId' at htmp ⊢
  generalize (sqlite3GetTempReg p2).2 = p3 at h3 ⊢
  generalize (sqlite3GetTempReg q2).2 = q3 at h3 ⊢
  refine ⟨ht, ?_⟩
  have h4 : Sim r c
      (sqlite3VdbeAddOp4 p3 OP_OpenTEphemeral p.nTab (nColumn + 1) 0
        (P4_KEYINFO (1 + nColumn) none))
      (sqlite3VdbeAddOp4 q3 OP_OpenTEphemeral q.nTab (nColumn + 1) 0
        (P4_KEYINFO (1 + nColumn) none)) :=
    Sim.sim_addOp4 _ _ _ _ _ _ _ _ (by simp [shiftOp, operandRoles, shiftOperand, ht]) h3
  rw [h4.addr]
  generalize sqlite3VdbeAddOp4 p3 OP_OpenTEphemeral p.nTab (nColumn + 1) 0 _ = p4 at h4 ⊢
  generalize sqlite3VdbeAddOp4 q3 OP_OpenTEphemeral q.nTab (nColumn + 1) 0 _ = q4 at h4 ⊢
  apply Sim.sim_jumpHere
  · exact role_at_append p4.aOp _ { opcode := OP_Yield, p1 := regYield } rfl _
      (by simp [sqlite3VdbeGoto, sqlite3VdbeAddOp3, sqlite3VdbeAddOp2, sqlite3VdbeAddOp1,
        sqlite3VdbeAddOp, sqlite3VdbeChangeP5, changeLastOp_append_cons, changeLastOp]; rfl)
  · apply Sim.sim_goto
    apply Sim.sim_addOp2 _ _ _ _ _ (by simp [shiftOp, operandRoles, shiftOperand, ht, hrec])
    apply Sim.sim_changeP5
    apply Sim.sim_addOp3 _ _ _ _ _ _ _
      (by simp [shiftOp, operandRoles, shiftOperand, hcopy, hrec])
    apply Sim.sim_addOp3 _ _ _ _ _ _ _
      (by simp [shiftOp, operandRoles, shiftOperand, hcopy, hf])
    apply Sim.sim_addOp3 _ _ _ _ _ _ _
      (by simp [shiftOp, operandRoles, shiftOperand, ht, htmp])
    exact Sim.sim_addOp1 _ _ _ (by simp [shiftOp, operandRoles, shiftOperand, hy]) h4

end ShiftSource

section ShiftSelect

variable {r c : Int} {p q : Parse}

theorem sqlite3Select_sim (ext : Extern) (hext : ExternShift r c ext) (s : Select)
    (d e : SelectDest) (hy : e.iSDParm = d.iSDParm + r)
    (hd : (d.iSdst = 0 ∧ e.iSdst = 0) ∨ (0 < d.iSdst ∧ 0 < e.iSdst ∧ e.iSdst = d.iSdst + r))
    (hn : e.nSdst = d.nSdst) (h : Sim r c p q) :
    (sqlite3Select ext q s e).1 = (sqlite3Select ext p s d).1
      ∧ (sqlite3Select ext q s e).2.1 = (sqlite3Select ext p s d).2.1
      ∧ (sqlite3Select ext q s e).2.2.1.iSdst = (sqlite3Select ext p s d).2.2.1.iSdst + r
      ∧ Sim r c (sqlite3Select ext p s d).2.2.2 (sqlite3Select ext q s e).2.2.2 := by
  obtain ⟨e1, e2, e3, e4, e5, e6, e7, e8⟩ := hext.select p q s d e h hy hd hn
  unfold sqlite3Select
  simp only []
  refine ⟨e1, by rw [e8], e7, ?_⟩
  have hm := h.nMem
  have ht := h.nTab
  exact ⟨by simp only [h.db, e6], h.user_session, by simp only [h.nErr, e5], h.zErrMsg,
    h.checkSchema, by simp only [e3]; push_cast; omega, by simp only [e4]; push_cast; omega,
    h.nested, h.pTriggerTab, h.pWith, h.mayAbort, h.isMultiWrite, h.pVdbe,
    by simp only [h.aOp, e2, List.map_append], h.aLabel, h.changeCntOn, h.aColName⟩

theorem readsTable_sim (pTab : Table) (h : Sim r c p q) :
    readsTable q pTab = readsTable p pTab := by
  unfold readsTable
  simp only []
  have hv := Sim.sim_vdbe h
  rw [hv.aOp, ← List.map_drop, List.any_map]
  have hf : ((fun pOp : VdbeOp => pOp.opcode == OP_OpenRead && readsTable_match pTab pOp.p2)
      ∘ shiftOp r c)
      = (fun pOp : VdbeOp => pOp.opcode == OP_OpenRead && readsTable_match pTab pOp.p2) := by
    funext o
    simp only [Function.comp, shiftOp_opcode]
    by_cases ho : o.opcode = OP_OpenRead
    · simp [shiftOp, ho, operandRoles, shiftOperand]
    · have hb : (o.opcode == OP_OpenRead) = false := by
        rw [beq_eq_false_iff_ne]
        exact ho
      rw [hb]
      rfl
  rw [hf]

theorem sqlite3Insert_coroutine_sim (ext : Extern) (hext : ExternShift r c ext) (pTab : Table)
    (L M : InsertLocals) (s : Select)
    (hM : M = { L with regIns := L.regIns + r, regTupleid := L.regTupleid + r,
                       regData := L.regData + r })
    (hu : L.useTempTable = false) (hpos : 0 < L.regIns ∧ 0 < L.regIns + r)
    (hdat : 0 < L.regData ∧ 0 < L.regData + r)
    (hreg : ∀ l, L.pList = some l → ∀ it ∈ l, it.pExpr.op ≠ TK_REGISTER)
    (h : Sim r c p q) :
    (sqlite3Insert_coroutine ext q pTab M s).1 = (sqlite3Insert_coroutine ext p pTab L s).1
      ∧ SimL r c false 0 false (sqlite3Insert_coroutine ext p pTab L s).2.1
        (sqlite3Insert_coroutine ext q pTab M s).2.1
      ∧ (sqlite3Insert_coroutine ext p pTab L s).2.1.useTempTable = false
      ∧ (sqlite3Insert_coroutine ext p pTab L s).2.1.pSelect.isSome = true
      ∧ Sim r c (sqlite3Insert_coroutine ext p pTab L s).2.2
        (sqlite3Insert_coroutine ext q pTab M s).2.2 := by
  subst hM
  unfold sqlite3Insert_coroutine
  simp only []
  have hm := h.nMem
  have h1 : Sim r c
      (sqlite3VdbeAddOp3 (p.allocMem 1) OP_InitCoroutine ((p.nMem + 1 : Nat) : Int) 0
        ((sqlite3VdbeCurrentAddr (p.allocMem 1) + 1 : Nat) : Int))
      (sqlite3VdbeAddOp3 (q.allocMem 1) OP_InitCoroutine ((q.nMem + 1 : Nat) : Int) 0
        ((sqlite3VdbeCurrentAddr (q.allocMem 1) + 1 : Nat) : Int)) := by
    rw [(Sim.sim_allocMem 1 h).addr]
    exact Sim.sim_addOp3 _ _ _ _ _ _ _
      (by simp [shiftOp, operandRoles, shiftOperand]; omega) (Sim.sim_allocMem 1 h)
  have ha : sqlite3VdbeCurrentAddr (q.allocMem 1) = sqlite3VdbeCurrentAddr (p.allocMem 1) :=
    (Sim.sim_allocMem 1 h).addr
  obtain ⟨s1, s2, s3, s4⟩ := sqlite3Select_sim ext hext s
    { iSDParm := ((p.nMem + 1 : Nat) : Int),
      iSdst := if L.bIdListInOrder = true then L.regData else 0, nSdst := pTab.nCol }
    { iSDParm := ((q.nMem + 1 : Nat) : Int),
      iSdst := if L.bIdListInOrder = true then L.regData + r else 0, nSdst := pTab.nCol }
    (by simp only []; push_cast; omega)
    (by
      simp only []
      split_ifs
      · right; omega
      · left; exact ⟨rfl, rfl⟩) rfl h1
  have hgrow : ∃ cs, (sqlite3Select ext
      (sqlite3VdbeAddOp3 (p.allocMem 1) OP_InitCoroutine ((p.nMem + 1 : Nat) : Int) 0
        ((sqlite3VdbeCurrentAddr (p.allocMem 1) + 1 : Nat) : Int)) s
      { iSDParm := ((p.nMem + 1 : Nat) : Int),
        iSdst := if L.bIdListInOrder = true then L.regData else 0,
        nSdst := pTab.nCol }).2.2.2.aOp
      = p.aOp ++ { opcode := OP_InitCoroutine, p1 := ((p.nMem + 1 : Nat) : Int), p2 := 0,
                   p3 := ((sqlite3VdbeCurrentAddr (p.allocMem 1) + 1 : Nat) : Int) } :: cs :=
    ⟨_, by simp [sqlite3Select, sqlite3VdbeAddOp3, sqlite3VdbeAddOp, Parse.allocMem]; rfl⟩
  generalize sqlite3Select ext
    (sqlite3VdbeAddOp3 (p.allocMem 1) OP_InitCoroutine ((p.nMem + 1 : Nat) : Int) 0 _) s _
    = S at s1 s2 s3 s4 hgrow ⊢
  generalize sqlite3Select ext
    (sqlite3VdbeAddOp3 (q.allocMem 1) OP_InitCoroutine ((q.nMem + 1 : Nat) : Int) 0 _) s _
    = S' at s1 s2 s3 s4 ⊢
  rw [s1, s2, s4.db, s4.nErr, ha]
  obtain ⟨cs, hcs⟩ := hgrow
  split_ifs
  · exact ⟨rfl, ⟨rfl, rfl, rfl, rfl, rfl, rfl, rfl, rfl, rfl, rfl, rfl, rfl, rfl,
      fun hh => absurd (hu ▸ hh) Bool.noConfusion, fun _ => s3,
      fun _ => by simp only []; push_cast; omega, rfl, hpos, rfl, rfl, hreg,
      fun hh => Bool.noConfusion hh, fun hh => Bool.noConfusion hh,
      fun hh => Bool.noConfusion hh, fun hh => Bool.noConfusion hh⟩, hu, rfl, s4⟩
  · refine ⟨rfl, ⟨rfl, rfl, rfl, rfl, rfl, rfl, rfl, rfl, rfl, rfl, rfl, rfl, rfl,
      fun hh => absurd (hu ▸ hh) Bool.noConfusion, fun _ => s3,
      fun _ => by simp only []; push_cast; omega, rfl, hpos, rfl, rfl, hreg,
      fun hh => Bool.noConfusion hh, fun hh => Bool.noConfusion hh,
      fun hh => Bool.noConfusion hh, fun hh => Bool.noConfusion hh⟩, hu, rfl, ?_⟩
    apply Sim.sim_jumpHere
    · have e : sqlite3VdbeCurrentAddr (p.allocMem 1) + 1 - 1 = p.aOp.length := by
        simp [sqlite3VdbeCurrentAddr, Parse.allocMem]
      rw [e]
      exact role_at_append p.aOp _
        { opcode := OP_InitCoroutine, p1 := ((p.nMem + 1 : Nat) : Int), p2 := 0,
          p3 := ((sqlite3VdbeCurrentAddr (p.allocMem 1) + 1 : Nat) : Int) } rfl _
        (by simp only [sqlite3VdbeEndCoroutine, sqlite3VdbeAddOp1, sqlite3VdbeAddOp, hcs,
          List.append_assoc, List.cons_append]; rfl)
    · exact Sim.sim_addOp1 _ _ _ (by simp [shiftOp, operandRoles, shiftOperand]; omega) s4

theorem sqlite3Insert_source_default (ext : Extern) (p : Parse) (pTab : Table)
    (onError : on_conflict_action) (L : InsertLocals) (hs : L.pSelect = none)
    (hl : L.pList = none) :
    sqlite3Insert_source ext p pTab onError L
      = sqlite3Insert_shape ext p pTab onError { L with srcTab := -1, nColumn := 0 } := by
  unfold sqlite3Insert_source
  simp only [hs, hl]

theorem sqlite3Insert_source_values (ext : Extern) (p : Parse) (pTab : Table)
    (onError : on_conflict_action) (L : InsertLocals) (l : ExprList) (hs : L.pSelect = none)
    (hl : L.pList = some l) :
    sqlite3Insert_source ext p pTab onError L
      = match ext.sqlite3ResolveExprListNames p l with
        | some zErr =>
          some (sqlite3Insert_cleanup (sqlite3ErrorMsg p zErr) (some pTab)
            { L with srcTab := -1, nColumn := l.length })
        | none =>
          sqlite3Insert_shape ext p pTab onError { L with srcTab := -1, nColumn := l.length } := by
  unfold sqlite3Insert_source
  simp only [hs, hl]

theorem sqlite3Insert_source_subselect (ext : Extern) (p : Parse) (pTab : Table)
    (onError : on_conflict_action) (L : InsertLocals) (s : Select) (hs : L.pSelect = some s) :
    sqlite3Insert_source ext p pTab onError L
      = if (sqlite3Insert_coroutine ext p pTab L s).1 = false then
          some (sqlite3Insert_cleanup (sqlite3Insert_coroutine ext p pTab L s).2.2 (some pTab)
            (sqlite3Insert_coroutine ext p pTab L s).2.1)
        else if decide ((sqlite3Insert_coroutine ext p pTab L s).2.1.pTrigger ≠ []
            ∨ readsTable (sqlite3Insert_coroutine ext p pTab L s).2.2 pTab ≠ 0) = true then
          sqlite3Insert_shape ext
            (sqlite3Insert_stage (sqlite3Insert_coroutine ext p pTab L s).2.2
              (sqlite3Insert_coroutine ext p pTab L s).2.1.regYield
              (sqlite3Insert_coroutine ext p pTab L s).2.1.regFromSelect
              (sqlite3Insert_coroutine ext p pTab L s).2.1.nColumn).2 pTab onError
            { (sqlite3Insert_coroutine ext p pTab L s).2.1 with
              useTempTable := true
              srcTab := (sqlite3Insert_stage (sqlite3Insert_coroutine ext p pTab L s).2.2
                (sqlite3Insert_coroutine ext p pTab L s).2.1.regYield
                (sqlite3Insert_coroutine ext p pTab L s).2.1.regFromSelect
                (sqlite3Insert_coroutine ext p pTab L s).2.1.nColumn).1 }
        else
          sqlite3Insert_shape ext (sqlite3Insert_coroutine ext p pTab L s).2.2 pTab onError
            { (sqlite3Insert_coroutine ext p pTab L s).2.1 with useTempTable := false } := by
  unfold sqlite3Insert_source
  simp only [hs]
  generalize sqlite3Insert_coroutine ext p pTab L s = C
  by_cases hok : C.1 = false
  · rw [if_pos hok, if_pos hok]
  · rw [if_neg hok, if_neg hok]
    by_cases ht : decide (C.2.1.pTrigger ≠ [] ∨ readsTable C.2.2 pTab ≠ 0) = true
    · rw [if_pos ht, if_pos ht, ht]
    · rw [if_neg ht, if_neg ht]
      simp only [Bool.not_eq_true] at ht
      rw [ht]

theorem sqlite3Insert_source_sim (ext : Extern) (hext : ExternShift r c ext) (pTab : Table)
    (onError : on_conflict_action) (L M : InsertLocals)
    (hM : M = { L with regIns := L.regIns + r, regTupleid := L.regTupleid + r,
                       regData := L.regData + r })
    (hu : L.useTempTable = false) (hpos : 0 < L.regIns ∧ 0 < L.regIns + r)
    (hdat : 0 < L.regData ∧ 0 < L.regData + r)
    (hreg : ∀ l, L.pList = some l → ∀ it ∈ l, it.pExpr.op ≠ TK_REGISTER)
    (h : Sim r c p q) :
    SimR r c (sqlite3Insert_source ext p pTab onError L)
      (sqlite3Insert_source ext q pTab onError M) := by
  have hsM : M.pSelect = L.pSelect := by rw [hM]
  have hlM : M.pList = L.pList := by rw [hM]
  cases hs : L.pSelect with
  | none =>
    cases hl : L.pList with
    | none =>
      rw [sqlite3Insert_source_default ext p pTab onError L hs hl,
        sqlite3Insert_source_default ext q pTab onError M (hsM.trans hs) (hlM.trans hl)]
      subst hM
      exact sqlite3Insert_shape_sim ext pTab onError _ _ false 0
        ⟨rfl, rfl, rfl, rfl, rfl, rfl, rfl, rfl, rfl, rfl, rfl, rfl, rfl,
        fun hh => absurd (hu ▸ hh) Bool.noConfusion,
        fun hh => absurd (hs ▸ hh) Bool.noConfusion,
        fun hh => absurd (hs ▸ hh) Bool.noConfusion, rfl, hpos, rfl, rfl,
        fun l hh => absurd (hl ▸ hh) Option.noConfusion,
        fun hh => Bool.noConfusion hh, fun hh => Bool.noConfusion hh,
        fun hh => Bool.noConfusion hh, fun hh => Bool.noConfusion hh⟩ h
    | some pList =>
      rw [sqlite3Insert_source_values ext p pTab onError L pList hs hl,
        sqlite3Insert_source_values ext q pTab onError M pList (hsM.trans hs) (hlM.trans hl),
        hext.resolveExprListNames p q pList h]
      subst hM
      cases ext.sqlite3ResolveExprListNames p pList with
      | some zErr => exact ⟨rfl, rfl, Sim.sim_errorMsg _ h⟩
      | none =>
        exact sqlite3Insert_shape_sim ext pTab onError _ _ false 0
          ⟨rfl, rfl, rfl, rfl, rfl, rfl, rfl, rfl, rfl, rfl, rfl, rfl, rfl,
          fun hh => absurd (hu ▸ hh) Bool.noConfusion,
          fun hh => absurd (hs ▸ hh) Bool.noConfusion,
          fun hh => absurd (hs ▸ hh) Bool.noConfusion, rfl, hpos, rfl, rfl,
          fun l hh => hreg l hh, fun hh => Bool.noConfusion hh,
          fun hh => Bool.noConfusion hh, fun hh => Bool.noConfusion hh,
          fun hh => Bool.noConfusion hh⟩ h
  | some s =>
    rw [sqlite3Insert_source_subselect ext p pTab onError L s hs,
      sqlite3Insert_source_subselect ext q pTab onError M s (hsM.trans hs)]
    obtain ⟨e1, hL1, hu1, hs1, h1⟩ := sqlite3Insert_coroutine_sim ext hext pTab L M s hM hu hpos
      hdat hreg h
    generalize sqlite3Insert_coroutine ext p pTab L s = C at e1 hL1 hu1 hs1 h1 ⊢
    generalize sqlite3Insert_coroutine ext q pTab M s = C' at e1 hL1 h1 ⊢
    rw [e1, hL1.pTrigger, readsTable_sim pTab h1]
    by_cases hok : C.1 = false
    · rw [if_pos hok, if_pos hok]
      exact ⟨rfl, rfl, h1⟩
    · rw [if_neg hok, if_neg hok]
      by_cases ht : decide (C.2.1.pTrigger ≠ [] ∨ readsTable C.2.2 pTab ≠ 0) = true
      · rw [if_pos ht, if_pos ht]
        obtain ⟨t1, t2⟩ := sqlite3Insert_stage_sim C.2.1.regYield C.2.1.regFromSelect
          C'.2.1.regYield C'.2.1.regFromSelect C.2.1.nColumn (hL1.regYield hs1)
          (hL1.regFromSelect hs1) h1
        rw [hL1.nColumn]
        exact sqlite3Insert_shape_sim ext pTab onError _ _ false 0
          ⟨hL1.nColumn, hL1.ipkColumn, hL1.endOfLoop, hL1.addrInsTop, hL1.addrCont, rfl,
          hL1.bIdListInOrder, hL1.pList, hL1.pSelect, hL1.pColumn, hL1.isView,
          hL1.pTrigger, hL1.tmask, fun _ => t1, hL1.regFromSelect, hL1.regYield,
          hL1.regIns, hL1.regInsPos, hL1.regTupleid, hL1.regData, hL1.noRegister,
          hL1.regRowCount, hL1.iDataCur, hL1.iIdxCur, hL1.aRegIdx⟩ t2
      · rw [if_neg ht, if_neg ht]
        exact sqlite3Insert_shape_sim ext pTab onError _ _ false 0
          ⟨hL1.nColumn, hL1.ipkColumn, hL1.endOfLoop, hL1.addrInsTop, hL1.addrCont, rfl,
          hL1.bIdListInOrder, hL1.pList, hL1.pSelect, hL1.pColumn, hL1.isView,
          hL1.pTrigger, hL1.tmask, fun hh => Bool.noConfusion hh,
          hL1.regFromSelect, hL1.regYield, hL1.regIns, hL1.regInsPos,
          hL1.regTupleid, hL1.regData, hL1.noRegister, hL1.regRowCount,
          hL1.iDataCur, hL1.iIdxCur, hL1.aRegIdx⟩ h1

end ShiftSelect

section ShiftGeneral

variable {r c : Int} {p q : Parse}

theorem Sim.sim_setCheckSchema (v : Bool) (h : Sim r c p q) :
    Sim r c { p with checkSchema := v } { q with checkSchema := v } :=
  ⟨h.db, h.user_session, h.nErr, h.zErrMsg, rfl, h.nMem, h.nTab, h.nested, h.pTriggerTab,
    h.pWith, h.mayAbort, h.isMultiWrite, h.pVdbe, h.aOp, h.aLabel, h.changeCntOn, h.aColName⟩

theorem Sim.sim_setChangeCntOn (v : Bool) (h : Sim r c p q) :
    Sim r c { p with changeCntOn := v } { q with changeCntOn := v } :=
  ⟨h.db, h.user_session, h.nErr, h.zErrMsg, h.checkSchema, h.nMem, h.nTab, h.nested,
    h.pTriggerTab, h.pWith, h.mayAbort, h.isMultiWrite, h.pVdbe, h.aOp, h.aLabel, rfl,
    h.aColName⟩

theorem sqlite3Insert_general_sim (ext : Extern) (hext : ExternShift r c ext) (pTab : Table)
    (onError : on_conflict_action) (L : InsertLocals) (hu : L.useTempTable = false)
    (hreg : ∀ l, L.pList = some l → ∀ it ∈ l, it.pExpr.op ≠ TK_REGISTER)
    (h : Sim r c p q) :
    SimR r c (sqlite3Insert_general ext p pTab onError L)
      (sqlite3Insert_general ext q pTab onError L) := by
  have ha := Sim.reg h 1
  have hm := h.nMem
  have h1 := Sim.sim_allocMem (pTab.nCol + 1) h
  cases hc : L.pColumn with
  | none =>
    unfold sqlite3Insert_general
    simp only [hc]
    rw [ha]
    exact sqlite3Insert_source_sim ext hext pTab onError _ _
      (by simp only [InsertLocals.mk.injEq, true_and, and_true]; omega) hu
      (by simp only []; push_cast; omega) (by simp only []; push_cast; omega) hreg h1
  | some cols =>
    unfold sqlite3Insert_general
    simp only [hc]
    rw [ha]
    cases sqlite3Insert_idlist pTab cols 0 {} with
    | error zName =>
      exact ⟨rfl, rfl, Sim.sim_setCheckSchema true (Sim.sim_errorMsg _ h1)⟩
    | ok st =>
      exact sqlite3Insert_source_sim ext hext pTab onError _ _
        (by simp only [InsertLocals.mk.injEq, true_and, and_true]; omega) hu
        (by simp only []; push_cast; omega) (by simp only []; push_cast; omega) hreg h1

end ShiftGeneral

section ShiftXfer

variable {r c : Int} {p q : Parse}

theorem sqlite3LocateTableItem_sim (pItem : SrcList_item) (h : Sim r c p q) :
    (sqlite3LocateTableItem q pItem).1 = (sqlite3LocateTableItem p pItem).1
      ∧ Sim r c (sqlite3LocateTableItem p pItem).2 (sqlite3LocateTableItem q pItem).2 := by
  unfold sqlite3LocateTableItem
  rw [h.db]
  cases p.db.aTable.find? (fun t => t.zName == pItem.zName) with
  | none => exact ⟨rfl, Sim.sim_errorMsg _ h⟩
  | some t => exact ⟨rfl, h⟩

theorem sqlite3SrcListLookup_sim (pTabList : SrcList) (h : Sim r c p q) :
    (sqlite3SrcListLookup q pTabList).1 = (sqlite3SrcListLookup p pTabList).1
      ∧ Sim r c (sqlite3SrcListLookup p pTabList).2 (sqlite3SrcListLookup q pTabList).2 := by
  unfold sqlite3SrcListLookup
  cases pTabList with
  | nil => exact ⟨rfl, h⟩
  | cons pItem rest => exact sqlite3LocateTableItem_sim pItem h

theorem xferSyntaxOk_sim (pDest : Table) (s : Select) (h : Sim r c p q) :
    xferSyntaxOk q pDest s ↔ xferSyntaxOk p pDest s := by
  unfold xferSyntaxOk
  rw [h.pWith]

theorem xferStaticOk_sim (pDest : Table) (s : Select) (pSrc : Table) (h : Sim r c p q) :
    xferStaticOk q pDest s pSrc ↔ xferStaticOk p pDest s pSrc := by
  unfold xferStaticOk
  rw [xferSyntaxOk_sim pDest s h, (sqlite3LocateTableItem_sim _ h).1, h.user_session]

theorem xferBlock_shift (iSrc iDest regData : Int) (addr : Nat) (nMem : Int) (d s : Index)
    (hn : 0 ≤ nMem) :
    xferBlock (iSrc + c) (iDest + c) (regData + r) addr (nMem + r) d s
      = (xferBlock iSrc iDest regData addr nMem d s).map (shiftOp r c) := by
  have h1 : nMem + 1 ≠ 0 := by omega
  have h2 : nMem + 1 + 1 ≠ 0 := by omega
  simp only [xferBlock, List.map_cons, List.map_nil, shiftOp, operandRoles, shiftOperand,
    h1, h2, if_false, if_true]
  refine congrArg₂ _ ?_ (congrArg₂ _ ?_ (congrArg₂ _ ?_ (congrArg₂ _ ?_ ?_)))
  all_goals first
    | rfl
    | (simp only [VdbeOp.mk.injEq, true_and, and_true]; omega)

theorem xferCopyCode_shift (pSrc : Table) (iSrc iDest regData : Int) :
    ∀ (idxs : List Index) (addr : Nat) (nMem : Int), 0 ≤ nMem →
      xferCopyCode pSrc (iSrc + c) (iDest + c) (regData + r) idxs addr (nMem + r)
        = (xferCopyCode pSrc iSrc iDest regData idxs addr nMem).map (shiftOp r c) := by
  intro idxs
  induction idxs with
  | nil => intro addr nMem _; rfl
  | cons d rest ih =>
    intro addr nMem hn
    unfold xferCopyCode
    cases xferOptimization_srcIdx pSrc d with
    | none => rfl
    | some s =>
      simp only [List.map_append]
      rw [← xferBlock_shift iSrc iDest regData addr nMem d s hn,
        ← ih (addr + 10) (nMem + 1 + 1) (by omega)]
      have e : nMem + r + 1 + 1 = nMem + 1 + 1 + r := by omega
      rw [e]

theorem xferEmitCode_shift (pDest pSrc : Table) (pk : Index) (guard : Bool)
    (h : Sim r c p q) :
    xferEmitCode q pDest pSrc pk guard
      = (xferEmitCode p pDest pSrc pk guard).map (shiftOp r c) := by
  have hm := h.nMem
  have ht := h.nTab
  have hl := h.len
  have hpre : xferPreamble q pk pDest.pIndex.length guard
      = (xferPreamble p pk pDest.pIndex.length guard).map (shiftOp r c) := by
    have h3 : (p.nMem : Int) + 1 + 1 + 1 ≠ 0 := by omega
    cases guard
    all_goals
      simp only [xferPreamble, List.map_cons, List.map_nil, List.map_append, shiftOp,
        operandRoles, shiftOperand, h3, if_false, if_true, hl, Bool.false_eq_true,
        List.append_nil, List.cons_append, List.nil_append, List.cons.injEq,
        VdbeOp.mk.injEq, true_and, and_true]
      omega
  have hpost : xferPostamble q guard = (xferPostamble p guard).map (shiftOp r c) := by
    cases guard
    · rfl
    · simp only [xferPostamble, if_true, List.map_cons, List.map_nil, shiftOp, operandRoles,
        shiftOperand, List.cons.injEq, VdbeOp.mk.injEq, true_and, and_true]
      omega
  unfold xferEmitCode
  rw [List.map_append, List.map_append, ← hpre, ← hpost, hl]
  have hlen : (xferPreamble q pk pDest.pIndex.length guard).length
      = (xferPreamble p pk pDest.pIndex.length guard).length := by
    rw [hpre, List.length_map]
  rw [hlen, ← xferCopyCode_shift pSrc (p.nTab : Int) ((p.nTab : Int) + 1) ((p.nMem : Int) + 1)
    pDest.pIndex _ ((p.nMem : Int) + 1 + 1 + 1) (by omega)]
  have e1 : ((q.nTab : Int)) = (p.nTab : Int) + c := ht
  have e2 : ((q.nTab : Int)) + 1 = (p.nTab : Int) + 1 + c := by omega
  have e3 : ((q.nMem : Int)) + 1 = (p.nMem : Int) + 1 + r := by omega
  have e4 : ((p.nMem : Int)) + 1 + r + 1 + 1 = (p.nMem : Int) + 1 + 1 + 1 + r := by omega
  rw [e2, e3, e4, e1]

theorem xferOptimization_emit_sim (pDest pSrc : Table) (onError : on_conflict_action)
    (u : Bool) (hidx : ∀ d ∈ pDest.pIndex, (xferOptimization_srcIdx pSrc d).isSome = true)
    (h : Sim r c p q) :
    (xferOptimization_emit p pDest pSrc onError u = none
      ∧ xferOptimization_emit q pDest pSrc onError u = none)
    ∨ ∃ a b, xferOptimization_emit p pDest pSrc onError u = some a
      ∧ xferOptimization_emit q pDest pSrc onError u = some b
      ∧ b.1 = a.1 ∧ Sim r c a.2 b.2 ∧ a.2.user_session = p.user_session := by
  cases hpk : sqlite3PrimaryKeyIndex pDest with
  | none =>
    left
    exact ⟨xferOptimization_emit_none _ _ _ _ _ hpk, xferOptimization_emit_none _ _ _ _ _ hpk⟩
  | some pk =>
    right
    rw [xferOptimization_emit_eq p pDest pSrc onError u pk hpk hidx,
      xferOptimization_emit_eq q pDest pSrc onError u pk hpk hidx]
    have hv := Sim.sim_vdbe h
    have hm := hv.nMem
    have ht := hv.nTab
    refine ⟨_, _, rfl, rfl, rfl, ?_, sqlite3GetVdbe_user_session p⟩
    exact ⟨hv.db, hv.user_session, hv.nErr, hv.zErrMsg, hv.checkSchema,
      by simp only []; push_cast; omega, by simp only []; push_cast; omega, hv.nested,
      hv.pTriggerTab, hv.pWith, hv.mayAbort, hv.isMultiWrite, hv.pVdbe,
      by simp only [hv.aOp, List.map_append, xferEmitCode_shift pDest pSrc pk _ hv],
      hv.aLabel, hv.changeCntOn, hv.aColName⟩

/-- When the statement has the form the transfer optimization requires but the table of its
FROM clause is not found, `xferOptimization` declines with the diagnostic of the lookup. -/
theorem xferOptimization_locate_none (p : Parse) (pDest : Table) (s : Select)
    (onError : on_conflict_action) (hsyn : xferSyntaxOk p pDest s)
    (hloc : (sqlite3LocateTableItem p (s.pSrc.getD 0 default)).1 = none) :
    xferOptimization p pDest (some s) onError
      = some (0, (sqlite3LocateTableItem p (s.pSrc.getD 0 default)).2) := by
  obtain ⟨h1, h2, h3, h4, h5, h6, h7, h8, h9, h10, h11, h12, h13⟩ := hsyn
  unfold xferOptimization
  simp only [h1, h2, h3, h4, h5, h6, h7, h8, h9, h10, h11, h12, h13]
  generalize sqlite3LocateTableItem p (s.pSrc.getD 0 default) = K at hloc ⊢
  obtain ⟨a, b⟩ := K
  simp only [] at hloc
  subst hloc
  simp

theorem xferOptimization_sim (pDest : Table) (pSelect : Option Select)
    (onError : on_conflict_action) (h : Sim r c p q) :
    (xferOptimization p pDest pSelect onError = none
      ∧ xferOptimization q pDest pSelect onError = none)
    ∨ ∃ a b, xferOptimization p pDest pSelect onError = some a
      ∧ xferOptimization q pDest pSelect onError = some b
      ∧ b.1 = a.1 ∧ Sim r c a.2 b.2
      ∧ (a.1 ≠ 0 → a.2.user_session.SQLITE_CountRows = false) := by
  cases pSelect with
  | none =>
    right
    exact ⟨(0, p), (0, q), rfl, rfl, rfl, h, fun hh => absurd rfl hh⟩
  | some s =>
    by_cases hst : ∃ pSrc, xferStaticOk p pDest s pSrc
    · obtain ⟨pSrc, hs⟩ := hst
      rw [xferOptimization_of_static p pDest s pSrc onError hs,
        xferOptimization_of_static q pDest s pSrc onError
          ((xferStaticOk_sim pDest s pSrc h).2 hs)]
      rcases xferOptimization_emit_sim pDest pSrc (xferOptimization_onError pDest onError)
          (pDest.pIndex.any IsUniqueIndex) hs.2.2.2.2.2.2.2.1 h with
        ⟨e1, e2⟩ | ⟨a, b, e1, e2, e3, e4, e5⟩
      · left
        exact ⟨e1, e2⟩
      · right
        exact ⟨a, b, e1, e2, e3, e4, fun _ => by rw [e5]; exact hs.2.2.2.2.2.2.2.2.2.2⟩
    · have hst' : ¬ ∃ pSrc, xferStaticOk q pDest s pSrc := by
        rintro ⟨pSrc, hs⟩
        exact hst ⟨pSrc, (xferStaticOk_sim pDest s pSrc h).1 hs⟩
      obtain ⟨l1, l2⟩ := sqlite3LocateTableItem_sim (s.pSrc.getD 0 default) h
      right
      by_cases hloc : xferSyntaxOk p pDest s
          ∧ (sqlite3LocateTableItem p (s.pSrc.getD 0 default)).1 = none
      · rw [xferOptimization_locate_none p pDest s onError hloc.1 hloc.2,
          xferOptimization_locate_none q pDest s onError
            ((xferSyntaxOk_sim pDest s h).2 hloc.1) (l1.trans hloc.2)]
        exact ⟨_, _, rfl, rfl, rfl, l2, fun hh => absurd rfl hh⟩
      · obtain ⟨p', hp', hcase⟩ := xferOptimization_decline p pDest s onError hst
        obtain ⟨q', hq', hcase'⟩ := xferOptimization_decline q pDest s onError hst'
        have ep : p' = p := by
          rcases hcase with e | ⟨-, e1, e2⟩
          · exact e
          · exact absurd ⟨e1, e2⟩ hloc
        have eq : q' = q := by
          rcases hcase' with e | ⟨-, e1, e2⟩
          · exact e
          · exact absurd ⟨(xferSyntaxOk_sim pDest s h).1 e1, l1.symm.trans e2⟩ hloc
        subst ep eq
        exact ⟨_, _, hp', hq', rfl, h, fun hh => absurd rfl hh⟩

theorem sqlite3Insert_begin_sim (L : InsertLocals) (h : Sim r c p q) :
    Sim r c (sqlite3Insert_begin p L) (sqlite3Insert_begin q L) := by
  unfold sqlite3Insert_begin
  simp only []
  have hv := Sim.sim_vdbe h
  apply Sim.sim_beginWrite
  by_cases hn : (sqlite3GetVdbe p).nested = 0
  · rw [if_pos hn, if_pos (hv.nested.trans hn)]
    exact Sim.sim_setChangeCntOn true hv
  · rw [if_neg hn, if_neg (fun hh => hn (hv.nested.symm.trans hh))]
    exact hv

end ShiftXfer

section ShiftStatement

variable {r c : Int} {p q : Parse}

/-- The body of `sqlite3Insert` from the lookup of the destination on, for local variables
`L` that are the same in both runs. -/
theorem sqlite3Insert_body_sim (ext : Extern) (hext : ExternShift r c ext)
    (pTabList : SrcList) (onError : on_conflict_action) (L0 L : InsertLocals)
    (hu : L.useTempTable = false)
    (hreg : ∀ l, L.pList = some l → ∀ it ∈ l, it.pExpr.op ≠ TK_REGISTER)
    (h : Sim r c p q) :
    SimR r c
      (if p.nErr ≠ 0 ∨ p.db.mallocFailed = true then
        some (sqlite3Insert_cleanup p none L0)
      else
        match sqlite3SrcListLookup p pTabList with
        | (none, pParse) => some (sqlite3Insert_cleanup pParse none L)
        | (some pTab, pParse) =>
          let (pTrigger, tmask) := ext.sqlite3TriggersExist pTab TK_INSERT
          let L := { L with pTrigger := pTrigger, tmask := tmask, isView := pTab.pSelect.isSome }
          match ext.sqlite3ViewGetColumnNames pParse pTab with
          | some zErr => some (sqlite3Insert_cleanup (sqlite3ErrorMsg pParse zErr) (some pTab) L)
          | none =>
            match ext.sqlite3IsReadOnly pParse pTab tmask with
            | some zErr =>
              some (sqlite3Insert_cleanup (sqlite3ErrorMsg pParse zErr) (some pTab) L)
            | none =>
              let pParse := sqlite3Insert_begin pParse L
              if L.pColumn.isNone = true then
                match xferOptimization pParse pTab L.pSelect onError with
                | none => none
                | some (rc, pParse) =>
                  if rc ≠ 0 then
                    some { pParse := sqlite3Insert_end pParse L.regRowCount, pTab := some pTab,
                           L := L, exit := InsertExit.xfer_end }
                  else sqlite3Insert_general ext pParse pTab onError L
              else sqlite3Insert_general ext pParse pTab onError L)
      (if q.nErr ≠ 0 ∨ q.db.mallocFailed = true then
        some (sqlite3Insert_cleanup q none L0)
      else
        match sqlite3SrcListLookup q pTabList with
        | (none, pParse) => some (sqlite3Insert_cleanup pParse none L)
        | (some pTab, pParse) =>
          let (pTrigger, tmask) := ext.sqlite3TriggersExist pTab TK_INSERT
          let L := { L with pTrigger := pTrigger, tmask := tmask, isView := pTab.pSelect.isSome }
          match ext.sqlite3ViewGetColumnNames pParse pTab with
          | some zErr => some (sqlite3Insert_cleanup (sqlite3ErrorMsg pParse zErr) (some pTab) L)
          | none =>
            match ext.sqlite3IsReadOnly pParse pTab tmask with
            | some zErr =>
              some (sqlite3Insert_cleanup (sqlite3ErrorMsg pParse zErr) (some pTab) L)
            | none =>
              let pParse := sqlite3Insert_begin pParse L
              if L.pColumn.isNone = true then
                match xferOptimization pParse pTab L.pSelect onError with
                | none => none
                | some (rc, pParse) =>
                  if rc ≠ 0 then
                    some { pParse := sqlite3Insert_end pParse L.regRowCount, pTab := some pTab,
                           L := L, exit := InsertExit.xfer_end }
                  else sqlite3Insert_general ext pParse pTab onError L
              else sqlite3Insert_general ext pParse pTab onError L) := by
  rw [h.nErr, h.db]
  by_cases herr : p.nErr ≠ 0 ∨ p.db.mallocFailed = true
  · rw [if_pos herr, if_pos herr]
    exact ⟨rfl, rfl, h⟩
  · rw [if_neg herr, if_neg herr]
    obtain ⟨l1, l2⟩ := sqlite3SrcListLookup_sim pTabList h
    generalize sqlite3SrcListLookup p pTabList = K at l1 l2 ⊢
    generalize sqlite3SrcListLookup q pTabList = K' at l1 l2 ⊢
    obtain ⟨a, p1⟩ := K
    obtain ⟨a', q1⟩ := K'
    simp only [] at l1 l2
    subst l1
    cases a' with
    | none => exact ⟨rfl, rfl, l2⟩
    | some pTab =>
      simp only []
      rw [hext.viewGetColumnNames p1 q1 pTab l2]
      cases ext.sqlite3ViewGetColumnNames p1 pTab with
      | some zErr => exact ⟨rfl, rfl, Sim.sim_errorMsg _ l2⟩
      | none =>
        simp only []
        rw [hext.isReadOnly p1 q1 pTab _ l2]
        cases ext.sqlite3IsReadOnly p1 pTab (ext.sqlite3TriggersExist pTab TK_INSERT).2 with
        | some zErr => exact ⟨rfl, rfl, Sim.sim_errorMsg _ l2⟩
        | none =>
          simp only []
          have hb := sqlite3Insert_begin_sim
            { L with pTrigger := (ext.sqlite3TriggersExist pTab TK_INSERT).1,
                     tmask := (ext.sqlite3TriggersExist pTab TK_INSERT).2,
                     isView := pTab.pSelect.isSome } l2
          generalize sqlite3Insert_begin p1 _ = p2 at hb ⊢
          generalize sqlite3Insert_begin q1 _ = q2 at hb ⊢
          have hg : ∀ pa qa : Parse, Sim r c pa qa →
              SimR r c
                (sqlite3Insert_general ext pa pTab onError
                  { L with pTrigger := (ext.sqlite3TriggersExist pTab TK_INSERT).1,
                           tmask := (ext.sqlite3TriggersExist pTab TK_INSERT).2,
                           isView := pTab.pSelect.isSome })
                (sqlite3Insert_general ext qa pTab onError
                  { L with pTrigger := (ext.sqlite3TriggersExist pTab TK_INSERT).1,
                           tmask := (ext.sqlite3TriggersExist pTab TK_INSERT).2,
                           isView := pTab.pSelect.isSome }) :=
            fun pa qa hh => sqlite3Insert_general_sim ext hext pTab onError _ hu hreg hh
          by_cases hcol : L.pColumn.isNone = true
          · rw [if_pos hcol, if_pos hcol]
            rcases xferOptimization_sim pTab L.pSelect onError hb with
              ⟨e1, e2⟩ | ⟨a, b, e1, e2, e3, e4, e5⟩
            · rw [e1, e2]
              trivial
            · rw [e1, e2]
              obtain ⟨rc, p3⟩ := a
              obtain ⟨rc', q3⟩ := b
              simp only [] at e3 e4 e5 ⊢
              subst e3
              by_cases hrc : rc' ≠ 0
              · rw [if_pos hrc, if_pos hrc]
                refine ⟨rfl, rfl, sqlite3Insert_end_sim _ _ (fun hc => ?_) e4⟩
                rw [e5 hrc] at hc
                cases hc
              · rw [if_neg hrc, if_neg hrc]
                exact hg _ _ e4
          · rw [if_neg hcol, if_neg hcol]
            exact hg _ _ hb

theorem sqlite3Insert_sim (ext : Extern) (hext : ExternShift r c ext) (pTabList : SrcList)
    (pSelect : Option Select) (pColumn : Option IdList) (onError : on_conflict_action)
    (hreg : ∀ s, pSelect = some s → ∀ it ∈ s.pEList, it.pExpr.op ≠ TK_REGISTER)
    (h : Sim r c p q) :
    SimR r c (sqlite3Insert ext p pTabList pSelect pColumn onError)
      (sqlite3Insert ext q pTabList pSelect pColumn onError) := by
  have hu : (match pSelect with
      | some s =>
        if s.SF_Values = true ∧ s.pPrior = false then
          ({ pList := some s.pEList, pSelect := none, pColumn := pColumn } : InsertLocals)
        else { pSelect := pSelect, pColumn := pColumn }
      | none => { pSelect := pSelect, pColumn := pColumn }).useTempTable = false := by
    cases pSelect with
    | none => rfl
    | some s => simp only []; split_ifs <;> rfl
  have hr : ∀ l, (match pSelect with
      | some s =>
        if s.SF_Values = true ∧ s.pPrior = false then
          ({ pList := some s.pEList, pSelect := none, pColumn := pColumn } : InsertLocals)
        else { pSelect := pSelect, pColumn := pColumn }
      | none => { pSelect := pSelect, pColumn := pColumn }).pList = some l →
      ∀ it ∈ l, it.pExpr.op ≠ TK_REGISTER := by
    cases pSelect with
    | none => intro l hl; cases hl
    | some s =>
      simp only []
      split_ifs
      · intro l hl
        simp only [Option.some.injEq] at hl
        subst hl
        exact hreg s rfl
      · intro l hl
        cases hl
  clear hreg
  unfold sqlite3Insert
  exact sqlite3Insert_body_sim ext hext pTabList onError _ _ hu hr h

end ShiftStatement

section ShiftClaim

/-- The example sub-select compiler `demoExternAlloc` compiles the same up to any shift. -/
theorem demoExternAlloc_shift (r c : Int) : ExternShift r c demoExternAlloc := by
  refine ⟨?_, fun _ _ _ _ => rfl, fun _ _ _ _ _ => rfl, fun _ _ _ _ => rfl⟩
  intro p q s d e h hy hd _
  have hm := h.nMem
  have ht := h.nTab
  simp only [demoExternAlloc, List.map_cons, List.map_nil, shiftOp, operandRoles, shiftOperand,
    if_true, List.cons.injEq, VdbeOp.mk.injEq, and_true, true_and]
  rcases hd with ⟨d0, e0⟩ | ⟨d0, e0, e1⟩
  · simp only [d0, e0, if_true]
    refine ⟨⟨ht, hy⟩, trivial, ?_⟩
    push_cast
    omega
  · have d1 : d.iSdst ≠ 0 := by omega
    have e2 : e.iSdst ≠ 0 := by omega
    simp only [d1, e2, if_false]
    exact ⟨⟨ht, hy⟩, trivial, e1⟩

/-- C25 (as amended): the same INSERT statement is compiled in two contexts that are the same
up to a shift (`Sim r c p q`: the same schema, session flags and error state, the register
counter of `q` is `r` higher and its cursor counter `c` higher, and the program so far is
shifted accordingly), with collaborators that compile the same up to the shift
(`ExternShift`) and with no `TK_REGISTER` expression among the values of the statement.
When the first compilation returns, so does the second; it leaves `sqlite3Insert` the same
way, and its final context is again the same up to the shift.  In particular the second
program is the first one with every instruction shifted by `shiftOp`: the same opcodes, P4
operands and flags P5 in the same order, every register operand `r` higher, every cursor
operand `c` higher, and every other operand, the jump targets among them, the same. -/
theorem sqlite3Insert_shift (ext : Extern) (r c : Int) (p q : Parse) (pTabList : SrcList)
    (pSelect : Option Select) (pColumn : Option IdList) (onError : on_conflict_action)
    (res : InsertResult) (hext : ExternShift r c ext) (hsim : Sim r c p q)
    (hreg : ∀ s, pSelect = some s → ∀ it ∈ s.pEList, it.pExpr.op ≠ TK_REGISTER)
    (h : sqlite3Insert ext p pTabList pSelect pColumn onError = some res) :
    ∃ res', sqlite3Insert ext q pTabList pSelect pColumn onError = some res'
      ∧ res'.exit = res.exit
      ∧ Sim r c res.pParse res'.pParse
      ∧ res'.pParse.aOp = res.pParse.aOp.map (shiftOp r c) := by
  have hs := sqlite3Insert_sim ext hext pTabList pSelect pColumn onError hreg hsim
  rw [h] at hs
  cases hq : sqlite3Insert ext q pTabList pSelect pColumn onError with
  | none =>
    rw [hq] at hs
    exact absurd hs id
  | some res' =>
    rw [hq] at hs
    exact ⟨res', rfl, hs.1, hs.2.2, hs.2.2.aOp⟩

end ShiftClaim

section ShiftExamples

/-- The claim C25 fails for a value that is a `TK_REGISTER` expression:
`INSERT INTO t7 VALUES (<register 7>, ?)`, where the first column of `t7` is the
auto-increment key, is compiled in the example context and in the same context with three
more registers and two more cursors in use.  In both programs the instruction at address 3
is the `OP_FCopy` that copies the key out of register 7: its register operand P1 is 7 in
both, not 3 higher in the second (its register operand P2 is 3 higher: 2 and 5). -/
theorem sqlite3Insert_shift_counterexample :
    sqlite3Insert demoExtern demoParse7 [{ zName := "t7" }] (some demoRegisterValues) none
        ON_CONFLICT_ACTION_DEFAULT = some demoRegisterRun
      ∧ sqlite3Insert demoExtern demoParse7Shifted [{ zName := "t7" }] (some demoRegisterValues)
        none ON_CONFLICT_ACTION_DEFAULT = some demoRegisterRunShifted
      ∧ demoParse7Shifted.nMem = demoParse7.nMem + 3
      ∧ demoParse7Shifted.nTab = demoParse7.nTab + 2
      ∧ demoParse7Shifted.aOp = demoParse7.aOp
      ∧ demoRegisterRun.pParse.aOp.get? 3
          = some { opcode := OP_FCopy, p1 := 7, p2 := 2, p3 := 3 }
      ∧ demoRegisterRunShifted.pParse.aOp.get? 3
          = some { opcode := OP_FCopy, p1 := 7, p2 := 5, p3 := 3 } := by
  decide

/-- Witness of C25 (as amended) on `INSERT INTO t2 SELECT * FROM t2 WHERE b`, compiled in the
example context and in the same context with three more registers and two more cursors in
use. -/
theorem sqlite3Insert_shift_witness :
    ∃ res', sqlite3Insert demoExternAlloc demoParseShifted [{ zName := "t2" }]
        (some (demoStarWhere "t2")) none ON_CONFLICT_ACTION_DEFAULT = some res'
      ∧ res'.exit = demoSelfInsertAlloc.exit
      ∧ Sim 3 2 demoSelfInsertAlloc.pParse res'.pParse
      ∧ res'.pParse.aOp = demoSelfInsertAlloc.pParse.aOp.map (shiftOp 3 2) :=
  sqlite3Insert_shift demoExternAlloc 3 2 demoParse demoParseShifted [{ zName := "t2" }]
    (some (demoStarWhere "t2")) none ON_CONFLICT_ACTION_DEFAULT demoSelfInsertAlloc
    (demoExternAlloc_shift 3 2)
    ⟨rfl, rfl, rfl, rfl, rfl, by decide, by decide, rfl, rfl, rfl, rfl, rfl, rfl, by decide,
      rfl, rfl, rfl⟩
    (by intro s hs; cases hs; decide)
    (by decide)

end ShiftExamples

section CheckUnchanged

theorem checkConstraintExprNode_node (aiCol : List Int) (op : TokenKind) (c : Int) :
    (op == TK_COLUMN && decide (c ≥ 0) && decide (aiCol.getD c.toNat 0 ≥ 0)) = true
      ↔ (op = TK_COLUMN ∧ 0 ≤ c ∧ 0 ≤ aiCol.getD c.toNat 0) := by
  rw [Bool.and_eq_true, Bool.and_eq_true, beq_iff_eq, decide_eq_true_iff, decide_eq_true_iff,
    and_assoc]

theorem checkConstraintExprNode_iff (aiCol : List Int) (e : Expr) :
    checkConstraintExprNode aiCol e = true
      ↔ ∃ n ∈ e.nodes, n.op = TK_COLUMN ∧ 0 ≤ n.iColumn ∧ 0 ≤ aiCol.getD n.iColumn.toNat 0 := by
  induction e with
  | term op t c z =>
    unfold checkConstraintExprNode Expr.nodes
    rw [checkConstraintExprNode_node]
    constructor
    · intro h
      exact ⟨_, List.mem_singleton.2 rfl, h⟩
    · rintro ⟨n, hn, h⟩
      rw [List.mem_singleton.1 hn] at h
      exact h
  | unary op t c z l ih =>
    unfold checkConstraintExprNode Expr.nodes
    rw [Bool.or_eq_true, checkConstraintExprNode_node, ih]
    constructor
    · rintro (h | ⟨n, hn, h⟩)
      · exact ⟨_, List.mem_cons_self _ _, h⟩
      · exact ⟨n, List.mem_cons_of_mem _ hn, h⟩
    · rintro ⟨n, hn, h⟩
      rcases List.mem_cons.1 hn with rfl | hn
      · exact Or.inl h
      · exact Or.inr ⟨n, hn, h⟩
  | binary op t c z l r ihl ihr =>
    unfold checkConstraintExprNode Expr.nodes
    rw [Bool.or_eq_true, Bool.or_eq_true, checkConstraintExprNode_node, ihl, ihr]
    constructor
    · rintro ((h | ⟨n, hn, h⟩) | ⟨n, hn, h⟩)
      · exact ⟨_, List.mem_cons_self _ _, h⟩
      · exact ⟨n, List.mem_cons_of_mem _ (List.mem_append_left _ hn), h⟩
      · exact ⟨n, List.mem_cons_of_mem _ (List.mem_append_right _ hn), h⟩
    · rintro ⟨n, hn, h⟩
      rcases List.mem_cons.1 hn with rfl | hn
      · exact Or.inl (Or.inl h)
      · rcases List.mem_append.1 hn with hn | hn
        · exact Or.inl (Or.inr ⟨n, hn, h⟩)
        · exact Or.inr ⟨n, hn, h⟩

theorem checkedExprs_append (a b : List VdbeOp) :
    checkedExprs (a ++ b) = checkedExprs a ++ checkedExprs b := by
  simp [checkedExprs]

theorem checkedExprs_checkConstraintsCode (pTab : Table) (ignoreDest : Int)
    (overrideError : on_conflict_action) (aiChng : Option (List Int))
    (l : List ExprList_item) (nLabel : Nat) :
    checkedExprs (checkConstraintsCode pTab ignoreDest overrideError aiChng l nLabel)
      = (l.filter (fun it =>
            !(aiChng.isSome && checkConstraintUnchanged it.pExpr (aiChng.getD [])))).map
          (fun it => P4_EXPR (some it.pExpr)) := by
  induction l generalizing nLabel with
  | nil => simp [checkConstraintsCode, checkedExprs]
  | cons item rest ih =>
    unfold checkConstraintsCode
    by_cases hs : aiChng.isSome = true
        ∧ checkConstraintUnchanged item.pExpr (aiChng.getD []) = true
    · rw [if_pos hs, ih]
      have : (!(aiChng.isSome && checkConstraintUnchanged item.pExpr (aiChng.getD [])))
          = false := by simp [hs.1, hs.2]
      rw [List.filter_cons, this]
      simp
    · rw [if_neg hs, checkedExprs_append, ih]
      have : (!(aiChng.isSome && checkConstraintUnchanged item.pExpr (aiChng.getD [])))
          = true := by
        simp only [Bool.not_eq_true', Bool.and_eq_false_iff, Bool.not_eq_eq_eq_not,
          Bool.not_true]
        by_cases h1 : aiChng.isSome = true
        · right
          simpa [h1] using hs
        · left
          simpa using h1
      rw [List.filter_cons, this]
      simp only [if_true, List.map_cons, checkConstraintCode]
      by_cases hi : overrideError = ON_CONFLICT_ACTION_IGNORE <;>
        simp [checkedExprs, hi]

end CheckUnchanged

section CheckUnchangedClaim

/-- C31: `checkConstraintUnchanged(pExpr, aiChng)` returns true exactly when no node of the
expression is a column reference with a non-negative ordinal `c` and `aiChng[c] >= 0` (for an
expression whose column ordinals lie within the change array).  When the table has CHECK
constraints and `SQLITE_IgnoreChecks` is clear, the expressions tested by the CHECK block of
`sqlite3GenerateConstraintChecks` are, in order, the constraints of the table that are not
skipped, a constraint being skipped exactly when a change array is supplied and
`checkConstraintUnchanged` returns true for it; without a change array (INSERT) every
constraint is tested. -/
theorem checkConstraintUnchanged_spec (p : Parse) (pTab : Table) (regNewData : Int)
    (overrideError : on_conflict_action) (ignoreDest : Int) :
    (∀ (pExpr : Expr) (aiChng : List Int),
      (∀ n ∈ pExpr.nodes, n.op = TK_COLUMN → n.iColumn < aiChng.length) →
      (checkConstraintUnchanged pExpr aiChng = true ↔ ¬ usesChangingColumn aiChng pExpr))
    ∧ (∀ (aiChng : Option (List Int)) (l : ExprList), pTab.pCheck = some l →
        p.user_session.SQLITE_IgnoreChecks = false →
        checkedExprs ((sqlite3GenerateConstraintChecks_checks p pTab regNewData overrideError
            ignoreDest aiChng).aOp.drop p.aOp.length)
          = (l.filter (fun it => !checkSkipped aiChng it.pExpr)).map
              (fun it => P4_EXPR (some it.pExpr)))
    ∧ (∀ (l : ExprList), pTab.pCheck = some l →
        p.user_session.SQLITE_IgnoreChecks = false →
        checkedExprs ((sqlite3GenerateConstraintChecks_checks p pTab regNewData overrideError
            ignoreDest none).aOp.drop p.aOp.length)
          = l.map (fun it => P4_EXPR (some it.pExpr))) := by
  have hcode : ∀ (aiChng : Option (List Int)) (l : ExprList), pTab.pCheck = some l →
      p.user_session.SQLITE_IgnoreChecks = false →
      checkedExprs ((sqlite3GenerateConstraintChecks_checks p pTab regNewData overrideError
          ignoreDest aiChng).aOp.drop p.aOp.length)
        = (l.filter (fun it => !checkSkipped aiChng it.pExpr)).map
            (fun it => P4_EXPR (some it.pExpr)) := by
    intro aiChng l hl hs
    unfold sqlite3GenerateConstraintChecks_checks
    rw [if_pos ⟨by rw [hl]; rfl, hs⟩]
    rw [(sqlite3GenerateConstraintChecks_check_code pTab ignoreDest aiChng overrideError
      (pTab.pCheck.getD []) _ (p.setCkBase (regNewData + 1)) (Or.inl rfl)).1]
    have e : (p.setCkBase (regNewData + 1)).aOp = p.aOp := rfl
    rw [e, List.drop_left, checkedExprs_checkConstraintsCode, hl]
    congr 1
    apply List.filter_congr
    intro it _
    cases aiChng <;> rfl
  refine ⟨?_, hcode, ?_⟩
  · intro pExpr aiChng hin
    unfold checkConstraintUnchanged usesChangingColumn
    rw [Bool.not_eq_true', ← Bool.not_eq_true, checkConstraintExprNode_iff]
    apply not_congr
    constructor
    · rintro ⟨n, hn, h1, h2, h3⟩
      have hlt : n.iColumn.toNat < aiChng.length := by
        have := hin n hn h1
        omega
      refine ⟨n, hn, h1, h2, aiChng.getD n.iColumn.toNat 0, ?_, h3⟩
      rw [List.getD_eq_getElem _ _ hlt, List.get?_eq_getElem?, List.getElem?_eq_getElem hlt]
    · rintro ⟨n, hn, h1, h2, v, hv, h3⟩
      refine ⟨n, hn, h1, h2, ?_⟩
      rw [List.getD_eq_getElem?_getD, ← List.get?_eq_getElem?, hv]
      exact h3
  · intro l hl hs
    rw [hcode none l hl hs]
    congr 1
    exact List.filter_eq_self.2 (fun it _ => rfl)

end CheckUnchangedClaim

/-- Witness of C31: for the expression `a < b` an UPDATE that changes only column `b`
(`aiChng = [-1, 0]`) uses a changing column, so the constraint is not unchanged; and on `t4`,
whose constraint is `CHECK (b)`, an UPDATE that changes only column `a` skips the constraint,
an UPDATE that changes column `b` tests it, and an INSERT tests it. -/
theorem checkConstraintUnchanged_spec_witness :
    checkConstraintUnchanged demoCheckLess [-1, 0] = false
      ∧ checkConstraintUnchanged demoCheckLess [-1, -1] = true
      ∧ checkedExprs ((sqlite3GenerateConstraintChecks_checks demoParse demoT4 1
          ON_CONFLICT_ACTION_DEFAULT (-1) (some [0, -1])).aOp.drop demoParse.aOp.length) = []
      ∧ checkedExprs ((sqlite3GenerateConstraintChecks_checks demoParse demoT4 1
          ON_CONFLICT_ACTION_DEFAULT (-1) (some [-1, 0])).aOp.drop demoParse.aOp.length)
        = [P4_EXPR (some (Expr.term TK_COLUMN 0 1 "b"))]
      ∧ checkedExprs ((sqlite3GenerateConstraintChecks_checks demoParse demoT4 1
          ON_CONFLICT_ACTION_DEFAULT (-1) none).aOp.drop demoParse.aOp.length)
        = [P4_EXPR (some (Expr.term TK_COLUMN 0 1 "b"))] :=
  ⟨by
      have h := ((checkConstraintUnchanged_spec demoParse demoT4 1 ON_CONFLICT_ACTION_DEFAULT
        (-1)).1 demoCheckLess [-1, 0] (by decide)).not.2
        (not_not.2 ⟨Expr.term TK_COLUMN 0 1 "b", by decide, rfl, by decide, 0, rfl, le_refl _⟩)
      simpa using h,
    ((checkConstraintUnchanged_spec demoParse demoT4 1 ON_CONFLICT_ACTION_DEFAULT
        (-1)).1 demoCheckLess [-1, -1] (by decide)).2 (by
          rintro ⟨n, hn, -, -, v, hv, h⟩
          have hn2 : n = demoCheckLess ∨ n = Expr.term TK_COLUMN 0 0 "a"
              ∨ n = Expr.term TK_COLUMN 0 1 "b" := by
            simpa [demoCheckLess, Expr.nodes] using hn
          rcases hn2 with rfl | rfl | rfl <;> cases hv <;> exact absurd h (by decide)),
    ((checkConstraintUnchanged_spec demoParse demoT4 1 ON_CONFLICT_ACTION_DEFAULT
        (-1)).2.1 (some [0, -1]) _ rfl rfl).trans (by decide),
    ((checkConstraintUnchanged_spec demoParse demoT4 1 ON_CONFLICT_ACTION_DEFAULT
        (-1)).2.1 (some [-1, 0]) _ rfl rfl).trans (by decide),
    ((checkConstraintUnchanged_spec demoParse demoT4 1 ON_CONFLICT_ACTION_DEFAULT
        (-1)).2.2 _ rfl rfl).trans (by decide)⟩

section SoleIndexReplace

theorem sqlite3GenerateConstraintChecks_uniqueStart_grows (p : Parse) (pTab : Table)
    (regNewData : Int) (overrideError : on_conflict_action) (ignoreDest : Int)
    (aiChng : Option (List Int)) :
    Grows sqlite3GenerateConstraintChecks_entryOps (sqlite3GetVdbe p)
      (sqlite3GenerateConstraintChecks_uniqueStart p pTab regNewData overrideError ignoreDest
        aiChng).pParse := by
  unfold sqlite3GenerateConstraintChecks_uniqueStart
  simp only []
  exact ((sqlite3GenerateConstraintChecks_notNullLoop_grows _ pTab regNewData overrideError
        ignoreDest aiChng).mono (by decide)).trans
      ((sqlite3GenerateConstraintChecks_checks_grows _ pTab regNewData overrideError
        ignoreDest aiChng).mono (by decide))

/-- C32: when the primary index is the only index of the table, the resolved policy for it
(the statement override if it is not Default, else the declared policy of the index, else
Abort) is Replace, the session flag `SQLITE_RecTriggers` is clear or the table has no delete
trigger, and the session flag `SQLITE_ForeignKeys` is clear or the table neither has foreign
keys nor is referenced by any, then `sqlite3GenerateConstraintChecks` returns, reports
`*pbMayReplace = 0`, and the code it has emitted holds neither the uniqueness probe
`OP_NoConflict` nor the deletion of a row.  This holds for an INSERT and for an UPDATE,
whatever the registers of the index.  The triggers and the references are those of the table
as the UNIQUE loop sees it, with its affinity string cached. -/
theorem sqlite3GenerateConstraintChecks_sole_replace (ext : Extern) (p : Parse) (pTab : Table)
    (aRegIdx : List Int) (iDataCur iIdxCur regNewData regOldData : Int) (pkChng : Bool)
    (overrideError : on_conflict_action) (ignoreDest : Int) (aiChng : Option (List Int))
    (pIdx : Index)
    (hidx : pTab.pIndex = [pIdx]) (hpk : IsPrimaryKeyIndex pIdx = true)
    (hpol : specUniquePolicy overrideError pIdx = ON_CONFLICT_ACTION_REPLACE)
    (htrig : p.user_session.SQLITE_RecTriggers = false
      ∨ (ext.sqlite3TriggersExist pTab.withAffinity TK_DELETE).1 = [])
    (hfk : p.user_session.SQLITE_ForeignKeys = false
      ∨ (pTab.pFKey = [] ∧ ext.sqlite3FkReferences pTab.withAffinity = false)) :
    ∃ (c : ConstraintResult) (cs : List Opcode),
      sqlite3GenerateConstraintChecks ext p pTab aRegIdx iDataCur iIdxCur regNewData regOldData
          pkChng overrideError ignoreDest aiChng = some c
        ∧ c.pbMayReplace = 0
        ∧ c.pParse.ops = (sqlite3GetVdbe p).ops ++ cs
        ∧ OP_NoConflict ∉ cs
        ∧ CALL_sqlite3GenerateRowDelete ∉ cs := by
  have hfind : sqlite3PrimaryKeyIndex pTab = some pIdx := by
    unfold sqlite3PrimaryKeyIndex
    rw [hidx]
    simp [hpk]
  have hix : pTab.pIndex.findIdx IsPrimaryKeyIndex = 0 := by
    rw [hidx]
    simp [List.findIdx_cons, hpk]
  have hstart := sqlite3GenerateConstraintChecks_uniqueStart_grows p pTab regNewData
    overrideError ignoreDest aiChng
  have hss := sqlite3GenerateConstraintChecks_uniqueStart_user_session p pTab regNewData
    overrideError ignoreDest aiChng
  have hst1 : (sqlite3GenerateConstraintChecks_uniqueStart p pTab regNewData overrideError
      ignoreDest aiChng).pTab = pTab := rfl
  have hst2 : (sqlite3GenerateConstraintChecks_uniqueStart p pTab regNewData overrideError
      ignoreDest aiChng).bAffinityDone = false := rfl
  have hst3 : (sqlite3GenerateConstraintChecks_uniqueStart p pTab regNewData overrideError
      ignoreDest aiChng).seenReplace = 0 := rfl
  rw [sqlite3GenerateConstraintChecks_eq, hfind, hix, hidx]
  simp only [Option.map_some', List.length_singleton,
    sqlite3GenerateConstraintChecks_uniqueLoop]
  generalize sqlite3GenerateConstraintChecks_uniqueStart p pTab regNewData overrideError
    ignoreDest aiChng = st at hstart hss hst1 hst2 hst3 ⊢
  have hno : ∀ l : List Opcode, (∀ o ∈ l, o ∈ sqlite3GenerateConstraintChecks_entryOps) →
      OP_NoConflict ∉ l ∧ CALL_sqlite3GenerateRowDelete ∉ l := by
    intro l hl
    exact ⟨fun hm => absurd (hl _ hm) (by decide), fun hm => absurd (hl _ hm) (by decide)⟩
  by_cases h0 : aRegIdx.getD 0 0 = 0
  · have e : sqlite3GenerateConstraintChecks_unique ext aRegIdx iDataCur iIdxCur regNewData
        regOldData pkChng overrideError ignoreDest pIdx 0 1 pIdx 0 st = st := by
      unfold sqlite3GenerateConstraintChecks_unique
      simp only []
      rw [if_pos h0]
    rw [e]
    obtain ⟨-, cs, e1, a1⟩ := hstart
    exact ⟨_, cs, rfl, hst3, e1, (hno cs a1).1, (hno cs a1).2⟩
  · rw [sqlite3GenerateConstraintChecks_unique_cases _ _ _ _ _ _ _ _ _ _ _ _ _ _ _ h0]
    have hrec := (sqlite3GenerateConstraintChecks_record_grows aRegIdx regNewData overrideError
      pIdx 0 st).mono (show ∀ o ∈ _, o ∈ sqlite3GenerateConstraintChecks_entryOps by decide)
    obtain ⟨hr1, hr2, -⟩ := sqlite3GenerateConstraintChecks_record_state aRegIdx regNewData
      overrideError pIdx 0 st
    have hsr := sqlite3GenerateConstraintChecks_record_seenReplace aRegIdx regNewData
      overrideError pIdx 0 st
    rw [hst2, if_pos rfl, hst1] at hr2
    rw [hss] at hr1
    rw [hst3] at hsr
    generalize sqlite3GenerateConstraintChecks_record aRegIdx regNewData overrideError pIdx 0 st
      = rc at hrec hr1 hr2 hsr ⊢
    rw [hr1, hr2]
    have hel : uniqueTestElided ext p.user_session pTab.withAffinity regOldData pkChng
        overrideError 0 1 pIdx 0 :=
      Or.inr (Or.inr (Or.inr ⟨⟨rfl, rfl⟩, hpol, htrig, hfk⟩))
    rw [if_pos hel]
    obtain ⟨-, cs, e1, a1⟩ := hstart.trans hrec
    exact ⟨_, cs, rfl, hsr, e1, (hno cs a1).1, (hno cs a1).2⟩

end SoleIndexReplace

/-- Witness of C32 on `INSERT OR REPLACE` into `t1`, whose only index is the primary index:
no trigger, no foreign key. -/
theorem sqlite3GenerateConstraintChecks_sole_replace_witness :
    ∃ (c : ConstraintResult) (cs : List Opcode),
      sqlite3GenerateConstraintChecks demoExtern demoParse demoT1 [4] 1 1 1 0 false
          ON_CONFLICT_ACTION_REPLACE (-1) none = some c
        ∧ c.pbMayReplace = 0
        ∧ c.pParse.ops = (sqlite3GetVdbe demoParse).ops ++ cs
        ∧ OP_NoConflict ∉ cs
        ∧ CALL_sqlite3GenerateRowDelete ∉ cs :=
  sqlite3GenerateConstraintChecks_sole_replace demoExtern demoParse demoT1 [4] 1 1 1 0 false
    ON_CONFLICT_ACTION_REPLACE (-1) none demoPk1 rfl (by decide) (by decide) (Or.inl rfl)
    (Or.inl rfl)

section UpdateChain

theorem sqlite3GenerateConstraintChecks_pkCols_aOp (pIdx : Index) (iThisCur regR : Int)
    (l : List Int) (i : Nat) (p : Parse) :
    ∃ cols : List VdbeOp,
      (sqlite3GenerateConstraintChecks_pkCols pIdx iThisCur regR l i p).aOp = p.aOp ++ cols
        ∧ ∀ o ∈ cols, o.opcode = OP_Column ∧ o.p1 = iThisCur := by
  induction l generalizing i p with
  | nil => exact ⟨[], by simp [sqlite3GenerateConstraintChecks_pkCols], by simp⟩
  | cons x rest ih =>
    unfold sqlite3GenerateConstraintChecks_pkCols
    simp only []
    obtain ⟨cols, e, a⟩ := ih (i + 1)
      (sqlite3VdbeAddOp3 p OP_Column iThisCur (sqlite3ColumnOfIndex pIdx x) (regR + i))
    refine ⟨({ opcode := OP_Column, p1 := iThisCur, p2 := sqlite3ColumnOfIndex pIdx x,
                p3 := regR + i } : VdbeOp) :: cols, ?_, ?_⟩
    · rw [e]
      simp only [sqlite3VdbeAddOp3, sqlite3VdbeAddOp, List.append_assoc, List.singleton_append]
    · intro o ho
      rcases List.mem_cons.1 ho with rfl | ho
      · exact ⟨rfl, rfl⟩
      · exact a o ho

theorem sqlite3GenerateConstraintChecks_cmp_aOp (pPk : Index) (regOldData regCmp : Int)
    (addrJump addrUniqueOk : Int) (nKeyCol : Nat) (l : List Int) (i : Nat) (p : Parse) :
    (sqlite3GenerateConstraintChecks_cmp pPk regOldData regCmp addrJump addrUniqueOk nKeyCol
        l i p).aOp
      = p.aOp ++ (List.range l.length).map (fun (k : Nat) =>
          ({ opcode := if i + k = nKeyCol - 1 then OP_Eq else OP_Ne
             p1 := regOldData + 1 + l.getD k 0
             p2 := if i + k = nKeyCol - 1 then addrUniqueOk else addrJump
             p3 := regCmp + ((i + k : Nat) : Int)
             p4 := P4_COLLSEQ (pPk.azColl.getD (i + k) none)
             p5 := [SQLITE_NOTNULL] } : VdbeOp)) := by
  induction l generalizing i p with
  | nil => simp [sqlite3GenerateConstraintChecks_cmp]
  | cons x rest ih =>
    unfold sqlite3GenerateConstraintChecks_cmp
    simp only []
    rw [ih, List.length_cons, List.range_succ_eq_map, List.map_cons, List.map_map]
    simp only [sqlite3VdbeChangeP5, sqlite3VdbeAddOp4, sqlite3VdbeAddOp,
      changeLastOp_append_singleton, List.append_assoc, List.singleton_append]
    congr 1
    congr 1
    · by_cases h : i = nKeyCol - 1 <;> simp [h]
    · apply List.map_congr_left
      intro k _
      simp only [Function.comp, List.getD_cons_succ]
      have e : i + 1 + k = i + (k + 1) := by omega
      rw [e]

theorem runComparisons_ne {V : Type} (same : P4 → V → V → Bool) (regs : Int → V)
    (nes rest : List VdbeOp) (target addr : Int)
    (hne : ∀ o ∈ nes, o.opcode = OP_Ne ∧ o.p2 = target) :
    runComparisons same regs (nes ++ rest) addr
      = if ∀ o ∈ nes, same o.p4 (regs o.p1) (regs o.p3) = true then
          runComparisons same regs rest (addr + nes.length)
        else target := by
  induction nes generalizing addr with
  | nil => simp
  | cons o nes ih =>
    obtain ⟨ho, ht⟩ := hne o (List.mem_cons_self _ _)
    have hrest : ∀ o ∈ nes, o.opcode = OP_Ne ∧ o.p2 = target :=
      fun x hx => hne x (List.mem_cons_of_mem _ hx)
    rw [List.cons_append, runComparisons]
    by_cases hs : same o.p4 (regs o.p1) (regs o.p3) = true
    · rw [if_neg (by simp [ho, hs]), ih _ hrest]
      simp only [List.forall_mem_cons, hs, true_and, List.length_cons, Nat.cast_add,
        Nat.cast_one]
      congr 2
      omega
    · rw [if_pos (Or.inl ⟨ho, by simpa using hs⟩), ht]
      rw [if_neg]
      intro hall
      exact hs (hall o (List.mem_cons_self _ _))

end UpdateChain

section UpdateChainClaim

theorem updateKeyChain_eq (pPk : Index) (regOldData regCmp addrJump addrUniqueOk : Int)
    (hkey : pPk.nKeyCol ≤ pPk.aiColumn.length) :
    (List.range (pPk.aiColumn.take pPk.nKeyCol).length).map (fun (k : Nat) =>
          ({ opcode := if 0 + k = pPk.nKeyCol - 1 then OP_Eq else OP_Ne
             p1 := regOldData + 1 + (pPk.aiColumn.take pPk.nKeyCol).getD k 0
             p2 := if 0 + k = pPk.nKeyCol - 1 then addrUniqueOk else addrJump
             p3 := regCmp + ((0 + k : Nat) : Int)
             p4 := P4_COLLSEQ (pPk.azColl.getD (0 + k) none)
             p5 := [SQLITE_NOTNULL] } : VdbeOp))
      = updateKeyChain pPk regOldData regCmp addrJump addrUniqueOk := by
  unfold updateKeyChain
  rw [List.length_take, Nat.min_eq_left hkey]
  apply List.map_congr_left
  intro k hk
  have hk2 : k < pPk.nKeyCol := List.mem_range.1 hk
  have e1 : (0 + k = pPk.nKeyCol - 1) ↔ ¬ (k + 1 < pPk.nKeyCol) := by omega
  have e2 : (pPk.aiColumn.take pPk.nKeyCol).getD k 0 = pPk.aiColumn.getD k 0 := by
    rw [List.getD_eq_getElem?_getD, List.getD_eq_getElem?_getD, List.getElem?_take_of_lt hk2]
  rw [e2, Nat.zero_add]
  by_cases h : k + 1 < pPk.nKeyCol
  · rw [if_neg (by omega), if_neg (by omega), if_pos h, if_pos h]
  · rw [if_pos (by omega), if_pos (by omega), if_neg h, if_neg h]

theorem updateKeyChain_length (pPk : Index) (regOldData regCmp addrJump addrUniqueOk : Int) :
    (updateKeyChain pPk regOldData regCmp addrJump addrUniqueOk).length = pPk.nKeyCol := by
  simp [updateKeyChain]

theorem runComparisons_range {V : Type} (same : P4 → V → V → Bool) (regs : Int → V)
    (f : Nat → VdbeOp) (m : Nat) (addr target label : Int)
    (hne : ∀ k, k < m → (f k).opcode = OP_Ne ∧ (f k).p2 = target)
    (heq : (f m).opcode = OP_Eq ∧ (f m).p2 = label)
    (ht : target = addr + ((m + 1 : Nat) : Int)) :
    ((∀ k, k < m + 1 → same (f k).p4 (regs (f k).p1) (regs (f k).p3) = true) →
        runComparisons same regs ((List.range (m + 1)).map f) addr = label)
      ∧ (¬ (∀ k, k < m + 1 → same (f k).p4 (regs (f k).p1) (regs (f k).p3) = true) →
        runComparisons same regs ((List.range (m + 1)).map f) addr = target) := by
  rw [List.range_succ, List.map_append, List.map_singleton,
    runComparisons_ne same regs _ _ target]
  · have hneq : ¬ (OP_Eq = OP_Ne) := by decide
    simp only [List.length_map, List.length_range, runComparisons, heq.1, true_and, hneq,
      false_and, false_or, List.mem_map, List.mem_range, forall_exists_index, and_imp,
      forall_apply_eq_imp_iff₂, heq.2]
    constructor
    · intro hall
      rw [if_pos (fun a ha => hall a (Nat.lt_succ_of_lt ha)), if_pos (hall m (Nat.lt_succ_self m))]
    · intro hnot
      by_cases h1 : ∀ a, a < m → same (f a).p4 (regs (f a).p1) (regs (f a).p3) = true
      · rw [if_pos h1, if_neg]
        · rw [ht]
          push_cast
          omega
        · intro h2
          apply hnot
          intro k hk
          rcases Nat.lt_succ_iff_lt_or_eq.1 hk with h | rfl
          · exact h1 k h
          · exact h2
      · rw [if_neg h1]
  · intro o ho
    obtain ⟨k, hk, rfl⟩ := List.mem_map.1 ho
    exact hne k (List.mem_range.1 hk)

theorem runComparisons_updateKeyChain {V : Type} (same : P4 → V → V → Bool) (regs : Int → V)
    (pPk : Index) (regOldData regCmp addr addrUniqueOk : Int) (hkey : 1 ≤ pPk.nKeyCol) :
    runComparisons same regs
        (updateKeyChain pPk regOldData regCmp (addr + pPk.nKeyCol) addrUniqueOk) addr
      = if keyFieldsEqual same regs pPk regOldData regCmp then addrUniqueOk
        else addr + pPk.nKeyCol := by
  obtain ⟨m, hm⟩ : ∃ m, pPk.nKeyCol = m + 1 := ⟨pPk.nKeyCol - 1, by omega⟩
  have h := runComparisons_range same regs (fun (i : Nat) =>
    ({ opcode := if i + 1 < pPk.nKeyCol then OP_Ne else OP_Eq
       p1 := regOldData + 1 + pPk.aiColumn.getD i 0
       p2 := if i + 1 < pPk.nKeyCol then addr + pPk.nKeyCol else addrUniqueOk
       p3 := regCmp + i
       p4 := P4_COLLSEQ (pPk.azColl.getD i none)
       p5 := [SQLITE_NOTNULL] } : VdbeOp)) m addr (addr + pPk.nKeyCol) addrUniqueOk
    (by
      intro k hk
      simp only []
      rw [if_pos (by omega), if_pos (by omega)]
      exact ⟨rfl, rfl⟩)
    (by
      simp only []
      rw [if_neg (by omega), if_neg (by omega)]
      exact ⟨rfl, rfl⟩)
    (by rw [hm])
  rw [← hm] at h
  by_cases hk : keyFieldsEqual same regs pPk regOldData regCmp
  · rw [if_pos hk]
    exact h.1 hk
  · rw [if_neg hk]
    exact h.2 hk

theorem sqlite3GenerateConstraintChecks_cmp_chain (pPk : Index) (regOldData regCmp : Int)
    (addrUniqueOk : Int) (A : List VdbeOp) (q : Parse) (hq : q.aOp = A)
    (hkey : pPk.nKeyCol ≤ pPk.aiColumn.length) :
    (sqlite3GenerateConstraintChecks_cmp pPk regOldData regCmp
        ((sqlite3VdbeCurrentAddr q : Int) + pPk.nKeyCol) addrUniqueOk pPk.nKeyCol
        (pPk.aiColumn.take pPk.nKeyCol) 0 q).aOp
      = A ++ updateKeyChain pPk regOldData regCmp
          ((((sqlite3GenerateConstraintChecks_cmp pPk regOldData regCmp
            ((sqlite3VdbeCurrentAddr q : Int) + pPk.nKeyCol) addrUniqueOk pPk.nKeyCol
            (pPk.aiColumn.take pPk.nKeyCol) 0 q).aOp.length : Nat) : Int)) addrUniqueOk := by
  have e := sqlite3GenerateConstraintChecks_cmp_aOp pPk regOldData regCmp
    ((sqlite3VdbeCurrentAddr q : Int) + pPk.nKeyCol) addrUniqueOk pPk.nKeyCol
    (pPk.aiColumn.take pPk.nKeyCol) 0 q
  rw [updateKeyChain_eq pPk regOldData regCmp _ addrUniqueOk hkey] at e
  have hl := congrArg List.length e
  rw [List.length_append, updateKeyChain_length] at hl
  have hc : (((sqlite3GenerateConstraintChecks_cmp pPk regOldData regCmp
      ((sqlite3VdbeCurrentAddr q : Int) + pPk.nKeyCol) addrUniqueOk pPk.nKeyCol
      (pPk.aiColumn.take pPk.nKeyCol) 0 q).aOp.length : Nat) : Int)
      = (sqlite3VdbeCurrentAddr q : Int) + pPk.nKeyCol := by
    rw [hl]
    unfold sqlite3VdbeCurrentAddr
    push_cast
    rfl
  rw [hc, e, hq]

/-- C33: for an UPDATE (`regOldData` is not 0) of an index that needs byte code for its
uniqueness (`uniqueByteCodeNeeded`), when the primary key has `n >= 1` fields, the code of
the uniqueness test is the probe `OP_NoConflict` on the cursor of the index, then the reads
(`OP_Column`) of the key of the conflicting row, then the comparison chain
`updateKeyChain`: `n` comparisons, the one of field `i` between the register
`regOldData + 1 + column` of the old row and the register `regCmp + i` of the candidate key,
the first `n - 1` of them `OP_Ne` whose jump target is the address right after the chain,
where the conflict handler starts, and the last one `OP_Eq` whose jump target is the label
`addrUniqueOk`.  Run from its first instruction, the chain leaves to `addrUniqueOk` when all
`n` fields are equal and to the address of the conflict handler otherwise, whatever the
values of the registers and the comparison of the collations. -/
theorem sqlite3GenerateConstraintChecks_update_chain (iIdxCur regOldData : Int)
    (onError : on_conflict_action) (pPk : Index) (pkIx : Nat) (pIdx : Index) (ix : Nat)
    (U : UniqueLocals) (p : Parse)
    (hupd : regOldData ≠ 0) (hneed : U.uniqueByteCodeNeeded = true)
    (hkey : 1 ≤ pPk.nKeyCol ∧ pPk.nKeyCol ≤ pPk.aiColumn.length) :
    ∃ (pre cols chain : List VdbeOp) (regCmp addrHandler : Int),
      (sqlite3GenerateConstraintChecks_probe iIdxCur regOldData onError pPk pkIx pIdx ix U
          p).2.aOp
        = p.aOp ++ pre
            ++ [{ opcode := OP_NoConflict, p1 := iIdxCur + ix, p2 := U.addrUniqueOk,
                  p3 := U.regIdx, p4 := P4_INT32 pIdx.nKeyCol }]
            ++ cols ++ chain
      ∧ (∀ o ∈ cols, o.opcode = OP_Column ∧ o.p1 = iIdxCur + ix)
      ∧ regCmp = (if IsPrimaryKeyIndex pIdx = true then U.regIdx
          else (sqlite3GenerateConstraintChecks_probe iIdxCur regOldData onError pPk pkIx
            pIdx ix U p).1)
      ∧ addrHandler = (((sqlite3GenerateConstraintChecks_probe iIdxCur regOldData onError pPk
          pkIx pIdx ix U p).2.aOp.length : Nat) : Int)
      ∧ chain = updateKeyChain pPk regOldData regCmp addrHandler U.addrUniqueOk
      ∧ chain.length = pPk.nKeyCol
      ∧ ∀ (V : Type) (same : P4 → V → V → Bool) (regs : Int → V),
          runComparisons same regs chain (addrHandler - pPk.nKeyCol)
            = if keyFieldsEqual same regs pPk regOldData regCmp then U.addrUniqueOk
              else addrHandler := by
  have hu : decide (regOldData ≠ 0) = true := by simpa using hupd
  have sem : ∀ (regCmp addrHandler : Int) (V : Type) (same : P4 → V → V → Bool)
      (regs : Int → V),
      runComparisons same regs
          (updateKeyChain pPk regOldData regCmp addrHandler U.addrUniqueOk)
          (addrHandler - pPk.nKeyCol)
        = if keyFieldsEqual same regs pPk regOldData regCmp then U.addrUniqueOk
          else addrHandler := by
    intro regCmp addrHandler V same regs
    have h := runComparisons_updateKeyChain same regs pPk regOldData regCmp
      (addrHandler - pPk.nKeyCol) U.addrUniqueOk hkey.1
    rw [sub_add_cancel] at h
    exact h
  unfold sqlite3GenerateConstraintChecks_probe
  simp only [hu, hneed, if_true, true_or, true_and]
  by_cases hx : ix = pkIx
  · simp only [hx, if_true, ne_eq, not_true_eq_false, if_false]
    by_cases ha : U.table_ipk_autoinc = true
    · rw [if_pos ha]
      refine ⟨[{ opcode := OP_IsNull, p1 := U.reg_pk, p2 := U.addrUniqueOk }], [], _, _, _, ?_,
        by simp, rfl, rfl, rfl, updateKeyChain_length _ _ _ _ _, sem _ _⟩
      exact sqlite3GenerateConstraintChecks_cmp_chain pPk regOldData _ U.addrUniqueOk _ _
        (by simp [sqlite3VdbeAddOp4, sqlite3VdbeAddOp2, sqlite3VdbeAddOp]) hkey.2
    · rw [if_neg ha]
      refine ⟨[], [], _, _, _, ?_, by simp, rfl, rfl, rfl, updateKeyChain_length _ _ _ _ _,
        sem _ _⟩
      exact sqlite3GenerateConstraintChecks_cmp_chain pPk regOldData _ U.addrUniqueOk _ _
        (by simp [sqlite3VdbeAddOp4, sqlite3VdbeAddOp]) hkey.2
  · simp only [hx, if_false, ne_eq, not_false_eq_true, if_true]
    by_cases ha : U.table_ipk_autoinc = true
    · rw [if_pos ha]
      obtain ⟨cols, ec, ac⟩ := sqlite3GenerateConstraintChecks_pkCols_aOp pIdx (iIdxCur + ix)
        (sqlite3GetTempRange (sqlite3VdbeAddOp4 (sqlite3VdbeAddOp2 p OP_IsNull U.reg_pk
          U.addrUniqueOk) OP_NoConflict (iIdxCur + ix) U.addrUniqueOk U.regIdx
          (P4_INT32 pIdx.nKeyCol)) pPk.nKeyCol).1
        (pPk.aiColumn.take pPk.nKeyCol) 0
        (sqlite3GetTempRange (sqlite3VdbeAddOp4 (sqlite3VdbeAddOp2 p OP_IsNull U.reg_pk
          U.addrUniqueOk) OP_NoConflict (iIdxCur + ix) U.addrUniqueOk U.regIdx
          (P4_INT32 pIdx.nKeyCol)) pPk.nKeyCol).2
      refine ⟨[{ opcode := OP_IsNull, p1 := U.reg_pk, p2 := U.addrUniqueOk }], cols, _, _, _,
        ?_, ac, rfl, rfl, rfl, updateKeyChain_length _ _ _ _ _, sem _ _⟩
      exact sqlite3GenerateConstraintChecks_cmp_chain pPk regOldData _ U.addrUniqueOk _ _
        (by rw [ec]; simp [sqlite3GetTempRange, sqlite3VdbeAddOp4, sqlite3VdbeAddOp2,
          sqlite3VdbeAddOp]) hkey.2
    · rw [if_neg ha]
      obtain ⟨cols, ec, ac⟩ := sqlite3GenerateConstraintChecks_pkCols_aOp pIdx (iIdxCur + ix)
        (sqlite3GetTempRange (sqlite3VdbeAddOp4 p OP_NoConflict (iIdxCur + ix) U.addrUniqueOk
          U.regIdx (P4_INT32 pIdx.nKeyCol)) pPk.nKeyCol).1
        (pPk.aiColumn.take pPk.nKeyCol) 0
        (sqlite3GetTempRange (sqlite3VdbeAddOp4 p OP_NoConflict (iIdxCur + ix) U.addrUniqueOk
          U.regIdx (P4_INT32 pIdx.nKeyCol)) pPk.nKeyCol).2
      refine ⟨[], cols, _, _, _, ?_, ac, rfl, rfl, rfl, updateKeyChain_length _ _ _ _ _,
        sem _ _⟩
      exact sqlite3GenerateConstraintChecks_cmp_chain pPk regOldData _ U.addrUniqueOk _ _
        (by rw [ec]; simp [sqlite3GetTempRange, sqlite3VdbeAddOp4, sqlite3VdbeAddOp]) hkey.2

end UpdateChainClaim

/-- Witness of C33 on an UPDATE (old row in the registers from 10 on) of a table whose
primary key has the two columns `a` and `b`, under the policy Rollback: after the probe at
address 1 the chain is `OP_Ne 11 4 5` at address 2 and `OP_Eq 12 -1 6` at address 3, and the
conflict handler starts at address 4. -/
theorem sqlite3GenerateConstraintChecks_update_chain_witness :
    (sqlite3GenerateConstraintChecks_probe 1 10 ON_CONFLICT_ACTION_ROLLBACK demoPk2 0 demoPk2 0
        demoUniqueLocals demoParse).2.aOp
      = demoParse.aOp
          ++ [{ opcode := OP_NoConflict, p1 := 1, p2 := -1, p3 := 5, p4 := P4_INT32 2 },
              { opcode := OP_Ne, p1 := 11, p2 := 4, p3 := 5, p4 := P4_COLLSEQ (some "BINARY"),
                p5 := [SQLITE_NOTNULL] },
              { opcode := OP_Eq, p1 := 12, p2 := -1, p3 := 6, p4 := P4_COLLSEQ (some "BINARY"),
                p5 := [SQLITE_NOTNULL] }]
    ∧ ∃ (pre cols chain : List VdbeOp) (regCmp addrHandler : Int),
      (sqlite3GenerateConstraintChecks_probe 1 10 ON_CONFLICT_ACTION_ROLLBACK demoPk2 0 demoPk2
          0 demoUniqueLocals demoParse).2.aOp
        = demoParse.aOp ++ pre
            ++ [{ opcode := OP_NoConflict, p1 := 1 + (0 : Nat),
                  p2 := demoUniqueLocals.addrUniqueOk, p3 := demoUniqueLocals.regIdx,
                  p4 := P4_INT32 demoPk2.nKeyCol }]
            ++ cols ++ chain
      ∧ (∀ o ∈ cols, o.opcode = OP_Column ∧ o.p1 = 1 + (0 : Nat))
      ∧ regCmp = (if IsPrimaryKeyIndex demoPk2 = true then demoUniqueLocals.regIdx
          else (sqlite3GenerateConstraintChecks_probe 1 10 ON_CONFLICT_ACTION_ROLLBACK demoPk2 0
            demoPk2 0 demoUniqueLocals demoParse).1)
      ∧ addrHandler = (((sqlite3GenerateConstraintChecks_probe 1 10 ON_CONFLICT_ACTION_ROLLBACK
          demoPk2 0 demoPk2 0 demoUniqueLocals demoParse).2.aOp.length : Nat) : Int)
      ∧ chain = updateKeyChain demoPk2 10 regCmp addrHandler demoUniqueLocals.addrUniqueOk
      ∧ chain.length = demoPk2.nKeyCol
      ∧ ∀ (V : Type) (same : P4 → V → V → Bool) (regs : Int → V),
          runComparisons same regs chain (addrHandler - demoPk2.nKeyCol)
            = if keyFieldsEqual same regs demoPk2 10 regCmp then
                demoUniqueLocals.addrUniqueOk
              else addrHandler :=
  ⟨by decide,
    sqlite3GenerateConstraintChecks_update_chain 1 10 ON_CONFLICT_ACTION_ROLLBACK demoPk2 0
      demoPk2 0 demoUniqueLocals demoParse (by decide) rfl (by decide)⟩

section IntegerKey

theorem sqlite3TableAffinity_zColAff_eq (pTab : Table) :
    ∃ (s : List Char) (m : Nat),
      pTab.aCol.map (fun col => col.affinity) = s ++ List.replicate m SQLITE_AFF_BLOB
      ∧ sqlite3TableAffinity_zColAff pTab = s ++ List.replicate (m + 1) NUL := by
  obtain ⟨s, m, hl, hs⟩ := trailing_run (pTab.aCol.map (fun col => col.affinity))
  refine ⟨s, m, hl, ?_⟩
  have hlen : s.length + m = pTab.nCol := by
    have := congrArg List.length hl
    simp only [List.length_map, List.length_append, List.length_replicate] at this
    unfold Table.nCol
    omega
  unfold sqlite3TableAffinity_zColAff
  rw [hl, ← hlen]
  have := sqlite3TableAffinity_trim_spec s hs m 1
  simpa using this

/-- The test `zColAff[c] == 'D'` on the affinity string `sqlite3TableAffinity` computes
agrees with the declared affinity of column `c`. -/
theorem sqlite3TableAffinity_zColAff_integer (pTab : Table) (c : Nat) (hc : c < pTab.nCol) :
    (sqlite3TableAffinity_zColAff pTab).getD c NUL = SQLITE_AFF_INTEGER
      ↔ (pTab.aCol.getD c default).affinity = SQLITE_AFF_INTEGER := by
  obtain ⟨s, m, hl, hz⟩ := sqlite3TableAffinity_zColAff_eq pTab
  have hlen : s.length + m = pTab.nCol := by
    have := congrArg List.length hl
    simp only [List.length_map, List.length_append, List.length_replicate] at this
    unfold Table.nCol
    omega
  have haff : (s ++ List.replicate m SQLITE_AFF_BLOB)[c]?
      = some (pTab.aCol.getD c default).affinity := by
    rw [← hl, List.getElem?_map]
    unfold Table.nCol at hc
    rw [List.getD_eq_getElem?_getD, List.getElem?_eq_getElem hc]
    rfl
  rw [hz, List.getD_eq_getElem?_getD]
  by_cases hcs : c < s.length
  · rw [List.getElem?_append_left hcs]
    rw [List.getElem?_append_left hcs] at haff
    rw [haff]
    rfl
  · rw [List.getElem?_append_right (by omega), List.getElem?_replicate, if_pos (by omega)]
    rw [List.getElem?_append_right (by omega), List.getElem?_replicate, if_pos (by omega)]
      at haff
    rw [← Option.some.inj haff]
    simp only [Option.getD_some]
    constructor <;> intro h <;> exact absurd h (by decide)

end IntegerKey

section IntegerKeyClaim

/-- C34: in the iteration of the UNIQUE loop for a primary-key index, for a table whose
affinity string is computed by this call of `sqlite3GenerateConstraintChecks` or has been
cached by `sqlite3TableAffinity` before, and whose single key column (if the key has one
column) is a column of the table: the test `zColAff[c] == 'D'` on the cached affinity
string, whose trailing BLOB entries are overwritten, agrees with the declared affinity of
column `c` for every column ordinal `c`; the record block emits `OP_MustBeInt` exactly when
the index has one key column and the declared affinity of that column is INTEGER; it is then
emitted right before `OP_MakeRecord`, on the register `regNewData + 1 + column` of the new
value of the key column, and when the table is auto-increment it is preceded by an
`OP_IsNull` on the same register whose jump target is a fresh label that is resolved to the
address right after `OP_MustBeInt`. -/
theorem sqlite3GenerateConstraintChecks_mustBeInt (aRegIdx : List Int) (regNewData : Int)
    (overrideError : on_conflict_action) (pIdx : Index) (ix : Nat) (st : UniqueState)
    (hpk : IsPrimaryKeyIndex pIdx = true)
    (hcache : (st.bAffinityDone = false ∧ st.pTab.zColAff = none)
      ∨ st.pTab.zColAff = some (sqlite3TableAffinity_zColAff st.pTab))
    (hcol : pIdx.nKeyCol = 1 →
      0 ≤ pIdx.aiColumn.getD 0 0 ∧ pIdx.aiColumn.getD 0 0 < st.pTab.nCol) :
    (∀ c, c < st.pTab.nCol →
      (((sqlite3GenerateConstraintChecks_record aRegIdx regNewData overrideError pIdx ix
          st).2.pTab.zColAff.getD []).getD c NUL = SQLITE_AFF_INTEGER
        ↔ (st.pTab.aCol.getD c default).affinity = SQLITE_AFF_INTEGER))
    ∧ ∃ (mid : Parse) (cs : List Opcode),
      Grows [OP_Affinity, OP_Null, CALL_sqlite3ExprIfFalseDup, CALL_sqlite3ExprCodeCopy,
          OP_SCopy] st.pParse mid
      ∧ (sqlite3GenerateConstraintChecks_record aRegIdx regNewData overrideError pIdx ix
          st).2.pParse.aOp
        = mid.aOp
          ++ (if pIdx.nKeyCol = 1
                ∧ (st.pTab.aCol.getD (pIdx.aiColumn.getD 0 0).toNat default).affinity
                  = SQLITE_AFF_INTEGER then
              intPkCheck st.pTab (regNewData + 1 + pIdx.aiColumn.getD 0 0)
                (-1 - (mid.aLabel.length : Int))
            else [])
          ++ [{ opcode := OP_MakeRecord, p1 := regNewData + 1, p2 := st.pTab.nCol,
                p3 := aRegIdx.getD ix 0 }]
      ∧ (pIdx.nKeyCol = 1
            ∧ (st.pTab.aCol.getD (pIdx.aiColumn.getD 0 0).toNat default).affinity
              = SQLITE_AFF_INTEGER →
          (sqlite3GenerateConstraintChecks_record aRegIdx regNewData overrideError pIdx ix
              st).2.pParse.aLabel
            = mid.aLabel
              ++ [((mid.aOp.length
                    + (intPkCheck st.pTab (regNewData + 1 + pIdx.aiColumn.getD 0 0)
                        (-1 - (mid.aLabel.length : Int))).length : Nat) : Int)])
      ∧ (sqlite3GenerateConstraintChecks_record aRegIdx regNewData overrideError pIdx ix
          st).2.pParse.ops = st.pParse.ops ++ cs
      ∧ (OP_MustBeInt ∈ cs
          ↔ pIdx.nKeyCol = 1
            ∧ (st.pTab.aCol.getD (pIdx.aiColumn.getD 0 0).toNat default).affinity
              = SQLITE_AFF_INTEGER) := by
  have htab : (if st.bAffinityDone = false then
        ({ st with pParse := (sqlite3TableAffinity st.pParse st.pTab (regNewData + 1)).2,
                   pTab := (sqlite3TableAffinity st.pParse st.pTab (regNewData + 1)).1,
                   bAffinityDone := true } : UniqueState)
       else st).pTab.zColAff = some (sqlite3TableAffinity_zColAff st.pTab)
      ∧ (if st.bAffinityDone = false then
        ({ st with pParse := (sqlite3TableAffinity st.pParse st.pTab (regNewData + 1)).2,
                   pTab := (sqlite3TableAffinity st.pParse st.pTab (regNewData + 1)).1,
                   bAffinityDone := true } : UniqueState)
       else st).pTab.TF_Autoincrement = st.pTab.TF_Autoincrement
      ∧ (if st.bAffinityDone = false then
        ({ st with pParse := (sqlite3TableAffinity st.pParse st.pTab (regNewData + 1)).2,
                   pTab := (sqlite3TableAffinity st.pParse st.pTab (regNewData + 1)).1,
                   bAffinityDone := true } : UniqueState)
       else st).pTab.nCol = st.pTab.nCol := by
    split_ifs with hb
    · simp only [sqlite3TableAffinity_table]
      refine ⟨?_, rfl, rfl⟩
      unfold Table.withAffinity
      rcases hcache with ⟨-, h⟩ | h
      · simp only [h]
      · simp only [h]
    · refine ⟨?_, rfl, rfl⟩
      rcases hcache with ⟨h, -⟩ | h
      · exact absurd h hb
      · exact h
  have hg : Grows [OP_Affinity, OP_Null, CALL_sqlite3ExprIfFalseDup, CALL_sqlite3ExprCodeCopy,
      OP_SCopy] st.pParse
      (if st.bAffinityDone = false then
        ({ st with pParse := (sqlite3TableAffinity st.pParse st.pTab (regNewData + 1)).2,
                   pTab := (sqlite3TableAffinity st.pParse st.pTab (regNewData + 1)).1,
                   bAffinityDone := true } : UniqueState)
       else st).pParse := by
    split_ifs
    · exact (sqlite3TableAffinity_grows _ _ _).mono (by decide)
    · exact Grows.refl _ _
  unfold sqlite3GenerateConstraintChecks_record
  simp only []
  generalize (if st.bAffinityDone = false then
        ({ st with pParse := (sqlite3TableAffinity st.pParse st.pTab (regNewData + 1)).2,
                   pTab := (sqlite3TableAffinity st.pParse st.pTab (regNewData + 1)).1,
                   bAffinityDone := true } : UniqueState)
       else st) = st1 at htab hg ⊢
  obtain ⟨hz, hauto, hncol⟩ := htab
  refine ⟨?_, ?_⟩
  · intro c hc
    rw [hz]
    exact sqlite3TableAffinity_zColAff_integer st.pTab c hc
  generalize hmid : sqlite3GenerateConstraintChecks_entry st1.pTab pIdx regNewData
    (aRegIdx.getD ix 0 + 1) pIdx.aiColumn 0 _ = mid
  have hgm : Grows [OP_Affinity, OP_Null, CALL_sqlite3ExprIfFalseDup, CALL_sqlite3ExprCodeCopy,
      OP_SCopy] st.pParse mid := by
    rw [← hmid]
    repeat' with_reducible first
      | exact hg
      | apply Grows.if_then_else
      | apply Grows.addOp2
      | apply Grows.addOp
      | apply Grows.makeLabel
      | apply Grows.setCkBase
      | apply Grows.entry
    all_goals simp
  obtain ⟨c0, e0, a0⟩ := hgm.2
  have hno : OP_MustBeInt ∉ c0 := fun hm => absurd (a0 _ hm) (by decide)
  rw [if_pos hpk, hz, hauto, hncol]
  have hint : (IsPrimaryKeyIndex pIdx = true ∧ pIdx.nKeyCol = 1
      ∧ ((some (sqlite3TableAffinity_zColAff st.pTab)).getD []).getD
          (pIdx.aiColumn.getD 0 0).toNat NUL = 'D')
      ↔ (pIdx.nKeyCol = 1
        ∧ (st.pTab.aCol.getD (pIdx.aiColumn.getD 0 0).toNat default).affinity
          = SQLITE_AFF_INTEGER) := by
    constructor
    · rintro ⟨-, h1, h2⟩
      have hc := hcol h1
      exact ⟨h1, (sqlite3TableAffinity_zColAff_integer st.pTab _ (by omega)).1 h2⟩
    · rintro ⟨h1, h2⟩
      have hc := hcol h1
      exact ⟨hpk, h1, (sqlite3TableAffinity_zColAff_integer st.pTab _ (by omega)).2 h2⟩
  have hlab : ∀ n : Nat, (-1 - (-1 - (n : Int))).toNat = n := by
    intro n
    omega
  by_cases hi : pIdx.nKeyCol = 1
      ∧ (st.pTab.aCol.getD (pIdx.aiColumn.getD 0 0).toNat default).affinity
        = SQLITE_AFF_INTEGER
  · have hd : decide (IsPrimaryKeyIndex pIdx = true ∧ pIdx.nKeyCol = 1
        ∧ ((some (sqlite3TableAffinity_zColAff st.pTab)).getD []).getD
            (pIdx.aiColumn.getD 0 0).toNat NUL = 'D') = true :=
      decide_eq_true (hint.2 hi)
    rw [hd, if_pos rfl]
    refine ⟨mid, c0 ++ ((intPkCheck st.pTab (regNewData + 1 + pIdx.aiColumn.getD 0 0)
      (-1 - (mid.aLabel.length : Int))).map (fun o => o.opcode)) ++ [OP_MakeRecord],
      hgm, ?_, ?_, ?_, ?_⟩
    · simp only [hpk, hi.1, hi.2, and_self, if_true]
      unfold intPkCheck
      cases hau : st.pTab.TF_Autoincrement
      · simp only [Bool.false_eq_true, if_false]
        simp [sqlite3VdbeAddOp3, sqlite3VdbeAddOp2, sqlite3VdbeAddOp, sqlite3VdbeResolveLabel,
          sqlite3VdbeMakeLabel]
      · simp only [if_true]
        simp [sqlite3VdbeAddOp3, sqlite3VdbeAddOp2, sqlite3VdbeAddOp, sqlite3VdbeResolveLabel,
          sqlite3VdbeMakeLabel]
    · intro _
      simp only [hpk, hi.1, and_self, if_true]
      unfold intPkCheck
      cases hau : st.pTab.TF_Autoincrement
      · simp only [Bool.false_eq_true, if_false]
        simp [sqlite3VdbeAddOp3, sqlite3VdbeAddOp2, sqlite3VdbeAddOp, sqlite3VdbeResolveLabel,
          sqlite3VdbeMakeLabel, hlab, List.set_append]
      · simp only [if_true]
        simp [sqlite3VdbeAddOp3, sqlite3VdbeAddOp2, sqlite3VdbeAddOp, sqlite3VdbeResolveLabel,
          sqlite3VdbeMakeLabel, hlab, List.set_append]
    · simp only [hpk, hi.1, and_self, if_true]
      unfold intPkCheck
      cases hau : st.pTab.TF_Autoincrement
      · simp only [Bool.false_eq_true, if_false]
        simp [e0]
      · simp only [if_true]
        simp [e0]
    · unfold intPkCheck
      simp only [hi, and_self, iff_true]
      apply List.mem_append_left
      apply List.mem_append_right
      exact List.mem_map.2 ⟨_, List.mem_append_right _ (List.mem_singleton.2 rfl), rfl⟩
  · have hd : decide (IsPrimaryKeyIndex pIdx = true ∧ pIdx.nKeyCol = 1
        ∧ ((some (sqlite3TableAffinity_zColAff st.pTab)).getD []).getD
            (pIdx.aiColumn.getD 0 0).toNat NUL = 'D') = false :=
      decide_eq_false (fun h => hi (hint.1 h))
    rw [hd, if_neg (by simp)]
    refine ⟨mid, c0 ++ [OP_MakeRecord], hgm, ?_, ?_, ?_, ?_⟩
    · rw [if_neg hi]
      simp [sqlite3VdbeAddOp3, sqlite3VdbeAddOp]
    · intro h
      exact absurd h hi
    · simp [e0]
    · simp only [List.mem_append, List.mem_singleton, hno, false_or, hi, iff_false]
      decide

end IntegerKeyClaim

/-- Witness of C34 on `t7`, whose primary key is the single auto-increment INTEGER column `a`:
the record block emits `OP_IsNull 2 -2` and `OP_MustBeInt 2 0` before `OP_MakeRecord`, and the
label -2 is resolved to address 5, right after `OP_MustBeInt`. -/
theorem sqlite3GenerateConstraintChecks_mustBeInt_witness :
    ((sqlite3GenerateConstraintChecks_record [4] 1 ON_CONFLICT_ACTION_DEFAULT demoPk7 0
        demoUniqueStart7).2.pParse.aOp.drop 3
      = [{ opcode := OP_IsNull, p1 := 2, p2 := -2 }, { opcode := OP_MustBeInt, p1 := 2 },
          { opcode := OP_MakeRecord, p1 := 2, p2 := 2, p3 := 4 }]
      ∧ (sqlite3GenerateConstraintChecks_record [4] 1 ON_CONFLICT_ACTION_DEFAULT demoPk7 0
        demoUniqueStart7).2.pParse.aLabel = [-1, 5])
    ∧ (∀ c, c < demoUniqueStart7.pTab.nCol →
      (((sqlite3GenerateConstraintChecks_record [4] 1 ON_CONFLICT_ACTION_DEFAULT demoPk7 0
          demoUniqueStart7).2.pTab.zColAff.getD []).getD c NUL = SQLITE_AFF_INTEGER
        ↔ (demoUniqueStart7.pTab.aCol.getD c default).affinity = SQLITE_AFF_INTEGER))
    ∧ ∃ (mid : Parse) (cs : List Opcode),
      Grows [OP_Affinity, OP_Null, CALL_sqlite3ExprIfFalseDup, CALL_sqlite3ExprCodeCopy,
          OP_SCopy] demoUniqueStart7.pParse mid
      ∧ (sqlite3GenerateConstraintChecks_record [4] 1 ON_CONFLICT_ACTION_DEFAULT demoPk7 0
          demoUniqueStart7).2.pParse.aOp
        = mid.aOp
          ++ (if demoPk7.nKeyCol = 1
                ∧ (demoUniqueStart7.pTab.aCol.getD (demoPk7.aiColumn.getD 0 0).toNat
                    default).affinity = SQLITE_AFF_INTEGER then
              intPkCheck demoUniqueStart7.pTab (1 + 1 + demoPk7.aiColumn.getD 0 0)
                (-1 - (mid.aLabel.length : Int))
            else [])
          ++ [{ opcode := OP_MakeRecord, p1 := 1 + 1, p2 := demoUniqueStart7.pTab.nCol,
                p3 := [4].getD 0 0 }]
      ∧ (demoPk7.nKeyCol = 1
            ∧ (demoUniqueStart7.pTab.aCol.getD (demoPk7.aiColumn.getD 0 0).toNat
                default).affinity = SQLITE_AFF_INTEGER →
          (sqlite3GenerateConstraintChecks_record [4] 1 ON_CONFLICT_ACTION_DEFAULT demoPk7 0
              demoUniqueStart7).2.pParse.aLabel
            = mid.aLabel
              ++ [((mid.aOp.length
                    + (intPkCheck demoUniqueStart7.pTab (1 + 1 + demoPk7.aiColumn.getD 0 0)
                        (-1 - (mid.aLabel.length : Int))).length : Nat) : Int)])
      ∧ (sqlite3GenerateConstraintChecks_record [4] 1 ON_CONFLICT_ACTION_DEFAULT demoPk7 0
          demoUniqueStart7).2.pParse.ops = demoUniqueStart7.pParse.ops ++ cs
      ∧ (OP_MustBeInt ∈ cs
          ↔ demoPk7.nKeyCol = 1
            ∧ (demoUniqueStart7.pTab.aCol.getD (demoPk7.aiColumn.getD 0 0).toNat
                default).affinity = SQLITE_AFF_INTEGER) :=
  ⟨by decide,
    sqlite3GenerateConstraintChecks_mustBeInt [4] 1 ON_CONFLICT_ACTION_DEFAULT demoPk7 0
      demoUniqueStart7 (by decide) (Or.inl ⟨rfl, rfl⟩) (fun _ => by decide)⟩

section OpenCursors

theorem sqlite3OpenTableAndIndices_loop_code (ext : Extern) (pTab : Table) (op : Opcode)
    (overrideError : on_conflict_action) (isUpdate : Bool) (space_ptr_reg : Int) :
    ∀ (l : List Index) (i : Nat) (st : OpenCursors), st.p5 = [] →
      (sqlite3OpenTableAndIndices_loop ext pTab op none overrideError isUpdate space_ptr_reg
          l i st).pParse.aOp
        = st.pParse.aOp
          ++ openIndexCode ext pTab op overrideError isUpdate space_ptr_reg l st.iBase
      ∧ (sqlite3OpenTableAndIndices_loop ext pTab op none overrideError isUpdate space_ptr_reg
          l i st).iBase
        = st.iBase + (openedBefore ext pTab overrideError isUpdate l l.length : Nat) := by
  intro l
  induction l with
  | nil =>
    intro i st _
    simp [sqlite3OpenTableAndIndices_loop, openIndexCode, openedBefore]
  | cons pIdx rest ih =>
    intro i st h5
    unfold sqlite3OpenTableAndIndices_loop openIndexCode
    simp only []
    have hcount : openedBefore ext pTab overrideError isUpdate (pIdx :: rest)
        (pIdx :: rest).length
        = (if openCursorNeeded ext pTab overrideError isUpdate pIdx then 1 else 0)
          + openedBefore ext pTab overrideError isUpdate rest rest.length := by
      unfold openedBefore
      simp only [List.length_cons, List.take_succ_cons, List.take_length, List.filter_cons]
      by_cases hn : openCursorNeeded ext pTab overrideError isUpdate pIdx
      · rw [if_pos (decide_eq_true hn), if_pos hn, List.length_cons]
        omega
      · rw [if_neg (by simpa using hn), if_neg hn]
        omega
    by_cases hn : openCursorNeeded ext pTab overrideError isUpdate pIdx
    · have hn2 : isUpdate = true ∨ IsPrimaryKeyIndex pIdx = true
          ∨ ext.sqlite3FkReferences pTab = true
          ∨ (IsUniqueIndex pIdx = true ∧ pIdx.onError ≠ ON_CONFLICT_ACTION_DEFAULT
              ∧ pIdx.onError ≠ ON_CONFLICT_ACTION_ABORT)
          ∨ overrideError = ON_CONFLICT_ACTION_ROLLBACK := hn
      rw [if_pos hn2, if_pos hn, hcount, if_pos hn]
      simp only [Option.isNone_none, true_or, if_true]
      have h5' : (if IsPrimaryKeyIndex pIdx = true then
            ({ ({ st with iBase := st.iBase + 1 } : OpenCursors) with
              piDataCur := st.iBase, p5 := [] } : OpenCursors)
          else { st with iBase := st.iBase + 1 }).p5 = [] := by
        split_ifs
        · rfl
        · exact h5
      have hb : (if IsPrimaryKeyIndex pIdx = true then
            ({ ({ st with iBase := st.iBase + 1 } : OpenCursors) with
              piDataCur := st.iBase, p5 := [] } : OpenCursors)
          else { st with iBase := st.iBase + 1 }).iBase = st.iBase + 1 := by
        split_ifs <;> rfl
      have hp : (if IsPrimaryKeyIndex pIdx = true then
            ({ ({ st with iBase := st.iBase + 1 } : OpenCursors) with
              piDataCur := st.iBase, p5 := [] } : OpenCursors)
          else { st with iBase := st.iBase + 1 }).pParse = st.pParse := by
        split_ifs <;> rfl
      generalize (if IsPrimaryKeyIndex pIdx = true then
            ({ ({ st with iBase := st.iBase + 1 } : OpenCursors) with
              piDataCur := st.iBase, p5 := [] } : OpenCursors)
          else { st with iBase := st.iBase + 1 }) = st1 at h5' hb hp ⊢
      obtain ⟨e1, e2⟩ := ih (i + 1)
        { st1 with pParse := sqlite3VdbeChangeP5 (sqlite3VdbeSetP4KeyInfo
            (sqlite3VdbeAddOp3 st1.pParse op st.iBase pIdx.tnum space_ptr_reg) pIdx) st1.p5 }
        h5'
      rw [e1, e2]
      simp only [hb, hp, h5']
      constructor
      · simp [sqlite3VdbeChangeP5, sqlite3VdbeSetP4KeyInfo, sqlite3VdbeChangeP4,
          sqlite3VdbeAddOp3, sqlite3VdbeAddOp, changeLastOp_append_singleton]
      · push_cast
        omega
    · have hn2 : ¬ (isUpdate = true ∨ IsPrimaryKeyIndex pIdx = true
          ∨ ext.sqlite3FkReferences pTab = true
          ∨ (IsUniqueIndex pIdx = true ∧ pIdx.onError ≠ ON_CONFLICT_ACTION_DEFAULT
              ∧ pIdx.onError ≠ ON_CONFLICT_ACTION_ABORT)
          ∨ overrideError = ON_CONFLICT_ACTION_ROLLBACK) := hn
      rw [if_neg hn2, if_neg hn, hcount, if_neg hn]
      obtain ⟨e1, e2⟩ := ih (i + 1) st h5
      rw [e1, e2]
      simp

end OpenCursors

section OpenCursorsCode

theorem openedBefore_zero (ext : Extern) (pTab : Table) (overrideError : on_conflict_action)
    (isUpdate : Bool) (l : List Index) :
    openedBefore ext pTab overrideError isUpdate l 0 = 0 := by
  simp [openedBefore]

theorem openedBefore_cons_succ (ext : Extern) (pTab : Table)
    (overrideError : on_conflict_action) (isUpdate : Bool) (pIdx : Index) (l : List Index)
    (N : Nat) :
    openedBefore ext pTab overrideError isUpdate (pIdx :: l) (N + 1)
      = (if openCursorNeeded ext pTab overrideError isUpdate pIdx then 1 else 0)
        + openedBefore ext pTab overrideError isUpdate l N := by
  unfold openedBefore
  simp only [List.take_succ_cons, List.filter_cons]
  by_cases hn : openCursorNeeded ext pTab overrideError isUpdate pIdx
  · rw [if_pos (decide_eq_true hn), if_pos hn, List.length_cons]
    omega
  · rw [if_neg (by simpa using hn), if_neg hn]
    omega

/-- The instructions of `openIndexCode` are exactly the instructions `op` for the indexes
that pass the test `openCursorNeeded`, the index at position `N` of the list on the cursor
`iBase` plus the number of indexes before it that pass the test. -/
theorem openIndexCode_mem (ext : Extern) (pTab : Table) (op : Opcode)
    (overrideError : on_conflict_action) (isUpdate : Bool) (space_ptr_reg : Int)
    (l : List Index) (iBase : Int) (o : VdbeOp) :
    o ∈ openIndexCode ext pTab op overrideError isUpdate space_ptr_reg l iBase
      ↔ ∃ (N : Nat) (pIdx : Index), l.get? N = some pIdx
          ∧ openCursorNeeded ext pTab overrideError isUpdate pIdx
          ∧ o = { opcode := op,
                  p1 := iBase + (openedBefore ext pTab overrideError isUpdate l N : Nat),
                  p2 := pIdx.tnum, p3 := space_ptr_reg,
                  p4 := P4_KEYINFO pIdx.nColumn (some pIdx.zName) } := by
  induction l generalizing iBase with
  | nil => simp [openIndexCode]
  | cons a rest ih =>
    unfold openIndexCode
    by_cases hn : openCursorNeeded ext pTab overrideError isUpdate a
    · rw [if_pos hn, List.mem_cons, ih]
      constructor
      · rintro (rfl | ⟨N, pIdx, h1, h2, rfl⟩)
        · refine ⟨0, a, rfl, hn, ?_⟩
          rw [openedBefore_zero]
          simp
        · refine ⟨N + 1, pIdx, h1, h2, ?_⟩
          rw [openedBefore_cons_succ, if_pos hn]
          simp only [VdbeOp.mk.injEq, and_true, true_and]
          push_cast
          omega
      · rintro ⟨N, pIdx, h1, h2, rfl⟩
        cases N with
        | zero =>
          left
          simp only [List.get?_cons_zero, Option.some.injEq] at h1
          subst h1
          rw [openedBefore_zero]
          simp
        | succ N =>
          right
          refine ⟨N, pIdx, h1, h2, ?_⟩
          rw [openedBefore_cons_succ, if_pos hn]
          simp only [VdbeOp.mk.injEq, and_true, true_and]
          push_cast
          omega
    · rw [if_neg hn, ih]
      constructor
      · rintro ⟨N, pIdx, h1, h2, rfl⟩
        refine ⟨N + 1, pIdx, h1, h2, ?_⟩
        rw [openedBefore_cons_succ, if_neg hn]
        simp
      · rintro ⟨N, pIdx, h1, h2, rfl⟩
        cases N with
        | zero =>
          simp only [List.get?_cons_zero, Option.some.injEq] at h1
          subst h1
          exact absurd h2 hn
        | succ N =>
          refine ⟨N, pIdx, h1, h2, ?_⟩
          rw [openedBefore_cons_succ, if_neg hn]
          simp

/-- The code of `sqlite3OpenTableAndIndices` as `sqlite3Insert` calls it (no base cursor, no
selection of cursors, no flags): the space pointer and then `openIndexCode` on the cursors
from `*piIdxCur` on. -/
theorem sqlite3OpenTableAndIndices_code (ext : Extern) (p : Parse) (pTab : Table)
    (op : Opcode) (overrideError : on_conflict_action) (isUpdate : Bool) :
    (sqlite3OpenTableAndIndices ext p pTab op [] (-1) none overrideError isUpdate).pParse.aOp
      = (sqlite3GetVdbe p).aOp
        ++ { opcode := OP_Int64, p1 := 0, p2 := ((p.nMem + 1 : Nat) : Int), p3 := 0,
             p4 := P4_SPACEPTR (SQLITE_PAGENO_TO_SPACEID pTab.tnum) }
          :: openIndexCode ext pTab op overrideError isUpdate ((p.nMem + 1 : Nat) : Int)
              pTab.pIndex
              (sqlite3OpenTableAndIndices ext p pTab op [] (-1) none overrideError
                isUpdate).iIdxCur
    ∧ (sqlite3OpenTableAndIndices ext p pTab op [] (-1) none overrideError isUpdate).nIdx
      = pTab.pIndex.length := by
  refine ⟨?_, rfl⟩
  obtain ⟨e1, -⟩ := sqlite3OpenTableAndIndices_loop_code ext pTab op overrideError isUpdate
    (((sqlite3GetVdbe p).nMem + 1 : Nat) : Int) pTab.pIndex 0
    { pParse := sqlite3VdbeAddOp4 ((sqlite3GetVdbe p).allocMem 1) OP_Int64 0
        (((sqlite3GetVdbe p).nMem + 1 : Nat) : Int) 0
        (P4_SPACEPTR (SQLITE_PAGENO_TO_SPACEID pTab.tnum)),
      iBase := ((sqlite3GetVdbe p).nTab : Int) + 1, piDataCur := ((sqlite3GetVdbe p).nTab : Int),
      p5 := [] } rfl
  unfold sqlite3OpenTableAndIndices
  simp only [show ((-1 : Int) < 0) from by decide, if_true]
  rw [sqlite3GetVdbe_nMem] at e1 ⊢
  split_ifs
  · simp only [Parse.setNTab]
    rw [e1]
    simp [sqlite3VdbeAddOp4, sqlite3VdbeAddOp, Parse.allocMem]
  · rw [e1]
    simp [sqlite3VdbeAddOp4, sqlite3VdbeAddOp, Parse.allocMem]

end OpenCursorsCode

section AppendsRules

variable {L : List Opcode} {p q : Parse}

theorem Appends.app_refl (L : List Opcode) (p : Parse) : Appends L p p :=
  ⟨[], by simp, by simp⟩

theorem Appends.app_trans {r : Parse} (h1 : Appends L p q) (h2 : Appends L q r) :
    Appends L p r := by
  obtain ⟨c1, e1, a1⟩ := h1
  obtain ⟨c2, e2, a2⟩ := h2
  refine ⟨c1 ++ c2, by rw [e2, e1, List.append_assoc], ?_⟩
  intro o ho
  rcases List.mem_append.1 ho with h | h
  · exact a1 o h
  · exact a2 o h

theorem Appends.app_same (h : Appends L p q) {r : Parse} (hr : r.aOp = q.aOp) :
    Appends L p r := by
  obtain ⟨c, e, a⟩ := h
  exact ⟨c, by rw [hr, e], a⟩

theorem Appends.app_addOp (op : VdbeOp) (hm : op.opcode ∈ L) (h : Appends L p q) :
    Appends L p (sqlite3VdbeAddOp q op) :=
  h.app_trans ⟨[op], rfl, by simpa using hm⟩

theorem Appends.app_addOp1 (op : Opcode) (p1 : Int) (hm : op ∈ L) (h : Appends L p q) :
    Appends L p (sqlite3VdbeAddOp1 q op p1) := Appends.app_addOp _ hm h

theorem Appends.app_addOp2 (op : Opcode) (p1 p2 : Int) (hm : op ∈ L) (h : Appends L p q) :
    Appends L p (sqlite3VdbeAddOp2 q op p1 p2) := Appends.app_addOp _ hm h

theorem Appends.app_addOp3 (op : Opcode) (p1 p2 p3 : Int) (hm : op ∈ L) (h : Appends L p q) :
    Appends L p (sqlite3VdbeAddOp3 q op p1 p2 p3) := Appends.app_addOp _ hm h

theorem Appends.app_addOp4 (op : Opcode) (p1 p2 p3 : Int) (p4 : P4) (hm : op ∈ L)
    (h : Appends L p q) : Appends L p (sqlite3VdbeAddOp4 q op p1 p2 p3 p4) :=
  Appends.app_addOp _ hm h

/-- An instruction that is appended and then given its P3 operand. -/
theorem Appends.app_addOp2_changeP3 (op : Opcode) (p1 p2 v : Int) (hm : op ∈ L)
    (h : Appends L p q) : Appends L p (sqlite3VdbeChangeP3 (sqlite3VdbeAddOp2 q op p1 p2) v) :=
  h.app_trans ⟨[{ opcode := op, p1 := p1, p2 := p2, p3 := v }],
    by simp [sqlite3VdbeChangeP3, sqlite3VdbeAddOp2, sqlite3VdbeAddOp,
      changeLastOp_append_singleton],
    by simpa using hm⟩

theorem Appends.app_makeLabel (h : Appends L p q) : Appends L p (sqlite3VdbeMakeLabel q).2 :=
  h.app_same rfl

theorem Appends.app_allocMem (n : Nat) (h : Appends L p q) : Appends L p (q.allocMem n) :=
  h.app_same rfl

theorem Appends.app_getTempRange (n : Nat) (h : Appends L p q) :
    Appends L p (sqlite3GetTempRange q n).2 := h.app_same rfl

theorem Appends.app_releaseTempRange (r : Int) (n : Nat) (h : Appends L p q) :
    Appends L p (sqlite3ReleaseTempRange q r n) := h

theorem Appends.app_if_then_else {a b : Parse} {c : Prop} [Decidable c]
    (ha : Appends L p a) (hb : Appends L p b) : Appends L p (if c then a else b) := by
  split
  · exact ha
  · exact hb

theorem Appends.app_foldl {α : Type} (f : Parse → α → Parse)
    (hf : ∀ q i, Appends L q (f q i)) (l : List α) (p : Parse) :
    Appends L p (l.foldl f p) := by
  induction l generalizing p with
  | nil => exact Appends.app_refl _ _
  | cons a l ih => exact (hf p a).app_trans (ih _)

theorem Appends.app_mono {L2 : List Opcode} (h : Appends L p q) (hL : ∀ c ∈ L, c ∈ L2) :
    Appends L2 p q := by
  obtain ⟨c, e, a⟩ := h
  exact ⟨c, e, fun o ho => hL _ (a o ho)⟩

/-- `sqlite3TableAffinity` with a register other than 0 appends `OP_Affinity` or nothing. -/
theorem Appends.app_tableAffinity (pTab : Table) (iReg : Int) (hreg : iReg ≠ 0)
    (hm : OP_Affinity ∈ L) (h : Appends L p q) :
    Appends L p (sqlite3TableAffinity q pTab iReg).2 := by
  unfold sqlite3TableAffinity
  simp only []
  split_ifs
  · exact Appends.app_addOp4 _ _ _ _ _ hm h
  · exact h

end AppendsRules

section AppendsSegments

theorem sqlite3Insert_top_appends (p : Parse) (L : InsertLocals) :
    Appends sqlite3Insert_newRow_ops p (sqlite3Insert_top p L).2 := by
  unfold sqlite3Insert_top
  simp only []
  split_ifs <;> simp only [] <;>
    (repeat' with_reducible first
      | exact Appends.app_refl _ _
      | apply Appends.app_makeLabel
      | apply Appends.app_addOp1) <;> decide

theorem sqlite3Insert_triggerColumn_appends (p : Parse) (pTab : Table)
    (pColumn : Option IdList) (pList : Option ExprList) (useTempTable : Bool)
    (srcTab regCols : Int) (i : Nat) :
    Appends sqlite3Insert_newRow_ops p
      (sqlite3Insert_triggerColumn p pTab pColumn pList useTempTable srcTab regCols i) := by
  unfold sqlite3Insert_triggerColumn
  simp only []
  split_ifs <;>
    (repeat' with_reducible first
      | exact Appends.app_refl _ _
      | apply Appends.app_addOp2
      | apply Appends.app_addOp3
      | apply Appends.app_addOp4) <;> decide

theorem sqlite3Insert_column_appends (p : Parse) (pTab : Table) (pColumn : Option IdList)
    (pList : Option ExprList) (pSelect : Bool) (useTempTable : Bool)
    (srcTab regFromSelect regData regTupleid : Int) (nColumn : Nat) (i : Nat) :
    Appends sqlite3Insert_newRow_ops p
      (sqlite3Insert_column p pTab pColumn pList pSelect useTempTable srcTab regFromSelect
        regData regTupleid nColumn i) := by
  unfold sqlite3Insert_column
  simp only []
  split_ifs <;>
    (repeat' with_reducible first
      | exact Appends.app_refl _ _
      | apply Appends.app_addOp2_changeP3
      | apply Appends.app_addOp2
      | apply Appends.app_addOp3
      | apply Appends.app_addOp4
      | apply Appends.app_allocMem) <;> decide

theorem sqlite3Insert_before_appends (p : Parse) (pTab : Table) (onError : on_conflict_action)
    (L : InsertLocals) :
    Appends sqlite3Insert_newRow_ops p (sqlite3Insert_before p pTab onError L).2 := by
  unfold sqlite3Insert_before
  simp only []
  have hcols : ∀ q regCols, Appends sqlite3Insert_newRow_ops q
      ((List.range pTab.nCol).foldl
        (fun pParse i => sqlite3Insert_triggerColumn pParse pTab L.pColumn L.pList
          L.useTempTable L.srcTab regCols i) q) := fun q regCols =>
    Appends.app_foldl _ (fun q i => sqlite3Insert_triggerColumn_appends q pTab L.pColumn
      L.pList L.useTempTable L.srcTab regCols i) _ _
  have hreg : (sqlite3GetTempRange p (pTab.nCol + 1)).1 + 1 ≠ 0 := by
    unfold sqlite3GetTempRange
    simp only []
    omega
  split_ifs
  all_goals simp only []
  all_goals first
    | exact Appends.app_refl _ _
    | (apply Appends.app_releaseTempRange
       apply Appends.app_addOp _ (by simp only []; decide)
       first
        | (apply Appends.app_tableAffinity _ _ hreg (by decide)
           exact (Appends.app_getTempRange _ (Appends.app_refl _ _)).app_trans (hcols _ _))
        | exact (Appends.app_getTempRange _ (Appends.app_refl _ _)).app_trans (hcols _ _))

theorem sqlite3Insert_newRow_appends (p : Parse) (pTab : Table) (L : InsertLocals) :
    Appends sqlite3Insert_newRow_ops p (sqlite3Insert_newRow p pTab L) := by
  unfold sqlite3Insert_newRow
  simp only []
  refine Appends.app_trans ?_ (Appends.app_foldl _ (fun q i => sqlite3Insert_column_appends q
    pTab L.pColumn L.pList L.pSelect.isSome L.useTempTable L.srcTab L.regFromSelect L.regData
    L.regTupleid L.nColumn i) _ _)
  split_ifs <;>
    (repeat' with_reducible first
      | exact Appends.app_refl _ _
      | apply Appends.app_addOp2
      | apply Appends.app_addOp3) <;> decide

end AppendsSegments

section InsertCursors

theorem sqlite3Insert_indexRegisters_pos (l : List Index) (n : Nat) :
    ∀ x ∈ sqlite3Insert_indexRegisters l n, x ≠ 0 := by
  induction l generalizing n with
  | nil => simp [sqlite3Insert_indexRegisters]
  | cons pIdx rest ih =>
    intro x hx
    unfold sqlite3Insert_indexRegisters at hx
    rcases List.mem_cons.1 hx with rfl | hx
    · push_cast
      omega
    · exact ih _ x hx

/-- The destination as `sqlite3Insert_open` opens it when it is no view: the registers of
the indexes are non-zero, one per index, and the program ends with the space pointer and
`openIndexCode` on the cursors from `iIdxCur` on. -/
theorem sqlite3Insert_open_code (ext : Extern) (p : Parse) (pTab : Table)
    (onError : on_conflict_action) (L : InsertLocals) (hv : L.isView = false) :
    ∃ (pre : List VdbeOp) (reg : Int),
      (sqlite3Insert_open ext p pTab onError L).2.aOp
        = pre ++ openIndexCode ext pTab OP_OpenWrite onError false reg pTab.pIndex
            (sqlite3Insert_open ext p pTab onError L).1.iIdxCur
      ∧ (sqlite3Insert_open ext p pTab onError L).1.aRegIdx.length = pTab.pIndex.length
      ∧ (∀ x ∈ (sqlite3Insert_open ext p pTab onError L).1.aRegIdx, x ≠ 0)
      ∧ (sqlite3Insert_open ext p pTab onError L).1.isView = false := by
  have hopen : ∀ q : Parse, ∃ (pre : List VdbeOp) (reg : Int),
      (sqlite3Insert_aRegIdx
          (pTab.pIndex.take
            (sqlite3OpenTableAndIndices ext q pTab OP_OpenWrite [] (-1) none onError false).nIdx)
          (sqlite3OpenTableAndIndices ext q pTab OP_OpenWrite [] (-1) none onError
            false).pParse []).2.aOp
        = pre ++ openIndexCode ext pTab OP_OpenWrite onError false reg pTab.pIndex
            (sqlite3OpenTableAndIndices ext q pTab OP_OpenWrite [] (-1) none onError
              false).iIdxCur
      ∧ (sqlite3Insert_aRegIdx
          (pTab.pIndex.take
            (sqlite3OpenTableAndIndices ext q pTab OP_OpenWrite [] (-1) none onError false).nIdx)
          (sqlite3OpenTableAndIndices ext q pTab OP_OpenWrite [] (-1) none onError
            false).pParse []).1.length = pTab.pIndex.length
      ∧ (∀ x ∈ (sqlite3Insert_aRegIdx
          (pTab.pIndex.take
            (sqlite3OpenTableAndIndices ext q pTab OP_OpenWrite [] (-1) none onError false).nIdx)
          (sqlite3OpenTableAndIndices ext q pTab OP_OpenWrite [] (-1) none onError
            false).pParse []).1, x ≠ 0) := by
    intro q
    obtain ⟨o1, o4⟩ := sqlite3OpenTableAndIndices_code ext q pTab OP_OpenWrite onError false
    rw [o4, List.take_length]
    obtain ⟨a1, -, a3⟩ := sqlite3Insert_aRegIdx_spec pTab.pIndex
      (sqlite3OpenTableAndIndices ext q pTab OP_OpenWrite [] (-1) none onError false).pParse []
    refine ⟨(sqlite3GetVdbe q).aOp
      ++ [{ opcode := OP_Int64, p1 := 0, p2 := ((q.nMem + 1 : Nat) : Int), p3 := 0,
            p4 := P4_SPACEPTR (SQLITE_PAGENO_TO_SPACEID pTab.tnum) }],
      ((q.nMem + 1 : Nat) : Int), ?_, ?_, ?_⟩
    · rw [a3, o1, List.append_assoc, List.singleton_append]
    · rw [a1, List.nil_append, sqlite3Insert_indexRegisters_length]
    · rw [a1, List.nil_append]
      exact sqlite3Insert_indexRegisters_pos _ _
  unfold sqlite3Insert_open
  simp only []
  by_cases hc : p.user_session.SQLITE_CountRows = true
  · rw [if_pos hc]
    simp only []
    rw [if_pos hv]
    obtain ⟨pre, reg, e1, e2, e3⟩ :=
      hopen (sqlite3VdbeAddOp2 (p.allocMem 1) OP_Integer 0 ((p.nMem + 1 : Nat) : Int))
    exact ⟨pre, reg, e1, e2, e3, hv⟩
  · rw [if_neg hc]
    simp only []
    rw [if_pos hv]
    obtain ⟨pre, reg, e1, e2, e3⟩ := hopen p
    exact ⟨pre, reg, e1, e2, e3, hv⟩

theorem openIndexCode_map (ext : Extern) (pTab : Table) (op : Opcode)
    (overrideError : on_conflict_action) (isUpdate : Bool) (reg : Int) (l : List Index)
    (iBase : Int) :
    (openIndexCode ext pTab op overrideError isUpdate reg l iBase).map
        (fun o => (o.opcode, o.p2, o.p3, o.p4))
      = (l.filter (fun pIdx => decide (openCursorNeeded ext pTab overrideError isUpdate pIdx))).map
        (fun pIdx => (op, pIdx.tnum, reg, P4_KEYINFO pIdx.nColumn (some pIdx.zName))) := by
  induction l generalizing iBase with
  | nil => rfl
  | cons pIdx rest ih =>
    unfold openIndexCode
    by_cases hn : openCursorNeeded ext pTab overrideError isUpdate pIdx
    · rw [if_pos hn, List.filter_cons_of_pos (by simpa using hn), List.map_cons, List.map_cons,
        ih]
    · rw [if_neg hn, List.filter_cons_of_neg (by simpa using hn), ih]

theorem sqlite3Insert_top_cursors (p : Parse) (L : InsertLocals) :
    (sqlite3Insert_top p L).1.iIdxCur = L.iIdxCur
      ∧ (sqlite3Insert_top p L).1.aRegIdx = L.aRegIdx
      ∧ (sqlite3Insert_top p L).1.isView = L.isView := by
  unfold sqlite3Insert_top
  simp only []
  split_ifs <;> exact ⟨rfl, rfl, rfl⟩

/-- The write cursors of an INSERT.  For every INSERT that `sqlite3Insert` compiles to
`insert_end` on a table that is no view, `sqlite3GenerateConstraintChecks` is called with a
non-zero register for every index of the table, and the write cursors opened for the indexes
are those that `sqlite3OpenTableAndIndices` opens under the same override policy: in the
program the constraint checks start from, the code `openIndexCode` of the index loop holds
one `OP_OpenWrite`, in the order of the index list and with the root page of the index, for
each index that passes the test `openCursorNeeded` (the primary index, every index of a table
that a foreign key references, a unique index whose declared policy is neither Default nor
Abort, every index under the override Rollback) and none for the other indexes, and no
`OP_OpenWrite` is emitted between that code and the constraint checks. -/
theorem sqlite3Insert_cursors (ext : Extern) (pParse : Parse) (pTabList : SrcList)
    (pSelect : Option Select) (pColumn : Option IdList) (onError : on_conflict_action)
    (r : InsertResult)
    (h : sqlite3Insert ext pParse pTabList pSelect pColumn onError = some r)
    (hexit : r.exit = InsertExit.insert_end) (hview : r.L.isView = false) :
    ∃ (pTab pTabB : Table) (q1 : Parse) (c : ConstraintResult) (pre post : List VdbeOp)
        (reg : Int),
      (sqlite3SrcListLookup pParse pTabList).1 = some pTab
      ∧ pTabB.pIndex = pTab.pIndex
      ∧ sqlite3GenerateConstraintChecks ext q1 pTabB r.L.aRegIdx r.L.iDataCur r.L.iIdxCur
          r.L.regIns 0 (decide (r.L.ipkColumn ≥ 0)) onError r.L.endOfLoop none = some c
      ∧ r.L.aRegIdx.length = pTab.pIndex.length
      ∧ (∀ x ∈ r.L.aRegIdx, x ≠ 0)
      ∧ q1.aOp = pre
          ++ openIndexCode ext pTab OP_OpenWrite onError false reg pTab.pIndex r.L.iIdxCur
          ++ post
      ∧ (∀ o ∈ post, o.opcode ≠ OP_OpenWrite)
      ∧ (openIndexCode ext pTab OP_OpenWrite onError false reg pTab.pIndex r.L.iIdxCur).map
            (fun o => (o.opcode, o.p2, o.p3, o.p4))
          = (pTab.pIndex.filter
              (fun pIdx => decide (openCursorNeeded ext pTab onError false pIdx))).map
            (fun pIdx => (OP_OpenWrite, pIdx.tnum, reg,
              P4_KEYINFO pIdx.nColumn (some pIdx.zName))) := by
  obtain ⟨pTab, x, po, L0, hl, hloop, -⟩ :=
    sqlite3Insert_reaches_loop ext pParse pTabList pSelect pColumn onError r h hexit
  obtain ⟨hL, -, pTabW, q, -, -, hw⟩ := sqlite3Insert_loop_parts ext po pTab onError L0 r hloop
  rw [if_pos hview] at hw
  obtain ⟨t1, t2, t3⟩ := sqlite3Insert_top_cursors (sqlite3Insert_open ext po pTab onError L0).2
    (sqlite3Insert_open ext po pTab onError L0).1
  rw [← hL] at t1 t2 t3
  have hv0 : L0.isView = false := by
    have := congrArg InsertLocals.isView (sqlite3Insert_loop_locals ext po pTab onError L0 r hloop)
    have e : r.L.isView = L0.isView := this
    rw [← e]
    exact hview
  obtain ⟨pre, reg, e1, e2, e3, -⟩ := sqlite3Insert_open_code ext po pTab onError L0 hv0
  rw [← t1] at e1
  rw [← t2] at e2 e3
  have happ := ((sqlite3Insert_top_appends (sqlite3Insert_open ext po pTab onError L0).2
      (sqlite3Insert_open ext po pTab onError L0).1).app_trans
    (sqlite3Insert_before_appends _ pTab onError r.L)).app_trans
    (sqlite3Insert_newRow_appends _
      (sqlite3Insert_before
        (sqlite3Insert_top (sqlite3Insert_open ext po pTab onError L0).2
          (sqlite3Insert_open ext po pTab onError L0).1).2 pTab onError r.L).1 r.L)
  have htab := sqlite3Insert_before_table
    (sqlite3Insert_top (sqlite3Insert_open ext po pTab onError L0).2
      (sqlite3Insert_open ext po pTab onError L0).1).2 pTab onError r.L
  generalize (sqlite3Insert_before
    (sqlite3Insert_top (sqlite3Insert_open ext po pTab onError L0).2
      (sqlite3Insert_open ext po pTab onError L0).1).2 pTab onError r.L).1 = pTabB
    at hw happ htab
  generalize sqlite3Insert_newRow _ pTabB r.L = q1 at hw happ
  obtain ⟨post, ep, ap⟩ := happ
  unfold sqlite3Insert_write at hw
  cases hc : sqlite3GenerateConstraintChecks ext q1 pTabB r.L.aRegIdx r.L.iDataCur r.L.iIdxCur
      r.L.regIns 0 (decide (r.L.ipkColumn ≥ 0)) onError r.L.endOfLoop none with
  | none =>
    rw [hc] at hw
    cases hw
  | some c =>
    refine ⟨pTab, pTabB, q1, c, pre, post, reg, hl, ?_, hc, e2, e3, ?_, ?_, ?_⟩
    · rcases htab with e | e
      · rw [e]
      · rw [e]
        rfl
    · rw [ep, e1]
    · intro o ho hop
      have := ap o ho
      rw [hop] at this
      exact absurd this (by decide)
    · exact openIndexCode_map ext pTab OP_OpenWrite onError false reg pTab.pIndex r.L.iIdxCur

end InsertCursors

section CursorNumbering

/-- C35: `sqlite3OpenTableAndIndices` returns the number of indexes of the example table `t10`,
whose index list is the primary index, the plain index `i_t10_b` and the unique index
`u_t10_c` with the declared policy Replace.  Under the default policy of an INSERT the plain
index at position 1 gets neither a cursor nor a cursor number, so the index at position 2 is
opened on the cursor `iIdxCur + 1 = 2` and not on `iIdxCur + 2`.  The probe that
`sqlite3GenerateConstraintChecks` emits for that index in `INSERT INTO t10 VALUES (?, ?, ?)`
names the cursor `iIdxCur + 2 = 3`, which no instruction of the program opens. -/
theorem sqlite3OpenTableAndIndices_cursor_mismatch :
    (sqlite3OpenTableAndIndices demoExtern demoParse10 demoT10 OP_OpenWrite [] (-1) none
        ON_CONFLICT_ACTION_DEFAULT false).nIdx = demoT10.pIndex.length
      ∧ (sqlite3OpenTableAndIndices demoExtern demoParse10 demoT10 OP_OpenWrite [] (-1) none
        ON_CONFLICT_ACTION_DEFAULT false).iIdxCur = 1
      ∧ demoT10.pIndex.map Index.tnum = [534528, 534529, 534530]
      ∧ ((sqlite3OpenTableAndIndices demoExtern demoParse10 demoT10 OP_OpenWrite [] (-1) none
            ON_CONFLICT_ACTION_DEFAULT false).pParse.aOp.filter
          (fun o => decide (o.opcode = OP_OpenWrite))).map (fun o => (o.p1, o.p2))
          = [(1, 534528), (2, 534530)]
      ∧ sqlite3Insert demoExtern demoParse10 [{ zName := "t10" }] (some demoValues3) none
          ON_CONFLICT_ACTION_DEFAULT = some demoInsert10
      ∧ demoInsert10.L.iIdxCur = 1
      ∧ (demoInsert10.pParse.aOp.filter
          (fun o => decide (o.opcode = OP_OpenWrite))).map (fun o => (o.p1, o.p2))
          = [(1, 534528), (2, 534530)]
      ∧ (demoInsert10.pParse.aOp.filter
          (fun o => decide (o.opcode = OP_NoConflict))).map (fun o => o.p1) = [3] := by
  decide

end CursorNumbering

section CursorExamples

/-- C36: `sqlite3Insert` compiles `INSERT OR REPLACE INTO t8 VALUES (?, ?)` to `insert_end`
on the table `t8 (a INTEGER PRIMARY KEY NOT NULL, b BLOB UNIQUE)`, which is no view.  Both
indexes of `t8` get a non-zero register (`aRegIdx = [5, 7]`) and the index cursors start at
`iIdxCur = 1`, but under the override Replace only the primary index passes the test of
`sqlite3OpenTableAndIndices` (`openCursorNeeded`): the one cursor the program opens is
cursor 1, on the root page 531456 of the primary index.  `sqlite3GenerateConstraintChecks`
nevertheless emits, for the unique index `i_t8_b` at position 1, the probe `OP_NoConflict`
on cursor `iIdxCur + 1 = 2` (address 15) and the read `OP_Column` of the conflicting row on
cursor 2 (address 16): both name a cursor that no instruction of the program opens. -/
theorem sqlite3Insert_unopened_probe :
    sqlite3Insert demoExtern demoParse8 [{ zName := "t8" }] (some demoValues2) none
        ON_CONFLICT_ACTION_REPLACE = some demoReplace8
      ∧ demoReplace8.exit = InsertExit.insert_end
      ∧ demoReplace8.L.isView = false
      ∧ demoT8.pIndex.map Index.tnum = [531456, 531457]
      ∧ demoReplace8.L.aRegIdx = [5, 7]
      ∧ demoReplace8.L.iIdxCur = 1
      ∧ demoT8.pIndex.map (fun pIdx => decide (openCursorNeeded demoExtern demoT8
          ON_CONFLICT_ACTION_REPLACE false pIdx)) = [true, false]
      ∧ (demoReplace8.pParse.aOp.filter
          (fun o => decide (o.opcode = OP_OpenWrite ∨ o.opcode = OP_OpenRead))).map
            (fun o => (o.opcode, o.p1, o.p2))
          = [(OP_OpenWrite, 1, 531456)]
      ∧ (demoReplace8.pParse.aOp.map (fun o => (o.opcode, o.p1))).get? 11
          = some (OP_NoConflict, 1)
      ∧ (demoReplace8.pParse.aOp.map (fun o => (o.opcode, o.p1))).get? 15
          = some (OP_NoConflict, 2)
      ∧ (demoReplace8.pParse.aOp.map (fun o => (o.opcode, o.p1))).get? 16
          = some (OP_Column, 2)
      ∧ (demoReplace8.pParse.aOp.filter
          (fun o => decide (o.opcode = OP_NoConflict ∨ o.opcode = OP_Column))).map
            (fun o => (o.opcode, o.p1))
          = [(OP_NoConflict, 1), (OP_NoConflict, 2), (OP_Column, 2)] := by
  decide

end CursorExamples

section NeverTransfers

theorem sqlite3Insert_loop_exit (ext : Extern) (p : Parse) (pTab : Table)
    (onError : on_conflict_action) (L : InsertLocals) (r : InsertResult)
    (h : sqlite3Insert_loop ext p pTab onError L = some r) :
    r.exit ≠ InsertExit.xfer_end := by
  unfold sqlite3Insert_loop at h
  simp only [] at h
  split at h
  · cases h
  · simp only [Option.some.injEq] at h
    subst h
    simp

theorem sqlite3Insert_shape_exit (ext : Extern) (p : Parse) (pTab : Table)
    (onError : on_conflict_action) (L : InsertLocals) (r : InsertResult)
    (h : sqlite3Insert_shape ext p pTab onError L = some r) :
    r.exit ≠ InsertExit.xfer_end := by
  unfold sqlite3Insert_shape at h
  simp only [] at h
  split_ifs at h <;>
    first
    | exact sqlite3Insert_loop_exit _ _ _ _ _ _ h
    | (simp only [Option.some.injEq] at h
       subst h
       simp [sqlite3Insert_cleanup])

theorem sqlite3Insert_source_exit (ext : Extern) (p : Parse) (pTab : Table)
    (onError : on_conflict_action) (L : InsertLocals) (r : InsertResult)
    (h : sqlite3Insert_source ext p pTab onError L = some r) :
    r.exit ≠ InsertExit.xfer_end := by
  unfold sqlite3Insert_source at h
  split at h
  · simp only [] at h
    split_ifs at h <;>
      first
      | exact sqlite3Insert_shape_exit _ _ _ _ _ _ h
      | (simp only [Option.some.injEq] at h
         subst h
         simp [sqlite3Insert_cleanup])
  · simp only [] at h
    split at h
    · split at h
      · simp only [Option.some.injEq] at h
        subst h
        simp [sqlite3Insert_cleanup]
      · exact sqlite3Insert_shape_exit _ _ _ _ _ _ h
    · exact sqlite3Insert_shape_exit _ _ _ _ _ _ h

theorem sqlite3Insert_general_exit (ext : Extern) (p : Parse) (pTab : Table)
    (onError : on_conflict_action) (L : InsertLocals) (r : InsertResult)
    (h : sqlite3Insert_general ext p pTab onError L = some r) :
    r.exit ≠ InsertExit.xfer_end := by
  unfold sqlite3Insert_general at h
  simp only [] at h
  split at h
  · split at h
    · simp only [Option.some.injEq] at h
      subst h
      simp [sqlite3Insert_cleanup]
    · exact sqlite3Insert_source_exit _ _ _ _ _ _ h
  · exact sqlite3Insert_source_exit _ _ _ _ _ _ h

/-- A destination with a unique primary index has a unique index. -/
theorem any_IsUniqueIndex_of_primary (pDest : Table) (pk : Index)
    (hpk : sqlite3PrimaryKeyIndex pDest = some pk) (hu : IsUniqueIndex pk = true) :
    pDest.pIndex.any IsUniqueIndex = true :=
  List.any_eq_true.2 ⟨pk, (sqlite3PrimaryKeyIndex_mem pDest pk hpk).1, hu⟩

/-- For a destination with a unique primary index `xferOptimization` returns, and what it
returns is 0; when it has emitted code, the code holds the destination-emptiness guard. -/
theorem xferOptimization_unique_zero (pDest : Table) (pk : Index)
    (hpk : sqlite3PrimaryKeyIndex pDest = some pk) (hu : IsUniqueIndex pk = true)
    (pParse : Parse) (pSelect : Option Select) (onError : on_conflict_action) :
    ∃ q, xferOptimization pParse pDest pSelect onError = some (0, q)
      ∧ (q.aOp.drop pParse.aOp.length ≠ [] →
          hasEmptyDestGuard (q.aOp.drop pParse.aOp.length) pParse.aOp.length
            (pParse.nTab + 1)) := by
  have hany := any_IsUniqueIndex_of_primary pDest pk hpk hu
  have hneed : ∀ oe, xferNeedsEmptyDest pDest oe (pDest.pIndex.any IsUniqueIndex) :=
    fun oe => Or.inr (Or.inl hany)
  have hex : ∃ r, xferOptimization pParse pDest pSelect onError = some r := by
    cases pSelect with
    | none => exact ⟨(0, pParse), rfl⟩
    | some s =>
      by_cases hst : ∃ pSrc, xferStaticOk pParse pDest s pSrc
      · obtain ⟨pSrc, hs⟩ := hst
        rw [xferOptimization_of_static _ _ _ _ _ hs,
          xferOptimization_emit_eq _ _ _ _ _ pk hpk hs.2.2.2.2.2.2.2.1]
        exact ⟨_, rfl⟩
      · obtain ⟨p', hp, -⟩ := xferOptimization_decline pParse pDest s onError hst
        exact ⟨_, hp⟩
  obtain ⟨r, hr⟩ := hex
  rcases xferOptimization_result _ _ _ _ _ hr with
    ⟨h0, he, -⟩ | ⟨s, pSrc, pk', hs, hst, hpk', hr1, hcode, -, -⟩
  · refine ⟨r.2, ?_, ?_⟩
    · rw [hr, ← h0]
    · intro hne
      rw [he, List.drop_length] at hne
      exact absurd rfl hne
  · rw [if_pos (hneed _)] at hr1
    refine ⟨r.2, ?_, fun _ => ?_⟩
    · rw [hr, ← hr1]
    · rw [hpk] at hpk'
      cases hpk'
      have hall := hst.2.2.2.2.2.2.2.1
      obtain ⟨init, hinit, -⟩ := sqlite3GetVdbe_init pParse
      have hlen : (sqlite3GetVdbe pParse).aOp.length = pParse.aOp.length + init.length := by
        rw [hinit]; simp
      have hdrop : r.2.aOp.drop pParse.aOp.length
          = init ++ xferEmitCode (sqlite3GetVdbe pParse) pDest pSrc pk
                  (decide (xferNeedsEmptyDest pDest (xferOptimization_onError pDest onError)
                      (pDest.pIndex.any IsUniqueIndex))) := by
        rw [hcode, hinit, List.append_assoc, List.drop_left]
      rw [hdrop]
      simp only [hneed _, decide_True, xferEmitCode, xferPreamble, xferPostamble, if_true]
      refine ⟨init
          ++ [ { opcode := OP_Int64, p2 := (sqlite3GetVdbe pParse).nMem + 1 + 1 + 1,
                 p4 := P4_SPACEPTR (SQLITE_PAGENO_TO_SPACEID pk.tnum) },
               { opcode := OP_OpenWrite, p1 := (sqlite3GetVdbe pParse).nTab + 1,
                 p2 := pk.tnum, p3 := (sqlite3GetVdbe pParse).nMem + 1 + 1 + 1,
                 p4 := P4_KEYINFO pk.nColumn (some pk.zName) } ],
        _, _, _, by simp; exact ⟨rfl, rfl, rfl⟩, rfl, ?_, ?_, rfl, ?_⟩
      · simp [sqlite3GetVdbe_nTab]
      · simp [hlen]
        omega
      · simp [hlen, xferCopyCode_length _ _ _ _ _ _ _ hall]
        omega

/-- C37: for a destination table whose primary index exists and is unique, every call of
`xferOptimization` returns, and what it returns is 0; whenever the call has emitted code, the
code holds the destination-emptiness guard (`OP_Rewind` on the destination cursor followed by
the `OP_Goto` around the transfer code).  Consequently `sqlite3Insert` on such a table never
leaves through the transfer path (`xfer_end`), and once the destination has been found, its
column names are known and it may be written, the statement is compiled by the general path
`sqlite3Insert_general`. -/
theorem xferOptimization_never_transfers (ext : Extern) (pDest : Table) (pk : Index)
    (hpk : sqlite3PrimaryKeyIndex pDest = some pk) (hu : IsUniqueIndex pk = true) :
    (∀ (pParse : Parse) (pSelect : Option Select) (onError : on_conflict_action),
      ∃ q, xferOptimization pParse pDest pSelect onError = some (0, q)
        ∧ (q.aOp.drop pParse.aOp.length ≠ [] →
            hasEmptyDestGuard (q.aOp.drop pParse.aOp.length) pParse.aOp.length
              (pParse.nTab + 1)))
    ∧ (∀ (pParse : Parse) (pTabList : SrcList) (pSelect : Option Select)
        (pColumn : Option IdList) (onError : on_conflict_action) (p1 : Parse),
        sqlite3SrcListLookup pParse pTabList = (some pDest, p1) →
        (∀ r, sqlite3Insert ext pParse pTabList pSelect pColumn onError = some r →
            r.exit ≠ InsertExit.xfer_end)
        ∧ (pParse.nErr = 0 ∧ pParse.db.mallocFailed = false →
            ext.sqlite3ViewGetColumnNames p1 pDest = none →
            ext.sqlite3IsReadOnly p1 pDest (ext.sqlite3TriggersExist pDest TK_INSERT).2 = none →
            ∃ x, sqlite3Insert ext pParse pTabList pSelect pColumn onError
              = sqlite3Insert_general ext x pDest onError
                  (sqlite3Insert_locals ext pDest pSelect pColumn))) := by
  refine ⟨fun pParse pSelect onError =>
    xferOptimization_unique_zero pDest pk hpk hu pParse pSelect onError, ?_⟩
  intro pParse pTabList pSelect pColumn onError p1 hl
  have hgen : pParse.nErr = 0 ∧ pParse.db.mallocFailed = false →
      ext.sqlite3ViewGetColumnNames p1 pDest = none →
      ext.sqlite3IsReadOnly p1 pDest (ext.sqlite3TriggersExist pDest TK_INSERT).2 = none →
      ∃ x, sqlite3Insert ext pParse pTabList pSelect pColumn onError
        = sqlite3Insert_general ext x pDest onError
            (sqlite3Insert_locals ext pDest pSelect pColumn) := by
    intro h0 hv hr
    rw [sqlite3Insert_eq ext pParse pTabList pSelect pColumn onError pDest p1 h0 hl hv hr]
    cases pColumn with
    | some cols => exact ⟨_, rfl⟩
    | none =>
      obtain ⟨q, hq, -⟩ := xferOptimization_unique_zero pDest pk hpk hu
        (sqlite3Insert_begin p1 (sqlite3Insert_locals ext pDest pSelect none))
        (sqlite3Insert_locals ext pDest pSelect none).pSelect onError
      rw [hq]
      exact ⟨q, rfl⟩
  refine ⟨?_, hgen⟩
  intro r h hx
  by_cases h0 : pParse.nErr = 0 ∧ pParse.db.mallocFailed = false
  · cases hv : ext.sqlite3ViewGetColumnNames p1 pDest with
    | some z =>
      unfold sqlite3Insert at h
      have hn : ¬ (pParse.nErr ≠ 0 ∨ pParse.db.mallocFailed = true) := by
        rw [h0.1, h0.2]; simp
      simp only [hn, if_false, hl, hv, Option.some.injEq] at h
      subst h
      simp [sqlite3Insert_cleanup] at hx
    | none =>
      cases hr : ext.sqlite3IsReadOnly p1 pDest (ext.sqlite3TriggersExist pDest TK_INSERT).2 with
      | some z =>
        unfold sqlite3Insert at h
        have hn : ¬ (pParse.nErr ≠ 0 ∨ pParse.db.mallocFailed = true) := by
          rw [h0.1, h0.2]; simp
        simp only [hn, if_false, hl, hv, hr, Option.some.injEq] at h
        subst h
        simp [sqlite3Insert_cleanup] at hx
      | none =>
        obtain ⟨y, hy⟩ := hgen h0 hv hr
        rw [hy] at h
        exact sqlite3Insert_general_exit ext y pDest onError _ r h hx
  · unfold sqlite3Insert at h
    have hn : (pParse.nErr ≠ 0 ∨ pParse.db.mallocFailed = true) := by
      by_contra hc
      apply h0
      constructor
      · by_contra h1; exact hc (Or.inl h1)
      · cases hm : pParse.db.mallocFailed
        · rfl
        · exact absurd (Or.inr hm) hc
    simp only [hn, if_true, Option.some.injEq] at h
    subst h
    simp [sqlite3Insert_cleanup] at hx

end NeverTransfers

section NeverTransfersExamples

/-- Witness of C37 on `INSERT INTO t1 SELECT * FROM t2`, where every static test of the
transfer passes: the primary index of `t1` is unique, `xferOptimization` returns 0 after
emitting the guard, and `sqlite3Insert` does not leave through the transfer path. -/
theorem xferOptimization_never_transfers_witness :
    sqlite3PrimaryKeyIndex demoT1 = some demoPk1
      ∧ IsUniqueIndex demoPk1 = true
      ∧ (∃ q, xferOptimization demoParse demoT1 (some (demoStar "t2"))
            ON_CONFLICT_ACTION_DEFAULT = some (0, q)
          ∧ (q.aOp.drop demoParse.aOp.length ≠ [] →
              hasEmptyDestGuard (q.aOp.drop demoParse.aOp.length) demoParse.aOp.length
                (demoParse.nTab + 1)))
      ∧ (∀ r, sqlite3Insert demoExtern demoParse [{ zName := "t1" }] (some (demoStar "t2"))
            none ON_CONFLICT_ACTION_DEFAULT = some r → r.exit ≠ InsertExit.xfer_end) :=
  ⟨by decide, by decide,
    (xferOptimization_never_transfers demoExtern demoT1 demoPk1 (by decide) (by decide)).1
      demoParse (some (demoStar "t2")) ON_CONFLICT_ACTION_DEFAULT,
    ((xferOptimization_never_transfers demoExtern demoT1 demoPk1 (by decide) (by decide)).2
      demoParse [{ zName := "t1" }] (some (demoStar "t2")) none ON_CONFLICT_ACTION_DEFAULT
      (sqlite3SrcListLookup demoParse [{ zName := "t1" }]).2 (by decide)).1⟩

end NeverTransfersExamples

section GuardedHandler

/-- The code of the uniqueness test `sqlite3GenerateConstraintChecks_probe`: the test of an
auto-increment key, the probe `OP_NoConflict` when byte code is needed, and then the reads of
the key of the conflicting row and the comparison chain of an UPDATE, which are absent for an
INSERT unless the policy is Replace on an index other than the primary one. -/
theorem sqlite3GenerateConstraintChecks_probe_code (iIdxCur regOldData : Int)
    (onError : on_conflict_action) (pPk : Index) (pkIx : Nat) (pIdx : Index) (ix : Nat)
    (U : UniqueLocals) (p : Parse) :
    ∃ between : List VdbeOp,
      (sqlite3GenerateConstraintChecks_probe iIdxCur regOldData onError pPk pkIx pIdx ix U
          p).2.aOp
        = p.aOp
          ++ ((if U.table_ipk_autoinc = true then
                [({ opcode := OP_IsNull, p1 := U.reg_pk, p2 := U.addrUniqueOk } : VdbeOp)]
              else [])
            ++ (if U.uniqueByteCodeNeeded = true then
                [({ opcode := OP_NoConflict, p1 := iIdxCur + ix, p2 := U.addrUniqueOk,
                    p3 := U.regIdx, p4 := P4_INT32 pIdx.nKeyCol } : VdbeOp)]
              else []))
          ++ between
      ∧ (∀ o ∈ between, (o.opcode = OP_Column ∧ o.p1 = iIdxCur + ix)
          ∨ o.opcode = OP_Ne ∨ o.opcode = OP_Eq)
      ∧ (regOldData = 0 → (onError ≠ ON_CONFLICT_ACTION_REPLACE ∨ ix = pkIx) → between = [])
      ∧ (sqlite3GenerateConstraintChecks_probe iIdxCur regOldData onError pPk pkIx pIdx ix U
          p).2.user_session = p.user_session := by
  have hk := (sqlite3GenerateConstraintChecks_probe_keeps iIdxCur regOldData onError pPk pkIx
    pIdx ix U p).user_session
  have key : ∀ (A : List VdbeOp) (q : Parse), q.aOp = p.aOp ++ A →
      ∀ regR : Int, ∃ between : List VdbeOp,
        (if decide (regOldData ≠ 0) = true ∨ onError = ON_CONFLICT_ACTION_REPLACE then
            (if decide (regOldData ≠ 0) = true ∧ U.uniqueByteCodeNeeded = true then
              sqlite3GenerateConstraintChecks_cmp pPk regOldData
                (if IsPrimaryKeyIndex pIdx = true then U.regIdx else regR)
                ((sqlite3VdbeCurrentAddr
                    (if ix ≠ pkIx then
                      sqlite3GenerateConstraintChecks_pkCols pIdx (iIdxCur + ix) regR
                        (pPk.aiColumn.take pPk.nKeyCol) 0 q
                    else q) : Int) + pPk.nKeyCol)
                U.addrUniqueOk pPk.nKeyCol (pPk.aiColumn.take pPk.nKeyCol) 0
                (if ix ≠ pkIx then
                  sqlite3GenerateConstraintChecks_pkCols pIdx (iIdxCur + ix) regR
                    (pPk.aiColumn.take pPk.nKeyCol) 0 q
                else q)
            else
              (if ix ≠ pkIx then
                sqlite3GenerateConstraintChecks_pkCols pIdx (iIdxCur + ix) regR
                  (pPk.aiColumn.take pPk.nKeyCol) 0 q
              else q))
          else q).aOp = p.aOp ++ A ++ between
        ∧ (∀ o ∈ between, (o.opcode = OP_Column ∧ o.p1 = iIdxCur + ix)
            ∨ o.opcode = OP_Ne ∨ o.opcode = OP_Eq)
        ∧ (regOldData = 0 → (onError ≠ ON_CONFLICT_ACTION_REPLACE ∨ ix = pkIx) →
            between = []) := by
    intro A q hq regR
    have hcols : ∃ cols : List VdbeOp,
        (if ix ≠ pkIx then
            sqlite3GenerateConstraintChecks_pkCols pIdx (iIdxCur + ix) regR
              (pPk.aiColumn.take pPk.nKeyCol) 0 q
          else q).aOp = p.aOp ++ A ++ cols
        ∧ (∀ o ∈ cols, o.opcode = OP_Column ∧ o.p1 = iIdxCur + ix)
        ∧ (ix = pkIx → cols = []) := by
      by_cases hpk : ix = pkIx
      · rw [if_neg (by simpa using hpk)]
        exact ⟨[], by rw [hq, List.append_nil], by simp, fun _ => rfl⟩
      · rw [if_pos hpk]
        obtain ⟨cols, e, a⟩ := sqlite3GenerateConstraintChecks_pkCols_aOp pIdx (iIdxCur + ix)
          regR (pPk.aiColumn.take pPk.nKeyCol) 0 q
        exact ⟨cols, by rw [e, hq], a, fun h => absurd h hpk⟩
    obtain ⟨cols, ec, ac, nc⟩ := hcols
    generalize (if ix ≠ pkIx then
        sqlite3GenerateConstraintChecks_pkCols pIdx (iIdxCur + ix) regR
          (pPk.aiColumn.take pPk.nKeyCol) 0 q
      else q) = q2 at ec ⊢
    by_cases hu : decide (regOldData ≠ 0) = true ∨ onError = ON_CONFLICT_ACTION_REPLACE
    · rw [if_pos hu]
      by_cases hc : decide (regOldData ≠ 0) = true ∧ U.uniqueByteCodeNeeded = true
      · rw [if_pos hc, sqlite3GenerateConstraintChecks_cmp_aOp, ec]
        refine ⟨cols ++ _, List.append_assoc _ _ _, ?_, ?_⟩
        · intro o ho
          rcases List.mem_append.1 ho with ho | ho
          · exact Or.inl (ac o ho)
          · obtain ⟨k, -, rfl⟩ := List.mem_map.1 ho
            by_cases hk : 0 + k = pPk.nKeyCol - 1
            · exact Or.inr (Or.inr (by simp only [hk, if_true]))
            · exact Or.inr (Or.inl (by simp only [hk, if_false]))
        · intro h0 _
          exact absurd h0 (by simpa using hc.1)
      · rw [if_neg hc]
        refine ⟨cols, ec, fun o ho => Or.inl (ac o ho), ?_⟩
        intro h0 h1
        rcases h1 with h1 | h1
        · rcases hu with hu | hu
          · exact absurd h0 (by simpa using hu)
          · exact absurd hu h1
        · exact nc h1
    · rw [if_neg hu]
      exact ⟨[], by rw [hq, List.append_nil], by simp, fun _ _ => rfl⟩
  have hq1 :
      (if U.uniqueByteCodeNeeded = true then
          sqlite3VdbeAddOp4
            (if U.table_ipk_autoinc = true then
              sqlite3VdbeAddOp2 p OP_IsNull U.reg_pk U.addrUniqueOk else p)
            OP_NoConflict (iIdxCur + ix) U.addrUniqueOk U.regIdx (P4_INT32 pIdx.nKeyCol)
        else
          (if U.table_ipk_autoinc = true then
            sqlite3VdbeAddOp2 p OP_IsNull U.reg_pk U.addrUniqueOk else p)).aOp
        = p.aOp
          ++ ((if U.table_ipk_autoinc = true then
                [({ opcode := OP_IsNull, p1 := U.reg_pk, p2 := U.addrUniqueOk } : VdbeOp)]
              else [])
            ++ (if U.uniqueByteCodeNeeded = true then
                [({ opcode := OP_NoConflict, p1 := iIdxCur + ix, p2 := U.addrUniqueOk,
                    p3 := U.regIdx, p4 := P4_INT32 pIdx.nKeyCol } : VdbeOp)]
              else [])) := by
    cases U.table_ipk_autoinc <;> cases U.uniqueByteCodeNeeded <;>
      simp [sqlite3VdbeAddOp2, sqlite3VdbeAddOp4, sqlite3VdbeAddOp3, sqlite3VdbeAddOp]
  unfold sqlite3GenerateConstraintChecks_probe at hk ⊢
  simp only [] at hk ⊢
  by_cases hpk : ix = pkIx
  · simp only [if_pos hpk] at hk ⊢
    obtain ⟨between, e, a, n⟩ := key _ _ hq1 U.regIdx
    exact ⟨between, e, a, n, hk⟩
  · simp only [if_neg hpk, sqlite3GetTempRange] at hk ⊢
    obtain ⟨between, e, a, n⟩ := key _
      { (if U.uniqueByteCodeNeeded = true then
          sqlite3VdbeAddOp4
            (if U.table_ipk_autoinc = true then
              sqlite3VdbeAddOp2 p OP_IsNull U.reg_pk U.addrUniqueOk else p)
            OP_NoConflict (iIdxCur + ix) U.addrUniqueOk U.regIdx (P4_INT32 pIdx.nKeyCol)
        else
          (if U.table_ipk_autoinc = true then
            sqlite3VdbeAddOp2 p OP_IsNull U.reg_pk U.addrUniqueOk else p)) with
        nMem := (if U.uniqueByteCodeNeeded = true then
          sqlite3VdbeAddOp4
            (if U.table_ipk_autoinc = true then
              sqlite3VdbeAddOp2 p OP_IsNull U.reg_pk U.addrUniqueOk else p)
            OP_NoConflict (iIdxCur + ix) U.addrUniqueOk U.regIdx (P4_INT32 pIdx.nKeyCol)
        else
          (if U.table_ipk_autoinc = true then
            sqlite3VdbeAddOp2 p OP_IsNull U.reg_pk U.addrUniqueOk else p)).nMem + pPk.nKeyCol }
      hq1
      ((if U.uniqueByteCodeNeeded = true then
          sqlite3VdbeAddOp4
            (if U.table_ipk_autoinc = true then
              sqlite3VdbeAddOp2 p OP_IsNull U.reg_pk U.addrUniqueOk else p)
            OP_NoConflict (iIdxCur + ix) U.addrUniqueOk U.regIdx (P4_INT32 pIdx.nKeyCol)
        else
          (if U.table_ipk_autoinc = true then
            sqlite3VdbeAddOp2 p OP_IsNull U.reg_pk U.addrUniqueOk else p)).nMem + 1)
    exact ⟨between, e, a, n, hk⟩

/-- A policy for which no probe is needed is Abort: when neither the declared policy of the
index nor the override of the statement asks for byte code, the resolved policy is Abort. -/
theorem specUniquePolicy_of_not_needed (overrideError : on_conflict_action) (pIdx : Index)
    (h : ¬ ((pIdx.onError ≠ ON_CONFLICT_ACTION_ABORT
          ∧ pIdx.onError ≠ ON_CONFLICT_ACTION_DEFAULT)
        ∨ (overrideError ≠ ON_CONFLICT_ACTION_ABORT
          ∧ overrideError ≠ ON_CONFLICT_ACTION_DEFAULT))) :
    specUniquePolicy overrideError pIdx = ON_CONFLICT_ACTION_ABORT := by
  unfold specUniquePolicy
  cases overrideError <;> cases hi : pIdx.onError <;> simp_all

/-- C38 (as amended): in one iteration of the UNIQUE loop for an index that has a register,
the code emitted after the record of the index is `lead ++ between ++ handler`, where
`handler` is the conflict handler of the resolved policy (a uniqueness-violation halt, a jump
to `ignoreDest` or the deletion of the conflicting row; nothing for Abort and nothing when
the test is elided).  Whenever the handler is not empty, `lead` ends with the probe
`OP_NoConflict` on the cursor `iIdxCur + ix` of the index whose jump target is the label
`addrUniqueOk` of the index.  The probe and the handler are separated by `between` only:
the reads `OP_Column` of the key of the conflicting row on the same cursor and the
comparisons `OP_Ne` and `OP_Eq` of an UPDATE; for an INSERT `between` is empty unless the
policy is Replace on an index other than the primary one.  When no probe is needed the
resolved policy is Abort and the handler is empty. -/
theorem sqlite3GenerateConstraintChecks_guarded (ext : Extern) (aRegIdx : List Int)
    (iDataCur iIdxCur regNewData regOldData : Int) (pkChng : Bool)
    (overrideError : on_conflict_action) (ignoreDest : Int) (pPk : Index) (pkIx nIndex : Nat)
    (pIdx : Index) (ix : Nat) (st : UniqueState) (h0 : aRegIdx.getD ix 0 ≠ 0) :
    ∃ (lead between handler : List VdbeOp) (session : Session) (regR : Int),
      (sqlite3GenerateConstraintChecks_unique ext aRegIdx iDataCur iIdxCur regNewData
          regOldData pkChng overrideError ignoreDest pPk pkIx nIndex pIdx ix st).pParse.aOp
        = (sqlite3GenerateConstraintChecks_record aRegIdx regNewData overrideError pIdx ix
            st).2.pParse.aOp ++ lead ++ between ++ handler
      ∧ handler
          = (if uniqueTestElided ext
                (sqlite3GenerateConstraintChecks_record aRegIdx regNewData overrideError pIdx ix
                  st).2.pParse.user_session
                (sqlite3GenerateConstraintChecks_record aRegIdx regNewData overrideError pIdx ix
                  st).2.pTab
                regOldData pkChng overrideError pkIx nIndex pIdx ix then []
            else uniqueConflictCode ext session
              (sqlite3GenerateConstraintChecks_record aRegIdx regNewData overrideError pIdx ix
                st).2.pTab
              iDataCur iIdxCur ignoreDest (specUniquePolicy overrideError pIdx) pPk pkIx pIdx ix
              regR)
      ∧ (handler ≠ [] →
          ∃ lead0, lead = lead0
            ++ [{ opcode := OP_NoConflict, p1 := iIdxCur + ix,
                  p2 := (sqlite3GenerateConstraintChecks_record aRegIdx regNewData overrideError
                    pIdx ix st).1.addrUniqueOk,
                  p3 := (sqlite3GenerateConstraintChecks_record aRegIdx regNewData overrideError
                    pIdx ix st).1.regIdx,
                  p4 := P4_INT32 pIdx.nKeyCol }])
      ∧ (∀ o ∈ between, (o.opcode = OP_Column ∧ o.p1 = iIdxCur + ix)
          ∨ o.opcode = OP_Ne ∨ o.opcode = OP_Eq)
      ∧ (regOldData = 0 →
          (specUniquePolicy overrideError pIdx ≠ ON_CONFLICT_ACTION_REPLACE ∨ ix = pkIx) →
          between = [])
      ∧ ((sqlite3GenerateConstraintChecks_record aRegIdx regNewData overrideError pIdx ix
            st).1.uniqueByteCodeNeeded = false →
          specUniquePolicy overrideError pIdx = ON_CONFLICT_ACTION_ABORT ∧ handler = []) := by
  have hneeded := sqlite3GenerateConstraintChecks_record_needed aRegIdx regNewData
    overrideError pIdx ix st
  have habort : (sqlite3GenerateConstraintChecks_record aRegIdx regNewData overrideError pIdx ix
      st).1.uniqueByteCodeNeeded = false →
      specUniquePolicy overrideError pIdx = ON_CONFLICT_ACTION_ABORT := by
    intro hf
    rw [hneeded] at hf
    exact specUniquePolicy_of_not_needed overrideError pIdx (by simpa using hf)
  rw [sqlite3GenerateConstraintChecks_unique_cases _ _ _ _ _ _ _ _ _ _ _ _ _ _ _ h0]
  generalize sqlite3GenerateConstraintChecks_record aRegIdx regNewData overrideError pIdx ix
    st = R at habort ⊢
  by_cases he : uniqueTestElided ext R.2.pParse.user_session R.2.pTab regOldData pkChng
      overrideError pkIx nIndex pIdx ix
  · rw [if_pos he]
    refine ⟨[], [], [], default, 0, ?_, ?_, ?_, ?_, ?_, ?_⟩
    · simp [sqlite3VdbeResolveLabel]
    · rw [if_pos he]
    · intro h
      exact absurd rfl h
    · simp
    · intro _ _
      rfl
    · intro hf
      exact ⟨habort hf, rfl⟩
  · rw [if_neg he]
    obtain ⟨between, e, a, n, hs⟩ := sqlite3GenerateConstraintChecks_probe_code iIdxCur
      regOldData (specUniquePolicy overrideError pIdx) pPk pkIx pIdx ix R.1 R.2.pParse
    have hr := (sqlite3GenerateConstraintChecks_resolve_code ext R.2.pTab
      iDataCur iIdxCur ignoreDest (specUniquePolicy overrideError pIdx) pPk pkIx pIdx ix R.1
      (sqlite3GenerateConstraintChecks_probe iIdxCur regOldData
        (specUniquePolicy overrideError pIdx) pPk pkIx pIdx ix R.1 R.2.pParse).1
      R.2.seenReplace
      (sqlite3GenerateConstraintChecks_probe iIdxCur regOldData
        (specUniquePolicy overrideError pIdx) pPk pkIx pIdx ix R.1 R.2.pParse).2).1
    have hempty : R.1.uniqueByteCodeNeeded = false →
        ∀ (session : Session) (regR : Int),
          uniqueConflictCode ext session R.2.pTab iDataCur iIdxCur ignoreDest
            (specUniquePolicy overrideError pIdx) pPk pkIx pIdx ix regR = [] := by
      intro hf session regR
      rw [habort hf]
      rfl
    refine ⟨(if R.1.table_ipk_autoinc = true then
          [({ opcode := OP_IsNull, p1 := R.1.reg_pk, p2 := R.1.addrUniqueOk } : VdbeOp)]
        else [])
      ++ (if R.1.uniqueByteCodeNeeded = true then
          [({ opcode := OP_NoConflict, p1 := iIdxCur + ix, p2 := R.1.addrUniqueOk,
              p3 := R.1.regIdx, p4 := P4_INT32 pIdx.nKeyCol } : VdbeOp)]
        else []),
      between,
      uniqueConflictCode ext
        (sqlite3GenerateConstraintChecks_probe iIdxCur regOldData
          (specUniquePolicy overrideError pIdx) pPk pkIx pIdx ix R.1 R.2.pParse).2.user_session
        R.2.pTab iDataCur iIdxCur ignoreDest (specUniquePolicy overrideError pIdx) pPk pkIx pIdx
        ix
        (sqlite3GenerateConstraintChecks_probe iIdxCur regOldData
          (specUniquePolicy overrideError pIdx) pPk pkIx pIdx ix R.1 R.2.pParse).1,
      (sqlite3GenerateConstraintChecks_probe iIdxCur regOldData
        (specUniquePolicy overrideError pIdx) pPk pkIx pIdx ix R.1 R.2.pParse).2.user_session,
      (sqlite3GenerateConstraintChecks_probe iIdxCur regOldData
        (specUniquePolicy overrideError pIdx) pPk pkIx pIdx ix R.1 R.2.pParse).1,
      ?_, ?_, ?_, a, n, ?_⟩
    · show (sqlite3GenerateConstraintChecks_resolve _ _ _ _ _ _ _ _ _ _ _ _ _ _).1.aOp = _
      rw [hr, e]
    · rw [if_neg he]
    · intro hne
      cases hn : R.1.uniqueByteCodeNeeded with
      | false => exact absurd (hempty hn _ _) hne
      | true => exact ⟨_, rfl⟩
    · intro hf
      exact ⟨habort hf, hempty hf _ _⟩

end GuardedHandler

section GuardedExamples

/-- Counterexample to C38 as stated.  In `INSERT INTO t11 VALUES (?, ?)` the handler of the
index `u_t11_b`, the deletion of the conflicting row at address 17, is not immediately
preceded by the probe: the probe `OP_NoConflict` on cursor 2 is at address 15, and the read
`OP_Column` of the primary key of the conflicting row stands between them at address 16. -/
theorem sqlite3GenerateConstraintChecks_guarded_counterexample :
    sqlite3Insert demoExtern demoParse11 [{ zName := "t11" }] (some demoValues2) none
        ON_CONFLICT_ACTION_DEFAULT = some demoInsert11
      ∧ demoInsert11.L.iIdxCur = 1
      ∧ ((demoInsert11.pParse.aOp.drop 15).take 3).map (fun o => (o.opcode, o.p1, o.p2, o.p3))
          = [(OP_NoConflict, 2, -4, 8), (OP_Column, 2, 1, 10),
             (CALL_sqlite3GenerateRowDelete, 1, 1, 10)]
      ∧ (demoInsert11.pParse.aOp.filter
          (fun o => decide (o.opcode = CALL_sqlite3GenerateRowDelete))).length = 1 := by
  decide

/-- Witness of C38 (as amended) on the iteration of the UNIQUE loop for the index `u_t11_b`
of `t11`, whose declared policy is Replace: the handler is the deletion of the conflicting
row, the probe `OP_NoConflict` on the cursor of the index ends the code before it, and the
code in between is made of key reads on that cursor. -/
theorem sqlite3GenerateConstraintChecks_guarded_witness :
    ([4, 6] : List Int).getD 1 0 ≠ 0
      ∧ ∃ (lead between handler : List VdbeOp),
        (sqlite3GenerateConstraintChecks_unique demoExtern [4, 6] 1 1 1 0 true
            ON_CONFLICT_ACTION_DEFAULT (-1) (demoT11.pIndex.getD 0 default) 0 2
            (demoT11.pIndex.getD 1 default) 1 demoUniqueStart11).pParse.aOp
          = (sqlite3GenerateConstraintChecks_record [4, 6] 1 ON_CONFLICT_ACTION_DEFAULT
              (demoT11.pIndex.getD 1 default) 1 demoUniqueStart11).2.pParse.aOp
            ++ lead ++ between ++ handler
        ∧ (handler ≠ [] →
            ∃ lead0, lead = lead0
              ++ [{ opcode := OP_NoConflict, p1 := 1 + (1 : Nat),
                    p2 := (sqlite3GenerateConstraintChecks_record [4, 6] 1
                      ON_CONFLICT_ACTION_DEFAULT (demoT11.pIndex.getD 1 default) 1
                      demoUniqueStart11).1.addrUniqueOk,
                    p3 := (sqlite3GenerateConstraintChecks_record [4, 6] 1
                      ON_CONFLICT_ACTION_DEFAULT (demoT11.pIndex.getD 1 default) 1
                      demoUniqueStart11).1.regIdx,
                    p4 := P4_INT32 (demoT11.pIndex.getD 1 default).nKeyCol }])
        ∧ (∀ o ∈ between, (o.opcode = OP_Column ∧ o.p1 = 1 + (1 : Nat))
            ∨ o.opcode = OP_Ne ∨ o.opcode = OP_Eq) :=
  ⟨by decide,
    match sqlite3GenerateConstraintChecks_guarded demoExtern [4, 6] 1 1 1 0 true
      ON_CONFLICT_ACTION_DEFAULT (-1) (demoT11.pIndex.getD 0 default) 0 2
      (demoT11.pIndex.getD 1 default) 1 demoUniqueStart11 (by decide) with
    | ⟨lead, between, handler, _, _, h1, _, h3, h4, _, _⟩ => ⟨lead, between, handler, h1, h3, h4⟩⟩

end GuardedExamples

section CompletionOpcode

/-- C39 (as amended): for a table with a non-empty index list `sqlite3CompleteInsertion`
returns and appends one instruction, `OP_IdxReplace` or `OP_IdxInsert`; it is `OP_IdxReplace`
if and only if the override policy of the statement is Replace.  That agrees with the policy
resolved for the first index of the list, which is the primary index (the override if it is
not Default, else the declared policy of the index, else Abort), whenever the override is not
Default or the declared policy of that index is not Replace. -/
theorem sqlite3CompleteInsertion_opcode (pParse : Parse) (pTab : Table) (iIdxCur : Int)
    (aRegIdx : List Int) (useSeekResult : Bool) (onError : on_conflict_action)
    (pIdx : Index) (rest : List Index) (h : pTab.pIndex = pIdx :: rest) :
    ∃ q op, sqlite3CompleteInsertion pParse pTab iIdxCur aRegIdx useSeekResult onError = some q
      ∧ q.aOp = (sqlite3GetVdbe pParse).aOp ++ [op]
      ∧ (op.opcode = OP_IdxReplace ∨ op.opcode = OP_IdxInsert)
      ∧ (op.opcode = OP_IdxReplace ↔ onError = ON_CONFLICT_ACTION_REPLACE)
      ∧ ((onError ≠ ON_CONFLICT_ACTION_DEFAULT ∨ pIdx.onError ≠ ON_CONFLICT_ACTION_REPLACE) →
          (op.opcode = OP_IdxReplace
            ↔ specUniquePolicy onError pIdx = ON_CONFLICT_ACTION_REPLACE)) := by
  unfold sqlite3CompleteInsertion
  rw [h]
  simp only []
  refine ⟨_,
    { opcode := if onError = ON_CONFLICT_ACTION_REPLACE then OP_IdxReplace else OP_IdxInsert,
      p1 := iIdxCur, p2 := aRegIdx.getD 0 0, p3 := aRegIdx.getD 0 0 + 1,
      p4 := P4_INT32 (if pIdx.uniqNotNull = true then (pIdx.nKeyCol : Int)
        else (pIdx.nColumn : Int)),
      p5 := (if onError = ON_CONFLICT_ACTION_IGNORE then
          (if useSeekResult = true then [OPFLAG_NCHANGE] ++ [OPFLAG_USESEEKRESULT]
            else [OPFLAG_NCHANGE]) ++ [OPFLAG_OE_IGNORE]
        else if onError = ON_CONFLICT_ACTION_FAIL then
          (if useSeekResult = true then [OPFLAG_NCHANGE] ++ [OPFLAG_USESEEKRESULT]
            else [OPFLAG_NCHANGE]) ++ [OPFLAG_OE_FAIL]
        else if useSeekResult = true then [OPFLAG_NCHANGE] ++ [OPFLAG_USESEEKRESULT]
          else [OPFLAG_NCHANGE]) }, rfl, ?_, ?_, ?_, ?_⟩
  · simp only [sqlite3VdbeChangeP5, sqlite3VdbeAddOp4, sqlite3VdbeAddOp,
      changeLastOp_append_singleton]
  · by_cases hr : onError = ON_CONFLICT_ACTION_REPLACE
    · exact Or.inl (if_pos hr)
    · exact Or.inr (if_neg hr)
  · by_cases hr : onError = ON_CONFLICT_ACTION_REPLACE
    · simp only [hr, if_true]
    · simp only [hr, if_false, iff_false]
      decide
  · intro hc
    unfold specUniquePolicy
    cases onError <;> cases hi : pIdx.onError <;> simp_all

end CompletionOpcode

section CompletionExamples

/-- Counterexample to C39 as stated.  The declared policy of the primary index of `t12` is
Replace, so for `INSERT INTO t12 VALUES (?, ?)`, whose override is Default, the resolved
policy of the primary index is Replace: the constraint checks emit the probe and the deletion
of the conflicting row for it.  The write that completes the insertion is `OP_IdxInsert`. -/
theorem sqlite3CompleteInsertion_opcode_counterexample :
    sqlite3Insert demoExtern demoParse12 [{ zName := "t12" }] (some demoValues2) none
        ON_CONFLICT_ACTION_DEFAULT = some demoInsert12
      ∧ sqlite3PrimaryKeyIndex demoT12 = demoT12.pIndex.head?
      ∧ (demoT12.pIndex.head?.map (specUniquePolicy ON_CONFLICT_ACTION_DEFAULT))
          = some ON_CONFLICT_ACTION_REPLACE
      ∧ ((demoInsert12.pParse.aOp.drop 11).take 2).map (fun o => (o.opcode, o.p1))
          = [(OP_NoConflict, 1), (CALL_sqlite3GenerateRowDelete, 1)]
      ∧ (demoInsert12.pParse.aOp.getLast?.map (fun o => (o.opcode, o.p1)))
          = some (OP_IdxInsert, 1)
      ∧ ((sqlite3CompleteInsertion demoParse12 demoT12 1 [5, 7] true
            ON_CONFLICT_ACTION_DEFAULT).map
          (fun q => q.aOp.getLast?.map (fun o => o.opcode))) = some (some OP_IdxInsert) := by
  decide

/-- Witness of C39 (as amended) on `t12` under `INSERT OR REPLACE`: the override is Replace,
so the write is `OP_IdxReplace`, in agreement with the resolved policy of the primary
index. -/
theorem sqlite3CompleteInsertion_opcode_witness :
    demoT12.pIndex = (demoT12.pIndex.getD 0 default) :: [demoT12.pIndex.getD 1 default]
      ∧ ∃ q op, sqlite3CompleteInsertion demoParse12 demoT12 1 [5, 7] true
            ON_CONFLICT_ACTION_REPLACE = some q
        ∧ q.aOp = (sqlite3GetVdbe demoParse12).aOp ++ [op]
        ∧ (op.opcode = OP_IdxReplace ↔ ON_CONFLICT_ACTION_REPLACE = ON_CONFLICT_ACTION_REPLACE)
        ∧ (op.opcode = OP_IdxReplace
            ↔ specUniquePolicy ON_CONFLICT_ACTION_REPLACE (demoT12.pIndex.getD 0 default)
                = ON_CONFLICT_ACTION_REPLACE) :=
  ⟨by decide,
    match sqlite3CompleteInsertion_opcode demoParse12 demoT12 1 [5, 7] true
      ON_CONFLICT_ACTION_REPLACE (demoT12.pIndex.getD 0 default)
      [demoT12.pIndex.getD 1 default] (by decide) with
    | ⟨q, op, h1, h2, _, h4, h5⟩ => ⟨q, op, h1, h2, h4, h5 (Or.inl (by decide))⟩⟩

end CompletionExamples

section SubSelectSeen

theorem opensForRead_iff (pTab : Table) (o : VdbeOp) :
    (o.opcode == OP_OpenRead && readsTable_match pTab o.p2) = true ↔ opensForRead pTab o := by
  unfold opensForRead
  rw [Bool.and_eq_true, beq_iff_eq, readsTable_match_iff]

theorem readsTable_ne_zero_iff (q : Parse) (pTab : Table) :
    readsTable q pTab ≠ 0 ↔ ∃ o ∈ (sqlite3GetVdbe q).aOp.drop 1, opensForRead pTab o := by
  unfold readsTable
  simp only []
  by_cases h : ((sqlite3GetVdbe q).aOp.drop 1).any
      (fun pOp => pOp.opcode == OP_OpenRead && readsTable_match pTab pOp.p2) = true
  · rw [if_pos h]
    obtain ⟨o, hm, ho⟩ := List.any_eq_true.1 h
    exact ⟨fun _ => ⟨o, hm, (opensForRead_iff pTab o).1 ho⟩, fun _ => by decide⟩
  · rw [if_neg h]
    refine ⟨fun hc => absurd rfl hc, ?_⟩
    rintro ⟨o, hm, ho⟩
    exact absurd (List.any_eq_true.2 ⟨o, hm, (opensForRead_iff pTab o).2 ho⟩) h

theorem readsTable_eq_one (q : Parse) (pTab : Table) (h : readsTable q pTab ≠ 0) :
    readsTable q pTab = 1 := by
  unfold readsTable at h ⊢
  simp only [] at h ⊢
  split_ifs at h ⊢
  · rfl
  · exact absurd rfl h

/-- The program the co-routine of the sub-select leaves when it has been compiled: the old
program, `OP_InitCoroutine` (with its jump target), the instructions of the sub-select and
`OP_EndCoroutine`. -/
theorem sqlite3Insert_coroutine_aOp (ext : Extern) (p : Parse) (pTab : Table)
    (L : InsertLocals) (s : Select)
    (hok : (sqlite3Insert_coroutine ext p pTab L s).1 = true) :
    ∃ init fin : VdbeOp,
      (sqlite3Insert_coroutine ext p pTab L s).2.2.aOp
        = p.aOp ++ init :: (sqlite3Insert_selectCode ext p pTab L s ++ [fin])
      ∧ init.opcode = OP_InitCoroutine ∧ fin.opcode = OP_EndCoroutine := by
  unfold sqlite3Insert_coroutine at hok ⊢
  unfold sqlite3Insert_selectCode
  simp only [sqlite3Select] at hok ⊢
  generalize (if L.bIdListInOrder = true then L.regData else 0) = d at hok ⊢
  split_ifs at hok ⊢
  have e : ∀ (a b : VdbeOp) (sel : List VdbeOp),
      changeOpAt (fun o => { o with p2 := ((p.aOp ++ [a] ++ sel ++ [b]).length : Int) })
          p.aOp.length (p.aOp ++ [a] ++ sel ++ [b])
        = p.aOp ++ { a with p2 := ((p.aOp ++ [a] ++ sel ++ [b]).length : Int) }
            :: (sel ++ [b]) := by
    intro a b sel
    rw [List.append_assoc, List.append_assoc, changeOpAt_length]
    rfl
  simp only [sqlite3VdbeEndCoroutine, sqlite3VdbeJumpHere, sqlite3VdbeAddOp1,
    sqlite3VdbeAddOp, sqlite3VdbeAddOp3, Parse.allocMem, sqlite3VdbeCurrentAddr,
    Nat.add_sub_cancel]
  exact ⟨_, _, e _ _ _, rfl, rfl⟩

/-- C40: once `sqlite3Insert` has compiled the co-routine of the sub-select, the program is
the earlier program of length `n`, then `OP_InitCoroutine` at address `n`, the instructions
of the sub-select and `OP_EndCoroutine`: instruction `j` of the sub-select lies at address
`n + 1 + j`, which is at least 1 and above the address of `OP_InitCoroutine`.  So the scan of
`readsTable`, which starts at address 1, covers every instruction of the sub-select:
`readsTable` returns 1 whenever the sub-select has emitted an `OP_OpenRead` of the destination
or of one of its indexes, it returns non-zero exactly when such an instruction is among those
of the sub-select or at an address from 1 on of the earlier program, and `sqlite3Insert` then
chooses the staged template (`useTempTable`). -/
theorem sqlite3Insert_select_seen (ext : Extern) (p : Parse) (pTab : Table)
    (L : InsertLocals) (s : Select)
    (hok : (sqlite3Insert_coroutine ext p pTab L s).1 = true) :
    (∃ init fin : VdbeOp,
      (sqlite3Insert_coroutine ext p pTab L s).2.2.aOp
        = p.aOp ++ init :: (sqlite3Insert_selectCode ext p pTab L s ++ [fin])
      ∧ init.opcode = OP_InitCoroutine ∧ fin.opcode = OP_EndCoroutine
      ∧ (sqlite3Insert_coroutine ext p pTab L s).2.2.aOp.get? p.aOp.length = some init)
    ∧ (∀ (j : Nat) (o : VdbeOp), (sqlite3Insert_selectCode ext p pTab L s).get? j = some o →
        (sqlite3Insert_coroutine ext p pTab L s).2.2.aOp.get? (p.aOp.length + 1 + j) = some o
        ∧ 1 ≤ p.aOp.length + 1 + j ∧ p.aOp.length < p.aOp.length + 1 + j)
    ∧ ((∃ o ∈ sqlite3Insert_selectCode ext p pTab L s, opensForRead pTab o) →
        readsTable (sqlite3Insert_coroutine ext p pTab L s).2.2 pTab = 1)
    ∧ (readsTable (sqlite3Insert_coroutine ext p pTab L s).2.2 pTab ≠ 0
        ↔ ((∃ o ∈ p.aOp.drop 1, opensForRead pTab o)
          ∨ ∃ o ∈ sqlite3Insert_selectCode ext p pTab L s, opensForRead pTab o))
    ∧ (∀ (onError : on_conflict_action) (r : InsertResult), L.pSelect = some s →
        sqlite3Insert_source ext p pTab onError L = some r →
        r.exit = InsertExit.insert_end →
        (∃ o ∈ sqlite3Insert_selectCode ext p pTab L s, opensForRead pTab o) →
        r.L.useTempTable = true) := by
  obtain ⟨init, fin, e, hi, hf⟩ := sqlite3Insert_coroutine_aOp ext p pTab L s hok
  have hni : ¬ opensForRead pTab init := by
    intro h
    have := h.1
    rw [hi] at this
    exact absurd this (by decide)
  have hnf : ¬ opensForRead pTab fin := by
    intro h
    have := h.1
    rw [hf] at this
    exact absurd this (by decide)
  have hnI : ¬ opensForRead pTab { opcode := OP_Init, p2 := 1 } := by
    intro h
    exact absurd h.1 (by decide)
  have hiff : readsTable (sqlite3Insert_coroutine ext p pTab L s).2.2 pTab ≠ 0
      ↔ ((∃ o ∈ p.aOp.drop 1, opensForRead pTab o)
        ∨ ∃ o ∈ sqlite3Insert_selectCode ext p pTab L s, opensForRead pTab o) := by
    rw [readsTable_ne_zero_iff]
    have hdrop : ∀ o, o ∈ (sqlite3GetVdbe (sqlite3Insert_coroutine ext p pTab L s).2.2).aOp.drop 1
        → o ∈ p.aOp.drop 1 ∨ o = init ∨ o ∈ sqlite3Insert_selectCode ext p pTab L s ∨ o = fin
          ∨ o = { opcode := OP_Init, p2 := 1 } := by
      intro o ho
      have hm := List.mem_of_mem_drop ho
      unfold sqlite3GetVdbe at ho hm
      split_ifs at ho hm
      · rw [e] at ho
        cases hp : p.aOp with
        | nil =>
          rw [hp] at ho
          simp only [List.nil_append, List.drop_succ_cons, List.drop_zero, List.mem_append,
            List.mem_singleton, List.mem_cons, List.not_mem_nil, or_false] at ho
          rcases ho with ho | ho
          · exact Or.inr (Or.inr (Or.inl ho))
          · exact Or.inr (Or.inr (Or.inr (Or.inl ho)))
        | cons x xs =>
          rw [hp] at ho
          simp only [List.cons_append, List.drop_succ_cons, List.drop_zero, List.mem_append,
            List.mem_cons, List.mem_singleton, List.not_mem_nil, or_false] at ho
          rcases ho with ho | ho | ho | ho
          · exact Or.inl (by simpa using ho)
          · exact Or.inr (Or.inl ho)
          · exact Or.inr (Or.inr (Or.inl ho))
          · exact Or.inr (Or.inr (Or.inr (Or.inl ho)))
      · simp only [e] at ho
        cases hp : p.aOp with
        | nil =>
          rw [hp] at ho
          simp only [List.nil_append, List.cons_append, List.drop_succ_cons, List.drop_zero,
            List.mem_append, List.mem_singleton, List.mem_cons, List.not_mem_nil, or_false] at ho
          rcases ho with (ho | ho) | ho
          · exact Or.inr (Or.inr (Or.inl ho))
          · exact Or.inr (Or.inr (Or.inr (Or.inl ho)))
          · exact Or.inr (Or.inr (Or.inr (Or.inr ho)))
        | cons x xs =>
          rw [hp] at ho
          simp only [List.cons_append, List.drop_succ_cons, List.drop_zero, List.mem_append,
            List.mem_cons, List.mem_singleton, List.not_mem_nil, or_false] at ho
          rcases ho with (ho | ho | ho | ho) | ho
          · exact Or.inl (by simpa using ho)
          · exact Or.inr (Or.inl ho)
          · exact Or.inr (Or.inr (Or.inl ho))
          · exact Or.inr (Or.inr (Or.inr (Or.inl ho)))
          · exact Or.inr (Or.inr (Or.inr (Or.inr ho)))
    have hback : ∀ o, (o ∈ p.aOp.drop 1 ∨ o ∈ sqlite3Insert_selectCode ext p pTab L s) →
        o ∈ (sqlite3GetVdbe (sqlite3Insert_coroutine ext p pTab L s).2.2).aOp.drop 1 := by
      intro o ho
      have hq : o ∈ (sqlite3Insert_coroutine ext p pTab L s).2.2.aOp.drop 1 := by
        rw [e]
        cases hp : p.aOp with
        | nil =>
          rw [hp] at ho
          simp only [List.drop_nil, List.not_mem_nil, false_or] at ho
          simp [ho]
        | cons x xs =>
          rw [hp] at ho
          simp only [List.drop_succ_cons, List.drop_zero] at ho
          simp only [List.cons_append, List.drop_succ_cons, List.drop_zero, List.mem_append,
            List.mem_cons, List.mem_singleton]
          rcases ho with ho | ho
          · exact Or.inl ho
          · exact Or.inr (Or.inr (Or.inl ho))
      unfold sqlite3GetVdbe
      split_ifs
      · exact hq
      · simp only []
        cases hq2 : (sqlite3Insert_coroutine ext p pTab L s).2.2.aOp with
        | nil =>
          rw [hq2] at hq
          simp at hq
        | cons y ys =>
          rw [hq2] at hq
          simp only [List.drop_succ_cons, List.drop_zero] at hq
          simp [hq]
    constructor
    · rintro ⟨o, hm, ho⟩
      rcases hdrop o hm with h | rfl | h | rfl | rfl
      · exact Or.inl ⟨o, h, ho⟩
      · exact absurd ho hni
      · exact Or.inr ⟨o, h, ho⟩
      · exact absurd ho hnf
      · exact absurd ho hnI
    · rintro (⟨o, hm, ho⟩ | ⟨o, hm, ho⟩)
      · exact ⟨o, hback o (Or.inl hm), ho⟩
      · exact ⟨o, hback o (Or.inr hm), ho⟩
  have hseen : (∃ o ∈ sqlite3Insert_selectCode ext p pTab L s, opensForRead pTab o) →
      readsTable (sqlite3Insert_coroutine ext p pTab L s).2.2 pTab = 1 :=
    fun h => readsTable_eq_one _ _ (hiff.2 (Or.inr h))
  refine ⟨⟨init, fin, e, hi, hf, ?_⟩, ?_, hseen, hiff, ?_⟩
  · rw [e, List.get?_eq_getElem?, List.getElem?_append_right (Nat.le_refl _), Nat.sub_self,
      List.getElem?_cons_zero]
  · intro j o hj
    refine ⟨?_, by omega, by omega⟩
    rw [e, List.get?_eq_getElem?, List.getElem?_append_right (by omega)]
    have e1 : p.aOp.length + 1 + j - p.aOp.length = j + 1 := by omega
    rw [e1, List.getElem?_cons_succ, List.getElem?_append_left, ← List.get?_eq_getElem?, hj]
    exact (List.get?_eq_some.1 hj).1
  · intro onError r hs h hexit hex
    obtain ⟨-, huse, -⟩ := sqlite3Insert_source_select ext p pTab onError L s r hs h hexit
    rw [huse]
    exact decide_eq_true (Or.inr (by rw [hseen hex]; decide))

end SubSelectSeen

section SubSelectExamples

/-- Witness of C40 on `INSERT INTO t2 SELECT * FROM t2 WHERE b` in the example context: the
sub-select opens `t2` for reading, its instructions follow `OP_InitCoroutine` at address 1,
and `readsTable` reports the read. -/
theorem sqlite3Insert_select_seen_witness :
    (sqlite3Insert_coroutine demoExtern demoParse demoT2
        { pSelect := some (demoStarWhere "t2"), regData := 2 } (demoStarWhere "t2")).1 = true
      ∧ (∃ o ∈ sqlite3Insert_selectCode demoExtern demoParse demoT2
            { pSelect := some (demoStarWhere "t2"), regData := 2 } (demoStarWhere "t2"),
          opensForRead demoT2 o)
      ∧ readsTable (sqlite3Insert_coroutine demoExtern demoParse demoT2
          { pSelect := some (demoStarWhere "t2"), regData := 2 } (demoStarWhere "t2")).2.2
          demoT2 = 1 :=
  ⟨by decide, by decide,
    (sqlite3Insert_select_seen demoExtern demoParse demoT2
      { pSelect := some (demoStarWhere "t2"), regData := 2 } (demoStarWhere "t2")
      (by decide)).2.2.1 (by decide)⟩

end SubSelectExamples

end SqlInsert
